import Mathlib

/-!
# Free42 key-event dispatcher (`common/core_keydown.cc`)

A shallow embedding of the key-event dispatcher of Free42 into Lean, and
theorems about it.

* The global variables that `core_keydown.cc` reads or assigns are the fields of
  `State`, under their C names.
* Functions of the calculator engine that are defined in other translation units
  (display, program storage, menus, command entry, ...) are not part of this file
  of the sources.  They appear through an `Engine`: `Engine.run` is the effect of
  a call on the globals, `Engine.ask` and `Engine.askS` are the values a call
  returns, `Engine.menus` and `Engine.cmd_array` are the static tables.
* Every call into the engine is recorded, in order, in the trace `St.tr`, so
  that "the audible error was emitted" or "a redisplay was requested" are
  statements about the trace.
-/

namespace Free42

/-! ## Enumerators of `core_globals.h`

The header that declares the key codes and the command, menu, catalog and
argument enumerators is not among the sources.  The key codes are fixed by the
table `cmd_getkey_mapping` and by the bound `key > 37` in `keydown`; for the other
families only distinctness and the order relations that `core_keydown.cc` itself
relies on are used below. -/

/-- Modelled from the spec: key code of the first menu key (declared in core_globals.h). -/
@[reducible, simp] def KEY_SIGMA : Int := 1
/-- Modelled from the spec: key code (declared in core_globals.h). -/
@[reducible, simp] def KEY_INV : Int := 2
/-- Modelled from the spec: key code (declared in core_globals.h). -/
@[reducible, simp] def KEY_SQRT : Int := 3
/-- Modelled from the spec: key code (declared in core_globals.h). -/
@[reducible, simp] def KEY_LOG : Int := 4
/-- Modelled from the spec: key code (declared in core_globals.h). -/
@[reducible, simp] def KEY_LN : Int := 5
/-- Modelled from the spec: key code (declared in core_globals.h). -/
@[reducible, simp] def KEY_XEQ : Int := 6
/-- Modelled from the spec: key code (declared in core_globals.h). -/
@[reducible, simp] def KEY_STO : Int := 7
/-- Modelled from the spec: key code (declared in core_globals.h). -/
@[reducible, simp] def KEY_RCL : Int := 8
/-- Modelled from the spec: key code (declared in core_globals.h). -/
@[reducible, simp] def KEY_RDN : Int := 9
/-- Modelled from the spec: key code (declared in core_globals.h). -/
@[reducible, simp] def KEY_SIN : Int := 10
/-- Modelled from the spec: key code (declared in core_globals.h). -/
@[reducible, simp] def KEY_COS : Int := 11
/-- Modelled from the spec: key code (declared in core_globals.h). -/
@[reducible, simp] def KEY_TAN : Int := 12
/-- Modelled from the spec: key code (declared in core_globals.h). -/
@[reducible, simp] def KEY_ENTER : Int := 13
/-- Modelled from the spec: key code (declared in core_globals.h). -/
@[reducible, simp] def KEY_SWAP : Int := 14
/-- Modelled from the spec: key code (declared in core_globals.h). -/
@[reducible, simp] def KEY_CHS : Int := 15
/-- Modelled from the spec: key code (declared in core_globals.h). -/
@[reducible, simp] def KEY_E : Int := 16
/-- Modelled from the spec: key code (declared in core_globals.h). -/
@[reducible, simp] def KEY_BSP : Int := 17
/-- Modelled from the spec: key code (declared in core_globals.h). -/
@[reducible, simp] def KEY_UP : Int := 18
/-- Modelled from the spec: key code (declared in core_globals.h). -/
@[reducible, simp] def KEY_7 : Int := 19
/-- Modelled from the spec: key code (declared in core_globals.h). -/
@[reducible, simp] def KEY_8 : Int := 20
/-- Modelled from the spec: key code (declared in core_globals.h). -/
@[reducible, simp] def KEY_9 : Int := 21
/-- Modelled from the spec: key code (declared in core_globals.h). -/
@[reducible, simp] def KEY_DIV : Int := 22
/-- Modelled from the spec: key code (declared in core_globals.h). -/
@[reducible, simp] def KEY_DOWN : Int := 23
/-- Modelled from the spec: key code (declared in core_globals.h). -/
@[reducible, simp] def KEY_4 : Int := 24
/-- Modelled from the spec: key code (declared in core_globals.h). -/
@[reducible, simp] def KEY_5 : Int := 25
/-- Modelled from the spec: key code (declared in core_globals.h). -/
@[reducible, simp] def KEY_6 : Int := 26
/-- Modelled from the spec: key code (declared in core_globals.h). -/
@[reducible, simp] def KEY_MUL : Int := 27
/-- Modelled from the spec: key code (declared in core_globals.h). -/
@[reducible, simp] def KEY_SHIFT : Int := 28
/-- Modelled from the spec: key code (declared in core_globals.h). -/
@[reducible, simp] def KEY_1 : Int := 29
/-- Modelled from the spec: key code (declared in core_globals.h). -/
@[reducible, simp] def KEY_2 : Int := 30
/-- Modelled from the spec: key code (declared in core_globals.h). -/
@[reducible, simp] def KEY_3 : Int := 31
/-- Modelled from the spec: key code (declared in core_globals.h). -/
@[reducible, simp] def KEY_SUB : Int := 32
/-- Modelled from the spec: key code (declared in core_globals.h). -/
@[reducible, simp] def KEY_EXIT : Int := 33
/-- Modelled from the spec: key code (declared in core_globals.h). -/
@[reducible, simp] def KEY_0 : Int := 34
/-- Modelled from the spec: key code (declared in core_globals.h). -/
@[reducible, simp] def KEY_DOT : Int := 35
/-- Modelled from the spec: key code (declared in core_globals.h). -/
@[reducible, simp] def KEY_RUN : Int := 36
/-- Modelled from the spec: key code (declared in core_globals.h). -/
@[reducible, simp] def KEY_ADD : Int := 37

/-! ### Pseudo-commands and commands -/

/-- Modelled from the spec: command identifier (declared in core_globals.h). -/
@[reducible, simp] def CMD_NONE : Int := -1
/-- Modelled from the spec: command identifier (declared in core_globals.h). -/
@[reducible, simp] def CMD_CANCELLED : Int := -2
/-- Modelled from the spec: command identifier (declared in core_globals.h). -/
@[reducible, simp] def CMD_LINGER1 : Int := -3
/-- Modelled from the spec: command identifier (declared in core_globals.h). -/
@[reducible, simp] def CMD_LINGER2 : Int := -4
/-- Modelled from the spec: command identifier (declared in core_globals.h). -/
@[reducible, simp] def CMD_CLX : Int := 0
/-- Modelled from the spec: command identifier (declared in core_globals.h). -/
@[reducible, simp] def CMD_ENTER : Int := 1
/-- Modelled from the spec: command identifier (declared in core_globals.h). -/
@[reducible, simp] def CMD_SWAP : Int := 2
/-- Modelled from the spec: command identifier (declared in core_globals.h). -/
@[reducible, simp] def CMD_RDN : Int := 3
/-- Modelled from the spec: command identifier (declared in core_globals.h). -/
@[reducible, simp] def CMD_CHS : Int := 4
/-- Modelled from the spec: command identifier (declared in core_globals.h). -/
@[reducible, simp] def CMD_DIV : Int := 5
/-- Modelled from the spec: command identifier (declared in core_globals.h). -/
@[reducible, simp] def CMD_MUL : Int := 6
/-- Modelled from the spec: command identifier (declared in core_globals.h). -/
@[reducible, simp] def CMD_SUB : Int := 7
/-- Modelled from the spec: command identifier (declared in core_globals.h). -/
@[reducible, simp] def CMD_ADD : Int := 8
/-- Modelled from the spec: command identifier (declared in core_globals.h). -/
@[reducible, simp] def CMD_LASTX : Int := 9
/-- Modelled from the spec: command identifier (declared in core_globals.h). -/
@[reducible, simp] def CMD_SILENT_OFF : Int := 10
/-- Modelled from the spec: command identifier (declared in core_globals.h). -/
@[reducible, simp] def CMD_OFF : Int := 11
/-- Modelled from the spec: command identifier (declared in core_globals.h). -/
@[reducible, simp] def CMD_SIN : Int := 12
/-- Modelled from the spec: command identifier (declared in core_globals.h). -/
@[reducible, simp] def CMD_COS : Int := 13
/-- Modelled from the spec: command identifier (declared in core_globals.h). -/
@[reducible, simp] def CMD_TAN : Int := 14
/-- Modelled from the spec: command identifier (declared in core_globals.h). -/
@[reducible, simp] def CMD_ASIN : Int := 15
/-- Modelled from the spec: command identifier (declared in core_globals.h). -/
@[reducible, simp] def CMD_ACOS : Int := 16
/-- Modelled from the spec: command identifier (declared in core_globals.h). -/
@[reducible, simp] def CMD_ATAN : Int := 17
/-- Modelled from the spec: command identifier (declared in core_globals.h). -/
@[reducible, simp] def CMD_LOG : Int := 18
/-- Modelled from the spec: command identifier (declared in core_globals.h). -/
@[reducible, simp] def CMD_10_POW_X : Int := 19
/-- Modelled from the spec: command identifier (declared in core_globals.h). -/
@[reducible, simp] def CMD_LN : Int := 20
/-- Modelled from the spec: command identifier (declared in core_globals.h). -/
@[reducible, simp] def CMD_E_POW_X : Int := 21
/-- Modelled from the spec: command identifier (declared in core_globals.h). -/
@[reducible, simp] def CMD_SQRT : Int := 22
/-- Modelled from the spec: command identifier (declared in core_globals.h). -/
@[reducible, simp] def CMD_SQUARE : Int := 23
/-- Modelled from the spec: command identifier (declared in core_globals.h). -/
@[reducible, simp] def CMD_INV : Int := 24
/-- Modelled from the spec: command identifier (declared in core_globals.h). -/
@[reducible, simp] def CMD_Y_POW_X : Int := 25
/-- Modelled from the spec: command identifier (declared in core_globals.h). -/
@[reducible, simp] def CMD_PERCENT : Int := 26
/-- Modelled from the spec: command identifier (declared in core_globals.h). -/
@[reducible, simp] def CMD_PI : Int := 27
/-- Modelled from the spec: command identifier (declared in core_globals.h). -/
@[reducible, simp] def CMD_COMPLEX : Int := 28
/-- Modelled from the spec: command identifier (declared in core_globals.h). -/
@[reducible, simp] def CMD_STO : Int := 29
/-- Modelled from the spec: command identifier (declared in core_globals.h). -/
@[reducible, simp] def CMD_STO_DIV : Int := 30
/-- Modelled from the spec: command identifier (declared in core_globals.h). -/
@[reducible, simp] def CMD_STO_MUL : Int := 31
/-- Modelled from the spec: command identifier (declared in core_globals.h). -/
@[reducible, simp] def CMD_STO_SUB : Int := 32
/-- Modelled from the spec: command identifier (declared in core_globals.h). -/
@[reducible, simp] def CMD_STO_ADD : Int := 33
/-- Modelled from the spec: command identifier (declared in core_globals.h). -/
@[reducible, simp] def CMD_RCL : Int := 34
/-- Modelled from the spec: command identifier (declared in core_globals.h). -/
@[reducible, simp] def CMD_RCL_DIV : Int := 35
/-- Modelled from the spec: command identifier (declared in core_globals.h). -/
@[reducible, simp] def CMD_RCL_MUL : Int := 36
/-- Modelled from the spec: command identifier (declared in core_globals.h). -/
@[reducible, simp] def CMD_RCL_SUB : Int := 37
/-- Modelled from the spec: command identifier (declared in core_globals.h). -/
@[reducible, simp] def CMD_RCL_ADD : Int := 38
/-- Modelled from the spec: command identifier (declared in core_globals.h). -/
@[reducible, simp] def CMD_NULL : Int := 39
/-- Modelled from the spec: command identifier (declared in core_globals.h). -/
@[reducible, simp] def CMD_ASTO : Int := 40
/-- Modelled from the spec: command identifier (declared in core_globals.h). -/
@[reducible, simp] def CMD_ARCL : Int := 41
/-- Modelled from the spec: command identifier (declared in core_globals.h). -/
@[reducible, simp] def CMD_CLA : Int := 42
/-- Modelled from the spec: command identifier (declared in core_globals.h). -/
@[reducible, simp] def CMD_CLP : Int := 43
/-- Modelled from the spec: command identifier (declared in core_globals.h). -/
@[reducible, simp] def CMD_CLV : Int := 44
/-- Modelled from the spec: command identifier (declared in core_globals.h). -/
@[reducible, simp] def CMD_CLALLa : Int := 45
/-- Modelled from the spec: command identifier (declared in core_globals.h). -/
@[reducible, simp] def CMD_CLALLb : Int := 46
/-- Modelled from the spec: command identifier (declared in core_globals.h). -/
@[reducible, simp] def CMD_SIGMAADD : Int := 47
/-- Modelled from the spec: command identifier (declared in core_globals.h). -/
@[reducible, simp] def CMD_SIGMASUB : Int := 48
/-- Modelled from the spec: command identifier (declared in core_globals.h). -/
@[reducible, simp] def CMD_GTO : Int := 49
/-- Modelled from the spec: command identifier (declared in core_globals.h). -/
@[reducible, simp] def CMD_XEQ : Int := 50
/-- Modelled from the spec: command identifier (declared in core_globals.h). -/
@[reducible, simp] def CMD_GTODOT : Int := 51
/-- Modelled from the spec: command identifier (declared in core_globals.h). -/
@[reducible, simp] def CMD_GTODOTDOT : Int := 52
/-- Modelled from the spec: command identifier (declared in core_globals.h). -/
@[reducible, simp] def CMD_LBL : Int := 53
/-- Modelled from the spec: command identifier (declared in core_globals.h). -/
@[reducible, simp] def CMD_RUN : Int := 54
/-- Modelled from the spec: command identifier (declared in core_globals.h). -/
@[reducible, simp] def CMD_SST : Int := 55
/-- Modelled from the spec: command identifier (declared in core_globals.h). -/
@[reducible, simp] def CMD_SST_UP : Int := 56
/-- Modelled from the spec: command identifier (declared in core_globals.h). -/
@[reducible, simp] def CMD_SST_RT : Int := 57
/-- Modelled from the spec: command identifier (declared in core_globals.h). -/
@[reducible, simp] def CMD_BST : Int := 58
/-- Modelled from the spec: command identifier (declared in core_globals.h). -/
@[reducible, simp] def CMD_ASSIGNa : Int := 59
/-- Modelled from the spec: command identifier (declared in core_globals.h). -/
@[reducible, simp] def CMD_ASGN01 : Int := 60
/-- Modelled from the spec: command identifier (declared in core_globals.h). -/
@[reducible, simp] def CMD_ASGN02 : Int := 61
/-- Modelled from the spec: command identifier (declared in core_globals.h). -/
@[reducible, simp] def CMD_ASGN03 : Int := 62
/-- Modelled from the spec: command identifier (declared in core_globals.h). -/
@[reducible, simp] def CMD_ASGN04 : Int := 63
/-- Modelled from the spec: command identifier (declared in core_globals.h). -/
@[reducible, simp] def CMD_ASGN05 : Int := 64
/-- Modelled from the spec: command identifier (declared in core_globals.h). -/
@[reducible, simp] def CMD_ASGN06 : Int := 65
/-- Modelled from the spec: command identifier (declared in core_globals.h). -/
@[reducible, simp] def CMD_ASGN07 : Int := 66
/-- Modelled from the spec: command identifier (declared in core_globals.h). -/
@[reducible, simp] def CMD_ASGN08 : Int := 67
/-- Modelled from the spec: command identifier (declared in core_globals.h). -/
@[reducible, simp] def CMD_ASGN09 : Int := 68
/-- Modelled from the spec: command identifier (declared in core_globals.h). -/
@[reducible, simp] def CMD_ASGN10 : Int := 69
/-- Modelled from the spec: command identifier (declared in core_globals.h). -/
@[reducible, simp] def CMD_ASGN11 : Int := 70
/-- Modelled from the spec: command identifier (declared in core_globals.h). -/
@[reducible, simp] def CMD_ASGN12 : Int := 71
/-- Modelled from the spec: command identifier (declared in core_globals.h). -/
@[reducible, simp] def CMD_ASGN13 : Int := 72
/-- Modelled from the spec: command identifier (declared in core_globals.h). -/
@[reducible, simp] def CMD_ASGN14 : Int := 73
/-- Modelled from the spec: command identifier (declared in core_globals.h). -/
@[reducible, simp] def CMD_ASGN15 : Int := 74
/-- Modelled from the spec: command identifier (declared in core_globals.h). -/
@[reducible, simp] def CMD_ASGN16 : Int := 75
/-- Modelled from the spec: command identifier (declared in core_globals.h). -/
@[reducible, simp] def CMD_ASGN17 : Int := 76
/-- Modelled from the spec: command identifier (declared in core_globals.h). -/
@[reducible, simp] def CMD_ASGN18 : Int := 77
/-- Modelled from the spec: command identifier (declared in core_globals.h). -/
@[reducible, simp] def CMD_KEYG : Int := 78
/-- Modelled from the spec: command identifier (declared in core_globals.h). -/
@[reducible, simp] def CMD_KEYX : Int := 79
/-- Modelled from the spec: command identifier (declared in core_globals.h). -/
@[reducible, simp] def CMD_KEY1G : Int := 80
/-- Modelled from the spec: command identifier (declared in core_globals.h). -/
@[reducible, simp] def CMD_KEY2G : Int := 81
/-- Modelled from the spec: command identifier (declared in core_globals.h). -/
@[reducible, simp] def CMD_KEY3G : Int := 82
/-- Modelled from the spec: command identifier (declared in core_globals.h). -/
@[reducible, simp] def CMD_KEY4G : Int := 83
/-- Modelled from the spec: command identifier (declared in core_globals.h). -/
@[reducible, simp] def CMD_KEY5G : Int := 84
/-- Modelled from the spec: command identifier (declared in core_globals.h). -/
@[reducible, simp] def CMD_KEY6G : Int := 85
/-- Modelled from the spec: command identifier (declared in core_globals.h). -/
@[reducible, simp] def CMD_KEY7G : Int := 86
/-- Modelled from the spec: command identifier (declared in core_globals.h). -/
@[reducible, simp] def CMD_KEY8G : Int := 87
/-- Modelled from the spec: command identifier (declared in core_globals.h). -/
@[reducible, simp] def CMD_KEY9G : Int := 88
/-- Modelled from the spec: command identifier (declared in core_globals.h). -/
@[reducible, simp] def CMD_KEY1X : Int := 89
/-- Modelled from the spec: command identifier (declared in core_globals.h). -/
@[reducible, simp] def CMD_KEY2X : Int := 90
/-- Modelled from the spec: command identifier (declared in core_globals.h). -/
@[reducible, simp] def CMD_KEY3X : Int := 91
/-- Modelled from the spec: command identifier (declared in core_globals.h). -/
@[reducible, simp] def CMD_KEY4X : Int := 92
/-- Modelled from the spec: command identifier (declared in core_globals.h). -/
@[reducible, simp] def CMD_KEY5X : Int := 93
/-- Modelled from the spec: command identifier (declared in core_globals.h). -/
@[reducible, simp] def CMD_KEY6X : Int := 94
/-- Modelled from the spec: command identifier (declared in core_globals.h). -/
@[reducible, simp] def CMD_KEY7X : Int := 95
/-- Modelled from the spec: command identifier (declared in core_globals.h). -/
@[reducible, simp] def CMD_KEY8X : Int := 96
/-- Modelled from the spec: command identifier (declared in core_globals.h). -/
@[reducible, simp] def CMD_KEY9X : Int := 97
/-- Modelled from the spec: command identifier (declared in core_globals.h). -/
@[reducible, simp] def CMD_PRP : Int := 98
/-- Modelled from the spec: command identifier (declared in core_globals.h). -/
@[reducible, simp] def CMD_PRV : Int := 99
/-- Modelled from the spec: command identifier (declared in core_globals.h). -/
@[reducible, simp] def CMD_LCLV : Int := 100
/-- Modelled from the spec: command identifier (declared in core_globals.h). -/
@[reducible, simp] def CMD_MVAR : Int := 101
/-- Modelled from the spec: command identifier (declared in core_globals.h). -/
@[reducible, simp] def CMD_XSTR : Int := 102
/-- Modelled from the spec: command identifier (declared in core_globals.h). -/
@[reducible, simp] def CMD_RTNERR : Int := 103
/-- Modelled from the spec: command identifier (declared in core_globals.h). -/
@[reducible, simp] def CMD_GOTOROW : Int := 104
/-- Modelled from the spec: command identifier (declared in core_globals.h). -/
@[reducible, simp] def CMD_GOTOCOLUMN : Int := 105
/-- Modelled from the spec: command identifier (declared in core_globals.h). -/
@[reducible, simp] def CMD_NUMBER : Int := 106
/-- Modelled from the spec: command identifier (declared in core_globals.h). -/
@[reducible, simp] def CMD_DROP : Int := 107
/-- Modelled from the spec: command identifier (declared in core_globals.h). -/
@[reducible, simp] def CMD_DROP_CANCL : Int := 108
/-- Modelled from the spec: command identifier (declared in core_globals.h). -/
@[reducible, simp] def CMD_DUP : Int := 109
/-- Modelled from the spec: command identifier (declared in core_globals.h). -/
@[reducible, simp] def CMD_CUSTOM : Int := 110
/-- Modelled from the spec: command identifier (declared in core_globals.h). -/
@[reducible, simp] def CMD_VIEW : Int := 111
/-- Modelled from the spec: command identifier (declared in core_globals.h). -/
@[reducible, simp] def CMD_VMEXEC : Int := 112
/-- Modelled from the spec: command identifier (declared in core_globals.h). -/
@[reducible, simp] def CMD_VMSTO : Int := 113
/-- Modelled from the spec: command identifier (declared in core_globals.h). -/
@[reducible, simp] def CMD_VMSTO2 : Int := 114
/-- Modelled from the spec: command identifier (declared in core_globals.h). -/
@[reducible, simp] def CMD_VMSOLVE : Int := 115
/-- Modelled from the spec: command identifier (declared in core_globals.h). -/
@[reducible, simp] def CMD_PGMSLV : Int := 116
/-- Modelled from the spec: command identifier (declared in core_globals.h). -/
@[reducible, simp] def CMD_PGMSLVi : Int := 117
/-- Modelled from the spec: command identifier (declared in core_globals.h). -/
@[reducible, simp] def CMD_PGMINT : Int := 118
/-- Modelled from the spec: command identifier (declared in core_globals.h). -/
@[reducible, simp] def CMD_PGMINTi : Int := 119
/-- Modelled from the spec: command identifier (declared in core_globals.h). -/
@[reducible, simp] def CMD_PMEXEC : Int := 120
/-- Modelled from the spec: command identifier (declared in core_globals.h). -/
@[reducible, simp] def CMD_INTEG : Int := 121
/-- Modelled from the spec: command identifier (declared in core_globals.h). -/
@[reducible, simp] def CMD_END : Int := 122
/-- Modelled from the spec: command identifier (declared in core_globals.h). -/
@[reducible, simp] def CMD_APPEND : Int := 123
/-- Modelled from the spec: command identifier (declared in core_globals.h). -/
@[reducible, simp] def CMD_BASEADD : Int := 124
/-- Modelled from the spec: command identifier (declared in core_globals.h). -/
@[reducible, simp] def CMD_BASESUB : Int := 125
/-- Modelled from the spec: command identifier (declared in core_globals.h). -/
@[reducible, simp] def CMD_BASEMUL : Int := 126
/-- Modelled from the spec: command identifier (declared in core_globals.h). -/
@[reducible, simp] def CMD_BASEDIV : Int := 127
/-- Modelled from the spec: command identifier (declared in core_globals.h). -/
@[reducible, simp] def CMD_BASECHS : Int := 128
/-- Modelled from the spec: command identifier (declared in core_globals.h). -/
@[reducible, simp] def CMD_SLN : Int := 129
/-- Modelled from the spec: command identifier (declared in core_globals.h). -/
@[reducible, simp] def CMD_SRN : Int := 130
/-- Modelled from the spec: command identifier (declared in core_globals.h). -/
@[reducible, simp] def CMD_RJ : Int := 131
/-- Modelled from the spec: command identifier (declared in core_globals.h). -/
@[reducible, simp] def CMD_ASRN : Int := 132

/-! ### Menus -/

/-- Modelled from the spec: menu identifier (declared in core_globals.h). -/
@[reducible, simp] def MENU_NONE : Int := -1
/-- Modelled from the spec: menu identifier (declared in core_globals.h). -/
@[reducible, simp] def MENU_ALPHA1 : Int := 0
/-- Modelled from the spec: menu identifier (declared in core_globals.h). -/
@[reducible, simp] def MENU_ALPHA2 : Int := 1
/-- Modelled from the spec: menu identifier (declared in core_globals.h). -/
@[reducible, simp] def MENU_ALPHA_ABCDE1 : Int := 2
/-- Modelled from the spec: menu identifier (declared in core_globals.h). -/
@[reducible, simp] def MENU_ALPHA_ABCDE2 : Int := 3
/-- Modelled from the spec: menu identifier (declared in core_globals.h). -/
@[reducible, simp] def MENU_ALPHA_FGHI : Int := 4
/-- Modelled from the spec: menu identifier (declared in core_globals.h). -/
@[reducible, simp] def MENU_ALPHA_JKLM : Int := 5
/-- Modelled from the spec: menu identifier (declared in core_globals.h). -/
@[reducible, simp] def MENU_ALPHA_NOPQ1 : Int := 6
/-- Modelled from the spec: menu identifier (declared in core_globals.h). -/
@[reducible, simp] def MENU_ALPHA_NOPQ2 : Int := 7
/-- Modelled from the spec: menu identifier (declared in core_globals.h). -/
@[reducible, simp] def MENU_ALPHA_RSTUV1 : Int := 8
/-- Modelled from the spec: menu identifier (declared in core_globals.h). -/
@[reducible, simp] def MENU_ALPHA_RSTUV2 : Int := 9
/-- Modelled from the spec: menu identifier (declared in core_globals.h). -/
@[reducible, simp] def MENU_ALPHA_WXYZ : Int := 10
/-- Modelled from the spec: menu identifier (declared in core_globals.h). -/
@[reducible, simp] def MENU_ALPHA_PAREN : Int := 11
/-- Modelled from the spec: menu identifier (declared in core_globals.h). -/
@[reducible, simp] def MENU_ALPHA_ARROW : Int := 12
/-- Modelled from the spec: menu identifier (declared in core_globals.h). -/
@[reducible, simp] def MENU_ALPHA_COMP : Int := 13
/-- Modelled from the spec: menu identifier (declared in core_globals.h). -/
@[reducible, simp] def MENU_ALPHA_MATH : Int := 14
/-- Modelled from the spec: menu identifier (declared in core_globals.h). -/
@[reducible, simp] def MENU_ALPHA_PUNC1 : Int := 15
/-- Modelled from the spec: menu identifier (declared in core_globals.h). -/
@[reducible, simp] def MENU_ALPHA_PUNC2 : Int := 16
/-- Modelled from the spec: menu identifier (declared in core_globals.h). -/
@[reducible, simp] def MENU_ALPHA_MISC1 : Int := 17
/-- Modelled from the spec: menu identifier (declared in core_globals.h). -/
@[reducible, simp] def MENU_ALPHA_MISC2 : Int := 18
/-- Modelled from the spec: menu identifier (declared in core_globals.h). -/
@[reducible, simp] def MENU_ST : Int := 19
/-- Modelled from the spec: menu identifier (declared in core_globals.h). -/
@[reducible, simp] def MENU_IND_ST : Int := 20
/-- Modelled from the spec: menu identifier (declared in core_globals.h). -/
@[reducible, simp] def MENU_IND : Int := 21
/-- Modelled from the spec: menu identifier (declared in core_globals.h). -/
@[reducible, simp] def MENU_MODES1 : Int := 22
/-- Modelled from the spec: menu identifier (declared in core_globals.h). -/
@[reducible, simp] def MENU_MODES2 : Int := 23
/-- Modelled from the spec: menu identifier (declared in core_globals.h). -/
@[reducible, simp] def MENU_MODES3 : Int := 24
/-- Modelled from the spec: menu identifier (declared in core_globals.h). -/
@[reducible, simp] def MENU_MODES4 : Int := 25
/-- Modelled from the spec: menu identifier (declared in core_globals.h). -/
@[reducible, simp] def MENU_MODES5 : Int := 26
/-- Modelled from the spec: menu identifier (declared in core_globals.h). -/
@[reducible, simp] def MENU_DISP : Int := 27
/-- Modelled from the spec: menu identifier (declared in core_globals.h). -/
@[reducible, simp] def MENU_CLEAR1 : Int := 28
/-- Modelled from the spec: menu identifier (declared in core_globals.h). -/
@[reducible, simp] def MENU_CLEAR2 : Int := 29
/-- Modelled from the spec: menu identifier (declared in core_globals.h). -/
@[reducible, simp] def MENU_CONVERT1 : Int := 30
/-- Modelled from the spec: menu identifier (declared in core_globals.h). -/
@[reducible, simp] def MENU_CONVERT2 : Int := 31
/-- Modelled from the spec: menu identifier (declared in core_globals.h). -/
@[reducible, simp] def MENU_FLAGS : Int := 32
/-- Modelled from the spec: menu identifier (declared in core_globals.h). -/
@[reducible, simp] def MENU_PROB : Int := 33
/-- Modelled from the spec: menu identifier (declared in core_globals.h). -/
@[reducible, simp] def MENU_CUSTOM1 : Int := 34
/-- Modelled from the spec: menu identifier (declared in core_globals.h). -/
@[reducible, simp] def MENU_CUSTOM2 : Int := 35
/-- Modelled from the spec: menu identifier (declared in core_globals.h). -/
@[reducible, simp] def MENU_CUSTOM3 : Int := 36
/-- Modelled from the spec: menu identifier (declared in core_globals.h). -/
@[reducible, simp] def MENU_PGM_FCN1 : Int := 37
/-- Modelled from the spec: menu identifier (declared in core_globals.h). -/
@[reducible, simp] def MENU_PGM_FCN2 : Int := 38
/-- Modelled from the spec: menu identifier (declared in core_globals.h). -/
@[reducible, simp] def MENU_PGM_FCN3 : Int := 39
/-- Modelled from the spec: menu identifier (declared in core_globals.h). -/
@[reducible, simp] def MENU_PGM_FCN4 : Int := 40
/-- Modelled from the spec: menu identifier (declared in core_globals.h). -/
@[reducible, simp] def MENU_PGM_XCOMP0 : Int := 41
/-- Modelled from the spec: menu identifier (declared in core_globals.h). -/
@[reducible, simp] def MENU_PGM_XCOMPY : Int := 42
/-- Modelled from the spec: menu identifier (declared in core_globals.h). -/
@[reducible, simp] def MENU_PRINT1 : Int := 43
/-- Modelled from the spec: menu identifier (declared in core_globals.h). -/
@[reducible, simp] def MENU_PRINT2 : Int := 44
/-- Modelled from the spec: menu identifier (declared in core_globals.h). -/
@[reducible, simp] def MENU_PRINT3 : Int := 45
/-- Modelled from the spec: menu identifier (declared in core_globals.h). -/
@[reducible, simp] def MENU_TOP_FCN : Int := 46
/-- Modelled from the spec: menu identifier (declared in core_globals.h). -/
@[reducible, simp] def MENU_CATALOG : Int := 47
/-- Modelled from the spec: menu identifier (declared in core_globals.h). -/
@[reducible, simp] def MENU_BLANK : Int := 48
/-- Modelled from the spec: menu identifier (declared in core_globals.h). -/
@[reducible, simp] def MENU_PROGRAMMABLE : Int := 49
/-- Modelled from the spec: menu identifier (declared in core_globals.h). -/
@[reducible, simp] def MENU_VARMENU : Int := 50
/-- Modelled from the spec: menu identifier (declared in core_globals.h). -/
@[reducible, simp] def MENU_STAT1 : Int := 51
/-- Modelled from the spec: menu identifier (declared in core_globals.h). -/
@[reducible, simp] def MENU_STAT2 : Int := 52
/-- Modelled from the spec: menu identifier (declared in core_globals.h). -/
@[reducible, simp] def MENU_STAT_CFIT : Int := 53
/-- Modelled from the spec: menu identifier (declared in core_globals.h). -/
@[reducible, simp] def MENU_STAT_MODL : Int := 54
/-- Modelled from the spec: menu identifier (declared in core_globals.h). -/
@[reducible, simp] def MENU_MATRIX1 : Int := 55
/-- Modelled from the spec: menu identifier (declared in core_globals.h). -/
@[reducible, simp] def MENU_MATRIX2 : Int := 56
/-- Modelled from the spec: menu identifier (declared in core_globals.h). -/
@[reducible, simp] def MENU_MATRIX3 : Int := 57
/-- Modelled from the spec: menu identifier (declared in core_globals.h). -/
@[reducible, simp] def MENU_MATRIX_SIMQ : Int := 58
/-- Modelled from the spec: menu identifier (declared in core_globals.h). -/
@[reducible, simp] def MENU_MATRIX_EDIT1 : Int := 59
/-- Modelled from the spec: menu identifier (declared in core_globals.h). -/
@[reducible, simp] def MENU_MATRIX_EDIT2 : Int := 60
/-- Modelled from the spec: menu identifier (declared in core_globals.h). -/
@[reducible, simp] def MENU_BASE1 : Int := 61
/-- Modelled from the spec: menu identifier (declared in core_globals.h). -/
@[reducible, simp] def MENU_BASE2 : Int := 62
/-- Modelled from the spec: menu identifier (declared in core_globals.h). -/
@[reducible, simp] def MENU_BASE3 : Int := 63
/-- Modelled from the spec: menu identifier (declared in core_globals.h). -/
@[reducible, simp] def MENU_BASE_A_THRU_F : Int := 64
/-- Modelled from the spec: menu identifier (declared in core_globals.h). -/
@[reducible, simp] def MENU_BASE_LOGIC : Int := 65
/-- Modelled from the spec: menu identifier (declared in core_globals.h). -/
@[reducible, simp] def MENU_BASE_DISP : Int := 66
/-- Modelled from the spec: menu identifier (declared in core_globals.h). -/
@[reducible, simp] def MENU_SOLVE : Int := 67
/-- Modelled from the spec: menu identifier (declared in core_globals.h). -/
@[reducible, simp] def MENU_INTEG : Int := 68
/-- Modelled from the spec: menu identifier (declared in core_globals.h). -/
@[reducible, simp] def MENU_INTEG_PARAMS : Int := 69

/-! ### Menu levels -/

/-- Modelled from the spec: menu level (declared in core_globals.h). -/
@[reducible, simp] def MENULEVEL_COMMAND : Int := 0
/-- Modelled from the spec: menu level (declared in core_globals.h). -/
@[reducible, simp] def MENULEVEL_ALPHA : Int := 1
/-- Modelled from the spec: menu level (declared in core_globals.h). -/
@[reducible, simp] def MENULEVEL_TRANSIENT : Int := 2
/-- Modelled from the spec: menu level (declared in core_globals.h). -/
@[reducible, simp] def MENULEVEL_PLAIN : Int := 3
/-- Modelled from the spec: menu level (declared in core_globals.h). -/
@[reducible, simp] def MENULEVEL_APP : Int := 4

/-! ### Catalog sections -/

/-- Modelled from the spec: catalog section (declared in core_globals.h). -/
@[reducible, simp] def CATSECT_TOP : Int := 0
/-- Modelled from the spec: catalog section (declared in core_globals.h). -/
@[reducible, simp] def CATSECT_FCN : Int := 1
/-- Modelled from the spec: catalog section (declared in core_globals.h). -/
@[reducible, simp] def CATSECT_PGM : Int := 2
/-- Modelled from the spec: catalog section (declared in core_globals.h). -/
@[reducible, simp] def CATSECT_REAL : Int := 3
/-- Modelled from the spec: catalog section (declared in core_globals.h). -/
@[reducible, simp] def CATSECT_CPX : Int := 4
/-- Modelled from the spec: catalog section (declared in core_globals.h). -/
@[reducible, simp] def CATSECT_MAT : Int := 5
/-- Modelled from the spec: catalog section (declared in core_globals.h). -/
@[reducible, simp] def CATSECT_LIST : Int := 6
/-- Modelled from the spec: catalog section (declared in core_globals.h). -/
@[reducible, simp] def CATSECT_MAT_LIST : Int := 7
/-- Modelled from the spec: catalog section (declared in core_globals.h). -/
@[reducible, simp] def CATSECT_PGM_ONLY : Int := 8
/-- Modelled from the spec: catalog section (declared in core_globals.h). -/
@[reducible, simp] def CATSECT_REAL_ONLY : Int := 9
/-- Modelled from the spec: catalog section (declared in core_globals.h). -/
@[reducible, simp] def CATSECT_MAT_ONLY : Int := 10
/-- Modelled from the spec: catalog section (declared in core_globals.h). -/
@[reducible, simp] def CATSECT_LIST_STR_ONLY : Int := 11
/-- Modelled from the spec: catalog section (declared in core_globals.h). -/
@[reducible, simp] def CATSECT_MAT_LIST_ONLY : Int := 12
/-- Modelled from the spec: catalog section (declared in core_globals.h). -/
@[reducible, simp] def CATSECT_LIST_ONLY : Int := 13
/-- Modelled from the spec: catalog section (declared in core_globals.h). -/
@[reducible, simp] def CATSECT_VARS_ONLY : Int := 14
/-- Modelled from the spec: catalog section (declared in core_globals.h). -/
@[reducible, simp] def CATSECT_PGM_SOLVE : Int := 15
/-- Modelled from the spec: catalog section (declared in core_globals.h). -/
@[reducible, simp] def CATSECT_PGM_INTEG : Int := 16
/-- Modelled from the spec: catalog section (declared in core_globals.h). -/
@[reducible, simp] def CATSECT_PGM_MENU : Int := 17
/-- Modelled from the spec: catalog section (declared in core_globals.h). -/
@[reducible, simp] def CATSECT_EXT_1 : Int := 18
/-- Modelled from the spec: catalog section (declared in core_globals.h). -/
@[reducible, simp] def CATSECT_EXT_TIME : Int := 19
/-- Modelled from the spec: catalog section (declared in core_globals.h). -/
@[reducible, simp] def CATSECT_EXT_XFCN : Int := 20
/-- Modelled from the spec: catalog section (declared in core_globals.h). -/
@[reducible, simp] def CATSECT_EXT_BASE : Int := 21
/-- Modelled from the spec: catalog section (declared in core_globals.h). -/
@[reducible, simp] def CATSECT_EXT_PRGM : Int := 22
/-- Modelled from the spec: catalog section (declared in core_globals.h). -/
@[reducible, simp] def CATSECT_EXT_STR : Int := 23
/-- Modelled from the spec: catalog section (declared in core_globals.h). -/
@[reducible, simp] def CATSECT_EXT_STK : Int := 24
/-- Modelled from the spec: catalog section (declared in core_globals.h). -/
@[reducible, simp] def CATSECT_EXT_2 : Int := 25
/-- Modelled from the spec: catalog section (declared in core_globals.h). -/
@[reducible, simp] def CATSECT_EXT_MISC : Int := 26
/-- Modelled from the spec: catalog section (declared in core_globals.h). -/
@[reducible, simp] def CATSECT_EXT_0_CMP : Int := 27
/-- Modelled from the spec: catalog section (declared in core_globals.h). -/
@[reducible, simp] def CATSECT_EXT_X_CMP : Int := 28

/-! ### Argument kinds of commands -/

/-- Modelled from the spec: argument kind of a command (declared in core_globals.h). -/
@[reducible, simp] def ARG_NONE : Int := 0
/-- Modelled from the spec: argument kind of a command (declared in core_globals.h). -/
@[reducible, simp] def ARG_VAR : Int := 1
/-- Modelled from the spec: argument kind of a command (declared in core_globals.h). -/
@[reducible, simp] def ARG_REAL : Int := 2
/-- Modelled from the spec: argument kind of a command (declared in core_globals.h). -/
@[reducible, simp] def ARG_NAMED : Int := 3
/-- Modelled from the spec: argument kind of a command (declared in core_globals.h). -/
@[reducible, simp] def ARG_NUM9 : Int := 4
/-- Modelled from the spec: argument kind of a command (declared in core_globals.h). -/
@[reducible, simp] def ARG_NUM11 : Int := 5
/-- Modelled from the spec: argument kind of a command (declared in core_globals.h). -/
@[reducible, simp] def ARG_NUM99 : Int := 6
/-- Modelled from the spec: argument kind of a command (declared in core_globals.h). -/
@[reducible, simp] def ARG_COUNT : Int := 7
/-- Modelled from the spec: argument kind of a command (declared in core_globals.h). -/
@[reducible, simp] def ARG_FUNC : Int := 8
/-- Modelled from the spec: argument kind of a command (declared in core_globals.h). -/
@[reducible, simp] def ARG_LBL : Int := 9
/-- Modelled from the spec: argument kind of a command (declared in core_globals.h). -/
@[reducible, simp] def ARG_CKEY : Int := 10
/-- Modelled from the spec: argument kind of a command (declared in core_globals.h). -/
@[reducible, simp] def ARG_MKEY : Int := 11
/-- Modelled from the spec: argument kind of a command (declared in core_globals.h). -/
@[reducible, simp] def ARG_PRGM : Int := 12
/-- Modelled from the spec: argument kind of a command (declared in core_globals.h). -/
@[reducible, simp] def ARG_RVAR : Int := 13
/-- Modelled from the spec: argument kind of a command (declared in core_globals.h). -/
@[reducible, simp] def ARG_MAT : Int := 14
/-- Modelled from the spec: argument kind of a command (declared in core_globals.h). -/
@[reducible, simp] def ARG_M_STK : Int := 15
/-- Modelled from the spec: argument kind of a command (declared in core_globals.h). -/
@[reducible, simp] def ARG_L_STK : Int := 16
/-- Modelled from the spec: argument kind of a command (declared in core_globals.h). -/
@[reducible, simp] def ARG_XSTR : Int := 17
/-- Modelled from the spec: argument kind of a command (declared in core_globals.h). -/
@[reducible, simp] def ARG_OTHER : Int := 18

/-! ### Argument types -/

/-- Modelled from the spec: argument type (declared in core_globals.h). -/
@[reducible, simp] def ARGTYPE_NONE : Int := 0
/-- Modelled from the spec: argument type (declared in core_globals.h). -/
@[reducible, simp] def ARGTYPE_NUM : Int := 1
/-- Modelled from the spec: argument type (declared in core_globals.h). -/
@[reducible, simp] def ARGTYPE_NEG_NUM : Int := 2
/-- Modelled from the spec: argument type (declared in core_globals.h). -/
@[reducible, simp] def ARGTYPE_STK : Int := 3
/-- Modelled from the spec: argument type (declared in core_globals.h). -/
@[reducible, simp] def ARGTYPE_STR : Int := 4
/-- Modelled from the spec: argument type (declared in core_globals.h). -/
@[reducible, simp] def ARGTYPE_IND_NUM : Int := 5
/-- Modelled from the spec: argument type (declared in core_globals.h). -/
@[reducible, simp] def ARGTYPE_IND_STK : Int := 6
/-- Modelled from the spec: argument type (declared in core_globals.h). -/
@[reducible, simp] def ARGTYPE_IND_STR : Int := 7
/-- Modelled from the spec: argument type (declared in core_globals.h). -/
@[reducible, simp] def ARGTYPE_COMMAND : Int := 8
/-- Modelled from the spec: argument type (declared in core_globals.h). -/
@[reducible, simp] def ARGTYPE_DOUBLE : Int := 9
/-- Modelled from the spec: argument type (declared in core_globals.h). -/
@[reducible, simp] def ARGTYPE_LBLINDEX : Int := 10
/-- Modelled from the spec: argument type (declared in core_globals.h). -/
@[reducible, simp] def ARGTYPE_LCLBL : Int := 11
/-- Modelled from the spec: argument type (declared in core_globals.h). -/
@[reducible, simp] def ARGTYPE_XSTR : Int := 12

/-! ### Error codes -/

/-- Modelled from the spec: error code (declared in core_globals.h). -/
@[reducible, simp] def ERR_NONE : Int := 0
/-- Modelled from the spec: error code (declared in core_globals.h). -/
@[reducible, simp] def ERR_INSUFFICIENT_MEMORY : Int := 1
/-- Modelled from the spec: error code (declared in core_globals.h). -/
@[reducible, simp] def ERR_NONEXISTENT : Int := 2
/-- Modelled from the spec: error code (declared in core_globals.h). -/
@[reducible, simp] def ERR_RESTRICTED_OPERATION : Int := 3
/-- Modelled from the spec: error code (declared in core_globals.h). -/
@[reducible, simp] def ERR_NO_REAL_VARIABLES : Int := 4
/-- Modelled from the spec: error code (declared in core_globals.h). -/
@[reducible, simp] def ERR_NO_COMPLEX_VARIABLES : Int := 5
/-- Modelled from the spec: error code (declared in core_globals.h). -/
@[reducible, simp] def ERR_NO_MATRIX_VARIABLES : Int := 6
/-- Modelled from the spec: error code (declared in core_globals.h). -/
@[reducible, simp] def ERR_NO_MENU_VARIABLES : Int := 7
/-- Modelled from the spec: error code (declared in core_globals.h). -/
@[reducible, simp] def ERR_NO_VARIABLES : Int := 8
/-- Modelled from the spec: error code (declared in core_globals.h). -/
@[reducible, simp] def ERR_PROGRAM_LOCKED : Int := 9
/-- Modelled from the spec: error code (declared in core_globals.h). -/
@[reducible, simp] def ERR_NEXT_PROGRAM_LOCKED : Int := 10

/-! ### Object types, stack registers, command flags -/

/-- Modelled from the spec: engine constant (declared in core_globals.h). -/
@[reducible, simp] def TYPE_REAL : Int := 1
/-- Modelled from the spec: engine constant (declared in core_globals.h). -/
@[reducible, simp] def TYPE_STRING : Int := 5
/-- Modelled from the spec: engine constant (declared in core_globals.h). -/
@[reducible, simp] def TYPE_LIST : Int := 6
/-- Modelled from the spec: engine constant (declared in core_globals.h). -/
@[reducible, simp] def REG_T : Int := 0
/-- Modelled from the spec: engine constant (declared in core_globals.h). -/
@[reducible, simp] def FLAG_IMMED : Int := 2

/-! ## C arrays -/

/-- Read of a C array cell; cells that were never written read as 0. -/
def aget (a : List Nat) (i : Int) : Nat :=
  if i < 0 then 0 else a.getD i.toNat 0

/-- Write of a C array cell. The list grows when the cell lies beyond its end. -/
def aset (a : List Nat) (i : Int) (v : Nat) : List Nat :=
  if i < 0 then a
  else if i.toNat < a.length then a.set i.toNat v
  else a ++ List.replicate (i.toNat - a.length) 0 ++ [v]

/-- The loop `for (i = 0; i < n; i++) dst[i] = src[i];`. -/
def acopy (dst src : List Nat) (n : Int) : List Nat :=
  (List.range n.toNat).foldl (fun (d : List Nat) (i : Nat) => aset d (i : Int) (aget src (i : Int))) dst

/-- The first `n` cells of a C array, as the text they hold. -/
def atake (a : List Nat) (n : Int) : List Nat :=
  (List.range n.toNat).map (fun i : Nat => aget a (i : Int))

/-- The loop `for (i = from; i < to; i++) a[i] = a[i + 1];` (closing a gap). -/
def ashift_left (a : List Nat) (lo hi : Int) : List Nat :=
  (List.range (hi - lo).toNat).foldl
    (fun (d : List Nat) (k : Nat) => aset d (lo + (k : Int)) (aget d (lo + (k : Int) + 1))) a

/-- The loop `for (i = from; i > to; i--) a[i] = a[i - 1];` (opening a gap). -/
def ashift_right (a : List Nat) (hi lo : Int) : List Nat :=
  (List.range (hi - lo).toNat).foldl
    (fun (d : List Nat) (k : Nat) => aset d (hi - (k : Int)) (aget d (hi - (k : Int) - 1))) a

/-! ## Data of the engine seen by the dispatcher -/

/-- The numbers of the engine (`phloat`). Their arithmetic is not modelled: a
value is named by what it was converted from. -/
inductive phloat where
  | of_int (n : Int)
  | of_string (text : List Nat)
  deriving DecidableEq

/-- An object on the stack (`vartype`): its type tag and, for a real, its value. -/
structure vartype where
  type : Int
  x : phloat
  deriving DecidableEq

/-- Argument of a command (`arg_struct`). The members of the C union `val` are
separate fields here. -/
structure arg_struct where
  type : Int
  length : Int
  num : Int
  text : List Nat
  stk : Nat
  lclbl : Nat
  xstr : List Nat
  val_d : phloat
  deriving DecidableEq

/-- One soft key of a menu (`menu_item_spec`). -/
structure menu_item_spec where
  menuid : Int
  title_length : Int
  title : List Nat
  deriving DecidableEq

/-- One row of the static menu table (`menu_spec`). -/
structure menu_spec where
  parent : Int
  next : Int
  prev : Int
  child : List menu_item_spec
  deriving DecidableEq

/-- One row of the command table (`command_spec`), as far as the dispatcher reads it. -/
structure command_spec where
  name : List Nat
  name_length : Int
  argtype : Int
  flags : Nat
  deriving DecidableEq

/-- The flags of `flags.f` that the dispatcher reads or assigns. -/
structure flags_struct where
  shift_state : Int
  prgm_mode : Bool
  message : Bool
  two_line_message : Bool
  big_stack : Bool
  trace_print : Bool
  normal_print : Bool
  printer_exists : Bool
  stack_lift_disable : Bool
  numeric_data_input : Bool
  alpha_data_input : Bool
  decimal_point : Bool
  base_signed : Bool
  local_label : Bool
  deriving DecidableEq

/-- The global variables that `core_keydown.cc` reads or assigns. `ext` stands
for the rest of the memory of the engine (display, programs, variables, ...),
which the dispatcher reaches only through calls. -/
structure State where
  flags : flags_struct
  pending_command : Int
  pending_command_arg : arg_struct
  mode_clall : Bool
  mode_getkey : Bool
  mode_getkey1 : Bool
  mode_running : Bool
  mode_number_entry : Int
  mode_command_entry : Bool
  mode_alpha_entry : Bool
  mode_varmenu : Bool
  mode_appmenu : Int
  mode_plainmenu : Int
  mode_transientmenu : Int
  mode_alphamenu : Int
  mode_commandmenu : Int
  mode_plainmenu_sticky : Bool
  entered_number : phloat
  cmdline : List Nat
  cmdline_length : Int
  cmdline_row : Int
  pc : Int
  prgm_highlight_row : Int
  current_prgm : Int
  prgms_count : Int
  deferred_print : Bool
  input_length : Int
  repeating : Int
  repeating_shift : Int
  repeating_key : Int
  incomplete_command : Int
  incomplete_argtype : Int
  incomplete_ind : Bool
  incomplete_alpha : Bool
  incomplete_maxdigits : Int
  incomplete_num : Int
  incomplete_length : Int
  incomplete_str : List Nat
  xeq_invisible : Int
  remove_program_catalog : Int
  varmenu_row : Int
  varmenu_rows : Int
  varmenu_role : Int
  varmenu_labellength : List Int
  varmenu_labeltext : List (List Nat)
  entered_string : List Nat
  entered_string_length : Int
  reg_alpha_length : Int
  baseapp : Bool
  matedit_i : Int
  matedit_j : Int
  matedit_is_list : Bool
  matedit_stack : List Int
  matedit_stack_depth : Int
  sp : Int
  stack : List (Option vartype)
  vars_count : Int
  auto_repeat : Bool
  ext : Nat
  deriving DecidableEq

/-- A call of a function of the engine or of the shell that acts on memory or on
the outside world. The arguments are those of the C call; text arguments that only
name what is printed or drawn are kept as given. The last five constructors are
not calls: they mark, in the trace, the entry into one of the four handlers and
the read of a local variable that was never assigned. -/
inductive Call where
  | squeak
  | redisplay
  | flush_display
  | set_annunciators (updn shf prt run g rad : Int)
  | display_error (err : Int)
  | clear_row (row : Int)
  | draw_string (x y : Int) (text : List Nat) (length : Int)
  | draw_char (x y : Int) (c : Nat)
  | display_y (row : Int)
  | display_prgm_line (row line_offset : Int)
  | display_mem
  | show_
  | print_menu_trace (name : String) (length : Int)
  | print_menu_trace_item (title : List Nat) (length : Int)
  | print_menu_trace_always (name : String) (length : Int)
  | print_command (cmd : Int) (arg : Option arg_struct)
  | print_right (right : List Nat) (length : Int)
  | docmd_pra
  | docmd_stoel
  | docmd_rclel
  | set_menu (level menuid : Int)
  | set_menu_return_err (level menuid : Int) (exitall : Bool)
  | set_cat_section (section_ : Int)
  | move_cat_row (direction : Int)
  | set_cat_row (row : Int)
  | set_catalog_menu (section_ : Int)
  | set_plainmenu (menuid : Int) (name : String) (length : Int)
  | set_appmenu_exitcallback (callback_id : Int)
  | store_command (pc cmd : Int) (arg : arg_struct) (num_str : Option (List Nat))
  | store_command_after (cmd : Int) (arg : arg_struct)
  | delete_command (pc : Int)
  | clear_all_rtns
  | bst
  | sst
  | start_alpha_prgm_line
  | finish_alpha_prgm_line
  | append_alpha_char (c : Nat)
  | do_interactive (command : Int)
  | do_prgm_menu_key (keynum : Int)
  | finish_command_entry (refresh : Bool)
  | start_incomplete_command (cmd : Int)
  | finish_xeq
  | recall_result (v : vartype)
  | set_running (state : Bool)
  | ensure_stack_capacity (n : Int)
  | matedit_goto (row column : Int)
  | set_integ_var (name : List Nat) (length : Int)
  | view_helper (arg : arg_struct) (print : Int)
  | shell_request_timeout3 (delay : Int)
  | shell_delay (duration : Int)
  | fix_thousands_separators
  | fix_base_separators
  | enter_number_entry
  | enter_command_entry
  | enter_alpha_mode
  | enter_normal_mode
  | uninitialized_read

/-- A call of the engine whose integer (or boolean, as 0 or 1) result the
dispatcher uses. Where the C function also acts on memory, the action is the
`Call` of the same name and the result is read in the state before the call. -/
inductive Query where
  | get_front_menu
  | get_base
  | alpha_active
  | effective_wsize
  | find_menu_key (key : Int)
  | get_cat_section
  | get_cat_row
  | get_cat_item (menukey : Int)
  | vars_exist (section_ : Int)
  | mvar_prgms_exist
  | pc2line (pc : Int)
  | line2pc (line : Int)
  | prgm_locked (prgm : Int)
  | prgm_is_end (prgm pc : Int)
  | get_command_length (prgm pc : Int)
  | string2phloat (buf : List Nat) (length : Int)
  | new_real_ok
  | label_length (index : Int)
  | var_length (index : Int)
  | custom_key_length (keynum : Int)
  | find_global_label (arg : arg_struct)
  | lookup_var (name : List Nat) (length : Int)
  | find_builtin (name : List Nat) (length : Int)
  | matedit_get
  | matedit_get_type
  | ensure_stack_capacity (n : Int)
  | start_alpha_prgm_line
  | view_helper (arg : arg_struct) (print : Int)
  | recall_result (v : vartype)
  | docmd_stoel
  | docmd_rclel
  | set_menu_return_err (level menuid : Int) (exitall : Bool)
  | integ_var_length

/-- A call of the engine whose text result the dispatcher uses. -/
inductive SQuery where
  | label_name (index : Int)
  | var_name (index : Int)
  | custom_key_name (keynum : Int)
  | xlabel
  | int2string (n : Int)
  | integ_var

/-- The engine behind the dispatcher: what its calls do to the globals
(`run`), what they return (`ask`, `askS`), and its two static tables. -/
structure Engine where
  run : Call → State → State
  ask : Query → State → Int
  askS : SQuery → State → List Nat
  menus : Int → menu_spec
  cmd_array : Int → command_spec

/-- The state of the machine while a key is handled: the globals, and the
calls made so far, the oldest first. -/
structure St where
  s : State
  tr : List Call

/-- Makes the call `c`: the engine acts on the globals and the call is recorded. -/
def St.call (E : Engine) (c : Call) (st : St) : St :=
  { s := E.run c st.s, tr := st.tr ++ [c] }

/-- Records the mark `c` in the trace; the globals are left as they are. -/
def St.mark (c : Call) (st : St) : St :=
  { s := st.s, tr := st.tr ++ [c] }

/-- An assignment to globals made by the dispatcher itself. -/
def St.upd (f : State → State) (st : St) : St :=
  { s := f st.s, tr := st.tr }

/-- The character codes of a C string literal. -/
def str (s : String) : List Nat := s.toList.map Char.toNat

/-- An `arg_struct` local variable before any member is assigned. -/
def arg_zero : arg_struct :=
  { type := 0, length := 0, num := 0, text := [], stk := 0, lclbl := 0, xstr := [],
    val_d := phloat.of_int 0 }

/-- The result of `new_real(x)`: a fresh real object, or NULL when the engine is
out of memory. -/
def new_real (E : Engine) (s : State) (x : phloat) : Option vartype :=
  if E.ask .new_real_ok s ≠ 0 then some { type := TYPE_REAL, x := x } else none

/-- The assignment `stack[i] = v`. -/
def stack_set (stack : List (Option vartype)) (i : Int) (v : Option vartype) :
    List (Option vartype) :=
  if i < 0 then stack else stack.set i.toNat v

/-- The type tag read by `stack[i]->type` (0 when there is no object). -/
def stack_type (stack : List (Option vartype)) (i : Int) : Int :=
  if i < 0 then 0 else
  match stack.getD i.toNat none with
  | some v => v.type
  | none => 0

/-- First index `i < n` with `p a[i]`, or -1: the search loops of the form
`for (i = 0; i < n; i++) if (...) { pos = i; break; }`. -/
def find_pos (a : List Nat) (n : Int) (p : Nat → Bool) : Int :=
  match (List.range n.toNat).find? (fun i : Nat => p (aget a (i : Int))) with
  | some i => i
  | none => -1

/-! ## `is_number_key`, `basekeys`, `set_solve_integ`, `view` (lines 34-112) -/

/-- The function `is_number_key(shift, key, &invalid)`: the first component is the
value returned, the second the value left in `*invalid`. -/
def is_number_key (E : Engine) (shift key : Int) (s : State) : Bool × Bool :=
  if E.ask .get_front_menu s = MENU_BASE_A_THRU_F
      ∧ (key = KEY_SIGMA ∨ key = KEY_INV ∨ key = KEY_SQRT
          ∨ key = KEY_LOG ∨ key = KEY_LN ∨ key = KEY_XEQ) then (true, false)
  else if shift ≠ 0 then (false, false)
  else if key = KEY_0 ∨ key = KEY_1 then (true, false)
  else
    let base := E.ask .get_base s
    if key = KEY_DOT ∨ key = KEY_E then (true, decide (base ≠ 10))
    else if key = KEY_2 ∨ key = KEY_3 ∨ key = KEY_4
        ∨ key = KEY_5 ∨ key = KEY_6 ∨ key = KEY_7 then (true, decide (base = 2))
    else if key = KEY_8 ∨ key = KEY_9 then (true, decide (base = 2 ∨ base = 8))
    else (false, false)

/-- The function `basekeys()`. -/
def basekeys (E : Engine) (s : State) : Bool :=
  if ¬ s.baseapp then false
  else
    let menu := E.ask .get_front_menu s
    decide (menu ≥ MENU_BASE1 ∧ menu ≤ MENU_BASE_DISP)

/-- The function `set_solve_integ(solve)`. -/
def set_solve_integ (E : Engine) (solve : Bool) (st : St) : St :=
  let st := if solve then st.call E (.print_menu_trace "SOLVER" 6)
            else st.call E (.print_menu_trace "\x03f(x)" 5)
  let st :=
    if st.s.flags.prgm_mode ∨ E.ask .mvar_prgms_exist st.s = 0 then
      let st := st.call E (.set_menu MENULEVEL_APP (if solve then MENU_SOLVE else MENU_INTEG))
      if ¬ st.s.flags.prgm_mode then st.call E (.display_error ERR_NO_MENU_VARIABLES) else st
    else
      let err := E.ask (.set_menu_return_err MENULEVEL_APP MENU_CATALOG false) st.s
      let st := st.call E (.set_menu_return_err MENULEVEL_APP MENU_CATALOG false)
      if err = ERR_NONE then
        let st := st.call E (.set_cat_section (if solve then CATSECT_PGM_SOLVE else CATSECT_PGM_INTEG))
        let st := st.call E (.move_cat_row 0)
        let st := st.call E (.clear_row 0)
        let st := if solve then st.call E (.draw_string 0 0 (str "Select Solve Program") 20)
                  else st.call E (.draw_string 0 0 (str "Select \x03f(x) Program") 20)
        st.upd (fun s => { s with flags := { s.flags with message := true, two_line_message := false } })
      else st.call E (.display_error err)
  st.call E .redisplay

/-- The function `view(varname, varlength)`. -/
def view (E : Engine) (varname : List Nat) (varlength : Int) (st : St) : St :=
  let arg : arg_struct :=
    { arg_zero with type := ARGTYPE_STR, length := varlength, text := acopy [] varname varlength }
  let err := E.ask (.view_helper arg 0) st.s
  let st := st.call E (.view_helper arg 0)
  if err ≠ ERR_NONE then
    let st := st.call E (.display_error err)
    let st := st.call E .flush_display
    st.upd (fun s => { s with pending_command := CMD_NONE })
  else
    let st := st.upd (fun s => { s with flags := { s.flags with message := false } })
    let st := st.upd (fun s => { s with pending_command := CMD_LINGER1 })
    st.call E (.shell_request_timeout3 2000)

/-! ## `cmd_getkey_mapping`, `find_cmd_getkey_mapping` (lines 114-169) -/

/-- The struct `cmd_getkey_mapping_struct`. -/
structure cmd_getkey_mapping_struct where
  key : Int
  cmd : Int
  deriving DecidableEq

/-- The table `cmd_getkey_mapping`, its sentinel included. -/
def cmd_getkey_mapping : List cmd_getkey_mapping_struct :=
  [ ⟨1, CMD_SIGMAADD⟩, ⟨2, CMD_INV⟩, ⟨3, CMD_SQRT⟩, ⟨4, CMD_LOG⟩, ⟨5, CMD_LN⟩, ⟨6, CMD_XEQ⟩,
    ⟨7, CMD_STO⟩, ⟨8, CMD_RCL⟩, ⟨9, CMD_RDN⟩, ⟨10, CMD_SIN⟩, ⟨11, CMD_COS⟩, ⟨12, CMD_TAN⟩,
    ⟨13, CMD_ENTER⟩, ⟨14, CMD_SWAP⟩, ⟨15, CMD_CHS⟩, ⟨22, CMD_DIV⟩, ⟨27, CMD_MUL⟩, ⟨32, CMD_SUB⟩,
    ⟨37, CMD_ADD⟩, ⟨38, CMD_SIGMASUB⟩, ⟨39, CMD_Y_POW_X⟩, ⟨40, CMD_SQUARE⟩, ⟨41, CMD_10_POW_X⟩,
    ⟨42, CMD_E_POW_X⟩, ⟨43, CMD_GTO⟩, ⟨44, CMD_COMPLEX⟩, ⟨45, CMD_PERCENT⟩, ⟨46, CMD_PI⟩,
    ⟨47, CMD_ASIN⟩, ⟨48, CMD_ACOS⟩, ⟨49, CMD_ATAN⟩, ⟨51, CMD_LASTX⟩, ⟨55, CMD_BST⟩, ⟨60, CMD_SST⟩,
    ⟨66, CMD_ASSIGNa⟩, ⟨70, CMD_OFF⟩, ⟨0, CMD_NONE⟩ ]

/-- The loop of `find_cmd_getkey_mapping`, with `gm` pointing at the head of the
list. It has no result when the pointer runs off the table. -/
def find_cmd_getkey_mapping_from : List cmd_getkey_mapping_struct → Int → Option Int
  | [], _ => none
  | gm :: rest, cmd =>
    if gm.key = 0 then some 0
    else if gm.cmd = cmd then some gm.key
    else find_cmd_getkey_mapping_from rest cmd

/-- The function `find_cmd_getkey_mapping(cmd)`. -/
def find_cmd_getkey_mapping (cmd : Int) : Option Int :=
  find_cmd_getkey_mapping_from cmd_getkey_mapping cmd

/-! ## `keydown_number_entry` (lines 418-705) -/

/-- How a block of a handler ends: the handler returns (`ret`), or control
falls through to the code after the block (`go`). -/
inductive Flow where
  | ret (st : St)
  | go (st : St)

/-- The code `k` that follows a block: it runs when the block falls through. -/
def Flow.next (flow : Flow) (k : St → St) : St :=
  match flow with
  | .ret st => st
  | .go st => k st

/-- A block followed by another block `k` of the same handler. -/
def Flow.bind (flow : Flow) (k : St → Flow) : Flow :=
  match flow with
  | .ret st => .ret st
  | .go st => k st

/-- The machine state in which a block ends. -/
def Flow.st : Flow → St
  | .ret st => st
  | .go st => st

/-- Whether control falls through to the code after the block. -/
def Flow.falls_through : Flow → Bool
  | .ret _ => false
  | .go _ => true

/-- The outcome of a `switch` that chooses a command: the handler returns, or
`command` has a value and control goes on. -/
inductive Pick where
  | ret (st : St)
  | cmd (st : St) (command : Int)

/-- The code `k` that follows a `switch` that chooses a command. -/
def Pick.next (pick : Pick) (k : St → Int → St) : St :=
  match pick with
  | .ret st => st
  | .cmd st command => k st command

/-- A call made only when the pointer `m` is not NULL: `if (m != NULL) ...`. -/
def if_menu (m : Option menu_spec) (k : menu_spec → St → St) (st : St) : St :=
  match m with
  | some m => k m st
  | none => st

/-- The assignments `repeating = 2; repeating_key = key; repeating_shift = shift;`
made when `core_settings.auto_repeat` is set. -/
def set_repeating (key shift : Int) (st : St) : St :=
  if st.s.auto_repeat then
    st.upd (fun s => { s with repeating := 2, repeating_key := key, repeating_shift := shift })
  else st

/-- The statement `pc = line2pc(pc2line(pc) - 1);`. -/
def pc_to_previous_line (E : Engine) (st : St) : St :=
  st.upd (fun s => { s with pc := E.ask (.line2pc (E.ask (.pc2line s.pc) s - 1)) s })

/-- The code from the label `draw_number` to the end of `keydown_number_entry`
(lines 681-704). The local buffer `buf` has 100 cells. -/
def draw_number (E : Engine) (st : St) : St :=
  let s := st.s
  let label : List Nat :=
    if s.flags.prgm_mode then
      let line := E.ask (.pc2line s.pc) s
      (if line < 10 then [48] else []) ++ E.askS (.int2string line) s ++ [6]
    else E.askS .xlabel s
  let buf := (label ++ atake s.cmdline s.cmdline_length ++ [95]).take 100
  let bufptr : Int := buf.length
  let st := st.call E (.clear_row st.s.cmdline_row)
  let st :=
    if bufptr ≤ 22 then st.call E (.draw_string 0 st.s.cmdline_row buf bufptr)
    else
      let st := st.call E (.draw_char 0 st.s.cmdline_row 26)
      st.call E (.draw_string 1 st.s.cmdline_row (buf.drop (buf.length - 21)) 21)
  st.call E .flush_display

/-- The backspace branch (lines 455-466). -/
def number_entry_bsp (E : Engine) (shift key base : Int) (st : St) : St :=
  let st := st.upd (fun s => { s with cmdline_length := s.cmdline_length - 1 })
  let st :=
    if ¬ st.s.flags.prgm_mode then
      if base = 10 then st.call E .fix_thousands_separators
      else st.call E .fix_base_separators
    else st
  set_repeating key shift st

/-- One pass through the code at the label `undo_chs_exp` (lines 481-491): the
sign of the exponent is inserted or removed. -/
def toggle_exp_sign (exp_pos : Int) (s : State) : State :=
  if s.cmdline_length > exp_pos + 1 ∧ aget s.cmdline (exp_pos + 1) = 45 then
    { s with cmdline := ashift_left s.cmdline (exp_pos + 1) (s.cmdline_length - 1),
             cmdline_length := s.cmdline_length - 1 }
  else
    { s with cmdline := aset (ashift_right s.cmdline s.cmdline_length (exp_pos + 1)) (exp_pos + 1) 45,
             cmdline_length := s.cmdline_length + 1 }

/-- The value of `pending_command` chosen when the last character of the number
is removed: `flags.f.big_stack ? pne == 2 ? CMD_DROP_CANCL : CMD_DROP : CMD_CLX`. -/
def drop_command (s : State) (pne : Int) : Int :=
  if s.flags.big_stack then (if pne = 2 then CMD_DROP_CANCL else CMD_DROP) else CMD_CLX

/-- The sign-change branch (lines 467-529). -/
def number_entry_chs (E : Engine) (st : St) : Flow :=
  let exp_pos := find_pos st.s.cmdline st.s.cmdline_length (fun c => c = 24)
  if exp_pos ≠ -1 then
    let st := st.upd (toggle_exp_sign exp_pos)
    if E.ask (.string2phloat st.s.cmdline st.s.cmdline_length) st.s ≠ 0 then
      .ret (st.upd (toggle_exp_sign exp_pos))
    else .go st
  else if aget st.s.cmdline 0 = 45 then
    if st.s.cmdline_length = 1 then
      if st.s.flags.prgm_mode then
        let st := st.upd (fun s => { s with mode_number_entry := 0 })
        let st := pc_to_previous_line E st
        let st := st.upd (fun s => { s with prgm_highlight_row := 0 })
        .ret (st.call E .redisplay)
      else
        let st := st.upd (fun s =>
          { s with stack := stack_set s.stack s.sp (new_real E s (phloat.of_int 0)) })
        let st := st.upd (fun s =>
          { s with pending_command := drop_command s s.mode_number_entry })
        .ret (st.upd (fun s => { s with mode_number_entry := 0 }))
    else
      .go (st.upd (fun s =>
        { s with cmdline := ashift_left s.cmdline 0 (s.cmdline_length - 1),
                 cmdline_length := s.cmdline_length - 1 }))
  else
    .go (st.upd (fun s =>
      { s with cmdline := aset (ashift_right s.cmdline s.cmdline_length 0) 0 45,
               cmdline_length := s.cmdline_length + 1 }))

/-- The scan of the exponent branch (lines 536-546) over the characters from
index `i` on: the position of the exponent marker (or -1), `only_zeroes` and
`seen_dot`. -/
def scan_exponent (dot : Nat) : List Nat → Int → Int × Bool × Bool
  | [], _ => (-1, true, false)
  | c :: cs, i =>
    if 49 ≤ c ∧ c ≤ 57 then
      let r := scan_exponent dot cs (i + 1)
      (r.1, false, r.2.2)
    else if c = dot then
      let r := scan_exponent dot cs (i + 1)
      (r.1, r.2.1, true)
    else if c = 24 then (i, true, false)
    else scan_exponent dot cs (i + 1)

/-- The decimal separator in use: `flags.f.decimal_point ? '.' : ','`. -/
def dot_char (s : State) : Nat := if s.flags.decimal_point then 46 else 44

/-- The statement `cmdline[cmdline_length++] = c;`. -/
def cmdline_append (c : Nat) (s : State) : State :=
  { s with cmdline := aset s.cmdline s.cmdline_length c, cmdline_length := s.cmdline_length + 1 }

/-- The exponent branch (lines 530-559). -/
def number_entry_e (st : St) : Flow :=
  let dot := dot_char st.s
  let r := scan_exponent dot (atake st.s.cmdline st.s.cmdline_length) 0
  if r.1 = -1 then
    let st :=
      if r.2.1 then
        let st := st.upd (fun s =>
          { s with cmdline_length := if s.cmdline_length > 0 ∧ aget s.cmdline 0 = 45 then 1 else 0 })
        let st := st.upd (cmdline_append 49)
        if r.2.2 then st.upd (cmdline_append dot) else st
      else st
    .go (st.upd (cmdline_append 24))
  else .ret st

/-- The decimal-point branch (lines 560-581). -/
def number_entry_dot (st : St) : Flow :=
  if st.s.cmdline_length = 0 ∨ (st.s.cmdline_length = 1 ∧ aget st.s.cmdline 0 = 45) then
    let st := st.upd (cmdline_append 48)
    .go (st.upd (fun s => cmdline_append (dot_char s) s))
  else
    let dot := dot_char st.s
    let dot_or_exp_pos := find_pos st.s.cmdline st.s.cmdline_length (fun c => c = dot ∨ c = 24)
    if dot_or_exp_pos = -1 then .go (st.upd (cmdline_append dot))
    else .ret st

/-- The `switch (key)` of the digit branch (lines 585-602); `none` when no case
assigns `digit`. -/
def digit_of_key (key : Int) : Option Int :=
  if key = KEY_0 then some 0 else if key = KEY_1 then some 1
  else if key = KEY_2 then some 2 else if key = KEY_3 then some 3
  else if key = KEY_4 then some 4 else if key = KEY_5 then some 5
  else if key = KEY_6 then some 6 else if key = KEY_7 then some 7
  else if key = KEY_8 then some 8 else if key = KEY_9 then some 9
  else if key = KEY_SIGMA then some 10 else if key = KEY_INV then some 11
  else if key = KEY_SQRT then some 12 else if key = KEY_LOG then some 13
  else if key = KEY_LN then some 14 else if key = KEY_XEQ then some 15
  else none

/-- The bit count of lines 621-642 over the characters that remain, from the
current values of `zero` and `bits`. -/
def count_bits (bits_per_digit : Int) : List Nat → Bool → Int → Int
  | [], _, bits => bits
  | c :: cs, zero, bits =>
    if c = 32 then count_bits bits_per_digit cs zero bits
    else if ¬ zero then count_bits bits_per_digit cs zero (bits + bits_per_digit)
    else
      let d : Int := if c < 65 then (c : Int) - 48 else (c : Int) - 65 + 10
      count_bits bits_per_digit cs false
        (if d ≥ 8 then 4 else if d ≥ 4 then 3 else if d ≥ 2 then 2 else d)

/-- The value of `bits_per_digit`: `base == 2 ? 1 : base == 8 ? 3 : 4`. -/
def bits_per_digit (base : Int) : Int := if base = 2 then 1 else if base = 8 then 3 else 4

/-- The character of a digit: `digit < 10 ? '0' + digit : 'A' + digit - 10`. -/
def digit_char (digit : Int) : Nat :=
  if digit < 10 then (48 + digit).toNat else (65 + digit - 10).toNat

/-- The digit branch (lines 582-649). Reading `digit` when no case of the switch
assigned it is recorded as the mark `uninitialized_read`. -/
def number_entry_digit (E : Engine) (shift key base : Int) (st : St) : Flow :=
  (digit_of_key key).elim (Flow.ret (st.mark .uninitialized_read)) fun digit =>
    if digit ≥ base then .ret st
    else
      let st := set_repeating key shift st
      let c := digit_char digit
      let st := st.upd (cmdline_append c)
      if base = 10 then
        if E.ask (.string2phloat st.s.cmdline st.s.cmdline_length) st.s = 0 then
          if ¬ st.s.flags.prgm_mode then .go (st.call E .fix_thousands_separators)
          else .go st
        else .ret (st.upd (fun s => { s with cmdline_length := s.cmdline_length - 1 }))
      else
        let bits := count_bits (bits_per_digit base) (atake st.s.cmdline st.s.cmdline_length) true 0
        if bits > E.ask .effective_wsize st.s then
          .ret (st.upd (fun s => { s with cmdline_length := s.cmdline_length - 1 }))
        else .go (st.call E .fix_base_separators)

/-- The accumulation loop of lines 656-664 over the characters that remain; `n`
is a 64-bit unsigned integer. -/
def accumulate (base : Int) : List Nat → Int → Int
  | [], n => n
  | c :: cs, n =>
    if c = 32 then accumulate base cs n
    else
      let digit : Int := if c ≤ 57 then (c : Int) - 48 else (c : Int) - 65 + 10
      accumulate base cs ((n * base + digit) % 2 ^ 64)

/-- The number denoted by the command line (lines 651-672). -/
def entered_value (E : Engine) (base : Int) (s : State) : phloat :=
  if base = 10 then
    if E.ask (.string2phloat s.cmdline s.cmdline_length) s ≠ 0 then phloat.of_int 0
    else phloat.of_string (atake s.cmdline s.cmdline_length)
  else
    let n := accumulate base (atake s.cmdline s.cmdline_length) 0
    let wsize := E.ask .effective_wsize s
    if ¬ s.flags.base_signed then phloat.of_int n
    else if (n / 2 ^ (wsize - 1).toNat) % 2 = 0 then phloat.of_int n
    else phloat.of_int (n % 2 ^ (wsize - 1).toNat - 2 ^ (wsize - 1).toNat)

/-- Lines 651-679: the number is computed and stored in `entered_number` or in
the X register. -/
def store_entered_value (E : Engine) (base : Int) (st : St) : St :=
  let x := entered_value E base st.s
  if st.s.flags.prgm_mode then st.upd (fun s => { s with entered_number := x })
  else st.upd (fun s => { s with stack := stack_set s.stack s.sp (new_real E s x) })

/-- The function `keydown_number_entry(shift, key)`. -/
def keydown_number_entry (E : Engine) (shift key : Int) (st : St) : St :=
  let st := st.mark .enter_number_entry
  let base := E.ask .get_base st.s
  if key = -1 then
    let st := st.call E (.set_menu MENULEVEL_APP MENU_BASE_A_THRU_F)
    let st := st.call E .redisplay
    draw_number E st
  else if base ≠ 10 ∧ (key = KEY_E ∨ key = KEY_DOT) then st
  else if key = KEY_BSP ∧ st.s.cmdline_length = 1 then
    let pne := st.s.mode_number_entry
    let st := st.upd (fun s => { s with mode_number_entry := 0 })
    if st.s.flags.prgm_mode then
      let st := pc_to_previous_line E st
      let st := st.upd (fun s => { s with prgm_highlight_row := 0 })
      st.call E .redisplay
    else st.upd (fun s => { s with pending_command := drop_command s pne })
  else
    let flow :=
      if key = KEY_BSP then Flow.go (number_entry_bsp E shift key base st)
      else if key = KEY_CHS then number_entry_chs E st
      else if key = KEY_E then number_entry_e st
      else if key = KEY_DOT then number_entry_dot st
      else number_entry_digit E shift key base st
    flow.next fun st => draw_number E (store_entered_value E base st)

/-! ## `keydown_command_entry` (lines 707-1875) -/

/-- The assignment `pending_command = cmd;`. -/
def set_pending (cmd : Int) (st : St) : St :=
  st.upd (fun s => { s with pending_command := cmd })

/-- An assignment to members of `pending_command_arg`. -/
def upd_arg (f : arg_struct → arg_struct) (st : St) : St :=
  st.upd (fun s => { s with pending_command_arg := f s.pending_command_arg })

/-- The condition `(flags.f.trace_print || flags.f.normal_print) && flags.f.printer_exists`. -/
def printing (s : State) : Bool :=
  (s.flags.trace_print || s.flags.normal_print) && s.flags.printer_exists

/-- A menu key that is absent from a menu row of the table. -/
def menu_item_zero : menu_item_spec := { menuid := 0, title_length := 0, title := [] }

/-- The expression `m->child + menukey`. -/
def menu_child (m : menu_spec) (menukey : Int) : menu_item_spec :=
  if menukey < 0 then menu_item_zero else m.child.getD menukey.toNat menu_item_zero

/-- The condition `menu >= MENU_ALPHA1 && menu <= MENU_ALPHA_MISC2`. -/
def is_alpha_menu (menu : Int) : Prop := menu ≥ MENU_ALPHA1 ∧ menu ≤ MENU_ALPHA_MISC2

instance (menu : Int) : Decidable (is_alpha_menu menu) := by
  unfold is_alpha_menu; infer_instance

/-- The `switch (key - 1024)` that maps the characters 0 to 9 to the digit keys
(lines 752-763 and 824-835); other keys are left as they are. -/
def digit_key_of_char (key : Int) : Int :=
  if key - 1024 = 48 then KEY_0 else if key - 1024 = 49 then KEY_1
  else if key - 1024 = 50 then KEY_2 else if key - 1024 = 51 then KEY_3
  else if key - 1024 = 52 then KEY_4 else if key - 1024 = 53 then KEY_5
  else if key - 1024 = 54 then KEY_6 else if key - 1024 = 55 then KEY_7
  else if key - 1024 = 56 then KEY_8 else if key - 1024 = 57 then KEY_9
  else key

/-- The condition `key` is one of `KEY_0` ... `KEY_9`. -/
def is_digit_key (key : Int) : Prop :=
  key = KEY_0 ∨ key = KEY_1 ∨ key = KEY_2 ∨ key = KEY_3 ∨ key = KEY_4 ∨ key = KEY_5
    ∨ key = KEY_6 ∨ key = KEY_7 ∨ key = KEY_8 ∨ key = KEY_9

instance (key : Int) : Decidable (is_digit_key key) := by
  unfold is_digit_key; infer_instance

/-- The condition `key` is one of the six menu keys, as spelled out in lines
37-38 and 766-767. -/
def is_menu_key (key : Int) : Prop :=
  key = KEY_SIGMA ∨ key = KEY_INV ∨ key = KEY_SQRT ∨ key = KEY_LOG ∨ key = KEY_LN ∨ key = KEY_XEQ

instance (key : Int) : Decidable (is_menu_key key) := by
  unfold is_menu_key; infer_instance

/-- The stack-register menus `MENU_ST` and `MENU_IND_ST` (lines 708-742). -/
def command_entry_st (E : Engine) (shift key : Int) (st : St) : St :=
  if shift = 0 ∧ key = KEY_BSP then
    (set_pending CMD_NULL st).call E (.finish_command_entry false)
  else if key = KEY_EXIT then
    (set_pending CMD_CANCELLED st).call E (.finish_command_entry false)
  else
    let menukey := E.ask (.find_menu_key key) st.s
    if shift = 0 ∧ ((menukey ≥ 0 ∧ menukey ≤ 4)
        ∨ (menukey = 5 ∧ st.s.mode_commandmenu = MENU_IND_ST)) then
      if st.s.mode_commandmenu = MENU_IND_ST ∧ menukey = 0 then
        let st := st.upd (fun s =>
          { s with incomplete_ind := true, incomplete_alpha := false, incomplete_maxdigits := 2 })
        let st := st.call E (.set_catalog_menu CATSECT_REAL_ONLY)
        st.call E .redisplay
      else
        let menukey := if st.s.mode_commandmenu = MENU_IND_ST then menukey - 1 else menukey
        let st := st.upd (fun s => { s with pending_command := s.incomplete_command })
        let st := st.upd (fun s => { s with pending_command_arg :=
          { s.pending_command_arg with
            type := if s.incomplete_ind then ARGTYPE_IND_STK else ARGTYPE_STK } })
        let st := upd_arg (fun a => { a with stk := aget (str "LXYZT") menukey }) st
        st.call E (.finish_command_entry true)
    else st.call E .squeak

/-- The `ASSIGN` key selection, `incomplete_argtype == ARG_CKEY` (lines 840-862). -/
def command_entry_ckey (E : Engine) (shift key : Int) (st : St) : St :=
  let menukey := E.ask (.find_menu_key key) st.s
  if menukey ≠ -1 then
    let st := st.upd (fun s => { s with pending_command :=
      CMD_ASGN01 + menukey + 6 * (s.mode_commandmenu - MENU_CUSTOM1) })
    st.call E (.finish_command_entry true)
  else if shift = 0 ∧ key = KEY_BSP then
    (set_pending CMD_NULL st).call E (.finish_command_entry false)
  else if key = KEY_EXIT then
    (set_pending CMD_CANCELLED st).call E (.finish_command_entry false)
  else if shift = 0 ∧ (key = KEY_UP ∨ key = KEY_DOWN) then
    let st := st.upd (fun s =>
      { s with mode_commandmenu := s.mode_commandmenu + (if key = KEY_UP then -1 else 1) })
    let st :=
      if st.s.mode_commandmenu < MENU_CUSTOM1 then st.call E (.set_menu MENULEVEL_COMMAND MENU_CUSTOM3)
      else if st.s.mode_commandmenu > MENU_CUSTOM3 then
        st.call E (.set_menu MENULEVEL_COMMAND MENU_CUSTOM1)
      else st
    st.call E .redisplay
  else st.call E .squeak

/-- The `switch (key)` of lines 871-888 for `KEYG` and `KEYX`: the offset added to
`cmd`, `none` for backspace and for the default case. -/
def mkey_offset (key : Int) : Option Int :=
  if key = KEY_SIGMA ∨ key = KEY_1 then some 0
  else if key = KEY_INV ∨ key = KEY_2 then some 1
  else if key = KEY_SQRT ∨ key = KEY_3 then some 2
  else if key = KEY_LOG ∨ key = KEY_4 then some 3
  else if key = KEY_LN ∨ key = KEY_5 then some 4
  else if key = KEY_XEQ ∨ key = KEY_6 then some 5
  else if key = KEY_UP ∨ key = KEY_7 then some 6
  else if key = KEY_DOWN ∨ key = KEY_8 then some 7
  else if key = KEY_EXIT ∨ key = KEY_9 then some 8
  else none

/-- The menu-key selection of `KEYG` and `KEYX`, `incomplete_argtype == ARG_MKEY`
(lines 865-891). -/
def command_entry_mkey (E : Engine) (shift key : Int) (st : St) : St :=
  let cmd := if st.s.incomplete_command = CMD_KEYG then CMD_KEY1G else CMD_KEY1X
  if shift ≠ 0 then st.call E .squeak
  else
    (mkey_offset key).elim
      (if key = KEY_BSP then (set_pending CMD_NULL st).call E (.finish_command_entry false)
       else st.call E .squeak)
      (fun k => st.call E (.start_incomplete_command (cmd + k)))

/-- The test of lines 1024-1034 and 1824-1834: a one-letter label `A`-`J` or
`a`-`e` given to `GTO`, `XEQ`, `LBL` or `KEY1G`...`KEY9X` without indirection. -/
def is_local_label (ind : Bool) (cmd length : Int) (c : Nat) : Prop :=
  ¬ ind ∧ (cmd = CMD_GTO ∨ cmd = CMD_XEQ ∨ cmd = CMD_LBL ∨ (cmd ≥ CMD_KEY1G ∧ cmd ≤ CMD_KEY9X))
    ∧ length = 1 ∧ ((c ≥ 65 ∧ c ≤ 74) ∨ (c ≥ 97 ∧ c ≤ 101))

instance (ind : Bool) (cmd length : Int) (c : Nat) : Decidable (is_local_label ind cmd length c) := by
  unfold is_local_label; infer_instance

/-- The statements that show `XEQ "A"` briefly (lines 1037-1043 and 1840-1846). -/
def show_briefly (E : Engine) (st : St) : St :=
  if st.s.flags.prgm_mode then
    let st := st.upd (fun s => { s with flags := { s.flags with prgm_mode := false } })
    let st := st.call E .redisplay
    let st := st.upd (fun s => { s with flags := { s.flags with prgm_mode := true } })
    st.call E (.shell_delay 125)
  else st.call E .redisplay

/-- A soft key pressed while the catalog is the command menu, in a section that
lists items (lines 962-1055). -/
def command_entry_catalog_item (E : Engine) (menukey catsect : Int) (st : St) : St :=
  let itemindex := E.ask (.get_cat_item menukey) st.s
  if itemindex = -1 then st.call E .squeak
  else if itemindex < 0 then
    let st := st.call E (.set_cat_section
      (if itemindex = -2 then CATSECT_EXT_0_CMP else CATSECT_EXT_X_CMP))
    let st := st.call E (.move_cat_row 0)
    st.call E .redisplay
  else if catsect = CATSECT_PGM ∨ catsect = CATSECT_PGM_ONLY then
    if E.ask (.label_length itemindex) st.s = 0
        ∧ st.s.incomplete_command ≠ CMD_GTODOT ∧ st.s.incomplete_command ≠ CMD_PRP
        ∧ (st.s.flags.prgm_mode
            ∨ (st.s.incomplete_command ≠ CMD_GTO ∧ st.s.incomplete_command ≠ CMD_XEQ
                ∧ st.s.incomplete_command ≠ CMD_CLP)) then
      st.call E .squeak
    else
      let st := st.upd (fun s => { s with pending_command := s.incomplete_command })
      let st :=
        if st.s.incomplete_command = CMD_GTO ∨ st.s.incomplete_command = CMD_GTODOT
            ∨ st.s.incomplete_command = CMD_XEQ ∨ st.s.incomplete_command = CMD_CLP
            ∨ st.s.incomplete_command = CMD_PRP then
          let st := upd_arg (fun a => { a with type := ARGTYPE_LBLINDEX, num := itemindex }) st
          st.upd (fun s => { s with xeq_invisible := 0 })
        else
          st.upd (fun s => { s with pending_command_arg :=
            { s.pending_command_arg with
              type := if s.incomplete_ind then ARGTYPE_IND_STR else ARGTYPE_STR,
              length := E.ask (.label_length itemindex) s,
              text := acopy s.pending_command_arg.text (E.askS (.label_name itemindex) s)
                        (E.ask (.label_length itemindex) s) } })
      st.call E (.finish_command_entry true)
  else
    let st := st.upd (fun s => { s with pending_command := s.incomplete_command })
    let st := st.upd (fun s => { s with pending_command_arg :=
      { s.pending_command_arg with
        type := if s.incomplete_ind then ARGTYPE_IND_STR else ARGTYPE_STR } })
    let st :=
      if catsect = CATSECT_FCN ∨ (catsect ≥ CATSECT_EXT_TIME ∧ catsect ≤ CATSECT_EXT_MISC) then
        let cs := E.cmd_array itemindex
        upd_arg (fun a => { a with length := cs.name_length,
                                   text := acopy a.text cs.name cs.name_length }) st
      else
        st.upd (fun s => { s with pending_command_arg :=
          { s.pending_command_arg with
            length := E.ask (.var_length itemindex) s,
            text := acopy s.pending_command_arg.text (E.askS (.var_name itemindex) s)
                      (E.ask (.var_length itemindex) s) } })
    if is_local_label st.s.incomplete_ind st.s.pending_command st.s.pending_command_arg.length
        (aget st.s.pending_command_arg.text 0) then
      let st := st.upd (fun s => { s with mode_command_entry := false })
      let st := show_briefly E st
      let st := upd_arg (fun a => { a with type := ARGTYPE_LCLBL, lclbl := aget a.text 0 }) st
      st.call E (.finish_command_entry false)
    else if ¬ st.s.incomplete_ind ∧ st.s.incomplete_command = CMD_XEQ then st.call E .finish_xeq
    else st.call E (.finish_command_entry true)

/-- The catalog as command menu (lines 893-1092). -/
def command_entry_catalog (E : Engine) (shift key : Int) (st : St) : Flow :=
  let menukey := E.ask (.find_menu_key key) st.s
  let catsect := E.ask .get_cat_section st.s
  if menukey ≠ -1 then
    if catsect = CATSECT_TOP then
      if menukey = 0 then
        .ret (((st.call E (.set_cat_section CATSECT_FCN)).call E (.move_cat_row 0)).call E .redisplay)
      else if menukey = 1 then
        .ret (((st.call E (.set_cat_section CATSECT_PGM)).call E (.move_cat_row 0)).call E .redisplay)
      else if menukey = 2 then
        if E.ask (.vars_exist CATSECT_REAL) st.s = 0 then .ret (st.call E .squeak)
        else .ret (((st.call E (.set_cat_section CATSECT_REAL)).call E (.move_cat_row 0)).call E .redisplay)
      else if menukey = 3 then
        if E.ask (.vars_exist CATSECT_CPX) st.s = 0 then .ret (st.call E .squeak)
        else .ret (((st.call E (.set_cat_section CATSECT_CPX)).call E (.move_cat_row 0)).call E .redisplay)
      else if menukey = 4 then
        if E.ask (.vars_exist CATSECT_MAT) st.s = 0 then .ret (st.call E .squeak)
        else .ret (((st.call E (.set_cat_section CATSECT_MAT)).call E (.move_cat_row 0)).call E .redisplay)
      else if menukey = 5 then
        let st := st.call E .display_mem
        let st := set_pending CMD_LINGER1 st
        .ret (st.call E (.shell_request_timeout3 2000))
      else .ret (st.call E .redisplay)
    else if catsect = CATSECT_EXT_1 then
      let st :=
        if menukey = 0 then st.call E (.set_cat_section CATSECT_EXT_TIME)
        else if menukey = 1 then st.call E (.set_cat_section CATSECT_EXT_XFCN)
        else if menukey = 2 then st.call E (.set_cat_section CATSECT_EXT_BASE)
        else if menukey = 3 then st.call E (.set_cat_section CATSECT_EXT_PRGM)
        else if menukey = 4 then st.call E (.set_cat_section CATSECT_EXT_STR)
        else if menukey = 5 then st.call E (.set_cat_section CATSECT_EXT_STK)
        else st
      .ret ((st.call E (.move_cat_row 0)).call E .redisplay)
    else if catsect = CATSECT_EXT_2 then
      if menukey = 0 then
        .ret (((st.call E (.set_cat_section CATSECT_EXT_MISC)).call E (.move_cat_row 0)).call E .redisplay)
      else .ret (st.call E .squeak)
    else .ret (command_entry_catalog_item E menukey catsect st)
  else if shift = 0 ∧ (key = KEY_UP ∨ key = KEY_DOWN) then
    .ret ((st.call E (.move_cat_row (if key = KEY_UP then -1 else 1))).call E .redisplay)
  else if key = KEY_EXIT then
    if catsect = CATSECT_FCN ∨ catsect = CATSECT_PGM ∨ catsect = CATSECT_REAL
        ∨ catsect = CATSECT_CPX ∨ catsect = CATSECT_MAT then
      .ret ((st.call E (.set_cat_section CATSECT_TOP)).call E .redisplay)
    else if catsect = CATSECT_EXT_TIME ∨ catsect = CATSECT_EXT_XFCN ∨ catsect = CATSECT_EXT_BASE
        ∨ catsect = CATSECT_EXT_PRGM ∨ catsect = CATSECT_EXT_STR ∨ catsect = CATSECT_EXT_STK then
      .ret ((st.call E (.set_cat_section CATSECT_EXT_1)).call E .redisplay)
    else if catsect = CATSECT_EXT_MISC then
      .ret ((st.call E (.set_cat_section CATSECT_EXT_2)).call E .redisplay)
    else if catsect = CATSECT_EXT_0_CMP ∨ catsect = CATSECT_EXT_X_CMP then
      .ret (((st.call E (.set_cat_section CATSECT_EXT_PRGM)).call E (.set_cat_row 3)).call E .redisplay)
    else .ret ((set_pending CMD_CANCELLED st).call E (.finish_command_entry false))
  else .go st

/-- Read of a cell of an `int` array. -/
def iget (a : List Int) (i : Int) : Int :=
  if i < 0 then 0 else a.getD i.toNat 0

/-- Read of a row of a two-dimensional `char` array. -/
def rget (a : List (List Nat)) (i : Int) : List Nat :=
  if i < 0 then [] else a.getD i.toNat []

/-- The statements `pending_command_arg.type = ARGTYPE_STR; pending_command_arg.length
= length; for (...) pending_command_arg.val.text[i] = name[i];`. -/
def set_arg_str (name : List Nat) (length : Int) (st : St) : St :=
  upd_arg (fun a => { a with type := ARGTYPE_STR, length := length,
                             text := acopy a.text name length }) st

/-- The variable menu as command menu (lines 1094-1130). -/
def command_entry_varmenu (E : Engine) (shift key : Int) (st : St) : Flow :=
  let menukey := E.ask (.find_menu_key key) st.s
  if menukey ≠ -1 then
    if iget st.s.varmenu_labellength menukey = 0 then .ret (st.call E .squeak)
    else
      let st := st.upd (fun s => { s with pending_command := s.incomplete_command })
      let st := st.upd (fun s => { s with pending_command_arg :=
        { s.pending_command_arg with
          type := ARGTYPE_STR,
          length := iget s.varmenu_labellength menukey,
          text := acopy s.pending_command_arg.text (rget s.varmenu_labeltext menukey)
                    (iget s.varmenu_labellength menukey) } })
      .ret (st.call E (.finish_command_entry false))
  else if shift = 0 ∧ (key = KEY_UP ∨ key = KEY_DOWN) then
    if st.s.varmenu_rows > 1 then
      let st :=
        if key = KEY_UP then
          st.upd (fun s =>
            { s with varmenu_row := if s.varmenu_row - 1 < 0 then s.varmenu_rows - 1
                                    else s.varmenu_row - 1 })
        else
          st.upd (fun s =>
            { s with varmenu_row := if s.varmenu_row + 1 ≥ s.varmenu_rows then 0
                                    else s.varmenu_row + 1 })
      .ret (st.call E .redisplay)
    else .ret st
  else if key = KEY_EXIT then
    .ret ((set_pending CMD_CANCELLED st).call E (.finish_command_entry false))
  else .go st

/-- The integration-parameter menu as command menu (lines 1131-1155). -/
def command_entry_integ_params (E : Engine) (key : Int) (st : St) : Flow :=
  let menukey := E.ask (.find_menu_key key) st.s
  if menukey ≠ -1 then
    if menukey = 0 ∨ menukey = 1 ∨ menukey = 2 then
      let name := if menukey = 0 then str "LLIM" else if menukey = 1 then str "ULIM" else str "ACC"
      let length : Int := if menukey = 2 then 3 else 4
      let st := st.upd (fun s => { s with pending_command := s.incomplete_command })
      let st := set_arg_str name length st
      .ret (st.call E (.finish_command_entry false))
    else .ret (st.call E .squeak)
  else if key = KEY_EXIT then
    .ret ((set_pending CMD_CANCELLED st).call E (.finish_command_entry false))
  else .go st

/-- The call `print_command(cmd, &arg)` with `arg` a number, made when printing is on
(lines 1256-1261, 1266-1271 and their copies). -/
def print_num_command (E : Engine) (cmd : Int) (st : St) : St :=
  if printing st.s then
    st.call E (.print_command cmd
      (some { arg_zero with type := ARGTYPE_NUM, num := st.s.incomplete_num }))
  else st

/-- The code at the labels `do_goto1` and `do_goto2` (lines 1265-1275, 1370-1380). -/
def command_entry_goto_column (E : Engine) (st : St) : St :=
  let st := print_num_command E CMD_GOTOCOLUMN st
  let st := st.call E (.matedit_goto st.s.pending_command_arg.num st.s.incomplete_num)
  let st := set_pending CMD_NONE st
  st.call E (.finish_command_entry true)

/-- The completion of `GOTOROW` (lines 1248-1263, 1353-1368). -/
def command_entry_goto_row (E : Engine) (st : St) : St :=
  let st := st.upd (fun s => { s with pending_command_arg :=
    { s.pending_command_arg with num := s.incomplete_num } })
  if E.ask .matedit_get st.s = ERR_NONE ∧ E.ask .matedit_get_type st.s = TYPE_LIST then
    command_entry_goto_column E (st.upd (fun s => { s with incomplete_num := 1 }))
  else
    let st := print_num_command E CMD_GOTOROW st
    st.call E (.start_incomplete_command CMD_GOTOCOLUMN)

/-- The menu shown again when the argument is empty once more (lines 1408-1434
and, from `incomplete_ind` on, lines 1753-1776); `last` is the final `else` of the
second copy. -/
def restore_argument_menu (E : Engine) (last : Bool) (st : St) : St :=
  if st.s.incomplete_ind then st.call E (.set_catalog_menu CATSECT_REAL_ONLY)
  else if st.s.incomplete_argtype = ARG_VAR ∨ st.s.incomplete_argtype = ARG_REAL then
    if st.s.mode_appmenu = MENU_VARMENU then st.call E (.set_menu MENULEVEL_COMMAND MENU_VARMENU)
    else if st.s.mode_appmenu = MENU_INTEG_PARAMS then
      st.call E (.set_menu MENULEVEL_COMMAND MENU_INTEG_PARAMS)
    else if st.s.incomplete_argtype = ARG_VAR then st.call E (.set_catalog_menu CATSECT_VARS_ONLY)
    else st.call E (.set_catalog_menu CATSECT_REAL_ONLY)
  else if st.s.incomplete_argtype = ARG_LBL then st.call E (.set_catalog_menu CATSECT_PGM_ONLY)
  else if st.s.incomplete_command = CMD_GTODOT then st.call E (.set_menu MENULEVEL_COMMAND MENU_IND)
  else if st.s.incomplete_command = CMD_LBL then st.call E (.set_menu MENULEVEL_COMMAND MENU_ALPHA1)
  else if last then st.call E (.set_menu MENULEVEL_COMMAND MENU_NONE)
  else st

/-- The statements at lines 1408-1434: the menu for an empty numeric argument. -/
def numeric_argument_menu (E : Engine) (st : St) : St :=
  if st.s.incomplete_command ≥ CMD_KEY1G ∧ st.s.incomplete_command ≤ CMD_KEY9X then
    st.call E (.start_incomplete_command
      (if st.s.incomplete_command ≤ CMD_KEY9G then CMD_KEYG else CMD_KEYX))
  else if st.s.incomplete_argtype = ARG_VAR then
    if st.s.mode_appmenu = MENU_VARMENU then st.call E (.set_menu MENULEVEL_COMMAND MENU_VARMENU)
    else if st.s.mode_appmenu = MENU_INTEG_PARAMS then
      st.call E (.set_menu MENULEVEL_COMMAND MENU_INTEG_PARAMS)
    else st.call E (.set_catalog_menu CATSECT_VARS_ONLY)
  else restore_argument_menu E false st

/-- The statement `switch (key)` of lines 1186-1191 and 1199-1204: the arithmetic
variant of `STO` or `RCL`. -/
def arith_variant (div mul sub add key : Int) : Int :=
  if key = KEY_DIV then div else if key = KEY_MUL then mul else if key = KEY_SUB then sub else add

/-- The condition `key` is one of the four arithmetic keys. -/
def is_arith_key (key : Int) : Prop :=
  key = KEY_DIV ∨ key = KEY_MUL ∨ key = KEY_SUB ∨ key = KEY_ADD

instance (key : Int) : Decidable (is_arith_key key) := by
  unfold is_arith_key; infer_instance

/-- The key `ENTER` for a numeric argument (lines 1229-1285). -/
def command_entry_numeric_enter (E : Engine) (shift : Int) (st : St) : Flow :=
  if st.s.incomplete_length = 0 then
    if st.s.incomplete_ind ∧ ¬ st.s.flags.prgm_mode ∧ E.ask (.vars_exist CATSECT_REAL) st.s = 0 then
      .ret (st.call E .squeak)
    else if st.s.incomplete_ind ∨ st.s.incomplete_argtype = ARG_VAR
        ∨ st.s.incomplete_argtype = ARG_REAL ∨ st.s.incomplete_argtype = ARG_NAMED
        ∨ st.s.incomplete_argtype = ARG_LBL ∨ st.s.incomplete_argtype = ARG_PRGM then
      let st := st.upd (fun s => { s with incomplete_alpha := true })
      let st := st.call E (.set_menu MENULEVEL_COMMAND MENU_ALPHA1)
      .ret (st.call E .redisplay)
    else .ret (st.call E .squeak)
  else if shift = 0 then
    if st.s.incomplete_command = CMD_GOTOROW then .ret (command_entry_goto_row E st)
    else if st.s.incomplete_command = CMD_GOTOCOLUMN then .ret (command_entry_goto_column E st)
    else
      let st := st.upd (fun s => { s with pending_command := s.incomplete_command })
      let st := st.upd (fun s => { s with pending_command_arg :=
        { s.pending_command_arg with
          type := if s.incomplete_ind then ARGTYPE_IND_NUM else ARGTYPE_NUM,
          length := s.incomplete_maxdigits, num := s.incomplete_num } })
      .ret (st.call E (.finish_command_entry false))
  else .go st

/-- The key `.` at the start of a numeric argument (lines 1287-1322). -/
def command_entry_numeric_dot (E : Engine) (st : St) : St :=
  let t := st.s.incomplete_argtype
  if st.s.incomplete_ind then
    if t = ARG_VAR ∨ t = ARG_REAL ∨ t = ARG_MAT ∨ t = ARG_M_STK ∨ t = ARG_L_STK ∨ t = ARG_RVAR
        ∨ t = ARG_NAMED ∨ t = ARG_LBL ∨ t = ARG_PRGM ∨ t = ARG_NUM9 ∨ t = ARG_NUM11
        ∨ t = ARG_NUM99 then
      (st.call E (.set_menu MENULEVEL_COMMAND MENU_ST)).call E .redisplay
    else st
  else if t = ARG_VAR ∨ t = ARG_REAL then
    (st.call E (.set_menu MENULEVEL_COMMAND MENU_IND_ST)).call E .redisplay
  else if t = ARG_NUM9 ∨ t = ARG_NUM11 ∨ t = ARG_NUM99 ∨ t = ARG_LBL then
    let st := st.upd (fun s => { s with incomplete_ind := true, incomplete_maxdigits := 2 })
    (st.call E (.set_catalog_menu CATSECT_REAL_ONLY)).call E .redisplay
  else st.call E .squeak

/-- The value that an arithmetic expression of type `int` leaves in an `int`
variable: the result modulo 2^32, in the range of a 32-bit two's-complement
integer. -/
def wrap_int (n : Int) : Int := (n + 2147483648) % 4294967296 - 2147483648

/-- A digit key for a numeric argument (lines 1324-1396). -/
def command_entry_numeric_digit (E : Engine) (key : Int) (st : St) : St :=
  let digit := (digit_of_key key).getD 0
  if st.s.incomplete_argtype = ARG_FUNC ∧ digit > 4 then st.call E .squeak
  else if st.s.incomplete_command = CMD_RTNERR ∧ ¬ st.s.incomplete_ind ∧ digit > 8 then
    st.call E .squeak
  else
    let st := st.upd (fun s => { s with incomplete_num := wrap_int (s.incomplete_num * 10 + digit) })
    let st := st.upd (fun s => { s with incomplete_length := s.incomplete_length + 1 })
    if st.s.incomplete_length = st.s.incomplete_maxdigits then
      if st.s.incomplete_command = CMD_GOTOROW then command_entry_goto_row E st
      else if st.s.incomplete_command = CMD_GOTOCOLUMN then command_entry_goto_column E st
      else
        let st := st.upd (fun s => { s with pending_command := s.incomplete_command })
        let st := st.upd (fun s => { s with pending_command_arg :=
          { s.pending_command_arg with
            type := if s.incomplete_ind then ARGTYPE_IND_NUM else ARGTYPE_NUM,
            length := s.incomplete_maxdigits } })
        let st := st.upd (fun s =>
          if ¬ s.incomplete_ind ∧ s.incomplete_argtype = ARG_NUM11 ∧ s.incomplete_num > 11 then
            { s with incomplete_num := 11 }
          else s)
        let st := st.upd (fun s => { s with pending_command_arg :=
          { s.pending_command_arg with num := s.incomplete_num } })
        st.call E (.finish_command_entry true)
    else
      (st.call E (.set_menu MENULEVEL_COMMAND MENU_NONE)).call E .redisplay

/-- Backspace in a numeric argument (lines 1398-1439). -/
def command_entry_numeric_bsp (E : Engine) (st : St) : St :=
  if st.s.incomplete_length = 0 then
    (set_pending CMD_NULL st).call E (.finish_command_entry false)
  else
    let st := st.upd (fun s => { s with incomplete_length := s.incomplete_length - 1 })
    let st := st.upd (fun s => { s with incomplete_num := Int.tdiv s.incomplete_num 10 })
    let st := if st.s.incomplete_length = 0 then numeric_argument_menu E st else st
    st.call E .redisplay

/-- The branch `!incomplete_alpha` (lines 1157-1443). -/
def command_entry_numeric (E : Engine) (shift key : Int) (st : St) : St :=
  let cancel := (set_pending CMD_CANCELLED st).call E (.finish_command_entry false)
  if key = KEY_EXIT then cancel
  else if st.s.mode_commandmenu = MENU_IND ∧ shift = 0 ∧ key = KEY_SIGMA then
    let st := st.upd (fun s =>
      { s with incomplete_command := CMD_GTO, incomplete_argtype := ARG_LBL,
               incomplete_ind := true, incomplete_maxdigits := 2 })
    (st.call E (.set_catalog_menu CATSECT_REAL_ONLY)).call E .redisplay
  else if st.s.mode_commandmenu = MENU_IND ∧ key = KEY_ENTER then
    let st := st.upd (fun s => { s with incomplete_argtype := ARG_LBL, incomplete_alpha := true })
    (st.call E (.set_menu MENULEVEL_COMMAND MENU_ALPHA1)).call E .redisplay
  else if st.s.incomplete_command = CMD_STO ∧ shift = 0 ∧ st.s.incomplete_length = 0
      ∧ is_arith_key key then
    let cmd := arith_variant CMD_STO_DIV CMD_STO_MUL CMD_STO_SUB CMD_STO_ADD key
    let st := st.upd (fun s => { s with incomplete_command := cmd })
    st.call E .redisplay
  else if st.s.incomplete_command = CMD_RCL ∧ shift = 0 ∧ st.s.incomplete_length = 0
      ∧ is_arith_key key then
    let cmd := arith_variant CMD_RCL_DIV CMD_RCL_MUL CMD_RCL_SUB CMD_RCL_ADD key
    let st := st.upd (fun s => { s with incomplete_command := cmd })
    st.call E .redisplay
  else if st.s.incomplete_command = CMD_GTO ∧ ¬ st.s.incomplete_ind ∧ shift = 0
      ∧ st.s.incomplete_length = 0 ∧ key = KEY_DOT then
    let st := st.upd (fun s =>
      { s with incomplete_command := CMD_GTODOT, incomplete_argtype := ARG_OTHER,
               incomplete_maxdigits := 4 })
    (st.call E (.set_menu MENULEVEL_COMMAND MENU_IND)).call E .redisplay
  else if st.s.incomplete_command = CMD_GTODOT ∧ shift = 0 ∧ st.s.incomplete_length = 0
      ∧ key = KEY_DOT then
    let st := set_pending CMD_GTODOTDOT st
    let st := upd_arg (fun a => { a with type := ARGTYPE_NONE }) st
    st.call E (.finish_command_entry false)
  else
    (if key = KEY_ENTER then command_entry_numeric_enter E shift st else Flow.go st).next fun st =>
      if st.s.incomplete_length = 0 ∧ shift = 0 ∧ key = KEY_DOT then command_entry_numeric_dot E st
      else if st.s.incomplete_length < st.s.incomplete_maxdigits ∧ shift = 0 ∧ is_digit_key key then
        command_entry_numeric_digit E key st
      else if st.s.incomplete_length < st.s.incomplete_maxdigits ∧ shift = 0 ∧ key = KEY_BSP then
        command_entry_numeric_bsp E st
      else st.call E .squeak

/-- The two `switch (key)` statements that map keys to characters (lines
1531-1557 and 1935-1961); `none` stands for the jump to `nocharkey`. -/
def char_of_key (shift key : Int) : Option Nat :=
  if shift = 0 then
    if key = KEY_0 then some 48 else if key = KEY_1 then some 49
    else if key = KEY_2 then some 50 else if key = KEY_3 then some 51
    else if key = KEY_4 then some 52 else if key = KEY_5 then some 53
    else if key = KEY_6 then some 54 else if key = KEY_7 then some 55
    else if key = KEY_8 then some 56 else if key = KEY_9 then some 57
    else if key = KEY_DOT then some 46 else if key = KEY_E then some 24
    else if key = KEY_DIV then some 0 else if key = KEY_MUL then some 1
    else if key = KEY_SUB then some 45 else if key = KEY_ADD then some 43
    else none
  else
    if key = KEY_RCL then some 37 else if key = KEY_RDN then some 7 else none

/-- The character of a soft key: `c = mi->title[0]`, in lower case when shifted
(lines 1468-1470 and 1898-1900). -/
def menu_char (shift : Int) (mi : menu_item_spec) : Nat :=
  let c := aget mi.title 0
  if shift ≠ 0 ∧ c ≥ 65 ∧ c ≤ 90 then c + 32 else c

/-- The character of an ASCII key event: `c = key - 1024`, as a `char`. -/
def ascii_char (key : Int) : Nat := ((key - 1024) % 256).toNat

/-- The statement `if (incomplete_length < (incomplete_argtype == ARG_XSTR ? 22 : 7))
incomplete_str[incomplete_length++] = c;`. -/
def incomplete_append (c : Nat) (s : State) : State :=
  if s.incomplete_length < (if s.incomplete_argtype = ARG_XSTR then 22 else 7) then
    { s with incomplete_str := aset s.incomplete_str s.incomplete_length c,
             incomplete_length := s.incomplete_length + 1 }
  else s

/-- The code at the label `handle_char` of `keydown_command_entry` (lines
1471-1485), also the code of lines 1558-1569 when `m` is NULL. -/
def command_entry_handle_char (E : Engine) (c : Nat) (m : Option menu_spec) (st : St) : St :=
  let st := st.upd (incomplete_append c)
  let st := if_menu m (fun m st => st.call E (.set_menu MENULEVEL_COMMAND m.parent)) st
  let st := set_repeating ((c : Int) + 1024) 0 st
  let st := st.upd (fun s => { s with incomplete_alpha := true })
  st.call E .redisplay

/-- The code at the label `out_of_alpha` (lines 1750-1776). -/
def out_of_alpha (E : Engine) (st : St) : St :=
  let st :=
    if st.s.incomplete_ind ∨ st.s.incomplete_argtype ≠ ARG_RVAR then
      st.upd (fun s => { s with incomplete_alpha := false })
    else st
  restore_argument_menu E true st

/-- The statements of lines 1637-1642 and 1719-1724: back from an alpha label to
`GTO .`. -/
def back_to_gtodot (E : Engine) (st : St) : St :=
  let st := st.upd (fun s =>
    { s with incomplete_argtype := ARG_OTHER, incomplete_maxdigits := 4,
             incomplete_alpha := false })
  (st.call E (.set_menu MENULEVEL_COMMAND MENU_IND)).call E .redisplay

/-- The call `set_catalog_menu(sect)` when variables of that kind exist; otherwise
the call `set_menu(MENULEVEL_COMMAND, MENU_NONE)` when `clear` is set (lines
1657-1670 and 1733-1743). -/
def catalog_if_exist (E : Engine) (kind sect : Int) (clear : Bool) (st : St) : St :=
  if E.ask (.vars_exist kind) st.s ≠ 0 then st.call E (.set_catalog_menu sect)
  else if clear then st.call E (.set_menu MENULEVEL_COMMAND MENU_NONE)
  else st

/-- Backspace on an empty alpha argument while an ALPHA menu is the command menu
(lines 1634-1678). -/
def alpha_bsp_empty_in_alpha_menu (E : Engine) (st : St) : St :=
  let t := st.s.incomplete_argtype
  if st.s.incomplete_ind then (out_of_alpha E st).call E .redisplay
  else if st.s.incomplete_command = CMD_GTODOT then back_to_gtodot E st
  else if t = ARG_NAMED then
    let st :=
      if st.s.incomplete_command = CMD_ASSIGNa then st.call E (.set_catalog_menu CATSECT_TOP)
      else st.call E (.set_catalog_menu CATSECT_VARS_ONLY)
    if st.s.incomplete_ind then (out_of_alpha E st).call E .redisplay
    else st.call E .redisplay
  else if t = ARG_RVAR then
    if st.s.incomplete_command = CMD_MVAR then
      ((set_pending CMD_NULL st).call E (.finish_command_entry false)).call E .redisplay
    else (out_of_alpha E st).call E .redisplay
  else if t = ARG_MAT then
    (catalog_if_exist E CATSECT_MAT_LIST CATSECT_MAT_LIST_ONLY true st).call E .redisplay
  else if t = ARG_M_STK then
    (catalog_if_exist E CATSECT_MAT CATSECT_MAT_ONLY true st).call E .redisplay
  else if t = ARG_L_STK then
    (catalog_if_exist E CATSECT_LIST CATSECT_LIST_ONLY true st).call E .redisplay
  else if t = ARG_PRGM then (st.call E (.set_catalog_menu CATSECT_PGM_ONLY)).call E .redisplay
  else if t = ARG_XSTR then
    ((set_pending CMD_NULL st).call E (.finish_command_entry false)).call E .redisplay
  else (out_of_alpha E st).call E .redisplay

/-- Backspace on an empty alpha argument (lines 1630-1711). -/
def alpha_bsp_empty (E : Engine) (st : St) : St :=
  let catsect := E.ask .get_cat_section st.s
  if is_alpha_menu st.s.mode_commandmenu then alpha_bsp_empty_in_alpha_menu E st
  else if st.s.mode_commandmenu = MENU_CATALOG
      ∧ (catsect = CATSECT_FCN ∨ catsect = CATSECT_PGM ∨ catsect = CATSECT_REAL
          ∨ catsect = CATSECT_CPX ∨ catsect = CATSECT_MAT) then
    (st.call E (.set_catalog_menu CATSECT_TOP)).call E .redisplay
  else if st.s.mode_commandmenu = MENU_CATALOG
      ∧ (catsect = CATSECT_EXT_TIME ∨ catsect = CATSECT_EXT_XFCN ∨ catsect = CATSECT_EXT_BASE
          ∨ catsect = CATSECT_EXT_PRGM ∨ catsect = CATSECT_EXT_STR ∨ catsect = CATSECT_EXT_STK) then
    (st.call E (.set_catalog_menu CATSECT_EXT_1)).call E .redisplay
  else if st.s.mode_commandmenu = MENU_CATALOG ∧ catsect = CATSECT_EXT_MISC then
    (st.call E (.set_catalog_menu CATSECT_EXT_2)).call E .redisplay
  else if st.s.mode_commandmenu = MENU_CATALOG
      ∧ (catsect = CATSECT_EXT_0_CMP ∨ catsect = CATSECT_EXT_X_CMP) then
    ((st.call E (.set_catalog_menu CATSECT_EXT_PRGM)).call E (.set_cat_row 3)).call E .redisplay
  else (set_pending CMD_NULL st).call E (.finish_command_entry false)

/-- Backspace that removes the last character of an alpha argument: the code of
lines 1714-1777, up to the `redisplay` of line 1783. -/
def alpha_bsp_last (E : Engine) (st : St) : St :=
  let t := st.s.incomplete_argtype
  if st.s.incomplete_ind ∧ is_alpha_menu st.s.mode_commandmenu then
    (out_of_alpha E st).call E .redisplay
  else if st.s.incomplete_command = CMD_GTODOT then back_to_gtodot E st
  else if t = ARG_NAMED then
    let st :=
      if st.s.incomplete_command = CMD_ASSIGNa then st.call E (.set_catalog_menu CATSECT_TOP)
      else st.call E (.set_catalog_menu CATSECT_VARS_ONLY)
    if st.s.incomplete_ind then (out_of_alpha E st).call E .redisplay
    else st.call E .redisplay
  else if t = ARG_RVAR then
    (catalog_if_exist E CATSECT_REAL CATSECT_REAL_ONLY false st).call E .redisplay
  else if t = ARG_MAT then
    (catalog_if_exist E CATSECT_MAT_LIST CATSECT_MAT_LIST_ONLY false st).call E .redisplay
  else if t = ARG_M_STK then
    (catalog_if_exist E CATSECT_MAT CATSECT_MAT_ONLY false st).call E .redisplay
  else if t = ARG_L_STK then
    (catalog_if_exist E CATSECT_LIST CATSECT_LIST_ONLY false st).call E .redisplay
  else if t = ARG_PRGM then (st.call E (.set_catalog_menu CATSECT_PGM_ONLY)).call E .redisplay
  else if t = ARG_XSTR then st.call E .redisplay
  else (out_of_alpha E st).call E .redisplay

/-- Backspace in an alpha argument (lines 1611-1785). -/
def command_entry_alpha_bsp (E : Engine) (st : St) : St :=
  if st.s.incomplete_command ≥ CMD_KEY1G ∧ st.s.incomplete_command ≤ CMD_KEY9X then
    if st.s.incomplete_length = 0 then
      if is_alpha_menu st.s.mode_commandmenu then
        st.call E (.start_incomplete_command
          (if st.s.incomplete_command ≤ CMD_KEY9G then CMD_KEYG else CMD_KEYX))
      else (set_pending CMD_NULL st).call E (.finish_command_entry false)
    else
      let st := st.upd (fun s => { s with incomplete_length := s.incomplete_length - 1 })
      st.call E .redisplay
  else if st.s.incomplete_length = 0 then alpha_bsp_empty E st
  else
    let st := st.upd (fun s => { s with incomplete_length := s.incomplete_length - 1 })
    if st.s.incomplete_length = 0 then alpha_bsp_last E st
    else if st.s.incomplete_alpha ∧ st.s.auto_repeat then
      let st := st.upd (fun s =>
        { s with repeating := 2, repeating_key := KEY_BSP, repeating_shift := 0 })
      st.call E .redisplay
    else st.call E .redisplay

/-- The key `ENTER` in an alpha argument, from line 1822 on: the command is
completed. -/
def command_entry_alpha_complete (E : Engine) (st : St) : St :=
  let st := st.upd (fun s => { s with pending_command := s.incomplete_command })
  if is_local_label st.s.incomplete_ind st.s.incomplete_command st.s.incomplete_length
      (aget st.s.incomplete_str 0) then
    let st := st.upd (fun s => { s with mode_command_entry := false })
    let st := st.upd (fun s => { s with pending_command_arg :=
      { s.pending_command_arg with
        type := ARGTYPE_STR, length := 1,
        text := aset s.pending_command_arg.text 0 (aget s.incomplete_str 0) } })
    let st := show_briefly E st
    let st := st.upd (fun s => { s with pending_command_arg :=
      { s.pending_command_arg with
        type := ARGTYPE_LCLBL, lclbl := aget s.incomplete_str 0 } })
    let st := st.call E (.set_menu MENULEVEL_COMMAND MENU_NONE)
    st.call E (.finish_command_entry false)
  else
    let st :=
      if st.s.incomplete_argtype = ARG_XSTR then
        st.upd (fun s => { s with pending_command_arg :=
          { s.pending_command_arg with type := ARGTYPE_XSTR, xstr := s.incomplete_str } })
      else
        st.upd (fun s => { s with pending_command_arg :=
          { s.pending_command_arg with
            type := if s.incomplete_ind then ARGTYPE_IND_STR else ARGTYPE_STR,
            text := acopy s.pending_command_arg.text s.incomplete_str s.incomplete_length } })
    let st := st.upd (fun s => { s with pending_command_arg :=
      { s.pending_command_arg with length := s.incomplete_length } })
    if ¬ st.s.incomplete_ind ∧ st.s.incomplete_command = CMD_XEQ then st.call E .finish_xeq
    else st.call E (.finish_command_entry true)

/-- The key `ENTER` in an alpha argument (lines 1787-1870). -/
def command_entry_alpha_enter (E : Engine) (st : St) : St :=
  let catsect := E.ask .get_cat_section st.s
  let menu := st.s.mode_commandmenu
  if st.s.incomplete_length = 0 then
    if menu = MENU_NONE
        ∨ (menu = MENU_CATALOG
            ∧ (catsect = CATSECT_TOP ∨ catsect = CATSECT_EXT_1 ∨ catsect = CATSECT_EXT_2
                ∨ catsect = CATSECT_PGM_ONLY ∨ catsect = CATSECT_REAL_ONLY
                ∨ catsect = CATSECT_MAT_ONLY ∨ catsect = CATSECT_LIST_STR_ONLY
                ∨ catsect = CATSECT_MAT_LIST_ONLY ∨ catsect = CATSECT_LIST_ONLY
                ∨ catsect = CATSECT_VARS_ONLY)) then
      (st.call E (.set_menu MENULEVEL_COMMAND MENU_ALPHA1)).call E .redisplay
    else if (st.s.incomplete_command ≠ CMD_ASSIGNa ∧ st.s.incomplete_command ≠ CMD_CLP
          ∧ st.s.incomplete_command ≠ CMD_PRP ∧ st.s.incomplete_command ≠ CMD_XSTR)
        ∨ menu < MENU_ALPHA1 ∨ menu > MENU_ALPHA_MISC2 then
      st.call E .squeak
    else command_entry_alpha_complete E st
  else command_entry_alpha_complete E st

/-- The key `.` that turns an empty alpha argument into an indirect one or opens
the stack menu (lines 1488-1516); `go` when neither applies. -/
def command_entry_alpha_dot (E : Engine) (shift key : Int) (st : St) : Flow :=
  let t := st.s.incomplete_argtype
  let c := st.s.incomplete_command
  let menu := st.s.mode_commandmenu
  if (t = ARG_NAMED ∨ t = ARG_PRGM ∨ t = ARG_RVAR ∨ t = ARG_MAT)
      ∧ c ≠ CMD_ASSIGNa ∧ c ≠ CMD_CLP ∧ c ≠ CMD_PRP ∧ c ≠ CMD_MVAR
      ∧ ¬ st.s.incomplete_ind ∧ st.s.incomplete_length = 0
      ∧ (menu < MENU_ALPHA1 ∨ menu > MENU_ALPHA_MISC2) ∧ shift = 0 ∧ key = KEY_DOT then
    let st := st.upd (fun s => { s with incomplete_ind := true, incomplete_alpha := false })
    .ret ((st.call E (.set_catalog_menu CATSECT_REAL_ONLY)).call E .redisplay)
  else if (t = ARG_M_STK ∨ t = ARG_L_STK) ∧ ¬ st.s.incomplete_ind ∧ st.s.incomplete_length = 0
      ∧ (menu < MENU_ALPHA1 ∨ menu > MENU_ALPHA_MISC2) ∧ shift = 0 ∧ key = KEY_DOT then
    .ret ((st.call E (.set_menu MENULEVEL_COMMAND MENU_IND_ST)).call E .redisplay)
  else .go st

/-- The code after the label `nocharkey1` (lines 1570-1874). -/
def command_entry_alpha_nochar (E : Engine) (shift key : Int) (st : St) : St :=
  if shift = 0 ∧ (key = KEY_UP ∨ key = KEY_DOWN) then
    let m := E.menus st.s.mode_commandmenu
    let nextmenu := if key = KEY_UP then m.prev else m.next
    if nextmenu ≠ MENU_NONE then
      (st.call E (.set_menu MENULEVEL_COMMAND nextmenu)).call E .redisplay
    else st
  else if key = KEY_EXIT then
    let catsect := E.ask .get_cat_section st.s
    if st.s.mode_commandmenu = MENU_NONE then
      (set_pending CMD_CANCELLED st).call E (.finish_command_entry false)
    else if st.s.mode_commandmenu = MENU_CATALOG
        ∧ (catsect = CATSECT_PGM ∨ catsect = CATSECT_REAL ∨ catsect = CATSECT_CPX
            ∨ catsect = CATSECT_MAT) then
      (st.call E (.set_cat_section CATSECT_TOP)).call E .redisplay
    else
      let m := E.menus st.s.mode_commandmenu
      let st := st.call E (.set_menu MENULEVEL_COMMAND m.parent)
      if st.s.mode_commandmenu = MENU_NONE then
        (set_pending CMD_CANCELLED st).call E (.finish_command_entry false)
      else st.call E .redisplay
  else if shift = 0 ∧ key = KEY_BSP then command_entry_alpha_bsp E st
  else if key = KEY_ENTER then command_entry_alpha_enter E st
  else st.call E .squeak

/-- The code from the label `do_incomplete_alpha` on (lines 1452-1874). -/
def command_entry_alpha (E : Engine) (shift key : Int) (st : St) : St :=
  let menukey := E.ask (.find_menu_key key) st.s
  if key ≥ 1024 ∧ key < 2048 then command_entry_handle_char E (ascii_char key) none st
  else if st.s.mode_commandmenu ≠ MENU_NONE ∧ menukey ≠ -1 then
    let m := E.menus st.s.mode_commandmenu
    let mi := menu_child m menukey
    if mi.menuid ≠ MENU_NONE then
      (st.call E (.set_menu MENULEVEL_COMMAND mi.menuid)).call E .redisplay
    else command_entry_handle_char E (menu_char shift mi) (some m) st
  else
    (command_entry_alpha_dot E shift key st).next fun st =>
      if shift ≠ 0 ∧ key = KEY_ADD then
        if st.s.mode_commandmenu = MENU_CATALOG then st.call E .squeak
        else (st.call E (.set_catalog_menu CATSECT_TOP)).call E .redisplay
      else if st.s.mode_commandmenu = MENU_CATALOG then command_entry_alpha_nochar E shift key st
      else
        (char_of_key shift key).elim (command_entry_alpha_nochar E shift key st)
          (fun c => command_entry_handle_char E c none st)

/-- The condition of lines 765-779 under which a key of an empty `LBL` argument
is handled as an alpha key. -/
def lbl_alpha_key (shift key menu : Int) : Prop :=
  (key ≥ 1024 ∧ key < 2048) ∨ is_menu_key key
    ∨ (shift = 0 ∧ (key = KEY_E ∨ key = KEY_UP ∨ key = KEY_DOWN ∨ key = KEY_DIV ∨ key = KEY_MUL
        ∨ key = KEY_SUB ∨ key = KEY_ADD ∨ key = KEY_DOT))
    ∨ (shift ≠ 0 ∧ (key = KEY_RCL ∨ key = KEY_RDN))
    ∨ (menu ≥ MENU_ALPHA_ABCDE1 ∧ menu ≤ MENU_ALPHA_MISC2 ∧ is_digit_key key)

instance (shift key menu : Int) : Decidable (lbl_alpha_key shift key menu) := by
  unfold lbl_alpha_key; infer_instance

/-- The code of `keydown_command_entry` from line 815 on, before the split on
`incomplete_alpha`. -/
def command_entry_rest (E : Engine) (shift key : Int) (st : St) : St :=
  let key :=
    if (st.s.incomplete_command = CMD_ASTO ∨ st.s.incomplete_command = CMD_ARCL)
        ∧ st.s.mode_commandmenu = MENU_NONE ∧ is_alpha_menu st.s.mode_alphamenu then
      digit_key_of_char key
    else key
  if st.s.incomplete_argtype = ARG_CKEY then command_entry_ckey E shift key st
  else if st.s.incomplete_argtype = ARG_MKEY then command_entry_mkey E shift key st
  else
    (if st.s.mode_commandmenu = MENU_CATALOG then command_entry_catalog E shift key st
     else Flow.go st).next fun st =>
      (if st.s.mode_commandmenu = MENU_VARMENU then command_entry_varmenu E shift key st
       else if st.s.mode_commandmenu = MENU_INTEG_PARAMS then command_entry_integ_params E key st
       else Flow.go st).next fun st =>
        if ¬ st.s.incomplete_alpha then command_entry_numeric E shift key st
        else command_entry_alpha E shift key st

/-- The function `keydown_command_entry(shift, key)`. -/
def keydown_command_entry (E : Engine) (shift key : Int) (st : St) : St :=
  let st := st.mark .enter_command_entry
  let menu := st.s.mode_commandmenu
  if menu = MENU_ST ∨ menu = MENU_IND_ST then command_entry_st E shift key st
  else
    let lbl := st.s.incomplete_command = CMD_LBL ∧ st.s.incomplete_length = 0 ∧ menu ≠ MENU_CATALOG
    let key :=
      if lbl ∧ (menu = MENU_ALPHA1 ∨ menu = MENU_ALPHA2) ∧ key ≥ 1024 + 48 ∧ key ≤ 1024 + 57 then
        digit_key_of_char key
      else key
    if lbl ∧ lbl_alpha_key shift key menu then command_entry_alpha E shift key st
    else if lbl ∧ shift ≠ 0 ∧ key = KEY_ADD then
      if menu = MENU_CATALOG then st.call E .squeak
      else
        let st := st.upd (fun s => { s with incomplete_alpha := true })
        (st.call E (.set_catalog_menu CATSECT_TOP)).call E .redisplay
    else if lbl ∧ key = KEY_EXIT ∧ menu ≥ MENU_ALPHA_ABCDE1 ∧ menu ≤ MENU_ALPHA_MISC2 then
      let st := st.upd (fun s =>
        { s with mode_commandmenu := if s.mode_commandmenu ≤ MENU_ALPHA_WXYZ then MENU_ALPHA1
                                     else MENU_ALPHA2 })
      st.call E .redisplay
    else if st.s.incomplete_command = CMD_LBL ∧ ¬ st.s.incomplete_alpha
        ∧ st.s.incomplete_length = 1 ∧ shift ≠ 0 ∧ key = KEY_ENTER then
      let st := st.upd (fun s => { s with incomplete_alpha := true })
      let st := st.upd (fun s =>
        { s with incomplete_str := aset s.incomplete_str 0 ((48 + s.incomplete_num) % 256).toNat })
      let st := st.upd (fun s => { s with incomplete_num := 0, mode_commandmenu := MENU_ALPHA1 })
      st.call E .redisplay
    else command_entry_rest E shift key st

/-! ## `keydown_alpha_mode` (lines 1877-2175) -/

/-- The statements that put the character `c` into the program line being
entered or into the ALPHA register (lines 1903-1921 and 1962-1980); `ret` when
the program is locked. -/
def alpha_insert_char (E : Engine) (c : Nat) (st : St) : Flow :=
  if st.s.flags.prgm_mode then
    if ¬ st.s.mode_alpha_entry ∧ E.ask .start_alpha_prgm_line st.s = 0 then
      let st := st.call E .start_alpha_prgm_line
      let st := st.call E (.display_error ERR_PROGRAM_LOCKED)
      .ret (st.call E .redisplay)
    else
      let st := if ¬ st.s.mode_alpha_entry then st.call E .start_alpha_prgm_line else st
      .go (st.upd (fun s =>
        if s.entered_string_length < 15 then
          { s with entered_string := aset s.entered_string s.entered_string_length c,
                   entered_string_length := s.entered_string_length + 1 }
        else s))
  else
    let st :=
      if ¬ st.s.mode_alpha_entry then
        let st := st.upd (fun s => { s with reg_alpha_length := 0 })
        let st := st.upd (fun s => { s with flags := { s.flags with alpha_data_input := true } })
        st.upd (fun s => { s with mode_alpha_entry := true })
      else st
    let st := st.call E (.append_alpha_char c)
    if st.s.reg_alpha_length = 44 then .go (st.call E .squeak) else .go st

/-- The code at the label `handle_char` of `keydown_alpha_mode` (lines
1902-1931); `m` is NULL for an ASCII key event. -/
def alpha_handle_char (E : Engine) (c : Nat) (m : Option menu_spec) (st : St) : St :=
  (alpha_insert_char E c st).next fun st =>
    let st := set_repeating ((c : Int) + 1024) 0 st
    let st := if_menu m (fun m st => st.call E (.set_menu MENULEVEL_ALPHA m.parent)) st
    st.call E .redisplay

/-- The statements of lines 2035-2050 and 2238-2253: backspace over the current
program line. -/
def delete_current_line (E : Engine) (line : Int) (st : St) : St :=
  let s := st.s
  if s.current_prgm = s.prgms_count - 1 ∧ E.ask (.prgm_is_end s.current_prgm s.pc) s ≠ 0 then
    st.upd (fun s => { s with pc := E.ask (.line2pc (line - 1)) s, prgm_highlight_row := 0 })
  else if E.ask (.prgm_locked s.current_prgm) s ≠ 0 then
    st.call E (.display_error ERR_PROGRAM_LOCKED)
  else if s.current_prgm < s.prgms_count - 1 ∧ E.ask (.prgm_is_end s.current_prgm s.pc) s ≠ 0
      ∧ E.ask (.prgm_locked (s.current_prgm + 1)) s ≠ 0 then
    st.call E (.display_error ERR_NEXT_PROGRAM_LOCKED)
  else
    let st := st.call E (.delete_command s.pc)
    st.upd (fun s => { s with pc := E.ask (.line2pc (line - 1)) s, prgm_highlight_row := 0 })

/-- The statements that end alpha entry before a command is started (lines
2159-2166 and, without the test, 2005-2012). -/
def end_alpha_entry (E : Engine) (st : St) : St :=
  if st.s.mode_alpha_entry then
    let st :=
      if st.s.flags.prgm_mode then st.call E .finish_alpha_prgm_line
      else if printing st.s then st.call E .docmd_pra
      else st
    st.upd (fun s => { s with mode_alpha_entry := false })
  else st

/-- Backspace in alpha mode (lines 2020-2071). -/
def alpha_mode_bsp (E : Engine) (shift key : Int) (st : St) : St :=
  if st.s.flags.prgm_mode then
    let st :=
      if st.s.mode_alpha_entry then
        if st.s.entered_string_length > 0 then
          let st := set_repeating key shift st
          st.upd (fun s => { s with entered_string_length := s.entered_string_length - 1 })
        else st.call E .finish_alpha_prgm_line
      else
        let line := E.ask (.pc2line st.s.pc) st.s
        let st := if line ≠ 0 then delete_current_line E line st else st
        if st.s.mode_alphamenu ≠ MENU_ALPHA1 ∧ st.s.mode_alphamenu ≠ MENU_ALPHA2 then
          st.call E (.set_menu MENULEVEL_ALPHA (E.menus st.s.mode_alphamenu).parent)
        else st
    st.call E .redisplay
  else if st.s.mode_alpha_entry ∧ st.s.reg_alpha_length > 0 then
    let st := set_repeating key shift st
    let st := st.upd (fun s => { s with reg_alpha_length := s.reg_alpha_length - 1 })
    st.call E .redisplay
  else set_pending CMD_CLA st

/-- The key `ENTER` in alpha mode (lines 2073-2101). -/
def alpha_mode_enter (E : Engine) (shift : Int) (st : St) : St :=
  let st :=
    if st.s.flags.prgm_mode then
      if st.s.mode_alpha_entry then
        (st.call E .finish_alpha_prgm_line).call E (.set_menu MENULEVEL_ALPHA MENU_NONE)
      else if shift ≠ 0 then
        (st.call E (.set_menu MENULEVEL_ALPHA MENU_NONE)).call E (.print_menu_trace "ALPHA" 5)
      else if E.ask .start_alpha_prgm_line st.s ≠ 0 then
        let st := st.call E .start_alpha_prgm_line
        st.upd (fun s =>
          { s with entered_string := aset s.entered_string 0 127, entered_string_length := 1 })
      else
        (st.call E .start_alpha_prgm_line).call E (.display_error ERR_PROGRAM_LOCKED)
    else if shift ≠ 0 ∨ st.s.mode_alpha_entry then
      let st := if st.s.mode_alpha_entry ∧ printing st.s then st.call E .docmd_pra else st
      let st := st.upd (fun s => { s with mode_alpha_entry := false })
      st.call E (.set_menu MENULEVEL_ALPHA MENU_NONE)
    else st.upd (fun s => { s with mode_alpha_entry := true })
  st.call E .redisplay

/-- The statements of the case `KEY_4` of the shifted switches (lines 2125-2130
and 2943-2949, the latter with the `redisplay`). -/
def open_base_menu (E : Engine) (redraw : Bool) (st : St) : St :=
  let st := st.call E (.print_menu_trace "BASE" 4)
  let st := st.call E (.set_menu MENULEVEL_APP MENU_BASE1)
  if st.s.mode_appmenu = MENU_BASE1 then
    let st := st.call E (.set_appmenu_exitcallback 2)
    let st := st.upd (fun s => { s with baseapp := true })
    if redraw then st.call E .redisplay else st
  else st

/-- The value `key >= 2048 ? key - 2048 : CMD_NONE` of the default cases. -/
def direct_command (key : Int) : Int := if key ≥ 2048 then key - 2048 else CMD_NONE

/-- The shifted `switch (key)` of `keydown_alpha_mode` (lines 2112-2152);
`command` is `CMD_CANCELLED` before it. -/
def alpha_mode_shifted (E : Engine) (key : Int) (st : St) : Pick :=
  if key = KEY_CHS then .cmd (st.call E (.set_plainmenu MENU_MODES1 "MODES" 5)) CMD_CANCELLED
  else if key = KEY_E then .cmd (st.call E (.set_plainmenu MENU_DISP "DISP" 4)) CMD_CANCELLED
  else if key = KEY_BSP then .cmd (st.call E (.set_plainmenu MENU_CLEAR1 "CLEAR" 5)) CMD_CANCELLED
  else if key = KEY_7 then .cmd (set_solve_integ E true st) CMD_CANCELLED
  else if key = KEY_8 then .cmd (set_solve_integ E false st) CMD_CANCELLED
  else if key = KEY_9 then
    .cmd ((st.call E (.print_menu_trace "MATRIX" 6)).call E (.set_menu MENULEVEL_APP MENU_MATRIX1))
      CMD_CANCELLED
  else if key = KEY_DIV then
    .cmd ((st.call E (.print_menu_trace "STAT" 4)).call E (.set_menu MENULEVEL_APP MENU_STAT1))
      CMD_CANCELLED
  else if key = KEY_DOWN then .cmd st CMD_SST
  else if key = KEY_4 then .cmd (open_base_menu E false st) CMD_CANCELLED
  else if key = KEY_5 then .cmd (st.call E (.set_plainmenu MENU_CONVERT1 "CONVERT" 7)) CMD_CANCELLED
  else if key = KEY_6 then .cmd (st.call E (.set_plainmenu MENU_FLAGS "FLAGS" 5)) CMD_CANCELLED
  else if key = KEY_MUL then .cmd (st.call E (.set_plainmenu MENU_PROB "PROB" 4)) CMD_CANCELLED
  else if key = KEY_2 then
    let st := st.call E (.set_plainmenu MENU_NONE "" 0)
    if st.s.flags.prgm_mode then .ret (set_pending CMD_CUSTOM st)
    else .cmd st CMD_CUSTOM
  else if key = KEY_3 then .cmd (st.call E (.set_plainmenu MENU_PGM_FCN1 "PGM.FCN" 7)) CMD_CANCELLED
  else if key = KEY_SUB then .cmd (st.call E (.set_plainmenu MENU_PRINT1 "PRINT" 5)) CMD_CANCELLED
  else if key = KEY_0 then .cmd (st.call E (.set_plainmenu MENU_TOP_FCN "TOP.FCN" 7)) CMD_CANCELLED
  else if key = KEY_DOT then
    let st := st.call E .show_
    let st := set_pending CMD_LINGER1 st
    .ret (st.call E (.shell_request_timeout3 2000))
  else if key = KEY_ADD then .cmd (st.call E (.set_plainmenu MENU_CATALOG "CATALOG" 7)) CMD_CANCELLED
  else .cmd st (direct_command key)

/-- The code of `keydown_alpha_mode` from line 2103 on: a key that starts a
command or opens a menu. -/
def alpha_mode_command (E : Engine) (shift key : Int) (st : St) : St :=
  let pick :=
    if shift = 0 then
      if key = KEY_STO then Pick.cmd st CMD_ASTO
      else if key = KEY_RCL then Pick.cmd st CMD_ARCL
      else if key = KEY_RUN then Pick.cmd st CMD_RUN
      else Pick.cmd st (direct_command key)
    else alpha_mode_shifted E key st
  pick.next fun st command =>
    if command = CMD_NONE then st.call E .squeak
    else
      let st := end_alpha_entry E st
      if command = CMD_CANCELLED then
        (st.call E (.set_menu MENULEVEL_ALPHA MENU_NONE)).call E .redisplay
      else st.call E (.do_interactive command)

/-- The code after the label `nocharkey2` (lines 1988-2175). -/
def alpha_mode_nochar (E : Engine) (shift key : Int) (st : St) : St :=
  if shift = 0 ∧ (key = KEY_UP ∨ key = KEY_DOWN) then
    let m := E.menus st.s.mode_alphamenu
    let nextmenu := if key = KEY_UP then m.prev else m.next
    if nextmenu ≠ MENU_NONE then
      (st.call E (.set_menu MENULEVEL_ALPHA nextmenu)).call E .redisplay
    else st
  else if key = KEY_EXIT then
    let m := E.menus st.s.mode_alphamenu
    let st := st.call E (.set_menu MENULEVEL_ALPHA m.parent)
    if st.s.mode_alphamenu = MENU_NONE then
      let st := end_alpha_entry E st
      let st := st.call E (.print_menu_trace "EXIT" 4)
      set_pending CMD_CANCELLED st
    else st.call E .redisplay
  else if shift = 0 ∧ key = KEY_BSP then alpha_mode_bsp E shift key st
  else if key = KEY_ENTER then alpha_mode_enter E shift st
  else alpha_mode_command E shift key st

/-- The function `keydown_alpha_mode(shift, key)`. -/
def keydown_alpha_mode (E : Engine) (shift key : Int) (st : St) : St :=
  let st := st.mark .enter_alpha_mode
  let menukey := E.ask (.find_menu_key key) st.s
  if key ≥ 1024 ∧ key < 2048 then alpha_handle_char E (ascii_char key) none st
  else if menukey ≠ -1 then
    let m := E.menus st.s.mode_alphamenu
    let mi := menu_child m menukey
    if mi.menuid ≠ MENU_NONE then
      (st.call E (.set_menu MENULEVEL_ALPHA mi.menuid)).call E .redisplay
    else alpha_handle_char E (menu_char shift mi) (some m) st
  else
    (char_of_key shift key).elim (alpha_mode_nochar E shift key st) fun c =>
      (alpha_insert_char E c st).next fun st => (set_repeating key shift st).call E .redisplay

/-! ## `keydown_normal_mode` (lines 2177-2978) -/

/-- The statement `memmove(stack, stack + 1, 3 * sizeof(vartype *));`. -/
def stack_move_down (stack : List (Option vartype)) : List (Option vartype) :=
  [stack.getD 1 none, stack.getD 2 none, stack.getD 3 none] ++ stack.drop 3

/-- The statements `cmdline_length = 0; cmdline_row = ...; mode_number_entry = ...;`
of lines 2192-2197. -/
def start_number_entry (E : Engine) (st : St) : St :=
  let st := st.upd (fun s => { s with cmdline_length := 0 })
  let st := st.upd (fun s =>
    { s with cmdline_row := if E.ask .get_front_menu s ≠ MENU_NONE then 0 else 1 })
  st.upd (fun s =>
    { s with mode_number_entry :=
        if ¬ s.flags.prgm_mode ∧ s.flags.big_stack ∧ ¬ s.flags.numeric_data_input then 2 else 1 })

/-- The statements `if (pc == -1) pc = 0; else if (!prgms[current_prgm].is_end(pc))
pc += get_command_length(current_prgm, pc);` of lines 2199-2202. -/
def pc_to_new_line (E : Engine) (s : State) : State :=
  if s.pc = -1 then { s with pc := 0 }
  else if E.ask (.prgm_is_end s.current_prgm s.pc) s = 0 then
    { s with pc := s.pc + E.ask (.get_command_length s.current_prgm s.pc) s }
  else s

/-- The stack lift of lines 2207-2220, once `ensure_stack_capacity(1)` is known
to succeed. -/
def lift_stack (E : Engine) (st : St) : St :=
  if ¬ st.s.flags.stack_lift_disable then
    let st :=
      if st.s.flags.big_stack then
        let st := st.call E (.ensure_stack_capacity 1)
        st.upd (fun s => { s with sp := s.sp + 1 })
      else st.upd (fun s => { s with stack := stack_move_down s.stack })
    st.upd (fun s => { s with stack := stack_set s.stack s.sp (new_real E s (phloat.of_int 0)) })
  else st.upd (fun s => { s with flags := { s.flags with stack_lift_disable := false } })

/-- A number key in normal mode: number entry begins (lines 2184-2231). -/
def normal_mode_number_key (E : Engine) (shift key : Int) (st : St) : St :=
  let st := if st.s.deferred_print then st.call E (.print_command CMD_NULL none) else st
  if st.s.flags.prgm_mode ∧ E.ask (.prgm_locked st.s.current_prgm) st.s ≠ 0 then
    (st.call E (.display_error ERR_PROGRAM_LOCKED)).call E .redisplay
  else
    let st := start_number_entry E st
    if st.s.flags.prgm_mode then
      let st := st.upd (pc_to_new_line E)
      let st := st.upd (fun s => { s with prgm_highlight_row := 1 })
      let st := if st.s.cmdline_row = 1 then st.call E (.display_prgm_line 0 (-1)) else st
      keydown_number_entry E shift key st
    else if ¬ st.s.flags.stack_lift_disable ∧ st.s.flags.big_stack
        ∧ E.ask (.ensure_stack_capacity 1) st.s = 0 then
      (st.call E (.ensure_stack_capacity 1)).call E (.display_error ERR_INSUFFICIENT_MEMORY)
    else
      let st := lift_stack E st
      let st := st.upd (fun s => { s with flags := { s.flags with numeric_data_input := true } })
      let st := st.upd (fun s => { s with mode_varmenu := false })
      let st := if st.s.cmdline_row = 1 then st.call E (.display_y 0) else st.call E .redisplay
      keydown_number_entry E shift key st

/-- The statements of `send_it_off` (lines 2673-2689). -/
def send_it_off (E : Engine) (level : Int) (st : St) : St :=
  if st.s.flags.prgm_mode ∧ ((E.cmd_array st.s.pending_command).flags / FLAG_IMMED.toNat) % 2 = 0 then
    let st := st.call E (.store_command_after st.s.pending_command st.s.pending_command_arg)
    let st := st.upd (fun s => if s.pending_command = CMD_END then { s with pc := 0 } else s)
    let st := st.upd (fun s => { s with prgm_highlight_row := 1 })
    let st := set_pending CMD_NONE st
    let st :=
      if level = MENULEVEL_TRANSIENT ∨ (level = MENULEVEL_PLAIN ∧ ¬ st.s.mode_plainmenu_sticky) then
        st.call E (.set_menu level MENU_NONE)
      else st
    st.call E .redisplay
  else st

/-- The statements that store a `STO` or `VIEW` of a menu variable in the program,
or choose the command in run mode (lines 2303-2315 and 2703-2713). -/
def store_menu_variable (E : Engine) (shift : Int) (st : St) : St :=
  let st := set_pending (if shift ≠ 0 then CMD_VIEW else CMD_STO) st
  let st := st.call E (.store_command_after st.s.pending_command st.s.pending_command_arg)
  let st := st.upd (fun s => { s with prgm_highlight_row := 1 })
  let st := set_pending CMD_NONE st
  st.call E .redisplay

/-- A soft key of the variable menu (lines 2295-2350). -/
def normal_mode_varmenu_key (E : Engine) (shift menukey : Int) (st : St) : St :=
  let length := iget st.s.varmenu_labellength menukey
  let name := rget st.s.varmenu_labeltext menukey
  if length = 0 then set_pending CMD_NULL st
  else if shift ≠ 0 ∧ ¬ st.s.flags.prgm_mode then view E name length st
  else
    let st := set_arg_str name length st
    if st.s.flags.prgm_mode then store_menu_variable E shift st
    else if st.s.varmenu_role = 0 ∨ st.s.varmenu_role = 3 then
      set_pending (if st.s.mode_varmenu then CMD_VMEXEC else CMD_VMSTO) st
    else if st.s.varmenu_role = 1 then
      set_pending (if st.s.mode_varmenu then CMD_VMSOLVE else CMD_VMSTO2) st
    else if st.s.varmenu_role = 2 then
      if st.s.mode_varmenu then
        let st :=
          if printing st.s then
            let buf := ([34] ++ atake name length ++ [34]).take 9
            st.call E (.print_right buf buf.length)
          else st
        let st := st.call E (.set_integ_var name length)
        let st := st.call E (.set_menu MENULEVEL_APP MENU_INTEG_PARAMS)
        let st := st.call E (.set_appmenu_exitcallback 5)
        st.call E .redisplay
      else set_pending CMD_VMSTO st
    else st

/-- The variable menu in normal mode (lines 2294-2379). -/
def normal_mode_varmenu (E : Engine) (shift key menukey : Int) (st : St) : Flow :=
  if menukey ≠ -1 then .ret (normal_mode_varmenu_key E shift menukey st)
  else if shift = 0 ∧ key = KEY_UP then
    if st.s.varmenu_rows > 1 then
      let st := st.upd (fun s =>
        { s with varmenu_row := if s.varmenu_row - 1 < 0 then s.varmenu_rows - 1
                                else s.varmenu_row - 1 })
      .ret (set_pending CMD_CANCELLED st)
    else .ret st
  else if shift = 0 ∧ key = KEY_DOWN then
    if st.s.varmenu_rows > 1 then
      let st := st.upd (fun s =>
        { s with varmenu_row := if s.varmenu_row + 1 ≥ s.varmenu_rows then 0
                                else s.varmenu_row + 1 })
      .ret (set_pending CMD_CANCELLED st)
    else .ret st
  else if key = KEY_EXIT then
    let st := st.call E (.set_menu MENULEVEL_APP MENU_NONE)
    if st.s.varmenu_role = 3 then
      let st := set_pending CMD_VMEXEC st
      .ret (upd_arg (fun a => { a with type := ARGTYPE_STR, length := 0 }) st)
    else
      let st := st.call E (.print_menu_trace "EXIT" 4)
      .ret (set_pending CMD_CANCELLED st)
  else .go st

/-- The statements `repeating = 1; repeating_shift = 1; repeating_key = key;`. -/
def repeat_shifted (key : Int) (st : St) : St :=
  st.upd (fun s => { s with repeating := 1, repeating_shift := 1, repeating_key := key })

/-- A key of the CUSTOM menu that is assigned to a built-in command (lines
2430-2480); `ret` when the handler returns, `go` on the way to `send_it_off`. -/
def custom_builtin (E : Engine) (cmd : Int) (st : St) : Flow :=
  if cmd = -1 then .go (set_pending CMD_XEQ st)
  else if cmd = CMD_CLALLa then
    let st := st.upd (fun s => { s with mode_clall := true })
    let st := st.call E (.set_menu MENULEVEL_ALPHA MENU_NONE)
    let st := set_pending CMD_NONE st
    .ret (st.call E .redisplay)
  else if cmd = CMD_CLV ∨ cmd = CMD_PRV ∨ cmd = CMD_LCLV then
    if ¬ st.s.flags.prgm_mode ∧ st.s.vars_count = 0 then
      let st := st.call E (.display_error ERR_NO_VARIABLES)
      let st := set_pending CMD_NONE st
      .ret (st.call E .redisplay)
    else .ret ((set_pending CMD_NONE st).call E (.do_interactive cmd))
  else if (cmd = CMD_SST ∨ cmd = CMD_SST_UP ∨ cmd = CMD_SST_RT) ∧ st.s.flags.prgm_mode then
    let st := st.call E .sst
    let st := set_pending CMD_NONE st
    let st := st.call E .redisplay
    .ret (repeat_shifted KEY_DOWN st)
  else if cmd = CMD_BST then
    let st := st.call E .bst
    let st :=
      if ¬ st.s.flags.prgm_mode then
        let st := st.upd (fun s => { s with flags := { s.flags with prgm_mode := true } })
        let st := st.call E .redisplay
        let st := st.upd (fun s => { s with flags := { s.flags with prgm_mode := false } })
        set_pending CMD_CANCELLED st
      else set_pending CMD_NONE (st.call E .redisplay)
    .ret (repeat_shifted KEY_UP st)
  else if (E.cmd_array cmd).argtype = ARG_NONE then
    let st := set_pending cmd st
    .go (upd_arg (fun a => { a with type := ARGTYPE_NONE }) st)
  else .ret ((set_pending CMD_NONE st).call E (.do_interactive cmd))

/-- A soft key of a CUSTOM menu (lines 2382-2485). -/
def normal_mode_custom (E : Engine) (shift menukey menu level : Int) (st : St) : St :=
  if st.s.flags.local_label then
    if menukey = 5 then st.call E (.do_interactive (if shift ≠ 0 then CMD_GTO else CMD_XEQ))
    else
      let st := set_pending CMD_XEQ st
      let st := upd_arg (fun a => { a with type := ARGTYPE_LCLBL }) st
      let st :=
        if menu = MENU_CUSTOM1 then
          upd_arg (fun a =>
            { a with lclbl := if shift ≠ 0 then (97 + menukey).toNat else (65 + menukey).toNat }) st
        else upd_arg (fun a => { a with lclbl := (70 + menukey).toNat }) st
      if st.s.flags.prgm_mode then
        let st := st.call E (.store_command_after st.s.pending_command st.s.pending_command_arg)
        let st := st.upd (fun s => { s with prgm_highlight_row := 1 })
        let st := set_pending CMD_NONE st
        let st := st.call E (.set_menu MENULEVEL_COMMAND MENU_NONE)
        st.call E .redisplay
      else st
  else
    let keynum := menukey + 6 * (menu - MENU_CUSTOM1) + 1
    let name := E.askS (.custom_key_name keynum) st.s
    let length := E.ask (.custom_key_length keynum) st.s
    if length = 0 then st.call E .squeak
    else
      let st := set_arg_str name length st
      let flow :=
        if E.ask (.find_global_label st.s.pending_command_arg) st.s ≠ 0 then
          Flow.go (set_pending CMD_XEQ st)
        else if E.ask (.lookup_var name length) st.s ≠ -1 then Flow.go (set_pending CMD_RCL st)
        else custom_builtin E (E.ask (.find_builtin name length) st.s) st
      flow.next fun st => send_it_off E level st

/-- The statements `if (level == MENULEVEL_TRANSIENT || !mode_plainmenu_sticky)
set_menu(level, MENU_NONE);` (lines 2651-2653 and 2669-2671). -/
def close_catalog (E : Engine) (level : Int) (st : St) : St :=
  if level = MENULEVEL_TRANSIENT ∨ ¬ st.s.mode_plainmenu_sticky then
    st.call E (.set_menu level MENU_NONE)
  else st

/-- The case `CATSECT_TOP` of the catalog in normal mode (lines 2489-2541). -/
def normal_mode_catalog_top (E : Engine) (menukey : Int) (st : St) : St :=
  let open_section (name : String) (length kind sect err : Int) (st : St) : St :=
    let st := st.call E (.print_menu_trace name length)
    if E.ask (.vars_exist kind) st.s ≠ 0 then
      ((st.call E (.set_cat_section sect)).call E (.move_cat_row 0)).call E .redisplay
    else (st.call E (.display_error err)).call E .flush_display
  if menukey = 0 then
    let st := st.call E (.print_menu_trace "FCN" 3)
    ((st.call E (.set_cat_section CATSECT_FCN)).call E (.move_cat_row 0)).call E .redisplay
  else if menukey = 1 then
    let st := st.call E (.print_menu_trace "PGM" 3)
    ((st.call E (.set_cat_section CATSECT_PGM)).call E (.move_cat_row 0)).call E .redisplay
  else if menukey = 2 then open_section "REAL" 4 CATSECT_REAL CATSECT_REAL ERR_NO_REAL_VARIABLES st
  else if menukey = 3 then open_section "CPX" 3 CATSECT_CPX CATSECT_CPX ERR_NO_COMPLEX_VARIABLES st
  else if menukey = 4 then open_section "MAT" 3 CATSECT_MAT CATSECT_MAT ERR_NO_MATRIX_VARIABLES st
  else if menukey = 5 then
    let st := st.call E .display_mem
    let st := set_pending CMD_LINGER1 st
    st.call E (.shell_request_timeout3 2000)
  else st.call E .redisplay

/-- The case `CATSECT_EXT_1` of the catalog in normal mode (lines 2542-2571). -/
def normal_mode_catalog_ext1 (E : Engine) (menukey : Int) (st : St) : St :=
  let st :=
    if menukey = 0 then
      (st.call E (.print_menu_trace "TIME" 4)).call E (.set_cat_section CATSECT_EXT_TIME)
    else if menukey = 1 then
      (st.call E (.print_menu_trace "XFCN" 4)).call E (.set_cat_section CATSECT_EXT_XFCN)
    else if menukey = 2 then
      (st.call E (.print_menu_trace "BASE" 4)).call E (.set_cat_section CATSECT_EXT_BASE)
    else if menukey = 3 then
      (st.call E (.print_menu_trace "PRGM" 4)).call E (.set_cat_section CATSECT_EXT_PRGM)
    else if menukey = 4 then
      (st.call E (.print_menu_trace "STR" 3)).call E (.set_cat_section CATSECT_EXT_STR)
    else if menukey = 5 then
      (st.call E (.print_menu_trace "STK" 3)).call E (.set_cat_section CATSECT_EXT_STK)
    else st
  (st.call E (.move_cat_row 0)).call E .redisplay

/-- A program label chosen from the catalog in normal mode (lines 2582-2611);
`go` on the way to `send_it_off`. -/
def normal_mode_catalog_pgm (E : Engine) (menukey catsect level : Int) (st : St) : Flow :=
  let labelindex := E.ask (.get_cat_item menukey) st.s
  if labelindex = -1 then .ret (set_pending CMD_NULL st)
  else if st.s.flags.prgm_mode ∧ E.ask (.label_length labelindex) st.s = 0 then
    let st := st.call E (.display_error ERR_RESTRICTED_OPERATION)
    let st := st.call E .flush_display
    .ret (set_pending CMD_NONE st)
  else
    let st := set_pending CMD_XEQ st
    let st := upd_arg (fun a => { a with type := ARGTYPE_LBLINDEX, num := labelindex }) st
    let st := st.upd (fun s => { s with xeq_invisible := 1 })
    if ¬ st.s.flags.prgm_mode ∧ (level = MENULEVEL_TRANSIENT ∨ ¬ st.s.mode_plainmenu_sticky) then
      let st :=
        if level = MENULEVEL_PLAIN then
          let row := E.ask .get_cat_row st.s
          let st := st.call E (.set_menu MENULEVEL_PLAIN MENU_NONE)
          let st := st.call E (.set_menu MENULEVEL_TRANSIENT MENU_CATALOG)
          let st := st.call E (.set_cat_section catsect)
          st.call E (.set_cat_row row)
        else st
      .go (st.upd (fun s => { s with remove_program_catalog := 1 }))
    else .go st

/-- A program chosen for the solver, the integrator or `PGMMENU` (lines
2612-2634). -/
def normal_mode_catalog_pgm_for (E : Engine) (menukey catsect : Int) (st : St) : Flow :=
  let labelindex := E.ask (.get_cat_item menukey) st.s
  if labelindex = -1 then .ret (set_pending CMD_NULL st)
  else
    let st :=
      if catsect = CATSECT_PGM_SOLVE then
        set_pending (if st.s.flags.prgm_mode then CMD_PGMSLV else CMD_PGMSLVi) st
      else if catsect = CATSECT_PGM_INTEG then
        set_pending (if st.s.flags.prgm_mode then CMD_PGMINT else CMD_PGMINTi) st
      else set_pending CMD_PMEXEC st
    .go (st.upd (fun s => { s with pending_command_arg :=
      { s.pending_command_arg with
        type := ARGTYPE_STR,
        length := E.ask (.label_length labelindex) s,
        text := acopy s.pending_command_arg.text (E.askS (.label_name labelindex) s)
                  (E.ask (.label_length labelindex) s) } }))

/-- A function chosen from the catalog in normal mode (lines 2635-2655). -/
def normal_mode_catalog_fcn (E : Engine) (menukey level : Int) (st : St) : St :=
  let cmd := E.ask (.get_cat_item menukey) st.s
  if cmd = CMD_NULL ∧ st.s.flags.prgm_mode then set_pending CMD_NULL st
  else if cmd ≠ CMD_NULL ∧ cmd < 0 then
    let st := st.call E (.print_menu_trace (if cmd = -2 then "0?" else "X?") 2)
    let st := st.call E (.set_cat_section (if cmd = -2 then CATSECT_EXT_0_CMP else CATSECT_EXT_X_CMP))
    let st := st.call E (.move_cat_row 0)
    let st := st.call E .redisplay
    set_pending CMD_NULL st
  else (close_catalog E level st).call E (.do_interactive cmd)

/-- A variable chosen from the catalog in normal mode (lines 2656-2672). -/
def normal_mode_catalog_var (E : Engine) (menukey level : Int) (st : St) : Flow :=
  let varindex := E.ask (.get_cat_item menukey) st.s
  if varindex = -1 then .ret (set_pending CMD_NULL st)
  else
    let st := set_pending CMD_RCL st
    let st := st.upd (fun s => { s with pending_command_arg :=
      { s.pending_command_arg with
        type := ARGTYPE_STR,
        length := E.ask (.var_length varindex) s,
        text := acopy s.pending_command_arg.text (E.askS (.var_name varindex) s)
                  (E.ask (.var_length varindex) s) } })
    .go (close_catalog E level st)

/-- A soft key of the catalog in normal mode (lines 2486-2689). -/
def normal_mode_catalog (E : Engine) (menukey level : Int) (st : St) : St :=
  let catsect := E.ask .get_cat_section st.s
  if catsect = CATSECT_TOP then normal_mode_catalog_top E menukey st
  else if catsect = CATSECT_EXT_1 then normal_mode_catalog_ext1 E menukey st
  else if catsect = CATSECT_EXT_2 then
    if menukey = 0 then
      let st := st.call E (.print_menu_trace "MISC" 4)
      ((st.call E (.set_cat_section CATSECT_EXT_MISC)).call E (.move_cat_row 0)).call E .redisplay
    else st.call E .squeak
  else if catsect = CATSECT_FCN ∨ (catsect ≥ CATSECT_EXT_TIME ∧ catsect ≤ CATSECT_EXT_X_CMP) then
    normal_mode_catalog_fcn E menukey level st
  else
    let flow :=
      if catsect = CATSECT_PGM ∨ catsect = CATSECT_PGM_ONLY then
        normal_mode_catalog_pgm E menukey catsect level st
      else if catsect = CATSECT_PGM_SOLVE ∨ catsect = CATSECT_PGM_INTEG
          ∨ catsect = CATSECT_PGM_MENU then
        normal_mode_catalog_pgm_for E menukey catsect st
      else normal_mode_catalog_var E menukey level st
    flow.next fun st => send_it_off E level st

/-- A soft key of the integration-parameter menu in normal mode (lines
2690-2726). -/
def normal_mode_integ_params (E : Engine) (shift menukey : Int) (st : St) : St :=
  if menukey ≤ 2 then
    let name := if menukey = 0 then str "LLIM" else if menukey = 1 then str "ULIM"
                else if menukey = 2 then str "ACC" else []
    let length : Int := if menukey = 0 ∨ menukey = 1 then 4 else if menukey = 2 then 3 else 0
    if shift ≠ 0 ∧ ¬ st.s.flags.prgm_mode then view E name length st
    else
      let st := set_arg_str name length st
      if st.s.flags.prgm_mode then store_menu_variable E shift st
      else set_pending CMD_VMSTO st
  else if menukey = 5 then
    let st := upd_arg (fun a => { a with type := ARGTYPE_STR }) st
    let st := st.upd (fun s => { s with pending_command_arg :=
      { s.pending_command_arg with
        text := acopy s.pending_command_arg.text (E.askS .integ_var s) (E.ask .integ_var_length s),
        length := E.ask .integ_var_length s } })
    set_pending CMD_INTEG st
  else set_pending CMD_NULL st

/-- The replacement of the command of a soft key when shifted (lines 2737-2764). -/
def shifted_menu_command (menu menukey cmd_id : Int) : Int :=
  if menu = MENU_TOP_FCN then
    if menukey = 0 then CMD_SIGMASUB else if menukey = 1 then CMD_Y_POW_X
    else if menukey = 2 then CMD_SQUARE else if menukey = 3 then CMD_10_POW_X
    else if menukey = 4 then CMD_E_POW_X else if menukey = 5 then CMD_GTO else cmd_id
  else if menu = MENU_PGM_FCN1 then (if menukey = 5 then CMD_GTO else cmd_id)
  else if menu = MENU_STAT1 then (if menukey = 0 then CMD_SIGMASUB else cmd_id)
  else if menu = MENU_BASE2 then
    if menukey = 0 then CMD_SLN else if menukey = 1 then CMD_SRN else cmd_id
  else if menu = MENU_BASE3 then
    if menukey = 0 then CMD_RJ else if menukey = 1 then CMD_ASRN else cmd_id
  else cmd_id

/-- A soft key of any other menu in normal mode (lines 2727-2773). -/
def normal_mode_menu_item (E : Engine) (shift menukey menu level : Int) (st : St) : St :=
  let mi := menu_child (E.menus menu) menukey
  let cmd_id := mi.menuid
  if (cmd_id / 4096) % 4 = 0 then
    let st := st.call E (.set_menu level cmd_id)
    let st := st.call E (.print_menu_trace_item mi.title mi.title_length)
    st.call E .redisplay
  else
    let cmd_id := cmd_id % 4096
    let cmd_id := if shift ≠ 0 then shifted_menu_command menu menukey cmd_id else cmd_id
    let st :=
      if level = MENULEVEL_TRANSIENT ∨ (level = MENULEVEL_PLAIN ∧ ¬ st.s.mode_plainmenu_sticky) then
        st.call E (.set_menu level MENU_NONE)
      else st
    if cmd_id = CMD_NULL ∧ st.s.flags.prgm_mode then set_pending CMD_NULL st
    else st.call E (.do_interactive cmd_id)

/-- The key `EXIT` with a menu in front in normal mode (lines 2798-2847). -/
def normal_mode_menu_exit (E : Engine) (menu level : Int) (st : St) : St :=
  let st := st.call E (.print_menu_trace "EXIT" 4)
  if menu = MENU_CATALOG then
    let catsect := E.ask .get_cat_section st.s
    let st :=
      if catsect = CATSECT_FCN ∨ catsect = CATSECT_PGM ∨ catsect = CATSECT_REAL
          ∨ catsect = CATSECT_CPX ∨ catsect = CATSECT_MAT then
        st.call E (.set_cat_section CATSECT_TOP)
      else if catsect ≥ CATSECT_EXT_TIME ∧ catsect ≤ CATSECT_EXT_STK then
        st.call E (.set_cat_section CATSECT_EXT_1)
      else if catsect = CATSECT_EXT_MISC then st.call E (.set_cat_section CATSECT_EXT_2)
      else if catsect = CATSECT_EXT_0_CMP ∨ catsect = CATSECT_EXT_X_CMP then
        (st.call E (.set_cat_section CATSECT_EXT_PRGM)).call E (.set_cat_row 3)
      else st.call E (.set_menu level MENU_NONE)
    set_pending CMD_CANCELLED st
  else if (menu = MENU_MATRIX_EDIT1 ∨ menu = MENU_MATRIX_EDIT2) ∧ st.s.matedit_stack_depth > 0 then
    let err := E.ask .docmd_stoel st.s
    if st.s.sp ≠ -1 ∧ err ≠ ERR_NONE ∧ err ≠ ERR_NONEXISTENT then
      let st := st.call E .docmd_stoel
      (st.call E (.display_error err)).call E .flush_display
    else
      let st := if st.s.sp ≠ -1 then st.call E .docmd_stoel else st
      let st := st.upd (fun s =>
        { s with matedit_stack_depth := s.matedit_stack_depth - 1,
                 matedit_i := iget s.matedit_stack (s.matedit_stack_depth - 1) })
      let st := st.upd (fun s => { s with matedit_j := 0, matedit_is_list := true })
      let st :=
        if st.s.sp ≠ -1 then
          st.upd (fun s => { s with flags := { s.flags with stack_lift_disable := true } })
        else st
      let err := E.ask .docmd_rclel st.s
      let st := st.call E .docmd_rclel
      let st := if err ≠ ERR_NONE then st.call E (.display_error err) else st
      st.call E .redisplay
  else
    let st := st.call E (.set_menu level (E.menus menu).parent)
    set_pending CMD_CANCELLED st

/-- The keys `UP` and `DOWN` with a menu in front in normal mode (lines
2776-2796). -/
def normal_mode_menu_updown (E : Engine) (key menu level : Int) (st : St) : St :=
  if menu = MENU_CATALOG then
    (st.call E (.move_cat_row (if key = KEY_UP then -1 else 1))).call E .redisplay
  else if st.s.flags.local_label
      ∧ (menu = MENU_CUSTOM1 ∨ menu = MENU_CUSTOM2 ∨ menu = MENU_CUSTOM3) then
    let st := st.call E (.set_menu level (if menu = MENU_CUSTOM1 then MENU_CUSTOM2 else MENU_CUSTOM1))
    st.call E .redisplay
  else
    let m := E.menus menu
    let nextmenu := if key = KEY_UP then m.prev else m.next
    if nextmenu ≠ MENU_NONE then (st.call E (.set_menu level nextmenu)).call E .redisplay
    else st

/-- The block of `keydown_normal_mode` that handles a key while a menu is in
front (lines 2258-2848). -/
def normal_mode_menu (E : Engine) (shift key : Int) (st : St) : Flow :=
  let menukey := E.ask (.find_menu_key key) st.s
  let menu :=
    if st.s.mode_transientmenu ≠ MENU_NONE then st.s.mode_transientmenu
    else if st.s.mode_plainmenu ≠ MENU_NONE then st.s.mode_plainmenu
    else st.s.mode_appmenu
  let level :=
    if st.s.mode_transientmenu ≠ MENU_NONE then MENULEVEL_TRANSIENT
    else if st.s.mode_plainmenu ≠ MENU_NONE then MENULEVEL_PLAIN
    else MENULEVEL_APP
  let keynum : Option Int :=
    if menukey ≠ -1 then some (menukey + 1)
    else if shift = 0 then
      if key = KEY_UP then some 7 else if key = KEY_DOWN then some 8
      else if key = KEY_EXIT then some 9 else none
    else none
  if menu = MENU_PROGRAMMABLE ∧ keynum.isSome then
    .ret (st.call E (.do_prgm_menu_key (keynum.getD 0)))
  else
    (if menu = MENU_VARMENU then normal_mode_varmenu E shift key menukey st
     else Flow.go st).bind fun st =>
      if menukey ≠ -1 then
        if menu = MENU_CUSTOM1 ∨ menu = MENU_CUSTOM2 ∨ menu = MENU_CUSTOM3 then
          .ret (normal_mode_custom E shift menukey menu level st)
        else if menu = MENU_CATALOG then .ret (normal_mode_catalog E menukey level st)
        else if menu = MENU_INTEG_PARAMS then .ret (normal_mode_integ_params E shift menukey st)
        else .ret (normal_mode_menu_item E shift menukey menu level st)
      else if shift = 0 ∧ (key = KEY_UP ∨ key = KEY_DOWN) then
        .ret (normal_mode_menu_updown E key menu level st)
      else if key = KEY_EXIT then .ret (normal_mode_menu_exit E menu level st)
      else .go st

/-- The unshifted `switch (key)` at the end of `keydown_normal_mode` (lines
2879-2913). -/
def normal_mode_unshifted (E : Engine) (key : Int) (st : St) : Pick :=
  let s := st.s
  if key = KEY_SIGMA then .cmd st CMD_SIGMAADD
  else if key = KEY_INV then .cmd st CMD_INV
  else if key = KEY_SQRT then .cmd st CMD_SQRT
  else if key = KEY_LOG then .cmd st CMD_LOG
  else if key = KEY_LN then .cmd st CMD_LN
  else if key = KEY_XEQ then .cmd st CMD_XEQ
  else if key = KEY_STO then .cmd st CMD_STO
  else if key = KEY_RCL then .cmd st CMD_RCL
  else if key = KEY_RDN then .cmd st CMD_RDN
  else if key = KEY_SIN then .cmd st CMD_SIN
  else if key = KEY_COS then .cmd st CMD_COS
  else if key = KEY_TAN then .cmd st CMD_TAN
  else if key = KEY_ENTER then .cmd st (if s.flags.big_stack then CMD_DUP else CMD_ENTER)
  else if key = KEY_SWAP then .cmd st CMD_SWAP
  else if key = KEY_CHS then .cmd st (if basekeys E s then CMD_BASECHS else CMD_CHS)
  else if key = KEY_BSP then .cmd st (if s.flags.big_stack then CMD_DROP else CMD_CLX)
  else if key = KEY_DIV then .cmd st (if basekeys E s then CMD_BASEDIV else CMD_DIV)
  else if key = KEY_DOWN then .cmd st CMD_SST
  else if key = KEY_MUL then .cmd st (if basekeys E s then CMD_BASEMUL else CMD_MUL)
  else if key = KEY_SUB then .cmd st (if basekeys E s then CMD_BASESUB else CMD_SUB)
  else if key = KEY_EXIT then
    let st := st.call E (.print_menu_trace "EXIT" 4)
    let st := st.upd (fun s => { s with input_length := 0 })
    .ret (set_pending CMD_CANCELLED st)
  else if key = KEY_RUN then .cmd st CMD_RUN
  else if key = KEY_ADD then
    if ¬ s.flags.prgm_mode ∧ s.sp > 0
        ∧ (stack_type s.stack (s.sp - 1) = TYPE_LIST ∨ stack_type s.stack (s.sp - 1) = TYPE_STRING) then
      .cmd st CMD_APPEND
    else .cmd st (if basekeys E s then CMD_BASEADD else CMD_ADD)
  else .cmd st (direct_command key)

/-- The shifted `switch (key)` at the end of `keydown_normal_mode` (lines
2915-2971). -/
def normal_mode_shifted (E : Engine) (key : Int) (st : St) : Pick :=
  if key = KEY_SIGMA then .cmd st CMD_SIGMASUB
  else if key = KEY_INV then .cmd st CMD_Y_POW_X
  else if key = KEY_SQRT then .cmd st CMD_SQUARE
  else if key = KEY_LOG then .cmd st CMD_10_POW_X
  else if key = KEY_LN then .cmd st CMD_E_POW_X
  else if key = KEY_XEQ then .cmd st CMD_GTO
  else if key = KEY_STO then .cmd st CMD_COMPLEX
  else if key = KEY_RCL then .cmd st CMD_PERCENT
  else if key = KEY_RDN then .cmd st CMD_PI
  else if key = KEY_SIN then .cmd st CMD_ASIN
  else if key = KEY_COS then .cmd st CMD_ACOS
  else if key = KEY_TAN then .cmd st CMD_ATAN
  else if key = KEY_SWAP then .cmd st CMD_LASTX
  else if key = KEY_CHS then .ret (st.call E (.set_plainmenu MENU_MODES1 "MODES" 5))
  else if key = KEY_E then .ret (st.call E (.set_plainmenu MENU_DISP "DISP" 4))
  else if key = KEY_BSP then .ret (st.call E (.set_plainmenu MENU_CLEAR1 "CLEAR" 5))
  else if key = KEY_7 then .ret (set_solve_integ E true st)
  else if key = KEY_8 then .ret (set_solve_integ E false st)
  else if key = KEY_9 then
    let st := st.call E (.print_menu_trace "MATRIX" 6)
    .ret ((st.call E (.set_menu MENULEVEL_APP MENU_MATRIX1)).call E .redisplay)
  else if key = KEY_DIV then
    let st := st.call E (.print_menu_trace "STAT" 4)
    .ret ((st.call E (.set_menu MENULEVEL_APP MENU_STAT1)).call E .redisplay)
  else if key = KEY_DOWN then .cmd st CMD_SST
  else if key = KEY_4 then .ret (open_base_menu E true st)
  else if key = KEY_5 then .ret (st.call E (.set_plainmenu MENU_CONVERT1 "CONVERT" 7))
  else if key = KEY_6 then .ret (st.call E (.set_plainmenu MENU_FLAGS "FLAGS" 5))
  else if key = KEY_MUL then .ret (st.call E (.set_plainmenu MENU_PROB "PROB" 4))
  else if key = KEY_1 then .cmd st CMD_ASSIGNa
  else if key = KEY_2 then
    if st.s.flags.prgm_mode then .ret (set_pending CMD_CUSTOM st) else .cmd st CMD_CUSTOM
  else if key = KEY_3 then .ret (st.call E (.set_plainmenu MENU_PGM_FCN1 "PGM.FCN" 7))
  else if key = KEY_SUB then .ret (st.call E (.set_plainmenu MENU_PRINT1 "PRINT" 5))
  else if key = KEY_DOT then
    let st := st.call E .show_
    let st := set_pending CMD_LINGER1 st
    .ret (st.call E (.shell_request_timeout3 2000))
  else if key = KEY_0 then .ret (st.call E (.set_plainmenu MENU_TOP_FCN "TOP.FCN" 7))
  else if key = KEY_ADD then .ret (st.call E (.set_plainmenu MENU_CATALOG "CATALOG" 7))
  else .cmd st (direct_command key)

/-- The code of `keydown_normal_mode` after the menu block (lines 2850-2977). -/
def normal_mode_plain (E : Engine) (shift key : Int) (st : St) : St :=
  if shift ≠ 0 ∧ key = KEY_ENTER then
    let st := if st.s.deferred_print then st.call E (.print_command CMD_NULL none) else st
    let st := st.upd (fun s => { s with mode_alpha_entry := false })
    let st := st.call E (.set_menu MENULEVEL_ALPHA MENU_ALPHA1)
    let st := st.call E (.print_menu_trace "ALPHA" 5)
    st.call E .redisplay
  else if key = KEY_EXIT ∧ st.s.flags.prgm_mode then
    let st := st.call E (.print_menu_trace "EXIT" 4)
    let st := st.upd (fun s => { s with flags := { s.flags with prgm_mode := false } })
    set_pending CMD_CANCELLED st
  else if key = KEY_UP then (st.call E .clear_all_rtns).call E .squeak
  else
    (if shift = 0 then normal_mode_unshifted E key st
     else normal_mode_shifted E key st).next fun st command =>
      if command = CMD_NONE then st else st.call E (.do_interactive command)

/-- Backspace in program mode, outside number entry (lines 2234-2256). -/
def normal_mode_prgm_bsp (E : Engine) (st : St) : St :=
  let line := E.ask (.pc2line st.s.pc) st.s
  if line = 0 then st
  else (delete_current_line E line st).call E .redisplay

/-- The function `keydown_normal_mode(shift, key)`. -/
def keydown_normal_mode (E : Engine) (shift key : Int) (st : St) : St :=
  let st := st.mark .enter_normal_mode
  let nk := is_number_key E shift key st.s
  if nk.1 then
    if nk.2 then st else normal_mode_number_key E shift key st
  else if st.s.flags.prgm_mode ∧ shift = 0 ∧ key = KEY_BSP then normal_mode_prgm_bsp E st
  else
    (if (st.s.mode_appmenu ≠ MENU_NONE ∨ st.s.mode_plainmenu ≠ MENU_NONE
            ∨ st.s.mode_transientmenu ≠ MENU_NONE)
          ∧ st.s.mode_alphamenu = MENU_NONE ∧ st.s.mode_commandmenu = MENU_NONE then
       normal_mode_menu E shift key st
     else Flow.go st).next fun st => normal_mode_plain E shift key st

/-! ## `keydown` (lines 171-416) -/

/-- The handlers that `keydown` dispatches to at its end (lines 408-415). -/
def keydown_dispatch (E : Engine) (shift key : Int) (st : St) : St :=
  if st.s.mode_number_entry ≠ 0 then keydown_number_entry E shift key st
  else if st.s.mode_command_entry then keydown_command_entry E shift key st
  else if E.ask .alpha_active st.s ≠ 0 then keydown_alpha_mode E shift key st
  else keydown_normal_mode E shift key st

/-- The statements that store the number being entered as a program line (lines
251-256 and 321-326). -/
def store_number_line (E : Engine) (st : St) : St :=
  let arg : arg_struct := { arg_zero with type := ARGTYPE_DOUBLE, val_d := st.s.entered_number }
  let st := st.upd (fun s => { s with cmdline := aset s.cmdline s.cmdline_length 0 })
  let st := st.call E (.store_command st.s.pc CMD_NUMBER arg (some st.s.cmdline))
  st.upd (fun s => { s with prgm_highlight_row := 1 })

/-- The key event `GETKEY` is waiting for (lines 205-235). -/
def keydown_getkey (E : Engine) (shift key : Int) (st : St) : St :=
  let mapped := (find_cmd_getkey_mapping (key - 2048)).getD 0
  if key ≥ 2048 ∧ mapped = 0 then
    (st.call E .squeak).call E (.set_annunciators (-1) (-1) (-1) 0 (-1) (-1))
  else
    let key := if key ≥ 2048 then mapped else if shift ≠ 0 then key + 37 else key
    let result : vartype := { type := TYPE_REAL, x := phloat.of_int key }
    let st :=
      if E.ask .new_real_ok st.s ≠ 0 then
        if E.ask (.recall_result result) st.s ≠ ERR_NONE then
          let st := st.call E (.recall_result result)
          let st := st.call E (.display_error ERR_INSUFFICIENT_MEMORY)
          st.call E (.set_running false)
        else
          let st := st.call E (.recall_result result)
          st.upd (fun s => { s with flags := { s.flags with stack_lift_disable := false } })
      else
        let st := st.call E (.display_error ERR_INSUFFICIENT_MEMORY)
        st.call E (.set_running false)
    let st :=
      if key = KEY_RUN ∨ (¬ st.s.mode_getkey1 ∧ (key = KEY_EXIT ∨ key = KEY_EXIT + 37)) then
        st.call E (.set_running false)
      else st
    let st := st.upd (fun s => { s with mode_getkey := false })
    if ¬ st.s.mode_running then st.call E .redisplay else st

/-- The keys `Shift-RUN`: program mode is switched on or off (lines 242-288). -/
def keydown_prgm_toggle (E : Engine) (st : St) : St :=
  if st.s.mode_command_entry then st.call E .squeak
  else
    let st :=
      if st.s.flags.prgm_mode then
        if st.s.mode_alpha_entry then st.call E .finish_alpha_prgm_line
        else if st.s.mode_number_entry ≠ 0 then store_number_line E st
        else st
      else if st.s.mode_alpha_entry then
        if printing st.s then st.call E .docmd_pra else st
      else if st.s.mode_number_entry ≠ 0 then
        if printing st.s then
          let st := st.upd (fun s => { s with deferred_print := true })
          st.call E (.print_command CMD_NULL none)
        else st
      else st
    let st := st.call E (.print_menu_trace_always "PRGM" 4)
    let st := st.upd (fun s => { s with mode_alpha_entry := false, mode_number_entry := 0 })
    let st := st.upd (fun s => { s with flags := { s.flags with prgm_mode := ! s.flags.prgm_mode } })
    let st := st.upd (fun s => { s with mode_varmenu := false })
    let st :=
      if st.s.flags.prgm_mode then
        let st :=
          if st.s.mode_appmenu = MENU_BASE_A_THRU_F then st.call E (.set_menu MENULEVEL_APP MENU_BASE1)
          else if st.s.mode_plainmenu = MENU_PROGRAMMABLE then
            st.call E (.set_menu MENULEVEL_PLAIN MENU_NONE)
          else st
        st.upd (fun s => { s with input_length := 0 })
      else st
    let st := st.upd (fun s =>
      { s with flags := { s.flags with message := false, two_line_message := false } })
    st.call E .redisplay

/-- The statements of lines 318-330: number entry ends and the number is stored
as a program line, or its printing is deferred. -/
def end_number_entry (E : Engine) (st : St) : St :=
  let st := st.upd (fun s => { s with mode_number_entry := 0 })
  if st.s.flags.prgm_mode then store_number_line E st
  else if printing st.s then st.upd (fun s => { s with deferred_print := true })
  else st

/-- The statements of lines 311-334: a key that is not a number key ends number
entry; `ret` for the return of line 332. The test `if (invalid) return;` of line
316 is kept as it is written. -/
def keydown_leave_number_entry (E : Engine) (shift key : Int) (st : St) : Flow :=
  let nk := is_number_key E shift key st.s
  if st.s.mode_number_entry ≠ 0 ∧ ¬ nk.1
      ∧ (key ≠ KEY_CHS ∨ shift ≠ 0 ∨ basekeys E st.s ∨ E.ask .get_base st.s ≠ 10)
      ∧ (key ≠ KEY_BSP ∨ shift ≠ 0) then
    if nk.2 then .ret st
    else
      let st := end_number_entry E st
      if st.s.flags.big_stack ∧ shift = 0 ∧ key = KEY_ENTER then .ret (st.call E .redisplay)
      else .go st
  else .go st

/-- The section of the catalog that `UP` or `DOWN` leads to (lines 368-382); -1
when the section has no neighbour. -/
def next_cat_section (sect key : Int) : Int :=
  if sect = CATSECT_TOP then (if key = KEY_UP then CATSECT_EXT_2 else CATSECT_EXT_1)
  else if sect = CATSECT_EXT_1 then (if key = KEY_UP then CATSECT_TOP else CATSECT_EXT_2)
  else if sect = CATSECT_EXT_2 then (if key = KEY_UP then CATSECT_EXT_1 else CATSECT_TOP)
  else -1

/-- The code of `keydown` from line 336 on. -/
def keydown_navigation (E : Engine) (shift key : Int) (st : St) : St :=
  if st.s.mode_command_entry ∧ (shift ≠ 0 ∨ E.ask .get_front_menu st.s = MENU_NONE)
      ∧ (key = KEY_UP ∨ key = KEY_DOWN) then
    st.call E .squeak
  else
    let st :=
      if key = KEY_UP ∨ (key = KEY_DOWN
          ∧ (st.s.flags.prgm_mode ∨ (shift = 0 ∧ E.ask .get_front_menu st.s ≠ MENU_NONE))) then
        st.upd (fun s => { s with repeating := 1, repeating_shift := shift, repeating_key := key })
      else st
    if st.s.flags.prgm_mode ∧ (key = KEY_UP ∨ key = KEY_DOWN)
        ∧ (shift ≠ 0 ∨ E.ask .get_front_menu st.s = MENU_NONE) then
      let st :=
        if st.s.flags.prgm_mode ∧ st.s.mode_alpha_entry then st.call E .finish_alpha_prgm_line
        else st
      let st := st.call E .clear_all_rtns
      let st := if key = KEY_UP then st.call E .bst else st.call E .sst
      st.call E .redisplay
    else
      let sect := next_cat_section (E.ask .get_cat_section st.s) key
      if (key = KEY_UP ∨ key = KEY_DOWN) ∧ E.ask .get_front_menu st.s = MENU_CATALOG
          ∧ sect ≠ -1 then
        (st.call E (.set_cat_section sect)).call E .redisplay
      else if ¬ st.s.flags.prgm_mode ∧ key = KEY_UP
          ∧ (shift ≠ 0 ∨ E.ask .get_front_menu st.s = MENU_NONE) then
        let st := if st.s.mode_alpha_entry ∧ printing st.s then st.call E .docmd_pra else st
        let st := st.upd (fun s => { s with mode_alpha_entry := false })
        let st := st.call E .clear_all_rtns
        let st := st.call E .bst
        let st := st.upd (fun s => { s with flags := { s.flags with prgm_mode := true } })
        let st := st.call E .redisplay
        let st := st.upd (fun s => { s with flags := { s.flags with prgm_mode := false } })
        set_pending CMD_CANCELLED st
      else keydown_dispatch E shift key st

/-- The code of `keydown` from line 237 on, when neither `CLALL` nor `GETKEY` is
waiting for the key. -/
def keydown_main (E : Engine) (shift key : Int) (st : St) : St :=
  if shift ≠ 0 ∧ key = KEY_EXIT then set_pending CMD_SILENT_OFF st
  else if shift ≠ 0 ∧ key = KEY_RUN then keydown_prgm_toggle E st
  else if st.s.flags.message ∧ shift = 0 ∧ key = KEY_BSP then
    let st := st.upd (fun s =>
      { s with flags := { s.flags with message := false, two_line_message := false } })
    st.call E .redisplay
  else
    let st := st.upd (fun s =>
      { s with flags := { s.flags with message := false, two_line_message := false } })
    if st.s.mode_number_entry ≠ 0 ∧ E.ask .get_base st.s = 16 ∧ key = KEY_SIGMA
        ∧ E.ask .get_front_menu st.s = MENU_BASE1 then
      keydown_number_entry E (-1) (-1) st
    else
      (keydown_leave_number_entry E shift key st).next fun st => keydown_navigation E shift key st

/-- The function `keydown(shift, key)`. -/
def keydown (E : Engine) (shift key : Int) (st : St) : St :=
  let st := st.upd (fun s => { s with flags := { s.flags with shift_state := shift } })
  let st := set_pending CMD_NONE st
  let menu := E.ask .get_front_menu st.s
  if key ≥ 1024 ∧ key < 2048 ∧ (menu < MENU_ALPHA1 ∨ menu > MENU_ALPHA_MISC2) then st
  else if ¬ (key ≥ 1024 ∧ key < 2048) ∧ (key < 1 ∨ (key > 37 ∧ key < 2048)) then st.call E .squeak
  else if st.s.mode_clall then
    let st :=
      if shift = 0 ∧ key = KEY_SIGMA then set_pending CMD_CLALLb st
      else if key = KEY_EXIT then set_pending CMD_CANCELLED st
      else set_pending CMD_NULL st
    st.upd (fun s => { s with mode_clall := false })
  else if st.s.mode_getkey then keydown_getkey E shift key st
  else keydown_main E shift key st

/-! ## A reference engine

A small, concrete engine used to run the dispatcher on explicit inputs. Its
private memory `ext` holds the integer base and the word size. -/

/-- The function `find_menu_key` of the reference engine: the six keys of the
top row are the menu keys 0 to 5. -/
def ref_find_menu_key (key : Int) : Int :=
  if key = KEY_SIGMA then 0 else if key = KEY_INV then 1 else if key = KEY_SQRT then 2
  else if key = KEY_LOG then 3 else if key = KEY_LN then 4 else if key = KEY_XEQ then 5 else -1

/-- The function `get_front_menu` of the reference engine: the first menu level
that is not empty, in the order command, alpha, transient, plain, application. -/
def ref_get_front_menu (s : State) : Int :=
  if s.mode_commandmenu ≠ MENU_NONE then s.mode_commandmenu
  else if s.mode_alphamenu ≠ MENU_NONE then s.mode_alphamenu
  else if s.mode_transientmenu ≠ MENU_NONE then s.mode_transientmenu
  else if s.mode_plainmenu ≠ MENU_NONE then s.mode_plainmenu
  else s.mode_appmenu

/-- The integer base kept in `ext` by the reference engine. -/
def ref_get_base (s : State) : Int :=
  if s.ext % 4 = 1 then 2 else if s.ext % 4 = 2 then 8 else if s.ext % 4 = 3 then 16 else 10

/-- The word size kept in `ext` by the reference engine, between 1 and 64. -/
def ref_effective_wsize (s : State) : Int := ((s.ext / 4) % 64 + 1 : Nat)

/-- The results of the calls of the reference engine. -/
def ref_ask : Query → State → Int
  | .get_front_menu, s => ref_get_front_menu s
  | .get_base, s => ref_get_base s
  | .alpha_active, s => if is_alpha_menu (ref_get_front_menu s) then 1 else 0
  | .effective_wsize, s => ref_effective_wsize s
  | .find_menu_key key, _ => ref_find_menu_key key
  | .new_real_ok, _ => 1
  | .ensure_stack_capacity _, _ => 1
  | .start_alpha_prgm_line, _ => 1
  | .lookup_var _ _, _ => -1
  | .find_builtin _ _, _ => -1
  | .get_cat_item _, _ => -1
  | _, _ => 0

/-- The effects of the calls of the reference engine on the globals. -/
def ref_run : Call → State → State
  | .set_menu level menuid, s =>
    if level = MENULEVEL_COMMAND then { s with mode_commandmenu := menuid }
    else if level = MENULEVEL_ALPHA then { s with mode_alphamenu := menuid }
    else if level = MENULEVEL_TRANSIENT then { s with mode_transientmenu := menuid }
    else if level = MENULEVEL_PLAIN then { s with mode_plainmenu := menuid }
    else { s with mode_appmenu := menuid }
  | .append_alpha_char _, s =>
    if s.reg_alpha_length < 44 then { s with reg_alpha_length := s.reg_alpha_length + 1 } else s
  | .start_alpha_prgm_line, s =>
    { s with mode_alpha_entry := true, entered_string_length := 0 }
  | .finish_alpha_prgm_line, s => { s with mode_alpha_entry := false }
  | .finish_command_entry _, s => { s with mode_command_entry := false }
  | _, s => s

/-- The reference engine. Its menu and command tables are empty. -/
def refEngine : Engine :=
  { run := ref_run
    ask := ref_ask
    askS := fun _ _ => []
    menus := fun _ => { parent := MENU_NONE, next := MENU_NONE, prev := MENU_NONE, child := [] }
    cmd_array := fun _ => { name := [], name_length := 0, argtype := ARG_NONE, flags := 0 } }

/-- The calculator at rest: run mode, no menu, empty four-level stack, base 10. -/
def flags0 : flags_struct :=
  { shift_state := 0, prgm_mode := false, message := false, two_line_message := false,
    big_stack := false, trace_print := false, normal_print := false, printer_exists := false,
    stack_lift_disable := false, numeric_data_input := false, alpha_data_input := false,
    decimal_point := true, base_signed := false, local_label := false }

/-- The calculator at rest: run mode, no menu, empty four-level stack, base 10. -/
def State0 : State :=
  { flags := flags0, pending_command := CMD_NONE, pending_command_arg := arg_zero,
    mode_clall := false, mode_getkey := false, mode_getkey1 := false, mode_running := false,
    mode_number_entry := 0, mode_command_entry := false, mode_alpha_entry := false,
    mode_varmenu := false, mode_appmenu := MENU_NONE, mode_plainmenu := MENU_NONE,
    mode_transientmenu := MENU_NONE, mode_alphamenu := MENU_NONE, mode_commandmenu := MENU_NONE,
    mode_plainmenu_sticky := false, entered_number := phloat.of_int 0, cmdline := [],
    cmdline_length := 0, cmdline_row := 0, pc := 0, prgm_highlight_row := 0, current_prgm := 0,
    prgms_count := 1, deferred_print := false, input_length := 0, repeating := 0,
    repeating_shift := 0, repeating_key := 0, incomplete_command := CMD_NONE,
    incomplete_argtype := ARG_NONE, incomplete_ind := false, incomplete_alpha := false,
    incomplete_maxdigits := 0, incomplete_num := 0, incomplete_length := 0, incomplete_str := [],
    xeq_invisible := 0, remove_program_catalog := 0, varmenu_row := 0, varmenu_rows := 0,
    varmenu_role := 0, varmenu_labellength := [0, 0, 0, 0, 0, 0],
    varmenu_labeltext := [[], [], [], [], [], []], entered_string := [],
    entered_string_length := 0, reg_alpha_length := 0, baseapp := false, matedit_i := 0,
    matedit_j := 0, matedit_is_list := false, matedit_stack := [], matedit_stack_depth := 0,
    sp := 3,
    stack := List.replicate 4 (some { type := TYPE_REAL, x := phloat.of_int 0 }),
    vars_count := 0, auto_repeat := false, ext := 0 }

/-- A key event starts with an empty trace. -/
def start (s : State) : St := { s := s, tr := [] }

/-! ## Observations on the trace -/

/-- The call is the audible error `squeak()`. -/
@[simp] def Call.is_squeak : Call → Bool
  | .squeak => true
  | _ => false

/-- The call is one of the primitives of the display: a redisplay, a flush, an
error message, or a direct drawing routine. -/
@[simp] def Call.is_display : Call → Bool
  | .redisplay => true
  | .flush_display => true
  | .display_error _ => true
  | .clear_row _ => true
  | .draw_string _ _ _ _ => true
  | .draw_char _ _ _ => true
  | .display_y _ => true
  | .display_prgm_line _ _ => true
  | .display_mem => true
  | .show_ => true
  | .set_annunciators _ _ _ _ _ _ => true
  | _ => false

/-- The mark is the entry into one of the four mode handlers. -/
@[simp] def Call.is_handler_entry : Call → Bool
  | .enter_number_entry => true
  | .enter_command_entry => true
  | .enter_alpha_mode => true
  | .enter_normal_mode => true
  | _ => false

/-- The audible error was emitted during the calls of the trace. -/
def squeaked (tr : List Call) : Bool := tr.any Call.is_squeak

/-- A primitive of the display was called during the calls of the trace. -/
def displayed (tr : List Call) : Bool := tr.any Call.is_display

/-- One of the four mode handlers was entered. -/
def dispatched (tr : List Call) : Bool := tr.any Call.is_handler_entry

/-! ## States met in the statements -/

/-- The state in which a key that is not special reaches the handlers: the
assignments of lines 174, 176, 297 and 298 have been made. -/
def after_prologue (shift : Int) (s : State) : State :=
  { s with flags := { s.flags with shift_state := shift, message := false,
                                   two_line_message := false },
           pending_command := CMD_NONE }

/-! ## The value of an integer-base command line, as the specification reads it -/

/-- The value of a digit character, `0`..`9` and `A`..`F`. -/
def char_digit (c : Nat) : Int := if c ≤ 57 then (c : Int) - 48 else (c : Int) - 55

/-- A character that is a digit of the base. -/
def valid_digit (base : Int) (c : Nat) : Prop :=
  ((48 ≤ c ∧ c ≤ 57) ∨ (65 ≤ c ∧ c ≤ 70)) ∧ char_digit c < base

instance (base : Int) (c : Nat) : Decidable (valid_digit base c) := by
  unfold valid_digit; infer_instance

/-- A text of valid digits of the base and separator spaces. -/
def valid_text (base : Int) (t : List Nat) : Prop := ∀ c ∈ t, c = 32 ∨ valid_digit base c

instance (base : Int) (t : List Nat) : Decidable (valid_text base t) := by
  unfold valid_text; infer_instance

/-- The unsigned value of the digits of a text read in a base, continuing from
the value `n`; spaces are skipped and nothing wraps around. -/
def digits_value_from (base : Int) : List Nat → Int → Int
  | [], n => n
  | c :: cs, n =>
    if c = 32 then digits_value_from base cs n
    else digits_value_from base cs (n * base + char_digit c)

/-- The unsigned value of the digits of a text read in a base. -/
def digits_value (base : Int) (t : List Nat) : Int := digits_value_from base t 0

/-- Number entry in base 16 with word size 4; the command line holds `F`. -/
def hex_entry_state : State :=
  { State0 with mode_number_entry := 1, ext := 15, cmdline := [70, 0], cmdline_length := 1 }

/-- Number entry in base 10, run mode; the command line holds `5`. -/
def one_digit_state : State :=
  { State0 with mode_number_entry := 1, cmdline := [53], cmdline_length := 1 }

/-- The call hands the key event over to a routine of the engine that completes,
starts or runs a command or a menu action. -/
@[simp] def Call.is_handoff : Call → Bool
  | .finish_command_entry _ => true
  | .start_incomplete_command _ => true
  | .finish_xeq => true
  | .do_interactive _ => true
  | .do_prgm_menu_key _ => true
  | .view_helper _ _ => true
  | .set_plainmenu _ _ _ => true
  | _ => false

/-- The display was updated or the key was handed over to the engine during the
calls of the trace. -/
def loud (tr : List Call) : Bool := tr.any (fun c => c.is_display || c.is_handoff)

/-- How a block of a handler may end when it is entered in the machine state
`st`: it squeaked and did nothing else, or it did nothing at all, or it did
not squeak and updated the display or handed the key over to the engine. -/
def Out (E : Engine) (st r : St) : Prop :=
  r = st.call E .squeak ∨ r = st ∨ (squeaked r.tr = squeaked st.tr ∧ loud r.tr = true)

/-- The same for a block that may fall through: then it did nothing. -/
def OutF (E : Engine) (st : St) : Flow → Prop
  | .ret r => Out E st r
  | .go r => r = st

/-- Command entry of `STO` with the stack-register menu as command menu. -/
def st_menu_state : State :=
  { State0 with mode_command_entry := true, mode_commandmenu := MENU_ST,
                incomplete_command := CMD_STO, incomplete_argtype := ARG_VAR }

/-- The call appends a character to the ALPHA register. -/
@[simp] def Call.is_append : Call → Bool
  | .append_alpha_char _ => true
  | _ => false

/-- A character was appended to the ALPHA register during the calls of the trace. -/
def appended (tr : List Call) : Bool := tr.any Call.is_append

/-- The mark is the entry into `keydown_number_entry`. -/
@[simp] def Call.is_number_entry_mark : Call → Bool
  | .enter_number_entry => true
  | _ => false

/-- The mark is the entry into `keydown_normal_mode`. -/
@[simp] def Call.is_normal_mode_mark : Call → Bool
  | .enter_normal_mode => true
  | _ => false

/-- The key began number entry: `keydown_normal_mode` was entered and passed the
key on to `keydown_number_entry`. -/
def began_number_entry (tr : List Call) : Bool :=
  tr.any Call.is_normal_mode_mark && tr.any Call.is_number_entry_mark

/-- The call opens the BASE menu: `set_menu(MENULEVEL_APP, MENU_BASE1)`. -/
@[simp] def Call.is_base_menu : Call → Bool
  | .set_menu level menuid => decide (level = MENULEVEL_APP ∧ menuid = MENU_BASE1)
  | _ => false

/-- The BASE menu was asked for and is not the application menu on return. -/
def refused_base_menu (r : St) : Prop :=
  r.tr.any Call.is_base_menu = true ∧ r.s.mode_appmenu ≠ MENU_BASE1

/-- A call that is assumed to act on the private memory of the engine only: the
beeper, the annunciators, the return stack and the program memory. -/
@[simp] def Call.is_private : Call → Bool
  | .squeak => true
  | .set_annunciators _ _ _ _ _ _ => true
  | .clear_all_rtns => true
  | .store_command _ _ _ _ => true
  | _ => false

/-- The globals with the variables blanked that `keydown` may assign even when it
ignores or rejects the key: the shift and message flags, `pending_command`, the
variables assigned when number entry ends (`mode_number_entry`, the array cells
of `cmdline` from `cmdline_length` on, `prgm_highlight_row`, `deferred_print`),
the auto-repeat variables, and the private memory of the engine. -/
def kept (s : State) : State :=
  { s with flags := { s.flags with shift_state := 0, message := false, two_line_message := false },
           pending_command := CMD_NONE, mode_number_entry := 0,
           cmdline := atake s.cmdline s.cmdline_length, prgm_highlight_row := 0,
           deferred_print := false, repeating := 0, repeating_shift := 0, repeating_key := 0,
           ext := 0 }

/-- The state `s1` is the state `s0` apart from the variables blanked by `kept`. -/
def Ignored (s0 s1 : State) : Prop := kept s1 = kept s0

/-- The globals with, in addition, the whole command line and the argument of the
pending command blanked. -/
def kept_loosely (s : State) : State :=
  { kept s with cmdline := [], cmdline_length := 0, pending_command_arg := arg_zero }

/-- The state `s1` is the state `s0` apart from the variables blanked by
`kept_loosely`. -/
def Touched (s0 s1 : State) : Prop := kept_loosely s1 = kept_loosely s0

/-- How a handler may end when it is entered in the machine state `st`: it
squeaked and did nothing else; it cleared the return stack and squeaked; it did
not squeak and either ignored the key, or updated the display or handed the key
over, or committed a command, or touched only the command line and the argument
of the pending command, or was refused the BASE menu, or began number entry; or
it appended a character to the ALPHA register and updated the display. -/
def Outcome (E : Engine) (st r : St) : Prop :=
  r = st.call E .squeak
    ∨ r = (st.call E .clear_all_rtns).call E .squeak
    ∨ (squeaked r.tr = squeaked st.tr
        ∧ (Ignored st.s r.s ∨ loud r.tr = true ∨ r.s.pending_command ≠ CMD_NONE
            ∨ Touched st.s r.s ∨ refused_base_menu r
            ∨ began_number_entry r.tr = true))
    ∨ (appended r.tr = true ∧ loud r.tr = true)

/-- The same for a block that may fall through: then it did not squeak. -/
def OutcomeF (E : Engine) (st : St) : Flow → Prop
  | .ret r => Outcome E st r
  | .go r => squeaked r.tr = squeaked st.tr

/-- The outcome of a `switch` that chooses a command: it returned with one of the
outcomes of a handler, or it chose a command and did nothing else, or it chose a
command other than `CMD_NONE` without squeaking. -/
def OutcomeP (E : Engine) (st : St) : Pick → Prop
  | .ret r => Outcome E st r
  | .cmd r command => r = st ∨ (command ≠ CMD_NONE ∧ squeaked r.tr = squeaked st.tr)

/-- The same for a block that falls through only when it did nothing. -/
def OutcomeS (E : Engine) (st : St) : Flow → Prop
  | .ret r => Outcome E st r
  | .go r => r = st

/-- The same for a block that falls through, on the way to `send_it_off`, only
when it chose a command without squeaking. -/
def OutcomeG (E : Engine) (st : St) : Flow → Prop
  | .ret r => Outcome E st r
  | .go r => squeaked r.tr = squeaked st.tr ∧ r.s.pending_command ≠ CMD_NONE

/-- A call that arranges the menus: it is assumed to leave `pending_command`
alone. -/
@[simp] def Call.is_menu : Call → Bool
  | .set_menu _ _ => true
  | .set_cat_section _ => true
  | .set_cat_row _ => true
  | _ => false

/-- What `keydown` has done when it returns in the machine state `r`, the globals
being `s` before the call. First, if it squeaked then it appended a character to
the ALPHA register or left the globals as they were, apart from the variables
blanked by `kept`. Second, it committed a command, or updated the display or
handed the key over to the engine, or squeaked, or left the globals as they were
apart from the variables blanked by `kept_loosely`, or was refused the BASE menu,
or began number entry, or delivered the key to `GETKEY` while a program runs. -/
def Verdict (s : State) (r : St) : Prop :=
  (squeaked r.tr = true → appended r.tr = true ∨ Ignored s r.s)
    ∧ (r.s.pending_command ≠ CMD_NONE ∨ loud r.tr = true ∨ squeaked r.tr = true
        ∨ Touched s r.s ∨ refused_base_menu r ∨ began_number_entry r.tr = true
        ∨ (s.mode_getkey = true ∧ r.s.mode_running = true))

/-! ## Assumptions on the engine, and the states and observations of further statements -/

/-- The call `c` of the engine leaves the part `v` of the globals as it is. -/
def Engine.leaves {α : Type} (E : Engine) (c : Call) (v : State → α) : Prop :=
  ∀ s, v (E.run c s) = v s

/-- The variables of an argument that is being typed: the variables `incomplete_*`,
the command menu and `pending_command`. -/
def argument_entry (s : State) :
    Int × Int × Bool × Bool × Int × Int × Int × List Nat × Int × Int :=
  (s.incomplete_command, s.incomplete_argtype, s.incomplete_ind, s.incomplete_alpha,
    s.incomplete_maxdigits, s.incomplete_num, s.incomplete_length, s.incomplete_str,
    s.mode_commandmenu, s.pending_command)

/-- Command entry of `LBL` with the digit 7 typed. -/
def lbl_digit_state : State :=
  { State0 with mode_command_entry := true, mode_commandmenu := MENU_ALPHA1,
                incomplete_command := CMD_LBL, incomplete_argtype := ARG_OTHER,
                incomplete_maxdigits := 2, incomplete_num := 7, incomplete_length := 1 }

/-- The commands that accept an empty string as argument (line 1803-1806). -/
def takes_empty_string (cmd : Int) : Prop :=
  cmd = CMD_ASSIGNa ∨ cmd = CMD_CLP ∨ cmd = CMD_PRP ∨ cmd = CMD_XSTR

instance (cmd : Int) : Decidable (takes_empty_string cmd) := by
  unfold takes_empty_string; infer_instance

/-- Command entry of `CLP` with the ALPHA menu as command menu and no character typed. -/
def clp_alpha_state : State :=
  { State0 with mode_command_entry := true, mode_commandmenu := MENU_ALPHA1,
                incomplete_command := CMD_CLP, incomplete_argtype := ARG_PRGM,
                incomplete_alpha := true }

/-- The menu in front in normal mode, as `keydown_normal_mode` finds it: the
transient menu before the plain menu before the application menu (lines 2263-2272). -/
def normal_front_menu (s : State) : Int :=
  if s.mode_transientmenu ≠ MENU_NONE then s.mode_transientmenu
  else if s.mode_plainmenu ≠ MENU_NONE then s.mode_plainmenu
  else s.mode_appmenu

/-- The level of the menu in front in normal mode (lines 2263-2272). -/
def normal_front_level (s : State) : Int :=
  if s.mode_transientmenu ≠ MENU_NONE then MENULEVEL_TRANSIENT
  else if s.mode_plainmenu ≠ MENU_NONE then MENULEVEL_PLAIN
  else MENULEVEL_APP

/-- The menus that have their own handling of `UP`, `DOWN` and `EXIT` in normal
mode: the catalog, the variable menu, the programmable menu, the CUSTOM menu in
local-label mode, and the matrix editor inside a nested list. -/
def special_navigation (s : State) (m : Int) : Prop :=
  m = MENU_CATALOG ∨ m = MENU_VARMENU ∨ m = MENU_PROGRAMMABLE
    ∨ (s.flags.local_label ∧ (m = MENU_CUSTOM1 ∨ m = MENU_CUSTOM2 ∨ m = MENU_CUSTOM3))
    ∨ ((m = MENU_MATRIX_EDIT1 ∨ m = MENU_MATRIX_EDIT2) ∧ s.matedit_stack_depth > 0)

instance (s : State) (m : Int) : Decidable (special_navigation s m) := by
  unfold special_navigation; infer_instance

/-- Normal mode with the menu `MENU_TOP_FCN` as plain menu. -/
def top_fcn_state : State := { State0 with mode_plainmenu := MENU_TOP_FCN }

/-- The calls that `keydown` makes while it delivers a key to `GETKEY` (lines
205-235), the audible error apart. -/
@[simp] def Call.in_getkey : Call → Bool
  | .recall_result _ => true
  | .display_error _ => true
  | .set_running _ => true
  | .redisplay => true
  | _ => false

/-- The call hands the real number `n` over to the program: `recall_result` of a
new real of value `n`. -/
@[simp] def Call.delivers (n : Int) : Call → Bool
  | .recall_result v => decide (v = { type := TYPE_REAL, x := phloat.of_int n })
  | _ => false

/-- The call is a `recall_result`, of any object. -/
@[simp] def Call.is_recall_result : Call → Bool
  | .recall_result _ => true
  | _ => false

/-- The call reports that memory is exhausted. -/
@[simp] def Call.is_insufficient_memory : Call → Bool
  | .display_error err => decide (err = ERR_INSUFFICIENT_MEMORY)
  | _ => false

/-- The reference engine when no memory is left: `new_real` returns NULL. -/
def fullEngine : Engine :=
  { refEngine with
    ask := fun q s =>
      match q with
      | .new_real_ok => 0
      | q => ref_ask q s }

/-- The state in which `keydown` reads the key code: the assignments of lines
174 and 176 have been made. -/
def after_entry (shift : Int) (s : State) : State :=
  { s with flags := { s.flags with shift_state := shift }, pending_command := CMD_NONE }

/-- The calculator at rest while `GETKEY` waits for a key. -/
def getkey_state : State := { State0 with mode_getkey := true, mode_running := true }

/-- The variables of number entry, and `pending_command`. -/
def number_entry_vars (s : State) : Int × List Nat × Int × Int :=
  (s.mode_number_entry, s.cmdline, s.cmdline_length, s.pending_command)

/-- The call is `set_menu(MENULEVEL_APP, MENU_BASE_A_THRU_F)`. -/
@[simp] def Call.is_a_thru_f_menu : Call → Bool
  | .set_menu level menuid => decide (level = MENULEVEL_APP ∧ menuid = MENU_BASE_A_THRU_F)
  | _ => false

/-- Number entry in base 16 with the BASE menu in front; the command line holds `1`. -/
def base16_entry_state : State :=
  { State0 with mode_number_entry := 1, ext := 3, mode_appmenu := MENU_BASE1, baseapp := true,
                cmdline := [49], cmdline_length := 1 }

/-- The variables of a numeric argument that is being typed. -/
def numeric_entry (s : State) : Int × Int × Bool × Bool × Int × Int × Int :=
  (s.incomplete_command, s.incomplete_argtype, s.incomplete_ind, s.incomplete_alpha,
    s.incomplete_maxdigits, s.incomplete_num, s.incomplete_length)

/-- The keys of a list typed one after the other during command entry. -/
def type_keys (E : Engine) (shift : Int) : List Int → St → St
  | [], st => st
  | key :: keys, st => type_keys E shift keys (keydown_command_entry E shift key st)

/-- The decimal value of a sequence of digits that continues the number `n`. -/
def decimal_value_from : List Int → Int → Int
  | [], n => n
  | d :: ds, n => decimal_value_from ds (n * 10 + d)

/-- The decimal value of a sequence of digits. -/
def decimal_value (ds : List Int) : Int := decimal_value_from ds 0

/-- The digit of a digit key. -/
def key_digit (key : Int) : Int := (digit_of_key key).getD 0

/-- A digit that the tests of lines 1342-1349 let through: at most 4 for an
argument of kind `ARG_FUNC`, at most 8 for `RTNERR` without indirection. -/
def digit_permitted (s : State) (d : Int) : Prop :=
  (s.incomplete_argtype = ARG_FUNC → d ≤ 4)
    ∧ (s.incomplete_command = CMD_RTNERR ∧ s.incomplete_ind = false → d ≤ 8)

instance (s : State) (d : Int) : Decidable (digit_permitted s d) := by
  unfold digit_permitted; infer_instance

/-- A state of command entry in which a digit key is taken as a digit of a
numeric argument: no alpha argument, no stack-register menu, no key selection
(`ARG_CKEY`, `ARG_MKEY`), not `GOTOROW` or `GOTOCOLUMN`, and not the start of a
`LBL` with a submenu of the ALPHA menu as command menu. -/
def takes_digits (s : State) : Prop :=
  s.incomplete_alpha = false
    ∧ s.mode_commandmenu ≠ MENU_ST ∧ s.mode_commandmenu ≠ MENU_IND_ST
    ∧ s.incomplete_argtype ≠ ARG_CKEY ∧ s.incomplete_argtype ≠ ARG_MKEY
    ∧ s.incomplete_command ≠ CMD_GOTOROW ∧ s.incomplete_command ≠ CMD_GOTOCOLUMN
    ∧ ¬ (s.incomplete_command = CMD_LBL ∧ s.incomplete_length = 0
          ∧ s.mode_commandmenu ≥ MENU_ALPHA_ABCDE1 ∧ s.mode_commandmenu ≤ MENU_ALPHA_MISC2)

instance (s : State) : Decidable (takes_digits s) := by
  unfold takes_digits; infer_instance

/-- The number committed for the value `v` typed: 11 instead of a value above 11
for an argument of kind `ARG_NUM11` without indirection (lines 1387-1389). -/
def committed_number (s : State) (v : Int) : Int :=
  if s.incomplete_ind = false ∧ s.incomplete_argtype = ARG_NUM11 ∧ v > 11 then 11 else v

/-- Command entry of `STO` after the key `.`: the menu `MENU_IND_ST` is the
command menu and two digits are expected. -/
def sto_ind_st_state : State :=
  { State0 with mode_command_entry := true, mode_commandmenu := MENU_IND_ST,
                incomplete_command := CMD_STO, incomplete_argtype := ARG_VAR,
                incomplete_maxdigits := 2 }

/-- Command entry of `STO` with the catalog of variables as command menu; two
digits are expected. -/
def sto_state : State :=
  { State0 with mode_command_entry := true, mode_commandmenu := MENU_CATALOG,
                incomplete_command := CMD_STO, incomplete_argtype := ARG_VAR,
                incomplete_maxdigits := 2 }

/-- The bound on the length of a text argument: 22 characters for `ARG_XSTR`, 7
otherwise (lines 1471 and 1558). -/
def text_limit (s : State) : Int := if s.incomplete_argtype = ARG_XSTR then 22 else 7

/-- The argument that is being typed is within the bound of a text argument. -/
def text_bounded (s : State) : Prop := s.incomplete_length ≤ text_limit s

instance (s : State) : Decidable (text_bounded s) := by
  unfold text_bounded; infer_instance

/-- The two variables that the bound of a text argument depends on. -/
def text_view (s : State) : Int × Int := (s.incomplete_length, s.incomplete_argtype)

/-- A numeric argument of at most 7 digits, not of kind `ARG_XSTR`. -/
def short_numeric (s : State) : Prop := s.incomplete_maxdigits ≤ 7 ∧ s.incomplete_argtype ≠ ARG_XSTR

instance (s : State) : Decidable (short_numeric s) := by
  unfold short_numeric; infer_instance

/-- The state of a result is within the bound of a text argument. -/
structure TB (r : St) : Prop where
  le : text_bounded r.s

/-- How a block of `keydown_command_entry` ends, as far as the bound of the text
argument goes: it returns within the bound, or it falls through and has done
nothing. -/
def TBF (st : St) : Flow → Prop
  | .ret r => TB r
  | .go r => r = st

/-- The calls of `command_entry_handle_char`: `set_menu` and `redisplay`. -/
@[simp] def Call.in_handle_char : Call → Bool
  | .set_menu _ _ => true
  | .redisplay => true
  | _ => false

/-- Command entry of a numeric argument of nine digits, seven of them typed. -/
def long_numeric_state : State :=
  { State0 with mode_command_entry := true, incomplete_command := CMD_STO,
                incomplete_argtype := ARG_VAR, incomplete_maxdigits := 9,
                incomplete_num := 1234567, incomplete_length := 7 }

/-- Command entry of `XSTR` with the ALPHA menu as command menu and 22 characters typed. -/
def full_xstr_state : State :=
  { State0 with mode_command_entry := true, mode_commandmenu := MENU_ALPHA1,
                incomplete_command := CMD_XSTR, incomplete_argtype := ARG_XSTR,
                incomplete_alpha := true, incomplete_length := 22,
                incomplete_str := List.replicate 22 65 }

/-- The text of the argument that is being typed: the characters and their number. -/
def text_store (s : State) : List Nat × Int := (s.incomplete_str, s.incomplete_length)

/-- The key is an ASCII key event: `key >= 1024 && key < 2048`. -/
def is_ascii_key (key : Int) : Prop := key ≥ 1024 ∧ key < 2048

instance (key : Int) : Decidable (is_ascii_key key) := by
  unfold is_ascii_key; infer_instance

/-- A text argument is being typed with an ALPHA menu as command menu: the state
in which an ASCII key event is taken as a character of the argument. -/
def typing_text (s : State) : Prop :=
  s.incomplete_alpha = true ∧ is_alpha_menu s.mode_commandmenu
    ∧ s.incomplete_argtype ≠ ARG_CKEY ∧ s.incomplete_argtype ≠ ARG_MKEY

instance (s : State) : Decidable (typing_text s) := by
  unfold typing_text; infer_instance

/-- The calculator at rest in base 16 with a word size of 3 bits: the reference
engine keeps the base in `ext % 4` and the word size in `ext / 4`. -/
def hex_wsize3_state : State := { State0 with ext := 11 }

/-- The variables that the completion of an alpha argument reads and commits:
the characters typed, `pending_command` and `pending_command_arg`. -/
def label_view (s : State) : List Nat × Int × arg_struct :=
  (s.incomplete_str, s.pending_command, s.pending_command_arg)

/-- The calls made while a local label is shown briefly: `redisplay`,
`shell_delay` and `set_menu`. -/
@[simp] def Call.in_label_display : Call → Bool
  | .redisplay => true
  | .shell_delay _ => true
  | .set_menu _ _ => true
  | _ => false

/-- The command takes a local label: `GTO`, `XEQ`, `LBL` or `KEY1G`..`KEY9X`. -/
def takes_local_label (cmd : Int) : Prop :=
  cmd = CMD_GTO ∨ cmd = CMD_XEQ ∨ cmd = CMD_LBL ∨ (cmd ≥ CMD_KEY1G ∧ cmd ≤ CMD_KEY9X)

instance (cmd : Int) : Decidable (takes_local_label cmd) := by
  unfold takes_local_label; infer_instance

/-- The string typed is a single letter `A`..`J` or `a`..`e`. -/
def single_letter (s : State) : Prop :=
  s.incomplete_length = 1
    ∧ ((aget s.incomplete_str 0 ≥ 65 ∧ aget s.incomplete_str 0 ≤ 74)
        ∨ (aget s.incomplete_str 0 ≥ 97 ∧ aget s.incomplete_str 0 ≤ 101))

instance (s : State) : Decidable (single_letter s) := by
  unfold single_letter; infer_instance

/-- Command entry of `GTO` with the single letter `A` typed, the ALPHA menu being
the command menu. -/
def gto_a_state : State :=
  { State0 with mode_command_entry := true, mode_commandmenu := MENU_ALPHA1,
                incomplete_command := CMD_GTO, incomplete_argtype := ARG_LBL,
                incomplete_alpha := true, incomplete_length := 1, incomplete_str := [65] }

/-- The program line of text that is being typed has at most 15 characters. -/
structure Line15 (r : St) : Prop where
  le : r.s.entered_string_length ≤ 15

/-- The same for a block that may fall through. -/
def Line15F : Flow → Prop
  | .ret r => Line15 r
  | .go r => Line15 r

/-- The same for a `switch` that chooses a command. -/
def Line15P : Pick → Prop
  | .ret r => Line15 r
  | .cmd r _ => Line15 r

/-- The program line of text that is being typed: the characters and their number. -/
def alpha_line (s : State) : List Nat × Int := (s.entered_string, s.entered_string_length)

/-- A program line of 15 characters is being typed, an ALPHA menu being in front. -/
def full_line_state : State :=
  { State0 with flags := { flags0 with prgm_mode := true }, mode_alpha_entry := true,
                mode_alphamenu := MENU_ALPHA1, entered_string := List.replicate 15 65,
                entered_string_length := 15 }

/-- The mark of a read of the local variable `digit` that no case of the `switch`
has assigned. -/
@[simp] def Call.is_uninitialized_read : Call → Bool
  | .uninitialized_read => true
  | _ => false

/-- No read of an unassigned `digit` has been recorded. -/
structure Unread (r : St) : Prop where
  none : r.tr.any Call.is_uninitialized_read = false

/-- The same for a block that may fall through. -/
def UnreadF : Flow → Prop
  | .ret r => Unread r
  | .go r => Unread r

/-- The same for a `switch` that chooses a command. -/
def UnreadP : Pick → Prop
  | .ret r => Unread r
  | .cmd r _ => Unread r

/-- A key that `keydown_number_entry` has a branch for: the pseudo key -1, the
keys handled before the digit branch, and the keys of the `switch` that assigns
`digit`. -/
def has_branch (key : Int) : Prop :=
  key = -1 ∨ key = KEY_BSP ∨ key = KEY_CHS ∨ key = KEY_E ∨ key = KEY_DOT ∨ digit_of_key key ≠ none

instance (key : Int) : Decidable (has_branch key) := by
  unfold has_branch; infer_instance

/-- The keys of the cases that assign `digit` a value from 0 to 9. -/
def decimal_key (key : Int) : Prop :=
  key = KEY_0 ∨ key = KEY_1 ∨ key = KEY_2 ∨ key = KEY_3 ∨ key = KEY_4
    ∨ key = KEY_5 ∨ key = KEY_6 ∨ key = KEY_7 ∨ key = KEY_8 ∨ key = KEY_9

instance (key : Int) : Decidable (decimal_key key) := by
  unfold decimal_key; infer_instance

/-- The keys of the cases that assign `digit` a value from 10 to 15: the six keys
of the top row. -/
def letter_key (key : Int) : Prop :=
  key = KEY_SIGMA ∨ key = KEY_INV ∨ key = KEY_SQRT ∨ key = KEY_LOG ∨ key = KEY_LN ∨ key = KEY_XEQ

instance (key : Int) : Decidable (letter_key key) := by
  unfold letter_key; infer_instance

/-- What holds after lines 311-334: no read of an unassigned `digit` so far, and
when the key is handled further, either `keydown_number_entry` has a branch for
it or number entry has ended. -/
def Kept (key : Int) : Flow → Prop
  | .ret r => Unread r
  | .go r => Unread r ∧ (has_branch key ∨ r.s.mode_number_entry = 0)

/-- Number entry in run mode, with the digit 1 in the command line. -/
def one_entered_state : State :=
  { State0 with mode_number_entry := 1, cmdline := [49], cmdline_length := 1 }

/-- Number entry in base 10 with the digit 1 in the command line, while the BASE
application is active (`baseapp` set, `MENU_BASE1` as application menu) and the
CUSTOM menu is in front of it. -/
def baseapp_entry_state : State :=
  { State0 with mode_number_entry := 1, cmdline := [49], cmdline_length := 1,
                baseapp := true, mode_appmenu := MENU_BASE1, mode_plainmenu := MENU_CUSTOM1 }

/-- The character in cell `i` of the command line. -/
def cmd_char (s : State) (i : Nat) : Nat := aget s.cmdline (i : Int)

/-- No character `x` stands before a character `y` among the first
`cmdline_length` characters of the command line. -/
def no_pair (x y : Nat) (s : State) : Prop :=
  ∀ j : Nat, j < s.cmdline_length.toNat → ∀ i : Nat, i < j →
    ¬ (cmd_char s i = x ∧ cmd_char s j = y)

instance (x y : Nat) (s : State) : Decidable (no_pair x y s) := by
  unfold no_pair; infer_instance

/-- The command line holds no two decimal separators, no two exponent markers
(character 24), and no decimal separator after an exponent marker. -/
def separators_ok (s : State) : Prop :=
  no_pair (dot_char s) (dot_char s) s ∧ no_pair 24 24 s ∧ no_pair 24 (dot_char s) s

instance (s : State) : Decidable (separators_ok s) := by
  unfold separators_ok; infer_instance

/-- The command line holds no character `x`. -/
def no_char (x : Nat) (s : State) : Prop :=
  ∀ j : Nat, j < s.cmdline_length.toNat → cmd_char s j ≠ x

instance (x : Nat) (s : State) : Decidable (no_char x s) := by
  unfold no_char; infer_instance

/-- The variables that `separators_ok` reads. -/
def sep_view (s : State) : List Nat × Int × Bool :=
  (s.cmdline, s.cmdline_length, s.flags.decimal_point)

/-- The command line of the state is well formed. -/
structure Sep (r : St) : Prop where
  ok : separators_ok r.s

/-- The same for a block that may fall through. -/
def SepF : Flow → Prop
  | .ret r => Sep r
  | .go r => Sep r

/-- The same for a `switch` that chooses a command. -/
def SepP : Pick → Prop
  | .ret r => Sep r
  | .cmd r _ => Sep r

/-- The text of the command line: its first `cmdline_length` characters. -/
def cmd_text (s : State) : List Nat := atake s.cmdline s.cmdline_length

/-- The state after a sequence of key events `(shift, key)`, each handled by
`keydown` from the state that the one before it left. -/
def press_keys (E : Engine) : List (Int × Int) → State → State
  | [], s => s
  | k :: ks, s => press_keys E ks (keydown E k.1 k.2 (start s)).s

/-- Number entry in run mode, base 10, with `1.5` in the command line. -/
def one_point_five_state : State :=
  { State0 with mode_number_entry := 1, cmdline := [49, 46, 53], cmdline_length := 3 }

/-- Number entry in base 10 with `5` in the command line, the CUSTOM menu being
shown; no key of the menu has an assignment. -/
def custom_entry_state : State := { one_digit_state with mode_plainmenu := MENU_CUSTOM1 }

/-- ALPHA mode in run mode, with 43 characters in the ALPHA register. -/
def alpha_43_state : State :=
  { State0 with mode_alphamenu := MENU_ALPHA1, mode_alpha_entry := true, reg_alpha_length := 43 }

/-! # Theorems -/

/-! ## C6: the pending command is reset first -/

/-- C6: `keydown` first sets `pending_command` to `CMD_NONE`, so handling a key
gives the same result whatever the value of `pending_command` was before the
call: the whole outcome, the value of `pending_command` on return included, does
not depend on it. -/
theorem C6_pending_command_does_not_survive (E : Engine) (shift key : Int) (s : State)
    (tr : List Call) (a b : Int) :
    keydown E shift key { s := s, tr := tr }
        = keydown E shift key { s := { s with pending_command := CMD_NONE }, tr := tr }
      ∧ keydown E shift key { s := { s with pending_command := a }, tr := tr }
        = keydown E shift key { s := { s with pending_command := b }, tr := tr } := by
  constructor <;> rfl

/-! ## Reasoning by cases on the control flow -/

/-- A property of a conditional follows from the property of its two branches. -/
theorem pred_ite {α : Sort _} (P : α → Prop) {c : Prop} [Decidable c] {a b : α}
    (h1 : c → P a) (h2 : ¬ c → P b) : P (if c then a else b) := by
  by_cases h : c
  · rw [if_pos h]; exact h1 h
  · rw [if_neg h]; exact h2 h

/-- A property of the result of `Option.elim` follows from the two cases. -/
theorem pred_elim {α β : Type} (P : β → Prop) {o : Option α} {n : β} {k : α → β}
    (h1 : o = none → P n) (h2 : ∀ a, o = some a → P (k a)) : P (o.elim n k) := by
  cases o with
  | none => exact h1 rfl
  | some a => exact h2 a rfl

/-- The digit keys are the only keys to which the `switch` of the digit branch
gives a digit below ten. -/
theorem digit_of_key_cases (key d : Int) (hk : digit_of_key key = some d) (hd : d ≤ 9) :
    (key = KEY_0 ∧ d = 0) ∨ (key = KEY_1 ∧ d = 1) ∨ (key = KEY_2 ∧ d = 2) ∨ (key = KEY_3 ∧ d = 3)
    ∨ (key = KEY_4 ∧ d = 4) ∨ (key = KEY_5 ∧ d = 5) ∨ (key = KEY_6 ∧ d = 6) ∨ (key = KEY_7 ∧ d = 7)
    ∨ (key = KEY_8 ∧ d = 8) ∨ (key = KEY_9 ∧ d = 9) := by
  revert d
  unfold digit_of_key
  repeat' (refine pred_ite (fun r => ∀ d : Int, r = some d → d ≤ 9 →
    ((key = KEY_0 ∧ d = 0) ∨ (key = KEY_1 ∧ d = 1) ∨ (key = KEY_2 ∧ d = 2) ∨ (key = KEY_3 ∧ d = 3)
    ∨ (key = KEY_4 ∧ d = 4) ∨ (key = KEY_5 ∧ d = 5) ∨ (key = KEY_6 ∧ d = 6) ∨ (key = KEY_7 ∧ d = 7)
    ∨ (key = KEY_8 ∧ d = 8) ∨ (key = KEY_9 ∧ d = 9))) ?_ ?_ <;> intro _)
  all_goals
    intro d hk hd
    first
    | (injection hk with hk; subst hk; first | (exfalso; revert hd; decide) | simp [*])
    | cases hk

/-! ## C9: `is_number_key` and the base -/

/-- C9: for a base in {2, 8, 10, 16} and an unshifted digit key `d` in 0..9,
`is_number_key` returns true and leaves `*invalid` true exactly when `d >= base`;
for a shifted digit key it returns false (whatever menu is in front). -/
theorem C9_is_number_key_validates_digits (E : Engine) (s : State) (shift key d : Int)
    (hb : E.ask .get_base s = 2 ∨ E.ask .get_base s = 8 ∨ E.ask .get_base s = 10
      ∨ E.ask .get_base s = 16)
    (hk : digit_of_key key = some d) (hd : d ≤ 9) :
    (is_number_key E 0 key s).1 = true
      ∧ ((is_number_key E 0 key s).2 = true ↔ d ≥ E.ask .get_base s)
      ∧ (shift ≠ 0 → (is_number_key E shift key s).1 = false) := by
  rcases digit_of_key_cases key d hk hd with h | h | h | h | h | h | h | h | h | h <;>
    obtain ⟨rfl, rfl⟩ := h <;>
    rcases hb with hb | hb | hb | hb <;>
    simp [is_number_key, hb] <;> intro h <;> simp [h]

/-- Witness of C9: the key 7 in base 10. -/
theorem C9_is_number_key_validates_digits_witness :
    (is_number_key refEngine 0 KEY_7 State0).1 = true
      ∧ ((is_number_key refEngine 0 KEY_7 State0).2 = true
          ↔ (7 : Int) ≥ refEngine.ask .get_base State0)
      ∧ ((1 : Int) ≠ 0 → (is_number_key refEngine 1 KEY_7 State0).1 = false) :=
  C9_is_number_key_validates_digits refEngine State0 1 KEY_7 7
    (Or.inr (Or.inr (Or.inl (by decide)))) (by decide) (by decide)

/-! ## C4: bad key codes -/

/-- C4 as stated fails: after the bad key code 0 with shift 1, the audible error
was emitted and no handler was entered, but the state is not the state before
the call: `pending_command` was reset and `flags.f.shift_state` holds the shift. -/
theorem C4_counterexample :
    squeaked (keydown refEngine 1 0 (start { State0 with pending_command := CMD_CLX })).tr = true
      ∧ dispatched (keydown refEngine 1 0 (start { State0 with pending_command := CMD_CLX })).tr
          = false
      ∧ (keydown refEngine 1 0 (start { State0 with pending_command := CMD_CLX })).s
          ≠ { State0 with pending_command := CMD_CLX }
      ∧ (keydown refEngine 1 0 (start { State0 with pending_command := CMD_CLX })).s.pending_command
          = CMD_NONE
      ∧ (keydown refEngine 1 0
          (start { State0 with pending_command := CMD_CLX })).s.flags.shift_state = 1 := by
  decide

/-- C4, amended: for a key code below 1 or from 38 to 1023, `keydown` emits the
audible error, enters none of the four mode handlers, and leaves the state as it
was except that `flags.f.shift_state` holds `shift` and `pending_command` is
`CMD_NONE` (the call `squeak()` itself being assumed to leave the globals alone). -/
theorem C4_bad_key_rejected (E : Engine) (shift key : Int) (s : State)
    (hsq : ∀ s, E.run .squeak s = s)
    (hkey : key < 1 ∨ (38 ≤ key ∧ key < 1024)) :
    squeaked (keydown E shift key (start s)).tr = true
      ∧ dispatched (keydown E shift key (start s)).tr = false
      ∧ (keydown E shift key (start s)).s
          = { s with flags := { s.flags with shift_state := shift }, pending_command := CMD_NONE } := by
  have h1 : ¬ (key ≥ 1024 ∧ key < 2048
      ∧ (E.ask .get_front_menu
            { s with flags := { s.flags with shift_state := shift }, pending_command := CMD_NONE }
              < MENU_ALPHA1
          ∨ E.ask .get_front_menu
            { s with flags := { s.flags with shift_state := shift }, pending_command := CMD_NONE }
              > MENU_ALPHA_MISC2)) := by
    omega
  have h2 : ¬ (key ≥ 1024 ∧ key < 2048) ∧ (key < 1 ∨ (key > 37 ∧ key < 2048)) := by omega
  have h : keydown E shift key (start s)
      = St.call E .squeak
          (start { s with flags := { s.flags with shift_state := shift },
                          pending_command := CMD_NONE }) := by
    unfold keydown
    simp only [start, St.upd, set_pending]
    rw [if_neg h1, if_pos h2]
  rw [h]
  simp [St.call, start, squeaked, dispatched, Call.is_squeak, Call.is_handler_entry, hsq]

/-- Witness of C4 (amended): the key code 0 on the reference engine. -/
theorem C4_bad_key_rejected_witness :
    squeaked (keydown refEngine 1 0 (start State0)).tr = true
      ∧ dispatched (keydown refEngine 1 0 (start State0)).tr = false
      ∧ (keydown refEngine 1 0 (start State0)).s
          = { State0 with flags := { State0.flags with shift_state := 1 },
                          pending_command := CMD_NONE } :=
  C4_bad_key_rejected refEngine 1 0 State0 (fun _ => rfl) (Or.inl (by decide))

/-! ## C10: the keys `.` and `E` in an integer base -/

/-- The two handlers return at once on `.` and `E` when the base is not 10. -/
theorem dispatch_dot_or_e_integer_base (E : Engine) (s : State) (key : Int) (tr : List Call)
    (hkey : key = KEY_DOT ∨ key = KEY_E) (hbase : E.ask .get_base s ≠ 10)
    (hmode : s.mode_number_entry ≠ 0
      ∨ (s.mode_number_entry = 0 ∧ s.mode_command_entry = false ∧ E.ask .alpha_active s = 0)) :
    (keydown_dispatch E 0 key { s := s, tr := tr }).s = s := by
  have hnk : is_number_key E 0 key s = (true, true) := by
    rcases hkey with rfl | rfl <;> simp [is_number_key, hbase]
  have hk : key ≠ -1 := by rcases hkey with rfl | rfl <;> decide
  rcases hmode with h | ⟨h1, h2, h3⟩
  · simp [keydown_dispatch, keydown_number_entry, St.mark, h, hk, hbase, hkey.symm]
  · simp [keydown_dispatch, keydown_normal_mode, St.mark, h1, h2, h3, hnk]

/-- On `.` and `E` in an integer base, with neither `CLALL` nor `GETKEY` waiting,
`keydown` goes straight to the dispatch of lines 408-415. -/
theorem keydown_dot_or_e_reaches_dispatch (E : Engine) (s : State) (key : Int)
    (hkey : key = KEY_DOT ∨ key = KEY_E)
    (hbase : E.ask .get_base (after_prologue 0 s) ≠ 10)
    (hclall : s.mode_clall = false) (hgetkey : s.mode_getkey = false) :
    keydown E 0 key (start s) = keydown_dispatch E 0 key (start (after_prologue 0 s)) := by
  have hnk : is_number_key E 0 key (after_prologue 0 s) = (true, true) := by
    rcases hkey with rfl | rfl <;> simp [is_number_key, hbase]
  have hl : keydown_leave_number_entry E 0 key (start (after_prologue 0 s))
      = Flow.go (start (after_prologue 0 s)) := by
    unfold keydown_leave_number_entry
    exact if_neg (by simp [start, hnk])
  have hn : keydown_navigation E 0 key (start (after_prologue 0 s))
      = keydown_dispatch E 0 key (start (after_prologue 0 s)) := by
    unfold keydown_navigation
    rcases hkey with rfl | rfl <;>
    · refine (if_neg (by simp)).trans ?_
      refine (if_neg (by simp)).trans ?_
      refine (if_neg (by simp)).trans ?_
      refine (if_neg (by simp)).trans ?_
      rfl
  unfold keydown
  refine (if_neg (by rcases hkey with rfl | rfl <;> simp)).trans ?_
  refine (if_neg (by rcases hkey with rfl | rfl <;> simp)).trans ?_
  refine (if_neg (by simp [start, St.upd, set_pending, hclall])).trans ?_
  refine (if_neg (by simp [start, St.upd, set_pending, hgetkey])).trans ?_
  unfold keydown_main
  refine (if_neg (by simp)).trans ?_
  refine (if_neg (by simp)).trans ?_
  refine (if_neg (by rcases hkey with rfl | rfl <;> simp)).trans ?_
  refine (if_neg (by rcases hkey with rfl | rfl <;> simp)).trans ?_
  show (keydown_leave_number_entry E 0 key (start (after_prologue 0 s))).next _ = _
  rw [hl]
  exact hn

/-- C10 as stated fails: in base 2 and normal mode, while the `CLALL` confirmation
is waiting for a key, the key `.` commits a command (`pending_command` is
`CMD_NULL`, not `CMD_NONE`, on return). -/
theorem C10_counterexample :
    refEngine.ask .get_base { State0 with mode_clall := true, ext := 1 } ≠ 10
      ∧ ({ State0 with mode_clall := true, ext := 1 } : State).mode_number_entry = 0
      ∧ ({ State0 with mode_clall := true, ext := 1 } : State).mode_command_entry = false
      ∧ ({ State0 with mode_clall := true, ext := 1 } : State).mode_alpha_entry = false
      ∧ refEngine.ask .alpha_active { State0 with mode_clall := true, ext := 1 } = 0
      ∧ (keydown refEngine 0 KEY_DOT
          (start { State0 with mode_clall := true, ext := 1 })).s.pending_command ≠ CMD_NONE := by
  decide

/-- C10, amended: in a state with `get_base() != 10` that is in number-entry mode
or in normal mode, and in which neither the `CLALL` confirmation nor `GETKEY` is
waiting for a key, `keydown(0, KEY_DOT)` and `keydown(0, KEY_E)` leave
`mode_number_entry`, `cmdline`, `cmdline_length` and the stack unchanged and
commit no command; the whole state on return is the state before the call with
the shift flag and the two message flags cleared and `pending_command` reset.
The results of the engine are assumed not to depend on those four variables. -/
theorem C10_dot_and_e_ignored_in_integer_base (E : Engine) (s : State) (key : Int)
    (hq : ∀ q s, E.ask q (after_prologue 0 s) = E.ask q s)
    (hkey : key = KEY_DOT ∨ key = KEY_E) (hbase : E.ask .get_base s ≠ 10)
    (hclall : s.mode_clall = false) (hgetkey : s.mode_getkey = false)
    (hmode : s.mode_number_entry ≠ 0
      ∨ (s.mode_number_entry = 0 ∧ s.mode_command_entry = false ∧ E.ask .alpha_active s = 0)) :
    (keydown E 0 key (start s)).s.mode_number_entry = s.mode_number_entry
      ∧ (keydown E 0 key (start s)).s.cmdline = s.cmdline
      ∧ (keydown E 0 key (start s)).s.cmdline_length = s.cmdline_length
      ∧ (keydown E 0 key (start s)).s.stack = s.stack
      ∧ (keydown E 0 key (start s)).s.sp = s.sp
      ∧ (keydown E 0 key (start s)).s.pending_command = CMD_NONE
      ∧ (keydown E 0 key (start s)).s = after_prologue 0 s := by
  have hb : E.ask .get_base (after_prologue 0 s) ≠ 10 := by rw [hq]; exact hbase
  have hm : (after_prologue 0 s).mode_number_entry ≠ 0
      ∨ ((after_prologue 0 s).mode_number_entry = 0
          ∧ (after_prologue 0 s).mode_command_entry = false
          ∧ E.ask .alpha_active (after_prologue 0 s) = 0) := by
    rw [hq]; exact hmode
  have h : (keydown E 0 key (start s)).s = after_prologue 0 s := by
    rw [keydown_dot_or_e_reaches_dispatch E s key hkey hb hclall hgetkey]
    exact dispatch_dot_or_e_integer_base E (after_prologue 0 s) key [] hkey hb hm
  rw [h]
  exact ⟨rfl, rfl, rfl, rfl, rfl, rfl, rfl⟩

/-- Witness of C10 (amended): the key `.` in base 2, during number entry. -/
theorem C10_dot_and_e_ignored_in_integer_base_witness :
    (keydown refEngine 0 KEY_DOT
        (start { State0 with mode_number_entry := 1, ext := 1 })).s.mode_number_entry = 1
      ∧ (keydown refEngine 0 KEY_DOT
        (start { State0 with mode_number_entry := 1, ext := 1 })).s.cmdline = []
      ∧ (keydown refEngine 0 KEY_DOT
        (start { State0 with mode_number_entry := 1, ext := 1 })).s.cmdline_length = 0
      ∧ (keydown refEngine 0 KEY_DOT
        (start { State0 with mode_number_entry := 1, ext := 1 })).s.stack = State0.stack
      ∧ (keydown refEngine 0 KEY_DOT
        (start { State0 with mode_number_entry := 1, ext := 1 })).s.sp = 3
      ∧ (keydown refEngine 0 KEY_DOT
        (start { State0 with mode_number_entry := 1, ext := 1 })).s.pending_command = CMD_NONE
      ∧ (keydown refEngine 0 KEY_DOT
        (start { State0 with mode_number_entry := 1, ext := 1 })).s
          = after_prologue 0 { State0 with mode_number_entry := 1, ext := 1 } :=
  C10_dot_and_e_ignored_in_integer_base refEngine
    { State0 with mode_number_entry := 1, ext := 1 } KEY_DOT
    (fun q _ => by cases q <;> rfl) (Or.inl rfl) (by decide) rfl rfl (Or.inl (by decide))

/-! ## C8: integer-base number entry and the word size -/

theorem count_bits_ge (bpd : Int) (hbpd : 0 ≤ bpd) (t : List Nat) (b : Int) :
    b ≤ count_bits bpd t false b := by
  induction t generalizing b with
  | nil => simp [count_bits]
  | cons c cs ih =>
    unfold count_bits
    by_cases hc : c = 32
    · simp [hc]; exact ih b
    · simp [hc]; exact le_trans (by omega) (ih (b + bpd))

theorem valid_digit_range (base : Int) (c : Nat) (h : valid_digit base c) :
    0 ≤ char_digit c ∧ char_digit c < base ∧ c ≠ 32
      ∧ (if c ≤ 57 then (c : Int) - 48 else (c : Int) - 65 + 10) = char_digit c
      ∧ (if c < 65 then (c : Int) - 48 else (c : Int) - 65 + 10) = char_digit c := by
  obtain ⟨hr, hb⟩ := h
  refine ⟨?_, hb, ?_, ?_, ?_⟩
  · unfold char_digit; split <;> omega
  · omega
  · unfold char_digit; split <;> omega
  · unfold char_digit; split <;> split <;> omega

theorem accumulate_no_wrap (base bpd : Int) (k : Nat) (hbpd : bpd = k) (hbase : base = 2 ^ k)
    (t : List Nat) (ht : valid_text base t) (b : Nat) (n : Int) (hn0 : 0 ≤ n)
    (hn : n < 2 ^ b) (h64 : count_bits bpd t false b ≤ 64) :
    accumulate base t n = digits_value_from base t n
      ∧ digits_value_from base t n < 2 ^ (count_bits bpd t false b).toNat := by
  induction t generalizing b n with
  | nil => simpa [accumulate, digits_value_from, count_bits] using hn
  | cons c cs ih =>
    have htl : valid_text base cs := fun x hx => ht x (List.mem_cons_of_mem _ hx)
    rcases ht c (List.mem_cons_self _ _) with hc | hc
    · subst hc
      have h64' : count_bits bpd cs false b ≤ 64 := by simpa [count_bits] using h64
      simpa [accumulate, digits_value_from, count_bits] using ih htl b n hn0 hn h64'
    · obtain ⟨hd0, hdb, hne, hdec, _⟩ := valid_digit_range base c hc
      have hcb : count_bits bpd (c :: cs) false b = count_bits bpd cs false ((b + k : Nat) : Int) := by
        simp [count_bits, hne, hbpd]
      rw [hcb] at h64 ⊢
      have hge := count_bits_ge bpd (by omega) cs ((b + k : Nat) : Int)
      have hlt : n * base + char_digit c < 2 ^ (b + k) := by
        have h1 : (n + 1) * 2 ^ k ≤ 2 ^ b * (2:Int) ^ k :=
          mul_le_mul_of_nonneg_right (by omega) (by positivity)
        rw [pow_add]; rw [hbase] at hdb ⊢; linarith
      have h0 : 0 ≤ n * base + char_digit c := by
        have : 0 ≤ n * base := mul_nonneg hn0 (by rw [hbase]; positivity)
        omega
      have hbk : b + k ≤ 64 := by omega
      have h264 : n * base + char_digit c < 2 ^ 64 :=
        lt_of_lt_of_le hlt (pow_le_pow_right₀ (by norm_num) hbk)
      have hmod : (n * base + char_digit c) % 18446744073709551616 = n * base + char_digit c :=
        Int.emod_eq_of_lt h0 (by norm_num at h264; exact h264)
      have := ih htl (b + k) (n * base + char_digit c) h0 hlt h64
      simpa [accumulate, digits_value_from, hne, hdec, hmod] using this

theorem first_digit_bits (d : Int) (h0 : 0 ≤ d) (h16 : d < 16) :
    0 ≤ (if d ≥ 8 then 4 else if d ≥ 4 then 3 else if d ≥ 2 then 2 else d)
      ∧ d < 2 ^ (if d ≥ 8 then 4 else if d ≥ 4 then 3 else if d ≥ 2 then 2 else d : Int).toNat := by
  have : d = 0 ∨ d = 1 ∨ d = 2 ∨ d = 3 ∨ d = 4 ∨ d = 5 ∨ d = 6 ∨ d = 7 ∨ d = 8 ∨ d = 9
      ∨ d = 10 ∨ d = 11 ∨ d = 12 ∨ d = 13 ∨ d = 14 ∨ d = 15 := by omega
  rcases this with h | h | h | h | h | h | h | h | h | h | h | h | h | h | h | h <;>
    subst h <;> decide

theorem accumulate_bounded (base bpd : Int) (k : Nat) (hk : k ≤ 4) (hbpd : bpd = k)
    (hbase : base = 2 ^ k) (t : List Nat) (ht : valid_text base t)
    (h64 : count_bits bpd t true 0 ≤ 64) :
    accumulate base t 0 = digits_value_from base t 0
      ∧ digits_value_from base t 0 < 2 ^ (count_bits bpd t true 0).toNat := by
  induction t with
  | nil => simp [accumulate, digits_value_from, count_bits]
  | cons c cs ih =>
    have htl : valid_text base cs := fun x hx => ht x (List.mem_cons_of_mem _ hx)
    rcases ht c (List.mem_cons_self _ _) with hc | hc
    · subst hc
      have h64' : count_bits bpd cs true 0 ≤ 64 := by simpa [count_bits] using h64
      simpa [accumulate, digits_value_from, count_bits] using ih htl h64'
    · obtain ⟨hd0, hdb, hne, hdec, hdec'⟩ := valid_digit_range base c hc
      have h16 : char_digit c < 16 := by
        have : base ≤ 16 := by
          rw [hbase]; exact (pow_le_pow_right₀ (by norm_num) hk).trans (by norm_num)
        omega
      obtain ⟨hb0, hlt⟩ := first_digit_bits (char_digit c) hd0 h16
      have hcb : count_bits bpd (c :: cs) true 0
          = count_bits bpd cs false
              (((if char_digit c ≥ 8 then 4 else if char_digit c ≥ 4 then 3
                  else if char_digit c ≥ 2 then 2 else char_digit c : Int).toNat : Nat) : Int) := by
        rw [Int.toNat_of_nonneg hb0]
        simp [count_bits, hne, hdec']
      rw [hcb] at h64 ⊢
      have hmod : char_digit c % 18446744073709551616 = char_digit c :=
        Int.emod_eq_of_lt hd0 (by omega)
      have := accumulate_no_wrap base bpd k hbpd hbase cs htl _ (char_digit c) hd0 hlt h64
      simpa [accumulate, digits_value_from, hne, hdec, hmod] using this


theorem aget_aset (a : List Nat) (i j : Int) (v : Nat) (hi : 0 ≤ i) (hj : 0 ≤ j) :
    aget (aset a i v) j = if j = i then v else aget a j := by
  have hij : j = i ↔ j.toNat = i.toNat := by omega
  unfold aget aset
  simp only [if_neg (not_lt.mpr hi), if_neg (not_lt.mpr hj), List.getD_eq_getElem?_getD]
  by_cases hl : i.toNat < a.length
  · rw [if_pos hl, List.getElem?_set]
    by_cases h : j = i
    · have h' := hij.mp h
      simp [h, hl]
    · have h' : ¬ i.toNat = j.toNat := fun e => h (hij.mpr e.symm)
      simp [h, h']
  · rw [if_neg hl]
    by_cases h : j = i
    · subst h
      have : (a ++ List.replicate (j.toNat - a.length) 0).length = j.toNat := by
        simp; omega
      rw [List.getElem?_append_right (by omega)]
      simp [this]
    · have h' : ¬ j.toNat = i.toNat := fun e => h (hij.mpr e)
      simp only [if_neg h]
      by_cases hja : j.toNat < a.length
      · rw [List.append_assoc, List.getElem?_append_left hja]
      · by_cases hji : j.toNat < i.toNat
        · rw [List.getElem?_append_left (by simp; omega),
            List.getElem?_append_right (by omega)]
          have : a[j.toNat]? = none := List.getElem?_eq_none (by omega)
          rw [this, List.getElem?_replicate]
          split <;> rfl
        · have : a[j.toNat]? = none := List.getElem?_eq_none (by omega)
          rw [this, List.getElem?_eq_none (by simp; omega)]

theorem atake_eq (a : List Nat) (n : Int) :
    atake a n = (List.range n.toNat).map (fun i : Nat => aget a (i : Int)) := by
  rfl

theorem atake_aset_same (a : List Nat) (n : Int) (v : Nat) (hn : 0 ≤ n) :
    atake (aset a n v) n = atake a n := by
  rw [atake_eq, atake_eq]
  apply List.map_congr_left
  intro i hi
  have : (i : Int) ≠ n := by
    have := List.mem_range.mp hi
    omega
  rw [aget_aset a n i v hn (by omega), if_neg this]

theorem atake_succ (a : List Nat) (n : Int) (hn : 0 ≤ n) :
    atake a (n + 1) = atake a n ++ [aget a n] := by
  rw [atake_eq, atake_eq]
  have : (n + 1).toNat = n.toNat + 1 := by omega
  rw [this, List.range_succ, List.map_append]
  simp [Int.toNat_of_nonneg hn]

theorem atake_aset_succ (a : List Nat) (n : Int) (v : Nat) (hn : 0 ≤ n) :
    atake (aset a n v) (n + 1) = atake a n ++ [v] := by
  rw [atake_succ _ _ hn, atake_aset_same _ _ _ hn, aget_aset _ _ _ _ hn hn, if_pos rfl]


theorem digit_char_valid (base d : Int) (h0 : 0 ≤ d) (h15 : d ≤ 15) (hd : d < base) :
    valid_digit base (digit_char d) := by
  have : d = 0 ∨ d = 1 ∨ d = 2 ∨ d = 3 ∨ d = 4 ∨ d = 5 ∨ d = 6 ∨ d = 7 ∨ d = 8 ∨ d = 9
      ∨ d = 10 ∨ d = 11 ∨ d = 12 ∨ d = 13 ∨ d = 14 ∨ d = 15 := by omega
  rcases this with h | h | h | h | h | h | h | h | h | h | h | h | h | h | h | h <;>
    subst h <;> exact ⟨by decide, hd⟩

theorem digit_of_key_range (key d : Int) (hk : digit_of_key key = some d) : 0 ≤ d ∧ d ≤ 15 := by
  revert hk
  unfold digit_of_key
  repeat' (refine pred_ite (fun r : Option Int => r = some d → 0 ≤ d ∧ d ≤ 15) ?_ ?_ <;> intro _)
  all_goals (intro h; simp at h <;> omega)

theorem cmdline_set_repeating (key shift : Int) (st : St) :
    (set_repeating key shift st).s.cmdline = st.s.cmdline
      ∧ (set_repeating key shift st).s.cmdline_length = st.s.cmdline_length := by
  unfold set_repeating; split <;> exact ⟨rfl, rfl⟩

/-- C8, amended: for a base in {2, 8, 16}, a word size `effective_wsize()` from 1
to 64, a command line of valid digits of that base and separator spaces, and a
digit key of that base, the digit branch of `keydown_number_entry` accepts the
digit (goes on to the computation of the number) exactly when the bit count
computed over the extended command line is at most `effective_wsize()`; then the
unsigned value of the digits of the extended command line read in that base is
below `2^effective_wsize()`, and the 64-bit accumulation loop computes exactly
that value without wrapping around. A digit that fails the check leaves
`cmdline_length` and the first `cmdline_length` characters of `cmdline` as they
were, while the rejected digit stays in the array cell `cmdline[cmdline_length]`. -/
theorem C8_integer_entry_bounded_by_word_size (E : Engine) (shift key base d : Int) (st : St)
    (hbase : base = 2 ∨ base = 8 ∨ base = 16)
    (hw : ∀ s, 1 ≤ E.ask .effective_wsize s ∧ E.ask .effective_wsize s ≤ 64)
    (hlen : 0 ≤ st.s.cmdline_length)
    (ht : valid_text base (atake st.s.cmdline st.s.cmdline_length))
    (hkey : digit_of_key key = some d) (hd : d < base) :
    ((number_entry_digit E shift key base st).falls_through = true
        ↔ count_bits (bits_per_digit base)
              (atake st.s.cmdline st.s.cmdline_length ++ [digit_char d]) true 0
            ≤ E.ask .effective_wsize
                ((set_repeating key shift st).upd (cmdline_append (digit_char d))).s)
      ∧ ((number_entry_digit E shift key base st).falls_through = true →
          digits_value base (atake st.s.cmdline st.s.cmdline_length ++ [digit_char d])
              < 2 ^ (E.ask .effective_wsize
                  ((set_repeating key shift st).upd (cmdline_append (digit_char d))).s).toNat
            ∧ accumulate base (atake st.s.cmdline st.s.cmdline_length ++ [digit_char d]) 0
              = digits_value base (atake st.s.cmdline st.s.cmdline_length ++ [digit_char d]))
      ∧ ((number_entry_digit E shift key base st).falls_through = false →
          (number_entry_digit E shift key base st).st.s.cmdline_length = st.s.cmdline_length
            ∧ atake (number_entry_digit E shift key base st).st.s.cmdline
                  (number_entry_digit E shift key base st).st.s.cmdline_length
                = atake st.s.cmdline st.s.cmdline_length
            ∧ (number_entry_digit E shift key base st).st.s.cmdline
                = aset st.s.cmdline st.s.cmdline_length (digit_char d)) := by
  obtain ⟨hd0, hd15⟩ := digit_of_key_range key d hkey
  obtain ⟨hc1, hc2⟩ := cmdline_set_repeating key shift st
  have hb10 : base ≠ 10 := by rcases hbase with h | h | h <;> omega
  have hnd : ¬ d ≥ base := by omega
  obtain ⟨k, hk4, hbpd, hb2⟩ : ∃ k : Nat, k ≤ 4 ∧ bits_per_digit base = k ∧ base = 2 ^ k := by
    rcases hbase with h | h | h <;> subst h
    · exact ⟨1, by decide, by decide, by decide⟩
    · exact ⟨3, by decide, by decide, by decide⟩
    · exact ⟨4, by decide, by decide, by decide⟩
  have ht' : valid_text base (atake st.s.cmdline st.s.cmdline_length ++ [digit_char d]) := by
    intro c hc
    rcases List.mem_append.mp hc with h | h
    · exact ht c h
    · rw [List.mem_singleton.mp h]; exact Or.inr (digit_char_valid base d hd0 hd15 hd)
  have htxt : atake ((set_repeating key shift st).upd (cmdline_append (digit_char d))).s.cmdline
        ((set_repeating key shift st).upd (cmdline_append (digit_char d))).s.cmdline_length
      = atake st.s.cmdline st.s.cmdline_length ++ [digit_char d] := by
    show atake (aset (set_repeating key shift st).s.cmdline
        (set_repeating key shift st).s.cmdline_length (digit_char d))
        ((set_repeating key shift st).s.cmdline_length + 1) = _
    rw [hc1, hc2]
    exact atake_aset_succ _ _ _ hlen
  obtain ⟨hw1, hw64⟩ := hw ((set_repeating key shift st).upd (cmdline_append (digit_char d))).s
  have hnum : number_entry_digit E shift key base st
      = if count_bits (bits_per_digit base)
              (atake st.s.cmdline st.s.cmdline_length ++ [digit_char d]) true 0
            > E.ask .effective_wsize
                ((set_repeating key shift st).upd (cmdline_append (digit_char d))).s
        then .ret (((set_repeating key shift st).upd (cmdline_append (digit_char d))).upd
              (fun s => { s with cmdline_length := s.cmdline_length - 1 }))
        else .go (((set_repeating key shift st).upd (cmdline_append (digit_char d))).call E
              .fix_base_separators) := by
    unfold number_entry_digit
    rw [hkey]
    show (if d ≥ base then _ else _) = _
    rw [if_neg hnd]
    show (if base = 10 then _ else _) = _
    rw [if_neg hb10]
    show (if count_bits (bits_per_digit base)
              (atake ((set_repeating key shift st).upd (cmdline_append (digit_char d))).s.cmdline
                ((set_repeating key shift st).upd (cmdline_append (digit_char d))).s.cmdline_length)
              true 0 > _ then _ else _) = _
    rw [htxt]
  rw [hnum]
  by_cases hbits : count_bits (bits_per_digit base)
              (atake st.s.cmdline st.s.cmdline_length ++ [digit_char d]) true 0
            > E.ask .effective_wsize
                ((set_repeating key shift st).upd (cmdline_append (digit_char d))).s
  · rw [if_pos hbits]
    refine ⟨by simp [Flow.falls_through]; omega, by simp [Flow.falls_through], fun _ => ?_⟩
    have hl : (((set_repeating key shift st).upd (cmdline_append (digit_char d))).upd
              (fun s => { s with cmdline_length := s.cmdline_length - 1 })).s.cmdline_length
          = st.s.cmdline_length := by
      show (set_repeating key shift st).s.cmdline_length + 1 - 1 = _
      rw [hc2]; omega
    have hcm : (((set_repeating key shift st).upd (cmdline_append (digit_char d))).upd
              (fun s => { s with cmdline_length := s.cmdline_length - 1 })).s.cmdline
          = aset st.s.cmdline st.s.cmdline_length (digit_char d) := by
      show aset (set_repeating key shift st).s.cmdline
        (set_repeating key shift st).s.cmdline_length (digit_char d) = _
      rw [hc1, hc2]
    refine ⟨hl, ?_, hcm⟩
    show atake _ _ = _
    rw [Flow.st, hl, hcm]
    exact atake_aset_same _ _ _ hlen
  · rw [if_neg hbits]
    refine ⟨by simp [Flow.falls_through]; omega, fun _ => ?_, by simp [Flow.falls_through]⟩
    have h64 : count_bits (bits_per_digit base)
        (atake st.s.cmdline st.s.cmdline_length ++ [digit_char d]) true 0 ≤ 64 := by omega
    obtain ⟨hacc, hval⟩ := accumulate_bounded base (bits_per_digit base) k hk4 hbpd hb2 _ ht' h64
    refine ⟨lt_of_lt_of_le hval (pow_le_pow_right₀ (by norm_num) ?_), hacc⟩
    exact Int.toNat_le_toNat (by omega)


/-- C8 as stated fails in its last part: in base 16 with word size 4 and the
command line `F`, the digit key 1 fails the bit-count check (8 bits), and on
return `cmdline_length` is 1 as before but the array `cmdline` holds `F1`
instead of `F` followed by a zero byte. -/
theorem C8_counterexample :
    refEngine.ask .get_base hex_entry_state = 16
      ∧ refEngine.ask .effective_wsize hex_entry_state = 4
      ∧ valid_text 16 (atake hex_entry_state.cmdline hex_entry_state.cmdline_length)
      ∧ count_bits (bits_per_digit 16) [70, 49] true 0 = 8
      ∧ (keydown refEngine 0 KEY_1 (start hex_entry_state)).s.cmdline_length
          = hex_entry_state.cmdline_length
      ∧ (keydown refEngine 0 KEY_1 (start hex_entry_state)).s.cmdline = [70, 49]
      ∧ (keydown refEngine 0 KEY_1 (start hex_entry_state)).s.cmdline
          ≠ hex_entry_state.cmdline := by
  decide

/-- Witness of C8 (amended): the digit key 1 after `F` in base 16, word size 4. -/
theorem C8_integer_entry_bounded_by_word_size_witness :
    ((number_entry_digit refEngine 0 KEY_1 16 (start hex_entry_state)).falls_through = true
        ↔ count_bits (bits_per_digit 16)
              (atake hex_entry_state.cmdline hex_entry_state.cmdline_length ++ [digit_char 1])
              true 0
            ≤ refEngine.ask .effective_wsize
                ((set_repeating KEY_1 0 (start hex_entry_state)).upd
                  (cmdline_append (digit_char 1))).s)
      ∧ ((number_entry_digit refEngine 0 KEY_1 16 (start hex_entry_state)).falls_through = true →
          digits_value 16
              (atake hex_entry_state.cmdline hex_entry_state.cmdline_length ++ [digit_char 1])
              < 2 ^ (refEngine.ask .effective_wsize
                  ((set_repeating KEY_1 0 (start hex_entry_state)).upd
                    (cmdline_append (digit_char 1))).s).toNat
            ∧ accumulate 16
                (atake hex_entry_state.cmdline hex_entry_state.cmdline_length ++ [digit_char 1]) 0
              = digits_value 16
                (atake hex_entry_state.cmdline hex_entry_state.cmdline_length ++ [digit_char 1]))
      ∧ ((number_entry_digit refEngine 0 KEY_1 16 (start hex_entry_state)).falls_through = false →
          (number_entry_digit refEngine 0 KEY_1 16 (start hex_entry_state)).st.s.cmdline_length
              = (start hex_entry_state).s.cmdline_length
            ∧ atake (number_entry_digit refEngine 0 KEY_1 16 (start hex_entry_state)).st.s.cmdline
                  (number_entry_digit refEngine 0 KEY_1 16 (start hex_entry_state)).st.s.cmdline_length
                = atake (start hex_entry_state).s.cmdline (start hex_entry_state).s.cmdline_length
            ∧ (number_entry_digit refEngine 0 KEY_1 16 (start hex_entry_state)).st.s.cmdline
                = aset (start hex_entry_state).s.cmdline (start hex_entry_state).s.cmdline_length
                    (digit_char 1)) :=
  C8_integer_entry_bounded_by_word_size refEngine 0 KEY_1 16 1 (start hex_entry_state)
    (Or.inr (Or.inr rfl))
    (fun s => by
      show 1 ≤ ((s.ext / 4 % 64 + 1 : Nat) : Int) ∧ ((s.ext / 4 % 64 + 1 : Nat) : Int) ≤ 64
      omega)
    (by decide) (by decide) (by decide) (by decide)

/-! ## C7: the command line when number entry ends -/

/-- C7 as stated fails: with the command line `5` in number entry, backspace
cancels the entry and `ENTER` commits it; in both cases number-entry mode is off
and `cmdline_length` is 1, not 0, when `keydown` returns. -/
theorem C7_counterexample :
    one_digit_state.mode_number_entry ≠ 0
      ∧ (keydown refEngine 0 KEY_BSP (start one_digit_state)).s.mode_number_entry = 0
      ∧ (keydown refEngine 0 KEY_BSP (start one_digit_state)).s.cmdline_length = 1
      ∧ (keydown refEngine 0 KEY_ENTER (start one_digit_state)).s.mode_number_entry = 0
      ∧ (keydown refEngine 0 KEY_ENTER (start one_digit_state)).s.cmdline_length = 1 := by
  decide

theorem store_number_line_cmdline_length (E : Engine) (st : St)
    (hst : ∀ pc cmd arg txt s,
      (E.run (.store_command pc cmd arg txt) s).cmdline_length = s.cmdline_length) :
    (store_number_line E st).s.cmdline_length = st.s.cmdline_length := by
  unfold store_number_line
  simp [St.upd, St.call, hst]

theorem end_number_entry_cmdline_length (E : Engine) (st : St)
    (hst : ∀ pc cmd arg txt s,
      (E.run (.store_command pc cmd arg txt) s).cmdline_length = s.cmdline_length) :
    (end_number_entry E st).s.cmdline_length = st.s.cmdline_length := by
  unfold end_number_entry
  dsimp only
  split_ifs <;> simp [St.upd, store_number_line_cmdline_length E _ hst]

theorem leave_number_entry_cmdline_length (E : Engine) (shift key : Int) (st : St)
    (hst : ∀ pc cmd arg txt s,
      (E.run (.store_command pc cmd arg txt) s).cmdline_length = s.cmdline_length)
    (hre : ∀ s, (E.run .redisplay s).cmdline_length = s.cmdline_length) :
    (keydown_leave_number_entry E shift key st).st.s.cmdline_length = st.s.cmdline_length := by
  unfold keydown_leave_number_entry
  dsimp only
  split_ifs <;> simp [Flow.st, St.call, hre, end_number_entry_cmdline_length E _ hst]

theorem keydown_bsp_reaches_number_entry (E : Engine) (s : State)
    (hne : s.mode_number_entry ≠ 0)
    (hclall : s.mode_clall = false) (hgetkey : s.mode_getkey = false)
    (hmsg : s.flags.message = false) :
    keydown E 0 KEY_BSP (start s) = keydown_number_entry E 0 KEY_BSP (start (after_prologue 0 s)) := by
  have hl : keydown_leave_number_entry E 0 KEY_BSP (start (after_prologue 0 s))
      = Flow.go (start (after_prologue 0 s)) := by
    unfold keydown_leave_number_entry
    exact if_neg (by simp)
  have hn : keydown_navigation E 0 KEY_BSP (start (after_prologue 0 s))
      = keydown_number_entry E 0 KEY_BSP (start (after_prologue 0 s)) := by
    unfold keydown_navigation
    refine (if_neg (by simp)).trans ?_
    refine (if_neg (by simp)).trans ?_
    refine (if_neg (by simp)).trans ?_
    refine (if_neg (by simp)).trans ?_
    unfold keydown_dispatch
    exact if_pos (by simpa [start, after_prologue] using hne)
  unfold keydown
  refine (if_neg (by simp)).trans ?_
  refine (if_neg (by simp)).trans ?_
  refine (if_neg (by simp [start, St.upd, set_pending, hclall])).trans ?_
  refine (if_neg (by simp [start, St.upd, set_pending, hgetkey])).trans ?_
  unfold keydown_main
  refine (if_neg (by simp)).trans ?_
  refine (if_neg (by simp)).trans ?_
  refine (if_neg (by simp [start, St.upd, set_pending, hmsg])).trans ?_
  refine (if_neg (by simp)).trans ?_
  show (keydown_leave_number_entry E 0 KEY_BSP (start (after_prologue 0 s))).next _ = _
  rw [hl]
  exact hn

theorem number_entry_bsp_last (E : Engine) (st : St)
    (hlen : st.s.cmdline_length = 1)
    (hre : ∀ s, (E.run .redisplay s).cmdline_length = s.cmdline_length
      ∧ (E.run .redisplay s).mode_number_entry = s.mode_number_entry) :
    (keydown_number_entry E 0 KEY_BSP st).s.mode_number_entry = 0
      ∧ (keydown_number_entry E 0 KEY_BSP st).s.cmdline_length = 1 := by
  have h : keydown_number_entry E 0 KEY_BSP st
      = if (st.mark .enter_number_entry).s.flags.prgm_mode then
          (((pc_to_previous_line E ((st.mark .enter_number_entry).upd
              (fun s => { s with mode_number_entry := 0 }))).upd
              (fun s => { s with prgm_highlight_row := 0 })).call E .redisplay)
        else ((st.mark .enter_number_entry).upd (fun s => { s with mode_number_entry := 0 })).upd
          (fun s => { s with pending_command := drop_command s st.s.mode_number_entry }) := by
    unfold keydown_number_entry
    refine (if_neg (by decide)).trans ?_
    refine (if_neg (by simp)).trans ?_
    refine (if_pos ⟨rfl, hlen⟩).trans ?_
    rfl
  rw [h]
  split_ifs <;>
    simp [St.call, St.upd, St.mark, pc_to_previous_line, (hre _).1, (hre _).2, hlen]

/-- C7, amended: ending number entry does not clear the command line. The
statements of `keydown` that end number entry for a key that is not a number key
(lines 311-334) leave `cmdline_length` as it is, and when backspace removes the
last character of the command line (`cmdline_length` is 1, no message is shown,
neither `CLALL` nor `GETKEY` is waiting), `keydown` returns with number entry
off and `cmdline_length` still 1. The calls `store_command()` and `redisplay()`
are assumed to leave `cmdline_length` and `mode_number_entry` alone. -/
theorem C7_cmdline_length_kept_when_number_entry_ends (E : Engine) (shift key : Int) (st : St)
    (s : State)
    (hst : ∀ pc cmd arg txt s,
      (E.run (.store_command pc cmd arg txt) s).cmdline_length = s.cmdline_length)
    (hre : ∀ s, (E.run .redisplay s).cmdline_length = s.cmdline_length
      ∧ (E.run .redisplay s).mode_number_entry = s.mode_number_entry)
    (hne : s.mode_number_entry ≠ 0) (hlen : s.cmdline_length = 1)
    (hclall : s.mode_clall = false) (hgetkey : s.mode_getkey = false)
    (hmsg : s.flags.message = false) :
    (keydown_leave_number_entry E shift key st).st.s.cmdline_length = st.s.cmdline_length
      ∧ (keydown E 0 KEY_BSP (start s)).s.mode_number_entry = 0
      ∧ (keydown E 0 KEY_BSP (start s)).s.cmdline_length = 1 := by
  refine ⟨leave_number_entry_cmdline_length E shift key st hst (fun s => (hre s).1), ?_⟩
  rw [keydown_bsp_reaches_number_entry E s hne hclall hgetkey hmsg]
  exact number_entry_bsp_last E _ hlen hre

/-- Witness of C7 (amended): `ENTER` and backspace with the command line `5`. -/
theorem C7_cmdline_length_kept_when_number_entry_ends_witness :
    (keydown_leave_number_entry refEngine 0 KEY_ENTER (start one_digit_state)).st.s.cmdline_length
        = (start one_digit_state).s.cmdline_length
      ∧ (keydown refEngine 0 KEY_BSP (start one_digit_state)).s.mode_number_entry = 0
      ∧ (keydown refEngine 0 KEY_BSP (start one_digit_state)).s.cmdline_length = 1 :=
  C7_cmdline_length_kept_when_number_entry_ends refEngine 0 KEY_ENTER (start one_digit_state)
    one_digit_state (fun _ _ _ _ _ => rfl) (fun _ => ⟨rfl, rfl⟩) (by decide) rfl rfl rfl rfl

/-! ## The outcomes of the blocks of `keydown_command_entry` -/

set_option linter.unusedTactic false
set_option linter.unreachableTactic false

@[simp] theorem tr_call (E : Engine) (c : Call) (x : St) : (x.call E c).tr = x.tr ++ [c] := rfl
@[simp] theorem tr_upd (f : State → State) (x : St) : (x.upd f).tr = x.tr := rfl
@[simp] theorem tr_mark (c : Call) (x : St) : (x.mark c).tr = x.tr ++ [c] := rfl
@[simp] theorem tr_set_pending (c : Int) (x : St) : (set_pending c x).tr = x.tr := rfl
@[simp] theorem tr_upd_arg (f : arg_struct → arg_struct) (x : St) : (upd_arg f x).tr = x.tr := rfl
@[simp] theorem tr_set_arg_str (n : List Nat) (l : Int) (x : St) : (set_arg_str n l x).tr = x.tr := rfl
@[simp] theorem squeaked_append (l l' : List Call) :
    squeaked (l ++ l') = (squeaked l || squeaked l') := by
  simp [squeaked]
@[simp] theorem squeaked_cons (c : Call) (l : List Call) :
    squeaked (c :: l) = (c.is_squeak || squeaked l) := by
  simp [squeaked]
@[simp] theorem squeaked_nil : squeaked [] = false := rfl
@[simp] theorem loud_append (l l' : List Call) : loud (l ++ l') = (loud l || loud l') := by
  simp [loud]
@[simp] theorem loud_cons (c : Call) (l : List Call) :
    loud (c :: l) = ((c.is_display || c.is_handoff) || loud l) := by
  simp [loud]
@[simp] theorem loud_nil : loud [] = false := rfl

@[simp] theorem Out_squeak (E : Engine) (st : St) : Out E st (st.call E .squeak) := Or.inl rfl
@[simp] theorem Out_same (E : Engine) (st : St) : Out E st st := Or.inr (Or.inl rfl)
theorem Out_loud (E : Engine) (st r : St) (h1 : squeaked r.tr = squeaked st.tr)
    (h2 : loud r.tr = true) : Out E st r := Or.inr (Or.inr ⟨h1, h2⟩)
theorem Out_next (E : Engine) (st : St) (flow : Flow) (k : St → St)
    (h1 : OutF E st flow) (h2 : Out E st (k st)) : Out E st (flow.next k) := by
  cases flow with
  | ret r => exact h1
  | go r => simp only [OutF] at h1; subst h1; exact h2
theorem OutF_ret (E : Engine) (st r : St) (h : Out E st r) : OutF E st (.ret r) := h
@[simp] theorem OutF_go (E : Engine) (st : St) : OutF E st (.go st) := rfl



@[simp] theorem tr_set_repeating (key shift : Int) (st : St) :
    (set_repeating key shift st).tr = st.tr := by
  unfold set_repeating; split <;> rfl

@[simp] theorem tr_pc_to_previous_line (E : Engine) (st : St) :
    (pc_to_previous_line E st).tr = st.tr := rfl

theorem out_command_entry_st (E : Engine) (shift key : Int) (st : St) :
    Out E st (command_entry_st E shift key st) := by
  unfold command_entry_st
  repeat' first
    | (simp only [OutF, Out_squeak, Out_same, OutF_go]; done)
    | (refine pred_ite (fun r : St => Out E st r) ?_ ?_ <;> intro _)
    | (refine pred_ite (fun r : Flow => OutF E st r) ?_ ?_ <;> intro _)
    | (refine Out_next E st _ _ ?_ ?_)
    | (refine pred_elim (fun r : St => Out E st r) ?_ ?_ <;> intros)
    | (apply Out_loud <;> simp [apply_ite St.tr, apply_ite squeaked, apply_ite loud, Call.is_squeak, Call.is_display, Call.is_handoff]; done)
    | (simp only [OutF]; apply Out_loud <;> simp [apply_ite St.tr, apply_ite squeaked, apply_ite loud, Call.is_squeak, Call.is_display, Call.is_handoff]; done)

theorem out_command_entry_ckey (E : Engine) (shift key : Int) (st : St) :
    Out E st (command_entry_ckey E shift key st) := by
  unfold command_entry_ckey
  repeat' first
    | (simp only [OutF, Out_squeak, Out_same, OutF_go]; done)
    | (refine pred_ite (fun r : St => Out E st r) ?_ ?_ <;> intro _)
    | (refine pred_ite (fun r : Flow => OutF E st r) ?_ ?_ <;> intro _)
    | (refine Out_next E st _ _ ?_ ?_)
    | (refine pred_elim (fun r : St => Out E st r) ?_ ?_ <;> intros)
    | (apply Out_loud <;> simp [apply_ite St.tr, apply_ite squeaked, apply_ite loud, Call.is_squeak, Call.is_display, Call.is_handoff]; done)
    | (simp only [OutF]; apply Out_loud <;> simp [apply_ite St.tr, apply_ite squeaked, apply_ite loud, Call.is_squeak, Call.is_display, Call.is_handoff]; done)

theorem out_command_entry_mkey (E : Engine) (shift key : Int) (st : St) :
    Out E st (command_entry_mkey E shift key st) := by
  unfold command_entry_mkey
  repeat' first
    | (simp only [OutF, Out_squeak, Out_same, OutF_go]; done)
    | (refine pred_ite (fun r : St => Out E st r) ?_ ?_ <;> intro _)
    | (refine pred_ite (fun r : Flow => OutF E st r) ?_ ?_ <;> intro _)
    | (refine Out_next E st _ _ ?_ ?_)
    | (refine pred_elim (fun r : St => Out E st r) ?_ ?_ <;> intros)
    | (apply Out_loud <;> simp [apply_ite St.tr, apply_ite squeaked, apply_ite loud, Call.is_squeak, Call.is_display, Call.is_handoff]; done)
    | (simp only [OutF]; apply Out_loud <;> simp [apply_ite St.tr, apply_ite squeaked, apply_ite loud, Call.is_squeak, Call.is_display, Call.is_handoff]; done)

@[simp] theorem sq_show_briefly (E : Engine) (st : St) :
    squeaked (show_briefly E st).tr = squeaked st.tr := by
  unfold show_briefly
  simp [apply_ite St.tr, apply_ite squeaked, apply_ite loud, Call.is_squeak]

@[simp] theorem loud_show_briefly (E : Engine) (st : St) :
    loud (show_briefly E st).tr = true := by
  unfold show_briefly
  simp [apply_ite St.tr, apply_ite squeaked, apply_ite loud, Call.is_display, Call.is_handoff]

theorem out_command_entry_catalog_item (E : Engine) (menukey catsect : Int) (st : St) :
    Out E st (command_entry_catalog_item E menukey catsect st) := by
  unfold command_entry_catalog_item
  repeat' first
    | (simp only [OutF, Out_squeak, Out_same, OutF_go]; done)
    | (refine pred_ite (fun r : St => Out E st r) ?_ ?_ <;> intro _)
    | (refine pred_ite (fun r : Flow => OutF E st r) ?_ ?_ <;> intro _)
    | (refine Out_next E st _ _ ?_ ?_)
    | (refine pred_elim (fun r : St => Out E st r) ?_ ?_ <;> intros)
    | (apply Out_loud <;> simp [apply_ite St.tr, apply_ite squeaked, apply_ite loud, Call.is_squeak, Call.is_display, Call.is_handoff]; done)
    | (simp only [OutF]; apply Out_loud <;> simp [apply_ite St.tr, apply_ite squeaked, apply_ite loud, Call.is_squeak, Call.is_display, Call.is_handoff]; done)

theorem out_command_entry_catalog (E : Engine) (shift key : Int) (st : St) :
    OutF E st (command_entry_catalog E shift key st) := by
  unfold command_entry_catalog
  repeat' first
    | (simp only [OutF, Out_squeak, Out_same, OutF_go, out_command_entry_catalog_item]; done)
    | (refine pred_ite (fun r : St => Out E st r) ?_ ?_ <;> intro _)
    | (refine pred_ite (fun r : Flow => OutF E st r) ?_ ?_ <;> intro _)
    | (refine Out_next E st _ _ ?_ ?_)
    | (refine pred_elim (fun r : St => Out E st r) ?_ ?_ <;> intros)
    | (apply Out_loud <;> simp [apply_ite St.tr, apply_ite squeaked, apply_ite loud, Call.is_squeak, Call.is_display, Call.is_handoff]; done)
    | (simp only [OutF]; apply Out_loud <;> simp [apply_ite St.tr, apply_ite squeaked, apply_ite loud, Call.is_squeak, Call.is_display, Call.is_handoff]; done)

theorem out_command_entry_varmenu (E : Engine) (shift key : Int) (st : St) :
    OutF E st (command_entry_varmenu E shift key st) := by
  unfold command_entry_varmenu
  repeat' first
    | (simp only [OutF, Out_squeak, Out_same, OutF_go]; done)
    | (refine pred_ite (fun r : St => Out E st r) ?_ ?_ <;> intro _)
    | (refine pred_ite (fun r : Flow => OutF E st r) ?_ ?_ <;> intro _)
    | (refine Out_next E st _ _ ?_ ?_)
    | (refine pred_elim (fun r : St => Out E st r) ?_ ?_ <;> intros)
    | (apply Out_loud <;> simp [apply_ite St.tr, apply_ite squeaked, apply_ite loud, Call.is_squeak, Call.is_display, Call.is_handoff]; done)
    | (simp only [OutF]; apply Out_loud <;> simp [apply_ite St.tr, apply_ite squeaked, apply_ite loud, Call.is_squeak, Call.is_display, Call.is_handoff]; done)

theorem out_command_entry_integ_params (E : Engine) (key : Int) (st : St) :
    OutF E st (command_entry_integ_params E key st) := by
  unfold command_entry_integ_params
  repeat' first
    | (simp only [OutF, Out_squeak, Out_same, OutF_go]; done)
    | (refine pred_ite (fun r : St => Out E st r) ?_ ?_ <;> intro _)
    | (refine pred_ite (fun r : Flow => OutF E st r) ?_ ?_ <;> intro _)
    | (refine Out_next E st _ _ ?_ ?_)
    | (refine pred_elim (fun r : St => Out E st r) ?_ ?_ <;> intros)
    | (apply Out_loud <;> simp [apply_ite St.tr, apply_ite squeaked, apply_ite loud, Call.is_squeak, Call.is_display, Call.is_handoff]; done)
    | (simp only [OutF]; apply Out_loud <;> simp [apply_ite St.tr, apply_ite squeaked, apply_ite loud, Call.is_squeak, Call.is_display, Call.is_handoff]; done)

@[simp] theorem sq_print_num_command (E : Engine) (cmd : Int) (st : St) :
    squeaked (print_num_command E cmd st).tr = squeaked st.tr := by
  unfold print_num_command
  simp [apply_ite St.tr, apply_ite squeaked, apply_ite loud, Call.is_squeak]

@[simp] theorem sq_command_entry_goto_column (E : Engine) (st : St) :
    squeaked (command_entry_goto_column E st).tr = squeaked st.tr := by
  unfold command_entry_goto_column
  simp [apply_ite St.tr, apply_ite squeaked, apply_ite loud, Call.is_squeak]

@[simp] theorem loud_command_entry_goto_column (E : Engine) (st : St) :
    loud (command_entry_goto_column E st).tr = true := by
  unfold command_entry_goto_column
  simp [apply_ite St.tr, apply_ite squeaked, apply_ite loud, Call.is_display, Call.is_handoff]

@[simp] theorem sq_command_entry_goto_row (E : Engine) (st : St) :
    squeaked (command_entry_goto_row E st).tr = squeaked st.tr := by
  unfold command_entry_goto_row
  simp [apply_ite St.tr, apply_ite squeaked, apply_ite loud, Call.is_squeak]

@[simp] theorem loud_command_entry_goto_row (E : Engine) (st : St) :
    loud (command_entry_goto_row E st).tr = true := by
  unfold command_entry_goto_row
  simp [apply_ite St.tr, apply_ite squeaked, apply_ite loud, Call.is_display, Call.is_handoff]

@[simp] theorem sq_restore_argument_menu (E : Engine) (last : Bool) (st : St) :
    squeaked (restore_argument_menu E last st).tr = squeaked st.tr := by
  unfold restore_argument_menu
  simp [apply_ite St.tr, apply_ite squeaked, apply_ite loud, Call.is_squeak]

@[simp] theorem sq_numeric_argument_menu (E : Engine) (st : St) :
    squeaked (numeric_argument_menu E st).tr = squeaked st.tr := by
  unfold numeric_argument_menu
  simp [apply_ite St.tr, apply_ite squeaked, apply_ite loud, Call.is_squeak]

theorem out_command_entry_numeric_enter (E : Engine) (shift : Int) (st : St) :
    OutF E st (command_entry_numeric_enter E shift st) := by
  unfold command_entry_numeric_enter
  repeat' first
    | (simp only [OutF, Out_squeak, Out_same, OutF_go]; done)
    | (refine pred_ite (fun r : St => Out E st r) ?_ ?_ <;> intro _)
    | (refine pred_ite (fun r : Flow => OutF E st r) ?_ ?_ <;> intro _)
    | (refine Out_next E st _ _ ?_ ?_)
    | (refine pred_elim (fun r : St => Out E st r) ?_ ?_ <;> intros)
    | (apply Out_loud <;> simp [apply_ite St.tr, apply_ite squeaked, apply_ite loud, Call.is_squeak, Call.is_display, Call.is_handoff]; done)
    | (simp only [OutF]; apply Out_loud <;> simp [apply_ite St.tr, apply_ite squeaked, apply_ite loud, Call.is_squeak, Call.is_display, Call.is_handoff]; done)

theorem out_command_entry_numeric_dot (E : Engine) (st : St) :
    Out E st (command_entry_numeric_dot E st) := by
  unfold command_entry_numeric_dot
  repeat' first
    | (simp only [OutF, Out_squeak, Out_same, OutF_go]; done)
    | (refine pred_ite (fun r : St => Out E st r) ?_ ?_ <;> intro _)
    | (refine pred_ite (fun r : Flow => OutF E st r) ?_ ?_ <;> intro _)
    | (refine Out_next E st _ _ ?_ ?_)
    | (refine pred_elim (fun r : St => Out E st r) ?_ ?_ <;> intros)
    | (apply Out_loud <;> simp [apply_ite St.tr, apply_ite squeaked, apply_ite loud, Call.is_squeak, Call.is_display, Call.is_handoff]; done)
    | (simp only [OutF]; apply Out_loud <;> simp [apply_ite St.tr, apply_ite squeaked, apply_ite loud, Call.is_squeak, Call.is_display, Call.is_handoff]; done)

theorem out_command_entry_numeric_digit (E : Engine) (key : Int) (st : St) :
    Out E st (command_entry_numeric_digit E key st) := by
  unfold command_entry_numeric_digit
  repeat' first
    | (simp only [OutF, Out_squeak, Out_same, OutF_go]; done)
    | (refine pred_ite (fun r : St => Out E st r) ?_ ?_ <;> intro _)
    | (refine pred_ite (fun r : Flow => OutF E st r) ?_ ?_ <;> intro _)
    | (refine Out_next E st _ _ ?_ ?_)
    | (refine pred_elim (fun r : St => Out E st r) ?_ ?_ <;> intros)
    | (apply Out_loud <;> simp [apply_ite St.tr, apply_ite squeaked, apply_ite loud, Call.is_squeak, Call.is_display, Call.is_handoff]; done)
    | (simp only [OutF]; apply Out_loud <;> simp [apply_ite St.tr, apply_ite squeaked, apply_ite loud, Call.is_squeak, Call.is_display, Call.is_handoff]; done)

@[simp] theorem sq_command_entry_numeric_bsp (E : Engine) (st : St) :
    squeaked (command_entry_numeric_bsp E st).tr = squeaked st.tr := by
  unfold command_entry_numeric_bsp
  simp [apply_ite St.tr, apply_ite squeaked, apply_ite loud, Call.is_squeak]

@[simp] theorem loud_command_entry_numeric_bsp (E : Engine) (st : St) :
    loud (command_entry_numeric_bsp E st).tr = true := by
  unfold command_entry_numeric_bsp
  simp [apply_ite St.tr, apply_ite squeaked, apply_ite loud, Call.is_display, Call.is_handoff]

theorem out_command_entry_numeric (E : Engine) (shift key : Int) (st : St) :
    Out E st (command_entry_numeric E shift key st) := by
  unfold command_entry_numeric
  repeat' first
    | (simp only [OutF, Out_squeak, Out_same, OutF_go, out_command_entry_numeric_enter, out_command_entry_numeric_dot, out_command_entry_numeric_digit]; done)
    | (refine pred_ite (fun r : St => Out E st r) ?_ ?_ <;> intro _)
    | (refine pred_ite (fun r : Flow => OutF E st r) ?_ ?_ <;> intro _)
    | (refine Out_next E st _ _ ?_ ?_)
    | (refine pred_elim (fun r : St => Out E st r) ?_ ?_ <;> intros)
    | (apply Out_loud <;> simp [apply_ite St.tr, apply_ite squeaked, apply_ite loud, Call.is_squeak, Call.is_display, Call.is_handoff]; done)
    | (simp only [OutF]; apply Out_loud <;> simp [apply_ite St.tr, apply_ite squeaked, apply_ite loud, Call.is_squeak, Call.is_display, Call.is_handoff]; done)

@[simp] theorem sq_command_entry_handle_char (E : Engine) (c : Nat) (m : Option menu_spec) (st : St) :
    squeaked (command_entry_handle_char E c m st).tr = squeaked st.tr := by
  unfold command_entry_handle_char
  cases m <;> simp [if_menu, Call.is_squeak]

@[simp] theorem loud_command_entry_handle_char (E : Engine) (c : Nat) (m : Option menu_spec) (st : St) :
    loud (command_entry_handle_char E c m st).tr = true := by
  unfold command_entry_handle_char
  cases m <;> simp [if_menu, Call.is_display, Call.is_handoff]

@[simp] theorem sq_out_of_alpha (E : Engine) (st : St) :
    squeaked (out_of_alpha E st).tr = squeaked st.tr := by
  unfold out_of_alpha
  simp [apply_ite St.tr, apply_ite squeaked, apply_ite loud, Call.is_squeak]

@[simp] theorem sq_back_to_gtodot (E : Engine) (st : St) :
    squeaked (back_to_gtodot E st).tr = squeaked st.tr := by
  unfold back_to_gtodot
  simp [apply_ite St.tr, apply_ite squeaked, apply_ite loud, Call.is_squeak]

@[simp] theorem loud_back_to_gtodot (E : Engine) (st : St) :
    loud (back_to_gtodot E st).tr = true := by
  unfold back_to_gtodot
  simp [apply_ite St.tr, apply_ite squeaked, apply_ite loud, Call.is_display, Call.is_handoff]

@[simp] theorem sq_catalog_if_exist (E : Engine) (kind sect : Int) (clear : Bool) (st : St) :
    squeaked (catalog_if_exist E kind sect clear st).tr = squeaked st.tr := by
  unfold catalog_if_exist
  simp [apply_ite St.tr, apply_ite squeaked, apply_ite loud, Call.is_squeak]

@[simp] theorem sq_alpha_bsp_empty_in_alpha_menu (E : Engine) (st : St) :
    squeaked (alpha_bsp_empty_in_alpha_menu E st).tr = squeaked st.tr := by
  unfold alpha_bsp_empty_in_alpha_menu
  simp [apply_ite St.tr, apply_ite squeaked, apply_ite loud, Call.is_squeak]

@[simp] theorem loud_alpha_bsp_empty_in_alpha_menu (E : Engine) (st : St) :
    loud (alpha_bsp_empty_in_alpha_menu E st).tr = true := by
  unfold alpha_bsp_empty_in_alpha_menu
  simp [apply_ite St.tr, apply_ite squeaked, apply_ite loud, Call.is_display, Call.is_handoff]

@[simp] theorem sq_alpha_bsp_empty (E : Engine) (st : St) :
    squeaked (alpha_bsp_empty E st).tr = squeaked st.tr := by
  unfold alpha_bsp_empty
  simp [apply_ite St.tr, apply_ite squeaked, apply_ite loud, Call.is_squeak]

@[simp] theorem loud_alpha_bsp_empty (E : Engine) (st : St) :
    loud (alpha_bsp_empty E st).tr = true := by
  unfold alpha_bsp_empty
  simp [apply_ite St.tr, apply_ite squeaked, apply_ite loud, Call.is_display, Call.is_handoff]

@[simp] theorem sq_alpha_bsp_last (E : Engine) (st : St) :
    squeaked (alpha_bsp_last E st).tr = squeaked st.tr := by
  unfold alpha_bsp_last
  simp [apply_ite St.tr, apply_ite squeaked, apply_ite loud, Call.is_squeak]

@[simp] theorem loud_alpha_bsp_last (E : Engine) (st : St) :
    loud (alpha_bsp_last E st).tr = true := by
  unfold alpha_bsp_last
  simp [apply_ite St.tr, apply_ite squeaked, apply_ite loud, Call.is_display, Call.is_handoff]

@[simp] theorem sq_command_entry_alpha_bsp (E : Engine) (st : St) :
    squeaked (command_entry_alpha_bsp E st).tr = squeaked st.tr := by
  unfold command_entry_alpha_bsp
  simp [apply_ite St.tr, apply_ite squeaked, apply_ite loud, Call.is_squeak]

@[simp] theorem loud_command_entry_alpha_bsp (E : Engine) (st : St) :
    loud (command_entry_alpha_bsp E st).tr = true := by
  unfold command_entry_alpha_bsp
  simp [apply_ite St.tr, apply_ite squeaked, apply_ite loud, Call.is_display, Call.is_handoff]

@[simp] theorem sq_command_entry_alpha_complete (E : Engine) (st : St) :
    squeaked (command_entry_alpha_complete E st).tr = squeaked st.tr := by
  unfold command_entry_alpha_complete
  simp [apply_ite St.tr, apply_ite squeaked, apply_ite loud, Call.is_squeak]

@[simp] theorem loud_command_entry_alpha_complete (E : Engine) (st : St) :
    loud (command_entry_alpha_complete E st).tr = true := by
  unfold command_entry_alpha_complete
  simp [apply_ite St.tr, apply_ite squeaked, apply_ite loud, Call.is_display, Call.is_handoff]

theorem out_command_entry_alpha_enter (E : Engine) (st : St) :
    Out E st (command_entry_alpha_enter E st) := by
  unfold command_entry_alpha_enter
  repeat' first
    | (simp only [OutF, Out_squeak, Out_same, OutF_go]; done)
    | (refine pred_ite (fun r : St => Out E st r) ?_ ?_ <;> intro _)
    | (refine pred_ite (fun r : Flow => OutF E st r) ?_ ?_ <;> intro _)
    | (refine Out_next E st _ _ ?_ ?_)
    | (refine pred_elim (fun r : St => Out E st r) ?_ ?_ <;> intros)
    | (apply Out_loud <;> simp [apply_ite St.tr, apply_ite squeaked, apply_ite loud, Call.is_squeak, Call.is_display, Call.is_handoff]; done)
    | (simp only [OutF]; apply Out_loud <;> simp [apply_ite St.tr, apply_ite squeaked, apply_ite loud, Call.is_squeak, Call.is_display, Call.is_handoff]; done)

theorem out_command_entry_alpha_dot (E : Engine) (shift key : Int) (st : St) :
    OutF E st (command_entry_alpha_dot E shift key st) := by
  unfold command_entry_alpha_dot
  repeat' first
    | (simp only [OutF, Out_squeak, Out_same, OutF_go]; done)
    | (refine pred_ite (fun r : St => Out E st r) ?_ ?_ <;> intro _)
    | (refine pred_ite (fun r : Flow => OutF E st r) ?_ ?_ <;> intro _)
    | (refine Out_next E st _ _ ?_ ?_)
    | (refine pred_elim (fun r : St => Out E st r) ?_ ?_ <;> intros)
    | (apply Out_loud <;> simp [apply_ite St.tr, apply_ite squeaked, apply_ite loud, Call.is_squeak, Call.is_display, Call.is_handoff]; done)
    | (simp only [OutF]; apply Out_loud <;> simp [apply_ite St.tr, apply_ite squeaked, apply_ite loud, Call.is_squeak, Call.is_display, Call.is_handoff]; done)

theorem out_command_entry_alpha_nochar (E : Engine) (shift key : Int) (st : St) :
    Out E st (command_entry_alpha_nochar E shift key st) := by
  unfold command_entry_alpha_nochar
  repeat' first
    | (simp only [OutF, Out_squeak, Out_same, OutF_go, out_command_entry_alpha_enter]; done)
    | (refine pred_ite (fun r : St => Out E st r) ?_ ?_ <;> intro _)
    | (refine pred_ite (fun r : Flow => OutF E st r) ?_ ?_ <;> intro _)
    | (refine Out_next E st _ _ ?_ ?_)
    | (refine pred_elim (fun r : St => Out E st r) ?_ ?_ <;> intros)
    | (apply Out_loud <;> simp [apply_ite St.tr, apply_ite squeaked, apply_ite loud, Call.is_squeak, Call.is_display, Call.is_handoff]; done)
    | (simp only [OutF]; apply Out_loud <;> simp [apply_ite St.tr, apply_ite squeaked, apply_ite loud, Call.is_squeak, Call.is_display, Call.is_handoff]; done)

theorem out_command_entry_alpha (E : Engine) (shift key : Int) (st : St) :
    Out E st (command_entry_alpha E shift key st) := by
  unfold command_entry_alpha
  repeat' first
    | (simp only [OutF, Out_squeak, Out_same, OutF_go, out_command_entry_alpha_dot, out_command_entry_alpha_nochar]; done)
    | (refine pred_ite (fun r : St => Out E st r) ?_ ?_ <;> intro _)
    | (refine pred_ite (fun r : Flow => OutF E st r) ?_ ?_ <;> intro _)
    | (refine Out_next E st _ _ ?_ ?_)
    | (refine pred_elim (fun r : St => Out E st r) ?_ ?_ <;> intros)
    | (apply Out_loud <;> simp [apply_ite St.tr, apply_ite squeaked, apply_ite loud, Call.is_squeak, Call.is_display, Call.is_handoff]; done)
    | (simp only [OutF]; apply Out_loud <;> simp [apply_ite St.tr, apply_ite squeaked, apply_ite loud, Call.is_squeak, Call.is_display, Call.is_handoff]; done)

theorem out_command_entry_rest (E : Engine) (shift key : Int) (st : St) :
    Out E st (command_entry_rest E shift key st) := by
  unfold command_entry_rest
  repeat' first
    | (simp only [OutF, Out_squeak, Out_same, OutF_go, out_command_entry_ckey, out_command_entry_mkey, out_command_entry_catalog, out_command_entry_varmenu, out_command_entry_integ_params, out_command_entry_numeric, out_command_entry_alpha]; done)
    | (refine pred_ite (fun r : St => Out E st r) ?_ ?_ <;> intro _)
    | (refine pred_ite (fun r : Flow => OutF E st r) ?_ ?_ <;> intro _)
    | (refine Out_next E st _ _ ?_ ?_)
    | (refine pred_elim (fun r : St => Out E st r) ?_ ?_ <;> intros)
    | (apply Out_loud <;> simp [apply_ite St.tr, apply_ite squeaked, apply_ite loud, Call.is_squeak, Call.is_display, Call.is_handoff]; done)
    | (simp only [OutF]; apply Out_loud <;> simp [apply_ite St.tr, apply_ite squeaked, apply_ite loud, Call.is_squeak, Call.is_display, Call.is_handoff]; done)

theorem out_keydown_command_entry (E : Engine) (shift key : Int) (st : St) :
    Out E (st.mark .enter_command_entry) (keydown_command_entry E shift key st) := by
  unfold keydown_command_entry
  repeat' first
    | (simp only [OutF, Out_squeak, Out_same, OutF_go, out_command_entry_st, out_command_entry_alpha, out_command_entry_rest]; done)
    | (refine pred_ite (fun r : St => Out E (st.mark .enter_command_entry) r) ?_ ?_ <;> intro _)
    | (refine pred_ite (fun r : Flow => OutF E (st.mark .enter_command_entry) r) ?_ ?_ <;> intro _)
    | (refine Out_next E (st.mark .enter_command_entry) _ _ ?_ ?_)
    | (refine pred_elim (fun r : St => Out E (st.mark .enter_command_entry) r) ?_ ?_ <;> intros)
    | (apply Out_loud <;> simp [apply_ite St.tr, apply_ite squeaked, apply_ite loud, Call.is_squeak, Call.is_display, Call.is_handoff]; done)
    | (simp only [OutF]; apply Out_loud <;> simp [apply_ite St.tr, apply_ite squeaked, apply_ite loud, Call.is_squeak, Call.is_display, Call.is_handoff]; done)

/-! ## C5: a rejected key in command entry -/

/-- C5: when `keydown_command_entry` emits the audible error, `incomplete_command`,
`incomplete_argtype`, `incomplete_ind`, `incomplete_alpha`, `incomplete_num`,
`incomplete_length`, `incomplete_maxdigits`, `incomplete_str`, `mode_commandmenu`,
the catalog section and `pending_command` have the values they had on entry; in
fact the handler then made the call `squeak()` and nothing else, so that all
globals are as on entry (`squeak()` itself being assumed to leave them alone). -/
theorem C5_rejected_key_is_atomic_in_command_entry (E : Engine) (shift key : Int) (s : State)
    (hsq : ∀ s, E.run .squeak s = s)
    (h : squeaked (keydown_command_entry E shift key (start s)).tr = true) :
    (keydown_command_entry E shift key (start s)).s.incomplete_command = s.incomplete_command
      ∧ (keydown_command_entry E shift key (start s)).s.incomplete_argtype = s.incomplete_argtype
      ∧ (keydown_command_entry E shift key (start s)).s.incomplete_ind = s.incomplete_ind
      ∧ (keydown_command_entry E shift key (start s)).s.incomplete_alpha = s.incomplete_alpha
      ∧ (keydown_command_entry E shift key (start s)).s.incomplete_num = s.incomplete_num
      ∧ (keydown_command_entry E shift key (start s)).s.incomplete_length = s.incomplete_length
      ∧ (keydown_command_entry E shift key (start s)).s.incomplete_maxdigits
          = s.incomplete_maxdigits
      ∧ (keydown_command_entry E shift key (start s)).s.incomplete_str = s.incomplete_str
      ∧ (keydown_command_entry E shift key (start s)).s.mode_commandmenu = s.mode_commandmenu
      ∧ E.ask .get_cat_section (keydown_command_entry E shift key (start s)).s
          = E.ask .get_cat_section s
      ∧ (keydown_command_entry E shift key (start s)).s.pending_command = s.pending_command
      ∧ (keydown_command_entry E shift key (start s)).s = s := by
  have hs : (keydown_command_entry E shift key (start s)).s = s := by
    rcases out_keydown_command_entry E shift key (start s) with h1 | h1 | ⟨h1, _⟩
    · rw [h1]; exact hsq s
    · rw [h1]; rfl
    · rw [h1] at h; simp [start, Call.is_squeak] at h
  rw [hs]
  exact ⟨rfl, rfl, rfl, rfl, rfl, rfl, rfl, rfl, rfl, rfl, rfl, rfl⟩

/-- Witness of C5: the key 7 while the stack-register menu asks for an argument. -/
theorem C5_rejected_key_is_atomic_in_command_entry_witness :
    (keydown_command_entry refEngine 0 KEY_7 (start st_menu_state)).s.incomplete_command
        = st_menu_state.incomplete_command
      ∧ (keydown_command_entry refEngine 0 KEY_7 (start st_menu_state)).s.incomplete_argtype
        = st_menu_state.incomplete_argtype
      ∧ (keydown_command_entry refEngine 0 KEY_7 (start st_menu_state)).s.incomplete_ind
        = st_menu_state.incomplete_ind
      ∧ (keydown_command_entry refEngine 0 KEY_7 (start st_menu_state)).s.incomplete_alpha
        = st_menu_state.incomplete_alpha
      ∧ (keydown_command_entry refEngine 0 KEY_7 (start st_menu_state)).s.incomplete_num
        = st_menu_state.incomplete_num
      ∧ (keydown_command_entry refEngine 0 KEY_7 (start st_menu_state)).s.incomplete_length
        = st_menu_state.incomplete_length
      ∧ (keydown_command_entry refEngine 0 KEY_7 (start st_menu_state)).s.incomplete_maxdigits
        = st_menu_state.incomplete_maxdigits
      ∧ (keydown_command_entry refEngine 0 KEY_7 (start st_menu_state)).s.incomplete_str
        = st_menu_state.incomplete_str
      ∧ (keydown_command_entry refEngine 0 KEY_7 (start st_menu_state)).s.mode_commandmenu
        = st_menu_state.mode_commandmenu
      ∧ refEngine.ask .get_cat_section
          (keydown_command_entry refEngine 0 KEY_7 (start st_menu_state)).s
        = refEngine.ask .get_cat_section st_menu_state
      ∧ (keydown_command_entry refEngine 0 KEY_7 (start st_menu_state)).s.pending_command
        = st_menu_state.pending_command
      ∧ (keydown_command_entry refEngine 0 KEY_7 (start st_menu_state)).s = st_menu_state :=
  C5_rejected_key_is_atomic_in_command_entry refEngine 0 KEY_7 st_menu_state
    (fun _ => rfl) (by decide)


/-! ## The outcomes of the handlers -/

theorem atake_aset_at_length (a : List Nat) (n : Int) (v : Nat) :
    atake (aset a n v) n = atake a n := by
  by_cases hn : 0 ≤ n
  · exact atake_aset_same a n v hn
  · have : n < 0 := by omega
    simp [aset, this]

@[simp] theorem is_squeak_squeak : Call.is_squeak .squeak = true := rfl
@[simp] theorem appended_append (l l' : List Call) :
    appended (l ++ l') = (appended l || appended l') := by
  simp [appended]
@[simp] theorem appended_cons (c : Call) (l : List Call) :
    appended (c :: l) = (c.is_append || appended l) := by
  simp [appended]
@[simp] theorem appended_nil : appended [] = false := rfl
@[simp] theorem s_upd (f : State → State) (x : St) : (x.upd f).s = f x.s := rfl
@[simp] theorem s_call (E : Engine) (c : Call) (x : St) : (x.call E c).s = E.run c x.s := rfl
@[simp] theorem s_mark (c : Call) (x : St) : (x.mark c).s = x.s := rfl
@[simp] theorem s_set_pending (c : Int) (x : St) :
    (set_pending c x).s = { x.s with pending_command := c } := rfl
@[simp] theorem s_upd_arg (f : arg_struct → arg_struct) (x : St) :
    (upd_arg f x).s = { x.s with pending_command_arg := f x.s.pending_command_arg } := rfl
@[simp] theorem s_set_repeating (key shift : Int) (st : St) :
    (set_repeating key shift st).s
      = { st.s with repeating := if st.s.auto_repeat then 2 else st.s.repeating,
                    repeating_key := if st.s.auto_repeat then key else st.s.repeating_key,
                    repeating_shift := if st.s.auto_repeat then shift else st.s.repeating_shift } := by
  unfold set_repeating
  by_cases h : st.s.auto_repeat = true
  · rw [if_pos h, if_pos h, if_pos h, if_pos h]; rfl
  · rw [if_neg h, if_neg h, if_neg h, if_neg h]
@[simp] theorem ite_tr (c : Prop) [Decidable c] (a b : St) :
    (if c then a else b).tr = if c then a.tr else b.tr := apply_ite St.tr c a b
@[simp] theorem ite_s (c : Prop) [Decidable c] (a b : St) :
    (if c then a else b).s = if c then a.s else b.s := apply_ite St.s c a b
@[simp] theorem ite_squeaked (c : Prop) [Decidable c] (a b : List Call) :
    squeaked (if c then a else b) = if c then squeaked a else squeaked b :=
  apply_ite squeaked c a b
@[simp] theorem ite_loud (c : Prop) [Decidable c] (a b : List Call) :
    loud (if c then a else b) = if c then loud a else loud b := apply_ite loud c a b
@[simp] theorem ite_appended (c : Prop) [Decidable c] (a b : List Call) :
    appended (if c then a else b) = if c then appended a else appended b :=
  apply_ite appended c a b

@[simp] theorem ite_pending (c : Prop) [Decidable c] (a b : State) :
    (if c then a else b).pending_command = if c then a.pending_command else b.pending_command :=
  apply_ite State.pending_command c a b
@[simp] theorem tr_repeat_shifted (key : Int) (st : St) : (repeat_shifted key st).tr = st.tr := rfl
@[simp] theorem s_repeat_shifted (key : Int) (st : St) :
    (repeat_shifted key st).s
      = { st.s with repeating := 1, repeating_shift := 1, repeating_key := key } := rfl

@[simp] theorem Ignored_refl (s : State) : Ignored s s := rfl
theorem Ignored_trans {a b c : State} (h1 : Ignored a b) (h2 : Ignored b c) : Ignored a c :=
  Eq.trans h2 h1
theorem Touched_of_Ignored {a b : State} (h : Ignored a b) : Touched a b := by
  unfold Touched kept_loosely
  rw [show kept b = kept a from h]
theorem Touched_trans {a b c : State} (h1 : Touched a b) (h2 : Touched b c) : Touched a c :=
  Eq.trans h2 h1
@[simp] theorem kept_loosely_toggle_exp_sign (p : Int) (s : State) :
    kept_loosely (toggle_exp_sign p s) = kept_loosely s := by
  unfold toggle_exp_sign; split <;> rfl
@[simp] theorem drop_command_ne (s : State) (pne : Int) : drop_command s pne ≠ CMD_NONE := by
  unfold drop_command; split_ifs <;> decide

@[simp] theorem Outcome_squeak (E : Engine) (st : St) : Outcome E st (st.call E .squeak) :=
  Or.inl rfl
@[simp] theorem Outcome_rtns_squeak (E : Engine) (st : St) :
    Outcome E st ((st.call E .clear_all_rtns).call E .squeak) := Or.inr (Or.inl rfl)
@[simp] theorem Outcome_loud (E : Engine) (st r : St) (h1 : squeaked r.tr = squeaked st.tr)
    (h2 : loud r.tr = true) : Outcome E st r := Or.inr (Or.inr (Or.inl ⟨h1, Or.inr (Or.inl h2)⟩))
@[simp] theorem Outcome_pending (E : Engine) (st r : St) (h1 : squeaked r.tr = squeaked st.tr)
    (h2 : r.s.pending_command ≠ CMD_NONE) : Outcome E st r :=
  Or.inr (Or.inr (Or.inl ⟨h1, Or.inr (Or.inr (Or.inl h2))⟩))
@[simp] theorem Outcome_ignored (E : Engine) (st r : St) (h1 : squeaked r.tr = squeaked st.tr)
    (h2 : Ignored st.s r.s) : Outcome E st r := Or.inr (Or.inr (Or.inl ⟨h1, Or.inl h2⟩))
@[simp] theorem Outcome_touched (E : Engine) (st r : St) (h1 : squeaked r.tr = squeaked st.tr)
    (h2 : Touched st.s r.s) : Outcome E st r :=
  Or.inr (Or.inr (Or.inl ⟨h1, Or.inr (Or.inr (Or.inr (Or.inl h2)))⟩))
@[simp] theorem Outcome_refused (E : Engine) (st r : St) (h1 : squeaked r.tr = squeaked st.tr)
    (h2 : refused_base_menu r) : Outcome E st r :=
  Or.inr (Or.inr (Or.inl ⟨h1, Or.inr (Or.inr (Or.inr (Or.inr (Or.inl h2))))⟩))
@[simp] theorem Outcome_began (E : Engine) (st r : St) (h1 : squeaked r.tr = squeaked st.tr)
    (h2 : began_number_entry r.tr = true) : Outcome E st r :=
  Or.inr (Or.inr (Or.inl ⟨h1, Or.inr (Or.inr (Or.inr (Or.inr (Or.inr h2))))⟩))
@[simp] theorem Outcome_appended (E : Engine) (st r : St) (h1 : appended r.tr = true)
    (h2 : loud r.tr = true) : Outcome E st r := Or.inr (Or.inr (Or.inr ⟨h1, h2⟩))
@[simp] theorem Outcome_same (E : Engine) (st : St) : Outcome E st st :=
  Outcome_ignored E st st rfl rfl
@[simp] theorem OutcomeF_ret_iff (E : Engine) (st r : St) :
    OutcomeF E st (.ret r) = Outcome E st r := rfl
@[simp] theorem OutcomeF_go_iff (E : Engine) (st r : St) :
    OutcomeF E st (.go r) = (squeaked r.tr = squeaked st.tr) := rfl
@[simp] theorem OutcomeP_ret_iff (E : Engine) (st r : St) :
    OutcomeP E st (.ret r) = Outcome E st r := rfl
@[simp] theorem OutcomeP_cmd_iff (E : Engine) (st r : St) (c : Int) :
    OutcomeP E st (.cmd r c) = (r = st ∨ (c ≠ CMD_NONE ∧ squeaked r.tr = squeaked st.tr)) := rfl
@[simp] theorem OutcomeP_same (E : Engine) (st : St) (c : Int) : OutcomeP E st (.cmd st c) :=
  Or.inl rfl

theorem Outcome_next_loud (E : Engine) (st : St) (flow : Flow) (k : St → St)
    (h1 : OutcomeF E st flow)
    (h2 : ∀ x, squeaked (k x).tr = squeaked x.tr ∧ loud (k x).tr = true) :
    Outcome E st (flow.next k) := by
  cases flow with
  | ret r => exact h1
  | go r => exact Outcome_loud E st _ ((h2 r).1.trans h1) (h2 r).2

theorem Outcome_next (E : Engine) (st : St) (flow : Flow) (k : St → St)
    (h1 : OutcomeF E st flow) (h2 : ∀ x, squeaked x.tr = squeaked st.tr → Outcome E st (k x)) :
    Outcome E st (flow.next k) := by
  cases flow with
  | ret r => exact h1
  | go r => exact h2 r h1

theorem OutcomeF_bind (E : Engine) (st : St) (flow : Flow) (k : St → Flow)
    (h1 : OutcomeF E st flow) (h2 : ∀ x, squeaked x.tr = squeaked st.tr → OutcomeF E st (k x)) :
    OutcomeF E st (flow.bind k) := by
  cases flow with
  | ret r => exact h1
  | go r => exact h2 r h1

theorem Outcome_pick (E : Engine) (st : St) (pick : Pick) (k : St → Int → St)
    (h1 : OutcomeP E st pick) (h2 : ∀ c, Outcome E st (k st c))
    (h3 : ∀ x c, c ≠ CMD_NONE → squeaked x.tr = squeaked st.tr → Outcome E st (k x c)) :
    Outcome E st (pick.next k) := by
  cases pick with
  | ret r => exact h1
  | cmd r c =>
    rcases h1 with h | ⟨h, h'⟩
    · subst h; exact h2 c
    · exact h3 r c h h'

@[simp] theorem OutcomeS_ret_iff (E : Engine) (st r : St) :
    OutcomeS E st (.ret r) = Outcome E st r := rfl
@[simp] theorem OutcomeS_go_iff (E : Engine) (st r : St) :
    OutcomeS E st (.go r) = (r = st) := rfl
@[simp] theorem OutcomeG_ret_iff (E : Engine) (st r : St) :
    OutcomeG E st (.ret r) = Outcome E st r := rfl
@[simp] theorem OutcomeG_go_iff (E : Engine) (st r : St) :
    OutcomeG E st (.go r)
      = (squeaked r.tr = squeaked st.tr ∧ r.s.pending_command ≠ CMD_NONE) := rfl

theorem Outcome_nextS (E : Engine) (st : St) (flow : Flow) (k : St → St)
    (h1 : OutcomeS E st flow) (h2 : Outcome E st (k st)) : Outcome E st (flow.next k) := by
  cases flow with
  | ret r => exact h1
  | go r => rw [show r = st from h1]; exact h2

theorem OutcomeS_bind (E : Engine) (st : St) (flow : Flow) (k : St → Flow)
    (h1 : OutcomeS E st flow) (h2 : OutcomeS E st (k st)) : OutcomeS E st (flow.bind k) := by
  cases flow with
  | ret r => exact h1
  | go r => rw [show r = st from h1]; exact h2

/-! ### `keydown_number_entry` -/

@[simp] theorem sq_draw_number (E : Engine) (st : St) :
    squeaked (draw_number E st).tr = squeaked st.tr := by
  unfold draw_number
  simp [apply_ite St.tr, apply_ite squeaked]

@[simp] theorem loud_draw_number (E : Engine) (st : St) :
    loud (draw_number E st).tr = true := by
  unfold draw_number
  simp [apply_ite St.tr, apply_ite loud]

@[simp] theorem tr_store_entered_value (E : Engine) (base : Int) (st : St) :
    (store_entered_value E base st).tr = st.tr := by
  unfold store_entered_value
  simp [apply_ite St.tr]

@[simp] theorem sq_number_entry_bsp (E : Engine) (shift key base : Int) (st : St) :
    squeaked (number_entry_bsp E shift key base st).tr = squeaked st.tr := by
  unfold number_entry_bsp
  simp [apply_ite St.tr, apply_ite squeaked]

theorem outcome_number_entry_chs (E : Engine) (st : St) :
    OutcomeF E st (number_entry_chs E st) := by
  unfold number_entry_chs
  repeat' first
    | (simp only [OutcomeF_ret_iff, OutcomeF_go_iff, OutcomeS_ret_iff, OutcomeS_go_iff,
        OutcomeG_ret_iff, OutcomeP_ret_iff, OutcomeP_same, Outcome_squeak, Outcome_same]; done)
    | (refine pred_ite (fun r : Flow => OutcomeF E st r) ?_ ?_ <;> intro _)
  all_goals first
    | contradiction
    | (simp [*, pc_to_previous_line, Touched]; done)
    | (simp_all [pc_to_previous_line, Touched]; done)
    | (simp [*, ite_eq_iff, pc_to_previous_line, Touched]; done)
    | (simp_all [ite_eq_iff, pc_to_previous_line, Touched]; done)

theorem outcome_number_entry_e (E : Engine) (st : St) :
    OutcomeF E st (number_entry_e st) := by
  unfold number_entry_e
  repeat' first
    | (simp only [OutcomeF_ret_iff, OutcomeF_go_iff, OutcomeS_ret_iff, OutcomeS_go_iff,
        OutcomeG_ret_iff, OutcomeP_ret_iff, OutcomeP_same, Outcome_squeak, Outcome_same]; done)
    | (refine pred_ite (fun r : Flow => OutcomeF E st r) ?_ ?_ <;> intro _)
  all_goals first
    | contradiction
    | (simp [*]; done)
    | (simp_all []; done)
    | (simp [*, ite_eq_iff]; done)
    | (simp_all [ite_eq_iff]; done)

theorem outcome_number_entry_dot (E : Engine) (st : St) :
    OutcomeF E st (number_entry_dot st) := by
  unfold number_entry_dot
  repeat' first
    | (simp only [OutcomeF_ret_iff, OutcomeF_go_iff, OutcomeS_ret_iff, OutcomeS_go_iff,
        OutcomeG_ret_iff, OutcomeP_ret_iff, OutcomeP_same, Outcome_squeak, Outcome_same]; done)
    | (refine pred_ite (fun r : Flow => OutcomeF E st r) ?_ ?_ <;> intro _)
  all_goals first
    | contradiction
    | (simp [*]; done)
    | (simp_all []; done)
    | (simp [*, ite_eq_iff]; done)
    | (simp_all [ite_eq_iff]; done)

theorem outcome_number_entry_digit (E : Engine) (shift key base : Int) (st : St) :
    OutcomeF E st (number_entry_digit E shift key base st) := by
  unfold number_entry_digit
  repeat' first
    | (simp only [OutcomeF_ret_iff, OutcomeF_go_iff, OutcomeS_ret_iff, OutcomeS_go_iff,
        OutcomeG_ret_iff, OutcomeP_ret_iff, OutcomeP_same, Outcome_squeak, Outcome_same]; done)
    | (refine pred_ite (fun r : Flow => OutcomeF E st r) ?_ ?_ <;> intro _)
    | (refine pred_elim (fun r : Flow => OutcomeF E st r) ?_ ?_ <;> intros)
  all_goals first
    | contradiction
    | (simp [*, cmdline_append, Ignored, kept, atake_aset_at_length]; done)
    | (simp_all [cmdline_append, Ignored, kept, atake_aset_at_length]; done)
    | (simp [*, ite_eq_iff, cmdline_append, Ignored, kept, atake_aset_at_length]; done)
    | (simp_all [ite_eq_iff, cmdline_append, Ignored, kept, atake_aset_at_length]; done)

theorem outcome_keydown_number_entry (E : Engine) (shift key : Int) (st : St) :
    Outcome E (st.mark .enter_number_entry) (keydown_number_entry E shift key st) := by
  unfold keydown_number_entry
  repeat' first
    | (simp only [OutcomeF_ret_iff, OutcomeF_go_iff, OutcomeS_ret_iff, OutcomeS_go_iff,
        OutcomeG_ret_iff, OutcomeP_ret_iff, OutcomeP_same, Outcome_squeak, Outcome_same,
        outcome_number_entry_chs, outcome_number_entry_e, outcome_number_entry_dot,
        outcome_number_entry_digit]; done)
    | (refine pred_ite (fun r : St => Outcome E (st.mark .enter_number_entry) r) ?_ ?_ <;> intro _)
    | (refine pred_ite (fun r : Flow => OutcomeF E (st.mark .enter_number_entry) r) ?_ ?_ <;> intro _)
    | (refine Outcome_next_loud E (st.mark .enter_number_entry) _ _ ?_ ?_)
    | intro _
  all_goals first
    | contradiction
    | (simp [*, pc_to_previous_line]; done)
    | (simp_all [pc_to_previous_line]; done)
    | (simp [*, ite_eq_iff, pc_to_previous_line]; done)
    | (simp_all [ite_eq_iff, pc_to_previous_line]; done)

/-! ### The trace of `keydown_number_entry` -/

@[simp] theorem Flow_st_ret (r : St) : (Flow.ret r).st = r := rfl
@[simp] theorem Flow_st_go (r : St) : (Flow.go r).st = r := rfl
@[simp] theorem ite_Flow_st (c : Prop) [Decidable c] (a b : Flow) :
    (if c then a else b).st = if c then a.st else b.st := apply_ite Flow.st c a b
@[simp] theorem ite_any (p : Call → Bool) (c : Prop) [Decidable c] (a b : List Call) :
    (if c then a else b).any p = if c then a.any p else b.any p :=
  apply_ite (fun l => List.any l p) c a b

theorem sq_next (flow : Flow) (k : St → St) (q : Bool) (h1 : squeaked flow.st.tr = q)
    (h2 : ∀ x, squeaked (k x).tr = squeaked x.tr) : squeaked (flow.next k).tr = q := by
  cases flow with
  | ret r => exact h1
  | go r => exact (h2 r).trans h1

theorem any_next (p : Call → Bool) (flow : Flow) (k : St → St) (h1 : flow.st.tr.any p = true)
    (h2 : ∀ x, x.tr.any p = true → (k x).tr.any p = true) : (flow.next k).tr.any p = true := by
  cases flow with
  | ret r => exact h1
  | go r => exact h2 r h1

@[simp] theorem sq_number_entry_chs (E : Engine) (st : St) :
    squeaked (number_entry_chs E st).st.tr = squeaked st.tr := by
  unfold number_entry_chs
  simp [pc_to_previous_line]

@[simp] theorem sq_number_entry_e (st : St) :
    squeaked (number_entry_e st).st.tr = squeaked st.tr := by
  unfold number_entry_e
  simp

@[simp] theorem sq_number_entry_dot (st : St) :
    squeaked (number_entry_dot st).st.tr = squeaked st.tr := by
  unfold number_entry_dot
  simp

@[simp] theorem sq_number_entry_digit (E : Engine) (shift key base : Int) (st : St) :
    squeaked (number_entry_digit E shift key base st).st.tr = squeaked st.tr := by
  unfold number_entry_digit
  cases digit_of_key key <;> simp

@[simp] theorem sq_keydown_number_entry (E : Engine) (shift key : Int) (st : St) :
    squeaked (keydown_number_entry E shift key st).tr = squeaked st.tr := by
  unfold keydown_number_entry
  refine pred_ite (fun r : St => squeaked r.tr = squeaked st.tr) ?_ ?_ <;> intro _
  · simp
  refine pred_ite (fun r : St => squeaked r.tr = squeaked st.tr) ?_ ?_ <;> intro _
  · simp
  refine pred_ite (fun r : St => squeaked r.tr = squeaked st.tr) ?_ ?_ <;> intro _
  · simp [pc_to_previous_line]
  refine sq_next _ _ _ ?_ ?_
  · simp
  · intro x; simp

theorem any_draw_number (p : Call → Bool) (E : Engine) (st : St) (h : st.tr.any p = true) :
    (draw_number E st).tr.any p = true := by
  unfold draw_number
  simp [h]

theorem any_number_entry_bsp (p : Call → Bool) (E : Engine) (shift key base : Int) (st : St)
    (h : st.tr.any p = true) : (number_entry_bsp E shift key base st).tr.any p = true := by
  unfold number_entry_bsp
  simp [h]

theorem any_number_entry_chs (p : Call → Bool) (E : Engine) (st : St)
    (h : st.tr.any p = true) : (number_entry_chs E st).st.tr.any p = true := by
  unfold number_entry_chs
  simp [h, pc_to_previous_line]

theorem any_number_entry_e (p : Call → Bool) (st : St)
    (h : st.tr.any p = true) : (number_entry_e st).st.tr.any p = true := by
  unfold number_entry_e
  simp [h]

theorem any_number_entry_dot (p : Call → Bool) (st : St)
    (h : st.tr.any p = true) : (number_entry_dot st).st.tr.any p = true := by
  unfold number_entry_dot
  simp [h]

theorem any_number_entry_digit (p : Call → Bool) (E : Engine) (shift key base : Int) (st : St)
    (h : st.tr.any p = true) : (number_entry_digit E shift key base st).st.tr.any p = true := by
  unfold number_entry_digit
  cases digit_of_key key <;> simp [h]

/-- The calls and marks made before `keydown_number_entry` stay in the trace, and
so does the mark of its entry. -/
theorem any_keydown_number_entry (p : Call → Bool) (E : Engine) (shift key : Int) (st : St)
    (h : st.tr.any p = true ∨ p .enter_number_entry = true) :
    (keydown_number_entry E shift key st).tr.any p = true := by
  have h' : (st.mark .enter_number_entry).tr.any p = true := by
    rcases h with h | h <;> simp [h]
  unfold keydown_number_entry
  refine pred_ite (fun r : St => r.tr.any p = true) ?_ ?_ <;> intro _
  · exact any_draw_number p E _ (by simp only [tr_call, List.any_append, h', Bool.true_or])
  refine pred_ite (fun r : St => r.tr.any p = true) ?_ ?_ <;> intro _
  · exact h'
  refine pred_ite (fun r : St => r.tr.any p = true) ?_ ?_ <;> intro _
  · simp only [ite_tr, ite_any, tr_call, tr_upd, tr_pc_to_previous_line, List.any_append, h',
      Bool.true_or, ite_self]
  refine any_next p _ _ ?_ ?_
  · simp only [ite_Flow_st, ite_tr, ite_any, Flow_st_go, any_number_entry_chs p E _ h',
      any_number_entry_e p _ h', any_number_entry_dot p _ h',
      any_number_entry_digit p E _ _ _ _ h', any_number_entry_bsp p E _ _ _ _ h', ite_self]
  · intro x hx
    exact any_draw_number p E _ (by simpa using hx)

/-! ### `keydown_alpha_mode` -/

@[simp] theorem sq_set_solve_integ (E : Engine) (solve : Bool) (st : St) :
    squeaked (set_solve_integ E solve st).tr = squeaked st.tr := by
  unfold set_solve_integ
  simp [apply_ite St.tr, apply_ite squeaked]

@[simp] theorem loud_set_solve_integ (E : Engine) (solve : Bool) (st : St) :
    loud (set_solve_integ E solve st).tr = true := by
  unfold set_solve_integ
  simp [apply_ite St.tr, apply_ite loud]

@[simp] theorem sq_view (E : Engine) (varname : List Nat) (varlength : Int) (st : St) :
    squeaked (view E varname varlength st).tr = squeaked st.tr := by
  unfold view
  simp [apply_ite St.tr, apply_ite squeaked]

@[simp] theorem loud_view (E : Engine) (varname : List Nat) (varlength : Int) (st : St) :
    loud (view E varname varlength st).tr = true := by
  unfold view
  simp [apply_ite St.tr, apply_ite loud]

@[simp] theorem sq_delete_current_line (E : Engine) (line : Int) (st : St) :
    squeaked (delete_current_line E line st).tr = squeaked st.tr := by
  unfold delete_current_line
  simp [apply_ite St.tr, apply_ite squeaked]

@[simp] theorem sq_end_alpha_entry (E : Engine) (st : St) :
    squeaked (end_alpha_entry E st).tr = squeaked st.tr := by
  unfold end_alpha_entry
  simp [apply_ite St.tr, apply_ite squeaked]

@[simp] theorem sq_open_base_menu (E : Engine) (redraw : Bool) (st : St) :
    squeaked (open_base_menu E redraw st).tr = squeaked st.tr := by
  unfold open_base_menu
  simp [apply_ite St.tr, apply_ite squeaked]

/-- The block that inserts a character either returns after a display of the
error, or goes on without a squeak, or goes on after the character was appended
to the ALPHA register. -/
theorem alpha_insert_char_cases (E : Engine) (c : Nat) (st : St) :
    (∃ r, alpha_insert_char E c st = .ret r ∧ squeaked r.tr = squeaked st.tr ∧ loud r.tr = true)
      ∨ (∃ r, alpha_insert_char E c st = .go r
          ∧ (squeaked r.tr = squeaked st.tr ∨ appended r.tr = true)) := by
  unfold alpha_insert_char
  repeat' first
    | (refine pred_ite (fun f : Flow =>
        (∃ r, f = .ret r ∧ squeaked r.tr = squeaked st.tr ∧ loud r.tr = true)
          ∨ (∃ r, f = .go r ∧ (squeaked r.tr = squeaked st.tr ∨ appended r.tr = true))) ?_ ?_
        <;> intro _)
    | (left; refine ⟨_, rfl, ?_, ?_⟩ <;> simp; done)
    | (right; refine ⟨_, rfl, Or.inl ?_⟩; simp; done)
    | (right; refine ⟨_, rfl, Or.inr ?_⟩; simp; done)

theorem outcome_after_insert (E : Engine) (c : Nat) (st : St) (k : St → St)
    (hk : ∀ x, squeaked (k x).tr = squeaked x.tr ∧ loud (k x).tr = true
      ∧ (appended x.tr = true → appended (k x).tr = true)) :
    Outcome E st ((alpha_insert_char E c st).next k) := by
  rcases alpha_insert_char_cases E c st with ⟨r, h, h1, h2⟩ | ⟨r, h, h1 | h1⟩
  · rw [h]; exact Outcome_loud E st r h1 h2
  · rw [h]; exact Outcome_loud E st _ ((hk r).1.trans h1) (hk r).2.1
  · rw [h]; exact Outcome_appended E st _ ((hk r).2.2 h1) (hk r).2.1

theorem outcome_alpha_handle_char (E : Engine) (c : Nat) (m : Option menu_spec) (st : St) :
    Outcome E st (alpha_handle_char E c m st) := by
  unfold alpha_handle_char
  refine outcome_after_insert E c st _ ?_
  intro x
  cases m <;> simp [if_menu]

theorem outcome_alpha_mode_bsp (E : Engine) (shift key : Int) (st : St) :
    Outcome E st (alpha_mode_bsp E shift key st) := by
  unfold alpha_mode_bsp
  repeat' first
    | (simp only [OutcomeF_ret_iff, OutcomeF_go_iff, OutcomeS_ret_iff, OutcomeS_go_iff,
        OutcomeG_ret_iff, OutcomeP_ret_iff, OutcomeP_same, Outcome_squeak, Outcome_same]; done)
    | (refine pred_ite (fun r : St => Outcome E st r) ?_ ?_ <;> intro _)
  all_goals first
    | contradiction
    | (simp [*]; done)
    | (simp_all []; done)
    | (simp [*, ite_eq_iff]; done)
    | (simp_all [ite_eq_iff]; done)

@[simp] theorem sq_alpha_mode_enter (E : Engine) (shift : Int) (st : St) :
    squeaked (alpha_mode_enter E shift st).tr = squeaked st.tr := by
  unfold alpha_mode_enter
  simp [apply_ite St.tr, apply_ite squeaked]

@[simp] theorem loud_alpha_mode_enter (E : Engine) (shift : Int) (st : St) :
    loud (alpha_mode_enter E shift st).tr = true := by
  unfold alpha_mode_enter
  simp [apply_ite St.tr, apply_ite loud]

theorem outcome_alpha_mode_shifted (E : Engine) (key : Int) (st : St) :
    OutcomeP E st (alpha_mode_shifted E key st) := by
  unfold alpha_mode_shifted
  repeat' first
    | (simp only [OutcomeF_ret_iff, OutcomeF_go_iff, OutcomeS_ret_iff, OutcomeS_go_iff,
        OutcomeG_ret_iff, OutcomeP_ret_iff, OutcomeP_same, Outcome_squeak, Outcome_same]; done)
    | (refine pred_ite (fun r : Pick => OutcomeP E st r) ?_ ?_ <;> intro _)
  all_goals first
    | contradiction
    | (simp [*]; done)
    | (simp_all []; done)
    | (simp [*, ite_eq_iff]; done)
    | (simp_all [ite_eq_iff]; done)

theorem outcome_alpha_mode_command (E : Engine) (shift key : Int) (st : St) :
    Outcome E st (alpha_mode_command E shift key st) := by
  unfold alpha_mode_command
  repeat' first
    | (simp only [OutcomeF_ret_iff, OutcomeF_go_iff, OutcomeS_ret_iff, OutcomeS_go_iff,
        OutcomeG_ret_iff, OutcomeP_ret_iff, OutcomeP_same, Outcome_squeak, Outcome_same,
        outcome_alpha_mode_shifted]; done)
    | (refine pred_ite (fun r : St => Outcome E st r) ?_ ?_ <;> intro _)
    | (refine pred_ite (fun r : Pick => OutcomeP E st r) ?_ ?_ <;> intro _)
    | (refine Outcome_pick E st _ _ ?_ ?_ ?_)
    | intro _
  all_goals first
    | contradiction
    | (simp [*]; done)
    | (simp_all []; done)
    | (simp [*, ite_eq_iff]; done)
    | (simp_all [ite_eq_iff]; done)

theorem outcome_alpha_mode_nochar (E : Engine) (shift key : Int) (st : St) :
    Outcome E st (alpha_mode_nochar E shift key st) := by
  unfold alpha_mode_nochar
  repeat' first
    | (simp only [OutcomeF_ret_iff, OutcomeF_go_iff, OutcomeS_ret_iff, OutcomeS_go_iff,
        OutcomeG_ret_iff, OutcomeP_ret_iff, OutcomeP_same, Outcome_squeak, Outcome_same,
        outcome_alpha_mode_bsp, outcome_alpha_mode_command]; done)
    | (refine pred_ite (fun r : St => Outcome E st r) ?_ ?_ <;> intro _)
  all_goals first
    | contradiction
    | (simp [*]; done)
    | (simp_all []; done)
    | (simp [*, ite_eq_iff]; done)
    | (simp_all [ite_eq_iff]; done)

theorem outcome_keydown_alpha_mode (E : Engine) (shift key : Int) (st : St) :
    Outcome E (st.mark .enter_alpha_mode) (keydown_alpha_mode E shift key st) := by
  unfold keydown_alpha_mode
  repeat' first
    | (simp only [OutcomeF_ret_iff, OutcomeF_go_iff, OutcomeS_ret_iff, OutcomeS_go_iff,
        OutcomeG_ret_iff, OutcomeP_ret_iff, OutcomeP_same, Outcome_squeak, Outcome_same,
        outcome_alpha_handle_char, outcome_alpha_mode_nochar]; done)
    | (refine pred_ite (fun r : St => Outcome E (st.mark .enter_alpha_mode) r) ?_ ?_ <;> intro _)
    | (refine pred_elim (fun r : St => Outcome E (st.mark .enter_alpha_mode) r) ?_ ?_ <;> intros)
    | (refine outcome_after_insert E _ (st.mark .enter_alpha_mode) _ ?_)
    | intro _
  all_goals first
    | contradiction
    | (simp [*]; done)
    | (simp_all []; done)
    | (simp [*, ite_eq_iff]; done)
    | (simp_all [ite_eq_iff]; done)

/-! ### `keydown_normal_mode` -/

theorem loud_keydown_number_entry (E : Engine) (shift key : Int) (st : St)
    (h : loud st.tr = true) : loud (keydown_number_entry E shift key st).tr = true :=
  any_keydown_number_entry _ E shift key st (Or.inl h)

theorem began_keydown_number_entry (E : Engine) (shift key : Int) (st : St)
    (h : st.tr.any Call.is_normal_mode_mark = true) :
    began_number_entry (keydown_number_entry E shift key st).tr = true := by
  unfold began_number_entry
  rw [any_keydown_number_entry _ E shift key st (Or.inl h),
    any_keydown_number_entry _ E shift key st (Or.inr rfl)]
  rfl

@[simp] theorem tr_start_number_entry (E : Engine) (st : St) :
    (start_number_entry E st).tr = st.tr := rfl

@[simp] theorem sq_lift_stack (E : Engine) (st : St) :
    squeaked (lift_stack E st).tr = squeaked st.tr := by
  unfold lift_stack
  simp

/-- A number key in normal mode: the display is updated, or number entry is
begun. -/
theorem outcome_normal_mode_number_key (E : Engine) (shift key : Int) (st : St)
    (hm : st.tr.any Call.is_normal_mode_mark = true) :
    Outcome E st (normal_mode_number_key E shift key st) := by
  unfold normal_mode_number_key
  refine pred_ite (fun r : St => Outcome E st r) ?_ ?_ <;> intro _
  · simp
  refine pred_ite (fun r : St => Outcome E st r) ?_ ?_ <;> intro _
  · apply Outcome_began
    · simp
    · rw [began_keydown_number_entry]
      simp only [ite_tr, tr_call, tr_upd, tr_start_number_entry, ite_any, List.any_append, hm,
        Bool.true_or, ite_self]
  refine pred_ite (fun r : St => Outcome E st r) ?_ ?_ <;> intro _
  · simp
  · apply Outcome_loud
    · simp
    · rw [loud_keydown_number_entry]
      simp

theorem outcome_send (E : Engine) (st : St) (flow : Flow) (level : Int)
    (h : OutcomeG E st flow) : Outcome E st (flow.next fun st => send_it_off E level st) := by
  cases flow with
  | ret r => exact h
  | go r =>
    obtain ⟨h1, h2⟩ := h
    show Outcome E st (send_it_off E level r)
    unfold send_it_off
    refine pred_ite (fun x : St => Outcome E st x) ?_ ?_ <;> intro _
    · simp [h1]
    · exact Outcome_pending E st r h1 h2

@[simp] theorem sq_store_menu_variable (E : Engine) (shift : Int) (st : St) :
    squeaked (store_menu_variable E shift st).tr = squeaked st.tr := by
  unfold store_menu_variable
  simp [apply_ite St.tr, apply_ite squeaked]

@[simp] theorem loud_store_menu_variable (E : Engine) (shift : Int) (st : St) :
    loud (store_menu_variable E shift st).tr = true := by
  unfold store_menu_variable
  simp [apply_ite St.tr, apply_ite loud]

theorem outcome_normal_mode_varmenu_key (E : Engine) (shift menukey : Int) (st : St) :
    Outcome E st (normal_mode_varmenu_key E shift menukey st) := by
  unfold normal_mode_varmenu_key
  repeat' first
    | (simp only [OutcomeF_ret_iff, OutcomeF_go_iff, OutcomeS_ret_iff, OutcomeS_go_iff,
        OutcomeG_ret_iff, OutcomeP_ret_iff, OutcomeP_same, Outcome_squeak, Outcome_same]; done)
    | (refine pred_ite (fun r : St => Outcome E st r) ?_ ?_ <;> intro _)
  all_goals first
    | contradiction
    | (simp [*, Touched, kept_loosely, kept, set_arg_str]; done)
    | (simp_all [Touched, kept_loosely, kept, set_arg_str]; done)
    | (simp [*, ite_eq_iff, Touched, kept_loosely, kept, set_arg_str]; done)
    | (simp_all [ite_eq_iff, Touched, kept_loosely, kept, set_arg_str]; done)

theorem outcome_normal_mode_varmenu (E : Engine) (shift key menukey : Int) (st : St) :
    OutcomeS E st (normal_mode_varmenu E shift key menukey st) := by
  unfold normal_mode_varmenu
  repeat' first
    | (simp only [OutcomeF_ret_iff, OutcomeF_go_iff, OutcomeS_ret_iff, OutcomeS_go_iff,
        OutcomeG_ret_iff, OutcomeP_ret_iff, OutcomeP_same, Outcome_squeak, Outcome_same,
        outcome_normal_mode_varmenu_key]; done)
    | (refine pred_ite (fun r : Flow => OutcomeS E st r) ?_ ?_ <;> intro _)
  all_goals first
    | contradiction
    | (simp [*]; done)
    | (simp_all []; done)
    | (simp [*, ite_eq_iff]; done)
    | (simp_all [ite_eq_iff]; done)

theorem outcome_custom_builtin (E : Engine) (cmd : Int) (st : St) :
    OutcomeG E st (custom_builtin E cmd st) := by
  unfold custom_builtin
  repeat' first
    | (simp only [OutcomeF_ret_iff, OutcomeF_go_iff, OutcomeS_ret_iff, OutcomeS_go_iff,
        OutcomeG_ret_iff, OutcomeP_ret_iff, OutcomeP_same, Outcome_squeak, Outcome_same]; done)
    | (refine pred_ite (fun r : Flow => OutcomeG E st r) ?_ ?_ <;> intro _)
  all_goals first
    | contradiction
    | (simp [*, repeat_shifted]; done)
    | (simp_all [repeat_shifted]; done)
    | (simp [*, ite_eq_iff, repeat_shifted]; done)
    | (simp_all [ite_eq_iff, repeat_shifted]; done)

theorem outcome_normal_mode_custom (E : Engine) (shift menukey menu level : Int) (st : St) :
    Outcome E st (normal_mode_custom E shift menukey menu level st) := by
  unfold normal_mode_custom
  repeat' first
    | (simp only [OutcomeF_ret_iff, OutcomeF_go_iff, OutcomeS_ret_iff, OutcomeS_go_iff,
        OutcomeG_ret_iff, OutcomeP_ret_iff, OutcomeP_same, Outcome_squeak, Outcome_same,
        outcome_custom_builtin]; done)
    | (refine pred_ite (fun r : St => Outcome E st r) ?_ ?_ <;> intro _)
    | (refine outcome_send E st _ _ ?_)
    | (refine pred_ite (fun r : Flow => OutcomeG E st r) ?_ ?_ <;> intro _)
  all_goals first
    | contradiction
    | (simp [*, set_arg_str, repeat_shifted]; done)
    | (simp_all [set_arg_str, repeat_shifted]; done)
    | (simp [*, ite_eq_iff, set_arg_str, repeat_shifted]; done)
    | (simp_all [ite_eq_iff, set_arg_str, repeat_shifted]; done)

@[simp] theorem sq_close_catalog (E : Engine) (level : Int) (st : St) :
    squeaked (close_catalog E level st).tr = squeaked st.tr := by
  unfold close_catalog
  simp [apply_ite St.tr, apply_ite squeaked]

theorem outcome_normal_mode_catalog_top (E : Engine) (menukey : Int) (st : St) :
    Outcome E st (normal_mode_catalog_top E menukey st) := by
  unfold normal_mode_catalog_top
  repeat' first
    | (simp only [OutcomeF_ret_iff, OutcomeF_go_iff, OutcomeS_ret_iff, OutcomeS_go_iff,
        OutcomeG_ret_iff, OutcomeP_ret_iff, OutcomeP_same, Outcome_squeak, Outcome_same]; done)
    | (refine pred_ite (fun r : St => Outcome E st r) ?_ ?_ <;> intro _)
  all_goals first
    | contradiction
    | (simp [*]; done)
    | (simp_all []; done)
    | (simp [*, ite_eq_iff]; done)
    | (simp_all [ite_eq_iff]; done)

@[simp] theorem sq_normal_mode_catalog_ext1 (E : Engine) (menukey : Int) (st : St) :
    squeaked (normal_mode_catalog_ext1 E menukey st).tr = squeaked st.tr := by
  unfold normal_mode_catalog_ext1
  simp [apply_ite St.tr, apply_ite squeaked]

@[simp] theorem loud_normal_mode_catalog_ext1 (E : Engine) (menukey : Int) (st : St) :
    loud (normal_mode_catalog_ext1 E menukey st).tr = true := by
  unfold normal_mode_catalog_ext1
  simp [apply_ite St.tr, apply_ite loud]

theorem outcome_normal_mode_catalog_pgm (E : Engine) (hmenu : ∀ c s, Call.is_menu c = true → (E.run c s).pending_command = s.pending_command) (menukey catsect level : Int) (st : St) :
    OutcomeG E st (normal_mode_catalog_pgm E menukey catsect level st) := by
  unfold normal_mode_catalog_pgm
  repeat' first
    | (simp only [OutcomeF_ret_iff, OutcomeF_go_iff, OutcomeS_ret_iff, OutcomeS_go_iff,
        OutcomeG_ret_iff, OutcomeP_ret_iff, OutcomeP_same, Outcome_squeak, Outcome_same]; done)
    | (refine pred_ite (fun r : Flow => OutcomeG E st r) ?_ ?_ <;> intro _)
  all_goals first
    | contradiction
    | (simp [*]; done)
    | (simp_all []; done)
    | (simp [*, ite_eq_iff]; done)
    | (simp_all [ite_eq_iff]; done)

theorem outcome_normal_mode_catalog_pgm_for (E : Engine) (menukey catsect : Int) (st : St) :
    OutcomeG E st (normal_mode_catalog_pgm_for E menukey catsect st) := by
  unfold normal_mode_catalog_pgm_for
  repeat' first
    | (simp only [OutcomeF_ret_iff, OutcomeF_go_iff, OutcomeS_ret_iff, OutcomeS_go_iff,
        OutcomeG_ret_iff, OutcomeP_ret_iff, OutcomeP_same, Outcome_squeak, Outcome_same]; done)
    | (refine pred_ite (fun r : Flow => OutcomeG E st r) ?_ ?_ <;> intro _)
  all_goals first
    | contradiction
    | (simp [*]; done)
    | (simp_all []; done)
    | (simp [*, ite_eq_iff]; done)
    | (simp_all [ite_eq_iff]; done)

theorem outcome_normal_mode_catalog_fcn (E : Engine) (menukey level : Int) (st : St) :
    Outcome E st (normal_mode_catalog_fcn E menukey level st) := by
  unfold normal_mode_catalog_fcn
  repeat' first
    | (simp only [OutcomeF_ret_iff, OutcomeF_go_iff, OutcomeS_ret_iff, OutcomeS_go_iff,
        OutcomeG_ret_iff, OutcomeP_ret_iff, OutcomeP_same, Outcome_squeak, Outcome_same]; done)
    | (refine pred_ite (fun r : St => Outcome E st r) ?_ ?_ <;> intro _)
  all_goals first
    | contradiction
    | (simp [*]; done)
    | (simp_all []; done)
    | (simp [*, ite_eq_iff]; done)
    | (simp_all [ite_eq_iff]; done)

theorem outcome_normal_mode_catalog_var (E : Engine) (hmenu : ∀ c s, Call.is_menu c = true → (E.run c s).pending_command = s.pending_command) (menukey level : Int) (st : St) :
    OutcomeG E st (normal_mode_catalog_var E menukey level st) := by
  unfold normal_mode_catalog_var
  repeat' first
    | (simp only [OutcomeF_ret_iff, OutcomeF_go_iff, OutcomeS_ret_iff, OutcomeS_go_iff,
        OutcomeG_ret_iff, OutcomeP_ret_iff, OutcomeP_same, Outcome_squeak, Outcome_same]; done)
    | (refine pred_ite (fun r : Flow => OutcomeG E st r) ?_ ?_ <;> intro _)
  all_goals first
    | contradiction
    | (simp [*, close_catalog]; done)
    | (simp_all [close_catalog]; done)
    | (simp [*, ite_eq_iff, close_catalog]; done)
    | (simp_all [ite_eq_iff, close_catalog]; done)

theorem outcome_normal_mode_catalog (E : Engine) (hmenu : ∀ c s, Call.is_menu c = true → (E.run c s).pending_command = s.pending_command) (menukey level : Int) (st : St) :
    Outcome E st (normal_mode_catalog E menukey level st) := by
  unfold normal_mode_catalog
  repeat' first
    | (simp only [OutcomeF_ret_iff, OutcomeF_go_iff, OutcomeS_ret_iff, OutcomeS_go_iff,
        OutcomeG_ret_iff, OutcomeP_ret_iff, OutcomeP_same, Outcome_squeak, Outcome_same,
        outcome_normal_mode_catalog_top, outcome_normal_mode_catalog_fcn,
        outcome_normal_mode_catalog_pgm E hmenu, outcome_normal_mode_catalog_pgm_for,
        outcome_normal_mode_catalog_var E hmenu]; done)
    | (refine pred_ite (fun r : St => Outcome E st r) ?_ ?_ <;> intro _)
    | (refine outcome_send E st _ _ ?_)
    | (refine pred_ite (fun r : Flow => OutcomeG E st r) ?_ ?_ <;> intro _)
  all_goals first
    | contradiction
    | (simp [*]; done)
    | (simp_all []; done)
    | (simp [*, ite_eq_iff]; done)
    | (simp_all [ite_eq_iff]; done)

theorem outcome_normal_mode_integ_params (E : Engine) (shift menukey : Int) (st : St) :
    Outcome E st (normal_mode_integ_params E shift menukey st) := by
  unfold normal_mode_integ_params
  repeat' first
    | (simp only [OutcomeF_ret_iff, OutcomeF_go_iff, OutcomeS_ret_iff, OutcomeS_go_iff,
        OutcomeG_ret_iff, OutcomeP_ret_iff, OutcomeP_same, Outcome_squeak, Outcome_same]; done)
    | (refine pred_ite (fun r : St => Outcome E st r) ?_ ?_ <;> intro _)
  all_goals first
    | contradiction
    | (simp [*, set_arg_str]; done)
    | (simp_all [set_arg_str]; done)
    | (simp [*, ite_eq_iff, set_arg_str]; done)
    | (simp_all [ite_eq_iff, set_arg_str]; done)

theorem outcome_normal_mode_menu_item (E : Engine) (shift menukey menu level : Int) (st : St) :
    Outcome E st (normal_mode_menu_item E shift menukey menu level st) := by
  unfold normal_mode_menu_item
  repeat' first
    | (simp only [OutcomeF_ret_iff, OutcomeF_go_iff, OutcomeS_ret_iff, OutcomeS_go_iff,
        OutcomeG_ret_iff, OutcomeP_ret_iff, OutcomeP_same, Outcome_squeak, Outcome_same]; done)
    | (refine pred_ite (fun r : St => Outcome E st r) ?_ ?_ <;> intro _)
  all_goals first
    | contradiction
    | (simp [*]; done)
    | (simp_all []; done)
    | (simp [*, ite_eq_iff]; done)
    | (simp_all [ite_eq_iff]; done)

theorem outcome_normal_mode_menu_exit (E : Engine) (menu level : Int) (st : St) :
    Outcome E st (normal_mode_menu_exit E menu level st) := by
  unfold normal_mode_menu_exit
  repeat' first
    | (simp only [OutcomeF_ret_iff, OutcomeF_go_iff, OutcomeS_ret_iff, OutcomeS_go_iff,
        OutcomeG_ret_iff, OutcomeP_ret_iff, OutcomeP_same, Outcome_squeak, Outcome_same]; done)
    | (refine pred_ite (fun r : St => Outcome E st r) ?_ ?_ <;> intro _)
  all_goals first
    | contradiction
    | (simp [*]; done)
    | (simp_all []; done)
    | (simp [*, ite_eq_iff]; done)
    | (simp_all [ite_eq_iff]; done)

theorem outcome_normal_mode_menu_updown (E : Engine) (key menu level : Int) (st : St) :
    Outcome E st (normal_mode_menu_updown E key menu level st) := by
  unfold normal_mode_menu_updown
  repeat' first
    | (simp only [OutcomeF_ret_iff, OutcomeF_go_iff, OutcomeS_ret_iff, OutcomeS_go_iff,
        OutcomeG_ret_iff, OutcomeP_ret_iff, OutcomeP_same, Outcome_squeak, Outcome_same]; done)
    | (refine pred_ite (fun r : St => Outcome E st r) ?_ ?_ <;> intro _)
  all_goals first
    | contradiction
    | (simp [*]; done)
    | (simp_all []; done)
    | (simp [*, ite_eq_iff]; done)
    | (simp_all [ite_eq_iff]; done)

theorem outcome_normal_mode_menu (E : Engine) (hmenu : ∀ c s, Call.is_menu c = true → (E.run c s).pending_command = s.pending_command) (shift key : Int) (st : St) :
    OutcomeS E st (normal_mode_menu E shift key st) := by
  unfold normal_mode_menu
  repeat' first
    | (simp only [OutcomeF_ret_iff, OutcomeF_go_iff, OutcomeS_ret_iff, OutcomeS_go_iff,
        OutcomeG_ret_iff, OutcomeP_ret_iff, OutcomeP_same, Outcome_squeak, Outcome_same,
        outcome_normal_mode_varmenu, outcome_normal_mode_custom,
        outcome_normal_mode_catalog E hmenu, outcome_normal_mode_integ_params,
        outcome_normal_mode_menu_item, outcome_normal_mode_menu_updown,
        outcome_normal_mode_menu_exit]; done)
    | (refine pred_ite (fun r : Flow => OutcomeS E st r) ?_ ?_ <;> intro _)
    | (refine OutcomeS_bind E st _ _ ?_ ?_)
  all_goals first
    | contradiction
    | (simp [*]; done)
    | (simp_all []; done)
    | (simp [*, ite_eq_iff]; done)
    | (simp_all [ite_eq_iff]; done)

theorem outcome_normal_mode_unshifted (E : Engine) (key : Int) (st : St) :
    OutcomeP E st (normal_mode_unshifted E key st) := by
  unfold normal_mode_unshifted
  repeat' first
    | (simp only [OutcomeF_ret_iff, OutcomeF_go_iff, OutcomeS_ret_iff, OutcomeS_go_iff,
        OutcomeG_ret_iff, OutcomeP_ret_iff, OutcomeP_same, Outcome_squeak, Outcome_same]; done)
    | (refine pred_ite (fun r : Pick => OutcomeP E st r) ?_ ?_ <;> intro _)
  all_goals first
    | contradiction
    | (simp [*]; done)
    | (simp_all []; done)
    | (simp [*, ite_eq_iff]; done)
    | (simp_all [ite_eq_iff]; done)

theorem outcome_open_base_menu (E : Engine) (st : St) :
    Outcome E st (open_base_menu E true st) := by
  unfold open_base_menu
  repeat' first
    | (simp only [OutcomeF_ret_iff, OutcomeF_go_iff, OutcomeS_ret_iff, OutcomeS_go_iff,
        OutcomeG_ret_iff, OutcomeP_ret_iff, OutcomeP_same, Outcome_squeak, Outcome_same]; done)
    | (refine pred_ite (fun r : St => Outcome E st r) ?_ ?_ <;> intro _)
  all_goals first
    | contradiction
    | (simp [*, refused_base_menu]; done)
    | (simp_all [refused_base_menu]; done)
    | (simp [*, ite_eq_iff, refused_base_menu]; done)
    | (simp_all [ite_eq_iff, refused_base_menu]; done)

theorem outcome_normal_mode_shifted (E : Engine) (key : Int) (st : St) :
    OutcomeP E st (normal_mode_shifted E key st) := by
  unfold normal_mode_shifted
  repeat' first
    | (simp only [OutcomeF_ret_iff, OutcomeF_go_iff, OutcomeS_ret_iff, OutcomeS_go_iff,
        OutcomeG_ret_iff, OutcomeP_ret_iff, OutcomeP_same, Outcome_squeak, Outcome_same,
        outcome_open_base_menu]; done)
    | (refine pred_ite (fun r : Pick => OutcomeP E st r) ?_ ?_ <;> intro _)
  all_goals first
    | contradiction
    | (simp [*]; done)
    | (simp_all []; done)
    | (simp [*, ite_eq_iff]; done)
    | (simp_all [ite_eq_iff]; done)

theorem outcome_normal_mode_plain (E : Engine) (shift key : Int) (st : St) :
    Outcome E st (normal_mode_plain E shift key st) := by
  unfold normal_mode_plain
  repeat' first
    | (simp only [OutcomeF_ret_iff, OutcomeF_go_iff, OutcomeS_ret_iff, OutcomeS_go_iff,
        OutcomeG_ret_iff, OutcomeP_ret_iff, OutcomeP_same, Outcome_squeak, Outcome_same,
        outcome_normal_mode_unshifted, outcome_normal_mode_shifted]; done)
    | (refine pred_ite (fun r : St => Outcome E st r) ?_ ?_ <;> intro _)
    | (refine pred_ite (fun r : Pick => OutcomeP E st r) ?_ ?_ <;> intro _)
    | (refine Outcome_pick E st _ _ ?_ ?_ ?_)
    | intro _
  all_goals first
    | contradiction
    | (simp [*]; done)
    | (simp_all []; done)
    | (simp [*, ite_eq_iff]; done)
    | (simp_all [ite_eq_iff]; done)

theorem outcome_normal_mode_prgm_bsp (E : Engine) (st : St) :
    Outcome E st (normal_mode_prgm_bsp E st) := by
  unfold normal_mode_prgm_bsp
  repeat' first
    | (simp only [OutcomeF_ret_iff, OutcomeF_go_iff, OutcomeS_ret_iff, OutcomeS_go_iff,
        OutcomeG_ret_iff, OutcomeP_ret_iff, OutcomeP_same, Outcome_squeak, Outcome_same]; done)
    | (refine pred_ite (fun r : St => Outcome E st r) ?_ ?_ <;> intro _)
  all_goals first
    | contradiction
    | (simp [*]; done)
    | (simp_all []; done)
    | (simp [*, ite_eq_iff]; done)
    | (simp_all [ite_eq_iff]; done)

theorem outcome_keydown_normal_mode (E : Engine)
    (hmenu : ∀ c s, Call.is_menu c = true → (E.run c s).pending_command = s.pending_command)
    (shift key : Int) (st : St) :
    Outcome E (st.mark .enter_normal_mode) (keydown_normal_mode E shift key st) := by
  unfold keydown_normal_mode
  refine pred_ite (fun r : St => Outcome E (st.mark .enter_normal_mode) r) ?_ ?_ <;> intro _
  · refine pred_ite (fun r : St => Outcome E (st.mark .enter_normal_mode) r) ?_ ?_ <;> intro _
    · exact Outcome_same E _
    · exact outcome_normal_mode_number_key E shift key _
        (by simp only [tr_mark, List.any_append, List.any_cons, Call.is_normal_mode_mark,
          Bool.true_or, Bool.or_true])
  refine pred_ite (fun r : St => Outcome E (st.mark .enter_normal_mode) r) ?_ ?_ <;> intro _
  · exact outcome_normal_mode_prgm_bsp E _
  refine Outcome_nextS E _ _ _ ?_ ?_
  · refine pred_ite (fun r : Flow => OutcomeS E (st.mark .enter_normal_mode) r) ?_ ?_ <;> intro _
    · exact outcome_normal_mode_menu E hmenu shift key _
    · rfl
  · exact outcome_normal_mode_plain E shift key _

/-! ### `keydown` -/

theorem kept_ext (s : State) (e : Nat) : kept { s with ext := e } = kept s := rfl

theorem Ignored_private (E : Engine)
    (hpriv : ∀ c s, Call.is_private c = true → E.run c s = { s with ext := (E.run c s).ext })
    (c : Call) (hc : Call.is_private c = true) (s : State) : Ignored s (E.run c s) := by
  unfold Ignored
  rw [hpriv c s hc]
  rfl

theorem mode_getkey_of_Ignored {a b : State} (h : Ignored a b) :
    b.mode_getkey = a.mode_getkey := by
  have h' : (kept b).mode_getkey = (kept a).mode_getkey := by rw [show kept b = kept a from h]
  exact h'

theorem mode_getkey_of_Touched {a b : State} (h : Touched a b) :
    b.mode_getkey = a.mode_getkey := by
  have h' : (kept_loosely b).mode_getkey = (kept_loosely a).mode_getkey := by
    rw [show kept_loosely b = kept_loosely a from h]
  exact h'

theorem Verdict_of_Outcome (E : Engine)
    (hpriv : ∀ c s, Call.is_private c = true → E.run c s = { s with ext := (E.run c s).ext })
    (st r : St) (hsq : squeaked st.tr = false) (h : Outcome E st r) : Verdict st.s r := by
  rcases h with h | h | ⟨h1, h2⟩ | ⟨h1, h2⟩
  · rw [h]
    exact ⟨fun _ => Or.inr (Ignored_private E hpriv .squeak rfl _),
      Or.inr (Or.inr (Or.inl (by simp)))⟩
  · rw [h]
    refine ⟨fun _ => Or.inr ?_, Or.inr (Or.inr (Or.inl (by simp)))⟩
    exact Ignored_trans (Ignored_private E hpriv .clear_all_rtns rfl _)
      (Ignored_private E hpriv .squeak rfl _)
  · have hq : squeaked r.tr = false := h1.trans hsq
    refine ⟨fun h => (by rw [hq] at h; cases h), ?_⟩
    rcases h2 with h | h | h | h | h | h
    · exact Or.inr (Or.inr (Or.inr (Or.inl (Touched_of_Ignored h))))
    · exact Or.inr (Or.inl h)
    · exact Or.inl h
    · exact Or.inr (Or.inr (Or.inr (Or.inl h)))
    · exact Or.inr (Or.inr (Or.inr (Or.inr (Or.inl h))))
    · exact Or.inr (Or.inr (Or.inr (Or.inr (Or.inr (Or.inl h)))))
  · exact ⟨fun _ => Or.inl h1, Or.inr (Or.inl h2)⟩

theorem Outcome_of_Out (E : Engine) (st r : St) (h : Out E st r) : Outcome E st r := by
  rcases h with h | h | ⟨h1, h2⟩
  · rw [h]; exact Outcome_squeak E st
  · rw [h]; exact Outcome_same E st
  · exact Outcome_loud E st r h1 h2

theorem Verdict_pre {s0 s1 : State} {r : St} (h : Ignored s0 s1) (hv : Verdict s1 r) :
    Verdict s0 r := by
  obtain ⟨h1, h2⟩ := hv
  refine ⟨fun hq => (h1 hq).imp id (fun x => Ignored_trans h x), ?_⟩
  rcases h2 with h' | h' | h' | h' | h' | h' | ⟨h', h''⟩
  · exact Or.inl h'
  · exact Or.inr (Or.inl h')
  · exact Or.inr (Or.inr (Or.inl h'))
  · exact Or.inr (Or.inr (Or.inr (Or.inl (Touched_trans (Touched_of_Ignored h) h'))))
  · exact Or.inr (Or.inr (Or.inr (Or.inr (Or.inl h'))))
  · exact Or.inr (Or.inr (Or.inr (Or.inr (Or.inr (Or.inl h')))))
  · exact Or.inr (Or.inr (Or.inr (Or.inr (Or.inr (Or.inr
      ⟨(mode_getkey_of_Ignored h).symm.trans h', h''⟩)))))

theorem verdict_keydown_dispatch (E : Engine)
    (hpriv : ∀ c s, Call.is_private c = true → E.run c s = { s with ext := (E.run c s).ext })
    (hmenu : ∀ c s, Call.is_menu c = true → (E.run c s).pending_command = s.pending_command)
    (shift key : Int) (st : St) (hsq : squeaked st.tr = false) :
    Verdict st.s (keydown_dispatch E shift key st) := by
  unfold keydown_dispatch
  refine pred_ite (fun r : St => Verdict st.s r) ?_ ?_ <;> intro _
  · exact Verdict_of_Outcome E hpriv (st.mark .enter_number_entry) _ (by simp [hsq])
      (outcome_keydown_number_entry E shift key st)
  refine pred_ite (fun r : St => Verdict st.s r) ?_ ?_ <;> intro _
  · exact Verdict_of_Outcome E hpriv (st.mark .enter_command_entry) _ (by simp [hsq])
      (Outcome_of_Out E _ _ (out_keydown_command_entry E shift key st))
  refine pred_ite (fun r : St => Verdict st.s r) ?_ ?_ <;> intro _
  · exact Verdict_of_Outcome E hpriv (st.mark .enter_alpha_mode) _ (by simp [hsq])
      (outcome_keydown_alpha_mode E shift key st)
  · exact Verdict_of_Outcome E hpriv (st.mark .enter_normal_mode) _ (by simp [hsq])
      (outcome_keydown_normal_mode E hmenu shift key st)

/-! ## C15: the table lookup of `find_cmd_getkey_mapping` -/

/-- The lookup in a table that ends with a sentinel: with `pre` the entries before the
sentinel `z`, the loop returns the key of the entry of `pre` that holds `cmd`, and 0
when there is none. -/
theorem find_cmd_getkey_mapping_from_spec (pre : List cmd_getkey_mapping_struct)
    (z : cmd_getkey_mapping_struct) (cmd : Int) (hz : z.key = 0)
    (hkeys : ∀ gm ∈ pre, gm.key ≠ 0)
    (hdistinct : pre.Pairwise (fun a b => a.cmd ≠ b.cmd)) :
    ∃ k, find_cmd_getkey_mapping_from (pre ++ [z]) cmd = some k
      ∧ (∀ gm ∈ pre, gm.cmd = cmd → k = gm.key)
      ∧ (k = 0 ↔ ∀ gm ∈ pre, gm.cmd ≠ cmd) := by
  induction pre with
  | nil => exact ⟨0, by simp [find_cmd_getkey_mapping_from, hz], by simp, by simp⟩
  | cons a rest ih =>
    have ha : a.key ≠ 0 := hkeys a (List.mem_cons_self _ _)
    obtain ⟨hd1, hd2⟩ := List.pairwise_cons.mp hdistinct
    obtain ⟨k, h1, h2, h3⟩ := ih (fun gm hgm => hkeys gm (List.mem_cons_of_mem _ hgm)) hd2
    by_cases hc : a.cmd = cmd
    · refine ⟨a.key, by simp [find_cmd_getkey_mapping_from, ha, hc], ?_, ?_⟩
      · intro gm hgm hgc
        rcases List.mem_cons.mp hgm with rfl | hgm
        · rfl
        · exact absurd (hc.trans hgc.symm) (hd1 gm hgm)
      · constructor
        · intro h0; exact absurd h0 ha
        · intro h; exact absurd hc (h a (List.mem_cons_self _ _))
    · refine ⟨k, by simp [find_cmd_getkey_mapping_from, ha, hc, h1], ?_, ?_⟩
      · intro gm hgm hgc
        rcases List.mem_cons.mp hgm with rfl | hgm
        · exact absurd hgc hc
        · exact h2 gm hgm hgc
      · rw [h3]
        constructor
        · intro h gm hgm
          rcases List.mem_cons.mp hgm with rfl | hgm
          · exact hc
          · exact h gm hgm
        · intro h gm hgm
          exact h gm (List.mem_cons_of_mem _ hgm)

/-- C15: `find_cmd_getkey_mapping` is a total table lookup. For every `cmd` the
loop ends with a result `k` (it never runs off the table); `k` is the key of every
entry before the sentinel that holds `cmd` (the commands of these entries are
pairwise distinct); `k` is 0 exactly when no entry before the sentinel holds
`cmd`, which is the case of `CMD_NONE`; and `k` is 0 or lies in 1..70. -/
theorem C15_find_cmd_getkey_mapping_total (cmd : Int) :
    ∃ k, find_cmd_getkey_mapping cmd = some k
      ∧ (∀ gm ∈ cmd_getkey_mapping.dropLast, gm.cmd = cmd → k = gm.key)
      ∧ (k = 0 ↔ ∀ gm ∈ cmd_getkey_mapping.dropLast, gm.cmd ≠ cmd)
      ∧ (k = 0 ∨ (1 ≤ k ∧ k ≤ 70))
      ∧ cmd_getkey_mapping.dropLast.Pairwise (fun a b => a.cmd ≠ b.cmd)
      ∧ find_cmd_getkey_mapping CMD_NONE = some 0 := by
  have htab : cmd_getkey_mapping = cmd_getkey_mapping.dropLast ++ [⟨0, CMD_NONE⟩] := by decide
  have hkeys : ∀ gm ∈ cmd_getkey_mapping.dropLast, 1 ≤ gm.key ∧ gm.key ≤ 70 := by decide
  have hdistinct : cmd_getkey_mapping.dropLast.Pairwise (fun a b => a.cmd ≠ b.cmd) := by decide
  obtain ⟨k, h1, h2, h3⟩ := find_cmd_getkey_mapping_from_spec cmd_getkey_mapping.dropLast
    ⟨0, CMD_NONE⟩ cmd rfl (fun gm hgm => by have := hkeys gm hgm; omega) hdistinct
  refine ⟨k, ?_, h2, h3, ?_, hdistinct, by decide⟩
  · unfold find_cmd_getkey_mapping
    rw [htab]
    exact h1
  · by_cases hk : k = 0
    · exact Or.inl hk
    · right
      have hex : ¬ ∀ gm ∈ cmd_getkey_mapping.dropLast, gm.cmd ≠ cmd := fun h => hk (h3.mpr h)
      push_neg at hex
      obtain ⟨gm, hgm, hgc⟩ := hex
      rw [h2 gm hgm hgc]
      exact hkeys gm hgm

/-! ## C20: from a numeric `LBL` to an alpha label -/

/-- What `keydown_command_entry(1, KEY_ENTER)` does during the entry of a numeric
`LBL` of one digit. -/
theorem command_entry_lbl_to_alpha (E : Engine) (st : St)
    (hcmd : st.s.incomplete_command = CMD_LBL) (halpha : st.s.incomplete_alpha = false)
    (hlen : st.s.incomplete_length = 1)
    (hmenu : st.s.mode_commandmenu ≠ MENU_ST ∧ st.s.mode_commandmenu ≠ MENU_IND_ST) :
    keydown_command_entry E 1 KEY_ENTER st
      = (((st.mark .enter_command_entry).upd fun s =>
          { s with incomplete_alpha := true,
                   incomplete_str := aset s.incomplete_str 0 ((48 + s.incomplete_num) % 256).toNat,
                   incomplete_num := 0, mode_commandmenu := MENU_ALPHA1 }).call E .redisplay) := by
  unfold keydown_command_entry
  simp [St.mark, St.upd, hcmd, halpha, hlen, hmenu.1, hmenu.2]

/-- C20: during the entry of a numeric `LBL`, with one digit `d` typed
(`incomplete_alpha` false, `incomplete_length` 1, `incomplete_num` = `d` in 0..9)
and a command menu other than `MENU_ST` and `MENU_IND_ST`,
`keydown_command_entry(1, KEY_ENTER)` returns with `incomplete_alpha` true,
`incomplete_str[0]` the character of the digit `d`, `incomplete_length` 1,
`incomplete_num` 0 and `mode_commandmenu` `MENU_ALPHA1`, and it commits no command:
`pending_command` is as it was on entry, which is `CMD_NONE` when `keydown` has
called the handler. The call `redisplay()` is assumed to leave these variables
alone. -/
theorem C20_numeric_lbl_switches_to_alpha (E : Engine) (st : St) (d : Int)
    (hre : E.leaves .redisplay argument_entry)
    (hcmd : st.s.incomplete_command = CMD_LBL) (halpha : st.s.incomplete_alpha = false)
    (hlen : st.s.incomplete_length = 1) (hnum : st.s.incomplete_num = d) (hd : 0 ≤ d ∧ d ≤ 9)
    (hmenu : st.s.mode_commandmenu ≠ MENU_ST ∧ st.s.mode_commandmenu ≠ MENU_IND_ST) :
    (keydown_command_entry E 1 KEY_ENTER st).s.incomplete_alpha = true
      ∧ aget (keydown_command_entry E 1 KEY_ENTER st).s.incomplete_str 0 = digit_char d
      ∧ (keydown_command_entry E 1 KEY_ENTER st).s.incomplete_length = 1
      ∧ (keydown_command_entry E 1 KEY_ENTER st).s.incomplete_num = 0
      ∧ (keydown_command_entry E 1 KEY_ENTER st).s.mode_commandmenu = MENU_ALPHA1
      ∧ (keydown_command_entry E 1 KEY_ENTER st).s.pending_command = st.s.pending_command
      ∧ (st.s.pending_command = CMD_NONE
          → (keydown_command_entry E 1 KEY_ENTER st).s.pending_command = CMD_NONE) := by
  rw [command_entry_lbl_to_alpha E st hcmd halpha hlen hmenu]
  have h := hre (((st.mark .enter_command_entry).upd fun s =>
          { s with incomplete_alpha := true,
                   incomplete_str := aset s.incomplete_str 0 ((48 + s.incomplete_num) % 256).toNat,
                   incomplete_num := 0, mode_commandmenu := MENU_ALPHA1 }).s)
  simp only [argument_entry, Prod.mk.injEq] at h
  obtain ⟨-, -, -, h4, -, h6, h7, h8, h9, h10⟩ := h
  have hc : ((48 + d) % 256).toNat = digit_char d := by
    unfold digit_char
    obtain ⟨h0, h9⟩ := hd
    rw [if_pos (by omega)]
    congr 1
    omega
  have ha : ∀ (a : List Nat) (v : Nat), aget (aset a 0 v) 0 = v := by
    intro a v
    cases a <;> simp [aget, aset]
  refine ⟨h4.trans rfl, ?_, (h7.trans rfl).trans hlen, h6.trans rfl, h9.trans rfl, h10.trans rfl,
    fun hp => (h10.trans rfl).trans hp⟩
  show aget (E.run .redisplay _).incomplete_str 0 = _
  rw [h8]
  show aget (aset st.s.incomplete_str 0 ((48 + st.s.incomplete_num) % 256).toNat) 0 = _
  rw [ha, hnum, hc]

/-- Witness of C20: `LBL 7` followed by Shift-ENTER on the reference engine. -/
theorem C20_numeric_lbl_switches_to_alpha_witness :
    (keydown_command_entry refEngine 1 KEY_ENTER (start lbl_digit_state)).s.incomplete_alpha = true
      ∧ aget (keydown_command_entry refEngine 1 KEY_ENTER (start lbl_digit_state)).s.incomplete_str 0
          = digit_char 7
      ∧ (keydown_command_entry refEngine 1 KEY_ENTER (start lbl_digit_state)).s.incomplete_length = 1
      ∧ (keydown_command_entry refEngine 1 KEY_ENTER (start lbl_digit_state)).s.incomplete_num = 0
      ∧ (keydown_command_entry refEngine 1 KEY_ENTER (start lbl_digit_state)).s.mode_commandmenu
          = MENU_ALPHA1
      ∧ (keydown_command_entry refEngine 1 KEY_ENTER (start lbl_digit_state)).s.pending_command
          = (start lbl_digit_state).s.pending_command
      ∧ ((start lbl_digit_state).s.pending_command = CMD_NONE
          → (keydown_command_entry refEngine 1 KEY_ENTER (start lbl_digit_state)).s.pending_command
              = CMD_NONE) :=
  C20_numeric_lbl_switches_to_alpha refEngine (start lbl_digit_state) 7 (fun _ => rfl)
    (by decide) (by decide) (by decide) (by decide) (by decide) (by decide)

/-! ## C19: the empty string as argument -/

theorem Flow_next_go (st : St) (k : St → St) : (Flow.go st).next k = k st := rfl

/-- During the entry of an alpha argument, the key `ENTER` reaches the code of
lines 1787-1870, unless the stack-register menu is the command menu: then the
key is rejected. -/
theorem command_entry_enter_alpha (E : Engine) (shift : Int) (st : St)
    (hkey : E.ask (.find_menu_key KEY_ENTER) st.s = -1)
    (halpha : st.s.incomplete_alpha = true)
    (hckey : st.s.incomplete_argtype ≠ ARG_CKEY) (hmkey : st.s.incomplete_argtype ≠ ARG_MKEY) :
    keydown_command_entry E shift KEY_ENTER st
      = if st.s.mode_commandmenu = MENU_ST ∨ st.s.mode_commandmenu = MENU_IND_ST then
          (st.mark .enter_command_entry).call E .squeak
        else command_entry_alpha_enter E (st.mark .enter_command_entry) := by
  have hk : E.ask (.find_menu_key KEY_ENTER) (st.mark .enter_command_entry).s = -1 := hkey
  unfold keydown_command_entry
  by_cases hm : st.s.mode_commandmenu = MENU_ST ∨ st.s.mode_commandmenu = MENU_IND_ST
  · rw [if_pos hm]
    refine (if_pos hm).trans ?_
    unfold command_entry_st
    rw [hk]
    simp
  · rw [if_neg hm]
    refine (if_neg hm).trans ?_
    have hdk : digit_key_of_char KEY_ENTER = KEY_ENTER := by decide
    have hl : ∀ menu : Int, ¬ lbl_alpha_key shift KEY_ENTER menu := by
      intro menu
      unfold lbl_alpha_key is_menu_key is_digit_key
      simp
    simp only [hdk, ite_self]
    refine (if_neg (fun h => hl _ h.2)).trans ?_
    refine (if_neg (by simp)).trans ?_
    refine (if_neg (by simp)).trans ?_
    refine (if_neg (by simp [St.mark, halpha])).trans ?_
    unfold command_entry_rest
    simp only [hdk, ite_self]
    refine (if_neg hckey).trans ?_
    refine (if_neg hmkey).trans ?_
    have h1 : (if (st.mark .enter_command_entry).s.mode_commandmenu = MENU_CATALOG then
          command_entry_catalog E shift KEY_ENTER (st.mark .enter_command_entry)
        else Flow.go (st.mark .enter_command_entry)) = Flow.go (st.mark .enter_command_entry) := by
      unfold command_entry_catalog
      rw [hk]
      simp
    rw [h1, Flow_next_go]
    have h2 : (if (st.mark .enter_command_entry).s.mode_commandmenu = MENU_VARMENU then
          command_entry_varmenu E shift KEY_ENTER (st.mark .enter_command_entry)
        else if (st.mark .enter_command_entry).s.mode_commandmenu = MENU_INTEG_PARAMS then
          command_entry_integ_params E KEY_ENTER (st.mark .enter_command_entry)
        else Flow.go (st.mark .enter_command_entry)) = Flow.go (st.mark .enter_command_entry) := by
      unfold command_entry_varmenu command_entry_integ_params
      rw [hk]
      simp
    rw [h2, Flow_next_go]
    rw [if_neg (by simp [St.mark, halpha])]
    unfold command_entry_alpha
    rw [hk]
    refine (if_neg (by simp)).trans ?_
    refine (if_neg (by simp)).trans ?_
    have h3 : command_entry_alpha_dot E shift KEY_ENTER (st.mark .enter_command_entry)
        = Flow.go (st.mark .enter_command_entry) := by
      unfold command_entry_alpha_dot
      simp
    rw [h3, Flow_next_go]
    refine (if_neg (by simp)).trans ?_
    have h4 : char_of_key shift KEY_ENTER = none := by
      unfold char_of_key
      simp
    rw [h4]
    simp only [Option.elim, ite_self]
    unfold command_entry_alpha_nochar
    simp

/-- C19: during the entry of an alpha argument (`incomplete_alpha` set, the key
selections `ARG_CKEY` and `ARG_MKEY` apart) with `incomplete_length` 0, the key
`ENTER` commits a command if and only if `incomplete_command` is one of
`CMD_ASSIGNa`, `CMD_CLP`, `CMD_PRP`, `CMD_XSTR` and `mode_commandmenu` lies in
`MENU_ALPHA1`..`MENU_ALPHA_MISC2`. Then `pending_command` is assigned
`incomplete_command`, the argument gets the length 0 and its string type, and
`finish_command_entry(true)` is called. In every other case the handler assigns
nothing: it asks for the command menu `MENU_ALPHA1` and a redisplay, or it
rejects the key with `squeak()`, and no command is handed over to the engine.
`ENTER` is assumed not to be a soft key (`find_menu_key` returns -1). -/
theorem C19_empty_string_argument (E : Engine) (shift : Int) (s : State)
    (hkey : E.ask (.find_menu_key KEY_ENTER) s = -1)
    (halpha : s.incomplete_alpha = true) (hlen : s.incomplete_length = 0)
    (hckey : s.incomplete_argtype ≠ ARG_CKEY) (hmkey : s.incomplete_argtype ≠ ARG_MKEY) :
    ((takes_empty_string s.incomplete_command ∧ is_alpha_menu s.mode_commandmenu) →
        ∃ pre : St, keydown_command_entry E shift KEY_ENTER (start s)
            = pre.call E (.finish_command_entry true)
          ∧ pre.tr = [Call.enter_command_entry]
          ∧ pre.s = { s with
              pending_command := s.incomplete_command,
              pending_command_arg :=
                if s.incomplete_argtype = ARG_XSTR then
                  { s.pending_command_arg with
                    type := ARGTYPE_XSTR, xstr := s.incomplete_str, length := 0 }
                else
                  { s.pending_command_arg with
                    type := if s.incomplete_ind then ARGTYPE_IND_STR else ARGTYPE_STR,
                    length := 0 } })
      ∧ (¬ (takes_empty_string s.incomplete_command ∧ is_alpha_menu s.mode_commandmenu) →
          keydown_command_entry E shift KEY_ENTER (start s)
              = (((start s).mark .enter_command_entry).call E
                  (.set_menu MENULEVEL_COMMAND MENU_ALPHA1)).call E .redisplay
            ∨ keydown_command_entry E shift KEY_ENTER (start s)
              = ((start s).mark .enter_command_entry).call E .squeak)
      ∧ ((keydown_command_entry E shift KEY_ENTER (start s)).tr.any Call.is_handoff = true
          ↔ (takes_empty_string s.incomplete_command ∧ is_alpha_menu s.mode_commandmenu)) := by
  rw [command_entry_enter_alpha E shift (start s) hkey halpha hckey hmkey]
  by_cases hst : (start s).s.mode_commandmenu = MENU_ST ∨ (start s).s.mode_commandmenu = MENU_IND_ST
  · rw [if_pos hst]
    have hna : ¬ (takes_empty_string s.incomplete_command ∧ is_alpha_menu s.mode_commandmenu) := by
      rintro ⟨-, h1, h2⟩
      rcases hst with h | h <;> · simp only [start] at h; rw [h] at h2; revert h2; decide
    refine ⟨fun h => absurd h hna, fun _ => Or.inr rfl, ?_⟩
    simp [hna, St.call, St.mark, start]
  · rw [if_neg hst]
    unfold command_entry_alpha_enter
    simp only [St.mark, start, hlen, if_true]
    by_cases h1 : s.mode_commandmenu = MENU_NONE
        ∨ (s.mode_commandmenu = MENU_CATALOG
            ∧ (E.ask .get_cat_section s = CATSECT_TOP ∨ E.ask .get_cat_section s = CATSECT_EXT_1
                ∨ E.ask .get_cat_section s = CATSECT_EXT_2
                ∨ E.ask .get_cat_section s = CATSECT_PGM_ONLY
                ∨ E.ask .get_cat_section s = CATSECT_REAL_ONLY
                ∨ E.ask .get_cat_section s = CATSECT_MAT_ONLY
                ∨ E.ask .get_cat_section s = CATSECT_LIST_STR_ONLY
                ∨ E.ask .get_cat_section s = CATSECT_MAT_LIST_ONLY
                ∨ E.ask .get_cat_section s = CATSECT_LIST_ONLY
                ∨ E.ask .get_cat_section s = CATSECT_VARS_ONLY))
    · rw [if_pos h1]
      have hna : ¬ (takes_empty_string s.incomplete_command ∧ is_alpha_menu s.mode_commandmenu) := by
        rintro ⟨-, h2, h3⟩
        rcases h1 with h | ⟨h, -⟩ <;> · rw [h] at h2 h3; revert h2 h3; decide
      refine ⟨fun h => absurd h hna, fun _ => Or.inl rfl, ?_⟩
      simp [hna, St.call]
    · rw [if_neg h1]
      by_cases h2 : (s.incomplete_command ≠ CMD_ASSIGNa ∧ s.incomplete_command ≠ CMD_CLP
            ∧ s.incomplete_command ≠ CMD_PRP ∧ s.incomplete_command ≠ CMD_XSTR)
          ∨ s.mode_commandmenu < MENU_ALPHA1 ∨ s.mode_commandmenu > MENU_ALPHA_MISC2
      · rw [if_pos h2]
        have hna : ¬ (takes_empty_string s.incomplete_command ∧ is_alpha_menu s.mode_commandmenu) := by
          unfold takes_empty_string is_alpha_menu
          rintro ⟨h3, h4, h5⟩
          rcases h2 with ⟨a, b, c, d⟩ | h | h
          · rcases h3 with h | h | h | h <;> contradiction
          · omega
          · omega
        refine ⟨fun h => absurd h hna, fun _ => Or.inr rfl, ?_⟩
        simp [hna, St.call]
      · rw [if_neg h2]
        have ha : takes_empty_string s.incomplete_command ∧ is_alpha_menu s.mode_commandmenu := by
          unfold takes_empty_string is_alpha_menu
          push_neg at h2
          obtain ⟨h3, h4, h5⟩ := h2
          refine ⟨?_, by omega, by omega⟩
          by_contra hc
          push_neg at hc
          exact hc.2.2.2 (h3 hc.1 hc.2.1 hc.2.2.1)
        have hxeq : s.incomplete_command ≠ CMD_XEQ := by
          rcases ha.1 with h | h | h | h <;> rw [h] <;> decide
        have hll : ∀ (ind : Bool) (c : Nat), ¬ is_local_label ind s.incomplete_command 0 c := by
          intro ind c h
          exact absurd h.2.2.1 (by decide)
        unfold command_entry_alpha_complete
        simp only [St.upd, hlen]
        rw [if_neg (hll _ _)]
        refine ⟨fun _ => ?_, fun h => absurd ha h, ?_⟩
        · by_cases hx : s.incomplete_argtype = ARG_XSTR
          · simp only [hx, if_true]
            rw [if_neg (by simp [hxeq])]
            exact ⟨_, rfl, rfl, rfl⟩
          · simp only [hx, if_false]
            rw [if_neg (by simp [hxeq])]
            refine ⟨_, rfl, rfl, ?_⟩
            simp [acopy]
        · simp only [ha, and_self, iff_true]
          by_cases hx : s.incomplete_argtype = ARG_XSTR
          · simp only [hx, if_true]
            rw [if_neg (by simp [hxeq])]
            simp [St.call]
          · simp only [hx, if_false]
            rw [if_neg (by simp [hxeq])]
            simp [St.call]

/-- Witness of C19: `CLP` followed by `ENTER` with the ALPHA menu as command menu. -/
theorem C19_empty_string_argument_witness :
    ((takes_empty_string clp_alpha_state.incomplete_command
          ∧ is_alpha_menu clp_alpha_state.mode_commandmenu) →
        ∃ pre : St, keydown_command_entry refEngine 0 KEY_ENTER (start clp_alpha_state)
            = pre.call refEngine (.finish_command_entry true)
          ∧ pre.tr = [Call.enter_command_entry]
          ∧ pre.s = { clp_alpha_state with
              pending_command := clp_alpha_state.incomplete_command,
              pending_command_arg :=
                if clp_alpha_state.incomplete_argtype = ARG_XSTR then
                  { clp_alpha_state.pending_command_arg with
                    type := ARGTYPE_XSTR, xstr := clp_alpha_state.incomplete_str, length := 0 }
                else
                  { clp_alpha_state.pending_command_arg with
                    type := if clp_alpha_state.incomplete_ind then ARGTYPE_IND_STR else ARGTYPE_STR,
                    length := 0 } })
      ∧ (¬ (takes_empty_string clp_alpha_state.incomplete_command
              ∧ is_alpha_menu clp_alpha_state.mode_commandmenu) →
          keydown_command_entry refEngine 0 KEY_ENTER (start clp_alpha_state)
              = (((start clp_alpha_state).mark .enter_command_entry).call refEngine
                  (.set_menu MENULEVEL_COMMAND MENU_ALPHA1)).call refEngine .redisplay
            ∨ keydown_command_entry refEngine 0 KEY_ENTER (start clp_alpha_state)
              = ((start clp_alpha_state).mark .enter_command_entry).call refEngine .squeak)
      ∧ ((keydown_command_entry refEngine 0 KEY_ENTER (start clp_alpha_state)).tr.any
            Call.is_handoff = true
          ↔ (takes_empty_string clp_alpha_state.incomplete_command
              ∧ is_alpha_menu clp_alpha_state.mode_commandmenu)) :=
  C19_empty_string_argument refEngine 0 clp_alpha_state (by decide) (by decide) (by decide)
    (by decide) (by decide)

/-! ## C13: menu navigation in normal mode -/

/-- The keys `UP`, `DOWN` and `EXIT` reach the menu block of `keydown_normal_mode`
when a menu is in front. -/
theorem normal_mode_reaches_menu (E : Engine) (shift key : Int) (s : State)
    (hk : key = KEY_UP ∨ key = KEY_DOWN ∨ key = KEY_EXIT)
    (hfront : normal_front_menu s ≠ MENU_NONE)
    (halpha : s.mode_alphamenu = MENU_NONE) (hcommand : s.mode_commandmenu = MENU_NONE) :
    keydown_normal_mode E shift key (start s)
      = (normal_mode_menu E shift key ((start s).mark .enter_normal_mode)).next
          fun st => normal_mode_plain E shift key st := by
  have hnk : (is_number_key E shift key s).1 = false := by
    unfold is_number_key
    rcases hk with rfl | rfl | rfl <;> simp <;> split_ifs <;> simp
  have hf : (s.mode_appmenu ≠ MENU_NONE ∨ s.mode_plainmenu ≠ MENU_NONE
      ∨ s.mode_transientmenu ≠ MENU_NONE) := by
    unfold normal_front_menu at hfront
    by_contra hc
    push_neg at hc
    simp [hc.1, hc.2.1, hc.2.2] at hfront
  unfold keydown_normal_mode
  simp only [St.mark, start]
  rw [if_neg (by simp [hnk])]
  rw [if_neg (by rcases hk with rfl | rfl | rfl <;> simp)]
  rw [if_pos ⟨hf, halpha, hcommand⟩]

/-- C13: in normal mode with a menu `m` in front at level `l` (transient before
plain before application; no ALPHA or command menu), `m` not being one of the
menus with their own navigation, unshifted `UP` calls `set_menu(l, menus[m].prev)`
and unshifted `DOWN` calls `set_menu(l, menus[m].next)`, followed by a redisplay,
when that entry is not `MENU_NONE`, and otherwise they do nothing at all; `EXIT`
calls `set_menu(l, menus[m].parent)` and sets `pending_command` to
`CMD_CANCELLED`. The three keys are assumed not to be soft keys, and the trace
line printed for `EXIT` is assumed to leave the edit stack of the matrix editor
alone. -/
theorem C13_menu_navigation_follows_table (E : Engine) (shift : Int) (s : State)
    (hkeys : ∀ key, key = KEY_UP ∨ key = KEY_DOWN ∨ key = KEY_EXIT →
      E.ask (.find_menu_key key) s = -1)
    (hprint : E.leaves (.print_menu_trace "EXIT" 4) (fun s => s.matedit_stack_depth))
    (hfront : normal_front_menu s ≠ MENU_NONE)
    (halpha : s.mode_alphamenu = MENU_NONE) (hcommand : s.mode_commandmenu = MENU_NONE)
    (hplain : ¬ special_navigation s (normal_front_menu s)) :
    keydown_normal_mode E 0 KEY_UP (start s)
        = (if (E.menus (normal_front_menu s)).prev ≠ MENU_NONE then
            (((start s).mark .enter_normal_mode).call E
              (.set_menu (normal_front_level s) (E.menus (normal_front_menu s)).prev)).call E
                .redisplay
          else (start s).mark .enter_normal_mode)
      ∧ keydown_normal_mode E 0 KEY_DOWN (start s)
        = (if (E.menus (normal_front_menu s)).next ≠ MENU_NONE then
            (((start s).mark .enter_normal_mode).call E
              (.set_menu (normal_front_level s) (E.menus (normal_front_menu s)).next)).call E
                .redisplay
          else (start s).mark .enter_normal_mode)
      ∧ keydown_normal_mode E shift KEY_EXIT (start s)
        = set_pending CMD_CANCELLED
            ((((start s).mark .enter_normal_mode).call E (.print_menu_trace "EXIT" 4)).call E
              (.set_menu (normal_front_level s) (E.menus (normal_front_menu s)).parent))
      ∧ (keydown_normal_mode E shift KEY_EXIT (start s)).s.pending_command = CMD_CANCELLED := by
  have hm : normal_front_menu s ≠ MENU_CATALOG ∧ normal_front_menu s ≠ MENU_VARMENU
      ∧ normal_front_menu s ≠ MENU_PROGRAMMABLE
      ∧ ¬ (s.flags.local_label ∧ (normal_front_menu s = MENU_CUSTOM1
            ∨ normal_front_menu s = MENU_CUSTOM2 ∨ normal_front_menu s = MENU_CUSTOM3))
      ∧ ¬ ((normal_front_menu s = MENU_MATRIX_EDIT1 ∨ normal_front_menu s = MENU_MATRIX_EDIT2)
            ∧ s.matedit_stack_depth > 0) := by
    unfold special_navigation at hplain
    push_neg at hplain
    refine ⟨hplain.1, hplain.2.1, hplain.2.2.1, ?_, ?_⟩
    · push_neg; exact hplain.2.2.2.1
    · push_neg; exact hplain.2.2.2.2
  obtain ⟨hcat, hvar, hprog, hcustom, hmat⟩ := hm
  have hmenu : ∀ (sh key : Int), key = KEY_UP ∨ key = KEY_DOWN ∨ key = KEY_EXIT →
      normal_mode_menu E sh key ((start s).mark .enter_normal_mode)
        = if sh = 0 ∧ (key = KEY_UP ∨ key = KEY_DOWN) then
            Flow.ret (normal_mode_menu_updown E key (normal_front_menu s) (normal_front_level s)
              ((start s).mark .enter_normal_mode))
          else if key = KEY_EXIT then
            Flow.ret (normal_mode_menu_exit E (normal_front_menu s) (normal_front_level s)
              ((start s).mark .enter_normal_mode))
          else Flow.go ((start s).mark .enter_normal_mode) := by
    intro sh key hk
    have hmk : E.ask (.find_menu_key key) ((start s).mark .enter_normal_mode).s = -1 := hkeys key hk
    unfold normal_mode_menu
    rw [hmk]
    refine (if_neg (fun h => hprog h.1)).trans ?_
    refine (congrArg (fun f : Flow => f.bind _) (if_neg hvar)).trans ?_
    rfl
  have hret : ∀ (r : St) (k : St → St), (Flow.ret r).next k = r := fun _ _ => rfl
  have hexit : keydown_normal_mode E shift KEY_EXIT (start s)
      = set_pending CMD_CANCELLED
          ((((start s).mark .enter_normal_mode).call E (.print_menu_trace "EXIT" 4)).call E
            (.set_menu (normal_front_level s) (E.menus (normal_front_menu s)).parent)) := by
    rw [normal_mode_reaches_menu E shift KEY_EXIT s (Or.inr (Or.inr rfl)) hfront halpha hcommand,
      hmenu shift KEY_EXIT (Or.inr (Or.inr rfl)), if_neg (by simp), if_pos rfl, hret]
    unfold normal_mode_menu_exit
    have hd : (((start s).mark .enter_normal_mode).call E
        (.print_menu_trace "EXIT" 4)).s.matedit_stack_depth = s.matedit_stack_depth := hprint s
    refine (if_neg hcat).trans ?_
    refine (if_neg (by rw [hd]; exact hmat)).trans ?_
    rfl
  refine ⟨?_, ?_, hexit, by rw [hexit]; rfl⟩
  · rw [normal_mode_reaches_menu E 0 KEY_UP s (Or.inl rfl) hfront halpha hcommand,
      hmenu 0 KEY_UP (Or.inl rfl), if_pos ⟨rfl, Or.inl rfl⟩, hret]
    unfold normal_mode_menu_updown
    refine (if_neg hcat).trans ?_
    refine (if_neg hcustom).trans ?_
    simp
  · rw [normal_mode_reaches_menu E 0 KEY_DOWN s (Or.inr (Or.inl rfl)) hfront halpha hcommand,
      hmenu 0 KEY_DOWN (Or.inr (Or.inl rfl)), if_pos ⟨rfl, Or.inr rfl⟩, hret]
    unfold normal_mode_menu_updown
    refine (if_neg hcat).trans ?_
    refine (if_neg hcustom).trans ?_
    simp

/-- Witness of C13: the menu `MENU_TOP_FCN` as plain menu on the reference engine. -/
theorem C13_menu_navigation_follows_table_witness :
    keydown_normal_mode refEngine 0 KEY_UP (start top_fcn_state)
        = (if (refEngine.menus (normal_front_menu top_fcn_state)).prev ≠ MENU_NONE then
            (((start top_fcn_state).mark .enter_normal_mode).call refEngine
              (.set_menu (normal_front_level top_fcn_state)
                (refEngine.menus (normal_front_menu top_fcn_state)).prev)).call refEngine
                .redisplay
          else (start top_fcn_state).mark .enter_normal_mode)
      ∧ keydown_normal_mode refEngine 0 KEY_DOWN (start top_fcn_state)
        = (if (refEngine.menus (normal_front_menu top_fcn_state)).next ≠ MENU_NONE then
            (((start top_fcn_state).mark .enter_normal_mode).call refEngine
              (.set_menu (normal_front_level top_fcn_state)
                (refEngine.menus (normal_front_menu top_fcn_state)).next)).call refEngine
                .redisplay
          else (start top_fcn_state).mark .enter_normal_mode)
      ∧ keydown_normal_mode refEngine 0 KEY_EXIT (start top_fcn_state)
        = set_pending CMD_CANCELLED
            ((((start top_fcn_state).mark .enter_normal_mode).call refEngine
                (.print_menu_trace "EXIT" 4)).call refEngine
              (.set_menu (normal_front_level top_fcn_state)
                (refEngine.menus (normal_front_menu top_fcn_state)).parent))
      ∧ (keydown_normal_mode refEngine 0 KEY_EXIT (start top_fcn_state)).s.pending_command
          = CMD_CANCELLED :=
  C13_menu_navigation_follows_table refEngine 0 top_fcn_state
    (fun key hk => by rcases hk with rfl | rfl | rfl <;> rfl) (fun _ => rfl)
    (by decide) rfl rfl (by decide)

/-! ## C14: the key numbers delivered to `GETKEY` -/

theorem keydown_reaches_getkey (E : Engine) (shift key : Int) (s : State)
    (hkey : 1 ≤ key ∧ key ≤ 37) (hclall : s.mode_clall = false) (hgetkey : s.mode_getkey = true) :
    keydown E shift key (start s) = keydown_getkey E shift key (start (after_entry shift s)) := by
  unfold keydown
  refine (if_neg (by omega)).trans ?_
  refine (if_neg (by omega)).trans ?_
  refine (if_neg (by simp [start, St.upd, set_pending, hclall])).trans ?_
  refine (if_pos (by simp [start, St.upd, set_pending, hgetkey])).trans ?_
  rfl

/-- C14 as stated fails: when no memory is left for the number, the key is not
delivered: `recall_result` is not called, and the error "Insufficient Memory" is
shown. -/
theorem C14_counterexample :
    getkey_state.mode_getkey = true ∧ getkey_state.mode_clall = false
      ∧ (keydown fullEngine 0 KEY_SIN (start getkey_state)).tr.any Call.is_recall_result = false
      ∧ (keydown fullEngine 0 KEY_SIN (start getkey_state)).tr.any Call.is_insufficient_memory
          = true := by
  decide

/-- C14, amended: while `GETKEY` waits for a key (`mode_getkey` set, `mode_clall`
clear), for a key code from 1 to 37 the number of the key is the key code when
`shift` is 0 and the key code plus 37 otherwise, a value in 1..74 also for
Shift-EXIT. When the engine has memory for a new real, `keydown` hands this
number to `recall_result`, as its first call, and no other number; when it has
none, `recall_result` is not called and the error "Insufficient Memory" is
shown. In both cases `keydown` clears `mode_getkey` and returns with
`pending_command` equal to `CMD_NONE`, the calls `recall_result`,
`display_error`, `set_running` and `redisplay` being assumed to leave these two
variables alone. -/
theorem C14_getkey_key_numbering (E : Engine) (shift key : Int) (s : State)
    (hE : ∀ c, Call.in_getkey c = true →
      E.leaves c (fun s => (s.pending_command, s.mode_getkey)))
    (hkey : 1 ≤ key ∧ key ≤ 37) (hclall : s.mode_clall = false) (hgetkey : s.mode_getkey = true) :
    1 ≤ (if shift ≠ 0 then key + 37 else key) ∧ (if shift ≠ 0 then key + 37 else key) ≤ 74
      ∧ (E.ask .new_real_ok (after_entry shift s) ≠ 0 →
          (keydown E shift key (start s)).tr.head?
            = some (Call.recall_result
                { type := TYPE_REAL, x := phloat.of_int (if shift ≠ 0 then key + 37 else key) }))
      ∧ (∀ c ∈ (keydown E shift key (start s)).tr, Call.is_recall_result c = true →
          Call.delivers (if shift ≠ 0 then key + 37 else key) c = true)
      ∧ (E.ask .new_real_ok (after_entry shift s) = 0 →
          (keydown E shift key (start s)).tr.any Call.is_recall_result = false
            ∧ (keydown E shift key (start s)).tr.any Call.is_insufficient_memory = true)
      ∧ (keydown E shift key (start s)).s.mode_getkey = false
      ∧ (keydown E shift key (start s)).s.pending_command = CMD_NONE := by
  have hp : ∀ (c : Call) (s : State), Call.in_getkey c = true →
      (E.run c s).pending_command = s.pending_command := by
    intro c s hc
    exact congrArg Prod.fst (hE c hc s)
  have hg : ∀ (c : Call) (s : State), Call.in_getkey c = true →
      (E.run c s).mode_getkey = s.mode_getkey := by
    intro c s hc
    exact congrArg Prod.snd (hE c hc s)
  have hn : ¬ (key ≥ 2048) := by omega
  refine ⟨by split_ifs <;> omega, by split_ifs <;> omega, ?_⟩
  rw [keydown_reaches_getkey E shift key s hkey hclall hgetkey]
  unfold keydown_getkey
  rw [if_neg (fun h => hn h.1)]
  simp only [if_neg hn]
  generalize (if shift ≠ 0 then key + 37 else key) = n
  have hs : (start (after_entry shift s)).s = after_entry shift s := rfl
  rw [hs]
  by_cases hmem : E.ask .new_real_ok (after_entry shift s) ≠ 0
  · simp only [if_pos hmem]
    refine ⟨fun _ => ?_, ?_, fun h => absurd h hmem, ?_, ?_⟩
    · split_ifs <;> simp [St.call, St.upd, start]
    · split_ifs <;> simp [St.call, St.upd, start]
    · split_ifs <;> simp [St.call, St.upd, start, hg]
    · split_ifs <;> simp [St.call, St.upd, start, hp, after_entry]
  · simp only [if_neg hmem]
    refine ⟨fun h => absurd h hmem, ?_, fun _ => ⟨?_, ?_⟩, ?_, ?_⟩
    · split_ifs <;> simp [St.call, St.upd, start]
    · split_ifs <;> simp [St.call, St.upd, start]
    · split_ifs <;> simp [St.call, St.upd, start]
    · split_ifs <;> simp [St.call, St.upd, start, hg]
    · split_ifs <;> simp [St.call, St.upd, start, hp, after_entry]

/-- Witness of C14 (amended): the key `SIN`, shifted, on the reference engine. -/
theorem C14_getkey_key_numbering_witness :
    1 ≤ (if (1 : Int) ≠ 0 then KEY_SIN + 37 else KEY_SIN)
      ∧ (if (1 : Int) ≠ 0 then KEY_SIN + 37 else KEY_SIN) ≤ 74
      ∧ (refEngine.ask .new_real_ok (after_entry 1 getkey_state) ≠ 0 →
          (keydown refEngine 1 KEY_SIN (start getkey_state)).tr.head?
            = some (Call.recall_result
                { type := TYPE_REAL,
                  x := phloat.of_int (if (1 : Int) ≠ 0 then KEY_SIN + 37 else KEY_SIN) }))
      ∧ (∀ c ∈ (keydown refEngine 1 KEY_SIN (start getkey_state)).tr,
          Call.is_recall_result c = true →
          Call.delivers (if (1 : Int) ≠ 0 then KEY_SIN + 37 else KEY_SIN) c = true)
      ∧ (refEngine.ask .new_real_ok (after_entry 1 getkey_state) = 0 →
          (keydown refEngine 1 KEY_SIN (start getkey_state)).tr.any Call.is_recall_result = false
            ∧ (keydown refEngine 1 KEY_SIN (start getkey_state)).tr.any
                Call.is_insufficient_memory = true)
      ∧ (keydown refEngine 1 KEY_SIN (start getkey_state)).s.mode_getkey = false
      ∧ (keydown refEngine 1 KEY_SIN (start getkey_state)).s.pending_command = CMD_NONE :=
  C14_getkey_key_numbering refEngine 1 KEY_SIN getkey_state
    (fun c hc s => by cases c <;> first | rfl | simp at hc)
    (by decide) (by decide) (by decide)

/-! ## C16: the menu A...F during number entry in base 16 -/

/-- In base 16 with the BASE menu in front, the first menu key goes to
`keydown_number_entry(-1, -1)`. -/
theorem keydown_sigma_base16 (E : Engine) (shift : Int) (s : State)
    (hclall : s.mode_clall = false) (hgetkey : s.mode_getkey = false)
    (hne : s.mode_number_entry ≠ 0)
    (hbase : E.ask .get_base (after_prologue shift s) = 16)
    (hfront : E.ask .get_front_menu (after_prologue shift s) = MENU_BASE1) :
    keydown E shift KEY_SIGMA (start s)
      = draw_number E
          ((((start (after_prologue shift s)).mark .enter_number_entry).call E
            (.set_menu MENULEVEL_APP MENU_BASE_A_THRU_F)).call E .redisplay) := by
  unfold keydown
  refine (if_neg (by simp)).trans ?_
  refine (if_neg (by simp)).trans ?_
  refine (if_neg (by simp [start, St.upd, set_pending, hclall])).trans ?_
  refine (if_neg (by simp [start, St.upd, set_pending, hgetkey])).trans ?_
  unfold keydown_main
  refine (if_neg (by simp)).trans ?_
  refine (if_neg (by simp)).trans ?_
  refine (if_neg (by simp)).trans ?_
  refine (if_pos ⟨hne, hbase, rfl, hfront⟩).trans ?_
  unfold keydown_number_entry
  refine (if_pos rfl).trans ?_
  rfl

/-- C16 as stated fails: while the `CLALL` confirmation waits for a key, the first
menu key confirms it: a command is pending on return and the application menu
is still `MENU_BASE1`. -/
theorem C16_counterexample :
    ({ base16_entry_state with mode_clall := true } : State).mode_number_entry ≠ 0
      ∧ refEngine.ask .get_base { base16_entry_state with mode_clall := true } = 16
      ∧ refEngine.ask .get_front_menu { base16_entry_state with mode_clall := true } = MENU_BASE1
      ∧ (keydown refEngine 0 KEY_SIGMA
          (start { base16_entry_state with mode_clall := true })).s.pending_command ≠ CMD_NONE
      ∧ (keydown refEngine 0 KEY_SIGMA
          (start { base16_entry_state with mode_clall := true })).s.mode_appmenu
          ≠ MENU_BASE_A_THRU_F := by
  decide

/-- C16, amended: during number entry in base 16 with `MENU_BASE1` in front, and
with neither the `CLALL` confirmation nor `GETKEY` waiting for a key,
`keydown(shift, KEY_SIGMA)` calls `set_menu(MENULEVEL_APP, MENU_BASE_A_THRU_F)`
and returns with `mode_number_entry`, `cmdline` and `cmdline_length` as they were
and with no pending command; the application menu is `MENU_BASE_A_THRU_F` on
return. Assumed of the engine: the results of its queries do not depend on the
shift and message flags and on `pending_command`; `set_menu` and the display
routines leave the variables of number entry and `pending_command` alone;
`set_menu` assigns the application menu and the display routines leave it
alone. -/
theorem C16_a_thru_f_menu_keeps_number_entry (E : Engine) (shift : Int) (s : State)
    (hq : ∀ q s, E.ask q (after_prologue shift s) = E.ask q s)
    (hE : ∀ c, Call.is_display c = true ∨ Call.is_menu c = true → E.leaves c number_entry_vars)
    (hset : ∀ s, (E.run (.set_menu MENULEVEL_APP MENU_BASE_A_THRU_F) s).mode_appmenu
      = MENU_BASE_A_THRU_F)
    (hdisp : ∀ c, Call.is_display c = true → E.leaves c (fun s => s.mode_appmenu))
    (hclall : s.mode_clall = false) (hgetkey : s.mode_getkey = false)
    (hne : s.mode_number_entry ≠ 0) (hbase : E.ask .get_base s = 16)
    (hfront : E.ask .get_front_menu s = MENU_BASE1) :
    (keydown E shift KEY_SIGMA (start s)).s.mode_number_entry = s.mode_number_entry
      ∧ (keydown E shift KEY_SIGMA (start s)).s.cmdline = s.cmdline
      ∧ (keydown E shift KEY_SIGMA (start s)).s.cmdline_length = s.cmdline_length
      ∧ (keydown E shift KEY_SIGMA (start s)).tr.any Call.is_a_thru_f_menu = true
      ∧ (keydown E shift KEY_SIGMA (start s)).s.mode_appmenu = MENU_BASE_A_THRU_F
      ∧ (keydown E shift KEY_SIGMA (start s)).s.pending_command = CMD_NONE := by
  have hv : ∀ (c : Call) (s : State), Call.is_display c = true ∨ Call.is_menu c = true →
      (E.run c s).mode_number_entry = s.mode_number_entry ∧ (E.run c s).cmdline = s.cmdline
        ∧ (E.run c s).cmdline_length = s.cmdline_length
        ∧ (E.run c s).pending_command = s.pending_command := by
    intro c s hc
    have h := hE c hc s
    simp only [number_entry_vars, Prod.mk.injEq] at h
    exact h
  have h1 : ∀ (c : Call) (s : State), Call.is_display c = true ∨ Call.is_menu c = true →
      (E.run c s).mode_number_entry = s.mode_number_entry := fun c s hc => (hv c s hc).1
  have h2 : ∀ (c : Call) (s : State), Call.is_display c = true ∨ Call.is_menu c = true →
      (E.run c s).cmdline = s.cmdline := fun c s hc => (hv c s hc).2.1
  have h3 : ∀ (c : Call) (s : State), Call.is_display c = true ∨ Call.is_menu c = true →
      (E.run c s).cmdline_length = s.cmdline_length := fun c s hc => (hv c s hc).2.2.1
  have h4 : ∀ (c : Call) (s : State), Call.is_display c = true ∨ Call.is_menu c = true →
      (E.run c s).pending_command = s.pending_command := fun c s hc => (hv c s hc).2.2.2
  have h5 : ∀ (c : Call) (s : State), Call.is_display c = true →
      (E.run c s).mode_appmenu = s.mode_appmenu := fun c s hc => hdisp c hc s
  rw [keydown_sigma_base16 E shift s hclall hgetkey hne (by rw [hq]; exact hbase)
    (by rw [hq]; exact hfront)]
  unfold draw_number
  refine ⟨?_, ?_, ?_, ?_, ?_, ?_⟩
  · simp only [St.call, St.mark, start]
    split_ifs <;> simp [h1, after_prologue]
  · simp only [St.call, St.mark, start]
    split_ifs <;> simp [h2, after_prologue]
  · simp only [St.call, St.mark, start]
    split_ifs <;> simp [h3, after_prologue]
  · simp only [St.call, St.mark, start]
    split_ifs <;> simp
  · simp only [St.call, St.mark, start]
    split_ifs <;> simp [h5, hset]
  · simp only [St.call, St.mark, start]
    split_ifs <;> simp [h4, after_prologue]

/-- Witness of C16 (amended): the key on the reference engine, shifted. -/
theorem C16_a_thru_f_menu_keeps_number_entry_witness :
    (keydown refEngine 1 KEY_SIGMA (start base16_entry_state)).s.mode_number_entry
        = base16_entry_state.mode_number_entry
      ∧ (keydown refEngine 1 KEY_SIGMA (start base16_entry_state)).s.cmdline
        = base16_entry_state.cmdline
      ∧ (keydown refEngine 1 KEY_SIGMA (start base16_entry_state)).s.cmdline_length
        = base16_entry_state.cmdline_length
      ∧ (keydown refEngine 1 KEY_SIGMA (start base16_entry_state)).tr.any Call.is_a_thru_f_menu
        = true
      ∧ (keydown refEngine 1 KEY_SIGMA (start base16_entry_state)).s.mode_appmenu
        = MENU_BASE_A_THRU_F
      ∧ (keydown refEngine 1 KEY_SIGMA (start base16_entry_state)).s.pending_command = CMD_NONE :=
  C16_a_thru_f_menu_keeps_number_entry refEngine 1 base16_entry_state
    (fun q _ => by cases q <;> rfl)
    (fun c _ s => by
      show number_entry_vars (ref_run c s) = _
      cases c <;> simp only [ref_run] <;> first | rfl | (split_ifs <;> rfl))
    (fun _ => rfl) (fun c hc s => by cases c <;> first | rfl | simp at hc)
    (by decide) (by decide) (by decide) (by decide) (by decide)

/-! ## C11: a numeric argument, digit by digit -/

theorem is_digit_key_cases (key : Int) (h : is_digit_key key) :
    key = 34 ∨ key = 29 ∨ key = 30 ∨ key = 31 ∨ key = 24 ∨ key = 25 ∨ key = 26 ∨ key = 19
      ∨ key = 20 ∨ key = 21 := h

/-- A digit key in a state that takes digits reaches the code of lines 1324-1396. -/
theorem digit_key_reaches_numeric_digit (E : Engine) (key : Int) (st : St)
    (hsoft : ∀ key s, is_digit_key key → E.ask (.find_menu_key key) s = -1)
    (hkey : is_digit_key key) (hs : takes_digits st.s)
    (hlt : st.s.incomplete_length < st.s.incomplete_maxdigits) :
    keydown_command_entry E 0 key st
      = command_entry_numeric_digit E key (st.mark .enter_command_entry) := by
  obtain ⟨halpha, hst, hindst, hckey, hmkey, hrow, hcol, hlbl⟩ := hs
  have hk : E.ask (.find_menu_key key) (st.mark .enter_command_entry).s = -1 := hsoft key _ hkey
  have hdk : digit_key_of_char key = key := by
    rcases is_digit_key_cases key hkey with h | h | h | h | h | h | h | h | h | h <;> subst h <;> decide
  have hnl : ¬ (st.s.incomplete_command = CMD_LBL ∧ st.s.incomplete_length = 0
      ∧ st.s.mode_commandmenu ≠ MENU_CATALOG) ∨ ¬ lbl_alpha_key 0 key st.s.mode_commandmenu := by
    by_cases h : st.s.incomplete_command = CMD_LBL ∧ st.s.incomplete_length = 0
        ∧ st.s.mode_commandmenu ≠ MENU_CATALOG
    · right
      unfold lbl_alpha_key is_menu_key
      have h2 : ¬ (st.s.mode_commandmenu ≥ MENU_ALPHA_ABCDE1
          ∧ st.s.mode_commandmenu ≤ MENU_ALPHA_MISC2) := fun h3 => hlbl ⟨h.1, h.2.1, h3.1, h3.2⟩
      rcases is_digit_key_cases key hkey with h | h | h | h | h | h | h | h | h | h <;> subst h <;>
        simp <;> intro a b <;> exact absurd ⟨a, b⟩ h2
    · exact Or.inl h
  unfold keydown_command_entry
  refine (if_neg (by simp [St.mark, hst, hindst])).trans ?_
  simp only [hdk, ite_self]
  refine (if_neg (fun h => by rcases hnl with h1 | h1; exact h1 h.1; exact h1 h.2)).trans ?_
  refine (if_neg (by
    rcases is_digit_key_cases key hkey with h | h | h | h | h | h | h | h | h | h <;> subst h <;> simp)).trans ?_
  refine (if_neg (by
    rcases is_digit_key_cases key hkey with h | h | h | h | h | h | h | h | h | h <;> subst h <;> simp)).trans ?_
  refine (if_neg (by simp)).trans ?_
  unfold command_entry_rest
  simp only [hdk, ite_self]
  refine (if_neg hckey).trans ?_
  refine (if_neg hmkey).trans ?_
  have hne : key ≠ KEY_UP ∧ key ≠ KEY_DOWN ∧ key ≠ KEY_EXIT ∧ key ≠ KEY_ENTER ∧ key ≠ KEY_DOT
      ∧ key ≠ KEY_SIGMA ∧ key ≠ KEY_BSP ∧ ¬ is_arith_key key := by
    unfold is_arith_key
    rcases is_digit_key_cases key hkey with h | h | h | h | h | h | h | h | h | h <;> subst h <;> decide
  obtain ⟨hup, hdown, hexit, henter, hdot, hsigma, hbsp, harith⟩ := hne
  have h1 : (if (st.mark .enter_command_entry).s.mode_commandmenu = MENU_CATALOG then
        command_entry_catalog E 0 key (st.mark .enter_command_entry)
      else Flow.go (st.mark .enter_command_entry)) = Flow.go (st.mark .enter_command_entry) := by
    unfold command_entry_catalog
    rw [hk]
    simp [hup, hdown, hexit]
  rw [h1, Flow_next_go]
  have h2 : (if (st.mark .enter_command_entry).s.mode_commandmenu = MENU_VARMENU then
        command_entry_varmenu E 0 key (st.mark .enter_command_entry)
      else if (st.mark .enter_command_entry).s.mode_commandmenu = MENU_INTEG_PARAMS then
        command_entry_integ_params E key (st.mark .enter_command_entry)
      else Flow.go (st.mark .enter_command_entry)) = Flow.go (st.mark .enter_command_entry) := by
    unfold command_entry_varmenu command_entry_integ_params
    rw [hk]
    simp [hup, hdown, hexit]
  rw [h2, Flow_next_go]
  rw [if_pos (by simp [St.mark, halpha])]
  unfold command_entry_numeric
  refine (if_neg hexit).trans ?_
  refine (if_neg (fun h => hsigma h.2.2)).trans ?_
  refine (if_neg (fun h => henter h.2)).trans ?_
  refine (if_neg (fun h => harith h.2.2.2)).trans ?_
  refine (if_neg (fun h => harith h.2.2.2)).trans ?_
  refine (if_neg (fun h => hdot h.2.2.2.2)).trans ?_
  refine (if_neg (fun h => hdot h.2.2.2)).trans ?_
  rw [if_neg henter, Flow_next_go]
  refine (if_neg (fun h => hdot h.2.2)).trans ?_
  exact if_pos ⟨hlt, rfl, hkey⟩

theorem key_digit_range (key : Int) (h : is_digit_key key) : 0 ≤ key_digit key ∧ key_digit key ≤ 9 := by
  rcases is_digit_key_cases key h with h | h | h | h | h | h | h | h | h | h <;> subst h <;> decide

theorem wrap_int_small (n : Int) (h0 : 0 ≤ n) (h1 : n ≤ 999999999) : wrap_int n = n := by
  unfold wrap_int
  omega

/-- A digit that is not the last one of the argument: it is added to the number,
and the command menu is taken away. -/
theorem numeric_digit_not_last (E : Engine) (key : Int) (st : St)
    (hp : digit_permitted st.s (key_digit key))
    (hne : st.s.incomplete_length + 1 ≠ st.s.incomplete_maxdigits) :
    command_entry_numeric_digit E key st
      = ((st.upd fun s =>
            { s with incomplete_num := wrap_int (s.incomplete_num * 10 + key_digit key),
                     incomplete_length := s.incomplete_length + 1 }).call E
          (.set_menu MENULEVEL_COMMAND MENU_NONE)).call E .redisplay := by
  obtain ⟨h1, h2⟩ := hp
  unfold command_entry_numeric_digit
  refine (if_neg (fun h => by have := h1 h.1; unfold key_digit at this; omega)).trans ?_
  refine (if_neg (fun h => by
    have := h2 ⟨h.1, by simpa using h.2.1⟩; unfold key_digit at this; omega)).trans ?_
  refine (if_neg hne).trans ?_
  rfl

/-- A conditional assignment whose condition holds. -/
theorem upd_if_pos {p : State → Prop} [DecidablePred p] (f : State → State) (x : St)
    (h : p x.s) : x.upd (fun s => if p s then f s else s) = x.upd f := by
  show ({ s := if p x.s then f x.s else x.s, tr := x.tr } : St) = _
  rw [if_pos h]
  rfl

/-- A conditional assignment whose condition does not hold. -/
theorem upd_if_neg {p : State → Prop} [DecidablePred p] (f : State → State) (x : St)
    (h : ¬ p x.s) : x.upd (fun s => if p s then f s else s) = x := by
  show ({ s := if p x.s then f x.s else x.s, tr := x.tr } : St) = _
  rw [if_neg h]

/-- The last digit of the argument: the command is completed. -/
theorem numeric_digit_last (E : Engine) (key : Int) (st : St)
    (hp : digit_permitted st.s (key_digit key))
    (hrow : st.s.incomplete_command ≠ CMD_GOTOROW) (hcol : st.s.incomplete_command ≠ CMD_GOTOCOLUMN)
    (heq : st.s.incomplete_length + 1 = st.s.incomplete_maxdigits) :
    ∃ pre : St, command_entry_numeric_digit E key st = pre.call E (.finish_command_entry true)
      ∧ pre.s.pending_command = st.s.incomplete_command
      ∧ pre.s.pending_command_arg.type
          = (if st.s.incomplete_ind then ARGTYPE_IND_NUM else ARGTYPE_NUM)
      ∧ pre.s.pending_command_arg.length = st.s.incomplete_maxdigits
      ∧ pre.s.pending_command_arg.num
          = committed_number st.s (wrap_int (st.s.incomplete_num * 10 + key_digit key)) := by
  obtain ⟨h1, h2⟩ := hp
  have hdef : command_entry_numeric_digit E key st
      = ((((((st.upd fun s =>
              { s with incomplete_num := wrap_int (s.incomplete_num * 10 + key_digit key) }).upd
            fun s => { s with incomplete_length := s.incomplete_length + 1 }).upd
            fun s => { s with pending_command := s.incomplete_command }).upd
            fun s => { s with pending_command_arg :=
              { s.pending_command_arg with
                type := if s.incomplete_ind then ARGTYPE_IND_NUM else ARGTYPE_NUM,
                length := s.incomplete_maxdigits } }).upd
            fun s =>
              if ¬ s.incomplete_ind ∧ s.incomplete_argtype = ARG_NUM11 ∧ s.incomplete_num > 11 then
                { s with incomplete_num := 11 }
              else s).upd
            fun s => { s with pending_command_arg :=
              { s.pending_command_arg with num := s.incomplete_num } }).call E
          (.finish_command_entry true) := by
    unfold command_entry_numeric_digit
    exact (if_neg (fun h => by have := h1 h.1; unfold key_digit at this; omega)).trans
      ((if_neg (fun h => by
        have := h2 ⟨h.1, by simpa using h.2.1⟩; unfold key_digit at this; omega)).trans
      ((if_pos heq).trans ((if_neg hrow).trans ((if_neg hcol).trans rfl))))
  have hpos : ∀ x : St, (¬ x.s.incomplete_ind = true ∧ x.s.incomplete_argtype = ARG_NUM11
        ∧ x.s.incomplete_num > 11) →
      (x.upd fun s =>
        if ¬ s.incomplete_ind ∧ s.incomplete_argtype = ARG_NUM11 ∧ s.incomplete_num > 11 then
          { s with incomplete_num := 11 }
        else s) = x.upd fun s => { s with incomplete_num := 11 } :=
    fun x h => upd_if_pos _ x h
  have hneg : ∀ x : St, ¬ (¬ x.s.incomplete_ind = true ∧ x.s.incomplete_argtype = ARG_NUM11
        ∧ x.s.incomplete_num > 11) →
      (x.upd fun s =>
        if ¬ s.incomplete_ind ∧ s.incomplete_argtype = ARG_NUM11 ∧ s.incomplete_num > 11 then
          { s with incomplete_num := 11 }
        else s) = x :=
    fun x h => upd_if_neg _ x h
  rw [hdef]
  by_cases hc : st.s.incomplete_ind = false ∧ st.s.incomplete_argtype = ARG_NUM11
      ∧ wrap_int (st.s.incomplete_num * 10 + key_digit key) > 11
  · rw [hpos]
    · refine ⟨_, rfl, rfl, rfl, rfl, ?_⟩
      unfold committed_number
      rw [if_pos hc]
      rfl
    · exact ⟨by simp [St.upd, hc.1], hc.2.1, hc.2.2⟩
  · rw [hneg]
    · refine ⟨_, rfl, rfl, rfl, rfl, ?_⟩
      unfold committed_number
      rw [if_neg hc]
      rfl
    · exact fun h => hc ⟨by simpa [St.upd] using h.1, h.2.1, h.2.2⟩

/-- What a digit that is not the last one leaves behind, the calls `set_menu` and
`redisplay` leaving the variables of the argument alone. -/
theorem numeric_digit_leaves (E : Engine) (d : Int) (x : St)
    (hset : E.leaves (.set_menu MENULEVEL_COMMAND MENU_NONE) numeric_entry)
    (hnone : ∀ s, (E.run (.set_menu MENULEVEL_COMMAND MENU_NONE) s).mode_commandmenu = MENU_NONE)
    (hre : E.leaves .redisplay argument_entry) :
    numeric_entry
        (((x.upd fun s =>
            { s with incomplete_num := wrap_int (s.incomplete_num * 10 + d),
                     incomplete_length := s.incomplete_length + 1 }).call E
          (.set_menu MENULEVEL_COMMAND MENU_NONE)).call E .redisplay).s
        = (x.s.incomplete_command, x.s.incomplete_argtype, x.s.incomplete_ind, x.s.incomplete_alpha,
            x.s.incomplete_maxdigits, wrap_int (x.s.incomplete_num * 10 + d),
            x.s.incomplete_length + 1)
      ∧ (((x.upd fun s =>
            { s with incomplete_num := wrap_int (s.incomplete_num * 10 + d),
                     incomplete_length := s.incomplete_length + 1 }).call E
          (.set_menu MENULEVEL_COMMAND MENU_NONE)).call E .redisplay).s.mode_commandmenu
        = MENU_NONE := by
  have hR := hre (E.run (.set_menu MENULEVEL_COMMAND MENU_NONE)
    (x.upd fun s =>
      { s with incomplete_num := wrap_int (s.incomplete_num * 10 + d),
               incomplete_length := s.incomplete_length + 1 }).s)
  have hS := hset (x.upd fun s =>
      { s with incomplete_num := wrap_int (s.incomplete_num * 10 + d),
               incomplete_length := s.incomplete_length + 1 }).s
  simp only [argument_entry, Prod.mk.injEq] at hR
  obtain ⟨r1, r2, r3, r4, r5, r6, r7, -, r9, -⟩ := hR
  constructor
  · refine Eq.trans ?_ hS
    simp only [numeric_entry, Prod.mk.injEq]
    exact ⟨r1, r2, r3, r4, r5, r6, r7⟩
  · exact r9.trans (hnone _)

/-- The digit keys of a numeric argument, typed one after the other from a state
in which `i` digits have been typed, complete the command. -/
theorem type_digit_keys_commit (E : Engine)
    (hset : E.leaves (.set_menu MENULEVEL_COMMAND MENU_NONE) numeric_entry)
    (hnone : ∀ s, (E.run (.set_menu MENULEVEL_COMMAND MENU_NONE) s).mode_commandmenu = MENU_NONE)
    (hre : E.leaves .redisplay argument_entry)
    (hsoft : ∀ key s, is_digit_key key → E.ask (.find_menu_key key) s = -1) :
    ∀ (keys : List Int) (st : St) (i : Nat), keys ≠ [] →
      (∀ key ∈ keys, is_digit_key key ∧ digit_permitted st.s (key_digit key)) →
      takes_digits st.s → st.s.incomplete_length = i →
      st.s.incomplete_maxdigits = i + keys.length → i + keys.length ≤ 9 →
      0 ≤ st.s.incomplete_num → st.s.incomplete_num < 10 ^ i →
      ∃ pre : St, type_keys E 0 keys st = pre.call E (.finish_command_entry true)
        ∧ pre.s.pending_command = st.s.incomplete_command
        ∧ pre.s.pending_command_arg.type
            = (if st.s.incomplete_ind then ARGTYPE_IND_NUM else ARGTYPE_NUM)
        ∧ pre.s.pending_command_arg.length = st.s.incomplete_maxdigits
        ∧ pre.s.pending_command_arg.num
            = committed_number st.s
                (decimal_value_from (keys.map key_digit) st.s.incomplete_num) := by
  intro keys
  induction keys with
  | nil => intro st i h; exact absurd rfl h
  | cons key rest ih =>
    intro st i _ hkeys hs hlen hmax h9 hn0 hn1
    obtain ⟨hkey, hperm⟩ := hkeys key (List.mem_cons_self _ _)
    obtain ⟨hd0, hd9⟩ := key_digit_range key hkey
    have hpow : (10 : Int) ^ i ≤ 10 ^ 8 := by
      have hi : i ≤ 8 := by simp at h9; omega
      exact pow_le_pow_right₀ (by norm_num) hi
    have hw : wrap_int (st.s.incomplete_num * 10 + key_digit key)
        = st.s.incomplete_num * 10 + key_digit key := by
      apply wrap_int_small
      · omega
      · norm_num at hpow
        omega
    have hlt : st.s.incomplete_length < st.s.incomplete_maxdigits := by
      rw [hlen, hmax]; simp
    have hstep := digit_key_reaches_numeric_digit E key st hsoft hkey hs hlt
    obtain ⟨halpha, hst, hindst, hckey, hmkey, hrow, hcol, hlbl⟩ := hs
    cases rest with
    | nil =>
      obtain ⟨pre, e1, e2, e3, e4, e5⟩ := numeric_digit_last E key (st.mark .enter_command_entry)
        hperm hrow hcol (by
          show st.s.incomplete_length + 1 = st.s.incomplete_maxdigits
          rw [hlen, hmax]; simp)
      refine ⟨pre, ?_, e2, e3, e4, ?_⟩
      · show keydown_command_entry E 0 key st = _
        rw [hstep, e1]
      · rw [e5]
        show committed_number st.s (wrap_int (st.s.incomplete_num * 10 + key_digit key)) = _
        rw [hw]
        rfl
    | cons key2 rest2 =>
      have hne : st.s.incomplete_length + 1 ≠ st.s.incomplete_maxdigits := by
        rw [hlen, hmax]; simp; omega
      have hr := numeric_digit_not_last E key (st.mark .enter_command_entry) hperm hne
      obtain ⟨hv, hm⟩ := numeric_digit_leaves E (key_digit key) (st.mark .enter_command_entry)
        hset hnone hre
      rw [← hr, ← hstep] at hv hm
      simp only [numeric_entry, Prod.mk.injEq] at hv
      obtain ⟨v1, v2, v3, v4, v5, v6, v7⟩ := hv
      have v1 : (keydown_command_entry E 0 key st).s.incomplete_command = st.s.incomplete_command := v1
      have v2 : (keydown_command_entry E 0 key st).s.incomplete_argtype = st.s.incomplete_argtype := v2
      have v3 : (keydown_command_entry E 0 key st).s.incomplete_ind = st.s.incomplete_ind := v3
      have v4 : (keydown_command_entry E 0 key st).s.incomplete_alpha = st.s.incomplete_alpha := v4
      have v5 : (keydown_command_entry E 0 key st).s.incomplete_maxdigits
          = st.s.incomplete_maxdigits := v5
      have v6 : (keydown_command_entry E 0 key st).s.incomplete_num
          = st.s.incomplete_num * 10 + key_digit key := by rw [← hw]; exact v6
      have v7 : (keydown_command_entry E 0 key st).s.incomplete_length
          = st.s.incomplete_length + 1 := v7
      obtain ⟨pre, e1, e2, e3, e4, e5⟩ := ih (keydown_command_entry E 0 key st) (i + 1)
        (by simp)
        (fun k hk => by
          obtain ⟨a, b⟩ := hkeys k (List.mem_cons_of_mem _ hk)
          refine ⟨a, ?_⟩
          unfold digit_permitted at b ⊢
          rw [v1, v2, v3]
          exact b)
        (by
          unfold takes_digits
          rw [v1, v2, v4, v7, hm]
          refine ⟨halpha, by decide, by decide, hckey, hmkey, hrow, hcol, ?_⟩
          rintro ⟨-, -, h, -⟩
          revert h
          decide)
        (by rw [v7, hlen]; push_cast; ring)
        (by rw [v5, hmax]; simp; ring)
        (by simp at h9 ⊢; omega)
        (by rw [v6]; omega)
        (by
          rw [v6, pow_succ]
          omega)
      refine ⟨pre, e1, e2.trans v1, ?_, e4.trans v5, ?_⟩
      · rw [e3, v3]
      · rw [e5, v6]
        unfold committed_number
        rw [v2, v3]
        rfl

/-- C11 as stated fails: after `STO` and the key `.`, the menu `MENU_IND_ST` is the
command menu; two digits are expected and none has been typed, but the digit
keys 0 and 1 are rejected with the audible error and no command is committed. -/
theorem C11_counterexample :
    sto_ind_st_state.incomplete_alpha = false ∧ sto_ind_st_state.incomplete_length = 0
      ∧ sto_ind_st_state.incomplete_num = 0 ∧ sto_ind_st_state.incomplete_maxdigits = 2
      ∧ sto_ind_st_state.incomplete_command ≠ CMD_GOTOROW
      ∧ sto_ind_st_state.incomplete_command ≠ CMD_GOTOCOLUMN
      ∧ digit_permitted sto_ind_st_state (key_digit KEY_0)
      ∧ digit_permitted sto_ind_st_state (key_digit KEY_1)
      ∧ (type_keys refEngine 0 [KEY_0, KEY_1] (start sto_ind_st_state)).s.pending_command
          = CMD_NONE
      ∧ (type_keys refEngine 0 [KEY_0, KEY_1] (start sto_ind_st_state)).tr.any Call.is_handoff
          = false
      ∧ squeaked (type_keys refEngine 0 [KEY_0, KEY_1] (start sto_ind_st_state)).tr = true := by
  decide

/-- C11, amended: in command entry with `incomplete_alpha` false,
`incomplete_length` = 0, `incomplete_num` = 0 and `incomplete_maxdigits` = k with
1 <= k <= 9, in a state that takes digits (no stack-register menu as command
menu, no key selection `ARG_CKEY` or `ARG_MKEY`, the command not `GOTOROW` or
`GOTOCOLUMN`, and not `LBL` with a submenu of the ALPHA menu as command menu),
typing k unshifted digit keys that the limits of `ARG_FUNC` and `RTNERR` permit
ends with the call `finish_command_entry(true)`, made with `pending_command` =
`incomplete_command`, the argument type `ARGTYPE_IND_NUM` if `incomplete_ind` and
`ARGTYPE_NUM` otherwise, the argument length k, and `val.num` equal to the decimal
value of the digits, or to 11 when that value is above 11 for `ARG_NUM11` without
indirection. Assumed of the engine: the digit keys are not soft keys,
`set_menu(MENULEVEL_COMMAND, MENU_NONE)` empties the command menu and leaves the
variables of the argument alone, and `redisplay` leaves them and the command
menu alone. -/
theorem C11_numeric_argument_digit_by_digit (E : Engine) (s : State) (keys : List Int)
    (hset : E.leaves (.set_menu MENULEVEL_COMMAND MENU_NONE) numeric_entry)
    (hnone : ∀ s, (E.run (.set_menu MENULEVEL_COMMAND MENU_NONE) s).mode_commandmenu = MENU_NONE)
    (hre : E.leaves .redisplay argument_entry)
    (hsoft : ∀ key s, is_digit_key key → E.ask (.find_menu_key key) s = -1)
    (hkeys : ∀ key ∈ keys, is_digit_key key ∧ digit_permitted s (key_digit key))
    (hs : takes_digits s)
    (hlen : s.incomplete_length = 0) (hnum : s.incomplete_num = 0)
    (hmax : s.incomplete_maxdigits = keys.length)
    (hk : 1 ≤ keys.length ∧ keys.length ≤ 9) :
    ∃ pre : St, type_keys E 0 keys (start s) = pre.call E (.finish_command_entry true)
      ∧ pre.s.pending_command = s.incomplete_command
      ∧ pre.s.pending_command_arg.type
          = (if s.incomplete_ind then ARGTYPE_IND_NUM else ARGTYPE_NUM)
      ∧ pre.s.pending_command_arg.length = keys.length
      ∧ pre.s.pending_command_arg.num = committed_number s (decimal_value (keys.map key_digit)) := by
  have hne : keys ≠ [] := by
    intro h
    rw [h] at hk
    simp at hk
  obtain ⟨pre, e1, e2, e3, e4, e5⟩ := type_digit_keys_commit E hset hnone hre hsoft keys (start s) 0
    hne hkeys hs hlen (by rw [show (start s).s = s from rfl, hmax]; simp) (by simpa using hk.2)
    (by rw [show (start s).s = s from rfl, hnum]) (by rw [show (start s).s = s from rfl, hnum]; simp)
  refine ⟨pre, e1, e2, e3, e4.trans hmax, ?_⟩
  rw [e5]
  show committed_number s (decimal_value_from (keys.map key_digit) s.incomplete_num) = _
  rw [hnum]
  rfl

/-- Witness of C11 (amended): `STO 42` typed on the reference engine. -/
theorem C11_numeric_argument_digit_by_digit_witness :
    ∃ pre : St, type_keys refEngine 0 [KEY_4, KEY_2] (start sto_state)
        = pre.call refEngine (.finish_command_entry true)
      ∧ pre.s.pending_command = sto_state.incomplete_command
      ∧ pre.s.pending_command_arg.type
          = (if sto_state.incomplete_ind then ARGTYPE_IND_NUM else ARGTYPE_NUM)
      ∧ pre.s.pending_command_arg.length = [KEY_4, KEY_2].length
      ∧ pre.s.pending_command_arg.num
          = committed_number sto_state (decimal_value ([KEY_4, KEY_2].map key_digit)) :=
  C11_numeric_argument_digit_by_digit refEngine sto_state [KEY_4, KEY_2]
    (fun _ => rfl) (fun _ => rfl) (fun _ => rfl)
    (fun key _ h => by
      rcases is_digit_key_cases key h with h | h | h | h | h | h | h | h | h | h <;> subst h <;> rfl)
    (by decide) (by decide) (by decide) (by decide) (by decide) (by decide)

/-! ## C12: the length of a text argument -/

theorem tb_of_view {a b : State} (h : text_view b = text_view a) (hb : text_bounded a) :
    text_bounded b := by
  simp only [text_view, Prod.mk.injEq] at h
  unfold text_bounded text_limit at *
  rw [h.1, h.2]
  exact hb

theorem tb_call (E : Engine) (hE : ∀ c s, text_bounded s → text_bounded (E.run c s))
    (c : Call) (st : St) (hb : TB st) : TB (st.call E c) := ⟨hE c st.s hb.le⟩

theorem tb_mark (c : Call) (st : St) (hb : TB st) : TB (st.mark c) := ⟨hb.le⟩

theorem tb_upd (f : State → State) (st : St) (hf : text_view (f st.s) = text_view st.s)
    (hb : TB st) : TB (st.upd f) := ⟨tb_of_view hf hb.le⟩

theorem tb_set_pending (cmd : Int) (st : St) (hb : TB st) : TB (set_pending cmd st) := ⟨hb.le⟩

theorem tb_upd_arg (f : arg_struct → arg_struct) (st : St) (hb : TB st) : TB (upd_arg f st) :=
  ⟨hb.le⟩

theorem tb_set_arg_str (name : List Nat) (length : Int) (st : St) (hb : TB st) :
    TB (set_arg_str name length st) := ⟨hb.le⟩

theorem tb_set_repeating (key shift : Int) (st : St) (hb : TB st) :
    TB (set_repeating key shift st) := by
  unfold set_repeating
  split_ifs
  · exact ⟨hb.le⟩
  · exact ⟨hb.le⟩

theorem tb_if_menu (E : Engine) (hE : ∀ c s, text_bounded s → text_bounded (E.run c s))
    (m : Option menu_spec) (st : St) (hb : TB st) :
    TB (if_menu m (fun m st => st.call E (.set_menu MENULEVEL_COMMAND m.parent)) st) := by
  cases m with
  | none => exact hb
  | some m => exact ⟨hE _ _ hb.le⟩

theorem tb_append (c : Nat) (st : St) (hb : TB st) : TB (st.upd (incomplete_append c)) := by
  refine ⟨?_⟩
  have h := hb.le
  show text_bounded (incomplete_append c st.s)
  unfold incomplete_append
  refine pred_ite (fun r : State => text_bounded r) ?_ ?_ <;> intro hlt
  · unfold text_bounded text_limit
    exact hlt
  · exact h

theorem tb_upd_dec (f : State → State) (st : St)
    (h1 : (f st.s).incomplete_argtype = st.s.incomplete_argtype)
    (h2 : (f st.s).incomplete_length = st.s.incomplete_length - 1)
    (hb : TB st) : TB (st.upd f) := by
  refine ⟨?_⟩
  have h := hb.le
  unfold text_bounded text_limit at *
  show (f st.s).incomplete_length ≤ if (f st.s).incomplete_argtype = ARG_XSTR then 22 else 7
  rw [h1, h2]
  omega

theorem tb_upd_short (f : State → State) (st : St) (hn : st.s.incomplete_argtype ≠ ARG_XSTR)
    (h1 : (f st.s).incomplete_length = st.s.incomplete_length)
    (h2 : (f st.s).incomplete_argtype ≠ ARG_XSTR)
    (hb : TB st) : TB (st.upd f) := by
  refine ⟨?_⟩
  have h := hb.le
  unfold text_bounded text_limit at *
  show (f st.s).incomplete_length ≤ if (f st.s).incomplete_argtype = ARG_XSTR then 22 else 7
  rw [h1, if_neg h2]
  rw [if_neg hn] at h
  exact h

theorem tb_upd_zero (f : State → State) (st : St) (h0 : st.s.incomplete_length = 0)
    (h1 : (f st.s).incomplete_length = st.s.incomplete_length) : TB (st.upd f) := by
  refine ⟨?_⟩
  unfold text_bounded text_limit
  show (f st.s).incomplete_length ≤ if (f st.s).incomplete_argtype = ARG_XSTR then 22 else 7
  rw [h1, h0]
  split_ifs <;> decide

theorem tb_upd_digit (d : Int) (st : St) (hn : short_numeric st.s)
    (hlt : st.s.incomplete_length < st.s.incomplete_maxdigits) :
    TB ((st.upd (fun s => { s with incomplete_num := wrap_int (s.incomplete_num * 10 + d) })).upd
      (fun s => { s with incomplete_length := s.incomplete_length + 1 })) := by
  refine ⟨?_⟩
  have h1 := hn.1
  have h2 := hn.2
  show st.s.incomplete_length + 1 ≤ if st.s.incomplete_argtype = ARG_XSTR then 22 else 7
  rw [if_neg h2]
  omega

theorem TBF_ret {st r : St} : TBF st (Flow.ret r) ↔ TB r := Iff.rfl

theorem TBF_go (st : St) : TBF st (Flow.go st) := rfl

theorem tb_next (st : St) (flow : Flow) (k : St → St) (h1 : TBF st flow)
    (h2 : TB (k st)) : TB (flow.next k) := by
  cases flow with
  | ret r => exact h1
  | go r =>
    have h : r = st := h1
    rw [h]
    exact h2

/-! The blocks of `keydown_command_entry` keep the bound of a text argument. In the
lemmas of this section the blocks and the primitives of the trace are not
unfolded by the unifier: each lemma unfolds the one block that it is about. -/

section

attribute [local irreducible] St.call St.upd set_pending upd_arg set_arg_str set_repeating if_menu
  command_entry_st command_entry_ckey command_entry_mkey show_briefly command_entry_catalog_item
  command_entry_catalog command_entry_varmenu command_entry_integ_params print_num_command
  command_entry_goto_column command_entry_goto_row restore_argument_menu numeric_argument_menu
  command_entry_numeric_enter command_entry_numeric_dot command_entry_numeric_digit
  command_entry_numeric_bsp command_entry_numeric command_entry_handle_char out_of_alpha
  back_to_gtodot catalog_if_exist alpha_bsp_empty_in_alpha_menu alpha_bsp_empty alpha_bsp_last
  command_entry_alpha_bsp command_entry_alpha_complete command_entry_alpha_enter
  command_entry_alpha_dot command_entry_alpha_nochar command_entry_alpha command_entry_rest
  keydown_command_entry

theorem tb_command_entry_st (E : Engine) (shift key : Int) (st : St) (hE : ∀ c s, text_bounded s → text_bounded (E.run c s))
    (hb : TB st) :
    TB (command_entry_st E shift key st) := by
  unfold command_entry_st
  repeat' first
    | (refine tb_next st _ _ ?_ ?_)
    | (refine pred_ite (fun r : St => TB r) ?_ ?_ <;> intro _)
    | (refine pred_ite (fun r : Flow => TBF st r) ?_ ?_ <;> intro _)
    | (refine pred_elim (fun r : St => TB r) ?_ ?_ <;> intros)
    | (refine TBF_ret.mpr ?_)
    | (exact TBF_go _)
    | exact hb
    | (refine tb_if_menu E hE _ _ ?_)
    | (refine tb_set_repeating _ _ _ ?_)
    | (refine tb_call E hE _ _ ?_)
    | (refine tb_append _ _ ?_)
    | (refine tb_upd_dec _ _ rfl rfl ?_)
    | (refine tb_mark _ _ ?_)
    | (refine tb_set_pending _ _ ?_)
    | (refine tb_upd_arg _ _ ?_)
    | (refine tb_set_arg_str _ _ _ ?_)
    | (refine tb_upd _ _ rfl ?_)
    | fail

theorem tb_command_entry_ckey (E : Engine) (shift key : Int) (st : St) (hE : ∀ c s, text_bounded s → text_bounded (E.run c s))
    (hb : TB st) :
    TB (command_entry_ckey E shift key st) := by
  unfold command_entry_ckey
  repeat' first
    | (refine tb_next st _ _ ?_ ?_)
    | (refine pred_ite (fun r : St => TB r) ?_ ?_ <;> intro _)
    | (refine pred_ite (fun r : Flow => TBF st r) ?_ ?_ <;> intro _)
    | (refine pred_elim (fun r : St => TB r) ?_ ?_ <;> intros)
    | (refine TBF_ret.mpr ?_)
    | (exact TBF_go _)
    | exact hb
    | (refine tb_if_menu E hE _ _ ?_)
    | (refine tb_set_repeating _ _ _ ?_)
    | (refine tb_call E hE _ _ ?_)
    | (refine tb_append _ _ ?_)
    | (refine tb_upd_dec _ _ rfl rfl ?_)
    | (refine tb_mark _ _ ?_)
    | (refine tb_set_pending _ _ ?_)
    | (refine tb_upd_arg _ _ ?_)
    | (refine tb_set_arg_str _ _ _ ?_)
    | (refine tb_upd _ _ rfl ?_)
    | fail

theorem tb_command_entry_mkey (E : Engine) (shift key : Int) (st : St) (hE : ∀ c s, text_bounded s → text_bounded (E.run c s))
    (hb : TB st) :
    TB (command_entry_mkey E shift key st) := by
  unfold command_entry_mkey
  repeat' first
    | (refine tb_next st _ _ ?_ ?_)
    | (refine pred_ite (fun r : St => TB r) ?_ ?_ <;> intro _)
    | (refine pred_ite (fun r : Flow => TBF st r) ?_ ?_ <;> intro _)
    | (refine pred_elim (fun r : St => TB r) ?_ ?_ <;> intros)
    | (refine TBF_ret.mpr ?_)
    | (exact TBF_go _)
    | exact hb
    | (refine tb_if_menu E hE _ _ ?_)
    | (refine tb_set_repeating _ _ _ ?_)
    | (refine tb_call E hE _ _ ?_)
    | (refine tb_append _ _ ?_)
    | (refine tb_upd_dec _ _ rfl rfl ?_)
    | (refine tb_mark _ _ ?_)
    | (refine tb_set_pending _ _ ?_)
    | (refine tb_upd_arg _ _ ?_)
    | (refine tb_set_arg_str _ _ _ ?_)
    | (refine tb_upd _ _ rfl ?_)
    | fail

theorem tb_show_briefly (E : Engine) (st : St) (hE : ∀ c s, text_bounded s → text_bounded (E.run c s))
    (hb : TB st) :
    TB (show_briefly E st) := by
  unfold show_briefly
  repeat' first
    | (refine tb_next st _ _ ?_ ?_)
    | (refine pred_ite (fun r : St => TB r) ?_ ?_ <;> intro _)
    | (refine pred_ite (fun r : Flow => TBF st r) ?_ ?_ <;> intro _)
    | (refine pred_elim (fun r : St => TB r) ?_ ?_ <;> intros)
    | (refine TBF_ret.mpr ?_)
    | (exact TBF_go _)
    | exact hb
    | (refine tb_if_menu E hE _ _ ?_)
    | (refine tb_set_repeating _ _ _ ?_)
    | (refine tb_call E hE _ _ ?_)
    | (refine tb_append _ _ ?_)
    | (refine tb_upd_dec _ _ rfl rfl ?_)
    | (refine tb_mark _ _ ?_)
    | (refine tb_set_pending _ _ ?_)
    | (refine tb_upd_arg _ _ ?_)
    | (refine tb_set_arg_str _ _ _ ?_)
    | (refine tb_upd _ _ rfl ?_)
    | fail

theorem tb_command_entry_catalog_item (E : Engine) (menukey catsect : Int) (st : St) (hE : ∀ c s, text_bounded s → text_bounded (E.run c s))
    (hb : TB st) :
    TB (command_entry_catalog_item E menukey catsect st) := by
  unfold command_entry_catalog_item
  repeat' first
    | (refine tb_next st _ _ ?_ ?_)
    | (refine tb_show_briefly E _ hE ?_)
    | (refine pred_ite (fun r : St => TB r) ?_ ?_ <;> intro _)
    | (refine pred_ite (fun r : Flow => TBF st r) ?_ ?_ <;> intro _)
    | (refine pred_elim (fun r : St => TB r) ?_ ?_ <;> intros)
    | (refine TBF_ret.mpr ?_)
    | (exact TBF_go _)
    | exact hb
    | (refine tb_if_menu E hE _ _ ?_)
    | (refine tb_set_repeating _ _ _ ?_)
    | (refine tb_call E hE _ _ ?_)
    | (refine tb_append _ _ ?_)
    | (refine tb_upd_dec _ _ rfl rfl ?_)
    | (refine tb_mark _ _ ?_)
    | (refine tb_set_pending _ _ ?_)
    | (refine tb_upd_arg _ _ ?_)
    | (refine tb_set_arg_str _ _ _ ?_)
    | (refine tb_upd _ _ rfl ?_)
    | fail

theorem tb_command_entry_catalog (E : Engine) (shift key : Int) (st : St) (hE : ∀ c s, text_bounded s → text_bounded (E.run c s))
    (hb : TB st) :
    TBF st (command_entry_catalog E shift key st) := by
  unfold command_entry_catalog
  repeat' first
    | (refine tb_next st _ _ ?_ ?_)
    | (refine tb_command_entry_catalog_item E _ _ _ hE ?_)
    | (refine pred_ite (fun r : St => TB r) ?_ ?_ <;> intro _)
    | (refine pred_ite (fun r : Flow => TBF st r) ?_ ?_ <;> intro _)
    | (refine pred_elim (fun r : St => TB r) ?_ ?_ <;> intros)
    | (refine TBF_ret.mpr ?_)
    | (exact TBF_go _)
    | exact hb
    | (refine tb_if_menu E hE _ _ ?_)
    | (refine tb_set_repeating _ _ _ ?_)
    | (refine tb_call E hE _ _ ?_)
    | (refine tb_append _ _ ?_)
    | (refine tb_upd_dec _ _ rfl rfl ?_)
    | (refine tb_mark _ _ ?_)
    | (refine tb_set_pending _ _ ?_)
    | (refine tb_upd_arg _ _ ?_)
    | (refine tb_set_arg_str _ _ _ ?_)
    | (refine tb_upd _ _ rfl ?_)
    | fail

theorem tb_command_entry_varmenu (E : Engine) (shift key : Int) (st : St) (hE : ∀ c s, text_bounded s → text_bounded (E.run c s))
    (hb : TB st) :
    TBF st (command_entry_varmenu E shift key st) := by
  unfold command_entry_varmenu
  repeat' first
    | (refine tb_next st _ _ ?_ ?_)
    | (refine pred_ite (fun r : St => TB r) ?_ ?_ <;> intro _)
    | (refine pred_ite (fun r : Flow => TBF st r) ?_ ?_ <;> intro _)
    | (refine pred_elim (fun r : St => TB r) ?_ ?_ <;> intros)
    | (refine TBF_ret.mpr ?_)
    | (exact TBF_go _)
    | exact hb
    | (refine tb_if_menu E hE _ _ ?_)
    | (refine tb_set_repeating _ _ _ ?_)
    | (refine tb_call E hE _ _ ?_)
    | (refine tb_append _ _ ?_)
    | (refine tb_upd_dec _ _ rfl rfl ?_)
    | (refine tb_mark _ _ ?_)
    | (refine tb_set_pending _ _ ?_)
    | (refine tb_upd_arg _ _ ?_)
    | (refine tb_set_arg_str _ _ _ ?_)
    | (refine tb_upd _ _ rfl ?_)
    | fail

theorem tb_command_entry_integ_params (E : Engine) (key : Int) (st : St) (hE : ∀ c s, text_bounded s → text_bounded (E.run c s))
    (hb : TB st) :
    TBF st (command_entry_integ_params E key st) := by
  unfold command_entry_integ_params
  repeat' first
    | (refine tb_next st _ _ ?_ ?_)
    | (refine pred_ite (fun r : St => TB r) ?_ ?_ <;> intro _)
    | (refine pred_ite (fun r : Flow => TBF st r) ?_ ?_ <;> intro _)
    | (refine pred_elim (fun r : St => TB r) ?_ ?_ <;> intros)
    | (refine TBF_ret.mpr ?_)
    | (exact TBF_go _)
    | exact hb
    | (refine tb_if_menu E hE _ _ ?_)
    | (refine tb_set_repeating _ _ _ ?_)
    | (refine tb_call E hE _ _ ?_)
    | (refine tb_append _ _ ?_)
    | (refine tb_upd_dec _ _ rfl rfl ?_)
    | (refine tb_mark _ _ ?_)
    | (refine tb_set_pending _ _ ?_)
    | (refine tb_upd_arg _ _ ?_)
    | (refine tb_set_arg_str _ _ _ ?_)
    | (refine tb_upd _ _ rfl ?_)
    | fail

theorem tb_print_num_command (E : Engine) (cmd : Int) (st : St) (hE : ∀ c s, text_bounded s → text_bounded (E.run c s))
    (hb : TB st) :
    TB (print_num_command E cmd st) := by
  unfold print_num_command
  repeat' first
    | (refine tb_next st _ _ ?_ ?_)
    | (refine pred_ite (fun r : St => TB r) ?_ ?_ <;> intro _)
    | (refine pred_ite (fun r : Flow => TBF st r) ?_ ?_ <;> intro _)
    | (refine pred_elim (fun r : St => TB r) ?_ ?_ <;> intros)
    | (refine TBF_ret.mpr ?_)
    | (exact TBF_go _)
    | exact hb
    | (refine tb_if_menu E hE _ _ ?_)
    | (refine tb_set_repeating _ _ _ ?_)
    | (refine tb_call E hE _ _ ?_)
    | (refine tb_append _ _ ?_)
    | (refine tb_upd_dec _ _ rfl rfl ?_)
    | (refine tb_mark _ _ ?_)
    | (refine tb_set_pending _ _ ?_)
    | (refine tb_upd_arg _ _ ?_)
    | (refine tb_set_arg_str _ _ _ ?_)
    | (refine tb_upd _ _ rfl ?_)
    | fail

theorem tb_command_entry_goto_column (E : Engine) (st : St) (hE : ∀ c s, text_bounded s → text_bounded (E.run c s))
    (hb : TB st) :
    TB (command_entry_goto_column E st) := by
  unfold command_entry_goto_column
  repeat' first
    | (refine tb_next st _ _ ?_ ?_)
    | (refine tb_print_num_command E _ _ hE ?_)
    | (refine pred_ite (fun r : St => TB r) ?_ ?_ <;> intro _)
    | (refine pred_ite (fun r : Flow => TBF st r) ?_ ?_ <;> intro _)
    | (refine pred_elim (fun r : St => TB r) ?_ ?_ <;> intros)
    | (refine TBF_ret.mpr ?_)
    | (exact TBF_go _)
    | exact hb
    | (refine tb_if_menu E hE _ _ ?_)
    | (refine tb_set_repeating _ _ _ ?_)
    | (refine tb_call E hE _ _ ?_)
    | (refine tb_append _ _ ?_)
    | (refine tb_upd_dec _ _ rfl rfl ?_)
    | (refine tb_mark _ _ ?_)
    | (refine tb_set_pending _ _ ?_)
    | (refine tb_upd_arg _ _ ?_)
    | (refine tb_set_arg_str _ _ _ ?_)
    | (refine tb_upd _ _ rfl ?_)
    | fail

theorem tb_command_entry_goto_row (E : Engine) (st : St) (hE : ∀ c s, text_bounded s → text_bounded (E.run c s))
    (hb : TB st) :
    TB (command_entry_goto_row E st) := by
  unfold command_entry_goto_row
  repeat' first
    | (refine tb_next st _ _ ?_ ?_)
    | (refine tb_command_entry_goto_column E _ hE ?_)
    | (refine tb_print_num_command E _ _ hE ?_)
    | (refine pred_ite (fun r : St => TB r) ?_ ?_ <;> intro _)
    | (refine pred_ite (fun r : Flow => TBF st r) ?_ ?_ <;> intro _)
    | (refine pred_elim (fun r : St => TB r) ?_ ?_ <;> intros)
    | (refine TBF_ret.mpr ?_)
    | (exact TBF_go _)
    | exact hb
    | (refine tb_if_menu E hE _ _ ?_)
    | (refine tb_set_repeating _ _ _ ?_)
    | (refine tb_call E hE _ _ ?_)
    | (refine tb_append _ _ ?_)
    | (refine tb_upd_dec _ _ rfl rfl ?_)
    | (refine tb_mark _ _ ?_)
    | (refine tb_set_pending _ _ ?_)
    | (refine tb_upd_arg _ _ ?_)
    | (refine tb_set_arg_str _ _ _ ?_)
    | (refine tb_upd _ _ rfl ?_)
    | fail

theorem tb_restore_argument_menu (E : Engine) (last : Bool) (st : St) (hE : ∀ c s, text_bounded s → text_bounded (E.run c s))
    (hb : TB st) :
    TB (restore_argument_menu E last st) := by
  unfold restore_argument_menu
  repeat' first
    | (refine tb_next st _ _ ?_ ?_)
    | (refine pred_ite (fun r : St => TB r) ?_ ?_ <;> intro _)
    | (refine pred_ite (fun r : Flow => TBF st r) ?_ ?_ <;> intro _)
    | (refine pred_elim (fun r : St => TB r) ?_ ?_ <;> intros)
    | (refine TBF_ret.mpr ?_)
    | (exact TBF_go _)
    | exact hb
    | (refine tb_if_menu E hE _ _ ?_)
    | (refine tb_set_repeating _ _ _ ?_)
    | (refine tb_call E hE _ _ ?_)
    | (refine tb_append _ _ ?_)
    | (refine tb_upd_dec _ _ rfl rfl ?_)
    | (refine tb_mark _ _ ?_)
    | (refine tb_set_pending _ _ ?_)
    | (refine tb_upd_arg _ _ ?_)
    | (refine tb_set_arg_str _ _ _ ?_)
    | (refine tb_upd _ _ rfl ?_)
    | fail

theorem tb_numeric_argument_menu (E : Engine) (st : St) (hE : ∀ c s, text_bounded s → text_bounded (E.run c s))
    (hb : TB st) :
    TB (numeric_argument_menu E st) := by
  unfold numeric_argument_menu
  repeat' first
    | (refine tb_next st _ _ ?_ ?_)
    | (refine tb_restore_argument_menu E _ _ hE ?_)
    | (refine pred_ite (fun r : St => TB r) ?_ ?_ <;> intro _)
    | (refine pred_ite (fun r : Flow => TBF st r) ?_ ?_ <;> intro _)
    | (refine pred_elim (fun r : St => TB r) ?_ ?_ <;> intros)
    | (refine TBF_ret.mpr ?_)
    | (exact TBF_go _)
    | exact hb
    | (refine tb_if_menu E hE _ _ ?_)
    | (refine tb_set_repeating _ _ _ ?_)
    | (refine tb_call E hE _ _ ?_)
    | (refine tb_append _ _ ?_)
    | (refine tb_upd_dec _ _ rfl rfl ?_)
    | (refine tb_mark _ _ ?_)
    | (refine tb_set_pending _ _ ?_)
    | (refine tb_upd_arg _ _ ?_)
    | (refine tb_set_arg_str _ _ _ ?_)
    | (refine tb_upd _ _ rfl ?_)
    | fail

theorem tb_command_entry_numeric_enter (E : Engine) (shift : Int) (st : St) (hE : ∀ c s, text_bounded s → text_bounded (E.run c s))
    (hb : TB st) :
    TBF st (command_entry_numeric_enter E shift st) := by
  unfold command_entry_numeric_enter
  repeat' first
    | (refine tb_next st _ _ ?_ ?_)
    | (refine tb_command_entry_goto_row E _ hE ?_)
    | (refine tb_command_entry_goto_column E _ hE ?_)
    | (refine pred_ite (fun r : St => TB r) ?_ ?_ <;> intro _)
    | (refine pred_ite (fun r : Flow => TBF st r) ?_ ?_ <;> intro _)
    | (refine pred_elim (fun r : St => TB r) ?_ ?_ <;> intros)
    | (refine TBF_ret.mpr ?_)
    | (exact TBF_go _)
    | exact hb
    | (refine tb_if_menu E hE _ _ ?_)
    | (refine tb_set_repeating _ _ _ ?_)
    | (refine tb_call E hE _ _ ?_)
    | (refine tb_append _ _ ?_)
    | (refine tb_upd_dec _ _ rfl rfl ?_)
    | (refine tb_mark _ _ ?_)
    | (refine tb_set_pending _ _ ?_)
    | (refine tb_upd_arg _ _ ?_)
    | (refine tb_set_arg_str _ _ _ ?_)
    | (refine tb_upd _ _ rfl ?_)
    | fail

theorem tb_command_entry_numeric_dot (E : Engine) (st : St) (hE : ∀ c s, text_bounded s → text_bounded (E.run c s))
    (hb : TB st) :
    TB (command_entry_numeric_dot E st) := by
  unfold command_entry_numeric_dot
  repeat' first
    | (refine tb_next st _ _ ?_ ?_)
    | (refine pred_ite (fun r : St => TB r) ?_ ?_ <;> intro _)
    | (refine pred_ite (fun r : Flow => TBF st r) ?_ ?_ <;> intro _)
    | (refine pred_elim (fun r : St => TB r) ?_ ?_ <;> intros)
    | (refine TBF_ret.mpr ?_)
    | (exact TBF_go _)
    | exact hb
    | (refine tb_if_menu E hE _ _ ?_)
    | (refine tb_set_repeating _ _ _ ?_)
    | (refine tb_call E hE _ _ ?_)
    | (refine tb_append _ _ ?_)
    | (refine tb_upd_dec _ _ rfl rfl ?_)
    | (refine tb_mark _ _ ?_)
    | (refine tb_set_pending _ _ ?_)
    | (refine tb_upd_arg _ _ ?_)
    | (refine tb_set_arg_str _ _ _ ?_)
    | (refine tb_upd _ _ rfl ?_)
    | fail

theorem tb_command_entry_numeric_digit (E : Engine) (key : Int) (st : St) (hE : ∀ c s, text_bounded s → text_bounded (E.run c s))
    (hb : TB st)
    (hn : short_numeric st.s)
    (hlt : st.s.incomplete_length < st.s.incomplete_maxdigits) :
    TB (command_entry_numeric_digit E key st) := by
  unfold command_entry_numeric_digit
  repeat' first
    | (refine tb_next st _ _ ?_ ?_)
    | (refine tb_command_entry_goto_row E _ hE ?_)
    | (refine tb_command_entry_goto_column E _ hE ?_)
    | (refine pred_ite (fun r : St => TB r) ?_ ?_ <;> intro _)
    | (refine pred_ite (fun r : Flow => TBF st r) ?_ ?_ <;> intro _)
    | (refine pred_elim (fun r : St => TB r) ?_ ?_ <;> intros)
    | (refine TBF_ret.mpr ?_)
    | (exact TBF_go _)
    | exact hb
    | (exact tb_upd_digit _ _ hn hlt)
    | (refine tb_upd _ _ (by dsimp only; split_ifs <;> rfl) ?_)
    | (refine tb_if_menu E hE _ _ ?_)
    | (refine tb_set_repeating _ _ _ ?_)
    | (refine tb_call E hE _ _ ?_)
    | (refine tb_append _ _ ?_)
    | (refine tb_upd_dec _ _ rfl rfl ?_)
    | (refine tb_mark _ _ ?_)
    | (refine tb_set_pending _ _ ?_)
    | (refine tb_upd_arg _ _ ?_)
    | (refine tb_set_arg_str _ _ _ ?_)
    | (refine tb_upd _ _ rfl ?_)
    | fail

theorem tb_command_entry_numeric_bsp (E : Engine) (st : St) (hE : ∀ c s, text_bounded s → text_bounded (E.run c s))
    (hb : TB st) :
    TB (command_entry_numeric_bsp E st) := by
  unfold command_entry_numeric_bsp
  repeat' first
    | (refine tb_next st _ _ ?_ ?_)
    | (refine tb_numeric_argument_menu E _ hE ?_)
    | (refine pred_ite (fun r : St => TB r) ?_ ?_ <;> intro _)
    | (refine pred_ite (fun r : Flow => TBF st r) ?_ ?_ <;> intro _)
    | (refine pred_elim (fun r : St => TB r) ?_ ?_ <;> intros)
    | (refine TBF_ret.mpr ?_)
    | (exact TBF_go _)
    | exact hb
    | (refine tb_if_menu E hE _ _ ?_)
    | (refine tb_set_repeating _ _ _ ?_)
    | (refine tb_call E hE _ _ ?_)
    | (refine tb_append _ _ ?_)
    | (refine tb_upd_dec _ _ rfl rfl ?_)
    | (refine tb_mark _ _ ?_)
    | (refine tb_set_pending _ _ ?_)
    | (refine tb_upd_arg _ _ ?_)
    | (refine tb_set_arg_str _ _ _ ?_)
    | (refine tb_upd _ _ rfl ?_)
    | fail

theorem tb_command_entry_numeric (E : Engine) (shift key : Int) (st : St) (hE : ∀ c s, text_bounded s → text_bounded (E.run c s))
    (hb : TB st)
    (hn : short_numeric st.s) :
    TB (command_entry_numeric E shift key st) := by
  unfold command_entry_numeric
  repeat' first
    | (refine tb_next st _ _ ?_ ?_)
    | (exact tb_command_entry_numeric_enter E _ _ hE hb)
    | (refine tb_command_entry_numeric_dot E _ hE ?_)
    | (refine tb_command_entry_numeric_digit E _ _ hE hb hn ?_; rename_i h; exact h.1)
    | (refine tb_command_entry_numeric_bsp E _ hE ?_)
    | (refine pred_ite (fun r : St => TB r) ?_ ?_ <;> intro _)
    | (refine pred_ite (fun r : Flow => TBF st r) ?_ ?_ <;> intro _)
    | (refine pred_elim (fun r : St => TB r) ?_ ?_ <;> intros)
    | (refine TBF_ret.mpr ?_)
    | (exact TBF_go _)
    | exact hb
    | (refine tb_upd_short _ _ hn.2 rfl (by dsimp only; decide) ?_)
    | (refine tb_if_menu E hE _ _ ?_)
    | (refine tb_set_repeating _ _ _ ?_)
    | (refine tb_call E hE _ _ ?_)
    | (refine tb_append _ _ ?_)
    | (refine tb_upd_dec _ _ rfl rfl ?_)
    | (refine tb_mark _ _ ?_)
    | (refine tb_set_pending _ _ ?_)
    | (refine tb_upd_arg _ _ ?_)
    | (refine tb_set_arg_str _ _ _ ?_)
    | (refine tb_upd _ _ rfl ?_)
    | fail

theorem tb_command_entry_handle_char (E : Engine) (c : Nat) (m : Option menu_spec) (st : St) (hE : ∀ c s, text_bounded s → text_bounded (E.run c s))
    (hb : TB st) :
    TB (command_entry_handle_char E c m st) := by
  unfold command_entry_handle_char
  repeat' first
    | (refine tb_next st _ _ ?_ ?_)
    | (refine pred_ite (fun r : St => TB r) ?_ ?_ <;> intro _)
    | (refine pred_ite (fun r : Flow => TBF st r) ?_ ?_ <;> intro _)
    | (refine pred_elim (fun r : St => TB r) ?_ ?_ <;> intros)
    | (refine TBF_ret.mpr ?_)
    | (exact TBF_go _)
    | exact hb
    | (refine tb_if_menu E hE _ _ ?_)
    | (refine tb_set_repeating _ _ _ ?_)
    | (refine tb_call E hE _ _ ?_)
    | (refine tb_append _ _ ?_)
    | (refine tb_upd_dec _ _ rfl rfl ?_)
    | (refine tb_mark _ _ ?_)
    | (refine tb_set_pending _ _ ?_)
    | (refine tb_upd_arg _ _ ?_)
    | (refine tb_set_arg_str _ _ _ ?_)
    | (refine tb_upd _ _ rfl ?_)
    | fail

theorem tb_out_of_alpha (E : Engine) (st : St) (hE : ∀ c s, text_bounded s → text_bounded (E.run c s))
    (hb : TB st) :
    TB (out_of_alpha E st) := by
  unfold out_of_alpha
  repeat' first
    | (refine tb_next st _ _ ?_ ?_)
    | (refine tb_restore_argument_menu E _ _ hE ?_)
    | (refine pred_ite (fun r : St => TB r) ?_ ?_ <;> intro _)
    | (refine pred_ite (fun r : Flow => TBF st r) ?_ ?_ <;> intro _)
    | (refine pred_elim (fun r : St => TB r) ?_ ?_ <;> intros)
    | (refine TBF_ret.mpr ?_)
    | (exact TBF_go _)
    | exact hb
    | (refine tb_if_menu E hE _ _ ?_)
    | (refine tb_set_repeating _ _ _ ?_)
    | (refine tb_call E hE _ _ ?_)
    | (refine tb_append _ _ ?_)
    | (refine tb_upd_dec _ _ rfl rfl ?_)
    | (refine tb_mark _ _ ?_)
    | (refine tb_set_pending _ _ ?_)
    | (refine tb_upd_arg _ _ ?_)
    | (refine tb_set_arg_str _ _ _ ?_)
    | (refine tb_upd _ _ rfl ?_)
    | fail

theorem tb_back_to_gtodot (E : Engine) (st : St) (hE : ∀ c s, text_bounded s → text_bounded (E.run c s))
    (hb : TB st)
    (h0 : st.s.incomplete_length = 0) :
    TB (back_to_gtodot E st) := by
  unfold back_to_gtodot
  repeat' first
    | (refine tb_next st _ _ ?_ ?_)
    | (refine pred_ite (fun r : St => TB r) ?_ ?_ <;> intro _)
    | (refine pred_ite (fun r : Flow => TBF st r) ?_ ?_ <;> intro _)
    | (refine pred_elim (fun r : St => TB r) ?_ ?_ <;> intros)
    | (refine TBF_ret.mpr ?_)
    | (exact TBF_go _)
    | exact hb
    | (refine tb_upd_zero _ _ h0 rfl)
    | (refine tb_if_menu E hE _ _ ?_)
    | (refine tb_set_repeating _ _ _ ?_)
    | (refine tb_call E hE _ _ ?_)
    | (refine tb_append _ _ ?_)
    | (refine tb_upd_dec _ _ rfl rfl ?_)
    | (refine tb_mark _ _ ?_)
    | (refine tb_set_pending _ _ ?_)
    | (refine tb_upd_arg _ _ ?_)
    | (refine tb_set_arg_str _ _ _ ?_)
    | (refine tb_upd _ _ rfl ?_)
    | fail

theorem tb_catalog_if_exist (E : Engine) (kind sect : Int) (clear : Bool) (st : St) (hE : ∀ c s, text_bounded s → text_bounded (E.run c s))
    (hb : TB st) :
    TB (catalog_if_exist E kind sect clear st) := by
  unfold catalog_if_exist
  repeat' first
    | (refine tb_next st _ _ ?_ ?_)
    | (refine pred_ite (fun r : St => TB r) ?_ ?_ <;> intro _)
    | (refine pred_ite (fun r : Flow => TBF st r) ?_ ?_ <;> intro _)
    | (refine pred_elim (fun r : St => TB r) ?_ ?_ <;> intros)
    | (refine TBF_ret.mpr ?_)
    | (exact TBF_go _)
    | exact hb
    | (refine tb_if_menu E hE _ _ ?_)
    | (refine tb_set_repeating _ _ _ ?_)
    | (refine tb_call E hE _ _ ?_)
    | (refine tb_append _ _ ?_)
    | (refine tb_upd_dec _ _ rfl rfl ?_)
    | (refine tb_mark _ _ ?_)
    | (refine tb_set_pending _ _ ?_)
    | (refine tb_upd_arg _ _ ?_)
    | (refine tb_set_arg_str _ _ _ ?_)
    | (refine tb_upd _ _ rfl ?_)
    | fail

theorem tb_alpha_bsp_empty_in_alpha_menu (E : Engine) (st : St) (hE : ∀ c s, text_bounded s → text_bounded (E.run c s))
    (hb : TB st)
    (h0 : st.s.incomplete_length = 0) :
    TB (alpha_bsp_empty_in_alpha_menu E st) := by
  unfold alpha_bsp_empty_in_alpha_menu
  repeat' first
    | (refine tb_next st _ _ ?_ ?_)
    | (refine tb_out_of_alpha E _ hE ?_)
    | (exact tb_back_to_gtodot E _ hE hb h0)
    | (refine tb_catalog_if_exist E _ _ _ _ hE ?_)
    | (refine pred_ite (fun r : St => TB r) ?_ ?_ <;> intro _)
    | (refine pred_ite (fun r : Flow => TBF st r) ?_ ?_ <;> intro _)
    | (refine pred_elim (fun r : St => TB r) ?_ ?_ <;> intros)
    | (refine TBF_ret.mpr ?_)
    | (exact TBF_go _)
    | exact hb
    | (refine tb_if_menu E hE _ _ ?_)
    | (refine tb_set_repeating _ _ _ ?_)
    | (refine tb_call E hE _ _ ?_)
    | (refine tb_append _ _ ?_)
    | (refine tb_upd_dec _ _ rfl rfl ?_)
    | (refine tb_mark _ _ ?_)
    | (refine tb_set_pending _ _ ?_)
    | (refine tb_upd_arg _ _ ?_)
    | (refine tb_set_arg_str _ _ _ ?_)
    | (refine tb_upd _ _ rfl ?_)
    | fail

theorem tb_alpha_bsp_empty (E : Engine) (st : St) (hE : ∀ c s, text_bounded s → text_bounded (E.run c s))
    (hb : TB st)
    (h0 : st.s.incomplete_length = 0) :
    TB (alpha_bsp_empty E st) := by
  unfold alpha_bsp_empty
  repeat' first
    | (refine tb_next st _ _ ?_ ?_)
    | (exact tb_alpha_bsp_empty_in_alpha_menu E _ hE hb h0)
    | (refine pred_ite (fun r : St => TB r) ?_ ?_ <;> intro _)
    | (refine pred_ite (fun r : Flow => TBF st r) ?_ ?_ <;> intro _)
    | (refine pred_elim (fun r : St => TB r) ?_ ?_ <;> intros)
    | (refine TBF_ret.mpr ?_)
    | (exact TBF_go _)
    | exact hb
    | (refine tb_if_menu E hE _ _ ?_)
    | (refine tb_set_repeating _ _ _ ?_)
    | (refine tb_call E hE _ _ ?_)
    | (refine tb_append _ _ ?_)
    | (refine tb_upd_dec _ _ rfl rfl ?_)
    | (refine tb_mark _ _ ?_)
    | (refine tb_set_pending _ _ ?_)
    | (refine tb_upd_arg _ _ ?_)
    | (refine tb_set_arg_str _ _ _ ?_)
    | (refine tb_upd _ _ rfl ?_)
    | fail

theorem tb_alpha_bsp_last (E : Engine) (st : St) (hE : ∀ c s, text_bounded s → text_bounded (E.run c s))
    (hb : TB st)
    (h0 : st.s.incomplete_length = 0) :
    TB (alpha_bsp_last E st) := by
  unfold alpha_bsp_last
  repeat' first
    | (refine tb_next st _ _ ?_ ?_)
    | (refine tb_out_of_alpha E _ hE ?_)
    | (exact tb_back_to_gtodot E _ hE hb h0)
    | (refine tb_catalog_if_exist E _ _ _ _ hE ?_)
    | (refine pred_ite (fun r : St => TB r) ?_ ?_ <;> intro _)
    | (refine pred_ite (fun r : Flow => TBF st r) ?_ ?_ <;> intro _)
    | (refine pred_elim (fun r : St => TB r) ?_ ?_ <;> intros)
    | (refine TBF_ret.mpr ?_)
    | (exact TBF_go _)
    | exact hb
    | (refine tb_if_menu E hE _ _ ?_)
    | (refine tb_set_repeating _ _ _ ?_)
    | (refine tb_call E hE _ _ ?_)
    | (refine tb_append _ _ ?_)
    | (refine tb_upd_dec _ _ rfl rfl ?_)
    | (refine tb_mark _ _ ?_)
    | (refine tb_set_pending _ _ ?_)
    | (refine tb_upd_arg _ _ ?_)
    | (refine tb_set_arg_str _ _ _ ?_)
    | (refine tb_upd _ _ rfl ?_)
    | fail

theorem tb_command_entry_alpha_bsp (E : Engine) (st : St) (hE : ∀ c s, text_bounded s → text_bounded (E.run c s))
    (hb : TB st) :
    TB (command_entry_alpha_bsp E st) := by
  unfold command_entry_alpha_bsp
  repeat' first
    | (refine tb_next st _ _ ?_ ?_)
    | (exact tb_alpha_bsp_empty E _ hE hb (by assumption))
    | (refine tb_alpha_bsp_last E _ hE ?_ (by assumption))
    | (refine pred_ite (fun r : St => TB r) ?_ ?_ <;> intro _)
    | (refine pred_ite (fun r : Flow => TBF st r) ?_ ?_ <;> intro _)
    | (refine pred_elim (fun r : St => TB r) ?_ ?_ <;> intros)
    | (refine TBF_ret.mpr ?_)
    | (exact TBF_go _)
    | exact hb
    | (refine tb_if_menu E hE _ _ ?_)
    | (refine tb_set_repeating _ _ _ ?_)
    | (refine tb_call E hE _ _ ?_)
    | (refine tb_append _ _ ?_)
    | (refine tb_upd_dec _ _ rfl rfl ?_)
    | (refine tb_mark _ _ ?_)
    | (refine tb_set_pending _ _ ?_)
    | (refine tb_upd_arg _ _ ?_)
    | (refine tb_set_arg_str _ _ _ ?_)
    | (refine tb_upd _ _ rfl ?_)
    | fail

theorem tb_command_entry_alpha_complete (E : Engine) (st : St) (hE : ∀ c s, text_bounded s → text_bounded (E.run c s))
    (hb : TB st) :
    TB (command_entry_alpha_complete E st) := by
  unfold command_entry_alpha_complete
  repeat' first
    | (refine tb_next st _ _ ?_ ?_)
    | (refine tb_show_briefly E _ hE ?_)
    | (refine pred_ite (fun r : St => TB r) ?_ ?_ <;> intro _)
    | (refine pred_ite (fun r : Flow => TBF st r) ?_ ?_ <;> intro _)
    | (refine pred_elim (fun r : St => TB r) ?_ ?_ <;> intros)
    | (refine TBF_ret.mpr ?_)
    | (exact TBF_go _)
    | exact hb
    | (refine tb_if_menu E hE _ _ ?_)
    | (refine tb_set_repeating _ _ _ ?_)
    | (refine tb_call E hE _ _ ?_)
    | (refine tb_append _ _ ?_)
    | (refine tb_upd_dec _ _ rfl rfl ?_)
    | (refine tb_mark _ _ ?_)
    | (refine tb_set_pending _ _ ?_)
    | (refine tb_upd_arg _ _ ?_)
    | (refine tb_set_arg_str _ _ _ ?_)
    | (refine tb_upd _ _ rfl ?_)
    | fail

theorem tb_command_entry_alpha_enter (E : Engine) (st : St) (hE : ∀ c s, text_bounded s → text_bounded (E.run c s))
    (hb : TB st) :
    TB (command_entry_alpha_enter E st) := by
  unfold command_entry_alpha_enter
  repeat' first
    | (refine tb_next st _ _ ?_ ?_)
    | (refine tb_command_entry_alpha_complete E _ hE ?_)
    | (refine pred_ite (fun r : St => TB r) ?_ ?_ <;> intro _)
    | (refine pred_ite (fun r : Flow => TBF st r) ?_ ?_ <;> intro _)
    | (refine pred_elim (fun r : St => TB r) ?_ ?_ <;> intros)
    | (refine TBF_ret.mpr ?_)
    | (exact TBF_go _)
    | exact hb
    | (refine tb_if_menu E hE _ _ ?_)
    | (refine tb_set_repeating _ _ _ ?_)
    | (refine tb_call E hE _ _ ?_)
    | (refine tb_append _ _ ?_)
    | (refine tb_upd_dec _ _ rfl rfl ?_)
    | (refine tb_mark _ _ ?_)
    | (refine tb_set_pending _ _ ?_)
    | (refine tb_upd_arg _ _ ?_)
    | (refine tb_set_arg_str _ _ _ ?_)
    | (refine tb_upd _ _ rfl ?_)
    | fail

theorem tb_command_entry_alpha_dot (E : Engine) (shift key : Int) (st : St) (hE : ∀ c s, text_bounded s → text_bounded (E.run c s))
    (hb : TB st) :
    TBF st (command_entry_alpha_dot E shift key st) := by
  unfold command_entry_alpha_dot
  repeat' first
    | (refine tb_next st _ _ ?_ ?_)
    | (refine pred_ite (fun r : St => TB r) ?_ ?_ <;> intro _)
    | (refine pred_ite (fun r : Flow => TBF st r) ?_ ?_ <;> intro _)
    | (refine pred_elim (fun r : St => TB r) ?_ ?_ <;> intros)
    | (refine TBF_ret.mpr ?_)
    | (exact TBF_go _)
    | exact hb
    | (refine tb_if_menu E hE _ _ ?_)
    | (refine tb_set_repeating _ _ _ ?_)
    | (refine tb_call E hE _ _ ?_)
    | (refine tb_append _ _ ?_)
    | (refine tb_upd_dec _ _ rfl rfl ?_)
    | (refine tb_mark _ _ ?_)
    | (refine tb_set_pending _ _ ?_)
    | (refine tb_upd_arg _ _ ?_)
    | (refine tb_set_arg_str _ _ _ ?_)
    | (refine tb_upd _ _ rfl ?_)
    | fail

theorem tb_command_entry_alpha_nochar (E : Engine) (shift key : Int) (st : St) (hE : ∀ c s, text_bounded s → text_bounded (E.run c s))
    (hb : TB st) :
    TB (command_entry_alpha_nochar E shift key st) := by
  unfold command_entry_alpha_nochar
  repeat' first
    | (refine tb_next st _ _ ?_ ?_)
    | (refine tb_command_entry_alpha_bsp E _ hE ?_)
    | (refine tb_command_entry_alpha_enter E _ hE ?_)
    | (refine pred_ite (fun r : St => TB r) ?_ ?_ <;> intro _)
    | (refine pred_ite (fun r : Flow => TBF st r) ?_ ?_ <;> intro _)
    | (refine pred_elim (fun r : St => TB r) ?_ ?_ <;> intros)
    | (refine TBF_ret.mpr ?_)
    | (exact TBF_go _)
    | exact hb
    | (refine tb_if_menu E hE _ _ ?_)
    | (refine tb_set_repeating _ _ _ ?_)
    | (refine tb_call E hE _ _ ?_)
    | (refine tb_append _ _ ?_)
    | (refine tb_upd_dec _ _ rfl rfl ?_)
    | (refine tb_mark _ _ ?_)
    | (refine tb_set_pending _ _ ?_)
    | (refine tb_upd_arg _ _ ?_)
    | (refine tb_set_arg_str _ _ _ ?_)
    | (refine tb_upd _ _ rfl ?_)
    | fail

theorem tb_command_entry_alpha (E : Engine) (shift key : Int) (st : St) (hE : ∀ c s, text_bounded s → text_bounded (E.run c s))
    (hb : TB st) :
    TB (command_entry_alpha E shift key st) := by
  unfold command_entry_alpha
  repeat' first
    | (refine tb_next st _ _ ?_ ?_)
    | (refine tb_command_entry_handle_char E _ _ _ hE ?_)
    | (exact tb_command_entry_alpha_dot E _ _ _ hE hb)
    | (refine tb_command_entry_alpha_nochar E _ _ _ hE ?_)
    | (refine pred_ite (fun r : St => TB r) ?_ ?_ <;> intro _)
    | (refine pred_ite (fun r : Flow => TBF st r) ?_ ?_ <;> intro _)
    | (refine pred_elim (fun r : St => TB r) ?_ ?_ <;> intros)
    | (refine TBF_ret.mpr ?_)
    | (exact TBF_go _)
    | exact hb
    | (refine tb_if_menu E hE _ _ ?_)
    | (refine tb_set_repeating _ _ _ ?_)
    | (refine tb_call E hE _ _ ?_)
    | (refine tb_append _ _ ?_)
    | (refine tb_upd_dec _ _ rfl rfl ?_)
    | (refine tb_mark _ _ ?_)
    | (refine tb_set_pending _ _ ?_)
    | (refine tb_upd_arg _ _ ?_)
    | (refine tb_set_arg_str _ _ _ ?_)
    | (refine tb_upd _ _ rfl ?_)
    | fail

theorem tb_command_entry_rest (E : Engine) (shift key : Int) (st : St) (hE : ∀ c s, text_bounded s → text_bounded (E.run c s))
    (hb : TB st)
    (hor : st.s.incomplete_alpha = true ∨ short_numeric st.s) :
    TB (command_entry_rest E shift key st) := by
  unfold command_entry_rest
  repeat' first
    | (refine tb_next st _ _ ?_ ?_)
    | (refine tb_command_entry_ckey E _ _ _ hE ?_)
    | (refine tb_command_entry_mkey E _ _ _ hE ?_)
    | (exact tb_command_entry_catalog E _ _ _ hE hb)
    | (exact tb_command_entry_varmenu E _ _ _ hE hb)
    | (exact tb_command_entry_integ_params E _ _ hE hb)
    | (exact tb_command_entry_numeric E _ _ _ hE hb (hor.resolve_left (by assumption)))
    | (refine tb_command_entry_alpha E _ _ _ hE ?_)
    | (refine pred_ite (fun r : St => TB r) ?_ ?_ <;> intro _)
    | (refine pred_ite (fun r : Flow => TBF st r) ?_ ?_ <;> intro _)
    | (refine pred_elim (fun r : St => TB r) ?_ ?_ <;> intros)
    | (refine TBF_ret.mpr ?_)
    | (exact TBF_go _)
    | exact hb
    | (refine tb_if_menu E hE _ _ ?_)
    | (refine tb_set_repeating _ _ _ ?_)
    | (refine tb_call E hE _ _ ?_)
    | (refine tb_append _ _ ?_)
    | (refine tb_upd_dec _ _ rfl rfl ?_)
    | (refine tb_mark _ _ ?_)
    | (refine tb_set_pending _ _ ?_)
    | (refine tb_upd_arg _ _ ?_)
    | (refine tb_set_arg_str _ _ _ ?_)
    | (refine tb_upd _ _ rfl ?_)
    | fail

theorem tb_keydown_command_entry (E : Engine) (shift key : Int) (st : St) (hE : ∀ c s, text_bounded s → text_bounded (E.run c s))
    (hb : TB st)
    (hor : st.s.incomplete_alpha = true ∨ short_numeric st.s) :
    TB (keydown_command_entry E shift key st) := by
  unfold keydown_command_entry
  repeat' first
    | (refine tb_next st _ _ ?_ ?_)
    | (refine tb_command_entry_st E _ _ _ hE ?_)
    | (refine tb_command_entry_alpha E _ _ _ hE ?_)
    | (exact tb_command_entry_rest E _ _ (st.mark .enter_command_entry) hE (tb_mark _ _ hb) hor)
    | (refine pred_ite (fun r : St => TB r) ?_ ?_ <;> intro _)
    | (refine pred_ite (fun r : Flow => TBF st r) ?_ ?_ <;> intro _)
    | (refine pred_elim (fun r : St => TB r) ?_ ?_ <;> intros)
    | (refine TBF_ret.mpr ?_)
    | (exact TBF_go _)
    | exact hb
    | (refine tb_if_menu E hE _ _ ?_)
    | (refine tb_set_repeating _ _ _ ?_)
    | (refine tb_call E hE _ _ ?_)
    | (refine tb_append _ _ ?_)
    | (refine tb_upd_dec _ _ rfl rfl ?_)
    | (refine tb_mark _ _ ?_)
    | (refine tb_set_pending _ _ ?_)
    | (refine tb_upd_arg _ _ ?_)
    | (refine tb_set_arg_str _ _ _ ?_)
    | (refine tb_upd _ _ rfl ?_)
    | fail

end

/-- A character typed into a text argument of the full length is not stored. -/
theorem incomplete_append_full (c : Nat) (s : State) (h : s.incomplete_length = text_limit s) :
    incomplete_append c s = s := by
  unfold incomplete_append
  refine if_neg ?_
  unfold text_limit at h
  omega

/-- The code at the label `handle_char` leaves a text argument of the full length
as it is, when `set_menu` and `redisplay` do. -/
theorem handle_char_full (E : Engine) (c : Nat) (m : Option menu_spec) (st : St)
    (hleave : ∀ c, c.in_handle_char = true → E.leaves c text_store)
    (h : st.s.incomplete_length = text_limit st.s) :
    text_store (command_entry_handle_char E c m st).s = text_store st.s := by
  unfold command_entry_handle_char
  have h1 : st.upd (incomplete_append c) = st := by
    show ({ s := incomplete_append c st.s, tr := st.tr } : St) = st
    rw [incomplete_append_full c st.s h]
  rw [h1]
  have h2 : text_store (if_menu m (fun m st => st.call E (.set_menu MENULEVEL_COMMAND m.parent)) st).s
      = text_store st.s := by
    cases m with
    | none => rfl
    | some m => exact hleave (.set_menu MENULEVEL_COMMAND m.parent) rfl st.s
  have h3 : ∀ x : St, text_store (set_repeating ((c : Int) + 1024) 0 x).s = text_store x.s := by
    intro x
    unfold set_repeating
    split_ifs <;> rfl
  refine (hleave .redisplay rfl _).trans ?_
  exact (h3 _).trans h2

/-- An ASCII key event pressed while a text argument is typed with an ALPHA menu
as command menu reaches the code at the label `handle_char`, with the character
`key - 1024`. -/
theorem command_entry_ascii_key (E : Engine) (shift key : Int) (st : St)
    (hkey : is_ascii_key key) (ht : typing_text st.s) (hlen : st.s.incomplete_length ≠ 0) :
    keydown_command_entry E shift key st
      = command_entry_handle_char E (ascii_char key) none (st.mark .enter_command_entry) := by
  obtain ⟨halpha, hmenu, hckey, hmkey⟩ := ht
  have hm : st.s.mode_commandmenu ≥ 0 ∧ st.s.mode_commandmenu ≤ 18 := hmenu
  have hl : ¬ (st.s.incomplete_command = CMD_LBL ∧ st.s.incomplete_length = 0
      ∧ st.s.mode_commandmenu ≠ MENU_CATALOG) := fun h => hlen h.2.1
  have hst : ¬ (st.s.mode_commandmenu = MENU_ST ∨ st.s.mode_commandmenu = MENU_IND_ST) := by
    simp only [MENU_ST, MENU_IND_ST]
    omega
  have hcat : ¬ st.s.mode_commandmenu = MENU_CATALOG := by
    simp only [MENU_CATALOG]
    omega
  have hvar : ¬ st.s.mode_commandmenu = MENU_VARMENU := by
    simp only [MENU_VARMENU]
    omega
  have hinteg : ¬ st.s.mode_commandmenu = MENU_INTEG_PARAMS := by
    simp only [MENU_INTEG_PARAMS]
    omega
  have hnone : ¬ st.s.mode_commandmenu = MENU_NONE := by
    simp only [MENU_NONE]
    omega
  unfold keydown_command_entry
  refine (if_neg hst).trans ?_
  refine (if_neg (fun h => hl h.1)).trans ?_
  refine (if_neg (fun h => hl h.1)).trans ?_
  refine (if_neg (fun h => hl h.1)).trans ?_
  refine (if_neg (fun h => h.2.1 halpha)).trans ?_
  refine (congrArg (fun k => command_entry_rest E shift k (st.mark .enter_command_entry))
    (if_neg (fun h => hl h.1))).trans ?_
  unfold command_entry_rest
  refine (if_neg hckey).trans ?_
  refine (if_neg hmkey).trans ?_
  refine (congrArg (fun f : Flow => f.next _) (if_neg hcat)).trans ?_
  refine (Flow_next_go _ _).trans ?_
  refine (congrArg (fun f : Flow => f.next _) ((if_neg hvar).trans (if_neg hinteg))).trans ?_
  refine (Flow_next_go _ _).trans ?_
  refine (if_neg (not_not.mpr halpha)).trans ?_
  refine (congrArg (fun k => command_entry_alpha E shift k (st.mark .enter_command_entry))
    (if_neg (fun h => hnone h.2.1))).trans ?_
  unfold command_entry_alpha
  exact if_pos hkey

/-- C12, as stated, fails: during the entry of a numeric argument of nine digits
(`incomplete_alpha` clear, `incomplete_maxdigits` 9, not `ARG_XSTR`) with seven
digits typed, `incomplete_length` is within the bound 7, and the key `8` makes
it 8. -/
theorem C12_counterexample :
    long_numeric_state.mode_command_entry = true
      ∧ text_bounded long_numeric_state
      ∧ text_limit long_numeric_state = 7
      ∧ (keydown_command_entry refEngine 0 KEY_8 (start long_numeric_state)).s.incomplete_length = 8
      ∧ text_limit (keydown_command_entry refEngine 0 KEY_8 (start long_numeric_state)).s = 7
      ∧ ¬ text_bounded (keydown_command_entry refEngine 0 KEY_8 (start long_numeric_state)).s := by
  decide

/-- C12, amended: let L be 22 if `incomplete_argtype` is `ARG_XSTR` and 7
otherwise. For every state with `incomplete_length <= L` in which a text
argument is typed (`incomplete_alpha` set) or a numeric argument of at most 7
digits that is not `ARG_XSTR`, and for every (shift, key), `incomplete_length <= L`
holds after `keydown_command_entry` returns, L being taken in the state on
return; the calls of the engine are assumed to keep the bound. A character typed
when `incomplete_length = L` is not stored: the assignment of lines 1471-1473
leaves the state as it is, the code at the label `handle_char` leaves
`incomplete_str` and `incomplete_length` as they are, and so does
`keydown_command_entry` for an ASCII key event pressed while a text argument is
typed with an ALPHA menu as command menu (`set_menu` and `redisplay` being
assumed to leave the two variables alone). -/
theorem C12_text_argument_bounded (E : Engine) (shift key : Int) (s : State)
    (hE : ∀ c s, text_bounded s → text_bounded (E.run c s))
    (hleave : ∀ c, c.in_handle_char = true → E.leaves c text_store)
    (hb : text_bounded s)
    (hor : s.incomplete_alpha = true ∨ short_numeric s) :
    text_bounded (keydown_command_entry E shift key (start s)).s
      ∧ (s.incomplete_length = text_limit s →
          (∀ c, incomplete_append c s = s)
            ∧ (∀ c m, text_store (command_entry_handle_char E c m (start s)).s = text_store s)
            ∧ (is_ascii_key key → typing_text s →
                text_store (keydown_command_entry E shift key (start s)).s = text_store s)) := by
  refine ⟨(tb_keydown_command_entry E shift key (start s) hE ⟨hb⟩ hor).le, ?_⟩
  intro hfull
  refine ⟨fun c => incomplete_append_full c s hfull, ?_, ?_⟩
  · intro c m
    exact handle_char_full E c m (start s) hleave hfull
  · intro hkey ht
    have hlen : (start s).s.incomplete_length ≠ 0 := by
      show s.incomplete_length ≠ 0
      rw [hfull]
      unfold text_limit
      split_ifs <;> decide
    rw [command_entry_ascii_key E shift key (start s) hkey ht hlen]
    exact handle_char_full E _ none ((start s).mark .enter_command_entry) hleave hfull

theorem C12_text_argument_bounded_witness :
    text_bounded (keydown_command_entry refEngine 0 (1024 + 65) (start full_xstr_state)).s
      ∧ (full_xstr_state.incomplete_length = text_limit full_xstr_state →
          (∀ c, incomplete_append c full_xstr_state = full_xstr_state)
            ∧ (∀ c m, text_store (command_entry_handle_char refEngine c m (start full_xstr_state)).s
                = text_store full_xstr_state)
            ∧ (is_ascii_key (1024 + 65) → typing_text full_xstr_state →
                text_store (keydown_command_entry refEngine 0 (1024 + 65) (start full_xstr_state)).s
                  = text_store full_xstr_state)) :=
  C12_text_argument_bounded refEngine 0 (1024 + 65) full_xstr_state
    (fun c s h => by
      show text_bounded (ref_run c s)
      cases c <;> simp only [ref_run] <;> first | exact h | (split_ifs <;> exact h))
    (fun c _ s => by
      show text_store (ref_run c s) = _
      cases c <;> simp only [ref_run] <;> first | rfl | (split_ifs <;> rfl))
    (by decide) (by decide)

/-! ## C23: the command line after a first digit that is rejected -/

/-- C23 fails on the code: at rest in base 16 with a word size of 3 bits, the
key `8` begins number entry, the word-size check rejects the digit with
`cmdline_length--`, and `keydown` returns with `mode_number_entry` active and
`cmdline_length` 0; the backspace that follows makes `cmdline_length` -1. -/
theorem C23_first_digit_rejected :
    refEngine.ask .get_base hex_wsize3_state = 16
      ∧ refEngine.ask .effective_wsize hex_wsize3_state = 3
      ∧ hex_wsize3_state.mode_number_entry = 0
      ∧ (keydown refEngine 0 KEY_8 (start hex_wsize3_state)).s.mode_number_entry = 1
      ∧ (keydown refEngine 0 KEY_8 (start hex_wsize3_state)).s.cmdline_length = 0
      ∧ (keydown refEngine 0 KEY_BSP
          (start (keydown refEngine 0 KEY_8 (start hex_wsize3_state)).s)).s.mode_number_entry = 1
      ∧ (keydown refEngine 0 KEY_BSP
          (start (keydown refEngine 0 KEY_8 (start hex_wsize3_state)).s)).s.cmdline_length = -1 := by
  decide

/-! ## C21: single letters become local labels -/

theorem aget_acopy_fold (dst src : List Nat) (k i : Nat) (hi : i < k) :
    aget ((List.range k).foldl
      (fun (d : List Nat) (j : Nat) => aset d (j : Int) (aget src (j : Int))) dst) (i : Int)
      = aget src (i : Int) := by
  induction k with
  | zero => omega
  | succ k ih =>
    rw [List.range_succ, List.foldl_append]
    show aget (aset _ (k : Int) (aget src (k : Int))) (i : Int) = _
    rw [aget_aset _ _ _ _ (by omega) (by omega)]
    by_cases h : (i : Int) = (k : Int)
    · rw [if_pos h, h]
    · rw [if_neg h]
      exact ih (by omega)

/-- The loop that copies `n` characters leaves the first `n` cells of the
destination equal to those of the source. -/
theorem aget_acopy (dst src : List Nat) (n i : Int) (h0 : 0 ≤ i) (hi : i < n) :
    aget (acopy dst src n) i = aget src i := by
  have h := aget_acopy_fold dst src n.toNat i.toNat (by omega)
  rw [Int.toNat_of_nonneg h0] at h
  exact h

/-- The statements that show the label briefly leave the characters typed and the
pending command alone, when `redisplay` and `shell_delay` do. -/
theorem show_briefly_label_view (E : Engine)
    (hleave : ∀ c, c.in_label_display = true → E.leaves c label_view) (st : St) :
    label_view (show_briefly E st).s = label_view st.s := by
  unfold show_briefly
  split_ifs
  · exact (hleave (.shell_delay 125) rfl _).trans (hleave .redisplay rfl _)
  · exact hleave .redisplay rfl _

/-- The statements of lines 1847-1850 after the label was shown. -/
theorem local_label_tail (E : Engine)
    (hleave : ∀ c, c.in_label_display = true → E.leaves c label_view) (x : St) :
    (((show_briefly E x).upd (fun s => { s with pending_command_arg :=
        { s.pending_command_arg with
          type := ARGTYPE_LCLBL, lclbl := aget s.incomplete_str 0 } })).call E
        (.set_menu MENULEVEL_COMMAND MENU_NONE)).s.pending_command = x.s.pending_command
      ∧ (((show_briefly E x).upd (fun s => { s with pending_command_arg :=
        { s.pending_command_arg with
          type := ARGTYPE_LCLBL, lclbl := aget s.incomplete_str 0 } })).call E
        (.set_menu MENULEVEL_COMMAND MENU_NONE)).s.pending_command_arg.type = ARGTYPE_LCLBL
      ∧ (((show_briefly E x).upd (fun s => { s with pending_command_arg :=
        { s.pending_command_arg with
          type := ARGTYPE_LCLBL, lclbl := aget s.incomplete_str 0 } })).call E
        (.set_menu MENULEVEL_COMMAND MENU_NONE)).s.pending_command_arg.lclbl
          = aget x.s.incomplete_str 0 := by
  have v1 := hleave (.set_menu MENULEVEL_COMMAND MENU_NONE) rfl
    ((show_briefly E x).upd (fun s => { s with pending_command_arg :=
        { s.pending_command_arg with
          type := ARGTYPE_LCLBL, lclbl := aget s.incomplete_str 0 } })).s
  have v2 := show_briefly_label_view E hleave x
  simp only [label_view, Prod.mk.injEq] at v1 v2
  obtain ⟨-, a2, a3⟩ := v1
  obtain ⟨b1, b2, -⟩ := v2
  refine ⟨a2.trans b2, ?_, ?_⟩
  · exact (congrArg arg_struct.type a3).trans rfl
  · exact (congrArg arg_struct.lclbl a3).trans (congrArg (fun l => aget l 0) b1)

/-- The statements of lines 1852-1861: the string typed becomes the argument. -/
theorem string_commit (x : St) (hind : x.s.incomplete_ind = false) (y : St)
    (hy : y = (if x.s.incomplete_argtype = ARG_XSTR then
          x.upd (fun s => { s with pending_command_arg :=
            { s.pending_command_arg with type := ARGTYPE_XSTR, xstr := s.incomplete_str } })
        else
          x.upd (fun s => { s with pending_command_arg :=
            { s.pending_command_arg with
              type := if s.incomplete_ind then ARGTYPE_IND_STR else ARGTYPE_STR,
              text := acopy s.pending_command_arg.text s.incomplete_str s.incomplete_length } })).upd
        (fun s => { s with pending_command_arg :=
          { s.pending_command_arg with length := s.incomplete_length } })) :
    y.s.pending_command = x.s.pending_command
      ∧ y.s.incomplete_ind = x.s.incomplete_ind
      ∧ y.s.incomplete_command = x.s.incomplete_command
      ∧ y.s.pending_command_arg
        = (if x.s.incomplete_argtype = ARG_XSTR then
            { x.s.pending_command_arg with
              type := ARGTYPE_XSTR, xstr := x.s.incomplete_str, length := x.s.incomplete_length }
          else
            { x.s.pending_command_arg with
              type := ARGTYPE_STR,
              text := acopy x.s.pending_command_arg.text x.s.incomplete_str x.s.incomplete_length,
              length := x.s.incomplete_length }) := by
  by_cases h : x.s.incomplete_argtype = ARG_XSTR
  · rw [if_pos h] at hy ⊢
    subst hy
    exact ⟨rfl, rfl, rfl, rfl⟩
  · rw [if_neg h] at hy ⊢
    subst hy
    refine ⟨rfl, rfl, rfl, ?_⟩
    show ({ x.s.pending_command_arg with
      type := if x.s.incomplete_ind = true then ARGTYPE_IND_STR else ARGTYPE_STR,
      text := acopy x.s.pending_command_arg.text x.s.incomplete_str x.s.incomplete_length,
      length := x.s.incomplete_length } : arg_struct) = _
    rw [hind]
    rfl

/-- The completion of an alpha argument (lines 1822-1869) for a command that takes
a local label, without indirection. -/
theorem alpha_complete_label (E : Engine)
    (hleave : ∀ c, c.in_label_display = true → E.leaves c label_view) (st : St)
    (hind : st.s.incomplete_ind = false) (hcmd : takes_local_label st.s.incomplete_command) :
    (single_letter st.s →
        ∃ pre : St, command_entry_alpha_complete E st = pre.call E (.finish_command_entry false)
          ∧ pre.s.pending_command = st.s.incomplete_command
          ∧ pre.s.pending_command_arg.type = ARGTYPE_LCLBL
          ∧ pre.s.pending_command_arg.lclbl = aget st.s.incomplete_str 0)
      ∧ (¬ single_letter st.s →
        ∃ pre : St, command_entry_alpha_complete E st
            = pre.call E (if st.s.incomplete_command = CMD_XEQ then .finish_xeq
                          else .finish_command_entry true)
          ∧ pre.s.pending_command = st.s.incomplete_command
          ∧ pre.s.pending_command_arg.type ≠ ARGTYPE_LCLBL
          ∧ pre.s.pending_command_arg.length = st.s.incomplete_length
          ∧ (if st.s.incomplete_argtype = ARG_XSTR then
               pre.s.pending_command_arg.type = ARGTYPE_XSTR
                 ∧ pre.s.pending_command_arg.xstr = st.s.incomplete_str
             else
               pre.s.pending_command_arg.type = ARGTYPE_STR
                 ∧ ∀ i : Int, 0 ≤ i → i < st.s.incomplete_length →
                     aget pre.s.pending_command_arg.text i = aget st.s.incomplete_str i)) := by
  have hiff : is_local_label st.s.incomplete_ind st.s.incomplete_command st.s.incomplete_length
      (aget st.s.incomplete_str 0) ↔ single_letter st.s := by
    unfold is_local_label single_letter
    constructor
    · intro h
      exact ⟨h.2.2.1, h.2.2.2⟩
    · intro h
      exact ⟨by simp [hind], hcmd, h.1, h.2⟩
  constructor
  · intro hs
    have hl := hiff.mpr hs
    unfold command_entry_alpha_complete
    exact ⟨_, if_pos hl, local_label_tail E hleave _⟩
  · intro hs
    have hl : ¬ is_local_label st.s.incomplete_ind st.s.incomplete_command
        st.s.incomplete_length (aget st.s.incomplete_str 0) := fun h => hs (hiff.mp h)
    have hc := string_commit (st.upd (fun s => { s with pending_command := s.incomplete_command }))
      hind _ rfl
    obtain ⟨c1, c3, c4, c2⟩ := hc
    have hfacts : ∀ a : arg_struct,
        a = (if st.s.incomplete_argtype = ARG_XSTR then
            { st.s.pending_command_arg with
              type := ARGTYPE_XSTR, xstr := st.s.incomplete_str, length := st.s.incomplete_length }
          else
            { st.s.pending_command_arg with
              type := ARGTYPE_STR,
              text := acopy st.s.pending_command_arg.text st.s.incomplete_str
                st.s.incomplete_length,
              length := st.s.incomplete_length }) →
        a.type ≠ ARGTYPE_LCLBL ∧ a.length = st.s.incomplete_length
          ∧ (if st.s.incomplete_argtype = ARG_XSTR then
               a.type = ARGTYPE_XSTR ∧ a.xstr = st.s.incomplete_str
             else
               a.type = ARGTYPE_STR
                 ∧ ∀ i : Int, 0 ≤ i → i < st.s.incomplete_length →
                     aget a.text i = aget st.s.incomplete_str i) := by
      intro a ha
      by_cases h : st.s.incomplete_argtype = ARG_XSTR
      · rw [if_pos h] at ha ⊢
        subst ha
        exact ⟨by show ARGTYPE_XSTR ≠ ARGTYPE_LCLBL; decide, rfl, rfl, rfl⟩
      · rw [if_neg h] at ha ⊢
        subst ha
        exact ⟨by show ARGTYPE_STR ≠ ARGTYPE_LCLBL; decide, rfl, rfl,
          fun i h0 hi => aget_acopy _ _ _ _ h0 hi⟩
    unfold command_entry_alpha_complete
    by_cases hx : st.s.incomplete_command = CMD_XEQ
    · simp only [if_pos hx]
      refine ⟨_, (if_neg hl).trans (if_pos ⟨by rw [c3]; show ¬ st.s.incomplete_ind = true; rw [hind]; decide,
        c4.trans hx⟩), c1, hfacts _ c2⟩
    · simp only [if_neg hx]
      refine ⟨_, (if_neg hl).trans (if_neg (fun h => hx (c4.symm.trans h.2))), c1, hfacts _ c2⟩

/-- C21: when `ENTER` completes an alpha argument (a string that is not empty)
of `GTO`, `XEQ`, `LBL` or `KEY1G`..`KEY9X` without indirection, the argument
handed over has the type `ARGTYPE_LCLBL` with `val.lclbl` = c if the string
typed has length 1 and its character c is in `A`..`J` or `a`..`e`; for every
other string it has a string type, not `ARGTYPE_LCLBL`, with the length of
the string typed and exactly its characters (`ARGTYPE_XSTR` with the whole
string for `ARG_XSTR`, `ARGTYPE_STR` otherwise). In both cases
`pending_command` is `incomplete_command`. Assumed: `ENTER` is not a soft key,
the command menu is not a stack-register menu, and `redisplay`, `shell_delay`
and `set_menu` leave the string typed and the pending command alone. -/
theorem C21_single_letter_labels (E : Engine) (shift : Int) (s : State)
    (hkey : E.ask (.find_menu_key KEY_ENTER) s = -1)
    (hleave : ∀ c, c.in_label_display = true → E.leaves c label_view)
    (halpha : s.incomplete_alpha = true)
    (hckey : s.incomplete_argtype ≠ ARG_CKEY) (hmkey : s.incomplete_argtype ≠ ARG_MKEY)
    (hmenu : s.mode_commandmenu ≠ MENU_ST ∧ s.mode_commandmenu ≠ MENU_IND_ST)
    (hlen : s.incomplete_length ≠ 0)
    (hind : s.incomplete_ind = false) (hcmd : takes_local_label s.incomplete_command) :
    (single_letter s →
        ∃ pre : St, keydown_command_entry E shift KEY_ENTER (start s)
            = pre.call E (.finish_command_entry false)
          ∧ pre.s.pending_command = s.incomplete_command
          ∧ pre.s.pending_command_arg.type = ARGTYPE_LCLBL
          ∧ pre.s.pending_command_arg.lclbl = aget s.incomplete_str 0)
      ∧ (¬ single_letter s →
        ∃ pre : St, keydown_command_entry E shift KEY_ENTER (start s)
            = pre.call E (if s.incomplete_command = CMD_XEQ then .finish_xeq
                          else .finish_command_entry true)
          ∧ pre.s.pending_command = s.incomplete_command
          ∧ pre.s.pending_command_arg.type ≠ ARGTYPE_LCLBL
          ∧ pre.s.pending_command_arg.length = s.incomplete_length
          ∧ (if s.incomplete_argtype = ARG_XSTR then
               pre.s.pending_command_arg.type = ARGTYPE_XSTR
                 ∧ pre.s.pending_command_arg.xstr = s.incomplete_str
             else
               pre.s.pending_command_arg.type = ARGTYPE_STR
                 ∧ ∀ i : Int, 0 ≤ i → i < s.incomplete_length →
                     aget pre.s.pending_command_arg.text i = aget s.incomplete_str i)) := by
  have hr : keydown_command_entry E shift KEY_ENTER (start s)
      = command_entry_alpha_complete E ((start s).mark .enter_command_entry) := by
    refine (command_entry_enter_alpha E shift (start s) hkey halpha hckey hmkey).trans ?_
    refine (if_neg (not_or.mpr hmenu)).trans ?_
    unfold command_entry_alpha_enter
    exact if_neg hlen
  rw [hr]
  exact alpha_complete_label E hleave ((start s).mark .enter_command_entry) hind hcmd

theorem C21_single_letter_labels_witness :
    (single_letter gto_a_state →
        ∃ pre : St, keydown_command_entry refEngine 0 KEY_ENTER (start gto_a_state)
            = pre.call refEngine (.finish_command_entry false)
          ∧ pre.s.pending_command = gto_a_state.incomplete_command
          ∧ pre.s.pending_command_arg.type = ARGTYPE_LCLBL
          ∧ pre.s.pending_command_arg.lclbl = aget gto_a_state.incomplete_str 0)
      ∧ (¬ single_letter gto_a_state →
        ∃ pre : St, keydown_command_entry refEngine 0 KEY_ENTER (start gto_a_state)
            = pre.call refEngine (if gto_a_state.incomplete_command = CMD_XEQ then .finish_xeq
                          else .finish_command_entry true)
          ∧ pre.s.pending_command = gto_a_state.incomplete_command
          ∧ pre.s.pending_command_arg.type ≠ ARGTYPE_LCLBL
          ∧ pre.s.pending_command_arg.length = gto_a_state.incomplete_length
          ∧ (if gto_a_state.incomplete_argtype = ARG_XSTR then
               pre.s.pending_command_arg.type = ARGTYPE_XSTR
                 ∧ pre.s.pending_command_arg.xstr = gto_a_state.incomplete_str
             else
               pre.s.pending_command_arg.type = ARGTYPE_STR
                 ∧ ∀ i : Int, 0 ≤ i → i < gto_a_state.incomplete_length →
                     aget pre.s.pending_command_arg.text i = aget gto_a_state.incomplete_str i)) :=
  C21_single_letter_labels refEngine 0 gto_a_state (by decide)
    (fun c _ s => by
      show label_view (ref_run c s) = _
      cases c <;> simp only [ref_run] <;> first | rfl | (split_ifs <;> rfl))
    (by decide) (by decide) (by decide) (by decide) (by decide) (by decide) (by decide)

/-! ## C22: the length of a program line of text -/

theorem l_call (E : Engine)
    (hE : ∀ c s, s.entered_string_length ≤ 15 → (E.run c s).entered_string_length ≤ 15)
    (c : Call) (st : St) (hb : Line15 st) : Line15 (st.call E c) := ⟨hE c st.s hb.le⟩

theorem l_mark (c : Call) (st : St) (hb : Line15 st) : Line15 (st.mark c) := ⟨hb.le⟩

theorem l_upd (f : State → State) (st : St)
    (hf : (f st.s).entered_string_length = st.s.entered_string_length) (hb : Line15 st) :
    Line15 (st.upd f) := ⟨hf.trans_le hb.le⟩

theorem l_upd_dec (f : State → State) (st : St)
    (hf : (f st.s).entered_string_length = st.s.entered_string_length - 1) (hb : Line15 st) :
    Line15 (st.upd f) := by
  refine ⟨?_⟩
  have h := hb.le
  show (f st.s).entered_string_length ≤ 15
  rw [hf]
  omega

theorem l_upd_one (f : State → State) (st : St) (hf : (f st.s).entered_string_length = 1) :
    Line15 (st.upd f) := by
  refine ⟨?_⟩
  show (f st.s).entered_string_length ≤ 15
  rw [hf]
  decide

theorem l_insert (c : Nat) (st : St) (hb : Line15 st) :
    Line15 (st.upd (fun s =>
      if s.entered_string_length < 15 then
        { s with entered_string := aset s.entered_string s.entered_string_length c,
                 entered_string_length := s.entered_string_length + 1 }
      else s)) := by
  refine ⟨?_⟩
  have h := hb.le
  show (if st.s.entered_string_length < 15 then
        ({ st.s with
            entered_string := aset st.s.entered_string st.s.entered_string_length c,
            entered_string_length := st.s.entered_string_length + 1 } : State)
      else st.s).entered_string_length ≤ 15
  split_ifs with h1
  · show st.s.entered_string_length + 1 ≤ 15
    omega
  · exact h

theorem l_upd_if (p : State → Prop) {inst : ∀ s, Decidable (p s)} (f : State → State) (st : St)
    (hf : ∀ s, (f s).entered_string_length = s.entered_string_length) (hb : Line15 st) :
    Line15 (st.upd (fun s => @ite _ (p s) (inst s) (f s) s)) := by
  refine l_upd _ st ?_ hb
  show (@ite _ (p st.s) (inst st.s) (f st.s) st.s).entered_string_length
    = st.s.entered_string_length
  split_ifs
  · exact hf st.s
  · rfl

theorem l_set_pending (cmd : Int) (st : St) (hb : Line15 st) : Line15 (set_pending cmd st) :=
  ⟨hb.le⟩

theorem l_upd_arg (f : arg_struct → arg_struct) (st : St) (hb : Line15 st) :
    Line15 (upd_arg f st) := ⟨hb.le⟩

theorem l_set_arg_str (name : List Nat) (length : Int) (st : St) (hb : Line15 st) :
    Line15 (set_arg_str name length st) := ⟨hb.le⟩

theorem l_set_repeating (key shift : Int) (st : St) (hb : Line15 st) :
    Line15 (set_repeating key shift st) := by
  unfold set_repeating
  split_ifs
  · exact ⟨hb.le⟩
  · exact hb

theorem l_repeat_shifted (key : Int) (st : St) (hb : Line15 st) :
    Line15 (repeat_shifted key st) := ⟨hb.le⟩

theorem l_if_menu (m : Option menu_spec) (k : menu_spec → St → St) (st : St)
    (hk : ∀ m x, Line15 x → Line15 (k m x)) (hb : Line15 st) : Line15 (if_menu m k st) := by
  cases m with
  | none => exact hb
  | some m => exact hk m st hb

theorem l_ret {r : St} (h : Line15 r) : Line15F (Flow.ret r) := h

theorem l_go {r : St} (h : Line15 r) : Line15F (Flow.go r) := h

theorem l_pret {r : St} (h : Line15 r) : Line15P (Pick.ret r) := h

theorem l_pcmd {r : St} {command : Int} (h : Line15 r) : Line15P (Pick.cmd r command) := h

theorem l_next (flow : Flow) (k : St → St) (h1 : Line15F flow)
    (h2 : ∀ x, Line15 x → Line15 (k x)) : Line15 (flow.next k) := by
  cases flow with
  | ret r => exact h1
  | go r => exact h2 r h1

theorem l_bind (flow : Flow) (k : St → Flow) (h1 : Line15F flow)
    (h2 : ∀ x, Line15 x → Line15F (k x)) : Line15F (flow.bind k) := by
  cases flow with
  | ret r => exact h1
  | go r => exact h2 r h1

theorem l_pick (pick : Pick) (k : St → Int → St) (h1 : Line15P pick)
    (h2 : ∀ x command, Line15 x → Line15 (k x command)) : Line15 (pick.next k) := by
  cases pick with
  | ret r => exact h1
  | cmd r command => exact h2 r command h1

/-! In the lemmas of the following section the blocks and the primitives of the trace
are not unfolded by the unifier: each lemma unfolds the one block that it is about. -/

section

attribute [local irreducible] St.call St.upd St.mark set_pending upd_arg set_arg_str set_repeating
  if_menu repeat_shifted Flow.next Flow.bind Pick.next Line15F Line15P set_solve_integ
  alpha_insert_char alpha_handle_char delete_current_line end_alpha_entry alpha_mode_bsp
  alpha_mode_enter open_base_menu alpha_mode_shifted alpha_mode_command alpha_mode_nochar
  keydown_alpha_mode

theorem l_set_solve_integ (E : Engine) (solve : Bool) (st : St) (hE : ∀ c s, s.entered_string_length ≤ 15 → (E.run c s).entered_string_length ≤ 15)
    (hb : Line15 st) :
    Line15 (set_solve_integ E solve st) := by
  unfold set_solve_integ
  repeat' first
    | (refine l_next _ _ ?_ ?_)
    | (refine l_bind _ _ ?_ ?_)
    | (refine l_pick _ _ ?_ ?_)
    | (refine pred_ite (fun r : St => Line15 r) ?_ ?_ <;> intro _)
    | (refine pred_ite (fun r : Flow => Line15F r) ?_ ?_ <;> intro _)
    | (refine pred_ite (fun r : Pick => Line15P r) ?_ ?_ <;> intro _)
    | (refine pred_elim (fun r : St => Line15 r) ?_ ?_ <;> intros)
    | (refine pred_elim (fun r : Flow => Line15F r) ?_ ?_ <;> intros)
    | (intro _)
    | assumption
    | (refine l_ret ?_)
    | (refine l_go ?_)
    | (refine l_pret ?_)
    | (refine l_pcmd ?_)
    | (refine l_if_menu _ _ _ ?_ ?_)
    | (refine l_set_repeating _ _ _ ?_)
    | (refine l_repeat_shifted _ _ ?_)
    | (refine l_call E hE _ _ ?_)
    | (refine l_mark _ _ ?_)
    | (refine l_set_pending _ _ ?_)
    | (refine l_upd_arg _ _ ?_)
    | (refine l_set_arg_str _ _ _ ?_)
    | (refine l_insert _ _ ?_)
    | (refine l_upd _ _ rfl ?_)
    | (refine l_upd_dec _ _ rfl ?_)
    | (refine l_upd_one _ _ rfl)
    | (refine l_upd_if _ _ _ (fun _ => rfl) ?_)
    | fail

theorem l_alpha_insert_char (E : Engine) (c : Nat) (st : St) (hE : ∀ c s, s.entered_string_length ≤ 15 → (E.run c s).entered_string_length ≤ 15)
    (hb : Line15 st) :
    Line15F (alpha_insert_char E c st) := by
  unfold alpha_insert_char
  repeat' first
    | (refine l_next _ _ ?_ ?_)
    | (refine l_bind _ _ ?_ ?_)
    | (refine l_pick _ _ ?_ ?_)
    | (refine pred_ite (fun r : St => Line15 r) ?_ ?_ <;> intro _)
    | (refine pred_ite (fun r : Flow => Line15F r) ?_ ?_ <;> intro _)
    | (refine pred_ite (fun r : Pick => Line15P r) ?_ ?_ <;> intro _)
    | (refine pred_elim (fun r : St => Line15 r) ?_ ?_ <;> intros)
    | (refine pred_elim (fun r : Flow => Line15F r) ?_ ?_ <;> intros)
    | (intro _)
    | assumption
    | (refine l_ret ?_)
    | (refine l_go ?_)
    | (refine l_pret ?_)
    | (refine l_pcmd ?_)
    | (refine l_if_menu _ _ _ ?_ ?_)
    | (refine l_set_repeating _ _ _ ?_)
    | (refine l_repeat_shifted _ _ ?_)
    | (refine l_call E hE _ _ ?_)
    | (refine l_mark _ _ ?_)
    | (refine l_set_pending _ _ ?_)
    | (refine l_upd_arg _ _ ?_)
    | (refine l_set_arg_str _ _ _ ?_)
    | (refine l_insert _ _ ?_)
    | (refine l_upd _ _ rfl ?_)
    | (refine l_upd_dec _ _ rfl ?_)
    | (refine l_upd_one _ _ rfl)
    | (refine l_upd_if _ _ _ (fun _ => rfl) ?_)
    | fail

theorem l_alpha_handle_char (E : Engine) (c : Nat) (m : Option menu_spec) (st : St) (hE : ∀ c s, s.entered_string_length ≤ 15 → (E.run c s).entered_string_length ≤ 15)
    (hb : Line15 st) :
    Line15 (alpha_handle_char E c m st) := by
  unfold alpha_handle_char
  repeat' first
    | (refine l_next _ _ ?_ ?_)
    | (refine l_bind _ _ ?_ ?_)
    | (refine l_pick _ _ ?_ ?_)
    | (refine l_alpha_insert_char E _ _ hE ?_)
    | (refine pred_ite (fun r : St => Line15 r) ?_ ?_ <;> intro _)
    | (refine pred_ite (fun r : Flow => Line15F r) ?_ ?_ <;> intro _)
    | (refine pred_ite (fun r : Pick => Line15P r) ?_ ?_ <;> intro _)
    | (refine pred_elim (fun r : St => Line15 r) ?_ ?_ <;> intros)
    | (refine pred_elim (fun r : Flow => Line15F r) ?_ ?_ <;> intros)
    | (intro _)
    | assumption
    | (refine l_ret ?_)
    | (refine l_go ?_)
    | (refine l_pret ?_)
    | (refine l_pcmd ?_)
    | (refine l_if_menu _ _ _ ?_ ?_)
    | (refine l_set_repeating _ _ _ ?_)
    | (refine l_repeat_shifted _ _ ?_)
    | (refine l_call E hE _ _ ?_)
    | (refine l_mark _ _ ?_)
    | (refine l_set_pending _ _ ?_)
    | (refine l_upd_arg _ _ ?_)
    | (refine l_set_arg_str _ _ _ ?_)
    | (refine l_insert _ _ ?_)
    | (refine l_upd _ _ rfl ?_)
    | (refine l_upd_dec _ _ rfl ?_)
    | (refine l_upd_one _ _ rfl)
    | (refine l_upd_if _ _ _ (fun _ => rfl) ?_)
    | fail

theorem l_delete_current_line (E : Engine) (line : Int) (st : St) (hE : ∀ c s, s.entered_string_length ≤ 15 → (E.run c s).entered_string_length ≤ 15)
    (hb : Line15 st) :
    Line15 (delete_current_line E line st) := by
  unfold delete_current_line
  repeat' first
    | (refine l_next _ _ ?_ ?_)
    | (refine l_bind _ _ ?_ ?_)
    | (refine l_pick _ _ ?_ ?_)
    | (refine pred_ite (fun r : St => Line15 r) ?_ ?_ <;> intro _)
    | (refine pred_ite (fun r : Flow => Line15F r) ?_ ?_ <;> intro _)
    | (refine pred_ite (fun r : Pick => Line15P r) ?_ ?_ <;> intro _)
    | (refine pred_elim (fun r : St => Line15 r) ?_ ?_ <;> intros)
    | (refine pred_elim (fun r : Flow => Line15F r) ?_ ?_ <;> intros)
    | (intro _)
    | assumption
    | (refine l_ret ?_)
    | (refine l_go ?_)
    | (refine l_pret ?_)
    | (refine l_pcmd ?_)
    | (refine l_if_menu _ _ _ ?_ ?_)
    | (refine l_set_repeating _ _ _ ?_)
    | (refine l_repeat_shifted _ _ ?_)
    | (refine l_call E hE _ _ ?_)
    | (refine l_mark _ _ ?_)
    | (refine l_set_pending _ _ ?_)
    | (refine l_upd_arg _ _ ?_)
    | (refine l_set_arg_str _ _ _ ?_)
    | (refine l_insert _ _ ?_)
    | (refine l_upd _ _ rfl ?_)
    | (refine l_upd_dec _ _ rfl ?_)
    | (refine l_upd_one _ _ rfl)
    | (refine l_upd_if _ _ _ (fun _ => rfl) ?_)
    | fail

theorem l_end_alpha_entry (E : Engine) (st : St) (hE : ∀ c s, s.entered_string_length ≤ 15 → (E.run c s).entered_string_length ≤ 15)
    (hb : Line15 st) :
    Line15 (end_alpha_entry E st) := by
  unfold end_alpha_entry
  repeat' first
    | (refine l_next _ _ ?_ ?_)
    | (refine l_bind _ _ ?_ ?_)
    | (refine l_pick _ _ ?_ ?_)
    | (refine pred_ite (fun r : St => Line15 r) ?_ ?_ <;> intro _)
    | (refine pred_ite (fun r : Flow => Line15F r) ?_ ?_ <;> intro _)
    | (refine pred_ite (fun r : Pick => Line15P r) ?_ ?_ <;> intro _)
    | (refine pred_elim (fun r : St => Line15 r) ?_ ?_ <;> intros)
    | (refine pred_elim (fun r : Flow => Line15F r) ?_ ?_ <;> intros)
    | (intro _)
    | assumption
    | (refine l_ret ?_)
    | (refine l_go ?_)
    | (refine l_pret ?_)
    | (refine l_pcmd ?_)
    | (refine l_if_menu _ _ _ ?_ ?_)
    | (refine l_set_repeating _ _ _ ?_)
    | (refine l_repeat_shifted _ _ ?_)
    | (refine l_call E hE _ _ ?_)
    | (refine l_mark _ _ ?_)
    | (refine l_set_pending _ _ ?_)
    | (refine l_upd_arg _ _ ?_)
    | (refine l_set_arg_str _ _ _ ?_)
    | (refine l_insert _ _ ?_)
    | (refine l_upd _ _ rfl ?_)
    | (refine l_upd_dec _ _ rfl ?_)
    | (refine l_upd_one _ _ rfl)
    | (refine l_upd_if _ _ _ (fun _ => rfl) ?_)
    | fail

theorem l_alpha_mode_bsp (E : Engine) (shift key : Int) (st : St) (hE : ∀ c s, s.entered_string_length ≤ 15 → (E.run c s).entered_string_length ≤ 15)
    (hb : Line15 st) :
    Line15 (alpha_mode_bsp E shift key st) := by
  unfold alpha_mode_bsp
  repeat' first
    | (refine l_next _ _ ?_ ?_)
    | (refine l_bind _ _ ?_ ?_)
    | (refine l_pick _ _ ?_ ?_)
    | (refine l_delete_current_line E _ _ hE ?_)
    | (refine pred_ite (fun r : St => Line15 r) ?_ ?_ <;> intro _)
    | (refine pred_ite (fun r : Flow => Line15F r) ?_ ?_ <;> intro _)
    | (refine pred_ite (fun r : Pick => Line15P r) ?_ ?_ <;> intro _)
    | (refine pred_elim (fun r : St => Line15 r) ?_ ?_ <;> intros)
    | (refine pred_elim (fun r : Flow => Line15F r) ?_ ?_ <;> intros)
    | (intro _)
    | assumption
    | (refine l_ret ?_)
    | (refine l_go ?_)
    | (refine l_pret ?_)
    | (refine l_pcmd ?_)
    | (refine l_if_menu _ _ _ ?_ ?_)
    | (refine l_set_repeating _ _ _ ?_)
    | (refine l_repeat_shifted _ _ ?_)
    | (refine l_call E hE _ _ ?_)
    | (refine l_mark _ _ ?_)
    | (refine l_set_pending _ _ ?_)
    | (refine l_upd_arg _ _ ?_)
    | (refine l_set_arg_str _ _ _ ?_)
    | (refine l_insert _ _ ?_)
    | (refine l_upd _ _ rfl ?_)
    | (refine l_upd_dec _ _ rfl ?_)
    | (refine l_upd_one _ _ rfl)
    | (refine l_upd_if _ _ _ (fun _ => rfl) ?_)
    | fail

theorem l_alpha_mode_enter (E : Engine) (shift : Int) (st : St) (hE : ∀ c s, s.entered_string_length ≤ 15 → (E.run c s).entered_string_length ≤ 15)
    (hb : Line15 st) :
    Line15 (alpha_mode_enter E shift st) := by
  unfold alpha_mode_enter
  repeat' first
    | (refine l_next _ _ ?_ ?_)
    | (refine l_bind _ _ ?_ ?_)
    | (refine l_pick _ _ ?_ ?_)
    | (refine pred_ite (fun r : St => Line15 r) ?_ ?_ <;> intro _)
    | (refine pred_ite (fun r : Flow => Line15F r) ?_ ?_ <;> intro _)
    | (refine pred_ite (fun r : Pick => Line15P r) ?_ ?_ <;> intro _)
    | (refine pred_elim (fun r : St => Line15 r) ?_ ?_ <;> intros)
    | (refine pred_elim (fun r : Flow => Line15F r) ?_ ?_ <;> intros)
    | (intro _)
    | assumption
    | (refine l_ret ?_)
    | (refine l_go ?_)
    | (refine l_pret ?_)
    | (refine l_pcmd ?_)
    | (refine l_if_menu _ _ _ ?_ ?_)
    | (refine l_set_repeating _ _ _ ?_)
    | (refine l_repeat_shifted _ _ ?_)
    | (refine l_call E hE _ _ ?_)
    | (refine l_mark _ _ ?_)
    | (refine l_set_pending _ _ ?_)
    | (refine l_upd_arg _ _ ?_)
    | (refine l_set_arg_str _ _ _ ?_)
    | (refine l_insert _ _ ?_)
    | (refine l_upd _ _ rfl ?_)
    | (refine l_upd_dec _ _ rfl ?_)
    | (refine l_upd_one _ _ rfl)
    | (refine l_upd_if _ _ _ (fun _ => rfl) ?_)
    | fail

theorem l_open_base_menu (E : Engine) (redraw : Bool) (st : St) (hE : ∀ c s, s.entered_string_length ≤ 15 → (E.run c s).entered_string_length ≤ 15)
    (hb : Line15 st) :
    Line15 (open_base_menu E redraw st) := by
  unfold open_base_menu
  repeat' first
    | (refine l_next _ _ ?_ ?_)
    | (refine l_bind _ _ ?_ ?_)
    | (refine l_pick _ _ ?_ ?_)
    | (refine pred_ite (fun r : St => Line15 r) ?_ ?_ <;> intro _)
    | (refine pred_ite (fun r : Flow => Line15F r) ?_ ?_ <;> intro _)
    | (refine pred_ite (fun r : Pick => Line15P r) ?_ ?_ <;> intro _)
    | (refine pred_elim (fun r : St => Line15 r) ?_ ?_ <;> intros)
    | (refine pred_elim (fun r : Flow => Line15F r) ?_ ?_ <;> intros)
    | (intro _)
    | assumption
    | (refine l_ret ?_)
    | (refine l_go ?_)
    | (refine l_pret ?_)
    | (refine l_pcmd ?_)
    | (refine l_if_menu _ _ _ ?_ ?_)
    | (refine l_set_repeating _ _ _ ?_)
    | (refine l_repeat_shifted _ _ ?_)
    | (refine l_call E hE _ _ ?_)
    | (refine l_mark _ _ ?_)
    | (refine l_set_pending _ _ ?_)
    | (refine l_upd_arg _ _ ?_)
    | (refine l_set_arg_str _ _ _ ?_)
    | (refine l_insert _ _ ?_)
    | (refine l_upd _ _ rfl ?_)
    | (refine l_upd_dec _ _ rfl ?_)
    | (refine l_upd_one _ _ rfl)
    | (refine l_upd_if _ _ _ (fun _ => rfl) ?_)
    | fail

theorem l_alpha_mode_shifted (E : Engine) (key : Int) (st : St) (hE : ∀ c s, s.entered_string_length ≤ 15 → (E.run c s).entered_string_length ≤ 15)
    (hb : Line15 st) :
    Line15P (alpha_mode_shifted E key st) := by
  unfold alpha_mode_shifted
  repeat' first
    | (refine l_next _ _ ?_ ?_)
    | (refine l_bind _ _ ?_ ?_)
    | (refine l_pick _ _ ?_ ?_)
    | (refine l_set_solve_integ E _ _ hE ?_)
    | (refine l_open_base_menu E _ _ hE ?_)
    | (refine pred_ite (fun r : St => Line15 r) ?_ ?_ <;> intro _)
    | (refine pred_ite (fun r : Flow => Line15F r) ?_ ?_ <;> intro _)
    | (refine pred_ite (fun r : Pick => Line15P r) ?_ ?_ <;> intro _)
    | (refine pred_elim (fun r : St => Line15 r) ?_ ?_ <;> intros)
    | (refine pred_elim (fun r : Flow => Line15F r) ?_ ?_ <;> intros)
    | (intro _)
    | assumption
    | (refine l_ret ?_)
    | (refine l_go ?_)
    | (refine l_pret ?_)
    | (refine l_pcmd ?_)
    | (refine l_if_menu _ _ _ ?_ ?_)
    | (refine l_set_repeating _ _ _ ?_)
    | (refine l_repeat_shifted _ _ ?_)
    | (refine l_call E hE _ _ ?_)
    | (refine l_mark _ _ ?_)
    | (refine l_set_pending _ _ ?_)
    | (refine l_upd_arg _ _ ?_)
    | (refine l_set_arg_str _ _ _ ?_)
    | (refine l_insert _ _ ?_)
    | (refine l_upd _ _ rfl ?_)
    | (refine l_upd_dec _ _ rfl ?_)
    | (refine l_upd_one _ _ rfl)
    | (refine l_upd_if _ _ _ (fun _ => rfl) ?_)
    | fail

theorem l_alpha_mode_command (E : Engine) (shift key : Int) (st : St) (hE : ∀ c s, s.entered_string_length ≤ 15 → (E.run c s).entered_string_length ≤ 15)
    (hb : Line15 st) :
    Line15 (alpha_mode_command E shift key st) := by
  unfold alpha_mode_command
  repeat' first
    | (refine l_next _ _ ?_ ?_)
    | (refine l_bind _ _ ?_ ?_)
    | (refine l_pick _ _ ?_ ?_)
    | (refine l_end_alpha_entry E _ hE ?_)
    | (refine l_alpha_mode_shifted E _ _ hE ?_)
    | (refine pred_ite (fun r : St => Line15 r) ?_ ?_ <;> intro _)
    | (refine pred_ite (fun r : Flow => Line15F r) ?_ ?_ <;> intro _)
    | (refine pred_ite (fun r : Pick => Line15P r) ?_ ?_ <;> intro _)
    | (refine pred_elim (fun r : St => Line15 r) ?_ ?_ <;> intros)
    | (refine pred_elim (fun r : Flow => Line15F r) ?_ ?_ <;> intros)
    | (intro _)
    | assumption
    | (refine l_ret ?_)
    | (refine l_go ?_)
    | (refine l_pret ?_)
    | (refine l_pcmd ?_)
    | (refine l_if_menu _ _ _ ?_ ?_)
    | (refine l_set_repeating _ _ _ ?_)
    | (refine l_repeat_shifted _ _ ?_)
    | (refine l_call E hE _ _ ?_)
    | (refine l_mark _ _ ?_)
    | (refine l_set_pending _ _ ?_)
    | (refine l_upd_arg _ _ ?_)
    | (refine l_set_arg_str _ _ _ ?_)
    | (refine l_insert _ _ ?_)
    | (refine l_upd _ _ rfl ?_)
    | (refine l_upd_dec _ _ rfl ?_)
    | (refine l_upd_one _ _ rfl)
    | (refine l_upd_if _ _ _ (fun _ => rfl) ?_)
    | fail

theorem l_alpha_mode_nochar (E : Engine) (shift key : Int) (st : St) (hE : ∀ c s, s.entered_string_length ≤ 15 → (E.run c s).entered_string_length ≤ 15)
    (hb : Line15 st) :
    Line15 (alpha_mode_nochar E shift key st) := by
  unfold alpha_mode_nochar
  repeat' first
    | (refine l_next _ _ ?_ ?_)
    | (refine l_bind _ _ ?_ ?_)
    | (refine l_pick _ _ ?_ ?_)
    | (refine l_end_alpha_entry E _ hE ?_)
    | (refine l_alpha_mode_bsp E _ _ _ hE ?_)
    | (refine l_alpha_mode_enter E _ _ hE ?_)
    | (refine l_alpha_mode_command E _ _ _ hE ?_)
    | (refine pred_ite (fun r : St => Line15 r) ?_ ?_ <;> intro _)
    | (refine pred_ite (fun r : Flow => Line15F r) ?_ ?_ <;> intro _)
    | (refine pred_ite (fun r : Pick => Line15P r) ?_ ?_ <;> intro _)
    | (refine pred_elim (fun r : St => Line15 r) ?_ ?_ <;> intros)
    | (refine pred_elim (fun r : Flow => Line15F r) ?_ ?_ <;> intros)
    | (intro _)
    | assumption
    | (refine l_ret ?_)
    | (refine l_go ?_)
    | (refine l_pret ?_)
    | (refine l_pcmd ?_)
    | (refine l_if_menu _ _ _ ?_ ?_)
    | (refine l_set_repeating _ _ _ ?_)
    | (refine l_repeat_shifted _ _ ?_)
    | (refine l_call E hE _ _ ?_)
    | (refine l_mark _ _ ?_)
    | (refine l_set_pending _ _ ?_)
    | (refine l_upd_arg _ _ ?_)
    | (refine l_set_arg_str _ _ _ ?_)
    | (refine l_insert _ _ ?_)
    | (refine l_upd _ _ rfl ?_)
    | (refine l_upd_dec _ _ rfl ?_)
    | (refine l_upd_one _ _ rfl)
    | (refine l_upd_if _ _ _ (fun _ => rfl) ?_)
    | fail

theorem l_keydown_alpha_mode (E : Engine) (shift key : Int) (st : St) (hE : ∀ c s, s.entered_string_length ≤ 15 → (E.run c s).entered_string_length ≤ 15)
    (hb : Line15 st) :
    Line15 (keydown_alpha_mode E shift key st) := by
  unfold keydown_alpha_mode
  repeat' first
    | (refine l_next _ _ ?_ ?_)
    | (refine l_bind _ _ ?_ ?_)
    | (refine l_pick _ _ ?_ ?_)
    | (refine l_alpha_insert_char E _ _ hE ?_)
    | (refine l_alpha_handle_char E _ _ _ hE ?_)
    | (refine l_alpha_mode_nochar E _ _ _ hE ?_)
    | (refine pred_ite (fun r : St => Line15 r) ?_ ?_ <;> intro _)
    | (refine pred_ite (fun r : Flow => Line15F r) ?_ ?_ <;> intro _)
    | (refine pred_ite (fun r : Pick => Line15P r) ?_ ?_ <;> intro _)
    | (refine pred_elim (fun r : St => Line15 r) ?_ ?_ <;> intros)
    | (refine pred_elim (fun r : Flow => Line15F r) ?_ ?_ <;> intros)
    | (intro _)
    | assumption
    | (refine l_ret ?_)
    | (refine l_go ?_)
    | (refine l_pret ?_)
    | (refine l_pcmd ?_)
    | (refine l_if_menu _ _ _ ?_ ?_)
    | (refine l_set_repeating _ _ _ ?_)
    | (refine l_repeat_shifted _ _ ?_)
    | (refine l_call E hE _ _ ?_)
    | (refine l_mark _ _ ?_)
    | (refine l_set_pending _ _ ?_)
    | (refine l_upd_arg _ _ ?_)
    | (refine l_set_arg_str _ _ _ ?_)
    | (refine l_insert _ _ ?_)
    | (refine l_upd _ _ rfl ?_)
    | (refine l_upd_dec _ _ rfl ?_)
    | (refine l_upd_one _ _ rfl)
    | (refine l_upd_if _ _ _ (fun _ => rfl) ?_)
    | fail

end

/-- In program mode, while a line of text is typed, a character typed into a line
of 15 characters is not stored: the statements of lines 1903-1912 leave the
state as it is. -/
theorem alpha_insert_full (E : Engine) (c : Nat) (st : St)
    (hp : st.s.flags.prgm_mode = true) (ha : st.s.mode_alpha_entry = true)
    (h15 : st.s.entered_string_length = 15) :
    alpha_insert_char E c st = Flow.go st := by
  unfold alpha_insert_char
  refine (if_pos hp).trans ?_
  refine (if_neg (fun h => h.1 ha)).trans ?_
  have h1 : (if ¬ st.s.mode_alpha_entry = true then st.call E .start_alpha_prgm_line else st) = st :=
    if_neg (not_not.mpr ha)
  refine (congrArg (fun x : St => Flow.go (x.upd (fun s =>
        if s.entered_string_length < 15 then
          { s with entered_string := aset s.entered_string s.entered_string_length c,
                   entered_string_length := s.entered_string_length + 1 }
        else s))) h1).trans ?_
  refine congrArg Flow.go ?_
  show ({ s := if st.s.entered_string_length < 15 then _ else st.s, tr := st.tr } : St) = st
  rw [if_neg (by omega)]

/-- C22: for every state with `entered_string_length <= 15` and every (shift,
key), `entered_string_length <= 15` holds after `keydown_alpha_mode` returns,
in program mode and out of it; the calls of the engine, `start_alpha_prgm_line`
among them, are assumed to leave a length of at most 15. In program mode, while
a line of text is typed, a character typed at length 15 is not stored: the
statements that store it leave the state as it is, and `keydown_alpha_mode`
leaves `entered_string` and `entered_string_length` as they are for an ASCII key
event (`redisplay` being assumed to leave them alone). -/
theorem C22_alpha_line_bounded (E : Engine) (shift key : Int) (s : State)
    (hE : ∀ c s, s.entered_string_length ≤ 15 → (E.run c s).entered_string_length ≤ 15)
    (hre : E.leaves .redisplay alpha_line)
    (hb : s.entered_string_length ≤ 15) :
    (keydown_alpha_mode E shift key (start s)).s.entered_string_length ≤ 15
      ∧ (s.flags.prgm_mode = true → s.mode_alpha_entry = true → s.entered_string_length = 15 →
          (∀ c, alpha_insert_char E c (start s) = Flow.go (start s))
            ∧ (is_ascii_key key →
                alpha_line (keydown_alpha_mode E shift key (start s)).s = alpha_line s)) := by
  refine ⟨(l_keydown_alpha_mode E shift key (start s) hE ⟨hb⟩).le, ?_⟩
  intro hp ha h15
  refine ⟨fun c => alpha_insert_full E c (start s) hp ha h15, ?_⟩
  intro hkey
  have h1 : keydown_alpha_mode E shift key (start s)
      = alpha_handle_char E (ascii_char key) none ((start s).mark .enter_alpha_mode) := by
    unfold keydown_alpha_mode
    exact if_pos hkey
  rw [h1]
  unfold alpha_handle_char
  rw [alpha_insert_full E _ ((start s).mark .enter_alpha_mode) hp ha h15, Flow_next_go]
  refine (hre _).trans ?_
  show alpha_line (set_repeating _ 0 ((start s).mark .enter_alpha_mode)).s = alpha_line s
  unfold set_repeating
  split_ifs <;> rfl

theorem C22_alpha_line_bounded_witness :
    (keydown_alpha_mode refEngine 0 (1024 + 65) (start full_line_state)).s.entered_string_length ≤ 15
      ∧ (full_line_state.flags.prgm_mode = true → full_line_state.mode_alpha_entry = true →
          full_line_state.entered_string_length = 15 →
          (∀ c, alpha_insert_char refEngine c (start full_line_state) = Flow.go (start full_line_state))
            ∧ (is_ascii_key (1024 + 65) →
                alpha_line (keydown_alpha_mode refEngine 0 (1024 + 65) (start full_line_state)).s
                  = alpha_line full_line_state)) :=
  C22_alpha_line_bounded refEngine 0 (1024 + 65) full_line_state
    (fun c s h => by
      show (ref_run c s).entered_string_length ≤ 15
      cases c <;> simp only [ref_run] <;>
        first | exact h | (split_ifs <;> exact h) | (show (0 : Int) ≤ 15; decide))
    (fun s => rfl)
    (by decide)

/-! ## C24: the digit is assigned before it is read -/

theorem u_call (E : Engine) (c : Call) (st : St) (hc : c.is_uninitialized_read = false)
    (hb : Unread st) : Unread (st.call E c) := by
  refine ⟨?_⟩
  simp only [tr_call, List.any_append, List.any_cons, List.any_nil, hb.none, hc, Bool.or_false]

theorem u_mark (c : Call) (st : St) (hc : c.is_uninitialized_read = false) (hb : Unread st) :
    Unread (st.mark c) := by
  refine ⟨?_⟩
  simp only [tr_mark, List.any_append, List.any_cons, List.any_nil, hb.none, hc, Bool.or_false]

theorem u_upd (f : State → State) (st : St) (hb : Unread st) : Unread (st.upd f) := ⟨hb.none⟩

theorem u_set_pending (cmd : Int) (st : St) (hb : Unread st) : Unread (set_pending cmd st) :=
  ⟨hb.none⟩

theorem u_upd_arg (f : arg_struct → arg_struct) (st : St) (hb : Unread st) :
    Unread (upd_arg f st) := ⟨hb.none⟩

theorem u_set_arg_str (name : List Nat) (length : Int) (st : St) (hb : Unread st) :
    Unread (set_arg_str name length st) := ⟨hb.none⟩

theorem u_set_repeating (key shift : Int) (st : St) (hb : Unread st) :
    Unread (set_repeating key shift st) := by
  unfold set_repeating
  split_ifs
  · exact ⟨hb.none⟩
  · exact hb

theorem u_repeat_shifted (key : Int) (st : St) (hb : Unread st) :
    Unread (repeat_shifted key st) := ⟨hb.none⟩

theorem u_pc_to_previous_line (E : Engine) (st : St) (hb : Unread st) :
    Unread (pc_to_previous_line E st) := ⟨hb.none⟩

theorem u_if_menu (m : Option menu_spec) (k : menu_spec → St → St) (st : St)
    (hk : ∀ m x, Unread x → Unread (k m x)) (hb : Unread st) : Unread (if_menu m k st) := by
  cases m with
  | none => exact hb
  | some m => exact hk m st hb

theorem u_ret {r : St} (h : Unread r) : UnreadF (Flow.ret r) := h

theorem u_go {r : St} (h : Unread r) : UnreadF (Flow.go r) := h

theorem u_pret {r : St} (h : Unread r) : UnreadP (Pick.ret r) := h

theorem u_pcmd {r : St} {command : Int} (h : Unread r) : UnreadP (Pick.cmd r command) := h

theorem u_next (flow : Flow) (k : St → St) (h1 : UnreadF flow)
    (h2 : ∀ x, Unread x → Unread (k x)) : Unread (flow.next k) := by
  cases flow with
  | ret r => exact h1
  | go r => exact h2 r h1

theorem u_bind (flow : Flow) (k : St → Flow) (h1 : UnreadF flow)
    (h2 : ∀ x, Unread x → UnreadF (k x)) : UnreadF (flow.bind k) := by
  cases flow with
  | ret r => exact h1
  | go r => exact h2 r h1

theorem u_pick (pick : Pick) (k : St → Int → St) (h1 : UnreadP pick)
    (h2 : ∀ x command, Unread x → Unread (k x command)) : Unread (pick.next k) := by
  cases pick with
  | ret r => exact h1
  | cmd r command => exact h2 r command h1

/-- The assignments of the auto-repeat variables leave `mode_number_entry` alone. -/
theorem mode_of_repeat (c : Prop) [Decidable c] (shift key : Int) (st : St) :
    (if c then
        st.upd (fun s => { s with repeating := 1, repeating_shift := shift, repeating_key := key })
      else st).s.mode_number_entry = st.s.mode_number_entry := by
  split_ifs
  · rfl
  · rfl

/-- A key that `is_number_key` accepts has a branch in `keydown_number_entry`. -/
theorem has_branch_of_number_key (E : Engine) (shift key : Int) (s : State)
    (h : (is_number_key E shift key s).1 = true) : has_branch key := by
  revert h
  unfold is_number_key has_branch
  repeat' (refine pred_ite (fun r : Bool × Bool => r.1 = true → (key = -1 ∨ key = KEY_BSP
    ∨ key = KEY_CHS ∨ key = KEY_E ∨ key = KEY_DOT ∨ digit_of_key key ≠ none)) ?_ ?_ <;> intro _)
  all_goals
    intro h
    first
    | (exact absurd h (by decide))
    | (rename_i h1; unfold digit_of_key; rcases h1 with h1 | h1 <;> simp [h1]; done)
    | (rename_i h1; unfold digit_of_key;
       rcases h1 with h1 | h1 | h1 | h1 | h1 | h1 <;> simp [h1]; done)
    | (rename_i h1; unfold digit_of_key;
       rcases h1.2 with h1 | h1 | h1 | h1 | h1 | h1 <;> simp [h1]; done)

/-- Past the tests for the keys handled before it, the digit branch is reached
only with a key that the `switch` assigns a digit to. -/
theorem has_branch_digit {key : Int} (hk : has_branch key) (h1 : ¬ key = -1)
    (h2 : ¬ key = KEY_BSP) (h3 : ¬ key = KEY_CHS) (h4 : ¬ key = KEY_E) (h5 : ¬ key = KEY_DOT) :
    digit_of_key key ≠ none := by
  rcases hk with h | h | h | h | h | h
  · exact absurd h h1
  · exact absurd h h2
  · exact absurd h h3
  · exact absurd h h4
  · exact absurd h h5
  · exact h

/-! In the lemmas of the following section the blocks and the primitives of the trace
are not unfolded by the unifier: each lemma unfolds the one block that it is about. -/

section

attribute [local irreducible] St.call St.upd St.mark set_pending upd_arg set_arg_str set_repeating
  if_menu repeat_shifted pc_to_previous_line Flow.next Flow.bind Pick.next UnreadF UnreadP
  set_solve_integ view draw_number number_entry_bsp number_entry_chs number_entry_e
  number_entry_dot number_entry_digit store_entered_value keydown_number_entry command_entry_st
  command_entry_ckey command_entry_mkey show_briefly command_entry_catalog_item
  command_entry_catalog command_entry_varmenu command_entry_integ_params print_num_command
  command_entry_goto_column command_entry_goto_row restore_argument_menu numeric_argument_menu
  command_entry_numeric_enter command_entry_numeric_dot command_entry_numeric_digit
  command_entry_numeric_bsp command_entry_numeric command_entry_handle_char out_of_alpha
  back_to_gtodot catalog_if_exist alpha_bsp_empty_in_alpha_menu alpha_bsp_empty alpha_bsp_last
  command_entry_alpha_bsp command_entry_alpha_complete command_entry_alpha_enter
  command_entry_alpha_dot command_entry_alpha_nochar command_entry_alpha command_entry_rest
  keydown_command_entry alpha_insert_char alpha_handle_char delete_current_line end_alpha_entry
  alpha_mode_bsp alpha_mode_enter open_base_menu alpha_mode_shifted alpha_mode_command
  alpha_mode_nochar keydown_alpha_mode start_number_entry lift_stack normal_mode_number_key
  send_it_off store_menu_variable normal_mode_varmenu_key normal_mode_varmenu custom_builtin
  normal_mode_custom close_catalog normal_mode_catalog_top normal_mode_catalog_ext1
  normal_mode_catalog_pgm normal_mode_catalog_pgm_for normal_mode_catalog_fcn
  normal_mode_catalog_var normal_mode_catalog normal_mode_integ_params normal_mode_menu_item
  normal_mode_menu_exit normal_mode_menu_updown normal_mode_menu normal_mode_unshifted
  normal_mode_shifted normal_mode_plain normal_mode_prgm_bsp keydown_normal_mode keydown_dispatch
  store_number_line keydown_getkey keydown_prgm_toggle end_number_entry keydown_navigation

theorem u_set_solve_integ (E : Engine) (solve : Bool) (st : St) 
    (hb : Unread st) :
    Unread (set_solve_integ E solve st) := by
  unfold set_solve_integ
  repeat' first
    | (refine u_next _ _ ?_ ?_)
    | (refine u_bind _ _ ?_ ?_)
    | (refine u_pick _ _ ?_ ?_)
    | (refine pred_ite (fun r : St => Unread r) ?_ ?_ <;> intro _)
    | (refine pred_ite (fun r : Flow => UnreadF r) ?_ ?_ <;> intro _)
    | (refine pred_ite (fun r : Pick => UnreadP r) ?_ ?_ <;> intro _)
    | (refine pred_elim (fun r : St => Unread r) ?_ ?_ <;> intros)
    | (refine pred_elim (fun r : Flow => UnreadF r) ?_ ?_ <;> intros)
    | (intro _)
    | assumption
    | (refine u_ret ?_)
    | (refine u_go ?_)
    | (refine u_pret ?_)
    | (refine u_pcmd ?_)
    | (refine u_if_menu _ _ _ ?_ ?_)
    | (refine u_set_repeating _ _ _ ?_)
    | (refine u_repeat_shifted _ _ ?_)
    | (refine u_call E _ _ rfl ?_)
    | (refine u_mark _ _ rfl ?_)
    | (refine u_set_pending _ _ ?_)
    | (refine u_upd_arg _ _ ?_)
    | (refine u_set_arg_str _ _ _ ?_)
    | (refine u_upd _ _ ?_)
    | fail

theorem u_view (E : Engine) (varname : List Nat) (varlength : Int) (st : St) 
    (hb : Unread st) :
    Unread (view E varname varlength st) := by
  unfold view
  repeat' first
    | (refine u_next _ _ ?_ ?_)
    | (refine u_bind _ _ ?_ ?_)
    | (refine u_pick _ _ ?_ ?_)
    | (refine pred_ite (fun r : St => Unread r) ?_ ?_ <;> intro _)
    | (refine pred_ite (fun r : Flow => UnreadF r) ?_ ?_ <;> intro _)
    | (refine pred_ite (fun r : Pick => UnreadP r) ?_ ?_ <;> intro _)
    | (refine pred_elim (fun r : St => Unread r) ?_ ?_ <;> intros)
    | (refine pred_elim (fun r : Flow => UnreadF r) ?_ ?_ <;> intros)
    | (intro _)
    | assumption
    | (refine u_ret ?_)
    | (refine u_go ?_)
    | (refine u_pret ?_)
    | (refine u_pcmd ?_)
    | (refine u_if_menu _ _ _ ?_ ?_)
    | (refine u_set_repeating _ _ _ ?_)
    | (refine u_repeat_shifted _ _ ?_)
    | (refine u_call E _ _ rfl ?_)
    | (refine u_mark _ _ rfl ?_)
    | (refine u_set_pending _ _ ?_)
    | (refine u_upd_arg _ _ ?_)
    | (refine u_set_arg_str _ _ _ ?_)
    | (refine u_upd _ _ ?_)
    | fail

theorem u_draw_number (E : Engine) (st : St) 
    (hb : Unread st) :
    Unread (draw_number E st) := by
  unfold draw_number
  repeat' first
    | (refine u_next _ _ ?_ ?_)
    | (refine u_bind _ _ ?_ ?_)
    | (refine u_pick _ _ ?_ ?_)
    | (refine pred_ite (fun r : St => Unread r) ?_ ?_ <;> intro _)
    | (refine pred_ite (fun r : Flow => UnreadF r) ?_ ?_ <;> intro _)
    | (refine pred_ite (fun r : Pick => UnreadP r) ?_ ?_ <;> intro _)
    | (refine pred_elim (fun r : St => Unread r) ?_ ?_ <;> intros)
    | (refine pred_elim (fun r : Flow => UnreadF r) ?_ ?_ <;> intros)
    | (intro _)
    | assumption
    | (refine u_ret ?_)
    | (refine u_go ?_)
    | (refine u_pret ?_)
    | (refine u_pcmd ?_)
    | (refine u_if_menu _ _ _ ?_ ?_)
    | (refine u_set_repeating _ _ _ ?_)
    | (refine u_repeat_shifted _ _ ?_)
    | (refine u_call E _ _ rfl ?_)
    | (refine u_mark _ _ rfl ?_)
    | (refine u_set_pending _ _ ?_)
    | (refine u_upd_arg _ _ ?_)
    | (refine u_set_arg_str _ _ _ ?_)
    | (refine u_upd _ _ ?_)
    | fail

theorem u_number_entry_bsp (E : Engine) (shift key base : Int) (st : St) 
    (hb : Unread st) :
    Unread (number_entry_bsp E shift key base st) := by
  unfold number_entry_bsp
  repeat' first
    | (refine u_next _ _ ?_ ?_)
    | (refine u_bind _ _ ?_ ?_)
    | (refine u_pick _ _ ?_ ?_)
    | (refine pred_ite (fun r : St => Unread r) ?_ ?_ <;> intro _)
    | (refine pred_ite (fun r : Flow => UnreadF r) ?_ ?_ <;> intro _)
    | (refine pred_ite (fun r : Pick => UnreadP r) ?_ ?_ <;> intro _)
    | (refine pred_elim (fun r : St => Unread r) ?_ ?_ <;> intros)
    | (refine pred_elim (fun r : Flow => UnreadF r) ?_ ?_ <;> intros)
    | (intro _)
    | assumption
    | (refine u_ret ?_)
    | (refine u_go ?_)
    | (refine u_pret ?_)
    | (refine u_pcmd ?_)
    | (refine u_if_menu _ _ _ ?_ ?_)
    | (refine u_set_repeating _ _ _ ?_)
    | (refine u_repeat_shifted _ _ ?_)
    | (refine u_call E _ _ rfl ?_)
    | (refine u_mark _ _ rfl ?_)
    | (refine u_set_pending _ _ ?_)
    | (refine u_upd_arg _ _ ?_)
    | (refine u_set_arg_str _ _ _ ?_)
    | (refine u_upd _ _ ?_)
    | fail

theorem u_number_entry_chs (E : Engine) (st : St) 
    (hb : Unread st) :
    UnreadF (number_entry_chs E st) := by
  unfold number_entry_chs
  repeat' first
    | (refine u_next _ _ ?_ ?_)
    | (refine u_bind _ _ ?_ ?_)
    | (refine u_pick _ _ ?_ ?_)
    | (refine u_pc_to_previous_line E _ ?_)
    | (refine pred_ite (fun r : St => Unread r) ?_ ?_ <;> intro _)
    | (refine pred_ite (fun r : Flow => UnreadF r) ?_ ?_ <;> intro _)
    | (refine pred_ite (fun r : Pick => UnreadP r) ?_ ?_ <;> intro _)
    | (refine pred_elim (fun r : St => Unread r) ?_ ?_ <;> intros)
    | (refine pred_elim (fun r : Flow => UnreadF r) ?_ ?_ <;> intros)
    | (intro _)
    | assumption
    | (refine u_ret ?_)
    | (refine u_go ?_)
    | (refine u_pret ?_)
    | (refine u_pcmd ?_)
    | (refine u_if_menu _ _ _ ?_ ?_)
    | (refine u_set_repeating _ _ _ ?_)
    | (refine u_repeat_shifted _ _ ?_)
    | (refine u_call E _ _ rfl ?_)
    | (refine u_mark _ _ rfl ?_)
    | (refine u_set_pending _ _ ?_)
    | (refine u_upd_arg _ _ ?_)
    | (refine u_set_arg_str _ _ _ ?_)
    | (refine u_upd _ _ ?_)
    | fail

theorem u_number_entry_e (st : St) 
    (hb : Unread st) :
    UnreadF (number_entry_e st) := by
  unfold number_entry_e
  repeat' first
    | (refine u_next _ _ ?_ ?_)
    | (refine u_bind _ _ ?_ ?_)
    | (refine u_pick _ _ ?_ ?_)
    | (refine pred_ite (fun r : St => Unread r) ?_ ?_ <;> intro _)
    | (refine pred_ite (fun r : Flow => UnreadF r) ?_ ?_ <;> intro _)
    | (refine pred_ite (fun r : Pick => UnreadP r) ?_ ?_ <;> intro _)
    | (refine pred_elim (fun r : St => Unread r) ?_ ?_ <;> intros)
    | (refine pred_elim (fun r : Flow => UnreadF r) ?_ ?_ <;> intros)
    | (intro _)
    | assumption
    | (refine u_ret ?_)
    | (refine u_go ?_)
    | (refine u_pret ?_)
    | (refine u_pcmd ?_)
    | (refine u_if_menu _ _ _ ?_ ?_)
    | (refine u_set_repeating _ _ _ ?_)
    | (refine u_repeat_shifted _ _ ?_)
    | (refine u_call E _ _ rfl ?_)
    | (refine u_mark _ _ rfl ?_)
    | (refine u_set_pending _ _ ?_)
    | (refine u_upd_arg _ _ ?_)
    | (refine u_set_arg_str _ _ _ ?_)
    | (refine u_upd _ _ ?_)
    | fail

theorem u_number_entry_dot (st : St) 
    (hb : Unread st) :
    UnreadF (number_entry_dot st) := by
  unfold number_entry_dot
  repeat' first
    | (refine u_next _ _ ?_ ?_)
    | (refine u_bind _ _ ?_ ?_)
    | (refine u_pick _ _ ?_ ?_)
    | (refine pred_ite (fun r : St => Unread r) ?_ ?_ <;> intro _)
    | (refine pred_ite (fun r : Flow => UnreadF r) ?_ ?_ <;> intro _)
    | (refine pred_ite (fun r : Pick => UnreadP r) ?_ ?_ <;> intro _)
    | (refine pred_elim (fun r : St => Unread r) ?_ ?_ <;> intros)
    | (refine pred_elim (fun r : Flow => UnreadF r) ?_ ?_ <;> intros)
    | (intro _)
    | assumption
    | (refine u_ret ?_)
    | (refine u_go ?_)
    | (refine u_pret ?_)
    | (refine u_pcmd ?_)
    | (refine u_if_menu _ _ _ ?_ ?_)
    | (refine u_set_repeating _ _ _ ?_)
    | (refine u_repeat_shifted _ _ ?_)
    | (refine u_call E _ _ rfl ?_)
    | (refine u_mark _ _ rfl ?_)
    | (refine u_set_pending _ _ ?_)
    | (refine u_upd_arg _ _ ?_)
    | (refine u_set_arg_str _ _ _ ?_)
    | (refine u_upd _ _ ?_)
    | fail

theorem u_number_entry_digit (E : Engine) (shift key base : Int) (st : St) 
    (hd : digit_of_key key ≠ none)
    (hb : Unread st) :
    UnreadF (number_entry_digit E shift key base st) := by
  unfold number_entry_digit
  repeat' first
    | (refine u_next _ _ ?_ ?_)
    | (refine u_bind _ _ ?_ ?_)
    | (refine u_pick _ _ ?_ ?_)
    | (refine pred_ite (fun r : St => Unread r) ?_ ?_ <;> intro _)
    | (refine pred_ite (fun r : Flow => UnreadF r) ?_ ?_ <;> intro _)
    | (refine pred_ite (fun r : Pick => UnreadP r) ?_ ?_ <;> intro _)
    | (refine pred_elim (fun r : St => Unread r) ?_ ?_ <;> intros)
    | (refine pred_elim (fun r : Flow => UnreadF r) ?_ ?_ <;> intros)
    | (intro _)
    | assumption
    | (refine u_ret ?_)
    | (refine u_go ?_)
    | (refine u_pret ?_)
    | (refine u_pcmd ?_)
    | (exact absurd (by assumption) hd)
    | (refine u_if_menu _ _ _ ?_ ?_)
    | (refine u_set_repeating _ _ _ ?_)
    | (refine u_repeat_shifted _ _ ?_)
    | (refine u_call E _ _ rfl ?_)
    | (refine u_mark _ _ rfl ?_)
    | (refine u_set_pending _ _ ?_)
    | (refine u_upd_arg _ _ ?_)
    | (refine u_set_arg_str _ _ _ ?_)
    | (refine u_upd _ _ ?_)
    | fail

theorem u_store_entered_value (E : Engine) (base : Int) (st : St) 
    (hb : Unread st) :
    Unread (store_entered_value E base st) := by
  unfold store_entered_value
  repeat' first
    | (refine u_next _ _ ?_ ?_)
    | (refine u_bind _ _ ?_ ?_)
    | (refine u_pick _ _ ?_ ?_)
    | (refine pred_ite (fun r : St => Unread r) ?_ ?_ <;> intro _)
    | (refine pred_ite (fun r : Flow => UnreadF r) ?_ ?_ <;> intro _)
    | (refine pred_ite (fun r : Pick => UnreadP r) ?_ ?_ <;> intro _)
    | (refine pred_elim (fun r : St => Unread r) ?_ ?_ <;> intros)
    | (refine pred_elim (fun r : Flow => UnreadF r) ?_ ?_ <;> intros)
    | (intro _)
    | assumption
    | (refine u_ret ?_)
    | (refine u_go ?_)
    | (refine u_pret ?_)
    | (refine u_pcmd ?_)
    | (refine u_if_menu _ _ _ ?_ ?_)
    | (refine u_set_repeating _ _ _ ?_)
    | (refine u_repeat_shifted _ _ ?_)
    | (refine u_call E _ _ rfl ?_)
    | (refine u_mark _ _ rfl ?_)
    | (refine u_set_pending _ _ ?_)
    | (refine u_upd_arg _ _ ?_)
    | (refine u_set_arg_str _ _ _ ?_)
    | (refine u_upd _ _ ?_)
    | fail

theorem u_keydown_number_entry (E : Engine) (shift key : Int) (st : St) 
    (hk : has_branch key)
    (hb : Unread st) :
    Unread (keydown_number_entry E shift key st) := by
  unfold keydown_number_entry
  repeat' first
    | (refine u_next _ _ ?_ ?_)
    | (refine u_bind _ _ ?_ ?_)
    | (refine u_pick _ _ ?_ ?_)
    | (refine u_pc_to_previous_line E _ ?_)
    | (refine u_draw_number E _ ?_)
    | (refine u_number_entry_bsp E _ _ _ _ ?_)
    | (refine u_number_entry_chs E _ ?_)
    | (refine u_number_entry_e _ ?_)
    | (refine u_number_entry_dot _ ?_)
    | (refine u_number_entry_digit E _ _ _ _ ?_ ?_)
    | (refine u_store_entered_value E _ _ ?_)
    | (refine pred_ite (fun r : St => Unread r) ?_ ?_ <;> intro _)
    | (refine pred_ite (fun r : Flow => UnreadF r) ?_ ?_ <;> intro _)
    | (refine pred_ite (fun r : Pick => UnreadP r) ?_ ?_ <;> intro _)
    | (refine pred_elim (fun r : St => Unread r) ?_ ?_ <;> intros)
    | (refine pred_elim (fun r : Flow => UnreadF r) ?_ ?_ <;> intros)
    | (intro _)
    | assumption
    | (refine u_ret ?_)
    | (refine u_go ?_)
    | (refine u_pret ?_)
    | (refine u_pcmd ?_)
    | (exact has_branch_digit hk (by assumption) (by assumption) (by assumption) (by assumption) (by assumption) (by assumption))
    | (refine u_if_menu _ _ _ ?_ ?_)
    | (refine u_set_repeating _ _ _ ?_)
    | (refine u_repeat_shifted _ _ ?_)
    | (refine u_call E _ _ rfl ?_)
    | (refine u_mark _ _ rfl ?_)
    | (refine u_set_pending _ _ ?_)
    | (refine u_upd_arg _ _ ?_)
    | (refine u_set_arg_str _ _ _ ?_)
    | (refine u_upd _ _ ?_)
    | fail

theorem u_command_entry_st (E : Engine) (shift key : Int) (st : St) 
    (hb : Unread st) :
    Unread (command_entry_st E shift key st) := by
  unfold command_entry_st
  repeat' first
    | (refine u_next _ _ ?_ ?_)
    | (refine u_bind _ _ ?_ ?_)
    | (refine u_pick _ _ ?_ ?_)
    | (refine pred_ite (fun r : St => Unread r) ?_ ?_ <;> intro _)
    | (refine pred_ite (fun r : Flow => UnreadF r) ?_ ?_ <;> intro _)
    | (refine pred_ite (fun r : Pick => UnreadP r) ?_ ?_ <;> intro _)
    | (refine pred_elim (fun r : St => Unread r) ?_ ?_ <;> intros)
    | (refine pred_elim (fun r : Flow => UnreadF r) ?_ ?_ <;> intros)
    | (intro _)
    | assumption
    | (refine u_ret ?_)
    | (refine u_go ?_)
    | (refine u_pret ?_)
    | (refine u_pcmd ?_)
    | (refine u_if_menu _ _ _ ?_ ?_)
    | (refine u_set_repeating _ _ _ ?_)
    | (refine u_repeat_shifted _ _ ?_)
    | (refine u_call E _ _ rfl ?_)
    | (refine u_mark _ _ rfl ?_)
    | (refine u_set_pending _ _ ?_)
    | (refine u_upd_arg _ _ ?_)
    | (refine u_set_arg_str _ _ _ ?_)
    | (refine u_upd _ _ ?_)
    | fail

theorem u_command_entry_ckey (E : Engine) (shift key : Int) (st : St) 
    (hb : Unread st) :
    Unread (command_entry_ckey E shift key st) := by
  unfold command_entry_ckey
  repeat' first
    | (refine u_next _ _ ?_ ?_)
    | (refine u_bind _ _ ?_ ?_)
    | (refine u_pick _ _ ?_ ?_)
    | (refine pred_ite (fun r : St => Unread r) ?_ ?_ <;> intro _)
    | (refine pred_ite (fun r : Flow => UnreadF r) ?_ ?_ <;> intro _)
    | (refine pred_ite (fun r : Pick => UnreadP r) ?_ ?_ <;> intro _)
    | (refine pred_elim (fun r : St => Unread r) ?_ ?_ <;> intros)
    | (refine pred_elim (fun r : Flow => UnreadF r) ?_ ?_ <;> intros)
    | (intro _)
    | assumption
    | (refine u_ret ?_)
    | (refine u_go ?_)
    | (refine u_pret ?_)
    | (refine u_pcmd ?_)
    | (refine u_if_menu _ _ _ ?_ ?_)
    | (refine u_set_repeating _ _ _ ?_)
    | (refine u_repeat_shifted _ _ ?_)
    | (refine u_call E _ _ rfl ?_)
    | (refine u_mark _ _ rfl ?_)
    | (refine u_set_pending _ _ ?_)
    | (refine u_upd_arg _ _ ?_)
    | (refine u_set_arg_str _ _ _ ?_)
    | (refine u_upd _ _ ?_)
    | fail

theorem u_command_entry_mkey (E : Engine) (shift key : Int) (st : St) 
    (hb : Unread st) :
    Unread (command_entry_mkey E shift key st) := by
  unfold command_entry_mkey
  repeat' first
    | (refine u_next _ _ ?_ ?_)
    | (refine u_bind _ _ ?_ ?_)
    | (refine u_pick _ _ ?_ ?_)
    | (refine pred_ite (fun r : St => Unread r) ?_ ?_ <;> intro _)
    | (refine pred_ite (fun r : Flow => UnreadF r) ?_ ?_ <;> intro _)
    | (refine pred_ite (fun r : Pick => UnreadP r) ?_ ?_ <;> intro _)
    | (refine pred_elim (fun r : St => Unread r) ?_ ?_ <;> intros)
    | (refine pred_elim (fun r : Flow => UnreadF r) ?_ ?_ <;> intros)
    | (intro _)
    | assumption
    | (refine u_ret ?_)
    | (refine u_go ?_)
    | (refine u_pret ?_)
    | (refine u_pcmd ?_)
    | (refine u_if_menu _ _ _ ?_ ?_)
    | (refine u_set_repeating _ _ _ ?_)
    | (refine u_repeat_shifted _ _ ?_)
    | (refine u_call E _ _ rfl ?_)
    | (refine u_mark _ _ rfl ?_)
    | (refine u_set_pending _ _ ?_)
    | (refine u_upd_arg _ _ ?_)
    | (refine u_set_arg_str _ _ _ ?_)
    | (refine u_upd _ _ ?_)
    | fail

theorem u_show_briefly (E : Engine) (st : St) 
    (hb : Unread st) :
    Unread (show_briefly E st) := by
  unfold show_briefly
  repeat' first
    | (refine u_next _ _ ?_ ?_)
    | (refine u_bind _ _ ?_ ?_)
    | (refine u_pick _ _ ?_ ?_)
    | (refine pred_ite (fun r : St => Unread r) ?_ ?_ <;> intro _)
    | (refine pred_ite (fun r : Flow => UnreadF r) ?_ ?_ <;> intro _)
    | (refine pred_ite (fun r : Pick => UnreadP r) ?_ ?_ <;> intro _)
    | (refine pred_elim (fun r : St => Unread r) ?_ ?_ <;> intros)
    | (refine pred_elim (fun r : Flow => UnreadF r) ?_ ?_ <;> intros)
    | (intro _)
    | assumption
    | (refine u_ret ?_)
    | (refine u_go ?_)
    | (refine u_pret ?_)
    | (refine u_pcmd ?_)
    | (refine u_if_menu _ _ _ ?_ ?_)
    | (refine u_set_repeating _ _ _ ?_)
    | (refine u_repeat_shifted _ _ ?_)
    | (refine u_call E _ _ rfl ?_)
    | (refine u_mark _ _ rfl ?_)
    | (refine u_set_pending _ _ ?_)
    | (refine u_upd_arg _ _ ?_)
    | (refine u_set_arg_str _ _ _ ?_)
    | (refine u_upd _ _ ?_)
    | fail

theorem u_command_entry_catalog_item (E : Engine) (menukey catsect : Int) (st : St) 
    (hb : Unread st) :
    Unread (command_entry_catalog_item E menukey catsect st) := by
  unfold command_entry_catalog_item
  repeat' first
    | (refine u_next _ _ ?_ ?_)
    | (refine u_bind _ _ ?_ ?_)
    | (refine u_pick _ _ ?_ ?_)
    | (refine u_show_briefly E _ ?_)
    | (refine pred_ite (fun r : St => Unread r) ?_ ?_ <;> intro _)
    | (refine pred_ite (fun r : Flow => UnreadF r) ?_ ?_ <;> intro _)
    | (refine pred_ite (fun r : Pick => UnreadP r) ?_ ?_ <;> intro _)
    | (refine pred_elim (fun r : St => Unread r) ?_ ?_ <;> intros)
    | (refine pred_elim (fun r : Flow => UnreadF r) ?_ ?_ <;> intros)
    | (intro _)
    | assumption
    | (refine u_ret ?_)
    | (refine u_go ?_)
    | (refine u_pret ?_)
    | (refine u_pcmd ?_)
    | (refine u_if_menu _ _ _ ?_ ?_)
    | (refine u_set_repeating _ _ _ ?_)
    | (refine u_repeat_shifted _ _ ?_)
    | (refine u_call E _ _ rfl ?_)
    | (refine u_mark _ _ rfl ?_)
    | (refine u_set_pending _ _ ?_)
    | (refine u_upd_arg _ _ ?_)
    | (refine u_set_arg_str _ _ _ ?_)
    | (refine u_upd _ _ ?_)
    | fail

theorem u_command_entry_catalog (E : Engine) (shift key : Int) (st : St) 
    (hb : Unread st) :
    UnreadF (command_entry_catalog E shift key st) := by
  unfold command_entry_catalog
  repeat' first
    | (refine u_next _ _ ?_ ?_)
    | (refine u_bind _ _ ?_ ?_)
    | (refine u_pick _ _ ?_ ?_)
    | (refine u_command_entry_catalog_item E _ _ _ ?_)
    | (refine pred_ite (fun r : St => Unread r) ?_ ?_ <;> intro _)
    | (refine pred_ite (fun r : Flow => UnreadF r) ?_ ?_ <;> intro _)
    | (refine pred_ite (fun r : Pick => UnreadP r) ?_ ?_ <;> intro _)
    | (refine pred_elim (fun r : St => Unread r) ?_ ?_ <;> intros)
    | (refine pred_elim (fun r : Flow => UnreadF r) ?_ ?_ <;> intros)
    | (intro _)
    | assumption
    | (refine u_ret ?_)
    | (refine u_go ?_)
    | (refine u_pret ?_)
    | (refine u_pcmd ?_)
    | (refine u_if_menu _ _ _ ?_ ?_)
    | (refine u_set_repeating _ _ _ ?_)
    | (refine u_repeat_shifted _ _ ?_)
    | (refine u_call E _ _ rfl ?_)
    | (refine u_mark _ _ rfl ?_)
    | (refine u_set_pending _ _ ?_)
    | (refine u_upd_arg _ _ ?_)
    | (refine u_set_arg_str _ _ _ ?_)
    | (refine u_upd _ _ ?_)
    | fail

theorem u_command_entry_varmenu (E : Engine) (shift key : Int) (st : St) 
    (hb : Unread st) :
    UnreadF (command_entry_varmenu E shift key st) := by
  unfold command_entry_varmenu
  repeat' first
    | (refine u_next _ _ ?_ ?_)
    | (refine u_bind _ _ ?_ ?_)
    | (refine u_pick _ _ ?_ ?_)
    | (refine pred_ite (fun r : St => Unread r) ?_ ?_ <;> intro _)
    | (refine pred_ite (fun r : Flow => UnreadF r) ?_ ?_ <;> intro _)
    | (refine pred_ite (fun r : Pick => UnreadP r) ?_ ?_ <;> intro _)
    | (refine pred_elim (fun r : St => Unread r) ?_ ?_ <;> intros)
    | (refine pred_elim (fun r : Flow => UnreadF r) ?_ ?_ <;> intros)
    | (intro _)
    | assumption
    | (refine u_ret ?_)
    | (refine u_go ?_)
    | (refine u_pret ?_)
    | (refine u_pcmd ?_)
    | (refine u_if_menu _ _ _ ?_ ?_)
    | (refine u_set_repeating _ _ _ ?_)
    | (refine u_repeat_shifted _ _ ?_)
    | (refine u_call E _ _ rfl ?_)
    | (refine u_mark _ _ rfl ?_)
    | (refine u_set_pending _ _ ?_)
    | (refine u_upd_arg _ _ ?_)
    | (refine u_set_arg_str _ _ _ ?_)
    | (refine u_upd _ _ ?_)
    | fail

theorem u_command_entry_integ_params (E : Engine) (key : Int) (st : St) 
    (hb : Unread st) :
    UnreadF (command_entry_integ_params E key st) := by
  unfold command_entry_integ_params
  repeat' first
    | (refine u_next _ _ ?_ ?_)
    | (refine u_bind _ _ ?_ ?_)
    | (refine u_pick _ _ ?_ ?_)
    | (refine pred_ite (fun r : St => Unread r) ?_ ?_ <;> intro _)
    | (refine pred_ite (fun r : Flow => UnreadF r) ?_ ?_ <;> intro _)
    | (refine pred_ite (fun r : Pick => UnreadP r) ?_ ?_ <;> intro _)
    | (refine pred_elim (fun r : St => Unread r) ?_ ?_ <;> intros)
    | (refine pred_elim (fun r : Flow => UnreadF r) ?_ ?_ <;> intros)
    | (intro _)
    | assumption
    | (refine u_ret ?_)
    | (refine u_go ?_)
    | (refine u_pret ?_)
    | (refine u_pcmd ?_)
    | (refine u_if_menu _ _ _ ?_ ?_)
    | (refine u_set_repeating _ _ _ ?_)
    | (refine u_repeat_shifted _ _ ?_)
    | (refine u_call E _ _ rfl ?_)
    | (refine u_mark _ _ rfl ?_)
    | (refine u_set_pending _ _ ?_)
    | (refine u_upd_arg _ _ ?_)
    | (refine u_set_arg_str _ _ _ ?_)
    | (refine u_upd _ _ ?_)
    | fail

theorem u_print_num_command (E : Engine) (cmd : Int) (st : St) 
    (hb : Unread st) :
    Unread (print_num_command E cmd st) := by
  unfold print_num_command
  repeat' first
    | (refine u_next _ _ ?_ ?_)
    | (refine u_bind _ _ ?_ ?_)
    | (refine u_pick _ _ ?_ ?_)
    | (refine pred_ite (fun r : St => Unread r) ?_ ?_ <;> intro _)
    | (refine pred_ite (fun r : Flow => UnreadF r) ?_ ?_ <;> intro _)
    | (refine pred_ite (fun r : Pick => UnreadP r) ?_ ?_ <;> intro _)
    | (refine pred_elim (fun r : St => Unread r) ?_ ?_ <;> intros)
    | (refine pred_elim (fun r : Flow => UnreadF r) ?_ ?_ <;> intros)
    | (intro _)
    | assumption
    | (refine u_ret ?_)
    | (refine u_go ?_)
    | (refine u_pret ?_)
    | (refine u_pcmd ?_)
    | (refine u_if_menu _ _ _ ?_ ?_)
    | (refine u_set_repeating _ _ _ ?_)
    | (refine u_repeat_shifted _ _ ?_)
    | (refine u_call E _ _ rfl ?_)
    | (refine u_mark _ _ rfl ?_)
    | (refine u_set_pending _ _ ?_)
    | (refine u_upd_arg _ _ ?_)
    | (refine u_set_arg_str _ _ _ ?_)
    | (refine u_upd _ _ ?_)
    | fail

theorem u_command_entry_goto_column (E : Engine) (st : St) 
    (hb : Unread st) :
    Unread (command_entry_goto_column E st) := by
  unfold command_entry_goto_column
  repeat' first
    | (refine u_next _ _ ?_ ?_)
    | (refine u_bind _ _ ?_ ?_)
    | (refine u_pick _ _ ?_ ?_)
    | (refine u_print_num_command E _ _ ?_)
    | (refine pred_ite (fun r : St => Unread r) ?_ ?_ <;> intro _)
    | (refine pred_ite (fun r : Flow => UnreadF r) ?_ ?_ <;> intro _)
    | (refine pred_ite (fun r : Pick => UnreadP r) ?_ ?_ <;> intro _)
    | (refine pred_elim (fun r : St => Unread r) ?_ ?_ <;> intros)
    | (refine pred_elim (fun r : Flow => UnreadF r) ?_ ?_ <;> intros)
    | (intro _)
    | assumption
    | (refine u_ret ?_)
    | (refine u_go ?_)
    | (refine u_pret ?_)
    | (refine u_pcmd ?_)
    | (refine u_if_menu _ _ _ ?_ ?_)
    | (refine u_set_repeating _ _ _ ?_)
    | (refine u_repeat_shifted _ _ ?_)
    | (refine u_call E _ _ rfl ?_)
    | (refine u_mark _ _ rfl ?_)
    | (refine u_set_pending _ _ ?_)
    | (refine u_upd_arg _ _ ?_)
    | (refine u_set_arg_str _ _ _ ?_)
    | (refine u_upd _ _ ?_)
    | fail

theorem u_command_entry_goto_row (E : Engine) (st : St) 
    (hb : Unread st) :
    Unread (command_entry_goto_row E st) := by
  unfold command_entry_goto_row
  repeat' first
    | (refine u_next _ _ ?_ ?_)
    | (refine u_bind _ _ ?_ ?_)
    | (refine u_pick _ _ ?_ ?_)
    | (refine u_print_num_command E _ _ ?_)
    | (refine u_command_entry_goto_column E _ ?_)
    | (refine pred_ite (fun r : St => Unread r) ?_ ?_ <;> intro _)
    | (refine pred_ite (fun r : Flow => UnreadF r) ?_ ?_ <;> intro _)
    | (refine pred_ite (fun r : Pick => UnreadP r) ?_ ?_ <;> intro _)
    | (refine pred_elim (fun r : St => Unread r) ?_ ?_ <;> intros)
    | (refine pred_elim (fun r : Flow => UnreadF r) ?_ ?_ <;> intros)
    | (intro _)
    | assumption
    | (refine u_ret ?_)
    | (refine u_go ?_)
    | (refine u_pret ?_)
    | (refine u_pcmd ?_)
    | (refine u_if_menu _ _ _ ?_ ?_)
    | (refine u_set_repeating _ _ _ ?_)
    | (refine u_repeat_shifted _ _ ?_)
    | (refine u_call E _ _ rfl ?_)
    | (refine u_mark _ _ rfl ?_)
    | (refine u_set_pending _ _ ?_)
    | (refine u_upd_arg _ _ ?_)
    | (refine u_set_arg_str _ _ _ ?_)
    | (refine u_upd _ _ ?_)
    | fail

theorem u_restore_argument_menu (E : Engine) (last : Bool) (st : St) 
    (hb : Unread st) :
    Unread (restore_argument_menu E last st) := by
  unfold restore_argument_menu
  repeat' first
    | (refine u_next _ _ ?_ ?_)
    | (refine u_bind _ _ ?_ ?_)
    | (refine u_pick _ _ ?_ ?_)
    | (refine pred_ite (fun r : St => Unread r) ?_ ?_ <;> intro _)
    | (refine pred_ite (fun r : Flow => UnreadF r) ?_ ?_ <;> intro _)
    | (refine pred_ite (fun r : Pick => UnreadP r) ?_ ?_ <;> intro _)
    | (refine pred_elim (fun r : St => Unread r) ?_ ?_ <;> intros)
    | (refine pred_elim (fun r : Flow => UnreadF r) ?_ ?_ <;> intros)
    | (intro _)
    | assumption
    | (refine u_ret ?_)
    | (refine u_go ?_)
    | (refine u_pret ?_)
    | (refine u_pcmd ?_)
    | (refine u_if_menu _ _ _ ?_ ?_)
    | (refine u_set_repeating _ _ _ ?_)
    | (refine u_repeat_shifted _ _ ?_)
    | (refine u_call E _ _ rfl ?_)
    | (refine u_mark _ _ rfl ?_)
    | (refine u_set_pending _ _ ?_)
    | (refine u_upd_arg _ _ ?_)
    | (refine u_set_arg_str _ _ _ ?_)
    | (refine u_upd _ _ ?_)
    | fail

theorem u_numeric_argument_menu (E : Engine) (st : St) 
    (hb : Unread st) :
    Unread (numeric_argument_menu E st) := by
  unfold numeric_argument_menu
  repeat' first
    | (refine u_next _ _ ?_ ?_)
    | (refine u_bind _ _ ?_ ?_)
    | (refine u_pick _ _ ?_ ?_)
    | (refine u_restore_argument_menu E _ _ ?_)
    | (refine pred_ite (fun r : St => Unread r) ?_ ?_ <;> intro _)
    | (refine pred_ite (fun r : Flow => UnreadF r) ?_ ?_ <;> intro _)
    | (refine pred_ite (fun r : Pick => UnreadP r) ?_ ?_ <;> intro _)
    | (refine pred_elim (fun r : St => Unread r) ?_ ?_ <;> intros)
    | (refine pred_elim (fun r : Flow => UnreadF r) ?_ ?_ <;> intros)
    | (intro _)
    | assumption
    | (refine u_ret ?_)
    | (refine u_go ?_)
    | (refine u_pret ?_)
    | (refine u_pcmd ?_)
    | (refine u_if_menu _ _ _ ?_ ?_)
    | (refine u_set_repeating _ _ _ ?_)
    | (refine u_repeat_shifted _ _ ?_)
    | (refine u_call E _ _ rfl ?_)
    | (refine u_mark _ _ rfl ?_)
    | (refine u_set_pending _ _ ?_)
    | (refine u_upd_arg _ _ ?_)
    | (refine u_set_arg_str _ _ _ ?_)
    | (refine u_upd _ _ ?_)
    | fail

theorem u_command_entry_numeric_enter (E : Engine) (shift : Int) (st : St) 
    (hb : Unread st) :
    UnreadF (command_entry_numeric_enter E shift st) := by
  unfold command_entry_numeric_enter
  repeat' first
    | (refine u_next _ _ ?_ ?_)
    | (refine u_bind _ _ ?_ ?_)
    | (refine u_pick _ _ ?_ ?_)
    | (refine u_command_entry_goto_column E _ ?_)
    | (refine u_command_entry_goto_row E _ ?_)
    | (refine pred_ite (fun r : St => Unread r) ?_ ?_ <;> intro _)
    | (refine pred_ite (fun r : Flow => UnreadF r) ?_ ?_ <;> intro _)
    | (refine pred_ite (fun r : Pick => UnreadP r) ?_ ?_ <;> intro _)
    | (refine pred_elim (fun r : St => Unread r) ?_ ?_ <;> intros)
    | (refine pred_elim (fun r : Flow => UnreadF r) ?_ ?_ <;> intros)
    | (intro _)
    | assumption
    | (refine u_ret ?_)
    | (refine u_go ?_)
    | (refine u_pret ?_)
    | (refine u_pcmd ?_)
    | (refine u_if_menu _ _ _ ?_ ?_)
    | (refine u_set_repeating _ _ _ ?_)
    | (refine u_repeat_shifted _ _ ?_)
    | (refine u_call E _ _ rfl ?_)
    | (refine u_mark _ _ rfl ?_)
    | (refine u_set_pending _ _ ?_)
    | (refine u_upd_arg _ _ ?_)
    | (refine u_set_arg_str _ _ _ ?_)
    | (refine u_upd _ _ ?_)
    | fail

theorem u_command_entry_numeric_dot (E : Engine) (st : St) 
    (hb : Unread st) :
    Unread (command_entry_numeric_dot E st) := by
  unfold command_entry_numeric_dot
  repeat' first
    | (refine u_next _ _ ?_ ?_)
    | (refine u_bind _ _ ?_ ?_)
    | (refine u_pick _ _ ?_ ?_)
    | (refine pred_ite (fun r : St => Unread r) ?_ ?_ <;> intro _)
    | (refine pred_ite (fun r : Flow => UnreadF r) ?_ ?_ <;> intro _)
    | (refine pred_ite (fun r : Pick => UnreadP r) ?_ ?_ <;> intro _)
    | (refine pred_elim (fun r : St => Unread r) ?_ ?_ <;> intros)
    | (refine pred_elim (fun r : Flow => UnreadF r) ?_ ?_ <;> intros)
    | (intro _)
    | assumption
    | (refine u_ret ?_)
    | (refine u_go ?_)
    | (refine u_pret ?_)
    | (refine u_pcmd ?_)
    | (refine u_if_menu _ _ _ ?_ ?_)
    | (refine u_set_repeating _ _ _ ?_)
    | (refine u_repeat_shifted _ _ ?_)
    | (refine u_call E _ _ rfl ?_)
    | (refine u_mark _ _ rfl ?_)
    | (refine u_set_pending _ _ ?_)
    | (refine u_upd_arg _ _ ?_)
    | (refine u_set_arg_str _ _ _ ?_)
    | (refine u_upd _ _ ?_)
    | fail

theorem u_command_entry_numeric_digit (E : Engine) (key : Int) (st : St) 
    (hb : Unread st) :
    Unread (command_entry_numeric_digit E key st) := by
  unfold command_entry_numeric_digit
  repeat' first
    | (refine u_next _ _ ?_ ?_)
    | (refine u_bind _ _ ?_ ?_)
    | (refine u_pick _ _ ?_ ?_)
    | (refine u_command_entry_goto_column E _ ?_)
    | (refine u_command_entry_goto_row E _ ?_)
    | (refine pred_ite (fun r : St => Unread r) ?_ ?_ <;> intro _)
    | (refine pred_ite (fun r : Flow => UnreadF r) ?_ ?_ <;> intro _)
    | (refine pred_ite (fun r : Pick => UnreadP r) ?_ ?_ <;> intro _)
    | (refine pred_elim (fun r : St => Unread r) ?_ ?_ <;> intros)
    | (refine pred_elim (fun r : Flow => UnreadF r) ?_ ?_ <;> intros)
    | (intro _)
    | assumption
    | (refine u_ret ?_)
    | (refine u_go ?_)
    | (refine u_pret ?_)
    | (refine u_pcmd ?_)
    | (refine u_if_menu _ _ _ ?_ ?_)
    | (refine u_set_repeating _ _ _ ?_)
    | (refine u_repeat_shifted _ _ ?_)
    | (refine u_call E _ _ rfl ?_)
    | (refine u_mark _ _ rfl ?_)
    | (refine u_set_pending _ _ ?_)
    | (refine u_upd_arg _ _ ?_)
    | (refine u_set_arg_str _ _ _ ?_)
    | (refine u_upd _ _ ?_)
    | fail

theorem u_command_entry_numeric_bsp (E : Engine) (st : St) 
    (hb : Unread st) :
    Unread (command_entry_numeric_bsp E st) := by
  unfold command_entry_numeric_bsp
  repeat' first
    | (refine u_next _ _ ?_ ?_)
    | (refine u_bind _ _ ?_ ?_)
    | (refine u_pick _ _ ?_ ?_)
    | (refine u_numeric_argument_menu E _ ?_)
    | (refine pred_ite (fun r : St => Unread r) ?_ ?_ <;> intro _)
    | (refine pred_ite (fun r : Flow => UnreadF r) ?_ ?_ <;> intro _)
    | (refine pred_ite (fun r : Pick => UnreadP r) ?_ ?_ <;> intro _)
    | (refine pred_elim (fun r : St => Unread r) ?_ ?_ <;> intros)
    | (refine pred_elim (fun r : Flow => UnreadF r) ?_ ?_ <;> intros)
    | (intro _)
    | assumption
    | (refine u_ret ?_)
    | (refine u_go ?_)
    | (refine u_pret ?_)
    | (refine u_pcmd ?_)
    | (refine u_if_menu _ _ _ ?_ ?_)
    | (refine u_set_repeating _ _ _ ?_)
    | (refine u_repeat_shifted _ _ ?_)
    | (refine u_call E _ _ rfl ?_)
    | (refine u_mark _ _ rfl ?_)
    | (refine u_set_pending _ _ ?_)
    | (refine u_upd_arg _ _ ?_)
    | (refine u_set_arg_str _ _ _ ?_)
    | (refine u_upd _ _ ?_)
    | fail

theorem u_command_entry_numeric (E : Engine) (shift key : Int) (st : St) 
    (hb : Unread st) :
    Unread (command_entry_numeric E shift key st) := by
  unfold command_entry_numeric
  repeat' first
    | (refine u_next _ _ ?_ ?_)
    | (refine u_bind _ _ ?_ ?_)
    | (refine u_pick _ _ ?_ ?_)
    | (refine u_command_entry_numeric_enter E _ _ ?_)
    | (refine u_command_entry_numeric_dot E _ ?_)
    | (refine u_command_entry_numeric_digit E _ _ ?_)
    | (refine u_command_entry_numeric_bsp E _ ?_)
    | (refine pred_ite (fun r : St => Unread r) ?_ ?_ <;> intro _)
    | (refine pred_ite (fun r : Flow => UnreadF r) ?_ ?_ <;> intro _)
    | (refine pred_ite (fun r : Pick => UnreadP r) ?_ ?_ <;> intro _)
    | (refine pred_elim (fun r : St => Unread r) ?_ ?_ <;> intros)
    | (refine pred_elim (fun r : Flow => UnreadF r) ?_ ?_ <;> intros)
    | (intro _)
    | assumption
    | (refine u_ret ?_)
    | (refine u_go ?_)
    | (refine u_pret ?_)
    | (refine u_pcmd ?_)
    | (refine u_if_menu _ _ _ ?_ ?_)
    | (refine u_set_repeating _ _ _ ?_)
    | (refine u_repeat_shifted _ _ ?_)
    | (refine u_call E _ _ rfl ?_)
    | (refine u_mark _ _ rfl ?_)
    | (refine u_set_pending _ _ ?_)
    | (refine u_upd_arg _ _ ?_)
    | (refine u_set_arg_str _ _ _ ?_)
    | (refine u_upd _ _ ?_)
    | fail

theorem u_command_entry_handle_char (E : Engine) (c : Nat) (m : Option menu_spec) (st : St) 
    (hb : Unread st) :
    Unread (command_entry_handle_char E c m st) := by
  unfold command_entry_handle_char
  repeat' first
    | (refine u_next _ _ ?_ ?_)
    | (refine u_bind _ _ ?_ ?_)
    | (refine u_pick _ _ ?_ ?_)
    | (refine pred_ite (fun r : St => Unread r) ?_ ?_ <;> intro _)
    | (refine pred_ite (fun r : Flow => UnreadF r) ?_ ?_ <;> intro _)
    | (refine pred_ite (fun r : Pick => UnreadP r) ?_ ?_ <;> intro _)
    | (refine pred_elim (fun r : St => Unread r) ?_ ?_ <;> intros)
    | (refine pred_elim (fun r : Flow => UnreadF r) ?_ ?_ <;> intros)
    | (intro _)
    | assumption
    | (refine u_ret ?_)
    | (refine u_go ?_)
    | (refine u_pret ?_)
    | (refine u_pcmd ?_)
    | (refine u_if_menu _ _ _ ?_ ?_)
    | (refine u_set_repeating _ _ _ ?_)
    | (refine u_repeat_shifted _ _ ?_)
    | (refine u_call E _ _ rfl ?_)
    | (refine u_mark _ _ rfl ?_)
    | (refine u_set_pending _ _ ?_)
    | (refine u_upd_arg _ _ ?_)
    | (refine u_set_arg_str _ _ _ ?_)
    | (refine u_upd _ _ ?_)
    | fail

theorem u_out_of_alpha (E : Engine) (st : St) 
    (hb : Unread st) :
    Unread (out_of_alpha E st) := by
  unfold out_of_alpha
  repeat' first
    | (refine u_next _ _ ?_ ?_)
    | (refine u_bind _ _ ?_ ?_)
    | (refine u_pick _ _ ?_ ?_)
    | (refine u_restore_argument_menu E _ _ ?_)
    | (refine pred_ite (fun r : St => Unread r) ?_ ?_ <;> intro _)
    | (refine pred_ite (fun r : Flow => UnreadF r) ?_ ?_ <;> intro _)
    | (refine pred_ite (fun r : Pick => UnreadP r) ?_ ?_ <;> intro _)
    | (refine pred_elim (fun r : St => Unread r) ?_ ?_ <;> intros)
    | (refine pred_elim (fun r : Flow => UnreadF r) ?_ ?_ <;> intros)
    | (intro _)
    | assumption
    | (refine u_ret ?_)
    | (refine u_go ?_)
    | (refine u_pret ?_)
    | (refine u_pcmd ?_)
    | (refine u_if_menu _ _ _ ?_ ?_)
    | (refine u_set_repeating _ _ _ ?_)
    | (refine u_repeat_shifted _ _ ?_)
    | (refine u_call E _ _ rfl ?_)
    | (refine u_mark _ _ rfl ?_)
    | (refine u_set_pending _ _ ?_)
    | (refine u_upd_arg _ _ ?_)
    | (refine u_set_arg_str _ _ _ ?_)
    | (refine u_upd _ _ ?_)
    | fail

theorem u_back_to_gtodot (E : Engine) (st : St) 
    (hb : Unread st) :
    Unread (back_to_gtodot E st) := by
  unfold back_to_gtodot
  repeat' first
    | (refine u_next _ _ ?_ ?_)
    | (refine u_bind _ _ ?_ ?_)
    | (refine u_pick _ _ ?_ ?_)
    | (refine pred_ite (fun r : St => Unread r) ?_ ?_ <;> intro _)
    | (refine pred_ite (fun r : Flow => UnreadF r) ?_ ?_ <;> intro _)
    | (refine pred_ite (fun r : Pick => UnreadP r) ?_ ?_ <;> intro _)
    | (refine pred_elim (fun r : St => Unread r) ?_ ?_ <;> intros)
    | (refine pred_elim (fun r : Flow => UnreadF r) ?_ ?_ <;> intros)
    | (intro _)
    | assumption
    | (refine u_ret ?_)
    | (refine u_go ?_)
    | (refine u_pret ?_)
    | (refine u_pcmd ?_)
    | (refine u_if_menu _ _ _ ?_ ?_)
    | (refine u_set_repeating _ _ _ ?_)
    | (refine u_repeat_shifted _ _ ?_)
    | (refine u_call E _ _ rfl ?_)
    | (refine u_mark _ _ rfl ?_)
    | (refine u_set_pending _ _ ?_)
    | (refine u_upd_arg _ _ ?_)
    | (refine u_set_arg_str _ _ _ ?_)
    | (refine u_upd _ _ ?_)
    | fail

theorem u_catalog_if_exist (E : Engine) (kind sect : Int) (clear : Bool) (st : St) 
    (hb : Unread st) :
    Unread (catalog_if_exist E kind sect clear st) := by
  unfold catalog_if_exist
  repeat' first
    | (refine u_next _ _ ?_ ?_)
    | (refine u_bind _ _ ?_ ?_)
    | (refine u_pick _ _ ?_ ?_)
    | (refine pred_ite (fun r : St => Unread r) ?_ ?_ <;> intro _)
    | (refine pred_ite (fun r : Flow => UnreadF r) ?_ ?_ <;> intro _)
    | (refine pred_ite (fun r : Pick => UnreadP r) ?_ ?_ <;> intro _)
    | (refine pred_elim (fun r : St => Unread r) ?_ ?_ <;> intros)
    | (refine pred_elim (fun r : Flow => UnreadF r) ?_ ?_ <;> intros)
    | (intro _)
    | assumption
    | (refine u_ret ?_)
    | (refine u_go ?_)
    | (refine u_pret ?_)
    | (refine u_pcmd ?_)
    | (refine u_if_menu _ _ _ ?_ ?_)
    | (refine u_set_repeating _ _ _ ?_)
    | (refine u_repeat_shifted _ _ ?_)
    | (refine u_call E _ _ rfl ?_)
    | (refine u_mark _ _ rfl ?_)
    | (refine u_set_pending _ _ ?_)
    | (refine u_upd_arg _ _ ?_)
    | (refine u_set_arg_str _ _ _ ?_)
    | (refine u_upd _ _ ?_)
    | fail

theorem u_alpha_bsp_empty_in_alpha_menu (E : Engine) (st : St) 
    (hb : Unread st) :
    Unread (alpha_bsp_empty_in_alpha_menu E st) := by
  unfold alpha_bsp_empty_in_alpha_menu
  repeat' first
    | (refine u_next _ _ ?_ ?_)
    | (refine u_bind _ _ ?_ ?_)
    | (refine u_pick _ _ ?_ ?_)
    | (refine u_out_of_alpha E _ ?_)
    | (refine u_back_to_gtodot E _ ?_)
    | (refine u_catalog_if_exist E _ _ _ _ ?_)
    | (refine pred_ite (fun r : St => Unread r) ?_ ?_ <;> intro _)
    | (refine pred_ite (fun r : Flow => UnreadF r) ?_ ?_ <;> intro _)
    | (refine pred_ite (fun r : Pick => UnreadP r) ?_ ?_ <;> intro _)
    | (refine pred_elim (fun r : St => Unread r) ?_ ?_ <;> intros)
    | (refine pred_elim (fun r : Flow => UnreadF r) ?_ ?_ <;> intros)
    | (intro _)
    | assumption
    | (refine u_ret ?_)
    | (refine u_go ?_)
    | (refine u_pret ?_)
    | (refine u_pcmd ?_)
    | (refine u_if_menu _ _ _ ?_ ?_)
    | (refine u_set_repeating _ _ _ ?_)
    | (refine u_repeat_shifted _ _ ?_)
    | (refine u_call E _ _ rfl ?_)
    | (refine u_mark _ _ rfl ?_)
    | (refine u_set_pending _ _ ?_)
    | (refine u_upd_arg _ _ ?_)
    | (refine u_set_arg_str _ _ _ ?_)
    | (refine u_upd _ _ ?_)
    | fail

theorem u_alpha_bsp_empty (E : Engine) (st : St) 
    (hb : Unread st) :
    Unread (alpha_bsp_empty E st) := by
  unfold alpha_bsp_empty
  repeat' first
    | (refine u_next _ _ ?_ ?_)
    | (refine u_bind _ _ ?_ ?_)
    | (refine u_pick _ _ ?_ ?_)
    | (refine u_alpha_bsp_empty_in_alpha_menu E _ ?_)
    | (refine pred_ite (fun r : St => Unread r) ?_ ?_ <;> intro _)
    | (refine pred_ite (fun r : Flow => UnreadF r) ?_ ?_ <;> intro _)
    | (refine pred_ite (fun r : Pick => UnreadP r) ?_ ?_ <;> intro _)
    | (refine pred_elim (fun r : St => Unread r) ?_ ?_ <;> intros)
    | (refine pred_elim (fun r : Flow => UnreadF r) ?_ ?_ <;> intros)
    | (intro _)
    | assumption
    | (refine u_ret ?_)
    | (refine u_go ?_)
    | (refine u_pret ?_)
    | (refine u_pcmd ?_)
    | (refine u_if_menu _ _ _ ?_ ?_)
    | (refine u_set_repeating _ _ _ ?_)
    | (refine u_repeat_shifted _ _ ?_)
    | (refine u_call E _ _ rfl ?_)
    | (refine u_mark _ _ rfl ?_)
    | (refine u_set_pending _ _ ?_)
    | (refine u_upd_arg _ _ ?_)
    | (refine u_set_arg_str _ _ _ ?_)
    | (refine u_upd _ _ ?_)
    | fail

theorem u_alpha_bsp_last (E : Engine) (st : St) 
    (hb : Unread st) :
    Unread (alpha_bsp_last E st) := by
  unfold alpha_bsp_last
  repeat' first
    | (refine u_next _ _ ?_ ?_)
    | (refine u_bind _ _ ?_ ?_)
    | (refine u_pick _ _ ?_ ?_)
    | (refine u_out_of_alpha E _ ?_)
    | (refine u_back_to_gtodot E _ ?_)
    | (refine u_catalog_if_exist E _ _ _ _ ?_)
    | (refine pred_ite (fun r : St => Unread r) ?_ ?_ <;> intro _)
    | (refine pred_ite (fun r : Flow => UnreadF r) ?_ ?_ <;> intro _)
    | (refine pred_ite (fun r : Pick => UnreadP r) ?_ ?_ <;> intro _)
    | (refine pred_elim (fun r : St => Unread r) ?_ ?_ <;> intros)
    | (refine pred_elim (fun r : Flow => UnreadF r) ?_ ?_ <;> intros)
    | (intro _)
    | assumption
    | (refine u_ret ?_)
    | (refine u_go ?_)
    | (refine u_pret ?_)
    | (refine u_pcmd ?_)
    | (refine u_if_menu _ _ _ ?_ ?_)
    | (refine u_set_repeating _ _ _ ?_)
    | (refine u_repeat_shifted _ _ ?_)
    | (refine u_call E _ _ rfl ?_)
    | (refine u_mark _ _ rfl ?_)
    | (refine u_set_pending _ _ ?_)
    | (refine u_upd_arg _ _ ?_)
    | (refine u_set_arg_str _ _ _ ?_)
    | (refine u_upd _ _ ?_)
    | fail

theorem u_command_entry_alpha_bsp (E : Engine) (st : St) 
    (hb : Unread st) :
    Unread (command_entry_alpha_bsp E st) := by
  unfold command_entry_alpha_bsp
  repeat' first
    | (refine u_next _ _ ?_ ?_)
    | (refine u_bind _ _ ?_ ?_)
    | (refine u_pick _ _ ?_ ?_)
    | (refine u_alpha_bsp_empty E _ ?_)
    | (refine u_alpha_bsp_last E _ ?_)
    | (refine pred_ite (fun r : St => Unread r) ?_ ?_ <;> intro _)
    | (refine pred_ite (fun r : Flow => UnreadF r) ?_ ?_ <;> intro _)
    | (refine pred_ite (fun r : Pick => UnreadP r) ?_ ?_ <;> intro _)
    | (refine pred_elim (fun r : St => Unread r) ?_ ?_ <;> intros)
    | (refine pred_elim (fun r : Flow => UnreadF r) ?_ ?_ <;> intros)
    | (intro _)
    | assumption
    | (refine u_ret ?_)
    | (refine u_go ?_)
    | (refine u_pret ?_)
    | (refine u_pcmd ?_)
    | (refine u_if_menu _ _ _ ?_ ?_)
    | (refine u_set_repeating _ _ _ ?_)
    | (refine u_repeat_shifted _ _ ?_)
    | (refine u_call E _ _ rfl ?_)
    | (refine u_mark _ _ rfl ?_)
    | (refine u_set_pending _ _ ?_)
    | (refine u_upd_arg _ _ ?_)
    | (refine u_set_arg_str _ _ _ ?_)
    | (refine u_upd _ _ ?_)
    | fail

theorem u_command_entry_alpha_complete (E : Engine) (st : St) 
    (hb : Unread st) :
    Unread (command_entry_alpha_complete E st) := by
  unfold command_entry_alpha_complete
  repeat' first
    | (refine u_next _ _ ?_ ?_)
    | (refine u_bind _ _ ?_ ?_)
    | (refine u_pick _ _ ?_ ?_)
    | (refine u_show_briefly E _ ?_)
    | (refine pred_ite (fun r : St => Unread r) ?_ ?_ <;> intro _)
    | (refine pred_ite (fun r : Flow => UnreadF r) ?_ ?_ <;> intro _)
    | (refine pred_ite (fun r : Pick => UnreadP r) ?_ ?_ <;> intro _)
    | (refine pred_elim (fun r : St => Unread r) ?_ ?_ <;> intros)
    | (refine pred_elim (fun r : Flow => UnreadF r) ?_ ?_ <;> intros)
    | (intro _)
    | assumption
    | (refine u_ret ?_)
    | (refine u_go ?_)
    | (refine u_pret ?_)
    | (refine u_pcmd ?_)
    | (refine u_if_menu _ _ _ ?_ ?_)
    | (refine u_set_repeating _ _ _ ?_)
    | (refine u_repeat_shifted _ _ ?_)
    | (refine u_call E _ _ rfl ?_)
    | (refine u_mark _ _ rfl ?_)
    | (refine u_set_pending _ _ ?_)
    | (refine u_upd_arg _ _ ?_)
    | (refine u_set_arg_str _ _ _ ?_)
    | (refine u_upd _ _ ?_)
    | fail

theorem u_command_entry_alpha_enter (E : Engine) (st : St) 
    (hb : Unread st) :
    Unread (command_entry_alpha_enter E st) := by
  unfold command_entry_alpha_enter
  repeat' first
    | (refine u_next _ _ ?_ ?_)
    | (refine u_bind _ _ ?_ ?_)
    | (refine u_pick _ _ ?_ ?_)
    | (refine u_command_entry_alpha_complete E _ ?_)
    | (refine pred_ite (fun r : St => Unread r) ?_ ?_ <;> intro _)
    | (refine pred_ite (fun r : Flow => UnreadF r) ?_ ?_ <;> intro _)
    | (refine pred_ite (fun r : Pick => UnreadP r) ?_ ?_ <;> intro _)
    | (refine pred_elim (fun r : St => Unread r) ?_ ?_ <;> intros)
    | (refine pred_elim (fun r : Flow => UnreadF r) ?_ ?_ <;> intros)
    | (intro _)
    | assumption
    | (refine u_ret ?_)
    | (refine u_go ?_)
    | (refine u_pret ?_)
    | (refine u_pcmd ?_)
    | (refine u_if_menu _ _ _ ?_ ?_)
    | (refine u_set_repeating _ _ _ ?_)
    | (refine u_repeat_shifted _ _ ?_)
    | (refine u_call E _ _ rfl ?_)
    | (refine u_mark _ _ rfl ?_)
    | (refine u_set_pending _ _ ?_)
    | (refine u_upd_arg _ _ ?_)
    | (refine u_set_arg_str _ _ _ ?_)
    | (refine u_upd _ _ ?_)
    | fail

theorem u_command_entry_alpha_dot (E : Engine) (shift key : Int) (st : St) 
    (hb : Unread st) :
    UnreadF (command_entry_alpha_dot E shift key st) := by
  unfold command_entry_alpha_dot
  repeat' first
    | (refine u_next _ _ ?_ ?_)
    | (refine u_bind _ _ ?_ ?_)
    | (refine u_pick _ _ ?_ ?_)
    | (refine pred_ite (fun r : St => Unread r) ?_ ?_ <;> intro _)
    | (refine pred_ite (fun r : Flow => UnreadF r) ?_ ?_ <;> intro _)
    | (refine pred_ite (fun r : Pick => UnreadP r) ?_ ?_ <;> intro _)
    | (refine pred_elim (fun r : St => Unread r) ?_ ?_ <;> intros)
    | (refine pred_elim (fun r : Flow => UnreadF r) ?_ ?_ <;> intros)
    | (intro _)
    | assumption
    | (refine u_ret ?_)
    | (refine u_go ?_)
    | (refine u_pret ?_)
    | (refine u_pcmd ?_)
    | (refine u_if_menu _ _ _ ?_ ?_)
    | (refine u_set_repeating _ _ _ ?_)
    | (refine u_repeat_shifted _ _ ?_)
    | (refine u_call E _ _ rfl ?_)
    | (refine u_mark _ _ rfl ?_)
    | (refine u_set_pending _ _ ?_)
    | (refine u_upd_arg _ _ ?_)
    | (refine u_set_arg_str _ _ _ ?_)
    | (refine u_upd _ _ ?_)
    | fail

theorem u_command_entry_alpha_nochar (E : Engine) (shift key : Int) (st : St) 
    (hb : Unread st) :
    Unread (command_entry_alpha_nochar E shift key st) := by
  unfold command_entry_alpha_nochar
  repeat' first
    | (refine u_next _ _ ?_ ?_)
    | (refine u_bind _ _ ?_ ?_)
    | (refine u_pick _ _ ?_ ?_)
    | (refine u_command_entry_alpha_bsp E _ ?_)
    | (refine u_command_entry_alpha_enter E _ ?_)
    | (refine pred_ite (fun r : St => Unread r) ?_ ?_ <;> intro _)
    | (refine pred_ite (fun r : Flow => UnreadF r) ?_ ?_ <;> intro _)
    | (refine pred_ite (fun r : Pick => UnreadP r) ?_ ?_ <;> intro _)
    | (refine pred_elim (fun r : St => Unread r) ?_ ?_ <;> intros)
    | (refine pred_elim (fun r : Flow => UnreadF r) ?_ ?_ <;> intros)
    | (intro _)
    | assumption
    | (refine u_ret ?_)
    | (refine u_go ?_)
    | (refine u_pret ?_)
    | (refine u_pcmd ?_)
    | (refine u_if_menu _ _ _ ?_ ?_)
    | (refine u_set_repeating _ _ _ ?_)
    | (refine u_repeat_shifted _ _ ?_)
    | (refine u_call E _ _ rfl ?_)
    | (refine u_mark _ _ rfl ?_)
    | (refine u_set_pending _ _ ?_)
    | (refine u_upd_arg _ _ ?_)
    | (refine u_set_arg_str _ _ _ ?_)
    | (refine u_upd _ _ ?_)
    | fail

theorem u_command_entry_alpha (E : Engine) (shift key : Int) (st : St) 
    (hb : Unread st) :
    Unread (command_entry_alpha E shift key st) := by
  unfold command_entry_alpha
  repeat' first
    | (refine u_next _ _ ?_ ?_)
    | (refine u_bind _ _ ?_ ?_)
    | (refine u_pick _ _ ?_ ?_)
    | (refine u_command_entry_handle_char E _ _ _ ?_)
    | (refine u_command_entry_alpha_dot E _ _ _ ?_)
    | (refine u_command_entry_alpha_nochar E _ _ _ ?_)
    | (refine pred_ite (fun r : St => Unread r) ?_ ?_ <;> intro _)
    | (refine pred_ite (fun r : Flow => UnreadF r) ?_ ?_ <;> intro _)
    | (refine pred_ite (fun r : Pick => UnreadP r) ?_ ?_ <;> intro _)
    | (refine pred_elim (fun r : St => Unread r) ?_ ?_ <;> intros)
    | (refine pred_elim (fun r : Flow => UnreadF r) ?_ ?_ <;> intros)
    | (intro _)
    | assumption
    | (refine u_ret ?_)
    | (refine u_go ?_)
    | (refine u_pret ?_)
    | (refine u_pcmd ?_)
    | (refine u_if_menu _ _ _ ?_ ?_)
    | (refine u_set_repeating _ _ _ ?_)
    | (refine u_repeat_shifted _ _ ?_)
    | (refine u_call E _ _ rfl ?_)
    | (refine u_mark _ _ rfl ?_)
    | (refine u_set_pending _ _ ?_)
    | (refine u_upd_arg _ _ ?_)
    | (refine u_set_arg_str _ _ _ ?_)
    | (refine u_upd _ _ ?_)
    | fail

theorem u_command_entry_rest (E : Engine) (shift key : Int) (st : St) 
    (hb : Unread st) :
    Unread (command_entry_rest E shift key st) := by
  unfold command_entry_rest
  repeat' first
    | (refine u_next _ _ ?_ ?_)
    | (refine u_bind _ _ ?_ ?_)
    | (refine u_pick _ _ ?_ ?_)
    | (refine u_command_entry_ckey E _ _ _ ?_)
    | (refine u_command_entry_mkey E _ _ _ ?_)
    | (refine u_command_entry_catalog E _ _ _ ?_)
    | (refine u_command_entry_varmenu E _ _ _ ?_)
    | (refine u_command_entry_integ_params E _ _ ?_)
    | (refine u_command_entry_numeric E _ _ _ ?_)
    | (refine u_command_entry_alpha E _ _ _ ?_)
    | (refine pred_ite (fun r : St => Unread r) ?_ ?_ <;> intro _)
    | (refine pred_ite (fun r : Flow => UnreadF r) ?_ ?_ <;> intro _)
    | (refine pred_ite (fun r : Pick => UnreadP r) ?_ ?_ <;> intro _)
    | (refine pred_elim (fun r : St => Unread r) ?_ ?_ <;> intros)
    | (refine pred_elim (fun r : Flow => UnreadF r) ?_ ?_ <;> intros)
    | (intro _)
    | assumption
    | (refine u_ret ?_)
    | (refine u_go ?_)
    | (refine u_pret ?_)
    | (refine u_pcmd ?_)
    | (refine u_if_menu _ _ _ ?_ ?_)
    | (refine u_set_repeating _ _ _ ?_)
    | (refine u_repeat_shifted _ _ ?_)
    | (refine u_call E _ _ rfl ?_)
    | (refine u_mark _ _ rfl ?_)
    | (refine u_set_pending _ _ ?_)
    | (refine u_upd_arg _ _ ?_)
    | (refine u_set_arg_str _ _ _ ?_)
    | (refine u_upd _ _ ?_)
    | fail

theorem u_keydown_command_entry (E : Engine) (shift key : Int) (st : St) 
    (hb : Unread st) :
    Unread (keydown_command_entry E shift key st) := by
  unfold keydown_command_entry
  repeat' first
    | (refine u_next _ _ ?_ ?_)
    | (refine u_bind _ _ ?_ ?_)
    | (refine u_pick _ _ ?_ ?_)
    | (refine u_command_entry_st E _ _ _ ?_)
    | (refine u_command_entry_alpha E _ _ _ ?_)
    | (refine u_command_entry_rest E _ _ _ ?_)
    | (refine pred_ite (fun r : St => Unread r) ?_ ?_ <;> intro _)
    | (refine pred_ite (fun r : Flow => UnreadF r) ?_ ?_ <;> intro _)
    | (refine pred_ite (fun r : Pick => UnreadP r) ?_ ?_ <;> intro _)
    | (refine pred_elim (fun r : St => Unread r) ?_ ?_ <;> intros)
    | (refine pred_elim (fun r : Flow => UnreadF r) ?_ ?_ <;> intros)
    | (intro _)
    | assumption
    | (refine u_ret ?_)
    | (refine u_go ?_)
    | (refine u_pret ?_)
    | (refine u_pcmd ?_)
    | (refine u_if_menu _ _ _ ?_ ?_)
    | (refine u_set_repeating _ _ _ ?_)
    | (refine u_repeat_shifted _ _ ?_)
    | (refine u_call E _ _ rfl ?_)
    | (refine u_mark _ _ rfl ?_)
    | (refine u_set_pending _ _ ?_)
    | (refine u_upd_arg _ _ ?_)
    | (refine u_set_arg_str _ _ _ ?_)
    | (refine u_upd _ _ ?_)
    | fail

theorem u_alpha_insert_char (E : Engine) (c : Nat) (st : St) 
    (hb : Unread st) :
    UnreadF (alpha_insert_char E c st) := by
  unfold alpha_insert_char
  repeat' first
    | (refine u_next _ _ ?_ ?_)
    | (refine u_bind _ _ ?_ ?_)
    | (refine u_pick _ _ ?_ ?_)
    | (refine pred_ite (fun r : St => Unread r) ?_ ?_ <;> intro _)
    | (refine pred_ite (fun r : Flow => UnreadF r) ?_ ?_ <;> intro _)
    | (refine pred_ite (fun r : Pick => UnreadP r) ?_ ?_ <;> intro _)
    | (refine pred_elim (fun r : St => Unread r) ?_ ?_ <;> intros)
    | (refine pred_elim (fun r : Flow => UnreadF r) ?_ ?_ <;> intros)
    | (intro _)
    | assumption
    | (refine u_ret ?_)
    | (refine u_go ?_)
    | (refine u_pret ?_)
    | (refine u_pcmd ?_)
    | (refine u_if_menu _ _ _ ?_ ?_)
    | (refine u_set_repeating _ _ _ ?_)
    | (refine u_repeat_shifted _ _ ?_)
    | (refine u_call E _ _ rfl ?_)
    | (refine u_mark _ _ rfl ?_)
    | (refine u_set_pending _ _ ?_)
    | (refine u_upd_arg _ _ ?_)
    | (refine u_set_arg_str _ _ _ ?_)
    | (refine u_upd _ _ ?_)
    | fail

theorem u_alpha_handle_char (E : Engine) (c : Nat) (m : Option menu_spec) (st : St) 
    (hb : Unread st) :
    Unread (alpha_handle_char E c m st) := by
  unfold alpha_handle_char
  repeat' first
    | (refine u_next _ _ ?_ ?_)
    | (refine u_bind _ _ ?_ ?_)
    | (refine u_pick _ _ ?_ ?_)
    | (refine u_alpha_insert_char E _ _ ?_)
    | (refine pred_ite (fun r : St => Unread r) ?_ ?_ <;> intro _)
    | (refine pred_ite (fun r : Flow => UnreadF r) ?_ ?_ <;> intro _)
    | (refine pred_ite (fun r : Pick => UnreadP r) ?_ ?_ <;> intro _)
    | (refine pred_elim (fun r : St => Unread r) ?_ ?_ <;> intros)
    | (refine pred_elim (fun r : Flow => UnreadF r) ?_ ?_ <;> intros)
    | (intro _)
    | assumption
    | (refine u_ret ?_)
    | (refine u_go ?_)
    | (refine u_pret ?_)
    | (refine u_pcmd ?_)
    | (refine u_if_menu _ _ _ ?_ ?_)
    | (refine u_set_repeating _ _ _ ?_)
    | (refine u_repeat_shifted _ _ ?_)
    | (refine u_call E _ _ rfl ?_)
    | (refine u_mark _ _ rfl ?_)
    | (refine u_set_pending _ _ ?_)
    | (refine u_upd_arg _ _ ?_)
    | (refine u_set_arg_str _ _ _ ?_)
    | (refine u_upd _ _ ?_)
    | fail

theorem u_delete_current_line (E : Engine) (line : Int) (st : St) 
    (hb : Unread st) :
    Unread (delete_current_line E line st) := by
  unfold delete_current_line
  repeat' first
    | (refine u_next _ _ ?_ ?_)
    | (refine u_bind _ _ ?_ ?_)
    | (refine u_pick _ _ ?_ ?_)
    | (refine pred_ite (fun r : St => Unread r) ?_ ?_ <;> intro _)
    | (refine pred_ite (fun r : Flow => UnreadF r) ?_ ?_ <;> intro _)
    | (refine pred_ite (fun r : Pick => UnreadP r) ?_ ?_ <;> intro _)
    | (refine pred_elim (fun r : St => Unread r) ?_ ?_ <;> intros)
    | (refine pred_elim (fun r : Flow => UnreadF r) ?_ ?_ <;> intros)
    | (intro _)
    | assumption
    | (refine u_ret ?_)
    | (refine u_go ?_)
    | (refine u_pret ?_)
    | (refine u_pcmd ?_)
    | (refine u_if_menu _ _ _ ?_ ?_)
    | (refine u_set_repeating _ _ _ ?_)
    | (refine u_repeat_shifted _ _ ?_)
    | (refine u_call E _ _ rfl ?_)
    | (refine u_mark _ _ rfl ?_)
    | (refine u_set_pending _ _ ?_)
    | (refine u_upd_arg _ _ ?_)
    | (refine u_set_arg_str _ _ _ ?_)
    | (refine u_upd _ _ ?_)
    | fail

theorem u_end_alpha_entry (E : Engine) (st : St) 
    (hb : Unread st) :
    Unread (end_alpha_entry E st) := by
  unfold end_alpha_entry
  repeat' first
    | (refine u_next _ _ ?_ ?_)
    | (refine u_bind _ _ ?_ ?_)
    | (refine u_pick _ _ ?_ ?_)
    | (refine pred_ite (fun r : St => Unread r) ?_ ?_ <;> intro _)
    | (refine pred_ite (fun r : Flow => UnreadF r) ?_ ?_ <;> intro _)
    | (refine pred_ite (fun r : Pick => UnreadP r) ?_ ?_ <;> intro _)
    | (refine pred_elim (fun r : St => Unread r) ?_ ?_ <;> intros)
    | (refine pred_elim (fun r : Flow => UnreadF r) ?_ ?_ <;> intros)
    | (intro _)
    | assumption
    | (refine u_ret ?_)
    | (refine u_go ?_)
    | (refine u_pret ?_)
    | (refine u_pcmd ?_)
    | (refine u_if_menu _ _ _ ?_ ?_)
    | (refine u_set_repeating _ _ _ ?_)
    | (refine u_repeat_shifted _ _ ?_)
    | (refine u_call E _ _ rfl ?_)
    | (refine u_mark _ _ rfl ?_)
    | (refine u_set_pending _ _ ?_)
    | (refine u_upd_arg _ _ ?_)
    | (refine u_set_arg_str _ _ _ ?_)
    | (refine u_upd _ _ ?_)
    | fail

theorem u_alpha_mode_bsp (E : Engine) (shift key : Int) (st : St) 
    (hb : Unread st) :
    Unread (alpha_mode_bsp E shift key st) := by
  unfold alpha_mode_bsp
  repeat' first
    | (refine u_next _ _ ?_ ?_)
    | (refine u_bind _ _ ?_ ?_)
    | (refine u_pick _ _ ?_ ?_)
    | (refine u_delete_current_line E _ _ ?_)
    | (refine pred_ite (fun r : St => Unread r) ?_ ?_ <;> intro _)
    | (refine pred_ite (fun r : Flow => UnreadF r) ?_ ?_ <;> intro _)
    | (refine pred_ite (fun r : Pick => UnreadP r) ?_ ?_ <;> intro _)
    | (refine pred_elim (fun r : St => Unread r) ?_ ?_ <;> intros)
    | (refine pred_elim (fun r : Flow => UnreadF r) ?_ ?_ <;> intros)
    | (intro _)
    | assumption
    | (refine u_ret ?_)
    | (refine u_go ?_)
    | (refine u_pret ?_)
    | (refine u_pcmd ?_)
    | (refine u_if_menu _ _ _ ?_ ?_)
    | (refine u_set_repeating _ _ _ ?_)
    | (refine u_repeat_shifted _ _ ?_)
    | (refine u_call E _ _ rfl ?_)
    | (refine u_mark _ _ rfl ?_)
    | (refine u_set_pending _ _ ?_)
    | (refine u_upd_arg _ _ ?_)
    | (refine u_set_arg_str _ _ _ ?_)
    | (refine u_upd _ _ ?_)
    | fail

theorem u_alpha_mode_enter (E : Engine) (shift : Int) (st : St) 
    (hb : Unread st) :
    Unread (alpha_mode_enter E shift st) := by
  unfold alpha_mode_enter
  repeat' first
    | (refine u_next _ _ ?_ ?_)
    | (refine u_bind _ _ ?_ ?_)
    | (refine u_pick _ _ ?_ ?_)
    | (refine pred_ite (fun r : St => Unread r) ?_ ?_ <;> intro _)
    | (refine pred_ite (fun r : Flow => UnreadF r) ?_ ?_ <;> intro _)
    | (refine pred_ite (fun r : Pick => UnreadP r) ?_ ?_ <;> intro _)
    | (refine pred_elim (fun r : St => Unread r) ?_ ?_ <;> intros)
    | (refine pred_elim (fun r : Flow => UnreadF r) ?_ ?_ <;> intros)
    | (intro _)
    | assumption
    | (refine u_ret ?_)
    | (refine u_go ?_)
    | (refine u_pret ?_)
    | (refine u_pcmd ?_)
    | (refine u_if_menu _ _ _ ?_ ?_)
    | (refine u_set_repeating _ _ _ ?_)
    | (refine u_repeat_shifted _ _ ?_)
    | (refine u_call E _ _ rfl ?_)
    | (refine u_mark _ _ rfl ?_)
    | (refine u_set_pending _ _ ?_)
    | (refine u_upd_arg _ _ ?_)
    | (refine u_set_arg_str _ _ _ ?_)
    | (refine u_upd _ _ ?_)
    | fail

theorem u_open_base_menu (E : Engine) (redraw : Bool) (st : St) 
    (hb : Unread st) :
    Unread (open_base_menu E redraw st) := by
  unfold open_base_menu
  repeat' first
    | (refine u_next _ _ ?_ ?_)
    | (refine u_bind _ _ ?_ ?_)
    | (refine u_pick _ _ ?_ ?_)
    | (refine pred_ite (fun r : St => Unread r) ?_ ?_ <;> intro _)
    | (refine pred_ite (fun r : Flow => UnreadF r) ?_ ?_ <;> intro _)
    | (refine pred_ite (fun r : Pick => UnreadP r) ?_ ?_ <;> intro _)
    | (refine pred_elim (fun r : St => Unread r) ?_ ?_ <;> intros)
    | (refine pred_elim (fun r : Flow => UnreadF r) ?_ ?_ <;> intros)
    | (intro _)
    | assumption
    | (refine u_ret ?_)
    | (refine u_go ?_)
    | (refine u_pret ?_)
    | (refine u_pcmd ?_)
    | (refine u_if_menu _ _ _ ?_ ?_)
    | (refine u_set_repeating _ _ _ ?_)
    | (refine u_repeat_shifted _ _ ?_)
    | (refine u_call E _ _ rfl ?_)
    | (refine u_mark _ _ rfl ?_)
    | (refine u_set_pending _ _ ?_)
    | (refine u_upd_arg _ _ ?_)
    | (refine u_set_arg_str _ _ _ ?_)
    | (refine u_upd _ _ ?_)
    | fail

theorem u_alpha_mode_shifted (E : Engine) (key : Int) (st : St) 
    (hb : Unread st) :
    UnreadP (alpha_mode_shifted E key st) := by
  unfold alpha_mode_shifted
  repeat' first
    | (refine u_next _ _ ?_ ?_)
    | (refine u_bind _ _ ?_ ?_)
    | (refine u_pick _ _ ?_ ?_)
    | (refine u_set_solve_integ E _ _ ?_)
    | (refine u_open_base_menu E _ _ ?_)
    | (refine pred_ite (fun r : St => Unread r) ?_ ?_ <;> intro _)
    | (refine pred_ite (fun r : Flow => UnreadF r) ?_ ?_ <;> intro _)
    | (refine pred_ite (fun r : Pick => UnreadP r) ?_ ?_ <;> intro _)
    | (refine pred_elim (fun r : St => Unread r) ?_ ?_ <;> intros)
    | (refine pred_elim (fun r : Flow => UnreadF r) ?_ ?_ <;> intros)
    | (intro _)
    | assumption
    | (refine u_ret ?_)
    | (refine u_go ?_)
    | (refine u_pret ?_)
    | (refine u_pcmd ?_)
    | (refine u_if_menu _ _ _ ?_ ?_)
    | (refine u_set_repeating _ _ _ ?_)
    | (refine u_repeat_shifted _ _ ?_)
    | (refine u_call E _ _ rfl ?_)
    | (refine u_mark _ _ rfl ?_)
    | (refine u_set_pending _ _ ?_)
    | (refine u_upd_arg _ _ ?_)
    | (refine u_set_arg_str _ _ _ ?_)
    | (refine u_upd _ _ ?_)
    | fail

theorem u_alpha_mode_command (E : Engine) (shift key : Int) (st : St) 
    (hb : Unread st) :
    Unread (alpha_mode_command E shift key st) := by
  unfold alpha_mode_command
  repeat' first
    | (refine u_next _ _ ?_ ?_)
    | (refine u_bind _ _ ?_ ?_)
    | (refine u_pick _ _ ?_ ?_)
    | (refine u_end_alpha_entry E _ ?_)
    | (refine u_alpha_mode_shifted E _ _ ?_)
    | (refine pred_ite (fun r : St => Unread r) ?_ ?_ <;> intro _)
    | (refine pred_ite (fun r : Flow => UnreadF r) ?_ ?_ <;> intro _)
    | (refine pred_ite (fun r : Pick => UnreadP r) ?_ ?_ <;> intro _)
    | (refine pred_elim (fun r : St => Unread r) ?_ ?_ <;> intros)
    | (refine pred_elim (fun r : Flow => UnreadF r) ?_ ?_ <;> intros)
    | (intro _)
    | assumption
    | (refine u_ret ?_)
    | (refine u_go ?_)
    | (refine u_pret ?_)
    | (refine u_pcmd ?_)
    | (refine u_if_menu _ _ _ ?_ ?_)
    | (refine u_set_repeating _ _ _ ?_)
    | (refine u_repeat_shifted _ _ ?_)
    | (refine u_call E _ _ rfl ?_)
    | (refine u_mark _ _ rfl ?_)
    | (refine u_set_pending _ _ ?_)
    | (refine u_upd_arg _ _ ?_)
    | (refine u_set_arg_str _ _ _ ?_)
    | (refine u_upd _ _ ?_)
    | fail

theorem u_alpha_mode_nochar (E : Engine) (shift key : Int) (st : St) 
    (hb : Unread st) :
    Unread (alpha_mode_nochar E shift key st) := by
  unfold alpha_mode_nochar
  repeat' first
    | (refine u_next _ _ ?_ ?_)
    | (refine u_bind _ _ ?_ ?_)
    | (refine u_pick _ _ ?_ ?_)
    | (refine u_end_alpha_entry E _ ?_)
    | (refine u_alpha_mode_bsp E _ _ _ ?_)
    | (refine u_alpha_mode_enter E _ _ ?_)
    | (refine u_alpha_mode_command E _ _ _ ?_)
    | (refine pred_ite (fun r : St => Unread r) ?_ ?_ <;> intro _)
    | (refine pred_ite (fun r : Flow => UnreadF r) ?_ ?_ <;> intro _)
    | (refine pred_ite (fun r : Pick => UnreadP r) ?_ ?_ <;> intro _)
    | (refine pred_elim (fun r : St => Unread r) ?_ ?_ <;> intros)
    | (refine pred_elim (fun r : Flow => UnreadF r) ?_ ?_ <;> intros)
    | (intro _)
    | assumption
    | (refine u_ret ?_)
    | (refine u_go ?_)
    | (refine u_pret ?_)
    | (refine u_pcmd ?_)
    | (refine u_if_menu _ _ _ ?_ ?_)
    | (refine u_set_repeating _ _ _ ?_)
    | (refine u_repeat_shifted _ _ ?_)
    | (refine u_call E _ _ rfl ?_)
    | (refine u_mark _ _ rfl ?_)
    | (refine u_set_pending _ _ ?_)
    | (refine u_upd_arg _ _ ?_)
    | (refine u_set_arg_str _ _ _ ?_)
    | (refine u_upd _ _ ?_)
    | fail

theorem u_keydown_alpha_mode (E : Engine) (shift key : Int) (st : St) 
    (hb : Unread st) :
    Unread (keydown_alpha_mode E shift key st) := by
  unfold keydown_alpha_mode
  repeat' first
    | (refine u_next _ _ ?_ ?_)
    | (refine u_bind _ _ ?_ ?_)
    | (refine u_pick _ _ ?_ ?_)
    | (refine u_alpha_insert_char E _ _ ?_)
    | (refine u_alpha_handle_char E _ _ _ ?_)
    | (refine u_alpha_mode_nochar E _ _ _ ?_)
    | (refine pred_ite (fun r : St => Unread r) ?_ ?_ <;> intro _)
    | (refine pred_ite (fun r : Flow => UnreadF r) ?_ ?_ <;> intro _)
    | (refine pred_ite (fun r : Pick => UnreadP r) ?_ ?_ <;> intro _)
    | (refine pred_elim (fun r : St => Unread r) ?_ ?_ <;> intros)
    | (refine pred_elim (fun r : Flow => UnreadF r) ?_ ?_ <;> intros)
    | (intro _)
    | assumption
    | (refine u_ret ?_)
    | (refine u_go ?_)
    | (refine u_pret ?_)
    | (refine u_pcmd ?_)
    | (refine u_if_menu _ _ _ ?_ ?_)
    | (refine u_set_repeating _ _ _ ?_)
    | (refine u_repeat_shifted _ _ ?_)
    | (refine u_call E _ _ rfl ?_)
    | (refine u_mark _ _ rfl ?_)
    | (refine u_set_pending _ _ ?_)
    | (refine u_upd_arg _ _ ?_)
    | (refine u_set_arg_str _ _ _ ?_)
    | (refine u_upd _ _ ?_)
    | fail

theorem u_start_number_entry (E : Engine) (st : St) 
    (hb : Unread st) :
    Unread (start_number_entry E st) := by
  unfold start_number_entry
  repeat' first
    | (refine u_next _ _ ?_ ?_)
    | (refine u_bind _ _ ?_ ?_)
    | (refine u_pick _ _ ?_ ?_)
    | (refine pred_ite (fun r : St => Unread r) ?_ ?_ <;> intro _)
    | (refine pred_ite (fun r : Flow => UnreadF r) ?_ ?_ <;> intro _)
    | (refine pred_ite (fun r : Pick => UnreadP r) ?_ ?_ <;> intro _)
    | (refine pred_elim (fun r : St => Unread r) ?_ ?_ <;> intros)
    | (refine pred_elim (fun r : Flow => UnreadF r) ?_ ?_ <;> intros)
    | (intro _)
    | assumption
    | (refine u_ret ?_)
    | (refine u_go ?_)
    | (refine u_pret ?_)
    | (refine u_pcmd ?_)
    | (refine u_if_menu _ _ _ ?_ ?_)
    | (refine u_set_repeating _ _ _ ?_)
    | (refine u_repeat_shifted _ _ ?_)
    | (refine u_call E _ _ rfl ?_)
    | (refine u_mark _ _ rfl ?_)
    | (refine u_set_pending _ _ ?_)
    | (refine u_upd_arg _ _ ?_)
    | (refine u_set_arg_str _ _ _ ?_)
    | (refine u_upd _ _ ?_)
    | fail

theorem u_lift_stack (E : Engine) (st : St) 
    (hb : Unread st) :
    Unread (lift_stack E st) := by
  unfold lift_stack
  repeat' first
    | (refine u_next _ _ ?_ ?_)
    | (refine u_bind _ _ ?_ ?_)
    | (refine u_pick _ _ ?_ ?_)
    | (refine pred_ite (fun r : St => Unread r) ?_ ?_ <;> intro _)
    | (refine pred_ite (fun r : Flow => UnreadF r) ?_ ?_ <;> intro _)
    | (refine pred_ite (fun r : Pick => UnreadP r) ?_ ?_ <;> intro _)
    | (refine pred_elim (fun r : St => Unread r) ?_ ?_ <;> intros)
    | (refine pred_elim (fun r : Flow => UnreadF r) ?_ ?_ <;> intros)
    | (intro _)
    | assumption
    | (refine u_ret ?_)
    | (refine u_go ?_)
    | (refine u_pret ?_)
    | (refine u_pcmd ?_)
    | (refine u_if_menu _ _ _ ?_ ?_)
    | (refine u_set_repeating _ _ _ ?_)
    | (refine u_repeat_shifted _ _ ?_)
    | (refine u_call E _ _ rfl ?_)
    | (refine u_mark _ _ rfl ?_)
    | (refine u_set_pending _ _ ?_)
    | (refine u_upd_arg _ _ ?_)
    | (refine u_set_arg_str _ _ _ ?_)
    | (refine u_upd _ _ ?_)
    | fail

theorem u_normal_mode_number_key (E : Engine) (shift key : Int) (st : St) 
    (hk : has_branch key)
    (hb : Unread st) :
    Unread (normal_mode_number_key E shift key st) := by
  unfold normal_mode_number_key
  repeat' first
    | (refine u_next _ _ ?_ ?_)
    | (refine u_bind _ _ ?_ ?_)
    | (refine u_pick _ _ ?_ ?_)
    | (refine u_keydown_number_entry E _ _ _ hk ?_)
    | (refine u_start_number_entry E _ ?_)
    | (refine u_lift_stack E _ ?_)
    | (refine pred_ite (fun r : St => Unread r) ?_ ?_ <;> intro _)
    | (refine pred_ite (fun r : Flow => UnreadF r) ?_ ?_ <;> intro _)
    | (refine pred_ite (fun r : Pick => UnreadP r) ?_ ?_ <;> intro _)
    | (refine pred_elim (fun r : St => Unread r) ?_ ?_ <;> intros)
    | (refine pred_elim (fun r : Flow => UnreadF r) ?_ ?_ <;> intros)
    | (intro _)
    | assumption
    | (refine u_ret ?_)
    | (refine u_go ?_)
    | (refine u_pret ?_)
    | (refine u_pcmd ?_)
    | (refine u_if_menu _ _ _ ?_ ?_)
    | (refine u_set_repeating _ _ _ ?_)
    | (refine u_repeat_shifted _ _ ?_)
    | (refine u_call E _ _ rfl ?_)
    | (refine u_mark _ _ rfl ?_)
    | (refine u_set_pending _ _ ?_)
    | (refine u_upd_arg _ _ ?_)
    | (refine u_set_arg_str _ _ _ ?_)
    | (refine u_upd _ _ ?_)
    | fail

theorem u_send_it_off (E : Engine) (level : Int) (st : St) 
    (hb : Unread st) :
    Unread (send_it_off E level st) := by
  unfold send_it_off
  repeat' first
    | (refine u_next _ _ ?_ ?_)
    | (refine u_bind _ _ ?_ ?_)
    | (refine u_pick _ _ ?_ ?_)
    | (refine pred_ite (fun r : St => Unread r) ?_ ?_ <;> intro _)
    | (refine pred_ite (fun r : Flow => UnreadF r) ?_ ?_ <;> intro _)
    | (refine pred_ite (fun r : Pick => UnreadP r) ?_ ?_ <;> intro _)
    | (refine pred_elim (fun r : St => Unread r) ?_ ?_ <;> intros)
    | (refine pred_elim (fun r : Flow => UnreadF r) ?_ ?_ <;> intros)
    | (intro _)
    | assumption
    | (refine u_ret ?_)
    | (refine u_go ?_)
    | (refine u_pret ?_)
    | (refine u_pcmd ?_)
    | (refine u_if_menu _ _ _ ?_ ?_)
    | (refine u_set_repeating _ _ _ ?_)
    | (refine u_repeat_shifted _ _ ?_)
    | (refine u_call E _ _ rfl ?_)
    | (refine u_mark _ _ rfl ?_)
    | (refine u_set_pending _ _ ?_)
    | (refine u_upd_arg _ _ ?_)
    | (refine u_set_arg_str _ _ _ ?_)
    | (refine u_upd _ _ ?_)
    | fail

theorem u_store_menu_variable (E : Engine) (shift : Int) (st : St) 
    (hb : Unread st) :
    Unread (store_menu_variable E shift st) := by
  unfold store_menu_variable
  repeat' first
    | (refine u_next _ _ ?_ ?_)
    | (refine u_bind _ _ ?_ ?_)
    | (refine u_pick _ _ ?_ ?_)
    | (refine pred_ite (fun r : St => Unread r) ?_ ?_ <;> intro _)
    | (refine pred_ite (fun r : Flow => UnreadF r) ?_ ?_ <;> intro _)
    | (refine pred_ite (fun r : Pick => UnreadP r) ?_ ?_ <;> intro _)
    | (refine pred_elim (fun r : St => Unread r) ?_ ?_ <;> intros)
    | (refine pred_elim (fun r : Flow => UnreadF r) ?_ ?_ <;> intros)
    | (intro _)
    | assumption
    | (refine u_ret ?_)
    | (refine u_go ?_)
    | (refine u_pret ?_)
    | (refine u_pcmd ?_)
    | (refine u_if_menu _ _ _ ?_ ?_)
    | (refine u_set_repeating _ _ _ ?_)
    | (refine u_repeat_shifted _ _ ?_)
    | (refine u_call E _ _ rfl ?_)
    | (refine u_mark _ _ rfl ?_)
    | (refine u_set_pending _ _ ?_)
    | (refine u_upd_arg _ _ ?_)
    | (refine u_set_arg_str _ _ _ ?_)
    | (refine u_upd _ _ ?_)
    | fail

theorem u_normal_mode_varmenu_key (E : Engine) (shift menukey : Int) (st : St) 
    (hb : Unread st) :
    Unread (normal_mode_varmenu_key E shift menukey st) := by
  unfold normal_mode_varmenu_key
  repeat' first
    | (refine u_next _ _ ?_ ?_)
    | (refine u_bind _ _ ?_ ?_)
    | (refine u_pick _ _ ?_ ?_)
    | (refine u_view E _ _ _ ?_)
    | (refine u_store_menu_variable E _ _ ?_)
    | (refine pred_ite (fun r : St => Unread r) ?_ ?_ <;> intro _)
    | (refine pred_ite (fun r : Flow => UnreadF r) ?_ ?_ <;> intro _)
    | (refine pred_ite (fun r : Pick => UnreadP r) ?_ ?_ <;> intro _)
    | (refine pred_elim (fun r : St => Unread r) ?_ ?_ <;> intros)
    | (refine pred_elim (fun r : Flow => UnreadF r) ?_ ?_ <;> intros)
    | (intro _)
    | assumption
    | (refine u_ret ?_)
    | (refine u_go ?_)
    | (refine u_pret ?_)
    | (refine u_pcmd ?_)
    | (refine u_if_menu _ _ _ ?_ ?_)
    | (refine u_set_repeating _ _ _ ?_)
    | (refine u_repeat_shifted _ _ ?_)
    | (refine u_call E _ _ rfl ?_)
    | (refine u_mark _ _ rfl ?_)
    | (refine u_set_pending _ _ ?_)
    | (refine u_upd_arg _ _ ?_)
    | (refine u_set_arg_str _ _ _ ?_)
    | (refine u_upd _ _ ?_)
    | fail

theorem u_normal_mode_varmenu (E : Engine) (shift key menukey : Int) (st : St) 
    (hb : Unread st) :
    UnreadF (normal_mode_varmenu E shift key menukey st) := by
  unfold normal_mode_varmenu
  repeat' first
    | (refine u_next _ _ ?_ ?_)
    | (refine u_bind _ _ ?_ ?_)
    | (refine u_pick _ _ ?_ ?_)
    | (refine u_normal_mode_varmenu_key E _ _ _ ?_)
    | (refine pred_ite (fun r : St => Unread r) ?_ ?_ <;> intro _)
    | (refine pred_ite (fun r : Flow => UnreadF r) ?_ ?_ <;> intro _)
    | (refine pred_ite (fun r : Pick => UnreadP r) ?_ ?_ <;> intro _)
    | (refine pred_elim (fun r : St => Unread r) ?_ ?_ <;> intros)
    | (refine pred_elim (fun r : Flow => UnreadF r) ?_ ?_ <;> intros)
    | (intro _)
    | assumption
    | (refine u_ret ?_)
    | (refine u_go ?_)
    | (refine u_pret ?_)
    | (refine u_pcmd ?_)
    | (refine u_if_menu _ _ _ ?_ ?_)
    | (refine u_set_repeating _ _ _ ?_)
    | (refine u_repeat_shifted _ _ ?_)
    | (refine u_call E _ _ rfl ?_)
    | (refine u_mark _ _ rfl ?_)
    | (refine u_set_pending _ _ ?_)
    | (refine u_upd_arg _ _ ?_)
    | (refine u_set_arg_str _ _ _ ?_)
    | (refine u_upd _ _ ?_)
    | fail

theorem u_custom_builtin (E : Engine) (cmd : Int) (st : St) 
    (hb : Unread st) :
    UnreadF (custom_builtin E cmd st) := by
  unfold custom_builtin
  repeat' first
    | (refine u_next _ _ ?_ ?_)
    | (refine u_bind _ _ ?_ ?_)
    | (refine u_pick _ _ ?_ ?_)
    | (refine pred_ite (fun r : St => Unread r) ?_ ?_ <;> intro _)
    | (refine pred_ite (fun r : Flow => UnreadF r) ?_ ?_ <;> intro _)
    | (refine pred_ite (fun r : Pick => UnreadP r) ?_ ?_ <;> intro _)
    | (refine pred_elim (fun r : St => Unread r) ?_ ?_ <;> intros)
    | (refine pred_elim (fun r : Flow => UnreadF r) ?_ ?_ <;> intros)
    | (intro _)
    | assumption
    | (refine u_ret ?_)
    | (refine u_go ?_)
    | (refine u_pret ?_)
    | (refine u_pcmd ?_)
    | (refine u_if_menu _ _ _ ?_ ?_)
    | (refine u_set_repeating _ _ _ ?_)
    | (refine u_repeat_shifted _ _ ?_)
    | (refine u_call E _ _ rfl ?_)
    | (refine u_mark _ _ rfl ?_)
    | (refine u_set_pending _ _ ?_)
    | (refine u_upd_arg _ _ ?_)
    | (refine u_set_arg_str _ _ _ ?_)
    | (refine u_upd _ _ ?_)
    | fail

theorem u_normal_mode_custom (E : Engine) (shift menukey menu level : Int) (st : St) 
    (hb : Unread st) :
    Unread (normal_mode_custom E shift menukey menu level st) := by
  unfold normal_mode_custom
  repeat' first
    | (refine u_next _ _ ?_ ?_)
    | (refine u_bind _ _ ?_ ?_)
    | (refine u_pick _ _ ?_ ?_)
    | (refine u_send_it_off E _ _ ?_)
    | (refine u_custom_builtin E _ _ ?_)
    | (refine pred_ite (fun r : St => Unread r) ?_ ?_ <;> intro _)
    | (refine pred_ite (fun r : Flow => UnreadF r) ?_ ?_ <;> intro _)
    | (refine pred_ite (fun r : Pick => UnreadP r) ?_ ?_ <;> intro _)
    | (refine pred_elim (fun r : St => Unread r) ?_ ?_ <;> intros)
    | (refine pred_elim (fun r : Flow => UnreadF r) ?_ ?_ <;> intros)
    | (intro _)
    | assumption
    | (refine u_ret ?_)
    | (refine u_go ?_)
    | (refine u_pret ?_)
    | (refine u_pcmd ?_)
    | (refine u_if_menu _ _ _ ?_ ?_)
    | (refine u_set_repeating _ _ _ ?_)
    | (refine u_repeat_shifted _ _ ?_)
    | (refine u_call E _ _ rfl ?_)
    | (refine u_mark _ _ rfl ?_)
    | (refine u_set_pending _ _ ?_)
    | (refine u_upd_arg _ _ ?_)
    | (refine u_set_arg_str _ _ _ ?_)
    | (refine u_upd _ _ ?_)
    | fail

theorem u_close_catalog (E : Engine) (level : Int) (st : St) 
    (hb : Unread st) :
    Unread (close_catalog E level st) := by
  unfold close_catalog
  repeat' first
    | (refine u_next _ _ ?_ ?_)
    | (refine u_bind _ _ ?_ ?_)
    | (refine u_pick _ _ ?_ ?_)
    | (refine pred_ite (fun r : St => Unread r) ?_ ?_ <;> intro _)
    | (refine pred_ite (fun r : Flow => UnreadF r) ?_ ?_ <;> intro _)
    | (refine pred_ite (fun r : Pick => UnreadP r) ?_ ?_ <;> intro _)
    | (refine pred_elim (fun r : St => Unread r) ?_ ?_ <;> intros)
    | (refine pred_elim (fun r : Flow => UnreadF r) ?_ ?_ <;> intros)
    | (intro _)
    | assumption
    | (refine u_ret ?_)
    | (refine u_go ?_)
    | (refine u_pret ?_)
    | (refine u_pcmd ?_)
    | (refine u_if_menu _ _ _ ?_ ?_)
    | (refine u_set_repeating _ _ _ ?_)
    | (refine u_repeat_shifted _ _ ?_)
    | (refine u_call E _ _ rfl ?_)
    | (refine u_mark _ _ rfl ?_)
    | (refine u_set_pending _ _ ?_)
    | (refine u_upd_arg _ _ ?_)
    | (refine u_set_arg_str _ _ _ ?_)
    | (refine u_upd _ _ ?_)
    | fail

theorem u_normal_mode_catalog_top (E : Engine) (menukey : Int) (st : St) 
    (hb : Unread st) :
    Unread (normal_mode_catalog_top E menukey st) := by
  unfold normal_mode_catalog_top
  repeat' first
    | (refine u_next _ _ ?_ ?_)
    | (refine u_bind _ _ ?_ ?_)
    | (refine u_pick _ _ ?_ ?_)
    | (refine pred_ite (fun r : St => Unread r) ?_ ?_ <;> intro _)
    | (refine pred_ite (fun r : Flow => UnreadF r) ?_ ?_ <;> intro _)
    | (refine pred_ite (fun r : Pick => UnreadP r) ?_ ?_ <;> intro _)
    | (refine pred_elim (fun r : St => Unread r) ?_ ?_ <;> intros)
    | (refine pred_elim (fun r : Flow => UnreadF r) ?_ ?_ <;> intros)
    | (intro _)
    | assumption
    | (refine u_ret ?_)
    | (refine u_go ?_)
    | (refine u_pret ?_)
    | (refine u_pcmd ?_)
    | (refine u_if_menu _ _ _ ?_ ?_)
    | (refine u_set_repeating _ _ _ ?_)
    | (refine u_repeat_shifted _ _ ?_)
    | (refine u_call E _ _ rfl ?_)
    | (refine u_mark _ _ rfl ?_)
    | (refine u_set_pending _ _ ?_)
    | (refine u_upd_arg _ _ ?_)
    | (refine u_set_arg_str _ _ _ ?_)
    | (refine u_upd _ _ ?_)
    | fail

theorem u_normal_mode_catalog_ext1 (E : Engine) (menukey : Int) (st : St) 
    (hb : Unread st) :
    Unread (normal_mode_catalog_ext1 E menukey st) := by
  unfold normal_mode_catalog_ext1
  repeat' first
    | (refine u_next _ _ ?_ ?_)
    | (refine u_bind _ _ ?_ ?_)
    | (refine u_pick _ _ ?_ ?_)
    | (refine pred_ite (fun r : St => Unread r) ?_ ?_ <;> intro _)
    | (refine pred_ite (fun r : Flow => UnreadF r) ?_ ?_ <;> intro _)
    | (refine pred_ite (fun r : Pick => UnreadP r) ?_ ?_ <;> intro _)
    | (refine pred_elim (fun r : St => Unread r) ?_ ?_ <;> intros)
    | (refine pred_elim (fun r : Flow => UnreadF r) ?_ ?_ <;> intros)
    | (intro _)
    | assumption
    | (refine u_ret ?_)
    | (refine u_go ?_)
    | (refine u_pret ?_)
    | (refine u_pcmd ?_)
    | (refine u_if_menu _ _ _ ?_ ?_)
    | (refine u_set_repeating _ _ _ ?_)
    | (refine u_repeat_shifted _ _ ?_)
    | (refine u_call E _ _ rfl ?_)
    | (refine u_mark _ _ rfl ?_)
    | (refine u_set_pending _ _ ?_)
    | (refine u_upd_arg _ _ ?_)
    | (refine u_set_arg_str _ _ _ ?_)
    | (refine u_upd _ _ ?_)
    | fail

theorem u_normal_mode_catalog_pgm (E : Engine) (menukey catsect level : Int) (st : St) 
    (hb : Unread st) :
    UnreadF (normal_mode_catalog_pgm E menukey catsect level st) := by
  unfold normal_mode_catalog_pgm
  repeat' first
    | (refine u_next _ _ ?_ ?_)
    | (refine u_bind _ _ ?_ ?_)
    | (refine u_pick _ _ ?_ ?_)
    | (refine pred_ite (fun r : St => Unread r) ?_ ?_ <;> intro _)
    | (refine pred_ite (fun r : Flow => UnreadF r) ?_ ?_ <;> intro _)
    | (refine pred_ite (fun r : Pick => UnreadP r) ?_ ?_ <;> intro _)
    | (refine pred_elim (fun r : St => Unread r) ?_ ?_ <;> intros)
    | (refine pred_elim (fun r : Flow => UnreadF r) ?_ ?_ <;> intros)
    | (intro _)
    | assumption
    | (refine u_ret ?_)
    | (refine u_go ?_)
    | (refine u_pret ?_)
    | (refine u_pcmd ?_)
    | (refine u_if_menu _ _ _ ?_ ?_)
    | (refine u_set_repeating _ _ _ ?_)
    | (refine u_repeat_shifted _ _ ?_)
    | (refine u_call E _ _ rfl ?_)
    | (refine u_mark _ _ rfl ?_)
    | (refine u_set_pending _ _ ?_)
    | (refine u_upd_arg _ _ ?_)
    | (refine u_set_arg_str _ _ _ ?_)
    | (refine u_upd _ _ ?_)
    | fail

theorem u_normal_mode_catalog_pgm_for (E : Engine) (menukey catsect : Int) (st : St) 
    (hb : Unread st) :
    UnreadF (normal_mode_catalog_pgm_for E menukey catsect st) := by
  unfold normal_mode_catalog_pgm_for
  repeat' first
    | (refine u_next _ _ ?_ ?_)
    | (refine u_bind _ _ ?_ ?_)
    | (refine u_pick _ _ ?_ ?_)
    | (refine pred_ite (fun r : St => Unread r) ?_ ?_ <;> intro _)
    | (refine pred_ite (fun r : Flow => UnreadF r) ?_ ?_ <;> intro _)
    | (refine pred_ite (fun r : Pick => UnreadP r) ?_ ?_ <;> intro _)
    | (refine pred_elim (fun r : St => Unread r) ?_ ?_ <;> intros)
    | (refine pred_elim (fun r : Flow => UnreadF r) ?_ ?_ <;> intros)
    | (intro _)
    | assumption
    | (refine u_ret ?_)
    | (refine u_go ?_)
    | (refine u_pret ?_)
    | (refine u_pcmd ?_)
    | (refine u_if_menu _ _ _ ?_ ?_)
    | (refine u_set_repeating _ _ _ ?_)
    | (refine u_repeat_shifted _ _ ?_)
    | (refine u_call E _ _ rfl ?_)
    | (refine u_mark _ _ rfl ?_)
    | (refine u_set_pending _ _ ?_)
    | (refine u_upd_arg _ _ ?_)
    | (refine u_set_arg_str _ _ _ ?_)
    | (refine u_upd _ _ ?_)
    | fail

theorem u_normal_mode_catalog_fcn (E : Engine) (menukey level : Int) (st : St) 
    (hb : Unread st) :
    Unread (normal_mode_catalog_fcn E menukey level st) := by
  unfold normal_mode_catalog_fcn
  repeat' first
    | (refine u_next _ _ ?_ ?_)
    | (refine u_bind _ _ ?_ ?_)
    | (refine u_pick _ _ ?_ ?_)
    | (refine u_close_catalog E _ _ ?_)
    | (refine pred_ite (fun r : St => Unread r) ?_ ?_ <;> intro _)
    | (refine pred_ite (fun r : Flow => UnreadF r) ?_ ?_ <;> intro _)
    | (refine pred_ite (fun r : Pick => UnreadP r) ?_ ?_ <;> intro _)
    | (refine pred_elim (fun r : St => Unread r) ?_ ?_ <;> intros)
    | (refine pred_elim (fun r : Flow => UnreadF r) ?_ ?_ <;> intros)
    | (intro _)
    | assumption
    | (refine u_ret ?_)
    | (refine u_go ?_)
    | (refine u_pret ?_)
    | (refine u_pcmd ?_)
    | (refine u_if_menu _ _ _ ?_ ?_)
    | (refine u_set_repeating _ _ _ ?_)
    | (refine u_repeat_shifted _ _ ?_)
    | (refine u_call E _ _ rfl ?_)
    | (refine u_mark _ _ rfl ?_)
    | (refine u_set_pending _ _ ?_)
    | (refine u_upd_arg _ _ ?_)
    | (refine u_set_arg_str _ _ _ ?_)
    | (refine u_upd _ _ ?_)
    | fail

theorem u_normal_mode_catalog_var (E : Engine) (menukey level : Int) (st : St) 
    (hb : Unread st) :
    UnreadF (normal_mode_catalog_var E menukey level st) := by
  unfold normal_mode_catalog_var
  repeat' first
    | (refine u_next _ _ ?_ ?_)
    | (refine u_bind _ _ ?_ ?_)
    | (refine u_pick _ _ ?_ ?_)
    | (refine u_close_catalog E _ _ ?_)
    | (refine pred_ite (fun r : St => Unread r) ?_ ?_ <;> intro _)
    | (refine pred_ite (fun r : Flow => UnreadF r) ?_ ?_ <;> intro _)
    | (refine pred_ite (fun r : Pick => UnreadP r) ?_ ?_ <;> intro _)
    | (refine pred_elim (fun r : St => Unread r) ?_ ?_ <;> intros)
    | (refine pred_elim (fun r : Flow => UnreadF r) ?_ ?_ <;> intros)
    | (intro _)
    | assumption
    | (refine u_ret ?_)
    | (refine u_go ?_)
    | (refine u_pret ?_)
    | (refine u_pcmd ?_)
    | (refine u_if_menu _ _ _ ?_ ?_)
    | (refine u_set_repeating _ _ _ ?_)
    | (refine u_repeat_shifted _ _ ?_)
    | (refine u_call E _ _ rfl ?_)
    | (refine u_mark _ _ rfl ?_)
    | (refine u_set_pending _ _ ?_)
    | (refine u_upd_arg _ _ ?_)
    | (refine u_set_arg_str _ _ _ ?_)
    | (refine u_upd _ _ ?_)
    | fail

theorem u_normal_mode_catalog (E : Engine) (menukey level : Int) (st : St) 
    (hb : Unread st) :
    Unread (normal_mode_catalog E menukey level st) := by
  unfold normal_mode_catalog
  repeat' first
    | (refine u_next _ _ ?_ ?_)
    | (refine u_bind _ _ ?_ ?_)
    | (refine u_pick _ _ ?_ ?_)
    | (refine u_send_it_off E _ _ ?_)
    | (refine u_normal_mode_catalog_top E _ _ ?_)
    | (refine u_normal_mode_catalog_ext1 E _ _ ?_)
    | (refine u_normal_mode_catalog_pgm E _ _ _ _ ?_)
    | (refine u_normal_mode_catalog_pgm_for E _ _ _ ?_)
    | (refine u_normal_mode_catalog_fcn E _ _ _ ?_)
    | (refine u_normal_mode_catalog_var E _ _ _ ?_)
    | (refine pred_ite (fun r : St => Unread r) ?_ ?_ <;> intro _)
    | (refine pred_ite (fun r : Flow => UnreadF r) ?_ ?_ <;> intro _)
    | (refine pred_ite (fun r : Pick => UnreadP r) ?_ ?_ <;> intro _)
    | (refine pred_elim (fun r : St => Unread r) ?_ ?_ <;> intros)
    | (refine pred_elim (fun r : Flow => UnreadF r) ?_ ?_ <;> intros)
    | (intro _)
    | assumption
    | (refine u_ret ?_)
    | (refine u_go ?_)
    | (refine u_pret ?_)
    | (refine u_pcmd ?_)
    | (refine u_if_menu _ _ _ ?_ ?_)
    | (refine u_set_repeating _ _ _ ?_)
    | (refine u_repeat_shifted _ _ ?_)
    | (refine u_call E _ _ rfl ?_)
    | (refine u_mark _ _ rfl ?_)
    | (refine u_set_pending _ _ ?_)
    | (refine u_upd_arg _ _ ?_)
    | (refine u_set_arg_str _ _ _ ?_)
    | (refine u_upd _ _ ?_)
    | fail

theorem u_normal_mode_integ_params (E : Engine) (shift menukey : Int) (st : St) 
    (hb : Unread st) :
    Unread (normal_mode_integ_params E shift menukey st) := by
  unfold normal_mode_integ_params
  repeat' first
    | (refine u_next _ _ ?_ ?_)
    | (refine u_bind _ _ ?_ ?_)
    | (refine u_pick _ _ ?_ ?_)
    | (refine u_view E _ _ _ ?_)
    | (refine u_store_menu_variable E _ _ ?_)
    | (refine pred_ite (fun r : St => Unread r) ?_ ?_ <;> intro _)
    | (refine pred_ite (fun r : Flow => UnreadF r) ?_ ?_ <;> intro _)
    | (refine pred_ite (fun r : Pick => UnreadP r) ?_ ?_ <;> intro _)
    | (refine pred_elim (fun r : St => Unread r) ?_ ?_ <;> intros)
    | (refine pred_elim (fun r : Flow => UnreadF r) ?_ ?_ <;> intros)
    | (intro _)
    | assumption
    | (refine u_ret ?_)
    | (refine u_go ?_)
    | (refine u_pret ?_)
    | (refine u_pcmd ?_)
    | (refine u_if_menu _ _ _ ?_ ?_)
    | (refine u_set_repeating _ _ _ ?_)
    | (refine u_repeat_shifted _ _ ?_)
    | (refine u_call E _ _ rfl ?_)
    | (refine u_mark _ _ rfl ?_)
    | (refine u_set_pending _ _ ?_)
    | (refine u_upd_arg _ _ ?_)
    | (refine u_set_arg_str _ _ _ ?_)
    | (refine u_upd _ _ ?_)
    | fail

theorem u_normal_mode_menu_item (E : Engine) (shift menukey menu level : Int) (st : St) 
    (hb : Unread st) :
    Unread (normal_mode_menu_item E shift menukey menu level st) := by
  unfold normal_mode_menu_item
  repeat' first
    | (refine u_next _ _ ?_ ?_)
    | (refine u_bind _ _ ?_ ?_)
    | (refine u_pick _ _ ?_ ?_)
    | (refine pred_ite (fun r : St => Unread r) ?_ ?_ <;> intro _)
    | (refine pred_ite (fun r : Flow => UnreadF r) ?_ ?_ <;> intro _)
    | (refine pred_ite (fun r : Pick => UnreadP r) ?_ ?_ <;> intro _)
    | (refine pred_elim (fun r : St => Unread r) ?_ ?_ <;> intros)
    | (refine pred_elim (fun r : Flow => UnreadF r) ?_ ?_ <;> intros)
    | (intro _)
    | assumption
    | (refine u_ret ?_)
    | (refine u_go ?_)
    | (refine u_pret ?_)
    | (refine u_pcmd ?_)
    | (refine u_if_menu _ _ _ ?_ ?_)
    | (refine u_set_repeating _ _ _ ?_)
    | (refine u_repeat_shifted _ _ ?_)
    | (refine u_call E _ _ rfl ?_)
    | (refine u_mark _ _ rfl ?_)
    | (refine u_set_pending _ _ ?_)
    | (refine u_upd_arg _ _ ?_)
    | (refine u_set_arg_str _ _ _ ?_)
    | (refine u_upd _ _ ?_)
    | fail

theorem u_normal_mode_menu_exit (E : Engine) (menu level : Int) (st : St) 
    (hb : Unread st) :
    Unread (normal_mode_menu_exit E menu level st) := by
  unfold normal_mode_menu_exit
  repeat' first
    | (refine u_next _ _ ?_ ?_)
    | (refine u_bind _ _ ?_ ?_)
    | (refine u_pick _ _ ?_ ?_)
    | (refine pred_ite (fun r : St => Unread r) ?_ ?_ <;> intro _)
    | (refine pred_ite (fun r : Flow => UnreadF r) ?_ ?_ <;> intro _)
    | (refine pred_ite (fun r : Pick => UnreadP r) ?_ ?_ <;> intro _)
    | (refine pred_elim (fun r : St => Unread r) ?_ ?_ <;> intros)
    | (refine pred_elim (fun r : Flow => UnreadF r) ?_ ?_ <;> intros)
    | (intro _)
    | assumption
    | (refine u_ret ?_)
    | (refine u_go ?_)
    | (refine u_pret ?_)
    | (refine u_pcmd ?_)
    | (refine u_if_menu _ _ _ ?_ ?_)
    | (refine u_set_repeating _ _ _ ?_)
    | (refine u_repeat_shifted _ _ ?_)
    | (refine u_call E _ _ rfl ?_)
    | (refine u_mark _ _ rfl ?_)
    | (refine u_set_pending _ _ ?_)
    | (refine u_upd_arg _ _ ?_)
    | (refine u_set_arg_str _ _ _ ?_)
    | (refine u_upd _ _ ?_)
    | fail

theorem u_normal_mode_menu_updown (E : Engine) (key menu level : Int) (st : St) 
    (hb : Unread st) :
    Unread (normal_mode_menu_updown E key menu level st) := by
  unfold normal_mode_menu_updown
  repeat' first
    | (refine u_next _ _ ?_ ?_)
    | (refine u_bind _ _ ?_ ?_)
    | (refine u_pick _ _ ?_ ?_)
    | (refine pred_ite (fun r : St => Unread r) ?_ ?_ <;> intro _)
    | (refine pred_ite (fun r : Flow => UnreadF r) ?_ ?_ <;> intro _)
    | (refine pred_ite (fun r : Pick => UnreadP r) ?_ ?_ <;> intro _)
    | (refine pred_elim (fun r : St => Unread r) ?_ ?_ <;> intros)
    | (refine pred_elim (fun r : Flow => UnreadF r) ?_ ?_ <;> intros)
    | (intro _)
    | assumption
    | (refine u_ret ?_)
    | (refine u_go ?_)
    | (refine u_pret ?_)
    | (refine u_pcmd ?_)
    | (refine u_if_menu _ _ _ ?_ ?_)
    | (refine u_set_repeating _ _ _ ?_)
    | (refine u_repeat_shifted _ _ ?_)
    | (refine u_call E _ _ rfl ?_)
    | (refine u_mark _ _ rfl ?_)
    | (refine u_set_pending _ _ ?_)
    | (refine u_upd_arg _ _ ?_)
    | (refine u_set_arg_str _ _ _ ?_)
    | (refine u_upd _ _ ?_)
    | fail

theorem u_normal_mode_menu (E : Engine) (shift key : Int) (st : St) 
    (hb : Unread st) :
    UnreadF (normal_mode_menu E shift key st) := by
  unfold normal_mode_menu
  repeat' first
    | (refine u_next _ _ ?_ ?_)
    | (refine u_bind _ _ ?_ ?_)
    | (refine u_pick _ _ ?_ ?_)
    | (refine u_normal_mode_varmenu E _ _ _ _ ?_)
    | (refine u_normal_mode_custom E _ _ _ _ _ ?_)
    | (refine u_normal_mode_catalog E _ _ _ ?_)
    | (refine u_normal_mode_integ_params E _ _ _ ?_)
    | (refine u_normal_mode_menu_item E _ _ _ _ _ ?_)
    | (refine u_normal_mode_menu_exit E _ _ _ ?_)
    | (refine u_normal_mode_menu_updown E _ _ _ _ ?_)
    | (refine pred_ite (fun r : St => Unread r) ?_ ?_ <;> intro _)
    | (refine pred_ite (fun r : Flow => UnreadF r) ?_ ?_ <;> intro _)
    | (refine pred_ite (fun r : Pick => UnreadP r) ?_ ?_ <;> intro _)
    | (refine pred_elim (fun r : St => Unread r) ?_ ?_ <;> intros)
    | (refine pred_elim (fun r : Flow => UnreadF r) ?_ ?_ <;> intros)
    | (intro _)
    | assumption
    | (refine u_ret ?_)
    | (refine u_go ?_)
    | (refine u_pret ?_)
    | (refine u_pcmd ?_)
    | (refine u_if_menu _ _ _ ?_ ?_)
    | (refine u_set_repeating _ _ _ ?_)
    | (refine u_repeat_shifted _ _ ?_)
    | (refine u_call E _ _ rfl ?_)
    | (refine u_mark _ _ rfl ?_)
    | (refine u_set_pending _ _ ?_)
    | (refine u_upd_arg _ _ ?_)
    | (refine u_set_arg_str _ _ _ ?_)
    | (refine u_upd _ _ ?_)
    | fail

theorem u_normal_mode_unshifted (E : Engine) (key : Int) (st : St) 
    (hb : Unread st) :
    UnreadP (normal_mode_unshifted E key st) := by
  unfold normal_mode_unshifted
  repeat' first
    | (refine u_next _ _ ?_ ?_)
    | (refine u_bind _ _ ?_ ?_)
    | (refine u_pick _ _ ?_ ?_)
    | (refine pred_ite (fun r : St => Unread r) ?_ ?_ <;> intro _)
    | (refine pred_ite (fun r : Flow => UnreadF r) ?_ ?_ <;> intro _)
    | (refine pred_ite (fun r : Pick => UnreadP r) ?_ ?_ <;> intro _)
    | (refine pred_elim (fun r : St => Unread r) ?_ ?_ <;> intros)
    | (refine pred_elim (fun r : Flow => UnreadF r) ?_ ?_ <;> intros)
    | (intro _)
    | assumption
    | (refine u_ret ?_)
    | (refine u_go ?_)
    | (refine u_pret ?_)
    | (refine u_pcmd ?_)
    | (refine u_if_menu _ _ _ ?_ ?_)
    | (refine u_set_repeating _ _ _ ?_)
    | (refine u_repeat_shifted _ _ ?_)
    | (refine u_call E _ _ rfl ?_)
    | (refine u_mark _ _ rfl ?_)
    | (refine u_set_pending _ _ ?_)
    | (refine u_upd_arg _ _ ?_)
    | (refine u_set_arg_str _ _ _ ?_)
    | (refine u_upd _ _ ?_)
    | fail

theorem u_normal_mode_shifted (E : Engine) (key : Int) (st : St) 
    (hb : Unread st) :
    UnreadP (normal_mode_shifted E key st) := by
  unfold normal_mode_shifted
  repeat' first
    | (refine u_next _ _ ?_ ?_)
    | (refine u_bind _ _ ?_ ?_)
    | (refine u_pick _ _ ?_ ?_)
    | (refine u_set_solve_integ E _ _ ?_)
    | (refine u_open_base_menu E _ _ ?_)
    | (refine pred_ite (fun r : St => Unread r) ?_ ?_ <;> intro _)
    | (refine pred_ite (fun r : Flow => UnreadF r) ?_ ?_ <;> intro _)
    | (refine pred_ite (fun r : Pick => UnreadP r) ?_ ?_ <;> intro _)
    | (refine pred_elim (fun r : St => Unread r) ?_ ?_ <;> intros)
    | (refine pred_elim (fun r : Flow => UnreadF r) ?_ ?_ <;> intros)
    | (intro _)
    | assumption
    | (refine u_ret ?_)
    | (refine u_go ?_)
    | (refine u_pret ?_)
    | (refine u_pcmd ?_)
    | (refine u_if_menu _ _ _ ?_ ?_)
    | (refine u_set_repeating _ _ _ ?_)
    | (refine u_repeat_shifted _ _ ?_)
    | (refine u_call E _ _ rfl ?_)
    | (refine u_mark _ _ rfl ?_)
    | (refine u_set_pending _ _ ?_)
    | (refine u_upd_arg _ _ ?_)
    | (refine u_set_arg_str _ _ _ ?_)
    | (refine u_upd _ _ ?_)
    | fail

theorem u_normal_mode_plain (E : Engine) (shift key : Int) (st : St) 
    (hb : Unread st) :
    Unread (normal_mode_plain E shift key st) := by
  unfold normal_mode_plain
  repeat' first
    | (refine u_next _ _ ?_ ?_)
    | (refine u_bind _ _ ?_ ?_)
    | (refine u_pick _ _ ?_ ?_)
    | (refine u_normal_mode_unshifted E _ _ ?_)
    | (refine u_normal_mode_shifted E _ _ ?_)
    | (refine pred_ite (fun r : St => Unread r) ?_ ?_ <;> intro _)
    | (refine pred_ite (fun r : Flow => UnreadF r) ?_ ?_ <;> intro _)
    | (refine pred_ite (fun r : Pick => UnreadP r) ?_ ?_ <;> intro _)
    | (refine pred_elim (fun r : St => Unread r) ?_ ?_ <;> intros)
    | (refine pred_elim (fun r : Flow => UnreadF r) ?_ ?_ <;> intros)
    | (intro _)
    | assumption
    | (refine u_ret ?_)
    | (refine u_go ?_)
    | (refine u_pret ?_)
    | (refine u_pcmd ?_)
    | (refine u_if_menu _ _ _ ?_ ?_)
    | (refine u_set_repeating _ _ _ ?_)
    | (refine u_repeat_shifted _ _ ?_)
    | (refine u_call E _ _ rfl ?_)
    | (refine u_mark _ _ rfl ?_)
    | (refine u_set_pending _ _ ?_)
    | (refine u_upd_arg _ _ ?_)
    | (refine u_set_arg_str _ _ _ ?_)
    | (refine u_upd _ _ ?_)
    | fail

theorem u_normal_mode_prgm_bsp (E : Engine) (st : St) 
    (hb : Unread st) :
    Unread (normal_mode_prgm_bsp E st) := by
  unfold normal_mode_prgm_bsp
  repeat' first
    | (refine u_next _ _ ?_ ?_)
    | (refine u_bind _ _ ?_ ?_)
    | (refine u_pick _ _ ?_ ?_)
    | (refine u_delete_current_line E _ _ ?_)
    | (refine pred_ite (fun r : St => Unread r) ?_ ?_ <;> intro _)
    | (refine pred_ite (fun r : Flow => UnreadF r) ?_ ?_ <;> intro _)
    | (refine pred_ite (fun r : Pick => UnreadP r) ?_ ?_ <;> intro _)
    | (refine pred_elim (fun r : St => Unread r) ?_ ?_ <;> intros)
    | (refine pred_elim (fun r : Flow => UnreadF r) ?_ ?_ <;> intros)
    | (intro _)
    | assumption
    | (refine u_ret ?_)
    | (refine u_go ?_)
    | (refine u_pret ?_)
    | (refine u_pcmd ?_)
    | (refine u_if_menu _ _ _ ?_ ?_)
    | (refine u_set_repeating _ _ _ ?_)
    | (refine u_repeat_shifted _ _ ?_)
    | (refine u_call E _ _ rfl ?_)
    | (refine u_mark _ _ rfl ?_)
    | (refine u_set_pending _ _ ?_)
    | (refine u_upd_arg _ _ ?_)
    | (refine u_set_arg_str _ _ _ ?_)
    | (refine u_upd _ _ ?_)
    | fail

theorem u_keydown_normal_mode (E : Engine) (shift key : Int) (st : St) 
    (hb : Unread st) :
    Unread (keydown_normal_mode E shift key st) := by
  unfold keydown_normal_mode
  repeat' first
    | (refine u_next _ _ ?_ ?_)
    | (refine u_bind _ _ ?_ ?_)
    | (refine u_pick _ _ ?_ ?_)
    | (refine u_normal_mode_number_key E _ _ _ (has_branch_of_number_key E _ _ _ (by assumption)) ?_)
    | (refine u_normal_mode_menu E _ _ _ ?_)
    | (refine u_normal_mode_plain E _ _ _ ?_)
    | (refine u_normal_mode_prgm_bsp E _ ?_)
    | (refine pred_ite (fun r : St => Unread r) ?_ ?_ <;> intro _)
    | (refine pred_ite (fun r : Flow => UnreadF r) ?_ ?_ <;> intro _)
    | (refine pred_ite (fun r : Pick => UnreadP r) ?_ ?_ <;> intro _)
    | (refine pred_elim (fun r : St => Unread r) ?_ ?_ <;> intros)
    | (refine pred_elim (fun r : Flow => UnreadF r) ?_ ?_ <;> intros)
    | (intro _)
    | assumption
    | (refine u_ret ?_)
    | (refine u_go ?_)
    | (refine u_pret ?_)
    | (refine u_pcmd ?_)
    | (refine u_if_menu _ _ _ ?_ ?_)
    | (refine u_set_repeating _ _ _ ?_)
    | (refine u_repeat_shifted _ _ ?_)
    | (refine u_call E _ _ rfl ?_)
    | (refine u_mark _ _ rfl ?_)
    | (refine u_set_pending _ _ ?_)
    | (refine u_upd_arg _ _ ?_)
    | (refine u_set_arg_str _ _ _ ?_)
    | (refine u_upd _ _ ?_)
    | fail

theorem u_keydown_dispatch (E : Engine) (shift key : Int) (st : St) 
    (hk : has_branch key ∨ st.s.mode_number_entry = 0)
    (hb : Unread st) :
    Unread (keydown_dispatch E shift key st) := by
  unfold keydown_dispatch
  repeat' first
    | (refine u_next _ _ ?_ ?_)
    | (refine u_bind _ _ ?_ ?_)
    | (refine u_pick _ _ ?_ ?_)
    | (refine u_keydown_number_entry E _ _ _ (hk.resolve_right (by assumption)) ?_)
    | (refine u_keydown_command_entry E _ _ _ ?_)
    | (refine u_keydown_alpha_mode E _ _ _ ?_)
    | (refine u_keydown_normal_mode E _ _ _ ?_)
    | (refine pred_ite (fun r : St => Unread r) ?_ ?_ <;> intro _)
    | (refine pred_ite (fun r : Flow => UnreadF r) ?_ ?_ <;> intro _)
    | (refine pred_ite (fun r : Pick => UnreadP r) ?_ ?_ <;> intro _)
    | (refine pred_elim (fun r : St => Unread r) ?_ ?_ <;> intros)
    | (refine pred_elim (fun r : Flow => UnreadF r) ?_ ?_ <;> intros)
    | (intro _)
    | assumption
    | (refine u_ret ?_)
    | (refine u_go ?_)
    | (refine u_pret ?_)
    | (refine u_pcmd ?_)
    | (refine u_if_menu _ _ _ ?_ ?_)
    | (refine u_set_repeating _ _ _ ?_)
    | (refine u_repeat_shifted _ _ ?_)
    | (refine u_call E _ _ rfl ?_)
    | (refine u_mark _ _ rfl ?_)
    | (refine u_set_pending _ _ ?_)
    | (refine u_upd_arg _ _ ?_)
    | (refine u_set_arg_str _ _ _ ?_)
    | (refine u_upd _ _ ?_)
    | fail

theorem u_store_number_line (E : Engine) (st : St) 
    (hb : Unread st) :
    Unread (store_number_line E st) := by
  unfold store_number_line
  repeat' first
    | (refine u_next _ _ ?_ ?_)
    | (refine u_bind _ _ ?_ ?_)
    | (refine u_pick _ _ ?_ ?_)
    | (refine pred_ite (fun r : St => Unread r) ?_ ?_ <;> intro _)
    | (refine pred_ite (fun r : Flow => UnreadF r) ?_ ?_ <;> intro _)
    | (refine pred_ite (fun r : Pick => UnreadP r) ?_ ?_ <;> intro _)
    | (refine pred_elim (fun r : St => Unread r) ?_ ?_ <;> intros)
    | (refine pred_elim (fun r : Flow => UnreadF r) ?_ ?_ <;> intros)
    | (intro _)
    | assumption
    | (refine u_ret ?_)
    | (refine u_go ?_)
    | (refine u_pret ?_)
    | (refine u_pcmd ?_)
    | (refine u_if_menu _ _ _ ?_ ?_)
    | (refine u_set_repeating _ _ _ ?_)
    | (refine u_repeat_shifted _ _ ?_)
    | (refine u_call E _ _ rfl ?_)
    | (refine u_mark _ _ rfl ?_)
    | (refine u_set_pending _ _ ?_)
    | (refine u_upd_arg _ _ ?_)
    | (refine u_set_arg_str _ _ _ ?_)
    | (refine u_upd _ _ ?_)
    | fail

theorem u_keydown_getkey (E : Engine) (shift key : Int) (st : St) 
    (hb : Unread st) :
    Unread (keydown_getkey E shift key st) := by
  unfold keydown_getkey
  repeat' first
    | (refine u_next _ _ ?_ ?_)
    | (refine u_bind _ _ ?_ ?_)
    | (refine u_pick _ _ ?_ ?_)
    | (refine pred_ite (fun r : St => Unread r) ?_ ?_ <;> intro _)
    | (refine pred_ite (fun r : Flow => UnreadF r) ?_ ?_ <;> intro _)
    | (refine pred_ite (fun r : Pick => UnreadP r) ?_ ?_ <;> intro _)
    | (refine pred_elim (fun r : St => Unread r) ?_ ?_ <;> intros)
    | (refine pred_elim (fun r : Flow => UnreadF r) ?_ ?_ <;> intros)
    | (intro _)
    | assumption
    | (refine u_ret ?_)
    | (refine u_go ?_)
    | (refine u_pret ?_)
    | (refine u_pcmd ?_)
    | (refine u_if_menu _ _ _ ?_ ?_)
    | (refine u_set_repeating _ _ _ ?_)
    | (refine u_repeat_shifted _ _ ?_)
    | (refine u_call E _ _ rfl ?_)
    | (refine u_mark _ _ rfl ?_)
    | (refine u_set_pending _ _ ?_)
    | (refine u_upd_arg _ _ ?_)
    | (refine u_set_arg_str _ _ _ ?_)
    | (refine u_upd _ _ ?_)
    | fail

theorem u_keydown_prgm_toggle (E : Engine) (st : St) 
    (hb : Unread st) :
    Unread (keydown_prgm_toggle E st) := by
  unfold keydown_prgm_toggle
  repeat' first
    | (refine u_next _ _ ?_ ?_)
    | (refine u_bind _ _ ?_ ?_)
    | (refine u_pick _ _ ?_ ?_)
    | (refine u_store_number_line E _ ?_)
    | (refine pred_ite (fun r : St => Unread r) ?_ ?_ <;> intro _)
    | (refine pred_ite (fun r : Flow => UnreadF r) ?_ ?_ <;> intro _)
    | (refine pred_ite (fun r : Pick => UnreadP r) ?_ ?_ <;> intro _)
    | (refine pred_elim (fun r : St => Unread r) ?_ ?_ <;> intros)
    | (refine pred_elim (fun r : Flow => UnreadF r) ?_ ?_ <;> intros)
    | (intro _)
    | assumption
    | (refine u_ret ?_)
    | (refine u_go ?_)
    | (refine u_pret ?_)
    | (refine u_pcmd ?_)
    | (refine u_if_menu _ _ _ ?_ ?_)
    | (refine u_set_repeating _ _ _ ?_)
    | (refine u_repeat_shifted _ _ ?_)
    | (refine u_call E _ _ rfl ?_)
    | (refine u_mark _ _ rfl ?_)
    | (refine u_set_pending _ _ ?_)
    | (refine u_upd_arg _ _ ?_)
    | (refine u_set_arg_str _ _ _ ?_)
    | (refine u_upd _ _ ?_)
    | fail

theorem u_end_number_entry (E : Engine) (st : St) 
    (hb : Unread st) :
    Unread (end_number_entry E st) := by
  unfold end_number_entry
  repeat' first
    | (refine u_next _ _ ?_ ?_)
    | (refine u_bind _ _ ?_ ?_)
    | (refine u_pick _ _ ?_ ?_)
    | (refine u_store_number_line E _ ?_)
    | (refine pred_ite (fun r : St => Unread r) ?_ ?_ <;> intro _)
    | (refine pred_ite (fun r : Flow => UnreadF r) ?_ ?_ <;> intro _)
    | (refine pred_ite (fun r : Pick => UnreadP r) ?_ ?_ <;> intro _)
    | (refine pred_elim (fun r : St => Unread r) ?_ ?_ <;> intros)
    | (refine pred_elim (fun r : Flow => UnreadF r) ?_ ?_ <;> intros)
    | (intro _)
    | assumption
    | (refine u_ret ?_)
    | (refine u_go ?_)
    | (refine u_pret ?_)
    | (refine u_pcmd ?_)
    | (refine u_if_menu _ _ _ ?_ ?_)
    | (refine u_set_repeating _ _ _ ?_)
    | (refine u_repeat_shifted _ _ ?_)
    | (refine u_call E _ _ rfl ?_)
    | (refine u_mark _ _ rfl ?_)
    | (refine u_set_pending _ _ ?_)
    | (refine u_upd_arg _ _ ?_)
    | (refine u_set_arg_str _ _ _ ?_)
    | (refine u_upd _ _ ?_)
    | fail

theorem u_keydown_navigation (E : Engine) (shift key : Int) (st : St) 
    (hk : has_branch key ∨ st.s.mode_number_entry = 0)
    (hb : Unread st) :
    Unread (keydown_navigation E shift key st) := by
  unfold keydown_navigation
  repeat' first
    | (refine u_next _ _ ?_ ?_)
    | (refine u_bind _ _ ?_ ?_)
    | (refine u_pick _ _ ?_ ?_)
    | (refine u_keydown_dispatch E _ _ _ (hk.imp id (fun h => (mode_of_repeat _ _ _ _).trans h)) ?_)
    | (refine pred_ite (fun r : St => Unread r) ?_ ?_ <;> intro _)
    | (refine pred_ite (fun r : Flow => UnreadF r) ?_ ?_ <;> intro _)
    | (refine pred_ite (fun r : Pick => UnreadP r) ?_ ?_ <;> intro _)
    | (refine pred_elim (fun r : St => Unread r) ?_ ?_ <;> intros)
    | (refine pred_elim (fun r : Flow => UnreadF r) ?_ ?_ <;> intros)
    | (intro _)
    | assumption
    | (refine u_ret ?_)
    | (refine u_go ?_)
    | (refine u_pret ?_)
    | (refine u_pcmd ?_)
    | (refine u_if_menu _ _ _ ?_ ?_)
    | (refine u_set_repeating _ _ _ ?_)
    | (refine u_repeat_shifted _ _ ?_)
    | (refine u_call E _ _ rfl ?_)
    | (refine u_mark _ _ rfl ?_)
    | (refine u_set_pending _ _ ?_)
    | (refine u_upd_arg _ _ ?_)
    | (refine u_set_arg_str _ _ _ ?_)
    | (refine u_upd _ _ ?_)
    | fail

end

/-- After `end_number_entry` number entry has ended, when storing a program line
does not begin it again. -/
theorem end_number_entry_mode (E : Engine) (st : St)
    (hstore : ∀ pc cmd arg line s, s.mode_number_entry = 0 →
      (E.run (.store_command pc cmd arg line) s).mode_number_entry = 0) :
    (end_number_entry E st).s.mode_number_entry = 0 := by
  unfold end_number_entry store_number_line
  dsimp only
  split_ifs
  · exact hstore _ _ _ _ _ rfl
  · rfl
  · rfl

/-- The continuation of a block that keeps `Kept`. -/
theorem kept_next (key : Int) (flow : Flow) (k : St → St) (h1 : Kept key flow)
    (h2 : ∀ x, Unread x → (has_branch key ∨ x.s.mode_number_entry = 0) → Unread (k x)) :
    Unread (flow.next k) := by
  cases flow with
  | ret r => exact h1
  | go r => exact h2 r h1.1 h1.2

/-- Lines 311-334 of `keydown`: a key that stays in number entry is a number key,
the sign key or backspace. -/
theorem kept_keydown_leave_number_entry (E : Engine) (shift key : Int) (st : St)
    (hstore : ∀ pc cmd arg line s, s.mode_number_entry = 0 →
      (E.run (.store_command pc cmd arg line) s).mode_number_entry = 0)
    (hb : Unread st) : Kept key (keydown_leave_number_entry E shift key st) := by
  unfold keydown_leave_number_entry
  dsimp only
  refine pred_ite (Kept key) (fun _ => ?_) (fun hn => ?_)
  · refine pred_ite (Kept key) (fun _ => hb) (fun _ => ?_)
    refine pred_ite (Kept key)
      (fun _ => u_call E _ _ rfl (u_end_number_entry E st hb))
      (fun _ => ⟨u_end_number_entry E st hb, Or.inr (end_number_entry_mode E st hstore)⟩)
  · refine ⟨hb, ?_⟩
    by_cases h0 : st.s.mode_number_entry = 0
    · exact Or.inr h0
    · by_cases h1 : (is_number_key E shift key st.s).1 = true
      · exact Or.inl (has_branch_of_number_key E shift key st.s h1)
      · have hkey : key = KEY_CHS ∨ key = KEY_BSP := by
          by_contra hc
          push_neg at hc
          exact hn ⟨h0, h1, Or.inl hc.1, Or.inl hc.2⟩
        rcases hkey with h | h
        · exact Or.inl (Or.inr (Or.inr (Or.inl h)))
        · exact Or.inl (Or.inr (Or.inl h))

/-- No read of an unassigned `digit` in `keydown_main`. -/
theorem u_keydown_main (E : Engine) (shift key : Int) (st : St)
    (hstore : ∀ pc cmd arg line s, s.mode_number_entry = 0 →
      (E.run (.store_command pc cmd arg line) s).mode_number_entry = 0)
    (hb : Unread st) : Unread (keydown_main E shift key st) := by
  unfold keydown_main
  dsimp only
  refine pred_ite (fun r : St => Unread r) (fun _ => u_set_pending _ _ hb) (fun _ => ?_)
  refine pred_ite (fun r : St => Unread r) (fun _ => u_keydown_prgm_toggle E st hb) (fun _ => ?_)
  refine pred_ite (fun r : St => Unread r) (fun _ => u_call E _ _ rfl (u_upd _ _ hb)) (fun _ => ?_)
  refine pred_ite (fun r : St => Unread r)
    (fun _ => u_keydown_number_entry E _ _ _ (Or.inl rfl) (u_upd _ _ hb)) (fun _ => ?_)
  exact kept_next key _ _
    (kept_keydown_leave_number_entry E shift key _ hstore (u_upd _ _ hb))
    (fun x hx hk => u_keydown_navigation E shift key x hk hx)

/-- No read of an unassigned `digit` in `keydown`. -/
theorem u_keydown (E : Engine) (shift key : Int) (st : St)
    (hstore : ∀ pc cmd arg line s, s.mode_number_entry = 0 →
      (E.run (.store_command pc cmd arg line) s).mode_number_entry = 0)
    (hb : Unread st) : Unread (keydown E shift key st) := by
  have hb1 : Unread (set_pending CMD_NONE
      (st.upd (fun s => { s with flags := { s.flags with shift_state := shift } }))) :=
    u_set_pending _ _ (u_upd _ _ hb)
  unfold keydown
  dsimp only
  refine pred_ite (fun r : St => Unread r) (fun _ => hb1) (fun _ => ?_)
  refine pred_ite (fun r : St => Unread r) (fun _ => u_call E _ _ rfl hb1) (fun _ => ?_)
  refine pred_ite (fun r : St => Unread r) (fun _ => ?_) (fun _ => ?_)
  · refine u_upd _ _ ?_
    refine pred_ite (fun r : St => Unread r) (fun _ => u_set_pending _ _ hb1) (fun _ => ?_)
    exact pred_ite (fun r : St => Unread r) (fun _ => u_set_pending _ _ hb1)
      (fun _ => u_set_pending _ _ hb1)
  · refine pred_ite (fun r : St => Unread r) (fun _ => u_keydown_getkey E shift key _ hb1)
      (fun _ => u_keydown_main E shift key _ hstore hb1)

/-- A key that `is_number_key` accepts, other than `E` and the decimal point, is
one of `KEY_0` to `KEY_9` or, with `MENU_BASE_A_THRU_F` in front, one of the six
keys of the top row. -/
theorem digit_key_of_number_key (E : Engine) (shift key : Int) (x : State)
    (h : (is_number_key E shift key x).1 = true) (hE : key ≠ KEY_E) (hD : key ≠ KEY_DOT) :
    decimal_key key ∨ (E.ask .get_front_menu x = MENU_BASE_A_THRU_F ∧ letter_key key) := by
  revert h
  unfold is_number_key
  dsimp only
  refine pred_ite (fun r : Bool × Bool => r.1 = true → decimal_key key
    ∨ (E.ask .get_front_menu x = MENU_BASE_A_THRU_F ∧ letter_key key))
    (fun a _ => Or.inr a) (fun _ => ?_)
  refine pred_ite (fun r : Bool × Bool => r.1 = true → decimal_key key
    ∨ (E.ask .get_front_menu x = MENU_BASE_A_THRU_F ∧ letter_key key))
    (fun _ h => Bool.noConfusion h) (fun _ => ?_)
  refine pred_ite (fun r : Bool × Bool => r.1 = true → decimal_key key
    ∨ (E.ask .get_front_menu x = MENU_BASE_A_THRU_F ∧ letter_key key))
    (fun a _ => Or.inl (by rcases a with a | a <;> subst a <;> decide)) (fun _ => ?_)
  refine pred_ite (fun r : Bool × Bool => r.1 = true → decimal_key key
    ∨ (E.ask .get_front_menu x = MENU_BASE_A_THRU_F ∧ letter_key key))
    (fun a _ => (a.elim (fun a => absurd a hD) (fun a => absurd a hE))) (fun _ => ?_)
  refine pred_ite (fun r : Bool × Bool => r.1 = true → decimal_key key
    ∨ (E.ask .get_front_menu x = MENU_BASE_A_THRU_F ∧ letter_key key))
    (fun a _ => Or.inl (by rcases a with a | a | a | a | a | a <;> subst a <;> decide))
    (fun _ => ?_)
  refine pred_ite (fun r : Bool × Bool => r.1 = true → decimal_key key
    ∨ (E.ask .get_front_menu x = MENU_BASE_A_THRU_F ∧ letter_key key))
    (fun a _ => Or.inl (by rcases a with a | a <;> subst a <;> decide))
    (fun _ h => Bool.noConfusion h)

/-- C24: no call of `keydown_number_entry` made by `keydown` or by
`keydown_normal_mode` reads `digit` before the `switch` has assigned it, for every
state and every key event, when storing a program line does not begin number
entry: the trace of the key event has no read of an unassigned `digit`. The keys
that reach the digit branch are the keys that `is_number_key` accepts other than
`E` and the decimal point: these are `KEY_0` to `KEY_9` or, with
`MENU_BASE_A_THRU_F` in front, the six keys of the top row, and for each of these
sixteen keys the `switch` assigns `digit` a value from 0 to 15. -/
theorem C24_digit_assigned_before_use (E : Engine) (shift key : Int) (s : State)
    (hstore : ∀ pc cmd arg line s, s.mode_number_entry = 0 →
      (E.run (.store_command pc cmd arg line) s).mode_number_entry = 0) :
    (keydown E shift key (start s)).tr.any Call.is_uninitialized_read = false
      ∧ (keydown_normal_mode E shift key (start s)).tr.any Call.is_uninitialized_read = false
      ∧ (∀ x : State, (is_number_key E shift key x).1 = true → key ≠ KEY_E → key ≠ KEY_DOT →
          decimal_key key ∨ (E.ask .get_front_menu x = MENU_BASE_A_THRU_F ∧ letter_key key))
      ∧ (decimal_key key ∨ letter_key key →
          ∃ digit, digit_of_key key = some digit ∧ 0 ≤ digit ∧ digit ≤ 15) := by
  refine ⟨(u_keydown E shift key (start s) hstore ⟨rfl⟩).none,
    (u_keydown_normal_mode E shift key (start s) ⟨rfl⟩).none, ?_, ?_⟩
  · intro x h hE hD
    exact digit_key_of_number_key E shift key x h hE hD
  · unfold decimal_key letter_key
    rintro ((h | h | h | h | h | h | h | h | h | h) | (h | h | h | h | h | h)) <;> subst h
    · exact ⟨0, by decide⟩
    · exact ⟨1, by decide⟩
    · exact ⟨2, by decide⟩
    · exact ⟨3, by decide⟩
    · exact ⟨4, by decide⟩
    · exact ⟨5, by decide⟩
    · exact ⟨6, by decide⟩
    · exact ⟨7, by decide⟩
    · exact ⟨8, by decide⟩
    · exact ⟨9, by decide⟩
    · exact ⟨10, by decide⟩
    · exact ⟨11, by decide⟩
    · exact ⟨12, by decide⟩
    · exact ⟨13, by decide⟩
    · exact ⟨14, by decide⟩
    · exact ⟨15, by decide⟩

theorem C24_digit_assigned_before_use_witness :
    (keydown refEngine 0 KEY_7 (start one_entered_state)).tr.any Call.is_uninitialized_read = false
      ∧ (keydown_normal_mode refEngine 0 KEY_7 (start one_entered_state)).tr.any
          Call.is_uninitialized_read = false
      ∧ (∀ x : State, (is_number_key refEngine 0 KEY_7 x).1 = true → KEY_7 ≠ KEY_E →
          KEY_7 ≠ KEY_DOT →
          decimal_key KEY_7
            ∨ (refEngine.ask .get_front_menu x = MENU_BASE_A_THRU_F ∧ letter_key KEY_7))
      ∧ (decimal_key KEY_7 ∨ letter_key KEY_7 →
          ∃ digit, digit_of_key KEY_7 = some digit ∧ 0 ≤ digit ∧ digit ≤ 15) :=
  C24_digit_assigned_before_use refEngine 0 KEY_7 one_entered_state
    (fun _ _ _ _ _ h => h)

/-! ## C17: the sign key in number entry while the BASE application is active -/

/-- C17 fails on the code: in number entry in base 10, with `baseapp` set and a
menu other than the BASE menus in front, `basekeys()` is false, and
`keydown(0, KEY_CHS)` enters `keydown_number_entry` and takes its sign-change
branch: the command line `1` becomes `-1` and number entry goes on. -/
theorem C17_sign_change_with_baseapp :
    baseapp_entry_state.baseapp = true
      ∧ refEngine.ask .get_base baseapp_entry_state = 10
      ∧ refEngine.ask .get_front_menu baseapp_entry_state = MENU_CUSTOM1
      ∧ basekeys refEngine baseapp_entry_state = false
      ∧ (keydown refEngine 0 KEY_CHS (start baseapp_entry_state)).tr.any
          Call.is_number_entry_mark = true
      ∧ (keydown refEngine 0 KEY_CHS (start baseapp_entry_state)).s.baseapp = true
      ∧ (keydown refEngine 0 KEY_CHS (start baseapp_entry_state)).s.mode_number_entry = 1
      ∧ (keydown refEngine 0 KEY_CHS (start baseapp_entry_state)).s.cmdline_length = 2
      ∧ atake (keydown refEngine 0 KEY_CHS (start baseapp_entry_state)).s.cmdline 2 = [45, 49] := by
  decide

/-! ## C18: the separators of the command line -/

theorem dot_char_ne_24 (s : State) : dot_char s ≠ 24 := by
  unfold dot_char; split_ifs <;> decide

theorem dot_char_ne_45 (s : State) : dot_char s ≠ 45 := by
  unfold dot_char; split_ifs <;> decide

/-- A command line whose marked characters come, in the same order, from a
command line without a pair `x`, `y` has no such pair either. -/
theorem no_pair_reindex (x y : Nat) (s t : State) (σ : Nat → Nat)
    (hσ : ∀ j, j < t.cmdline_length.toNat → (cmd_char t j = x ∨ cmd_char t j = y) →
      σ j < s.cmdline_length.toNat ∧ cmd_char s (σ j) = cmd_char t j)
    (hmono : ∀ i j, i < j → j < t.cmdline_length.toNat → cmd_char t i = x → cmd_char t j = y →
      σ i < σ j)
    (h : no_pair x y s) : no_pair x y t := by
  intro j hj i hij hxy
  have h1 := hσ j hj (Or.inr hxy.2)
  have h2 := hσ i (by omega) (Or.inl hxy.1)
  exact h (σ j) h1.1 (σ i) (hmono i j hij hj hxy.1 hxy.2) ⟨h2.2.trans hxy.1, h1.2.trans hxy.2⟩

/-- The same for the three pairs of `separators_ok`. -/
theorem separators_ok_reindex (s t : State) (σ : Nat → Nat)
    (hd : dot_char t = dot_char s)
    (hσ : ∀ j, j < t.cmdline_length.toNat → (cmd_char t j = dot_char s ∨ cmd_char t j = 24) →
      σ j < s.cmdline_length.toNat ∧ cmd_char s (σ j) = cmd_char t j)
    (hmono : ∀ i j, i < j → j < t.cmdline_length.toNat →
      (cmd_char t i = dot_char s ∨ cmd_char t i = 24) →
      (cmd_char t j = dot_char s ∨ cmd_char t j = 24) → σ i < σ j)
    (h : separators_ok s) : separators_ok t := by
  unfold separators_ok
  rw [hd]
  refine ⟨no_pair_reindex _ _ s t σ (fun j hj hc => hσ j hj (hc.elim Or.inl Or.inl))
      (fun i j hij hj hi hy => hmono i j hij hj (Or.inl hi) (Or.inl hy)) h.1,
    no_pair_reindex _ _ s t σ (fun j hj hc => hσ j hj (hc.elim Or.inr Or.inr))
      (fun i j hij hj hi hy => hmono i j hij hj (Or.inr hi) (Or.inr hy)) h.2.1,
    no_pair_reindex _ _ s t σ (fun j hj hc => hσ j hj (hc.elim Or.inr Or.inl))
      (fun i j hij hj hi hy => hmono i j hij hj (Or.inr hi) (Or.inl hy)) h.2.2⟩

/-- A command line that is cut, its cells and the separator unchanged, stays well
formed. -/
theorem separators_ok_cut (s t : State) (hd : dot_char t = dot_char s)
    (hc : t.cmdline = s.cmdline) (hl : t.cmdline_length ≤ s.cmdline_length)
    (h : separators_ok s) : separators_ok t := by
  refine separators_ok_reindex s t id hd (fun j hj _ => ⟨?_, ?_⟩) (fun i j hij _ _ _ => hij) h
  · show j < s.cmdline_length.toNat
    omega
  · show aget s.cmdline (j : Int) = aget t.cmdline (j : Int)
    rw [hc]

/-- The cells after `cmdline[cmdline_length++] = c;`. -/
theorem cmd_char_append (c : Nat) (s : State) (j : Nat) (h0 : 0 ≤ s.cmdline_length) :
    cmd_char (cmdline_append c s) j
      = if (j : Int) = s.cmdline_length then c else cmd_char s j := by
  show aget (aset s.cmdline s.cmdline_length c) (j : Int) = _
  rw [aget_aset _ _ _ _ h0 (by omega)]
  rfl

/-- A character that is neither a separator nor an exponent marker may be
appended. -/
theorem separators_ok_append (c : Nat) (s : State) (hc : c ≠ dot_char s) (hc24 : c ≠ 24)
    (h : separators_ok s) : separators_ok (cmdline_append c s) := by
  by_cases h0 : 0 ≤ s.cmdline_length
  · refine separators_ok_reindex s _ id rfl (fun j hj hs => ?_) (fun i j hij _ _ _ => hij) h
    have hj1 : j < (s.cmdline_length + 1).toNat := hj
    rw [cmd_char_append c s j h0] at hs ⊢
    by_cases hjn : (j : Int) = s.cmdline_length
    · rw [if_pos hjn] at hs
      exact absurd hs (by rintro (h | h); exact hc h; exact hc24 h)
    · rw [if_neg hjn]
      exact ⟨by show j < s.cmdline_length.toNat; omega, rfl⟩
  · have hn : (s.cmdline_length + 1).toNat = 0 := by omega
    refine ⟨?_, ?_, ?_⟩ <;>
    · intro j hj
      have hj1 : j < (s.cmdline_length + 1).toNat := hj
      omega

/-- The decimal separator may be appended to a command line that has neither a
separator nor an exponent marker. -/
theorem separators_ok_append_dot (s : State) (d : Nat) (hd : d = dot_char s)
    (h1 : no_char d s) (h2 : no_char 24 s) : separators_ok (cmdline_append d s) := by
  subst hd
  by_cases h0 : 0 ≤ s.cmdline_length
  · have key : ∀ x y : Nat, (x = dot_char s ∨ x = 24) →
        no_pair x y (cmdline_append (dot_char s) s) := by
      intro x y hx j hj i hij hxy
      have hj1 : j < (s.cmdline_length + 1).toNat := hj
      have hi := hxy.1
      rw [cmd_char_append _ s i h0, if_neg (by omega)] at hi
      rcases hx with hx | hx
      · exact h1 i (by omega) (hi.trans hx)
      · exact h2 i (by omega) (hi.trans hx)
    exact ⟨key _ _ (Or.inl rfl), key _ _ (Or.inr rfl), key _ _ (Or.inr rfl)⟩
  · have hn : (s.cmdline_length + 1).toNat = 0 := by omega
    refine ⟨?_, ?_, ?_⟩ <;>
    · intro j hj
      have hj1 : j < (s.cmdline_length + 1).toNat := hj
      omega

/-- The exponent marker may be appended to a command line that has none. -/
theorem separators_ok_append_exp (s : State) (h : separators_ok s) (h2 : no_char 24 s) :
    separators_ok (cmdline_append 24 s) := by
  by_cases h0 : 0 ≤ s.cmdline_length
  · refine ⟨?_, ?_, ?_⟩
    · intro j hj i hij hxy
      have hj1 : j < (s.cmdline_length + 1).toNat := hj
      have hi := hxy.1
      have hy := hxy.2
      rw [cmd_char_append _ s i h0, if_neg (by omega)] at hi
      rw [cmd_char_append _ s j h0] at hy
      by_cases hjn : (j : Int) = s.cmdline_length
      · rw [if_pos hjn] at hy
        exact dot_char_ne_24 s hy.symm
      · rw [if_neg hjn] at hy
        exact h.1 j (by omega) i hij ⟨hi, hy⟩
    · intro j hj i hij hxy
      have hj1 : j < (s.cmdline_length + 1).toNat := hj
      have hi := hxy.1
      rw [cmd_char_append _ s i h0, if_neg (by omega)] at hi
      exact h2 i (by omega) hi
    · intro j hj i hij hxy
      have hj1 : j < (s.cmdline_length + 1).toNat := hj
      have hi := hxy.1
      rw [cmd_char_append _ s i h0, if_neg (by omega)] at hi
      exact h2 i (by omega) hi
  · have hn : (s.cmdline_length + 1).toNat = 0 := by omega
    refine ⟨?_, ?_, ?_⟩ <;>
    · intro j hj
      have hj1 : j < (s.cmdline_length + 1).toNat := hj
      omega


/-- The cells after the loop that closes a gap, for a loop of `k` steps. -/
theorem aget_shift_left_fold (a : List Nat) (lo : Int) (k : Nat) (i : Int)
    (hlo : 0 ≤ lo) (hi : 0 ≤ i) :
    aget ((List.range k).foldl
      (fun (d : List Nat) (j : Nat) => aset d (lo + (j : Int)) (aget d (lo + (j : Int) + 1))) a) i
      = if lo ≤ i ∧ i < lo + (k : Int) then aget a (i + 1) else aget a i := by
  induction k generalizing i with
  | zero =>
    have h : ¬ (lo ≤ i ∧ i < lo + ((0 : Nat) : Int)) := by omega
    rw [if_neg h]
    rfl
  | succ k ih =>
    rw [List.range_succ, List.foldl_append, List.foldl_cons, List.foldl_nil,
      aget_aset _ _ _ _ (by omega) hi, ih i hi, ih (lo + (k : Int) + 1) (by omega)]
    have h1 : ¬ (lo ≤ lo + (k : Int) + 1 ∧ lo + (k : Int) + 1 < lo + (k : Int)) := by omega
    rw [if_neg h1]
    by_cases h2 : i = lo + (k : Int)
    · rw [if_pos h2, if_pos (by push_cast; omega), h2]
    · rw [if_neg h2]
      by_cases h3 : lo ≤ i ∧ i < lo + (k : Int)
      · rw [if_pos h3, if_pos (by push_cast; omega)]
      · rw [if_neg h3, if_neg (by push_cast; omega)]

/-- The cells after `for (i = lo; i < hi; i++) a[i] = a[i + 1];`. -/
theorem aget_ashift_left (a : List Nat) (lo hi i : Int) (hlo : 0 ≤ lo) (hi0 : 0 ≤ i) :
    aget (ashift_left a lo hi) i = if lo ≤ i ∧ i < hi then aget a (i + 1) else aget a i := by
  unfold ashift_left
  rw [aget_shift_left_fold a lo _ i hlo hi0]
  by_cases h : lo ≤ i ∧ i < hi
  · rw [if_pos h, if_pos (by omega)]
  · rw [if_neg h, if_neg (by omega)]

/-- The cells after the loop that opens a gap, for a loop of `k` steps. -/
theorem aget_shift_right_fold (a : List Nat) (hi : Int) (k : Nat) (i : Int)
    (hk : 0 ≤ hi - (k : Int)) (hi0 : 0 ≤ i) :
    aget ((List.range k).foldl
      (fun (d : List Nat) (j : Nat) => aset d (hi - (j : Int)) (aget d (hi - (j : Int) - 1))) a) i
      = if hi - (k : Int) < i ∧ i ≤ hi then aget a (i - 1) else aget a i := by
  induction k generalizing i with
  | zero =>
    have h : ¬ (hi - ((0 : Nat) : Int) < i ∧ i ≤ hi) := by omega
    rw [if_neg h]
    rfl
  | succ k ih =>
    have hk1 : 0 ≤ hi - (k : Int) := by push_cast at hk; omega
    have hk2 : 0 ≤ hi - (k : Int) - 1 := by push_cast at hk; omega
    rw [List.range_succ, List.foldl_append, List.foldl_cons, List.foldl_nil,
      aget_aset _ _ _ _ hk1 hi0, ih i hk1 hi0, ih (hi - (k : Int) - 1) hk1 hk2]
    have h1 : ¬ (hi - (k : Int) < hi - (k : Int) - 1 ∧ hi - (k : Int) - 1 ≤ hi) := by omega
    rw [if_neg h1]
    by_cases h2 : i = hi - (k : Int)
    · rw [if_pos h2, if_pos (by push_cast; omega), h2]
    · rw [if_neg h2]
      by_cases h3 : hi - (k : Int) < i ∧ i ≤ hi
      · rw [if_pos h3, if_pos (by push_cast; omega)]
      · rw [if_neg h3, if_neg (by push_cast; omega)]

/-- The cells after `for (i = hi; i > lo; i--) a[i] = a[i - 1];`. -/
theorem aget_ashift_right (a : List Nat) (hi lo i : Int) (hlo : 0 ≤ lo) (hi0 : 0 ≤ i) :
    aget (ashift_right a hi lo) i = if lo < i ∧ i ≤ hi then aget a (i - 1) else aget a i := by
  unfold ashift_right
  by_cases hle : lo ≤ hi
  · rw [aget_shift_right_fold a hi _ i (by omega) hi0]
    by_cases h : lo < i ∧ i ≤ hi
    · rw [if_pos h, if_pos (by omega)]
    · rw [if_neg h, if_neg (by omega)]
  · have h0 : (hi - lo).toNat = 0 := by omega
    rw [h0, if_neg (by omega)]
    rfl


/-- A command line of at most one character is well formed. -/
theorem separators_ok_short (s : State) (h : s.cmdline_length ≤ 1) : separators_ok s := by
  refine ⟨?_, ?_, ?_⟩ <;>
  · intro j hj i hij
    omega

/-- A character `-` may be inserted in front of the cell `p`. -/
theorem separators_ok_insert (s t : State) (p : Int) (hp : 0 ≤ p)
    (hpn : p ≤ s.cmdline_length ∨ s.cmdline_length < 0)
    (hd : dot_char t = dot_char s)
    (hc : t.cmdline = aset (ashift_right s.cmdline s.cmdline_length p) p 45)
    (hl : t.cmdline_length = s.cmdline_length + 1) (h : separators_ok s) : separators_ok t := by
  by_cases hn : s.cmdline_length < 0
  · exact separators_ok_short t (by omega)
  · have hpn1 : p ≤ s.cmdline_length := by omega
    have cell : ∀ j : Nat, cmd_char t j
        = if (j : Int) = p then 45
          else if p < (j : Int) ∧ (j : Int) ≤ s.cmdline_length then aget s.cmdline ((j : Int) - 1)
          else aget s.cmdline (j : Int) := by
      intro j
      show aget t.cmdline (j : Int) = _
      rw [hc, aget_aset _ _ _ _ hp (by omega), aget_ashift_right _ _ _ _ hp (by omega)]
    refine separators_ok_reindex s t (fun j => if (j : Int) < p then j else j - 1) hd
      (fun j hj hs => ?_) (fun i j hij hj hi hs => ?_) h
    · rw [cell j] at hs ⊢
      by_cases h1 : (j : Int) = p
      · rw [if_pos h1] at hs
        rcases hs with hs | hs
        · exact absurd hs.symm (dot_char_ne_45 s)
        · exact absurd hs (by decide)
      · rw [if_neg h1] at hs ⊢
        by_cases h2 : (j : Int) < p
        · rw [if_neg (by omega)] at hs ⊢
          simp only [if_pos h2]
          exact ⟨by omega, rfl⟩
        · rw [if_pos (by omega)] at hs ⊢
          simp only [if_neg h2]
          have h3 : ((j - 1 : Nat) : Int) = (j : Int) - 1 := by omega
          refine ⟨by omega, ?_⟩
          show aget s.cmdline ((j - 1 : Nat) : Int) = _
          rw [h3]
    · have hip : ¬ (i : Int) = p := by
        intro h1
        rw [cell i, if_pos h1] at hi
        rcases hi with hi | hi
        · exact dot_char_ne_45 s hi.symm
        · exact absurd hi (by decide)
      have hjp : ¬ (j : Int) = p := by
        intro h1
        rw [cell j, if_pos h1] at hs
        rcases hs with hs | hs
        · exact dot_char_ne_45 s hs.symm
        · exact absurd hs (by decide)
      show (if (i : Int) < p then i else i - 1) < (if (j : Int) < p then j else j - 1)
      split_ifs <;> omega

/-- The character in the cell `p` may be removed. -/
theorem separators_ok_remove (s t : State) (p : Int) (hp : 0 ≤ p)
    (hd : dot_char t = dot_char s)
    (hc : t.cmdline = ashift_left s.cmdline p (s.cmdline_length - 1))
    (hl : t.cmdline_length = s.cmdline_length - 1) (h : separators_ok s) : separators_ok t := by
  have cell : ∀ j : Nat, cmd_char t j
      = if p ≤ (j : Int) ∧ (j : Int) < s.cmdline_length - 1 then aget s.cmdline ((j : Int) + 1)
        else aget s.cmdline (j : Int) := by
    intro j
    show aget t.cmdline (j : Int) = _
    rw [hc, aget_ashift_left _ _ _ _ hp (by omega)]
  refine separators_ok_reindex s t (fun j => if (j : Int) < p then j else j + 1) hd
    (fun j hj hs => ?_) (fun i j hij hj hi hs => ?_) h
  · rw [cell j]
    by_cases h2 : (j : Int) < p
    · rw [if_neg (by omega)]
      simp only [if_pos h2]
      exact ⟨by omega, rfl⟩
    · rw [if_pos (by omega)]
      simp only [if_neg h2]
      refine ⟨by omega, ?_⟩
      show aget s.cmdline ((j + 1 : Nat) : Int) = _
      rw [Nat.cast_add, Nat.cast_one]
  · show (if (i : Int) < p then i else i + 1) < (if (j : Int) < p then j else j + 1)
    split_ifs <;> omega

/-- A search that finds nothing: no cell below `n` has the property. -/
theorem find_pos_none (a : List Nat) (n : Int) (p : Nat → Bool) (h : find_pos a n p = -1) :
    ∀ j : Nat, j < n.toNat → p (aget a (j : Int)) = false := by
  unfold find_pos at h
  cases hf : (List.range n.toNat).find? (fun i : Nat => p (aget a (i : Int))) with
  | none =>
    intro j hj
    have h1 := List.find?_eq_none.mp hf j (List.mem_range.mpr hj)
    simpa using h1
  | some i =>
    rw [hf] at h
    have h2 : (i : Int) = -1 := h
    omega

/-- A search that finds a cell: its index lies below `n`. -/
theorem find_pos_some (a : List Nat) (n : Int) (p : Nat → Bool) (h : find_pos a n p ≠ -1) :
    0 ≤ find_pos a n p ∧ find_pos a n p < n := by
  unfold find_pos at h ⊢
  cases hf : (List.range n.toNat).find? (fun i : Nat => p (aget a (i : Int))) with
  | none =>
    rw [hf] at h
    exact absurd rfl h
  | some i =>
    have h1 := List.mem_range.mp (List.mem_of_find?_eq_some hf)
    show 0 ≤ (i : Int) ∧ (i : Int) < n
    omega

/-- The scan of the exponent branch finds the exponent marker when there is one. -/
theorem scan_exponent_none (d : Nat) (hd : d ≠ 24) (l : List Nat) (i : Int) (hi : 0 ≤ i)
    (h : (scan_exponent d l i).1 = -1) : ∀ c ∈ l, c ≠ 24 := by
  induction l generalizing i with
  | nil => intro c hc; cases hc
  | cons c cs ih =>
    unfold scan_exponent at h
    by_cases h1 : 49 ≤ c ∧ c ≤ 57
    · rw [if_pos h1] at h
      intro x hx
      rcases List.mem_cons.mp hx with rfl | hx
      · omega
      · exact ih (i + 1) (by omega) h x hx
    · rw [if_neg h1] at h
      by_cases h2 : c = d
      · rw [if_pos h2] at h
        intro x hx
        rcases List.mem_cons.mp hx with rfl | hx
        · rw [h2]; exact hd
        · exact ih (i + 1) (by omega) h x hx
      · rw [if_neg h2] at h
        by_cases h3 : c = 24
        · rw [if_pos h3] at h
          have h4 : i = -1 := h
          omega
        · rw [if_neg h3] at h
          intro x hx
          rcases List.mem_cons.mp hx with rfl | hx
          · exact h3
          · exact ih (i + 1) (by omega) h x hx

/-- The characters of the command line are the cells below `cmdline_length`. -/
theorem cmd_char_mem (s : State) (j : Nat) (hj : j < s.cmdline_length.toNat) :
    cmd_char s j ∈ atake s.cmdline s.cmdline_length :=
  List.mem_map.mpr ⟨j, List.mem_range.mpr hj, rfl⟩

/-- Appending a character other than `x` keeps the command line free of `x`. -/
theorem no_char_append (x c : Nat) (s : State) (hc : c ≠ x) (h : no_char x s) :
    no_char x (cmdline_append c s) := by
  intro j hj
  have hj1 : j < (s.cmdline_length + 1).toNat := hj
  have h0 : 0 ≤ s.cmdline_length := by omega
  rw [cmd_char_append c s j h0]
  by_cases hjn : (j : Int) = s.cmdline_length
  · rw [if_pos hjn]; exact hc
  · rw [if_neg hjn]; exact h j (by omega)

/-- The sign of the exponent may be toggled; the exponent marker stays inside the
command line. -/
theorem separators_ok_toggle (exp_pos : Int) (s : State) (h0 : 0 ≤ exp_pos)
    (hn : exp_pos + 1 ≤ s.cmdline_length) (h : separators_ok s) :
    separators_ok (toggle_exp_sign exp_pos s)
      ∧ exp_pos + 1 ≤ (toggle_exp_sign exp_pos s).cmdline_length := by
  unfold toggle_exp_sign
  by_cases hc : s.cmdline_length > exp_pos + 1 ∧ aget s.cmdline (exp_pos + 1) = 45
  · rw [if_pos hc]
    refine ⟨separators_ok_remove s _ (exp_pos + 1) (by omega) rfl rfl rfl h, ?_⟩
    show exp_pos + 1 ≤ s.cmdline_length - 1
    omega
  · rw [if_neg hc]
    refine ⟨separators_ok_insert s _ (exp_pos + 1) (by omega) (Or.inl hn) rfl rfl rfl h, ?_⟩
    show exp_pos + 1 ≤ s.cmdline_length + 1
    omega

/-- The property `separators_ok` reads the variables of `sep_view` only. -/
theorem separators_ok_of_view (s t : State) (hv : sep_view t = sep_view s)
    (h : separators_ok s) : separators_ok t := by
  have h1 : t.cmdline = s.cmdline := congrArg (fun v : List Nat × Int × Bool => v.1) hv
  have h2 : t.cmdline_length = s.cmdline_length :=
    congrArg (fun v : List Nat × Int × Bool => v.2.1) hv
  have h3 : t.flags.decimal_point = s.flags.decimal_point :=
    congrArg (fun v : List Nat × Int × Bool => v.2.2) hv
  refine separators_ok_cut s t ?_ h1 (le_of_eq h2) h
  unfold dot_char
  rw [h3]

theorem so_call (E : Engine) (hE : ∀ c s, separators_ok s → separators_ok (E.run c s))
    (c : Call) (st : St) (hb : Sep st) : Sep (st.call E c) := ⟨hE c st.s hb.ok⟩

theorem so_mark (c : Call) (st : St) (hb : Sep st) : Sep (st.mark c) := ⟨hb.ok⟩

theorem so_upd (f : State → State) (st : St) (hf : sep_view (f st.s) = sep_view st.s)
    (hb : Sep st) : Sep (st.upd f) := ⟨separators_ok_of_view st.s (f st.s) hf hb.ok⟩

theorem so_upd_dec (f : State → State) (st : St)
    (hf : sep_view (f st.s) = (st.s.cmdline, st.s.cmdline_length - 1, st.s.flags.decimal_point))
    (hb : Sep st) : Sep (st.upd f) := by
  have h1 : (f st.s).cmdline = st.s.cmdline :=
    congrArg (fun v : List Nat × Int × Bool => v.1) hf
  have h2 : (f st.s).cmdline_length = st.s.cmdline_length - 1 :=
    congrArg (fun v : List Nat × Int × Bool => v.2.1) hf
  have h3 : (f st.s).flags.decimal_point = st.s.flags.decimal_point :=
    congrArg (fun v : List Nat × Int × Bool => v.2.2) hf
  refine ⟨separators_ok_cut st.s (f st.s) ?_ h1 (by omega) hb.ok⟩
  unfold dot_char
  rw [h3]

theorem so_upd_short (f : State → State) (st : St) (hf : (f st.s).cmdline_length = 0) :
    Sep (st.upd f) := ⟨separators_ok_short (f st.s) (by omega)⟩

/-- The statement `cmdline[cmdline_length] = 0;` writes behind the command line. -/
theorem so_upd_terminator (st : St) (hb : Sep st) :
    Sep (st.upd (fun s => { s with cmdline := aset s.cmdline s.cmdline_length 0 })) := by
  refine ⟨separators_ok_reindex st.s _ id rfl (fun j hj _ => ⟨hj, ?_⟩)
    (fun i j hij _ _ _ => hij) hb.ok⟩
  have hj1 : j < st.s.cmdline_length.toNat := hj
  show aget st.s.cmdline (j : Int) = aget (aset st.s.cmdline st.s.cmdline_length 0) (j : Int)
  rw [aget_aset _ _ _ _ (by omega) (by omega), if_neg (by omega)]

theorem so_upd_if (p : State → Prop) {inst : ∀ s, Decidable (p s)} (f : State → State) (st : St)
    (hf : ∀ s, sep_view (f s) = sep_view s) (hb : Sep st) :
    Sep (st.upd (fun s => @ite _ (p s) (inst s) (f s) s)) := by
  refine so_upd _ st ?_ hb
  show sep_view (@ite _ (p st.s) (inst st.s) (f st.s) st.s) = sep_view st.s
  split_ifs
  · exact hf st.s
  · rfl

theorem so_incomplete_append (c : Nat) (st : St) (hb : Sep st) :
    Sep (st.upd (incomplete_append c)) := by
  unfold incomplete_append
  exact so_upd_if _ _ st (fun _ => rfl) hb

theorem so_upd_pc_to_new_line (E : Engine) (st : St) (hb : Sep st) :
    Sep (st.upd (pc_to_new_line E)) := by
  refine so_upd _ st ?_ hb
  unfold pc_to_new_line
  split_ifs <;> rfl

theorem so_set_pending (cmd : Int) (st : St) (hb : Sep st) : Sep (set_pending cmd st) :=
  ⟨hb.ok⟩

theorem so_upd_arg (f : arg_struct → arg_struct) (st : St) (hb : Sep st) :
    Sep (upd_arg f st) := ⟨hb.ok⟩

theorem so_set_arg_str (name : List Nat) (length : Int) (st : St) (hb : Sep st) :
    Sep (set_arg_str name length st) := ⟨hb.ok⟩

theorem so_set_repeating (key shift : Int) (st : St) (hb : Sep st) :
    Sep (set_repeating key shift st) := by
  unfold set_repeating
  split_ifs
  · exact ⟨hb.ok⟩
  · exact hb

theorem so_repeat_shifted (key : Int) (st : St) (hb : Sep st) :
    Sep (repeat_shifted key st) := ⟨hb.ok⟩

theorem so_pc_to_previous_line (E : Engine) (st : St) (hb : Sep st) :
    Sep (pc_to_previous_line E st) := ⟨hb.ok⟩

theorem so_if_menu (m : Option menu_spec) (k : menu_spec → St → St) (st : St)
    (hk : ∀ m x, Sep x → Sep (k m x)) (hb : Sep st) : Sep (if_menu m k st) := by
  cases m with
  | none => exact hb
  | some m => exact hk m st hb

theorem so_ret {r : St} (h : Sep r) : SepF (Flow.ret r) := h

theorem so_go {r : St} (h : Sep r) : SepF (Flow.go r) := h

theorem so_pret {r : St} (h : Sep r) : SepP (Pick.ret r) := h

theorem so_pcmd {r : St} {command : Int} (h : Sep r) : SepP (Pick.cmd r command) := h

theorem so_next (flow : Flow) (k : St → St) (h1 : SepF flow)
    (h2 : ∀ x, Sep x → Sep (k x)) : Sep (flow.next k) := by
  cases flow with
  | ret r => exact h1
  | go r => exact h2 r h1

theorem so_bind (flow : Flow) (k : St → Flow) (h1 : SepF flow)
    (h2 : ∀ x, Sep x → SepF (k x)) : SepF (flow.bind k) := by
  cases flow with
  | ret r => exact h1
  | go r => exact h2 r h1

theorem so_pick (pick : Pick) (k : St → Int → St) (h1 : SepP pick)
    (h2 : ∀ x command, Sep x → Sep (k x command)) : Sep (pick.next k) := by
  cases pick with
  | ret r => exact h1
  | cmd r command => exact h2 r command h1

/-- The character of a digit that the `switch` assigns is neither a separator nor
the exponent marker. -/
theorem digit_char_plain (key digit : Int) (hk : digit_of_key key = some digit) :
    digit_char digit ≠ 44 ∧ digit_char digit ≠ 46 ∧ digit_char digit ≠ 24 := by
  revert digit
  unfold digit_of_key
  repeat' (refine pred_ite (fun r : Option Int => ∀ digit : Int, r = some digit →
    (digit_char digit ≠ 44 ∧ digit_char digit ≠ 46 ∧ digit_char digit ≠ 24)) ?_ ?_ <;> intro _)
  all_goals
    intro digit hk
    first
    | (cases hk; decide)
    | (exact absurd hk (by simp))

theorem so_append_digit (key digit : Int) (st : St) (hk : digit_of_key key = some digit)
    (hb : Sep st) : Sep (st.upd (cmdline_append (digit_char digit))) := by
  have h := digit_char_plain key digit hk
  refine ⟨separators_ok_append _ st.s ?_ h.2.2 hb.ok⟩
  unfold dot_char
  split_ifs
  · exact h.2.1
  · exact h.1

/-- The sign-change branch keeps the command line well formed. -/
theorem so_number_entry_chs (E : Engine)
    (hE : ∀ c s, separators_ok s → separators_ok (E.run c s)) (st : St) (hb : Sep st) :
    SepF (number_entry_chs E st) := by
  unfold number_entry_chs
  dsimp only
  by_cases h1 : find_pos st.s.cmdline st.s.cmdline_length (fun c => decide (c = 24)) ≠ -1
  · rw [if_pos h1]
    have hp := find_pos_some _ _ _ h1
    have ht := separators_ok_toggle _ st.s hp.1 (by omega) hb.ok
    refine pred_ite (fun r : Flow => SepF r) (fun _ => ?_) (fun _ => ?_)
    · exact ⟨(separators_ok_toggle _ _ hp.1 ht.2 ht.1).1⟩
    · exact ⟨ht.1⟩
  · rw [if_neg h1]
    refine pred_ite (fun r : Flow => SepF r) (fun _ => ?_) (fun _ => ?_)
    · refine pred_ite (fun r : Flow => SepF r) (fun _ => ?_) (fun _ => ?_)
      · refine pred_ite (fun r : Flow => SepF r) (fun _ => ?_) (fun _ => ?_)
        · exact so_call E hE _ _ (so_upd _ _ rfl (so_pc_to_previous_line E _ (so_upd _ _ rfl hb)))
        · exact so_upd _ _ rfl (so_upd _ _ rfl (so_upd _ _ rfl hb))
      · exact ⟨separators_ok_remove st.s _ 0 le_rfl rfl rfl rfl hb.ok⟩
    · refine ⟨separators_ok_insert st.s _ 0 le_rfl ?_ rfl rfl rfl hb.ok⟩
      omega

/-- No character of a digit is the decimal separator. -/
theorem dot_char_ne_digit (s : State) (c : Nat) (h1 : 48 ≤ c) (h2 : c ≤ 57) : c ≠ dot_char s := by
  unfold dot_char
  split_ifs <;> omega

/-- The exponent branch when the mantissa has only zeroes: the command line is
reset to the sign, the digit 1 and the separator. -/
theorem so_e_reset (st1 : St) (d : Nat) (hd : d = dot_char st1.s)
    (hl : st1.s.cmdline_length ≤ 1)
    (hc : st1.s.cmdline_length = 1 → aget st1.s.cmdline 0 = 45) (seen_dot : Prop)
    [Decidable seen_dot] :
    SepF (Flow.go ((if seen_dot then (st1.upd (cmdline_append 49)).upd (cmdline_append d)
      else st1.upd (cmdline_append 49)).upd (cmdline_append 24))) := by
  have n1 : ∀ x : Nat, x ≠ 45 → no_char x st1.s := by
    intro x hx j hj
    have hj0 : j = 0 := by omega
    have hl1 : st1.s.cmdline_length = 1 := by omega
    rw [hj0]
    show aget st1.s.cmdline ((0 : Nat) : Int) ≠ x
    rw [Nat.cast_zero, hc hl1]
    exact fun h => hx h.symm
  have hd45 : d ≠ 45 := by rw [hd]; exact dot_char_ne_45 st1.s
  have hd49 : (49 : Nat) ≠ d := by rw [hd]; exact dot_char_ne_digit st1.s 49 (by decide) (by decide)
  have hd24 : d ≠ 24 := by rw [hd]; exact dot_char_ne_24 st1.s
  have ok2 : separators_ok (cmdline_append 49 st1.s) :=
    separators_ok_append 49 st1.s (dot_char_ne_digit st1.s 49 (by decide) (by decide))
      (by decide) (separators_ok_short st1.s hl)
  have nd2 : no_char d (cmdline_append 49 st1.s) := no_char_append d 49 st1.s hd49 (n1 d hd45)
  have n242 : no_char 24 (cmdline_append 49 st1.s) :=
    no_char_append 24 49 st1.s (by decide) (n1 24 (by decide))
  have ok3 : separators_ok (cmdline_append d (cmdline_append 49 st1.s)) :=
    separators_ok_append_dot (cmdline_append 49 st1.s) d hd nd2 n242
  have n243 : no_char 24 (cmdline_append d (cmdline_append 49 st1.s)) :=
    no_char_append 24 d (cmdline_append 49 st1.s) hd24 n242
  refine pred_ite (fun r : St => SepF (Flow.go (r.upd (cmdline_append 24))))
    (fun _ => ?_) (fun _ => ?_)
  · exact ⟨separators_ok_append_exp (cmdline_append d (cmdline_append 49 st1.s)) ok3 n243⟩
  · exact ⟨separators_ok_append_exp (cmdline_append 49 st1.s) ok2 n242⟩

/-- The exponent branch keeps the command line well formed. -/
theorem so_number_entry_e (st : St) (hb : Sep st) : SepF (number_entry_e st) := by
  unfold number_entry_e
  dsimp only
  refine pred_ite (fun r : Flow => SepF r) (fun h1 => ?_) (fun _ => hb)
  have h24 : no_char 24 st.s := fun j hj =>
    scan_exponent_none _ (dot_char_ne_24 st.s) _ 0 le_rfl h1 _ (cmd_char_mem st.s j hj)
  refine pred_ite (fun r : St => SepF (Flow.go (r.upd (cmdline_append 24))))
    (fun _ => ?_) (fun _ => ⟨separators_ok_append_exp st.s hb.ok h24⟩)
  have hl1 : (if st.s.cmdline_length > 0 ∧ aget st.s.cmdline 0 = 45 then (1 : Int) else 0) ≤ 1 := by
    split_ifs <;> omega
  have hc1 : (if st.s.cmdline_length > 0 ∧ aget st.s.cmdline 0 = 45 then (1 : Int) else 0) = 1 →
      aget st.s.cmdline 0 = 45 := by
    intro h
    by_cases hc : st.s.cmdline_length > 0 ∧ aget st.s.cmdline 0 = 45
    · exact hc.2
    · rw [if_neg hc] at h
      omega
  exact so_e_reset _ _ rfl hl1 hc1 _

/-- The decimal-point branch keeps the command line well formed. -/
theorem so_number_entry_dot (st : St) (hb : Sep st) : SepF (number_entry_dot st) := by
  unfold number_entry_dot
  dsimp only
  refine pred_ite (fun r : Flow => SepF r) (fun h1 => ?_) (fun _ => ?_)
  · have hs : ∀ x : Nat, x ≠ 45 → no_char x st.s := by
      intro x hx j hj
      rcases h1 with h1 | h1
      · omega
      · have hj0 : j = 0 := by omega
        rw [hj0]
        show aget st.s.cmdline ((0 : Nat) : Int) ≠ x
        rw [Nat.cast_zero, h1.2]
        exact fun h => hx h.symm
    have hd48 : (48 : Nat) ≠ dot_char st.s := dot_char_ne_digit st.s 48 (by decide) (by decide)
    have n1 : no_char (dot_char st.s) (cmdline_append 48 st.s) :=
      no_char_append (dot_char st.s) 48 st.s hd48 (hs _ (dot_char_ne_45 st.s))
    have n2 : no_char 24 (cmdline_append 48 st.s) :=
      no_char_append 24 48 st.s (by decide) (hs 24 (by decide))
    exact ⟨separators_ok_append_dot (cmdline_append 48 st.s) (dot_char st.s) rfl n1 n2⟩
  · refine pred_ite (fun r : Flow => SepF r) (fun h2 => ?_) (fun _ => hb)
    have hf := find_pos_none _ _ _ h2
    refine ⟨separators_ok_append_dot st.s (dot_char st.s) rfl (fun j hj => ?_) (fun j hj => ?_)⟩
    · have h3 := hf j hj
      simp only [decide_eq_false_iff_not, not_or] at h3
      exact h3.1
    · have h3 := hf j hj
      simp only [decide_eq_false_iff_not, not_or] at h3
      exact h3.2

/-! In the lemmas of the following section the blocks and the primitives of the trace
are not unfolded by the unifier: each lemma unfolds the one block that it is about. -/

section

attribute [local irreducible] St.call St.upd St.mark set_pending upd_arg set_arg_str set_repeating
  if_menu repeat_shifted pc_to_previous_line Flow.next Flow.bind Pick.next SepF SepP
  number_entry_chs number_entry_e number_entry_dot set_solve_integ view draw_number
  number_entry_bsp number_entry_digit store_entered_value keydown_number_entry command_entry_st
  command_entry_ckey command_entry_mkey show_briefly command_entry_catalog_item
  command_entry_catalog command_entry_varmenu command_entry_integ_params print_num_command
  command_entry_goto_column command_entry_goto_row restore_argument_menu numeric_argument_menu
  command_entry_numeric_enter command_entry_numeric_dot command_entry_numeric_digit
  command_entry_numeric_bsp command_entry_numeric command_entry_handle_char out_of_alpha
  back_to_gtodot catalog_if_exist alpha_bsp_empty_in_alpha_menu alpha_bsp_empty alpha_bsp_last
  command_entry_alpha_bsp command_entry_alpha_complete command_entry_alpha_enter
  command_entry_alpha_dot command_entry_alpha_nochar command_entry_alpha command_entry_rest
  keydown_command_entry alpha_insert_char alpha_handle_char delete_current_line end_alpha_entry
  alpha_mode_bsp alpha_mode_enter open_base_menu alpha_mode_shifted alpha_mode_command
  alpha_mode_nochar keydown_alpha_mode start_number_entry lift_stack normal_mode_number_key
  send_it_off store_menu_variable normal_mode_varmenu_key normal_mode_varmenu custom_builtin
  normal_mode_custom close_catalog normal_mode_catalog_top normal_mode_catalog_ext1
  normal_mode_catalog_pgm normal_mode_catalog_pgm_for normal_mode_catalog_fcn
  normal_mode_catalog_var normal_mode_catalog normal_mode_integ_params normal_mode_menu_item
  normal_mode_menu_exit normal_mode_menu_updown normal_mode_menu normal_mode_unshifted
  normal_mode_shifted normal_mode_plain normal_mode_prgm_bsp keydown_normal_mode keydown_dispatch
  store_number_line keydown_getkey keydown_prgm_toggle end_number_entry keydown_leave_number_entry
  keydown_navigation keydown_main keydown

theorem so_set_solve_integ (E : Engine) (solve : Bool) (st : St) (hE : ∀ c s, separators_ok s → separators_ok (E.run c s))
    (hb : Sep st) :
    Sep (set_solve_integ E solve st) := by
  unfold set_solve_integ
  repeat' first
    | (refine so_next _ _ ?_ ?_)
    | (refine so_bind _ _ ?_ ?_)
    | (refine so_pick _ _ ?_ ?_)
    | (refine pred_ite (fun r : St => Sep r) ?_ ?_ <;> intro _)
    | (refine pred_ite (fun r : Flow => SepF r) ?_ ?_ <;> intro _)
    | (refine pred_ite (fun r : Pick => SepP r) ?_ ?_ <;> intro _)
    | (refine pred_elim (fun r : St => Sep r) ?_ ?_ <;> intros)
    | (refine pred_elim (fun r : Flow => SepF r) ?_ ?_ <;> intros)
    | (intro _)
    | assumption
    | (refine so_ret ?_)
    | (refine so_go ?_)
    | (refine so_pret ?_)
    | (refine so_pcmd ?_)
    | (refine so_if_menu _ _ _ ?_ ?_)
    | (refine so_set_repeating _ _ _ ?_)
    | (refine so_repeat_shifted _ _ ?_)
    | (refine so_call E hE _ _ ?_)
    | (refine so_mark _ _ ?_)
    | (refine so_set_pending _ _ ?_)
    | (refine so_upd_arg _ _ ?_)
    | (refine so_set_arg_str _ _ _ ?_)
    | (refine so_upd _ _ rfl ?_)
    | (refine so_upd_dec _ _ rfl ?_)
    | (refine so_upd_short _ _ rfl)
    | (refine so_upd_terminator _ ?_)
    | (refine so_upd_if _ _ _ (fun _ => rfl) ?_)
    | (refine so_incomplete_append _ _ ?_)
    | (refine so_upd_pc_to_new_line E _ ?_)
    | fail

theorem so_view (E : Engine) (varname : List Nat) (varlength : Int) (st : St) (hE : ∀ c s, separators_ok s → separators_ok (E.run c s))
    (hb : Sep st) :
    Sep (view E varname varlength st) := by
  unfold view
  repeat' first
    | (refine so_next _ _ ?_ ?_)
    | (refine so_bind _ _ ?_ ?_)
    | (refine so_pick _ _ ?_ ?_)
    | (refine pred_ite (fun r : St => Sep r) ?_ ?_ <;> intro _)
    | (refine pred_ite (fun r : Flow => SepF r) ?_ ?_ <;> intro _)
    | (refine pred_ite (fun r : Pick => SepP r) ?_ ?_ <;> intro _)
    | (refine pred_elim (fun r : St => Sep r) ?_ ?_ <;> intros)
    | (refine pred_elim (fun r : Flow => SepF r) ?_ ?_ <;> intros)
    | (intro _)
    | assumption
    | (refine so_ret ?_)
    | (refine so_go ?_)
    | (refine so_pret ?_)
    | (refine so_pcmd ?_)
    | (refine so_if_menu _ _ _ ?_ ?_)
    | (refine so_set_repeating _ _ _ ?_)
    | (refine so_repeat_shifted _ _ ?_)
    | (refine so_call E hE _ _ ?_)
    | (refine so_mark _ _ ?_)
    | (refine so_set_pending _ _ ?_)
    | (refine so_upd_arg _ _ ?_)
    | (refine so_set_arg_str _ _ _ ?_)
    | (refine so_upd _ _ rfl ?_)
    | (refine so_upd_dec _ _ rfl ?_)
    | (refine so_upd_short _ _ rfl)
    | (refine so_upd_terminator _ ?_)
    | (refine so_upd_if _ _ _ (fun _ => rfl) ?_)
    | (refine so_incomplete_append _ _ ?_)
    | (refine so_upd_pc_to_new_line E _ ?_)
    | fail

theorem so_draw_number (E : Engine) (st : St) (hE : ∀ c s, separators_ok s → separators_ok (E.run c s))
    (hb : Sep st) :
    Sep (draw_number E st) := by
  unfold draw_number
  repeat' first
    | (refine so_next _ _ ?_ ?_)
    | (refine so_bind _ _ ?_ ?_)
    | (refine so_pick _ _ ?_ ?_)
    | (refine pred_ite (fun r : St => Sep r) ?_ ?_ <;> intro _)
    | (refine pred_ite (fun r : Flow => SepF r) ?_ ?_ <;> intro _)
    | (refine pred_ite (fun r : Pick => SepP r) ?_ ?_ <;> intro _)
    | (refine pred_elim (fun r : St => Sep r) ?_ ?_ <;> intros)
    | (refine pred_elim (fun r : Flow => SepF r) ?_ ?_ <;> intros)
    | (intro _)
    | assumption
    | (refine so_ret ?_)
    | (refine so_go ?_)
    | (refine so_pret ?_)
    | (refine so_pcmd ?_)
    | (refine so_if_menu _ _ _ ?_ ?_)
    | (refine so_set_repeating _ _ _ ?_)
    | (refine so_repeat_shifted _ _ ?_)
    | (refine so_call E hE _ _ ?_)
    | (refine so_mark _ _ ?_)
    | (refine so_set_pending _ _ ?_)
    | (refine so_upd_arg _ _ ?_)
    | (refine so_set_arg_str _ _ _ ?_)
    | (refine so_upd _ _ rfl ?_)
    | (refine so_upd_dec _ _ rfl ?_)
    | (refine so_upd_short _ _ rfl)
    | (refine so_upd_terminator _ ?_)
    | (refine so_upd_if _ _ _ (fun _ => rfl) ?_)
    | (refine so_incomplete_append _ _ ?_)
    | (refine so_upd_pc_to_new_line E _ ?_)
    | fail

theorem so_number_entry_bsp (E : Engine) (shift key base : Int) (st : St) (hE : ∀ c s, separators_ok s → separators_ok (E.run c s))
    (hb : Sep st) :
    Sep (number_entry_bsp E shift key base st) := by
  unfold number_entry_bsp
  repeat' first
    | (refine so_next _ _ ?_ ?_)
    | (refine so_bind _ _ ?_ ?_)
    | (refine so_pick _ _ ?_ ?_)
    | (refine pred_ite (fun r : St => Sep r) ?_ ?_ <;> intro _)
    | (refine pred_ite (fun r : Flow => SepF r) ?_ ?_ <;> intro _)
    | (refine pred_ite (fun r : Pick => SepP r) ?_ ?_ <;> intro _)
    | (refine pred_elim (fun r : St => Sep r) ?_ ?_ <;> intros)
    | (refine pred_elim (fun r : Flow => SepF r) ?_ ?_ <;> intros)
    | (intro _)
    | assumption
    | (refine so_ret ?_)
    | (refine so_go ?_)
    | (refine so_pret ?_)
    | (refine so_pcmd ?_)
    | (refine so_if_menu _ _ _ ?_ ?_)
    | (refine so_set_repeating _ _ _ ?_)
    | (refine so_repeat_shifted _ _ ?_)
    | (refine so_call E hE _ _ ?_)
    | (refine so_mark _ _ ?_)
    | (refine so_set_pending _ _ ?_)
    | (refine so_upd_arg _ _ ?_)
    | (refine so_set_arg_str _ _ _ ?_)
    | (refine so_upd _ _ rfl ?_)
    | (refine so_upd_dec _ _ rfl ?_)
    | (refine so_upd_short _ _ rfl)
    | (refine so_upd_terminator _ ?_)
    | (refine so_upd_if _ _ _ (fun _ => rfl) ?_)
    | (refine so_incomplete_append _ _ ?_)
    | (refine so_upd_pc_to_new_line E _ ?_)
    | fail

theorem so_number_entry_digit (E : Engine) (shift key base : Int) (st : St) (hE : ∀ c s, separators_ok s → separators_ok (E.run c s))
    (hb : Sep st) :
    SepF (number_entry_digit E shift key base st) := by
  unfold number_entry_digit
  repeat' first
    | (refine so_next _ _ ?_ ?_)
    | (refine so_bind _ _ ?_ ?_)
    | (refine so_pick _ _ ?_ ?_)
    | (refine pred_ite (fun r : St => Sep r) ?_ ?_ <;> intro _)
    | (refine pred_ite (fun r : Flow => SepF r) ?_ ?_ <;> intro _)
    | (refine pred_ite (fun r : Pick => SepP r) ?_ ?_ <;> intro _)
    | (refine pred_elim (fun r : St => Sep r) ?_ ?_ <;> intros)
    | (refine pred_elim (fun r : Flow => SepF r) ?_ ?_ <;> intros)
    | (intro _)
    | assumption
    | (refine so_ret ?_)
    | (refine so_go ?_)
    | (refine so_pret ?_)
    | (refine so_pcmd ?_)
    | (refine so_append_digit _ _ _ (by assumption) ?_)
    | (refine so_if_menu _ _ _ ?_ ?_)
    | (refine so_set_repeating _ _ _ ?_)
    | (refine so_repeat_shifted _ _ ?_)
    | (refine so_call E hE _ _ ?_)
    | (refine so_mark _ _ ?_)
    | (refine so_set_pending _ _ ?_)
    | (refine so_upd_arg _ _ ?_)
    | (refine so_set_arg_str _ _ _ ?_)
    | (refine so_upd _ _ rfl ?_)
    | (refine so_upd_dec _ _ rfl ?_)
    | (refine so_upd_short _ _ rfl)
    | (refine so_upd_terminator _ ?_)
    | (refine so_upd_if _ _ _ (fun _ => rfl) ?_)
    | (refine so_incomplete_append _ _ ?_)
    | (refine so_upd_pc_to_new_line E _ ?_)
    | fail

theorem so_store_entered_value (E : Engine) (base : Int) (st : St) (hE : ∀ c s, separators_ok s → separators_ok (E.run c s))
    (hb : Sep st) :
    Sep (store_entered_value E base st) := by
  unfold store_entered_value
  repeat' first
    | (refine so_next _ _ ?_ ?_)
    | (refine so_bind _ _ ?_ ?_)
    | (refine so_pick _ _ ?_ ?_)
    | (refine pred_ite (fun r : St => Sep r) ?_ ?_ <;> intro _)
    | (refine pred_ite (fun r : Flow => SepF r) ?_ ?_ <;> intro _)
    | (refine pred_ite (fun r : Pick => SepP r) ?_ ?_ <;> intro _)
    | (refine pred_elim (fun r : St => Sep r) ?_ ?_ <;> intros)
    | (refine pred_elim (fun r : Flow => SepF r) ?_ ?_ <;> intros)
    | (intro _)
    | assumption
    | (refine so_ret ?_)
    | (refine so_go ?_)
    | (refine so_pret ?_)
    | (refine so_pcmd ?_)
    | (refine so_if_menu _ _ _ ?_ ?_)
    | (refine so_set_repeating _ _ _ ?_)
    | (refine so_repeat_shifted _ _ ?_)
    | (refine so_call E hE _ _ ?_)
    | (refine so_mark _ _ ?_)
    | (refine so_set_pending _ _ ?_)
    | (refine so_upd_arg _ _ ?_)
    | (refine so_set_arg_str _ _ _ ?_)
    | (refine so_upd _ _ rfl ?_)
    | (refine so_upd_dec _ _ rfl ?_)
    | (refine so_upd_short _ _ rfl)
    | (refine so_upd_terminator _ ?_)
    | (refine so_upd_if _ _ _ (fun _ => rfl) ?_)
    | (refine so_incomplete_append _ _ ?_)
    | (refine so_upd_pc_to_new_line E _ ?_)
    | fail

theorem so_keydown_number_entry (E : Engine) (shift key : Int) (st : St) (hE : ∀ c s, separators_ok s → separators_ok (E.run c s))
    (hb : Sep st) :
    Sep (keydown_number_entry E shift key st) := by
  unfold keydown_number_entry
  repeat' first
    | (refine so_next _ _ ?_ ?_)
    | (refine so_bind _ _ ?_ ?_)
    | (refine so_pick _ _ ?_ ?_)
    | (refine so_pc_to_previous_line E _ ?_)
    | (refine so_number_entry_chs E hE _ ?_)
    | (refine so_number_entry_e _ ?_)
    | (refine so_number_entry_dot _ ?_)
    | (refine so_draw_number E _ hE ?_)
    | (refine so_number_entry_bsp E _ _ _ _ hE ?_)
    | (refine so_number_entry_digit E _ _ _ _ hE ?_)
    | (refine so_store_entered_value E _ _ hE ?_)
    | (refine pred_ite (fun r : St => Sep r) ?_ ?_ <;> intro _)
    | (refine pred_ite (fun r : Flow => SepF r) ?_ ?_ <;> intro _)
    | (refine pred_ite (fun r : Pick => SepP r) ?_ ?_ <;> intro _)
    | (refine pred_elim (fun r : St => Sep r) ?_ ?_ <;> intros)
    | (refine pred_elim (fun r : Flow => SepF r) ?_ ?_ <;> intros)
    | (intro _)
    | assumption
    | (refine so_ret ?_)
    | (refine so_go ?_)
    | (refine so_pret ?_)
    | (refine so_pcmd ?_)
    | (refine so_if_menu _ _ _ ?_ ?_)
    | (refine so_set_repeating _ _ _ ?_)
    | (refine so_repeat_shifted _ _ ?_)
    | (refine so_call E hE _ _ ?_)
    | (refine so_mark _ _ ?_)
    | (refine so_set_pending _ _ ?_)
    | (refine so_upd_arg _ _ ?_)
    | (refine so_set_arg_str _ _ _ ?_)
    | (refine so_upd _ _ rfl ?_)
    | (refine so_upd_dec _ _ rfl ?_)
    | (refine so_upd_short _ _ rfl)
    | (refine so_upd_terminator _ ?_)
    | (refine so_upd_if _ _ _ (fun _ => rfl) ?_)
    | (refine so_incomplete_append _ _ ?_)
    | (refine so_upd_pc_to_new_line E _ ?_)
    | fail

theorem so_command_entry_st (E : Engine) (shift key : Int) (st : St) (hE : ∀ c s, separators_ok s → separators_ok (E.run c s))
    (hb : Sep st) :
    Sep (command_entry_st E shift key st) := by
  unfold command_entry_st
  repeat' first
    | (refine so_next _ _ ?_ ?_)
    | (refine so_bind _ _ ?_ ?_)
    | (refine so_pick _ _ ?_ ?_)
    | (refine pred_ite (fun r : St => Sep r) ?_ ?_ <;> intro _)
    | (refine pred_ite (fun r : Flow => SepF r) ?_ ?_ <;> intro _)
    | (refine pred_ite (fun r : Pick => SepP r) ?_ ?_ <;> intro _)
    | (refine pred_elim (fun r : St => Sep r) ?_ ?_ <;> intros)
    | (refine pred_elim (fun r : Flow => SepF r) ?_ ?_ <;> intros)
    | (intro _)
    | assumption
    | (refine so_ret ?_)
    | (refine so_go ?_)
    | (refine so_pret ?_)
    | (refine so_pcmd ?_)
    | (refine so_if_menu _ _ _ ?_ ?_)
    | (refine so_set_repeating _ _ _ ?_)
    | (refine so_repeat_shifted _ _ ?_)
    | (refine so_call E hE _ _ ?_)
    | (refine so_mark _ _ ?_)
    | (refine so_set_pending _ _ ?_)
    | (refine so_upd_arg _ _ ?_)
    | (refine so_set_arg_str _ _ _ ?_)
    | (refine so_upd _ _ rfl ?_)
    | (refine so_upd_dec _ _ rfl ?_)
    | (refine so_upd_short _ _ rfl)
    | (refine so_upd_terminator _ ?_)
    | (refine so_upd_if _ _ _ (fun _ => rfl) ?_)
    | (refine so_incomplete_append _ _ ?_)
    | (refine so_upd_pc_to_new_line E _ ?_)
    | fail

theorem so_command_entry_ckey (E : Engine) (shift key : Int) (st : St) (hE : ∀ c s, separators_ok s → separators_ok (E.run c s))
    (hb : Sep st) :
    Sep (command_entry_ckey E shift key st) := by
  unfold command_entry_ckey
  repeat' first
    | (refine so_next _ _ ?_ ?_)
    | (refine so_bind _ _ ?_ ?_)
    | (refine so_pick _ _ ?_ ?_)
    | (refine pred_ite (fun r : St => Sep r) ?_ ?_ <;> intro _)
    | (refine pred_ite (fun r : Flow => SepF r) ?_ ?_ <;> intro _)
    | (refine pred_ite (fun r : Pick => SepP r) ?_ ?_ <;> intro _)
    | (refine pred_elim (fun r : St => Sep r) ?_ ?_ <;> intros)
    | (refine pred_elim (fun r : Flow => SepF r) ?_ ?_ <;> intros)
    | (intro _)
    | assumption
    | (refine so_ret ?_)
    | (refine so_go ?_)
    | (refine so_pret ?_)
    | (refine so_pcmd ?_)
    | (refine so_if_menu _ _ _ ?_ ?_)
    | (refine so_set_repeating _ _ _ ?_)
    | (refine so_repeat_shifted _ _ ?_)
    | (refine so_call E hE _ _ ?_)
    | (refine so_mark _ _ ?_)
    | (refine so_set_pending _ _ ?_)
    | (refine so_upd_arg _ _ ?_)
    | (refine so_set_arg_str _ _ _ ?_)
    | (refine so_upd _ _ rfl ?_)
    | (refine so_upd_dec _ _ rfl ?_)
    | (refine so_upd_short _ _ rfl)
    | (refine so_upd_terminator _ ?_)
    | (refine so_upd_if _ _ _ (fun _ => rfl) ?_)
    | (refine so_incomplete_append _ _ ?_)
    | (refine so_upd_pc_to_new_line E _ ?_)
    | fail

theorem so_command_entry_mkey (E : Engine) (shift key : Int) (st : St) (hE : ∀ c s, separators_ok s → separators_ok (E.run c s))
    (hb : Sep st) :
    Sep (command_entry_mkey E shift key st) := by
  unfold command_entry_mkey
  repeat' first
    | (refine so_next _ _ ?_ ?_)
    | (refine so_bind _ _ ?_ ?_)
    | (refine so_pick _ _ ?_ ?_)
    | (refine pred_ite (fun r : St => Sep r) ?_ ?_ <;> intro _)
    | (refine pred_ite (fun r : Flow => SepF r) ?_ ?_ <;> intro _)
    | (refine pred_ite (fun r : Pick => SepP r) ?_ ?_ <;> intro _)
    | (refine pred_elim (fun r : St => Sep r) ?_ ?_ <;> intros)
    | (refine pred_elim (fun r : Flow => SepF r) ?_ ?_ <;> intros)
    | (intro _)
    | assumption
    | (refine so_ret ?_)
    | (refine so_go ?_)
    | (refine so_pret ?_)
    | (refine so_pcmd ?_)
    | (refine so_if_menu _ _ _ ?_ ?_)
    | (refine so_set_repeating _ _ _ ?_)
    | (refine so_repeat_shifted _ _ ?_)
    | (refine so_call E hE _ _ ?_)
    | (refine so_mark _ _ ?_)
    | (refine so_set_pending _ _ ?_)
    | (refine so_upd_arg _ _ ?_)
    | (refine so_set_arg_str _ _ _ ?_)
    | (refine so_upd _ _ rfl ?_)
    | (refine so_upd_dec _ _ rfl ?_)
    | (refine so_upd_short _ _ rfl)
    | (refine so_upd_terminator _ ?_)
    | (refine so_upd_if _ _ _ (fun _ => rfl) ?_)
    | (refine so_incomplete_append _ _ ?_)
    | (refine so_upd_pc_to_new_line E _ ?_)
    | fail

theorem so_show_briefly (E : Engine) (st : St) (hE : ∀ c s, separators_ok s → separators_ok (E.run c s))
    (hb : Sep st) :
    Sep (show_briefly E st) := by
  unfold show_briefly
  repeat' first
    | (refine so_next _ _ ?_ ?_)
    | (refine so_bind _ _ ?_ ?_)
    | (refine so_pick _ _ ?_ ?_)
    | (refine pred_ite (fun r : St => Sep r) ?_ ?_ <;> intro _)
    | (refine pred_ite (fun r : Flow => SepF r) ?_ ?_ <;> intro _)
    | (refine pred_ite (fun r : Pick => SepP r) ?_ ?_ <;> intro _)
    | (refine pred_elim (fun r : St => Sep r) ?_ ?_ <;> intros)
    | (refine pred_elim (fun r : Flow => SepF r) ?_ ?_ <;> intros)
    | (intro _)
    | assumption
    | (refine so_ret ?_)
    | (refine so_go ?_)
    | (refine so_pret ?_)
    | (refine so_pcmd ?_)
    | (refine so_if_menu _ _ _ ?_ ?_)
    | (refine so_set_repeating _ _ _ ?_)
    | (refine so_repeat_shifted _ _ ?_)
    | (refine so_call E hE _ _ ?_)
    | (refine so_mark _ _ ?_)
    | (refine so_set_pending _ _ ?_)
    | (refine so_upd_arg _ _ ?_)
    | (refine so_set_arg_str _ _ _ ?_)
    | (refine so_upd _ _ rfl ?_)
    | (refine so_upd_dec _ _ rfl ?_)
    | (refine so_upd_short _ _ rfl)
    | (refine so_upd_terminator _ ?_)
    | (refine so_upd_if _ _ _ (fun _ => rfl) ?_)
    | (refine so_incomplete_append _ _ ?_)
    | (refine so_upd_pc_to_new_line E _ ?_)
    | fail

theorem so_command_entry_catalog_item (E : Engine) (menukey catsect : Int) (st : St) (hE : ∀ c s, separators_ok s → separators_ok (E.run c s))
    (hb : Sep st) :
    Sep (command_entry_catalog_item E menukey catsect st) := by
  unfold command_entry_catalog_item
  repeat' first
    | (refine so_next _ _ ?_ ?_)
    | (refine so_bind _ _ ?_ ?_)
    | (refine so_pick _ _ ?_ ?_)
    | (refine so_show_briefly E _ hE ?_)
    | (refine pred_ite (fun r : St => Sep r) ?_ ?_ <;> intro _)
    | (refine pred_ite (fun r : Flow => SepF r) ?_ ?_ <;> intro _)
    | (refine pred_ite (fun r : Pick => SepP r) ?_ ?_ <;> intro _)
    | (refine pred_elim (fun r : St => Sep r) ?_ ?_ <;> intros)
    | (refine pred_elim (fun r : Flow => SepF r) ?_ ?_ <;> intros)
    | (intro _)
    | assumption
    | (refine so_ret ?_)
    | (refine so_go ?_)
    | (refine so_pret ?_)
    | (refine so_pcmd ?_)
    | (refine so_if_menu _ _ _ ?_ ?_)
    | (refine so_set_repeating _ _ _ ?_)
    | (refine so_repeat_shifted _ _ ?_)
    | (refine so_call E hE _ _ ?_)
    | (refine so_mark _ _ ?_)
    | (refine so_set_pending _ _ ?_)
    | (refine so_upd_arg _ _ ?_)
    | (refine so_set_arg_str _ _ _ ?_)
    | (refine so_upd _ _ rfl ?_)
    | (refine so_upd_dec _ _ rfl ?_)
    | (refine so_upd_short _ _ rfl)
    | (refine so_upd_terminator _ ?_)
    | (refine so_upd_if _ _ _ (fun _ => rfl) ?_)
    | (refine so_incomplete_append _ _ ?_)
    | (refine so_upd_pc_to_new_line E _ ?_)
    | fail

theorem so_command_entry_catalog (E : Engine) (shift key : Int) (st : St) (hE : ∀ c s, separators_ok s → separators_ok (E.run c s))
    (hb : Sep st) :
    SepF (command_entry_catalog E shift key st) := by
  unfold command_entry_catalog
  repeat' first
    | (refine so_next _ _ ?_ ?_)
    | (refine so_bind _ _ ?_ ?_)
    | (refine so_pick _ _ ?_ ?_)
    | (refine so_command_entry_catalog_item E _ _ _ hE ?_)
    | (refine pred_ite (fun r : St => Sep r) ?_ ?_ <;> intro _)
    | (refine pred_ite (fun r : Flow => SepF r) ?_ ?_ <;> intro _)
    | (refine pred_ite (fun r : Pick => SepP r) ?_ ?_ <;> intro _)
    | (refine pred_elim (fun r : St => Sep r) ?_ ?_ <;> intros)
    | (refine pred_elim (fun r : Flow => SepF r) ?_ ?_ <;> intros)
    | (intro _)
    | assumption
    | (refine so_ret ?_)
    | (refine so_go ?_)
    | (refine so_pret ?_)
    | (refine so_pcmd ?_)
    | (refine so_if_menu _ _ _ ?_ ?_)
    | (refine so_set_repeating _ _ _ ?_)
    | (refine so_repeat_shifted _ _ ?_)
    | (refine so_call E hE _ _ ?_)
    | (refine so_mark _ _ ?_)
    | (refine so_set_pending _ _ ?_)
    | (refine so_upd_arg _ _ ?_)
    | (refine so_set_arg_str _ _ _ ?_)
    | (refine so_upd _ _ rfl ?_)
    | (refine so_upd_dec _ _ rfl ?_)
    | (refine so_upd_short _ _ rfl)
    | (refine so_upd_terminator _ ?_)
    | (refine so_upd_if _ _ _ (fun _ => rfl) ?_)
    | (refine so_incomplete_append _ _ ?_)
    | (refine so_upd_pc_to_new_line E _ ?_)
    | fail

theorem so_command_entry_varmenu (E : Engine) (shift key : Int) (st : St) (hE : ∀ c s, separators_ok s → separators_ok (E.run c s))
    (hb : Sep st) :
    SepF (command_entry_varmenu E shift key st) := by
  unfold command_entry_varmenu
  repeat' first
    | (refine so_next _ _ ?_ ?_)
    | (refine so_bind _ _ ?_ ?_)
    | (refine so_pick _ _ ?_ ?_)
    | (refine pred_ite (fun r : St => Sep r) ?_ ?_ <;> intro _)
    | (refine pred_ite (fun r : Flow => SepF r) ?_ ?_ <;> intro _)
    | (refine pred_ite (fun r : Pick => SepP r) ?_ ?_ <;> intro _)
    | (refine pred_elim (fun r : St => Sep r) ?_ ?_ <;> intros)
    | (refine pred_elim (fun r : Flow => SepF r) ?_ ?_ <;> intros)
    | (intro _)
    | assumption
    | (refine so_ret ?_)
    | (refine so_go ?_)
    | (refine so_pret ?_)
    | (refine so_pcmd ?_)
    | (refine so_if_menu _ _ _ ?_ ?_)
    | (refine so_set_repeating _ _ _ ?_)
    | (refine so_repeat_shifted _ _ ?_)
    | (refine so_call E hE _ _ ?_)
    | (refine so_mark _ _ ?_)
    | (refine so_set_pending _ _ ?_)
    | (refine so_upd_arg _ _ ?_)
    | (refine so_set_arg_str _ _ _ ?_)
    | (refine so_upd _ _ rfl ?_)
    | (refine so_upd_dec _ _ rfl ?_)
    | (refine so_upd_short _ _ rfl)
    | (refine so_upd_terminator _ ?_)
    | (refine so_upd_if _ _ _ (fun _ => rfl) ?_)
    | (refine so_incomplete_append _ _ ?_)
    | (refine so_upd_pc_to_new_line E _ ?_)
    | fail

theorem so_command_entry_integ_params (E : Engine) (key : Int) (st : St) (hE : ∀ c s, separators_ok s → separators_ok (E.run c s))
    (hb : Sep st) :
    SepF (command_entry_integ_params E key st) := by
  unfold command_entry_integ_params
  repeat' first
    | (refine so_next _ _ ?_ ?_)
    | (refine so_bind _ _ ?_ ?_)
    | (refine so_pick _ _ ?_ ?_)
    | (refine pred_ite (fun r : St => Sep r) ?_ ?_ <;> intro _)
    | (refine pred_ite (fun r : Flow => SepF r) ?_ ?_ <;> intro _)
    | (refine pred_ite (fun r : Pick => SepP r) ?_ ?_ <;> intro _)
    | (refine pred_elim (fun r : St => Sep r) ?_ ?_ <;> intros)
    | (refine pred_elim (fun r : Flow => SepF r) ?_ ?_ <;> intros)
    | (intro _)
    | assumption
    | (refine so_ret ?_)
    | (refine so_go ?_)
    | (refine so_pret ?_)
    | (refine so_pcmd ?_)
    | (refine so_if_menu _ _ _ ?_ ?_)
    | (refine so_set_repeating _ _ _ ?_)
    | (refine so_repeat_shifted _ _ ?_)
    | (refine so_call E hE _ _ ?_)
    | (refine so_mark _ _ ?_)
    | (refine so_set_pending _ _ ?_)
    | (refine so_upd_arg _ _ ?_)
    | (refine so_set_arg_str _ _ _ ?_)
    | (refine so_upd _ _ rfl ?_)
    | (refine so_upd_dec _ _ rfl ?_)
    | (refine so_upd_short _ _ rfl)
    | (refine so_upd_terminator _ ?_)
    | (refine so_upd_if _ _ _ (fun _ => rfl) ?_)
    | (refine so_incomplete_append _ _ ?_)
    | (refine so_upd_pc_to_new_line E _ ?_)
    | fail

theorem so_print_num_command (E : Engine) (cmd : Int) (st : St) (hE : ∀ c s, separators_ok s → separators_ok (E.run c s))
    (hb : Sep st) :
    Sep (print_num_command E cmd st) := by
  unfold print_num_command
  repeat' first
    | (refine so_next _ _ ?_ ?_)
    | (refine so_bind _ _ ?_ ?_)
    | (refine so_pick _ _ ?_ ?_)
    | (refine pred_ite (fun r : St => Sep r) ?_ ?_ <;> intro _)
    | (refine pred_ite (fun r : Flow => SepF r) ?_ ?_ <;> intro _)
    | (refine pred_ite (fun r : Pick => SepP r) ?_ ?_ <;> intro _)
    | (refine pred_elim (fun r : St => Sep r) ?_ ?_ <;> intros)
    | (refine pred_elim (fun r : Flow => SepF r) ?_ ?_ <;> intros)
    | (intro _)
    | assumption
    | (refine so_ret ?_)
    | (refine so_go ?_)
    | (refine so_pret ?_)
    | (refine so_pcmd ?_)
    | (refine so_if_menu _ _ _ ?_ ?_)
    | (refine so_set_repeating _ _ _ ?_)
    | (refine so_repeat_shifted _ _ ?_)
    | (refine so_call E hE _ _ ?_)
    | (refine so_mark _ _ ?_)
    | (refine so_set_pending _ _ ?_)
    | (refine so_upd_arg _ _ ?_)
    | (refine so_set_arg_str _ _ _ ?_)
    | (refine so_upd _ _ rfl ?_)
    | (refine so_upd_dec _ _ rfl ?_)
    | (refine so_upd_short _ _ rfl)
    | (refine so_upd_terminator _ ?_)
    | (refine so_upd_if _ _ _ (fun _ => rfl) ?_)
    | (refine so_incomplete_append _ _ ?_)
    | (refine so_upd_pc_to_new_line E _ ?_)
    | fail

theorem so_command_entry_goto_column (E : Engine) (st : St) (hE : ∀ c s, separators_ok s → separators_ok (E.run c s))
    (hb : Sep st) :
    Sep (command_entry_goto_column E st) := by
  unfold command_entry_goto_column
  repeat' first
    | (refine so_next _ _ ?_ ?_)
    | (refine so_bind _ _ ?_ ?_)
    | (refine so_pick _ _ ?_ ?_)
    | (refine so_print_num_command E _ _ hE ?_)
    | (refine pred_ite (fun r : St => Sep r) ?_ ?_ <;> intro _)
    | (refine pred_ite (fun r : Flow => SepF r) ?_ ?_ <;> intro _)
    | (refine pred_ite (fun r : Pick => SepP r) ?_ ?_ <;> intro _)
    | (refine pred_elim (fun r : St => Sep r) ?_ ?_ <;> intros)
    | (refine pred_elim (fun r : Flow => SepF r) ?_ ?_ <;> intros)
    | (intro _)
    | assumption
    | (refine so_ret ?_)
    | (refine so_go ?_)
    | (refine so_pret ?_)
    | (refine so_pcmd ?_)
    | (refine so_if_menu _ _ _ ?_ ?_)
    | (refine so_set_repeating _ _ _ ?_)
    | (refine so_repeat_shifted _ _ ?_)
    | (refine so_call E hE _ _ ?_)
    | (refine so_mark _ _ ?_)
    | (refine so_set_pending _ _ ?_)
    | (refine so_upd_arg _ _ ?_)
    | (refine so_set_arg_str _ _ _ ?_)
    | (refine so_upd _ _ rfl ?_)
    | (refine so_upd_dec _ _ rfl ?_)
    | (refine so_upd_short _ _ rfl)
    | (refine so_upd_terminator _ ?_)
    | (refine so_upd_if _ _ _ (fun _ => rfl) ?_)
    | (refine so_incomplete_append _ _ ?_)
    | (refine so_upd_pc_to_new_line E _ ?_)
    | fail

theorem so_command_entry_goto_row (E : Engine) (st : St) (hE : ∀ c s, separators_ok s → separators_ok (E.run c s))
    (hb : Sep st) :
    Sep (command_entry_goto_row E st) := by
  unfold command_entry_goto_row
  repeat' first
    | (refine so_next _ _ ?_ ?_)
    | (refine so_bind _ _ ?_ ?_)
    | (refine so_pick _ _ ?_ ?_)
    | (refine so_print_num_command E _ _ hE ?_)
    | (refine so_command_entry_goto_column E _ hE ?_)
    | (refine pred_ite (fun r : St => Sep r) ?_ ?_ <;> intro _)
    | (refine pred_ite (fun r : Flow => SepF r) ?_ ?_ <;> intro _)
    | (refine pred_ite (fun r : Pick => SepP r) ?_ ?_ <;> intro _)
    | (refine pred_elim (fun r : St => Sep r) ?_ ?_ <;> intros)
    | (refine pred_elim (fun r : Flow => SepF r) ?_ ?_ <;> intros)
    | (intro _)
    | assumption
    | (refine so_ret ?_)
    | (refine so_go ?_)
    | (refine so_pret ?_)
    | (refine so_pcmd ?_)
    | (refine so_if_menu _ _ _ ?_ ?_)
    | (refine so_set_repeating _ _ _ ?_)
    | (refine so_repeat_shifted _ _ ?_)
    | (refine so_call E hE _ _ ?_)
    | (refine so_mark _ _ ?_)
    | (refine so_set_pending _ _ ?_)
    | (refine so_upd_arg _ _ ?_)
    | (refine so_set_arg_str _ _ _ ?_)
    | (refine so_upd _ _ rfl ?_)
    | (refine so_upd_dec _ _ rfl ?_)
    | (refine so_upd_short _ _ rfl)
    | (refine so_upd_terminator _ ?_)
    | (refine so_upd_if _ _ _ (fun _ => rfl) ?_)
    | (refine so_incomplete_append _ _ ?_)
    | (refine so_upd_pc_to_new_line E _ ?_)
    | fail

theorem so_restore_argument_menu (E : Engine) (last : Bool) (st : St) (hE : ∀ c s, separators_ok s → separators_ok (E.run c s))
    (hb : Sep st) :
    Sep (restore_argument_menu E last st) := by
  unfold restore_argument_menu
  repeat' first
    | (refine so_next _ _ ?_ ?_)
    | (refine so_bind _ _ ?_ ?_)
    | (refine so_pick _ _ ?_ ?_)
    | (refine pred_ite (fun r : St => Sep r) ?_ ?_ <;> intro _)
    | (refine pred_ite (fun r : Flow => SepF r) ?_ ?_ <;> intro _)
    | (refine pred_ite (fun r : Pick => SepP r) ?_ ?_ <;> intro _)
    | (refine pred_elim (fun r : St => Sep r) ?_ ?_ <;> intros)
    | (refine pred_elim (fun r : Flow => SepF r) ?_ ?_ <;> intros)
    | (intro _)
    | assumption
    | (refine so_ret ?_)
    | (refine so_go ?_)
    | (refine so_pret ?_)
    | (refine so_pcmd ?_)
    | (refine so_if_menu _ _ _ ?_ ?_)
    | (refine so_set_repeating _ _ _ ?_)
    | (refine so_repeat_shifted _ _ ?_)
    | (refine so_call E hE _ _ ?_)
    | (refine so_mark _ _ ?_)
    | (refine so_set_pending _ _ ?_)
    | (refine so_upd_arg _ _ ?_)
    | (refine so_set_arg_str _ _ _ ?_)
    | (refine so_upd _ _ rfl ?_)
    | (refine so_upd_dec _ _ rfl ?_)
    | (refine so_upd_short _ _ rfl)
    | (refine so_upd_terminator _ ?_)
    | (refine so_upd_if _ _ _ (fun _ => rfl) ?_)
    | (refine so_incomplete_append _ _ ?_)
    | (refine so_upd_pc_to_new_line E _ ?_)
    | fail

theorem so_numeric_argument_menu (E : Engine) (st : St) (hE : ∀ c s, separators_ok s → separators_ok (E.run c s))
    (hb : Sep st) :
    Sep (numeric_argument_menu E st) := by
  unfold numeric_argument_menu
  repeat' first
    | (refine so_next _ _ ?_ ?_)
    | (refine so_bind _ _ ?_ ?_)
    | (refine so_pick _ _ ?_ ?_)
    | (refine so_restore_argument_menu E _ _ hE ?_)
    | (refine pred_ite (fun r : St => Sep r) ?_ ?_ <;> intro _)
    | (refine pred_ite (fun r : Flow => SepF r) ?_ ?_ <;> intro _)
    | (refine pred_ite (fun r : Pick => SepP r) ?_ ?_ <;> intro _)
    | (refine pred_elim (fun r : St => Sep r) ?_ ?_ <;> intros)
    | (refine pred_elim (fun r : Flow => SepF r) ?_ ?_ <;> intros)
    | (intro _)
    | assumption
    | (refine so_ret ?_)
    | (refine so_go ?_)
    | (refine so_pret ?_)
    | (refine so_pcmd ?_)
    | (refine so_if_menu _ _ _ ?_ ?_)
    | (refine so_set_repeating _ _ _ ?_)
    | (refine so_repeat_shifted _ _ ?_)
    | (refine so_call E hE _ _ ?_)
    | (refine so_mark _ _ ?_)
    | (refine so_set_pending _ _ ?_)
    | (refine so_upd_arg _ _ ?_)
    | (refine so_set_arg_str _ _ _ ?_)
    | (refine so_upd _ _ rfl ?_)
    | (refine so_upd_dec _ _ rfl ?_)
    | (refine so_upd_short _ _ rfl)
    | (refine so_upd_terminator _ ?_)
    | (refine so_upd_if _ _ _ (fun _ => rfl) ?_)
    | (refine so_incomplete_append _ _ ?_)
    | (refine so_upd_pc_to_new_line E _ ?_)
    | fail

theorem so_command_entry_numeric_enter (E : Engine) (shift : Int) (st : St) (hE : ∀ c s, separators_ok s → separators_ok (E.run c s))
    (hb : Sep st) :
    SepF (command_entry_numeric_enter E shift st) := by
  unfold command_entry_numeric_enter
  repeat' first
    | (refine so_next _ _ ?_ ?_)
    | (refine so_bind _ _ ?_ ?_)
    | (refine so_pick _ _ ?_ ?_)
    | (refine so_command_entry_goto_column E _ hE ?_)
    | (refine so_command_entry_goto_row E _ hE ?_)
    | (refine pred_ite (fun r : St => Sep r) ?_ ?_ <;> intro _)
    | (refine pred_ite (fun r : Flow => SepF r) ?_ ?_ <;> intro _)
    | (refine pred_ite (fun r : Pick => SepP r) ?_ ?_ <;> intro _)
    | (refine pred_elim (fun r : St => Sep r) ?_ ?_ <;> intros)
    | (refine pred_elim (fun r : Flow => SepF r) ?_ ?_ <;> intros)
    | (intro _)
    | assumption
    | (refine so_ret ?_)
    | (refine so_go ?_)
    | (refine so_pret ?_)
    | (refine so_pcmd ?_)
    | (refine so_if_menu _ _ _ ?_ ?_)
    | (refine so_set_repeating _ _ _ ?_)
    | (refine so_repeat_shifted _ _ ?_)
    | (refine so_call E hE _ _ ?_)
    | (refine so_mark _ _ ?_)
    | (refine so_set_pending _ _ ?_)
    | (refine so_upd_arg _ _ ?_)
    | (refine so_set_arg_str _ _ _ ?_)
    | (refine so_upd _ _ rfl ?_)
    | (refine so_upd_dec _ _ rfl ?_)
    | (refine so_upd_short _ _ rfl)
    | (refine so_upd_terminator _ ?_)
    | (refine so_upd_if _ _ _ (fun _ => rfl) ?_)
    | (refine so_incomplete_append _ _ ?_)
    | (refine so_upd_pc_to_new_line E _ ?_)
    | fail

theorem so_command_entry_numeric_dot (E : Engine) (st : St) (hE : ∀ c s, separators_ok s → separators_ok (E.run c s))
    (hb : Sep st) :
    Sep (command_entry_numeric_dot E st) := by
  unfold command_entry_numeric_dot
  repeat' first
    | (refine so_next _ _ ?_ ?_)
    | (refine so_bind _ _ ?_ ?_)
    | (refine so_pick _ _ ?_ ?_)
    | (refine pred_ite (fun r : St => Sep r) ?_ ?_ <;> intro _)
    | (refine pred_ite (fun r : Flow => SepF r) ?_ ?_ <;> intro _)
    | (refine pred_ite (fun r : Pick => SepP r) ?_ ?_ <;> intro _)
    | (refine pred_elim (fun r : St => Sep r) ?_ ?_ <;> intros)
    | (refine pred_elim (fun r : Flow => SepF r) ?_ ?_ <;> intros)
    | (intro _)
    | assumption
    | (refine so_ret ?_)
    | (refine so_go ?_)
    | (refine so_pret ?_)
    | (refine so_pcmd ?_)
    | (refine so_if_menu _ _ _ ?_ ?_)
    | (refine so_set_repeating _ _ _ ?_)
    | (refine so_repeat_shifted _ _ ?_)
    | (refine so_call E hE _ _ ?_)
    | (refine so_mark _ _ ?_)
    | (refine so_set_pending _ _ ?_)
    | (refine so_upd_arg _ _ ?_)
    | (refine so_set_arg_str _ _ _ ?_)
    | (refine so_upd _ _ rfl ?_)
    | (refine so_upd_dec _ _ rfl ?_)
    | (refine so_upd_short _ _ rfl)
    | (refine so_upd_terminator _ ?_)
    | (refine so_upd_if _ _ _ (fun _ => rfl) ?_)
    | (refine so_incomplete_append _ _ ?_)
    | (refine so_upd_pc_to_new_line E _ ?_)
    | fail

theorem so_command_entry_numeric_digit (E : Engine) (key : Int) (st : St) (hE : ∀ c s, separators_ok s → separators_ok (E.run c s))
    (hb : Sep st) :
    Sep (command_entry_numeric_digit E key st) := by
  unfold command_entry_numeric_digit
  repeat' first
    | (refine so_next _ _ ?_ ?_)
    | (refine so_bind _ _ ?_ ?_)
    | (refine so_pick _ _ ?_ ?_)
    | (refine so_command_entry_goto_column E _ hE ?_)
    | (refine so_command_entry_goto_row E _ hE ?_)
    | (refine pred_ite (fun r : St => Sep r) ?_ ?_ <;> intro _)
    | (refine pred_ite (fun r : Flow => SepF r) ?_ ?_ <;> intro _)
    | (refine pred_ite (fun r : Pick => SepP r) ?_ ?_ <;> intro _)
    | (refine pred_elim (fun r : St => Sep r) ?_ ?_ <;> intros)
    | (refine pred_elim (fun r : Flow => SepF r) ?_ ?_ <;> intros)
    | (intro _)
    | assumption
    | (refine so_ret ?_)
    | (refine so_go ?_)
    | (refine so_pret ?_)
    | (refine so_pcmd ?_)
    | (refine so_if_menu _ _ _ ?_ ?_)
    | (refine so_set_repeating _ _ _ ?_)
    | (refine so_repeat_shifted _ _ ?_)
    | (refine so_call E hE _ _ ?_)
    | (refine so_mark _ _ ?_)
    | (refine so_set_pending _ _ ?_)
    | (refine so_upd_arg _ _ ?_)
    | (refine so_set_arg_str _ _ _ ?_)
    | (refine so_upd _ _ rfl ?_)
    | (refine so_upd_dec _ _ rfl ?_)
    | (refine so_upd_short _ _ rfl)
    | (refine so_upd_terminator _ ?_)
    | (refine so_upd_if _ _ _ (fun _ => rfl) ?_)
    | (refine so_incomplete_append _ _ ?_)
    | (refine so_upd_pc_to_new_line E _ ?_)
    | fail

theorem so_command_entry_numeric_bsp (E : Engine) (st : St) (hE : ∀ c s, separators_ok s → separators_ok (E.run c s))
    (hb : Sep st) :
    Sep (command_entry_numeric_bsp E st) := by
  unfold command_entry_numeric_bsp
  repeat' first
    | (refine so_next _ _ ?_ ?_)
    | (refine so_bind _ _ ?_ ?_)
    | (refine so_pick _ _ ?_ ?_)
    | (refine so_numeric_argument_menu E _ hE ?_)
    | (refine pred_ite (fun r : St => Sep r) ?_ ?_ <;> intro _)
    | (refine pred_ite (fun r : Flow => SepF r) ?_ ?_ <;> intro _)
    | (refine pred_ite (fun r : Pick => SepP r) ?_ ?_ <;> intro _)
    | (refine pred_elim (fun r : St => Sep r) ?_ ?_ <;> intros)
    | (refine pred_elim (fun r : Flow => SepF r) ?_ ?_ <;> intros)
    | (intro _)
    | assumption
    | (refine so_ret ?_)
    | (refine so_go ?_)
    | (refine so_pret ?_)
    | (refine so_pcmd ?_)
    | (refine so_if_menu _ _ _ ?_ ?_)
    | (refine so_set_repeating _ _ _ ?_)
    | (refine so_repeat_shifted _ _ ?_)
    | (refine so_call E hE _ _ ?_)
    | (refine so_mark _ _ ?_)
    | (refine so_set_pending _ _ ?_)
    | (refine so_upd_arg _ _ ?_)
    | (refine so_set_arg_str _ _ _ ?_)
    | (refine so_upd _ _ rfl ?_)
    | (refine so_upd_dec _ _ rfl ?_)
    | (refine so_upd_short _ _ rfl)
    | (refine so_upd_terminator _ ?_)
    | (refine so_upd_if _ _ _ (fun _ => rfl) ?_)
    | (refine so_incomplete_append _ _ ?_)
    | (refine so_upd_pc_to_new_line E _ ?_)
    | fail

theorem so_command_entry_numeric (E : Engine) (shift key : Int) (st : St) (hE : ∀ c s, separators_ok s → separators_ok (E.run c s))
    (hb : Sep st) :
    Sep (command_entry_numeric E shift key st) := by
  unfold command_entry_numeric
  repeat' first
    | (refine so_next _ _ ?_ ?_)
    | (refine so_bind _ _ ?_ ?_)
    | (refine so_pick _ _ ?_ ?_)
    | (refine so_command_entry_numeric_enter E _ _ hE ?_)
    | (refine so_command_entry_numeric_dot E _ hE ?_)
    | (refine so_command_entry_numeric_digit E _ _ hE ?_)
    | (refine so_command_entry_numeric_bsp E _ hE ?_)
    | (refine pred_ite (fun r : St => Sep r) ?_ ?_ <;> intro _)
    | (refine pred_ite (fun r : Flow => SepF r) ?_ ?_ <;> intro _)
    | (refine pred_ite (fun r : Pick => SepP r) ?_ ?_ <;> intro _)
    | (refine pred_elim (fun r : St => Sep r) ?_ ?_ <;> intros)
    | (refine pred_elim (fun r : Flow => SepF r) ?_ ?_ <;> intros)
    | (intro _)
    | assumption
    | (refine so_ret ?_)
    | (refine so_go ?_)
    | (refine so_pret ?_)
    | (refine so_pcmd ?_)
    | (refine so_if_menu _ _ _ ?_ ?_)
    | (refine so_set_repeating _ _ _ ?_)
    | (refine so_repeat_shifted _ _ ?_)
    | (refine so_call E hE _ _ ?_)
    | (refine so_mark _ _ ?_)
    | (refine so_set_pending _ _ ?_)
    | (refine so_upd_arg _ _ ?_)
    | (refine so_set_arg_str _ _ _ ?_)
    | (refine so_upd _ _ rfl ?_)
    | (refine so_upd_dec _ _ rfl ?_)
    | (refine so_upd_short _ _ rfl)
    | (refine so_upd_terminator _ ?_)
    | (refine so_upd_if _ _ _ (fun _ => rfl) ?_)
    | (refine so_incomplete_append _ _ ?_)
    | (refine so_upd_pc_to_new_line E _ ?_)
    | fail

theorem so_command_entry_handle_char (E : Engine) (c : Nat) (m : Option menu_spec) (st : St) (hE : ∀ c s, separators_ok s → separators_ok (E.run c s))
    (hb : Sep st) :
    Sep (command_entry_handle_char E c m st) := by
  unfold command_entry_handle_char
  repeat' first
    | (refine so_next _ _ ?_ ?_)
    | (refine so_bind _ _ ?_ ?_)
    | (refine so_pick _ _ ?_ ?_)
    | (refine pred_ite (fun r : St => Sep r) ?_ ?_ <;> intro _)
    | (refine pred_ite (fun r : Flow => SepF r) ?_ ?_ <;> intro _)
    | (refine pred_ite (fun r : Pick => SepP r) ?_ ?_ <;> intro _)
    | (refine pred_elim (fun r : St => Sep r) ?_ ?_ <;> intros)
    | (refine pred_elim (fun r : Flow => SepF r) ?_ ?_ <;> intros)
    | (intro _)
    | assumption
    | (refine so_ret ?_)
    | (refine so_go ?_)
    | (refine so_pret ?_)
    | (refine so_pcmd ?_)
    | (refine so_if_menu _ _ _ ?_ ?_)
    | (refine so_set_repeating _ _ _ ?_)
    | (refine so_repeat_shifted _ _ ?_)
    | (refine so_call E hE _ _ ?_)
    | (refine so_mark _ _ ?_)
    | (refine so_set_pending _ _ ?_)
    | (refine so_upd_arg _ _ ?_)
    | (refine so_set_arg_str _ _ _ ?_)
    | (refine so_upd _ _ rfl ?_)
    | (refine so_upd_dec _ _ rfl ?_)
    | (refine so_upd_short _ _ rfl)
    | (refine so_upd_terminator _ ?_)
    | (refine so_upd_if _ _ _ (fun _ => rfl) ?_)
    | (refine so_incomplete_append _ _ ?_)
    | (refine so_upd_pc_to_new_line E _ ?_)
    | fail

theorem so_out_of_alpha (E : Engine) (st : St) (hE : ∀ c s, separators_ok s → separators_ok (E.run c s))
    (hb : Sep st) :
    Sep (out_of_alpha E st) := by
  unfold out_of_alpha
  repeat' first
    | (refine so_next _ _ ?_ ?_)
    | (refine so_bind _ _ ?_ ?_)
    | (refine so_pick _ _ ?_ ?_)
    | (refine so_restore_argument_menu E _ _ hE ?_)
    | (refine pred_ite (fun r : St => Sep r) ?_ ?_ <;> intro _)
    | (refine pred_ite (fun r : Flow => SepF r) ?_ ?_ <;> intro _)
    | (refine pred_ite (fun r : Pick => SepP r) ?_ ?_ <;> intro _)
    | (refine pred_elim (fun r : St => Sep r) ?_ ?_ <;> intros)
    | (refine pred_elim (fun r : Flow => SepF r) ?_ ?_ <;> intros)
    | (intro _)
    | assumption
    | (refine so_ret ?_)
    | (refine so_go ?_)
    | (refine so_pret ?_)
    | (refine so_pcmd ?_)
    | (refine so_if_menu _ _ _ ?_ ?_)
    | (refine so_set_repeating _ _ _ ?_)
    | (refine so_repeat_shifted _ _ ?_)
    | (refine so_call E hE _ _ ?_)
    | (refine so_mark _ _ ?_)
    | (refine so_set_pending _ _ ?_)
    | (refine so_upd_arg _ _ ?_)
    | (refine so_set_arg_str _ _ _ ?_)
    | (refine so_upd _ _ rfl ?_)
    | (refine so_upd_dec _ _ rfl ?_)
    | (refine so_upd_short _ _ rfl)
    | (refine so_upd_terminator _ ?_)
    | (refine so_upd_if _ _ _ (fun _ => rfl) ?_)
    | (refine so_incomplete_append _ _ ?_)
    | (refine so_upd_pc_to_new_line E _ ?_)
    | fail

theorem so_back_to_gtodot (E : Engine) (st : St) (hE : ∀ c s, separators_ok s → separators_ok (E.run c s))
    (hb : Sep st) :
    Sep (back_to_gtodot E st) := by
  unfold back_to_gtodot
  repeat' first
    | (refine so_next _ _ ?_ ?_)
    | (refine so_bind _ _ ?_ ?_)
    | (refine so_pick _ _ ?_ ?_)
    | (refine pred_ite (fun r : St => Sep r) ?_ ?_ <;> intro _)
    | (refine pred_ite (fun r : Flow => SepF r) ?_ ?_ <;> intro _)
    | (refine pred_ite (fun r : Pick => SepP r) ?_ ?_ <;> intro _)
    | (refine pred_elim (fun r : St => Sep r) ?_ ?_ <;> intros)
    | (refine pred_elim (fun r : Flow => SepF r) ?_ ?_ <;> intros)
    | (intro _)
    | assumption
    | (refine so_ret ?_)
    | (refine so_go ?_)
    | (refine so_pret ?_)
    | (refine so_pcmd ?_)
    | (refine so_if_menu _ _ _ ?_ ?_)
    | (refine so_set_repeating _ _ _ ?_)
    | (refine so_repeat_shifted _ _ ?_)
    | (refine so_call E hE _ _ ?_)
    | (refine so_mark _ _ ?_)
    | (refine so_set_pending _ _ ?_)
    | (refine so_upd_arg _ _ ?_)
    | (refine so_set_arg_str _ _ _ ?_)
    | (refine so_upd _ _ rfl ?_)
    | (refine so_upd_dec _ _ rfl ?_)
    | (refine so_upd_short _ _ rfl)
    | (refine so_upd_terminator _ ?_)
    | (refine so_upd_if _ _ _ (fun _ => rfl) ?_)
    | (refine so_incomplete_append _ _ ?_)
    | (refine so_upd_pc_to_new_line E _ ?_)
    | fail

theorem so_catalog_if_exist (E : Engine) (kind sect : Int) (clear : Bool) (st : St) (hE : ∀ c s, separators_ok s → separators_ok (E.run c s))
    (hb : Sep st) :
    Sep (catalog_if_exist E kind sect clear st) := by
  unfold catalog_if_exist
  repeat' first
    | (refine so_next _ _ ?_ ?_)
    | (refine so_bind _ _ ?_ ?_)
    | (refine so_pick _ _ ?_ ?_)
    | (refine pred_ite (fun r : St => Sep r) ?_ ?_ <;> intro _)
    | (refine pred_ite (fun r : Flow => SepF r) ?_ ?_ <;> intro _)
    | (refine pred_ite (fun r : Pick => SepP r) ?_ ?_ <;> intro _)
    | (refine pred_elim (fun r : St => Sep r) ?_ ?_ <;> intros)
    | (refine pred_elim (fun r : Flow => SepF r) ?_ ?_ <;> intros)
    | (intro _)
    | assumption
    | (refine so_ret ?_)
    | (refine so_go ?_)
    | (refine so_pret ?_)
    | (refine so_pcmd ?_)
    | (refine so_if_menu _ _ _ ?_ ?_)
    | (refine so_set_repeating _ _ _ ?_)
    | (refine so_repeat_shifted _ _ ?_)
    | (refine so_call E hE _ _ ?_)
    | (refine so_mark _ _ ?_)
    | (refine so_set_pending _ _ ?_)
    | (refine so_upd_arg _ _ ?_)
    | (refine so_set_arg_str _ _ _ ?_)
    | (refine so_upd _ _ rfl ?_)
    | (refine so_upd_dec _ _ rfl ?_)
    | (refine so_upd_short _ _ rfl)
    | (refine so_upd_terminator _ ?_)
    | (refine so_upd_if _ _ _ (fun _ => rfl) ?_)
    | (refine so_incomplete_append _ _ ?_)
    | (refine so_upd_pc_to_new_line E _ ?_)
    | fail

theorem so_alpha_bsp_empty_in_alpha_menu (E : Engine) (st : St) (hE : ∀ c s, separators_ok s → separators_ok (E.run c s))
    (hb : Sep st) :
    Sep (alpha_bsp_empty_in_alpha_menu E st) := by
  unfold alpha_bsp_empty_in_alpha_menu
  repeat' first
    | (refine so_next _ _ ?_ ?_)
    | (refine so_bind _ _ ?_ ?_)
    | (refine so_pick _ _ ?_ ?_)
    | (refine so_out_of_alpha E _ hE ?_)
    | (refine so_back_to_gtodot E _ hE ?_)
    | (refine so_catalog_if_exist E _ _ _ _ hE ?_)
    | (refine pred_ite (fun r : St => Sep r) ?_ ?_ <;> intro _)
    | (refine pred_ite (fun r : Flow => SepF r) ?_ ?_ <;> intro _)
    | (refine pred_ite (fun r : Pick => SepP r) ?_ ?_ <;> intro _)
    | (refine pred_elim (fun r : St => Sep r) ?_ ?_ <;> intros)
    | (refine pred_elim (fun r : Flow => SepF r) ?_ ?_ <;> intros)
    | (intro _)
    | assumption
    | (refine so_ret ?_)
    | (refine so_go ?_)
    | (refine so_pret ?_)
    | (refine so_pcmd ?_)
    | (refine so_if_menu _ _ _ ?_ ?_)
    | (refine so_set_repeating _ _ _ ?_)
    | (refine so_repeat_shifted _ _ ?_)
    | (refine so_call E hE _ _ ?_)
    | (refine so_mark _ _ ?_)
    | (refine so_set_pending _ _ ?_)
    | (refine so_upd_arg _ _ ?_)
    | (refine so_set_arg_str _ _ _ ?_)
    | (refine so_upd _ _ rfl ?_)
    | (refine so_upd_dec _ _ rfl ?_)
    | (refine so_upd_short _ _ rfl)
    | (refine so_upd_terminator _ ?_)
    | (refine so_upd_if _ _ _ (fun _ => rfl) ?_)
    | (refine so_incomplete_append _ _ ?_)
    | (refine so_upd_pc_to_new_line E _ ?_)
    | fail

theorem so_alpha_bsp_empty (E : Engine) (st : St) (hE : ∀ c s, separators_ok s → separators_ok (E.run c s))
    (hb : Sep st) :
    Sep (alpha_bsp_empty E st) := by
  unfold alpha_bsp_empty
  repeat' first
    | (refine so_next _ _ ?_ ?_)
    | (refine so_bind _ _ ?_ ?_)
    | (refine so_pick _ _ ?_ ?_)
    | (refine so_alpha_bsp_empty_in_alpha_menu E _ hE ?_)
    | (refine pred_ite (fun r : St => Sep r) ?_ ?_ <;> intro _)
    | (refine pred_ite (fun r : Flow => SepF r) ?_ ?_ <;> intro _)
    | (refine pred_ite (fun r : Pick => SepP r) ?_ ?_ <;> intro _)
    | (refine pred_elim (fun r : St => Sep r) ?_ ?_ <;> intros)
    | (refine pred_elim (fun r : Flow => SepF r) ?_ ?_ <;> intros)
    | (intro _)
    | assumption
    | (refine so_ret ?_)
    | (refine so_go ?_)
    | (refine so_pret ?_)
    | (refine so_pcmd ?_)
    | (refine so_if_menu _ _ _ ?_ ?_)
    | (refine so_set_repeating _ _ _ ?_)
    | (refine so_repeat_shifted _ _ ?_)
    | (refine so_call E hE _ _ ?_)
    | (refine so_mark _ _ ?_)
    | (refine so_set_pending _ _ ?_)
    | (refine so_upd_arg _ _ ?_)
    | (refine so_set_arg_str _ _ _ ?_)
    | (refine so_upd _ _ rfl ?_)
    | (refine so_upd_dec _ _ rfl ?_)
    | (refine so_upd_short _ _ rfl)
    | (refine so_upd_terminator _ ?_)
    | (refine so_upd_if _ _ _ (fun _ => rfl) ?_)
    | (refine so_incomplete_append _ _ ?_)
    | (refine so_upd_pc_to_new_line E _ ?_)
    | fail

theorem so_alpha_bsp_last (E : Engine) (st : St) (hE : ∀ c s, separators_ok s → separators_ok (E.run c s))
    (hb : Sep st) :
    Sep (alpha_bsp_last E st) := by
  unfold alpha_bsp_last
  repeat' first
    | (refine so_next _ _ ?_ ?_)
    | (refine so_bind _ _ ?_ ?_)
    | (refine so_pick _ _ ?_ ?_)
    | (refine so_out_of_alpha E _ hE ?_)
    | (refine so_back_to_gtodot E _ hE ?_)
    | (refine so_catalog_if_exist E _ _ _ _ hE ?_)
    | (refine pred_ite (fun r : St => Sep r) ?_ ?_ <;> intro _)
    | (refine pred_ite (fun r : Flow => SepF r) ?_ ?_ <;> intro _)
    | (refine pred_ite (fun r : Pick => SepP r) ?_ ?_ <;> intro _)
    | (refine pred_elim (fun r : St => Sep r) ?_ ?_ <;> intros)
    | (refine pred_elim (fun r : Flow => SepF r) ?_ ?_ <;> intros)
    | (intro _)
    | assumption
    | (refine so_ret ?_)
    | (refine so_go ?_)
    | (refine so_pret ?_)
    | (refine so_pcmd ?_)
    | (refine so_if_menu _ _ _ ?_ ?_)
    | (refine so_set_repeating _ _ _ ?_)
    | (refine so_repeat_shifted _ _ ?_)
    | (refine so_call E hE _ _ ?_)
    | (refine so_mark _ _ ?_)
    | (refine so_set_pending _ _ ?_)
    | (refine so_upd_arg _ _ ?_)
    | (refine so_set_arg_str _ _ _ ?_)
    | (refine so_upd _ _ rfl ?_)
    | (refine so_upd_dec _ _ rfl ?_)
    | (refine so_upd_short _ _ rfl)
    | (refine so_upd_terminator _ ?_)
    | (refine so_upd_if _ _ _ (fun _ => rfl) ?_)
    | (refine so_incomplete_append _ _ ?_)
    | (refine so_upd_pc_to_new_line E _ ?_)
    | fail

theorem so_command_entry_alpha_bsp (E : Engine) (st : St) (hE : ∀ c s, separators_ok s → separators_ok (E.run c s))
    (hb : Sep st) :
    Sep (command_entry_alpha_bsp E st) := by
  unfold command_entry_alpha_bsp
  repeat' first
    | (refine so_next _ _ ?_ ?_)
    | (refine so_bind _ _ ?_ ?_)
    | (refine so_pick _ _ ?_ ?_)
    | (refine so_alpha_bsp_empty E _ hE ?_)
    | (refine so_alpha_bsp_last E _ hE ?_)
    | (refine pred_ite (fun r : St => Sep r) ?_ ?_ <;> intro _)
    | (refine pred_ite (fun r : Flow => SepF r) ?_ ?_ <;> intro _)
    | (refine pred_ite (fun r : Pick => SepP r) ?_ ?_ <;> intro _)
    | (refine pred_elim (fun r : St => Sep r) ?_ ?_ <;> intros)
    | (refine pred_elim (fun r : Flow => SepF r) ?_ ?_ <;> intros)
    | (intro _)
    | assumption
    | (refine so_ret ?_)
    | (refine so_go ?_)
    | (refine so_pret ?_)
    | (refine so_pcmd ?_)
    | (refine so_if_menu _ _ _ ?_ ?_)
    | (refine so_set_repeating _ _ _ ?_)
    | (refine so_repeat_shifted _ _ ?_)
    | (refine so_call E hE _ _ ?_)
    | (refine so_mark _ _ ?_)
    | (refine so_set_pending _ _ ?_)
    | (refine so_upd_arg _ _ ?_)
    | (refine so_set_arg_str _ _ _ ?_)
    | (refine so_upd _ _ rfl ?_)
    | (refine so_upd_dec _ _ rfl ?_)
    | (refine so_upd_short _ _ rfl)
    | (refine so_upd_terminator _ ?_)
    | (refine so_upd_if _ _ _ (fun _ => rfl) ?_)
    | (refine so_incomplete_append _ _ ?_)
    | (refine so_upd_pc_to_new_line E _ ?_)
    | fail

theorem so_command_entry_alpha_complete (E : Engine) (st : St) (hE : ∀ c s, separators_ok s → separators_ok (E.run c s))
    (hb : Sep st) :
    Sep (command_entry_alpha_complete E st) := by
  unfold command_entry_alpha_complete
  repeat' first
    | (refine so_next _ _ ?_ ?_)
    | (refine so_bind _ _ ?_ ?_)
    | (refine so_pick _ _ ?_ ?_)
    | (refine so_show_briefly E _ hE ?_)
    | (refine pred_ite (fun r : St => Sep r) ?_ ?_ <;> intro _)
    | (refine pred_ite (fun r : Flow => SepF r) ?_ ?_ <;> intro _)
    | (refine pred_ite (fun r : Pick => SepP r) ?_ ?_ <;> intro _)
    | (refine pred_elim (fun r : St => Sep r) ?_ ?_ <;> intros)
    | (refine pred_elim (fun r : Flow => SepF r) ?_ ?_ <;> intros)
    | (intro _)
    | assumption
    | (refine so_ret ?_)
    | (refine so_go ?_)
    | (refine so_pret ?_)
    | (refine so_pcmd ?_)
    | (refine so_if_menu _ _ _ ?_ ?_)
    | (refine so_set_repeating _ _ _ ?_)
    | (refine so_repeat_shifted _ _ ?_)
    | (refine so_call E hE _ _ ?_)
    | (refine so_mark _ _ ?_)
    | (refine so_set_pending _ _ ?_)
    | (refine so_upd_arg _ _ ?_)
    | (refine so_set_arg_str _ _ _ ?_)
    | (refine so_upd _ _ rfl ?_)
    | (refine so_upd_dec _ _ rfl ?_)
    | (refine so_upd_short _ _ rfl)
    | (refine so_upd_terminator _ ?_)
    | (refine so_upd_if _ _ _ (fun _ => rfl) ?_)
    | (refine so_incomplete_append _ _ ?_)
    | (refine so_upd_pc_to_new_line E _ ?_)
    | fail

theorem so_command_entry_alpha_enter (E : Engine) (st : St) (hE : ∀ c s, separators_ok s → separators_ok (E.run c s))
    (hb : Sep st) :
    Sep (command_entry_alpha_enter E st) := by
  unfold command_entry_alpha_enter
  repeat' first
    | (refine so_next _ _ ?_ ?_)
    | (refine so_bind _ _ ?_ ?_)
    | (refine so_pick _ _ ?_ ?_)
    | (refine so_command_entry_alpha_complete E _ hE ?_)
    | (refine pred_ite (fun r : St => Sep r) ?_ ?_ <;> intro _)
    | (refine pred_ite (fun r : Flow => SepF r) ?_ ?_ <;> intro _)
    | (refine pred_ite (fun r : Pick => SepP r) ?_ ?_ <;> intro _)
    | (refine pred_elim (fun r : St => Sep r) ?_ ?_ <;> intros)
    | (refine pred_elim (fun r : Flow => SepF r) ?_ ?_ <;> intros)
    | (intro _)
    | assumption
    | (refine so_ret ?_)
    | (refine so_go ?_)
    | (refine so_pret ?_)
    | (refine so_pcmd ?_)
    | (refine so_if_menu _ _ _ ?_ ?_)
    | (refine so_set_repeating _ _ _ ?_)
    | (refine so_repeat_shifted _ _ ?_)
    | (refine so_call E hE _ _ ?_)
    | (refine so_mark _ _ ?_)
    | (refine so_set_pending _ _ ?_)
    | (refine so_upd_arg _ _ ?_)
    | (refine so_set_arg_str _ _ _ ?_)
    | (refine so_upd _ _ rfl ?_)
    | (refine so_upd_dec _ _ rfl ?_)
    | (refine so_upd_short _ _ rfl)
    | (refine so_upd_terminator _ ?_)
    | (refine so_upd_if _ _ _ (fun _ => rfl) ?_)
    | (refine so_incomplete_append _ _ ?_)
    | (refine so_upd_pc_to_new_line E _ ?_)
    | fail

theorem so_command_entry_alpha_dot (E : Engine) (shift key : Int) (st : St) (hE : ∀ c s, separators_ok s → separators_ok (E.run c s))
    (hb : Sep st) :
    SepF (command_entry_alpha_dot E shift key st) := by
  unfold command_entry_alpha_dot
  repeat' first
    | (refine so_next _ _ ?_ ?_)
    | (refine so_bind _ _ ?_ ?_)
    | (refine so_pick _ _ ?_ ?_)
    | (refine pred_ite (fun r : St => Sep r) ?_ ?_ <;> intro _)
    | (refine pred_ite (fun r : Flow => SepF r) ?_ ?_ <;> intro _)
    | (refine pred_ite (fun r : Pick => SepP r) ?_ ?_ <;> intro _)
    | (refine pred_elim (fun r : St => Sep r) ?_ ?_ <;> intros)
    | (refine pred_elim (fun r : Flow => SepF r) ?_ ?_ <;> intros)
    | (intro _)
    | assumption
    | (refine so_ret ?_)
    | (refine so_go ?_)
    | (refine so_pret ?_)
    | (refine so_pcmd ?_)
    | (refine so_if_menu _ _ _ ?_ ?_)
    | (refine so_set_repeating _ _ _ ?_)
    | (refine so_repeat_shifted _ _ ?_)
    | (refine so_call E hE _ _ ?_)
    | (refine so_mark _ _ ?_)
    | (refine so_set_pending _ _ ?_)
    | (refine so_upd_arg _ _ ?_)
    | (refine so_set_arg_str _ _ _ ?_)
    | (refine so_upd _ _ rfl ?_)
    | (refine so_upd_dec _ _ rfl ?_)
    | (refine so_upd_short _ _ rfl)
    | (refine so_upd_terminator _ ?_)
    | (refine so_upd_if _ _ _ (fun _ => rfl) ?_)
    | (refine so_incomplete_append _ _ ?_)
    | (refine so_upd_pc_to_new_line E _ ?_)
    | fail

theorem so_command_entry_alpha_nochar (E : Engine) (shift key : Int) (st : St) (hE : ∀ c s, separators_ok s → separators_ok (E.run c s))
    (hb : Sep st) :
    Sep (command_entry_alpha_nochar E shift key st) := by
  unfold command_entry_alpha_nochar
  repeat' first
    | (refine so_next _ _ ?_ ?_)
    | (refine so_bind _ _ ?_ ?_)
    | (refine so_pick _ _ ?_ ?_)
    | (refine so_command_entry_alpha_bsp E _ hE ?_)
    | (refine so_command_entry_alpha_enter E _ hE ?_)
    | (refine pred_ite (fun r : St => Sep r) ?_ ?_ <;> intro _)
    | (refine pred_ite (fun r : Flow => SepF r) ?_ ?_ <;> intro _)
    | (refine pred_ite (fun r : Pick => SepP r) ?_ ?_ <;> intro _)
    | (refine pred_elim (fun r : St => Sep r) ?_ ?_ <;> intros)
    | (refine pred_elim (fun r : Flow => SepF r) ?_ ?_ <;> intros)
    | (intro _)
    | assumption
    | (refine so_ret ?_)
    | (refine so_go ?_)
    | (refine so_pret ?_)
    | (refine so_pcmd ?_)
    | (refine so_if_menu _ _ _ ?_ ?_)
    | (refine so_set_repeating _ _ _ ?_)
    | (refine so_repeat_shifted _ _ ?_)
    | (refine so_call E hE _ _ ?_)
    | (refine so_mark _ _ ?_)
    | (refine so_set_pending _ _ ?_)
    | (refine so_upd_arg _ _ ?_)
    | (refine so_set_arg_str _ _ _ ?_)
    | (refine so_upd _ _ rfl ?_)
    | (refine so_upd_dec _ _ rfl ?_)
    | (refine so_upd_short _ _ rfl)
    | (refine so_upd_terminator _ ?_)
    | (refine so_upd_if _ _ _ (fun _ => rfl) ?_)
    | (refine so_incomplete_append _ _ ?_)
    | (refine so_upd_pc_to_new_line E _ ?_)
    | fail

theorem so_command_entry_alpha (E : Engine) (shift key : Int) (st : St) (hE : ∀ c s, separators_ok s → separators_ok (E.run c s))
    (hb : Sep st) :
    Sep (command_entry_alpha E shift key st) := by
  unfold command_entry_alpha
  repeat' first
    | (refine so_next _ _ ?_ ?_)
    | (refine so_bind _ _ ?_ ?_)
    | (refine so_pick _ _ ?_ ?_)
    | (refine so_command_entry_handle_char E _ _ _ hE ?_)
    | (refine so_command_entry_alpha_dot E _ _ _ hE ?_)
    | (refine so_command_entry_alpha_nochar E _ _ _ hE ?_)
    | (refine pred_ite (fun r : St => Sep r) ?_ ?_ <;> intro _)
    | (refine pred_ite (fun r : Flow => SepF r) ?_ ?_ <;> intro _)
    | (refine pred_ite (fun r : Pick => SepP r) ?_ ?_ <;> intro _)
    | (refine pred_elim (fun r : St => Sep r) ?_ ?_ <;> intros)
    | (refine pred_elim (fun r : Flow => SepF r) ?_ ?_ <;> intros)
    | (intro _)
    | assumption
    | (refine so_ret ?_)
    | (refine so_go ?_)
    | (refine so_pret ?_)
    | (refine so_pcmd ?_)
    | (refine so_if_menu _ _ _ ?_ ?_)
    | (refine so_set_repeating _ _ _ ?_)
    | (refine so_repeat_shifted _ _ ?_)
    | (refine so_call E hE _ _ ?_)
    | (refine so_mark _ _ ?_)
    | (refine so_set_pending _ _ ?_)
    | (refine so_upd_arg _ _ ?_)
    | (refine so_set_arg_str _ _ _ ?_)
    | (refine so_upd _ _ rfl ?_)
    | (refine so_upd_dec _ _ rfl ?_)
    | (refine so_upd_short _ _ rfl)
    | (refine so_upd_terminator _ ?_)
    | (refine so_upd_if _ _ _ (fun _ => rfl) ?_)
    | (refine so_incomplete_append _ _ ?_)
    | (refine so_upd_pc_to_new_line E _ ?_)
    | fail

theorem so_command_entry_rest (E : Engine) (shift key : Int) (st : St) (hE : ∀ c s, separators_ok s → separators_ok (E.run c s))
    (hb : Sep st) :
    Sep (command_entry_rest E shift key st) := by
  unfold command_entry_rest
  repeat' first
    | (refine so_next _ _ ?_ ?_)
    | (refine so_bind _ _ ?_ ?_)
    | (refine so_pick _ _ ?_ ?_)
    | (refine so_command_entry_ckey E _ _ _ hE ?_)
    | (refine so_command_entry_mkey E _ _ _ hE ?_)
    | (refine so_command_entry_catalog E _ _ _ hE ?_)
    | (refine so_command_entry_varmenu E _ _ _ hE ?_)
    | (refine so_command_entry_integ_params E _ _ hE ?_)
    | (refine so_command_entry_numeric E _ _ _ hE ?_)
    | (refine so_command_entry_alpha E _ _ _ hE ?_)
    | (refine pred_ite (fun r : St => Sep r) ?_ ?_ <;> intro _)
    | (refine pred_ite (fun r : Flow => SepF r) ?_ ?_ <;> intro _)
    | (refine pred_ite (fun r : Pick => SepP r) ?_ ?_ <;> intro _)
    | (refine pred_elim (fun r : St => Sep r) ?_ ?_ <;> intros)
    | (refine pred_elim (fun r : Flow => SepF r) ?_ ?_ <;> intros)
    | (intro _)
    | assumption
    | (refine so_ret ?_)
    | (refine so_go ?_)
    | (refine so_pret ?_)
    | (refine so_pcmd ?_)
    | (refine so_if_menu _ _ _ ?_ ?_)
    | (refine so_set_repeating _ _ _ ?_)
    | (refine so_repeat_shifted _ _ ?_)
    | (refine so_call E hE _ _ ?_)
    | (refine so_mark _ _ ?_)
    | (refine so_set_pending _ _ ?_)
    | (refine so_upd_arg _ _ ?_)
    | (refine so_set_arg_str _ _ _ ?_)
    | (refine so_upd _ _ rfl ?_)
    | (refine so_upd_dec _ _ rfl ?_)
    | (refine so_upd_short _ _ rfl)
    | (refine so_upd_terminator _ ?_)
    | (refine so_upd_if _ _ _ (fun _ => rfl) ?_)
    | (refine so_incomplete_append _ _ ?_)
    | (refine so_upd_pc_to_new_line E _ ?_)
    | fail

theorem so_keydown_command_entry (E : Engine) (shift key : Int) (st : St) (hE : ∀ c s, separators_ok s → separators_ok (E.run c s))
    (hb : Sep st) :
    Sep (keydown_command_entry E shift key st) := by
  unfold keydown_command_entry
  repeat' first
    | (refine so_next _ _ ?_ ?_)
    | (refine so_bind _ _ ?_ ?_)
    | (refine so_pick _ _ ?_ ?_)
    | (refine so_command_entry_st E _ _ _ hE ?_)
    | (refine so_command_entry_alpha E _ _ _ hE ?_)
    | (refine so_command_entry_rest E _ _ _ hE ?_)
    | (refine pred_ite (fun r : St => Sep r) ?_ ?_ <;> intro _)
    | (refine pred_ite (fun r : Flow => SepF r) ?_ ?_ <;> intro _)
    | (refine pred_ite (fun r : Pick => SepP r) ?_ ?_ <;> intro _)
    | (refine pred_elim (fun r : St => Sep r) ?_ ?_ <;> intros)
    | (refine pred_elim (fun r : Flow => SepF r) ?_ ?_ <;> intros)
    | (intro _)
    | assumption
    | (refine so_ret ?_)
    | (refine so_go ?_)
    | (refine so_pret ?_)
    | (refine so_pcmd ?_)
    | (refine so_if_menu _ _ _ ?_ ?_)
    | (refine so_set_repeating _ _ _ ?_)
    | (refine so_repeat_shifted _ _ ?_)
    | (refine so_call E hE _ _ ?_)
    | (refine so_mark _ _ ?_)
    | (refine so_set_pending _ _ ?_)
    | (refine so_upd_arg _ _ ?_)
    | (refine so_set_arg_str _ _ _ ?_)
    | (refine so_upd _ _ rfl ?_)
    | (refine so_upd_dec _ _ rfl ?_)
    | (refine so_upd_short _ _ rfl)
    | (refine so_upd_terminator _ ?_)
    | (refine so_upd_if _ _ _ (fun _ => rfl) ?_)
    | (refine so_incomplete_append _ _ ?_)
    | (refine so_upd_pc_to_new_line E _ ?_)
    | fail

theorem so_alpha_insert_char (E : Engine) (c : Nat) (st : St) (hE : ∀ c s, separators_ok s → separators_ok (E.run c s))
    (hb : Sep st) :
    SepF (alpha_insert_char E c st) := by
  unfold alpha_insert_char
  repeat' first
    | (refine so_next _ _ ?_ ?_)
    | (refine so_bind _ _ ?_ ?_)
    | (refine so_pick _ _ ?_ ?_)
    | (refine pred_ite (fun r : St => Sep r) ?_ ?_ <;> intro _)
    | (refine pred_ite (fun r : Flow => SepF r) ?_ ?_ <;> intro _)
    | (refine pred_ite (fun r : Pick => SepP r) ?_ ?_ <;> intro _)
    | (refine pred_elim (fun r : St => Sep r) ?_ ?_ <;> intros)
    | (refine pred_elim (fun r : Flow => SepF r) ?_ ?_ <;> intros)
    | (intro _)
    | assumption
    | (refine so_ret ?_)
    | (refine so_go ?_)
    | (refine so_pret ?_)
    | (refine so_pcmd ?_)
    | (refine so_if_menu _ _ _ ?_ ?_)
    | (refine so_set_repeating _ _ _ ?_)
    | (refine so_repeat_shifted _ _ ?_)
    | (refine so_call E hE _ _ ?_)
    | (refine so_mark _ _ ?_)
    | (refine so_set_pending _ _ ?_)
    | (refine so_upd_arg _ _ ?_)
    | (refine so_set_arg_str _ _ _ ?_)
    | (refine so_upd _ _ rfl ?_)
    | (refine so_upd_dec _ _ rfl ?_)
    | (refine so_upd_short _ _ rfl)
    | (refine so_upd_terminator _ ?_)
    | (refine so_upd_if _ _ _ (fun _ => rfl) ?_)
    | (refine so_incomplete_append _ _ ?_)
    | (refine so_upd_pc_to_new_line E _ ?_)
    | fail

theorem so_alpha_handle_char (E : Engine) (c : Nat) (m : Option menu_spec) (st : St) (hE : ∀ c s, separators_ok s → separators_ok (E.run c s))
    (hb : Sep st) :
    Sep (alpha_handle_char E c m st) := by
  unfold alpha_handle_char
  repeat' first
    | (refine so_next _ _ ?_ ?_)
    | (refine so_bind _ _ ?_ ?_)
    | (refine so_pick _ _ ?_ ?_)
    | (refine so_alpha_insert_char E _ _ hE ?_)
    | (refine pred_ite (fun r : St => Sep r) ?_ ?_ <;> intro _)
    | (refine pred_ite (fun r : Flow => SepF r) ?_ ?_ <;> intro _)
    | (refine pred_ite (fun r : Pick => SepP r) ?_ ?_ <;> intro _)
    | (refine pred_elim (fun r : St => Sep r) ?_ ?_ <;> intros)
    | (refine pred_elim (fun r : Flow => SepF r) ?_ ?_ <;> intros)
    | (intro _)
    | assumption
    | (refine so_ret ?_)
    | (refine so_go ?_)
    | (refine so_pret ?_)
    | (refine so_pcmd ?_)
    | (refine so_if_menu _ _ _ ?_ ?_)
    | (refine so_set_repeating _ _ _ ?_)
    | (refine so_repeat_shifted _ _ ?_)
    | (refine so_call E hE _ _ ?_)
    | (refine so_mark _ _ ?_)
    | (refine so_set_pending _ _ ?_)
    | (refine so_upd_arg _ _ ?_)
    | (refine so_set_arg_str _ _ _ ?_)
    | (refine so_upd _ _ rfl ?_)
    | (refine so_upd_dec _ _ rfl ?_)
    | (refine so_upd_short _ _ rfl)
    | (refine so_upd_terminator _ ?_)
    | (refine so_upd_if _ _ _ (fun _ => rfl) ?_)
    | (refine so_incomplete_append _ _ ?_)
    | (refine so_upd_pc_to_new_line E _ ?_)
    | fail

theorem so_delete_current_line (E : Engine) (line : Int) (st : St) (hE : ∀ c s, separators_ok s → separators_ok (E.run c s))
    (hb : Sep st) :
    Sep (delete_current_line E line st) := by
  unfold delete_current_line
  repeat' first
    | (refine so_next _ _ ?_ ?_)
    | (refine so_bind _ _ ?_ ?_)
    | (refine so_pick _ _ ?_ ?_)
    | (refine pred_ite (fun r : St => Sep r) ?_ ?_ <;> intro _)
    | (refine pred_ite (fun r : Flow => SepF r) ?_ ?_ <;> intro _)
    | (refine pred_ite (fun r : Pick => SepP r) ?_ ?_ <;> intro _)
    | (refine pred_elim (fun r : St => Sep r) ?_ ?_ <;> intros)
    | (refine pred_elim (fun r : Flow => SepF r) ?_ ?_ <;> intros)
    | (intro _)
    | assumption
    | (refine so_ret ?_)
    | (refine so_go ?_)
    | (refine so_pret ?_)
    | (refine so_pcmd ?_)
    | (refine so_if_menu _ _ _ ?_ ?_)
    | (refine so_set_repeating _ _ _ ?_)
    | (refine so_repeat_shifted _ _ ?_)
    | (refine so_call E hE _ _ ?_)
    | (refine so_mark _ _ ?_)
    | (refine so_set_pending _ _ ?_)
    | (refine so_upd_arg _ _ ?_)
    | (refine so_set_arg_str _ _ _ ?_)
    | (refine so_upd _ _ rfl ?_)
    | (refine so_upd_dec _ _ rfl ?_)
    | (refine so_upd_short _ _ rfl)
    | (refine so_upd_terminator _ ?_)
    | (refine so_upd_if _ _ _ (fun _ => rfl) ?_)
    | (refine so_incomplete_append _ _ ?_)
    | (refine so_upd_pc_to_new_line E _ ?_)
    | fail

theorem so_end_alpha_entry (E : Engine) (st : St) (hE : ∀ c s, separators_ok s → separators_ok (E.run c s))
    (hb : Sep st) :
    Sep (end_alpha_entry E st) := by
  unfold end_alpha_entry
  repeat' first
    | (refine so_next _ _ ?_ ?_)
    | (refine so_bind _ _ ?_ ?_)
    | (refine so_pick _ _ ?_ ?_)
    | (refine pred_ite (fun r : St => Sep r) ?_ ?_ <;> intro _)
    | (refine pred_ite (fun r : Flow => SepF r) ?_ ?_ <;> intro _)
    | (refine pred_ite (fun r : Pick => SepP r) ?_ ?_ <;> intro _)
    | (refine pred_elim (fun r : St => Sep r) ?_ ?_ <;> intros)
    | (refine pred_elim (fun r : Flow => SepF r) ?_ ?_ <;> intros)
    | (intro _)
    | assumption
    | (refine so_ret ?_)
    | (refine so_go ?_)
    | (refine so_pret ?_)
    | (refine so_pcmd ?_)
    | (refine so_if_menu _ _ _ ?_ ?_)
    | (refine so_set_repeating _ _ _ ?_)
    | (refine so_repeat_shifted _ _ ?_)
    | (refine so_call E hE _ _ ?_)
    | (refine so_mark _ _ ?_)
    | (refine so_set_pending _ _ ?_)
    | (refine so_upd_arg _ _ ?_)
    | (refine so_set_arg_str _ _ _ ?_)
    | (refine so_upd _ _ rfl ?_)
    | (refine so_upd_dec _ _ rfl ?_)
    | (refine so_upd_short _ _ rfl)
    | (refine so_upd_terminator _ ?_)
    | (refine so_upd_if _ _ _ (fun _ => rfl) ?_)
    | (refine so_incomplete_append _ _ ?_)
    | (refine so_upd_pc_to_new_line E _ ?_)
    | fail

theorem so_alpha_mode_bsp (E : Engine) (shift key : Int) (st : St) (hE : ∀ c s, separators_ok s → separators_ok (E.run c s))
    (hb : Sep st) :
    Sep (alpha_mode_bsp E shift key st) := by
  unfold alpha_mode_bsp
  repeat' first
    | (refine so_next _ _ ?_ ?_)
    | (refine so_bind _ _ ?_ ?_)
    | (refine so_pick _ _ ?_ ?_)
    | (refine so_delete_current_line E _ _ hE ?_)
    | (refine pred_ite (fun r : St => Sep r) ?_ ?_ <;> intro _)
    | (refine pred_ite (fun r : Flow => SepF r) ?_ ?_ <;> intro _)
    | (refine pred_ite (fun r : Pick => SepP r) ?_ ?_ <;> intro _)
    | (refine pred_elim (fun r : St => Sep r) ?_ ?_ <;> intros)
    | (refine pred_elim (fun r : Flow => SepF r) ?_ ?_ <;> intros)
    | (intro _)
    | assumption
    | (refine so_ret ?_)
    | (refine so_go ?_)
    | (refine so_pret ?_)
    | (refine so_pcmd ?_)
    | (refine so_if_menu _ _ _ ?_ ?_)
    | (refine so_set_repeating _ _ _ ?_)
    | (refine so_repeat_shifted _ _ ?_)
    | (refine so_call E hE _ _ ?_)
    | (refine so_mark _ _ ?_)
    | (refine so_set_pending _ _ ?_)
    | (refine so_upd_arg _ _ ?_)
    | (refine so_set_arg_str _ _ _ ?_)
    | (refine so_upd _ _ rfl ?_)
    | (refine so_upd_dec _ _ rfl ?_)
    | (refine so_upd_short _ _ rfl)
    | (refine so_upd_terminator _ ?_)
    | (refine so_upd_if _ _ _ (fun _ => rfl) ?_)
    | (refine so_incomplete_append _ _ ?_)
    | (refine so_upd_pc_to_new_line E _ ?_)
    | fail

theorem so_alpha_mode_enter (E : Engine) (shift : Int) (st : St) (hE : ∀ c s, separators_ok s → separators_ok (E.run c s))
    (hb : Sep st) :
    Sep (alpha_mode_enter E shift st) := by
  unfold alpha_mode_enter
  repeat' first
    | (refine so_next _ _ ?_ ?_)
    | (refine so_bind _ _ ?_ ?_)
    | (refine so_pick _ _ ?_ ?_)
    | (refine pred_ite (fun r : St => Sep r) ?_ ?_ <;> intro _)
    | (refine pred_ite (fun r : Flow => SepF r) ?_ ?_ <;> intro _)
    | (refine pred_ite (fun r : Pick => SepP r) ?_ ?_ <;> intro _)
    | (refine pred_elim (fun r : St => Sep r) ?_ ?_ <;> intros)
    | (refine pred_elim (fun r : Flow => SepF r) ?_ ?_ <;> intros)
    | (intro _)
    | assumption
    | (refine so_ret ?_)
    | (refine so_go ?_)
    | (refine so_pret ?_)
    | (refine so_pcmd ?_)
    | (refine so_if_menu _ _ _ ?_ ?_)
    | (refine so_set_repeating _ _ _ ?_)
    | (refine so_repeat_shifted _ _ ?_)
    | (refine so_call E hE _ _ ?_)
    | (refine so_mark _ _ ?_)
    | (refine so_set_pending _ _ ?_)
    | (refine so_upd_arg _ _ ?_)
    | (refine so_set_arg_str _ _ _ ?_)
    | (refine so_upd _ _ rfl ?_)
    | (refine so_upd_dec _ _ rfl ?_)
    | (refine so_upd_short _ _ rfl)
    | (refine so_upd_terminator _ ?_)
    | (refine so_upd_if _ _ _ (fun _ => rfl) ?_)
    | (refine so_incomplete_append _ _ ?_)
    | (refine so_upd_pc_to_new_line E _ ?_)
    | fail

theorem so_open_base_menu (E : Engine) (redraw : Bool) (st : St) (hE : ∀ c s, separators_ok s → separators_ok (E.run c s))
    (hb : Sep st) :
    Sep (open_base_menu E redraw st) := by
  unfold open_base_menu
  repeat' first
    | (refine so_next _ _ ?_ ?_)
    | (refine so_bind _ _ ?_ ?_)
    | (refine so_pick _ _ ?_ ?_)
    | (refine pred_ite (fun r : St => Sep r) ?_ ?_ <;> intro _)
    | (refine pred_ite (fun r : Flow => SepF r) ?_ ?_ <;> intro _)
    | (refine pred_ite (fun r : Pick => SepP r) ?_ ?_ <;> intro _)
    | (refine pred_elim (fun r : St => Sep r) ?_ ?_ <;> intros)
    | (refine pred_elim (fun r : Flow => SepF r) ?_ ?_ <;> intros)
    | (intro _)
    | assumption
    | (refine so_ret ?_)
    | (refine so_go ?_)
    | (refine so_pret ?_)
    | (refine so_pcmd ?_)
    | (refine so_if_menu _ _ _ ?_ ?_)
    | (refine so_set_repeating _ _ _ ?_)
    | (refine so_repeat_shifted _ _ ?_)
    | (refine so_call E hE _ _ ?_)
    | (refine so_mark _ _ ?_)
    | (refine so_set_pending _ _ ?_)
    | (refine so_upd_arg _ _ ?_)
    | (refine so_set_arg_str _ _ _ ?_)
    | (refine so_upd _ _ rfl ?_)
    | (refine so_upd_dec _ _ rfl ?_)
    | (refine so_upd_short _ _ rfl)
    | (refine so_upd_terminator _ ?_)
    | (refine so_upd_if _ _ _ (fun _ => rfl) ?_)
    | (refine so_incomplete_append _ _ ?_)
    | (refine so_upd_pc_to_new_line E _ ?_)
    | fail

theorem so_alpha_mode_shifted (E : Engine) (key : Int) (st : St) (hE : ∀ c s, separators_ok s → separators_ok (E.run c s))
    (hb : Sep st) :
    SepP (alpha_mode_shifted E key st) := by
  unfold alpha_mode_shifted
  repeat' first
    | (refine so_next _ _ ?_ ?_)
    | (refine so_bind _ _ ?_ ?_)
    | (refine so_pick _ _ ?_ ?_)
    | (refine so_set_solve_integ E _ _ hE ?_)
    | (refine so_open_base_menu E _ _ hE ?_)
    | (refine pred_ite (fun r : St => Sep r) ?_ ?_ <;> intro _)
    | (refine pred_ite (fun r : Flow => SepF r) ?_ ?_ <;> intro _)
    | (refine pred_ite (fun r : Pick => SepP r) ?_ ?_ <;> intro _)
    | (refine pred_elim (fun r : St => Sep r) ?_ ?_ <;> intros)
    | (refine pred_elim (fun r : Flow => SepF r) ?_ ?_ <;> intros)
    | (intro _)
    | assumption
    | (refine so_ret ?_)
    | (refine so_go ?_)
    | (refine so_pret ?_)
    | (refine so_pcmd ?_)
    | (refine so_if_menu _ _ _ ?_ ?_)
    | (refine so_set_repeating _ _ _ ?_)
    | (refine so_repeat_shifted _ _ ?_)
    | (refine so_call E hE _ _ ?_)
    | (refine so_mark _ _ ?_)
    | (refine so_set_pending _ _ ?_)
    | (refine so_upd_arg _ _ ?_)
    | (refine so_set_arg_str _ _ _ ?_)
    | (refine so_upd _ _ rfl ?_)
    | (refine so_upd_dec _ _ rfl ?_)
    | (refine so_upd_short _ _ rfl)
    | (refine so_upd_terminator _ ?_)
    | (refine so_upd_if _ _ _ (fun _ => rfl) ?_)
    | (refine so_incomplete_append _ _ ?_)
    | (refine so_upd_pc_to_new_line E _ ?_)
    | fail

theorem so_alpha_mode_command (E : Engine) (shift key : Int) (st : St) (hE : ∀ c s, separators_ok s → separators_ok (E.run c s))
    (hb : Sep st) :
    Sep (alpha_mode_command E shift key st) := by
  unfold alpha_mode_command
  repeat' first
    | (refine so_next _ _ ?_ ?_)
    | (refine so_bind _ _ ?_ ?_)
    | (refine so_pick _ _ ?_ ?_)
    | (refine so_end_alpha_entry E _ hE ?_)
    | (refine so_alpha_mode_shifted E _ _ hE ?_)
    | (refine pred_ite (fun r : St => Sep r) ?_ ?_ <;> intro _)
    | (refine pred_ite (fun r : Flow => SepF r) ?_ ?_ <;> intro _)
    | (refine pred_ite (fun r : Pick => SepP r) ?_ ?_ <;> intro _)
    | (refine pred_elim (fun r : St => Sep r) ?_ ?_ <;> intros)
    | (refine pred_elim (fun r : Flow => SepF r) ?_ ?_ <;> intros)
    | (intro _)
    | assumption
    | (refine so_ret ?_)
    | (refine so_go ?_)
    | (refine so_pret ?_)
    | (refine so_pcmd ?_)
    | (refine so_if_menu _ _ _ ?_ ?_)
    | (refine so_set_repeating _ _ _ ?_)
    | (refine so_repeat_shifted _ _ ?_)
    | (refine so_call E hE _ _ ?_)
    | (refine so_mark _ _ ?_)
    | (refine so_set_pending _ _ ?_)
    | (refine so_upd_arg _ _ ?_)
    | (refine so_set_arg_str _ _ _ ?_)
    | (refine so_upd _ _ rfl ?_)
    | (refine so_upd_dec _ _ rfl ?_)
    | (refine so_upd_short _ _ rfl)
    | (refine so_upd_terminator _ ?_)
    | (refine so_upd_if _ _ _ (fun _ => rfl) ?_)
    | (refine so_incomplete_append _ _ ?_)
    | (refine so_upd_pc_to_new_line E _ ?_)
    | fail

theorem so_alpha_mode_nochar (E : Engine) (shift key : Int) (st : St) (hE : ∀ c s, separators_ok s → separators_ok (E.run c s))
    (hb : Sep st) :
    Sep (alpha_mode_nochar E shift key st) := by
  unfold alpha_mode_nochar
  repeat' first
    | (refine so_next _ _ ?_ ?_)
    | (refine so_bind _ _ ?_ ?_)
    | (refine so_pick _ _ ?_ ?_)
    | (refine so_end_alpha_entry E _ hE ?_)
    | (refine so_alpha_mode_bsp E _ _ _ hE ?_)
    | (refine so_alpha_mode_enter E _ _ hE ?_)
    | (refine so_alpha_mode_command E _ _ _ hE ?_)
    | (refine pred_ite (fun r : St => Sep r) ?_ ?_ <;> intro _)
    | (refine pred_ite (fun r : Flow => SepF r) ?_ ?_ <;> intro _)
    | (refine pred_ite (fun r : Pick => SepP r) ?_ ?_ <;> intro _)
    | (refine pred_elim (fun r : St => Sep r) ?_ ?_ <;> intros)
    | (refine pred_elim (fun r : Flow => SepF r) ?_ ?_ <;> intros)
    | (intro _)
    | assumption
    | (refine so_ret ?_)
    | (refine so_go ?_)
    | (refine so_pret ?_)
    | (refine so_pcmd ?_)
    | (refine so_if_menu _ _ _ ?_ ?_)
    | (refine so_set_repeating _ _ _ ?_)
    | (refine so_repeat_shifted _ _ ?_)
    | (refine so_call E hE _ _ ?_)
    | (refine so_mark _ _ ?_)
    | (refine so_set_pending _ _ ?_)
    | (refine so_upd_arg _ _ ?_)
    | (refine so_set_arg_str _ _ _ ?_)
    | (refine so_upd _ _ rfl ?_)
    | (refine so_upd_dec _ _ rfl ?_)
    | (refine so_upd_short _ _ rfl)
    | (refine so_upd_terminator _ ?_)
    | (refine so_upd_if _ _ _ (fun _ => rfl) ?_)
    | (refine so_incomplete_append _ _ ?_)
    | (refine so_upd_pc_to_new_line E _ ?_)
    | fail

theorem so_keydown_alpha_mode (E : Engine) (shift key : Int) (st : St) (hE : ∀ c s, separators_ok s → separators_ok (E.run c s))
    (hb : Sep st) :
    Sep (keydown_alpha_mode E shift key st) := by
  unfold keydown_alpha_mode
  repeat' first
    | (refine so_next _ _ ?_ ?_)
    | (refine so_bind _ _ ?_ ?_)
    | (refine so_pick _ _ ?_ ?_)
    | (refine so_alpha_insert_char E _ _ hE ?_)
    | (refine so_alpha_handle_char E _ _ _ hE ?_)
    | (refine so_alpha_mode_nochar E _ _ _ hE ?_)
    | (refine pred_ite (fun r : St => Sep r) ?_ ?_ <;> intro _)
    | (refine pred_ite (fun r : Flow => SepF r) ?_ ?_ <;> intro _)
    | (refine pred_ite (fun r : Pick => SepP r) ?_ ?_ <;> intro _)
    | (refine pred_elim (fun r : St => Sep r) ?_ ?_ <;> intros)
    | (refine pred_elim (fun r : Flow => SepF r) ?_ ?_ <;> intros)
    | (intro _)
    | assumption
    | (refine so_ret ?_)
    | (refine so_go ?_)
    | (refine so_pret ?_)
    | (refine so_pcmd ?_)
    | (refine so_if_menu _ _ _ ?_ ?_)
    | (refine so_set_repeating _ _ _ ?_)
    | (refine so_repeat_shifted _ _ ?_)
    | (refine so_call E hE _ _ ?_)
    | (refine so_mark _ _ ?_)
    | (refine so_set_pending _ _ ?_)
    | (refine so_upd_arg _ _ ?_)
    | (refine so_set_arg_str _ _ _ ?_)
    | (refine so_upd _ _ rfl ?_)
    | (refine so_upd_dec _ _ rfl ?_)
    | (refine so_upd_short _ _ rfl)
    | (refine so_upd_terminator _ ?_)
    | (refine so_upd_if _ _ _ (fun _ => rfl) ?_)
    | (refine so_incomplete_append _ _ ?_)
    | (refine so_upd_pc_to_new_line E _ ?_)
    | fail

theorem so_start_number_entry (E : Engine) (st : St) (hE : ∀ c s, separators_ok s → separators_ok (E.run c s))
    (hb : Sep st) :
    Sep (start_number_entry E st) := by
  unfold start_number_entry
  repeat' first
    | (refine so_next _ _ ?_ ?_)
    | (refine so_bind _ _ ?_ ?_)
    | (refine so_pick _ _ ?_ ?_)
    | (refine pred_ite (fun r : St => Sep r) ?_ ?_ <;> intro _)
    | (refine pred_ite (fun r : Flow => SepF r) ?_ ?_ <;> intro _)
    | (refine pred_ite (fun r : Pick => SepP r) ?_ ?_ <;> intro _)
    | (refine pred_elim (fun r : St => Sep r) ?_ ?_ <;> intros)
    | (refine pred_elim (fun r : Flow => SepF r) ?_ ?_ <;> intros)
    | (intro _)
    | assumption
    | (refine so_ret ?_)
    | (refine so_go ?_)
    | (refine so_pret ?_)
    | (refine so_pcmd ?_)
    | (refine so_if_menu _ _ _ ?_ ?_)
    | (refine so_set_repeating _ _ _ ?_)
    | (refine so_repeat_shifted _ _ ?_)
    | (refine so_call E hE _ _ ?_)
    | (refine so_mark _ _ ?_)
    | (refine so_set_pending _ _ ?_)
    | (refine so_upd_arg _ _ ?_)
    | (refine so_set_arg_str _ _ _ ?_)
    | (refine so_upd _ _ rfl ?_)
    | (refine so_upd_dec _ _ rfl ?_)
    | (refine so_upd_short _ _ rfl)
    | (refine so_upd_terminator _ ?_)
    | (refine so_upd_if _ _ _ (fun _ => rfl) ?_)
    | (refine so_incomplete_append _ _ ?_)
    | (refine so_upd_pc_to_new_line E _ ?_)
    | fail

theorem so_lift_stack (E : Engine) (st : St) (hE : ∀ c s, separators_ok s → separators_ok (E.run c s))
    (hb : Sep st) :
    Sep (lift_stack E st) := by
  unfold lift_stack
  repeat' first
    | (refine so_next _ _ ?_ ?_)
    | (refine so_bind _ _ ?_ ?_)
    | (refine so_pick _ _ ?_ ?_)
    | (refine pred_ite (fun r : St => Sep r) ?_ ?_ <;> intro _)
    | (refine pred_ite (fun r : Flow => SepF r) ?_ ?_ <;> intro _)
    | (refine pred_ite (fun r : Pick => SepP r) ?_ ?_ <;> intro _)
    | (refine pred_elim (fun r : St => Sep r) ?_ ?_ <;> intros)
    | (refine pred_elim (fun r : Flow => SepF r) ?_ ?_ <;> intros)
    | (intro _)
    | assumption
    | (refine so_ret ?_)
    | (refine so_go ?_)
    | (refine so_pret ?_)
    | (refine so_pcmd ?_)
    | (refine so_if_menu _ _ _ ?_ ?_)
    | (refine so_set_repeating _ _ _ ?_)
    | (refine so_repeat_shifted _ _ ?_)
    | (refine so_call E hE _ _ ?_)
    | (refine so_mark _ _ ?_)
    | (refine so_set_pending _ _ ?_)
    | (refine so_upd_arg _ _ ?_)
    | (refine so_set_arg_str _ _ _ ?_)
    | (refine so_upd _ _ rfl ?_)
    | (refine so_upd_dec _ _ rfl ?_)
    | (refine so_upd_short _ _ rfl)
    | (refine so_upd_terminator _ ?_)
    | (refine so_upd_if _ _ _ (fun _ => rfl) ?_)
    | (refine so_incomplete_append _ _ ?_)
    | (refine so_upd_pc_to_new_line E _ ?_)
    | fail

theorem so_normal_mode_number_key (E : Engine) (shift key : Int) (st : St) (hE : ∀ c s, separators_ok s → separators_ok (E.run c s))
    (hb : Sep st) :
    Sep (normal_mode_number_key E shift key st) := by
  unfold normal_mode_number_key
  repeat' first
    | (refine so_next _ _ ?_ ?_)
    | (refine so_bind _ _ ?_ ?_)
    | (refine so_pick _ _ ?_ ?_)
    | (refine so_keydown_number_entry E _ _ _ hE ?_)
    | (refine so_start_number_entry E _ hE ?_)
    | (refine so_lift_stack E _ hE ?_)
    | (refine pred_ite (fun r : St => Sep r) ?_ ?_ <;> intro _)
    | (refine pred_ite (fun r : Flow => SepF r) ?_ ?_ <;> intro _)
    | (refine pred_ite (fun r : Pick => SepP r) ?_ ?_ <;> intro _)
    | (refine pred_elim (fun r : St => Sep r) ?_ ?_ <;> intros)
    | (refine pred_elim (fun r : Flow => SepF r) ?_ ?_ <;> intros)
    | (intro _)
    | assumption
    | (refine so_ret ?_)
    | (refine so_go ?_)
    | (refine so_pret ?_)
    | (refine so_pcmd ?_)
    | (refine so_if_menu _ _ _ ?_ ?_)
    | (refine so_set_repeating _ _ _ ?_)
    | (refine so_repeat_shifted _ _ ?_)
    | (refine so_call E hE _ _ ?_)
    | (refine so_mark _ _ ?_)
    | (refine so_set_pending _ _ ?_)
    | (refine so_upd_arg _ _ ?_)
    | (refine so_set_arg_str _ _ _ ?_)
    | (refine so_upd _ _ rfl ?_)
    | (refine so_upd_dec _ _ rfl ?_)
    | (refine so_upd_short _ _ rfl)
    | (refine so_upd_terminator _ ?_)
    | (refine so_upd_if _ _ _ (fun _ => rfl) ?_)
    | (refine so_incomplete_append _ _ ?_)
    | (refine so_upd_pc_to_new_line E _ ?_)
    | fail

theorem so_send_it_off (E : Engine) (level : Int) (st : St) (hE : ∀ c s, separators_ok s → separators_ok (E.run c s))
    (hb : Sep st) :
    Sep (send_it_off E level st) := by
  unfold send_it_off
  repeat' first
    | (refine so_next _ _ ?_ ?_)
    | (refine so_bind _ _ ?_ ?_)
    | (refine so_pick _ _ ?_ ?_)
    | (refine pred_ite (fun r : St => Sep r) ?_ ?_ <;> intro _)
    | (refine pred_ite (fun r : Flow => SepF r) ?_ ?_ <;> intro _)
    | (refine pred_ite (fun r : Pick => SepP r) ?_ ?_ <;> intro _)
    | (refine pred_elim (fun r : St => Sep r) ?_ ?_ <;> intros)
    | (refine pred_elim (fun r : Flow => SepF r) ?_ ?_ <;> intros)
    | (intro _)
    | assumption
    | (refine so_ret ?_)
    | (refine so_go ?_)
    | (refine so_pret ?_)
    | (refine so_pcmd ?_)
    | (refine so_if_menu _ _ _ ?_ ?_)
    | (refine so_set_repeating _ _ _ ?_)
    | (refine so_repeat_shifted _ _ ?_)
    | (refine so_call E hE _ _ ?_)
    | (refine so_mark _ _ ?_)
    | (refine so_set_pending _ _ ?_)
    | (refine so_upd_arg _ _ ?_)
    | (refine so_set_arg_str _ _ _ ?_)
    | (refine so_upd _ _ rfl ?_)
    | (refine so_upd_dec _ _ rfl ?_)
    | (refine so_upd_short _ _ rfl)
    | (refine so_upd_terminator _ ?_)
    | (refine so_upd_if _ _ _ (fun _ => rfl) ?_)
    | (refine so_incomplete_append _ _ ?_)
    | (refine so_upd_pc_to_new_line E _ ?_)
    | fail

theorem so_store_menu_variable (E : Engine) (shift : Int) (st : St) (hE : ∀ c s, separators_ok s → separators_ok (E.run c s))
    (hb : Sep st) :
    Sep (store_menu_variable E shift st) := by
  unfold store_menu_variable
  repeat' first
    | (refine so_next _ _ ?_ ?_)
    | (refine so_bind _ _ ?_ ?_)
    | (refine so_pick _ _ ?_ ?_)
    | (refine pred_ite (fun r : St => Sep r) ?_ ?_ <;> intro _)
    | (refine pred_ite (fun r : Flow => SepF r) ?_ ?_ <;> intro _)
    | (refine pred_ite (fun r : Pick => SepP r) ?_ ?_ <;> intro _)
    | (refine pred_elim (fun r : St => Sep r) ?_ ?_ <;> intros)
    | (refine pred_elim (fun r : Flow => SepF r) ?_ ?_ <;> intros)
    | (intro _)
    | assumption
    | (refine so_ret ?_)
    | (refine so_go ?_)
    | (refine so_pret ?_)
    | (refine so_pcmd ?_)
    | (refine so_if_menu _ _ _ ?_ ?_)
    | (refine so_set_repeating _ _ _ ?_)
    | (refine so_repeat_shifted _ _ ?_)
    | (refine so_call E hE _ _ ?_)
    | (refine so_mark _ _ ?_)
    | (refine so_set_pending _ _ ?_)
    | (refine so_upd_arg _ _ ?_)
    | (refine so_set_arg_str _ _ _ ?_)
    | (refine so_upd _ _ rfl ?_)
    | (refine so_upd_dec _ _ rfl ?_)
    | (refine so_upd_short _ _ rfl)
    | (refine so_upd_terminator _ ?_)
    | (refine so_upd_if _ _ _ (fun _ => rfl) ?_)
    | (refine so_incomplete_append _ _ ?_)
    | (refine so_upd_pc_to_new_line E _ ?_)
    | fail

theorem so_normal_mode_varmenu_key (E : Engine) (shift menukey : Int) (st : St) (hE : ∀ c s, separators_ok s → separators_ok (E.run c s))
    (hb : Sep st) :
    Sep (normal_mode_varmenu_key E shift menukey st) := by
  unfold normal_mode_varmenu_key
  repeat' first
    | (refine so_next _ _ ?_ ?_)
    | (refine so_bind _ _ ?_ ?_)
    | (refine so_pick _ _ ?_ ?_)
    | (refine so_view E _ _ _ hE ?_)
    | (refine so_store_menu_variable E _ _ hE ?_)
    | (refine pred_ite (fun r : St => Sep r) ?_ ?_ <;> intro _)
    | (refine pred_ite (fun r : Flow => SepF r) ?_ ?_ <;> intro _)
    | (refine pred_ite (fun r : Pick => SepP r) ?_ ?_ <;> intro _)
    | (refine pred_elim (fun r : St => Sep r) ?_ ?_ <;> intros)
    | (refine pred_elim (fun r : Flow => SepF r) ?_ ?_ <;> intros)
    | (intro _)
    | assumption
    | (refine so_ret ?_)
    | (refine so_go ?_)
    | (refine so_pret ?_)
    | (refine so_pcmd ?_)
    | (refine so_if_menu _ _ _ ?_ ?_)
    | (refine so_set_repeating _ _ _ ?_)
    | (refine so_repeat_shifted _ _ ?_)
    | (refine so_call E hE _ _ ?_)
    | (refine so_mark _ _ ?_)
    | (refine so_set_pending _ _ ?_)
    | (refine so_upd_arg _ _ ?_)
    | (refine so_set_arg_str _ _ _ ?_)
    | (refine so_upd _ _ rfl ?_)
    | (refine so_upd_dec _ _ rfl ?_)
    | (refine so_upd_short _ _ rfl)
    | (refine so_upd_terminator _ ?_)
    | (refine so_upd_if _ _ _ (fun _ => rfl) ?_)
    | (refine so_incomplete_append _ _ ?_)
    | (refine so_upd_pc_to_new_line E _ ?_)
    | fail

theorem so_normal_mode_varmenu (E : Engine) (shift key menukey : Int) (st : St) (hE : ∀ c s, separators_ok s → separators_ok (E.run c s))
    (hb : Sep st) :
    SepF (normal_mode_varmenu E shift key menukey st) := by
  unfold normal_mode_varmenu
  repeat' first
    | (refine so_next _ _ ?_ ?_)
    | (refine so_bind _ _ ?_ ?_)
    | (refine so_pick _ _ ?_ ?_)
    | (refine so_normal_mode_varmenu_key E _ _ _ hE ?_)
    | (refine pred_ite (fun r : St => Sep r) ?_ ?_ <;> intro _)
    | (refine pred_ite (fun r : Flow => SepF r) ?_ ?_ <;> intro _)
    | (refine pred_ite (fun r : Pick => SepP r) ?_ ?_ <;> intro _)
    | (refine pred_elim (fun r : St => Sep r) ?_ ?_ <;> intros)
    | (refine pred_elim (fun r : Flow => SepF r) ?_ ?_ <;> intros)
    | (intro _)
    | assumption
    | (refine so_ret ?_)
    | (refine so_go ?_)
    | (refine so_pret ?_)
    | (refine so_pcmd ?_)
    | (refine so_if_menu _ _ _ ?_ ?_)
    | (refine so_set_repeating _ _ _ ?_)
    | (refine so_repeat_shifted _ _ ?_)
    | (refine so_call E hE _ _ ?_)
    | (refine so_mark _ _ ?_)
    | (refine so_set_pending _ _ ?_)
    | (refine so_upd_arg _ _ ?_)
    | (refine so_set_arg_str _ _ _ ?_)
    | (refine so_upd _ _ rfl ?_)
    | (refine so_upd_dec _ _ rfl ?_)
    | (refine so_upd_short _ _ rfl)
    | (refine so_upd_terminator _ ?_)
    | (refine so_upd_if _ _ _ (fun _ => rfl) ?_)
    | (refine so_incomplete_append _ _ ?_)
    | (refine so_upd_pc_to_new_line E _ ?_)
    | fail

theorem so_custom_builtin (E : Engine) (cmd : Int) (st : St) (hE : ∀ c s, separators_ok s → separators_ok (E.run c s))
    (hb : Sep st) :
    SepF (custom_builtin E cmd st) := by
  unfold custom_builtin
  repeat' first
    | (refine so_next _ _ ?_ ?_)
    | (refine so_bind _ _ ?_ ?_)
    | (refine so_pick _ _ ?_ ?_)
    | (refine pred_ite (fun r : St => Sep r) ?_ ?_ <;> intro _)
    | (refine pred_ite (fun r : Flow => SepF r) ?_ ?_ <;> intro _)
    | (refine pred_ite (fun r : Pick => SepP r) ?_ ?_ <;> intro _)
    | (refine pred_elim (fun r : St => Sep r) ?_ ?_ <;> intros)
    | (refine pred_elim (fun r : Flow => SepF r) ?_ ?_ <;> intros)
    | (intro _)
    | assumption
    | (refine so_ret ?_)
    | (refine so_go ?_)
    | (refine so_pret ?_)
    | (refine so_pcmd ?_)
    | (refine so_if_menu _ _ _ ?_ ?_)
    | (refine so_set_repeating _ _ _ ?_)
    | (refine so_repeat_shifted _ _ ?_)
    | (refine so_call E hE _ _ ?_)
    | (refine so_mark _ _ ?_)
    | (refine so_set_pending _ _ ?_)
    | (refine so_upd_arg _ _ ?_)
    | (refine so_set_arg_str _ _ _ ?_)
    | (refine so_upd _ _ rfl ?_)
    | (refine so_upd_dec _ _ rfl ?_)
    | (refine so_upd_short _ _ rfl)
    | (refine so_upd_terminator _ ?_)
    | (refine so_upd_if _ _ _ (fun _ => rfl) ?_)
    | (refine so_incomplete_append _ _ ?_)
    | (refine so_upd_pc_to_new_line E _ ?_)
    | fail

theorem so_normal_mode_custom (E : Engine) (shift menukey menu level : Int) (st : St) (hE : ∀ c s, separators_ok s → separators_ok (E.run c s))
    (hb : Sep st) :
    Sep (normal_mode_custom E shift menukey menu level st) := by
  unfold normal_mode_custom
  repeat' first
    | (refine so_next _ _ ?_ ?_)
    | (refine so_bind _ _ ?_ ?_)
    | (refine so_pick _ _ ?_ ?_)
    | (refine so_send_it_off E _ _ hE ?_)
    | (refine so_custom_builtin E _ _ hE ?_)
    | (refine pred_ite (fun r : St => Sep r) ?_ ?_ <;> intro _)
    | (refine pred_ite (fun r : Flow => SepF r) ?_ ?_ <;> intro _)
    | (refine pred_ite (fun r : Pick => SepP r) ?_ ?_ <;> intro _)
    | (refine pred_elim (fun r : St => Sep r) ?_ ?_ <;> intros)
    | (refine pred_elim (fun r : Flow => SepF r) ?_ ?_ <;> intros)
    | (intro _)
    | assumption
    | (refine so_ret ?_)
    | (refine so_go ?_)
    | (refine so_pret ?_)
    | (refine so_pcmd ?_)
    | (refine so_if_menu _ _ _ ?_ ?_)
    | (refine so_set_repeating _ _ _ ?_)
    | (refine so_repeat_shifted _ _ ?_)
    | (refine so_call E hE _ _ ?_)
    | (refine so_mark _ _ ?_)
    | (refine so_set_pending _ _ ?_)
    | (refine so_upd_arg _ _ ?_)
    | (refine so_set_arg_str _ _ _ ?_)
    | (refine so_upd _ _ rfl ?_)
    | (refine so_upd_dec _ _ rfl ?_)
    | (refine so_upd_short _ _ rfl)
    | (refine so_upd_terminator _ ?_)
    | (refine so_upd_if _ _ _ (fun _ => rfl) ?_)
    | (refine so_incomplete_append _ _ ?_)
    | (refine so_upd_pc_to_new_line E _ ?_)
    | fail

theorem so_close_catalog (E : Engine) (level : Int) (st : St) (hE : ∀ c s, separators_ok s → separators_ok (E.run c s))
    (hb : Sep st) :
    Sep (close_catalog E level st) := by
  unfold close_catalog
  repeat' first
    | (refine so_next _ _ ?_ ?_)
    | (refine so_bind _ _ ?_ ?_)
    | (refine so_pick _ _ ?_ ?_)
    | (refine pred_ite (fun r : St => Sep r) ?_ ?_ <;> intro _)
    | (refine pred_ite (fun r : Flow => SepF r) ?_ ?_ <;> intro _)
    | (refine pred_ite (fun r : Pick => SepP r) ?_ ?_ <;> intro _)
    | (refine pred_elim (fun r : St => Sep r) ?_ ?_ <;> intros)
    | (refine pred_elim (fun r : Flow => SepF r) ?_ ?_ <;> intros)
    | (intro _)
    | assumption
    | (refine so_ret ?_)
    | (refine so_go ?_)
    | (refine so_pret ?_)
    | (refine so_pcmd ?_)
    | (refine so_if_menu _ _ _ ?_ ?_)
    | (refine so_set_repeating _ _ _ ?_)
    | (refine so_repeat_shifted _ _ ?_)
    | (refine so_call E hE _ _ ?_)
    | (refine so_mark _ _ ?_)
    | (refine so_set_pending _ _ ?_)
    | (refine so_upd_arg _ _ ?_)
    | (refine so_set_arg_str _ _ _ ?_)
    | (refine so_upd _ _ rfl ?_)
    | (refine so_upd_dec _ _ rfl ?_)
    | (refine so_upd_short _ _ rfl)
    | (refine so_upd_terminator _ ?_)
    | (refine so_upd_if _ _ _ (fun _ => rfl) ?_)
    | (refine so_incomplete_append _ _ ?_)
    | (refine so_upd_pc_to_new_line E _ ?_)
    | fail

theorem so_normal_mode_catalog_top (E : Engine) (menukey : Int) (st : St) (hE : ∀ c s, separators_ok s → separators_ok (E.run c s))
    (hb : Sep st) :
    Sep (normal_mode_catalog_top E menukey st) := by
  unfold normal_mode_catalog_top
  repeat' first
    | (refine so_next _ _ ?_ ?_)
    | (refine so_bind _ _ ?_ ?_)
    | (refine so_pick _ _ ?_ ?_)
    | (refine pred_ite (fun r : St => Sep r) ?_ ?_ <;> intro _)
    | (refine pred_ite (fun r : Flow => SepF r) ?_ ?_ <;> intro _)
    | (refine pred_ite (fun r : Pick => SepP r) ?_ ?_ <;> intro _)
    | (refine pred_elim (fun r : St => Sep r) ?_ ?_ <;> intros)
    | (refine pred_elim (fun r : Flow => SepF r) ?_ ?_ <;> intros)
    | (intro _)
    | assumption
    | (refine so_ret ?_)
    | (refine so_go ?_)
    | (refine so_pret ?_)
    | (refine so_pcmd ?_)
    | (refine so_if_menu _ _ _ ?_ ?_)
    | (refine so_set_repeating _ _ _ ?_)
    | (refine so_repeat_shifted _ _ ?_)
    | (refine so_call E hE _ _ ?_)
    | (refine so_mark _ _ ?_)
    | (refine so_set_pending _ _ ?_)
    | (refine so_upd_arg _ _ ?_)
    | (refine so_set_arg_str _ _ _ ?_)
    | (refine so_upd _ _ rfl ?_)
    | (refine so_upd_dec _ _ rfl ?_)
    | (refine so_upd_short _ _ rfl)
    | (refine so_upd_terminator _ ?_)
    | (refine so_upd_if _ _ _ (fun _ => rfl) ?_)
    | (refine so_incomplete_append _ _ ?_)
    | (refine so_upd_pc_to_new_line E _ ?_)
    | fail

theorem so_normal_mode_catalog_ext1 (E : Engine) (menukey : Int) (st : St) (hE : ∀ c s, separators_ok s → separators_ok (E.run c s))
    (hb : Sep st) :
    Sep (normal_mode_catalog_ext1 E menukey st) := by
  unfold normal_mode_catalog_ext1
  repeat' first
    | (refine so_next _ _ ?_ ?_)
    | (refine so_bind _ _ ?_ ?_)
    | (refine so_pick _ _ ?_ ?_)
    | (refine pred_ite (fun r : St => Sep r) ?_ ?_ <;> intro _)
    | (refine pred_ite (fun r : Flow => SepF r) ?_ ?_ <;> intro _)
    | (refine pred_ite (fun r : Pick => SepP r) ?_ ?_ <;> intro _)
    | (refine pred_elim (fun r : St => Sep r) ?_ ?_ <;> intros)
    | (refine pred_elim (fun r : Flow => SepF r) ?_ ?_ <;> intros)
    | (intro _)
    | assumption
    | (refine so_ret ?_)
    | (refine so_go ?_)
    | (refine so_pret ?_)
    | (refine so_pcmd ?_)
    | (refine so_if_menu _ _ _ ?_ ?_)
    | (refine so_set_repeating _ _ _ ?_)
    | (refine so_repeat_shifted _ _ ?_)
    | (refine so_call E hE _ _ ?_)
    | (refine so_mark _ _ ?_)
    | (refine so_set_pending _ _ ?_)
    | (refine so_upd_arg _ _ ?_)
    | (refine so_set_arg_str _ _ _ ?_)
    | (refine so_upd _ _ rfl ?_)
    | (refine so_upd_dec _ _ rfl ?_)
    | (refine so_upd_short _ _ rfl)
    | (refine so_upd_terminator _ ?_)
    | (refine so_upd_if _ _ _ (fun _ => rfl) ?_)
    | (refine so_incomplete_append _ _ ?_)
    | (refine so_upd_pc_to_new_line E _ ?_)
    | fail

theorem so_normal_mode_catalog_pgm (E : Engine) (menukey catsect level : Int) (st : St) (hE : ∀ c s, separators_ok s → separators_ok (E.run c s))
    (hb : Sep st) :
    SepF (normal_mode_catalog_pgm E menukey catsect level st) := by
  unfold normal_mode_catalog_pgm
  repeat' first
    | (refine so_next _ _ ?_ ?_)
    | (refine so_bind _ _ ?_ ?_)
    | (refine so_pick _ _ ?_ ?_)
    | (refine pred_ite (fun r : St => Sep r) ?_ ?_ <;> intro _)
    | (refine pred_ite (fun r : Flow => SepF r) ?_ ?_ <;> intro _)
    | (refine pred_ite (fun r : Pick => SepP r) ?_ ?_ <;> intro _)
    | (refine pred_elim (fun r : St => Sep r) ?_ ?_ <;> intros)
    | (refine pred_elim (fun r : Flow => SepF r) ?_ ?_ <;> intros)
    | (intro _)
    | assumption
    | (refine so_ret ?_)
    | (refine so_go ?_)
    | (refine so_pret ?_)
    | (refine so_pcmd ?_)
    | (refine so_if_menu _ _ _ ?_ ?_)
    | (refine so_set_repeating _ _ _ ?_)
    | (refine so_repeat_shifted _ _ ?_)
    | (refine so_call E hE _ _ ?_)
    | (refine so_mark _ _ ?_)
    | (refine so_set_pending _ _ ?_)
    | (refine so_upd_arg _ _ ?_)
    | (refine so_set_arg_str _ _ _ ?_)
    | (refine so_upd _ _ rfl ?_)
    | (refine so_upd_dec _ _ rfl ?_)
    | (refine so_upd_short _ _ rfl)
    | (refine so_upd_terminator _ ?_)
    | (refine so_upd_if _ _ _ (fun _ => rfl) ?_)
    | (refine so_incomplete_append _ _ ?_)
    | (refine so_upd_pc_to_new_line E _ ?_)
    | fail

theorem so_normal_mode_catalog_pgm_for (E : Engine) (menukey catsect : Int) (st : St) (hE : ∀ c s, separators_ok s → separators_ok (E.run c s))
    (hb : Sep st) :
    SepF (normal_mode_catalog_pgm_for E menukey catsect st) := by
  unfold normal_mode_catalog_pgm_for
  repeat' first
    | (refine so_next _ _ ?_ ?_)
    | (refine so_bind _ _ ?_ ?_)
    | (refine so_pick _ _ ?_ ?_)
    | (refine pred_ite (fun r : St => Sep r) ?_ ?_ <;> intro _)
    | (refine pred_ite (fun r : Flow => SepF r) ?_ ?_ <;> intro _)
    | (refine pred_ite (fun r : Pick => SepP r) ?_ ?_ <;> intro _)
    | (refine pred_elim (fun r : St => Sep r) ?_ ?_ <;> intros)
    | (refine pred_elim (fun r : Flow => SepF r) ?_ ?_ <;> intros)
    | (intro _)
    | assumption
    | (refine so_ret ?_)
    | (refine so_go ?_)
    | (refine so_pret ?_)
    | (refine so_pcmd ?_)
    | (refine so_if_menu _ _ _ ?_ ?_)
    | (refine so_set_repeating _ _ _ ?_)
    | (refine so_repeat_shifted _ _ ?_)
    | (refine so_call E hE _ _ ?_)
    | (refine so_mark _ _ ?_)
    | (refine so_set_pending _ _ ?_)
    | (refine so_upd_arg _ _ ?_)
    | (refine so_set_arg_str _ _ _ ?_)
    | (refine so_upd _ _ rfl ?_)
    | (refine so_upd_dec _ _ rfl ?_)
    | (refine so_upd_short _ _ rfl)
    | (refine so_upd_terminator _ ?_)
    | (refine so_upd_if _ _ _ (fun _ => rfl) ?_)
    | (refine so_incomplete_append _ _ ?_)
    | (refine so_upd_pc_to_new_line E _ ?_)
    | fail

theorem so_normal_mode_catalog_fcn (E : Engine) (menukey level : Int) (st : St) (hE : ∀ c s, separators_ok s → separators_ok (E.run c s))
    (hb : Sep st) :
    Sep (normal_mode_catalog_fcn E menukey level st) := by
  unfold normal_mode_catalog_fcn
  repeat' first
    | (refine so_next _ _ ?_ ?_)
    | (refine so_bind _ _ ?_ ?_)
    | (refine so_pick _ _ ?_ ?_)
    | (refine so_close_catalog E _ _ hE ?_)
    | (refine pred_ite (fun r : St => Sep r) ?_ ?_ <;> intro _)
    | (refine pred_ite (fun r : Flow => SepF r) ?_ ?_ <;> intro _)
    | (refine pred_ite (fun r : Pick => SepP r) ?_ ?_ <;> intro _)
    | (refine pred_elim (fun r : St => Sep r) ?_ ?_ <;> intros)
    | (refine pred_elim (fun r : Flow => SepF r) ?_ ?_ <;> intros)
    | (intro _)
    | assumption
    | (refine so_ret ?_)
    | (refine so_go ?_)
    | (refine so_pret ?_)
    | (refine so_pcmd ?_)
    | (refine so_if_menu _ _ _ ?_ ?_)
    | (refine so_set_repeating _ _ _ ?_)
    | (refine so_repeat_shifted _ _ ?_)
    | (refine so_call E hE _ _ ?_)
    | (refine so_mark _ _ ?_)
    | (refine so_set_pending _ _ ?_)
    | (refine so_upd_arg _ _ ?_)
    | (refine so_set_arg_str _ _ _ ?_)
    | (refine so_upd _ _ rfl ?_)
    | (refine so_upd_dec _ _ rfl ?_)
    | (refine so_upd_short _ _ rfl)
    | (refine so_upd_terminator _ ?_)
    | (refine so_upd_if _ _ _ (fun _ => rfl) ?_)
    | (refine so_incomplete_append _ _ ?_)
    | (refine so_upd_pc_to_new_line E _ ?_)
    | fail

theorem so_normal_mode_catalog_var (E : Engine) (menukey level : Int) (st : St) (hE : ∀ c s, separators_ok s → separators_ok (E.run c s))
    (hb : Sep st) :
    SepF (normal_mode_catalog_var E menukey level st) := by
  unfold normal_mode_catalog_var
  repeat' first
    | (refine so_next _ _ ?_ ?_)
    | (refine so_bind _ _ ?_ ?_)
    | (refine so_pick _ _ ?_ ?_)
    | (refine so_close_catalog E _ _ hE ?_)
    | (refine pred_ite (fun r : St => Sep r) ?_ ?_ <;> intro _)
    | (refine pred_ite (fun r : Flow => SepF r) ?_ ?_ <;> intro _)
    | (refine pred_ite (fun r : Pick => SepP r) ?_ ?_ <;> intro _)
    | (refine pred_elim (fun r : St => Sep r) ?_ ?_ <;> intros)
    | (refine pred_elim (fun r : Flow => SepF r) ?_ ?_ <;> intros)
    | (intro _)
    | assumption
    | (refine so_ret ?_)
    | (refine so_go ?_)
    | (refine so_pret ?_)
    | (refine so_pcmd ?_)
    | (refine so_if_menu _ _ _ ?_ ?_)
    | (refine so_set_repeating _ _ _ ?_)
    | (refine so_repeat_shifted _ _ ?_)
    | (refine so_call E hE _ _ ?_)
    | (refine so_mark _ _ ?_)
    | (refine so_set_pending _ _ ?_)
    | (refine so_upd_arg _ _ ?_)
    | (refine so_set_arg_str _ _ _ ?_)
    | (refine so_upd _ _ rfl ?_)
    | (refine so_upd_dec _ _ rfl ?_)
    | (refine so_upd_short _ _ rfl)
    | (refine so_upd_terminator _ ?_)
    | (refine so_upd_if _ _ _ (fun _ => rfl) ?_)
    | (refine so_incomplete_append _ _ ?_)
    | (refine so_upd_pc_to_new_line E _ ?_)
    | fail

theorem so_normal_mode_catalog (E : Engine) (menukey level : Int) (st : St) (hE : ∀ c s, separators_ok s → separators_ok (E.run c s))
    (hb : Sep st) :
    Sep (normal_mode_catalog E menukey level st) := by
  unfold normal_mode_catalog
  repeat' first
    | (refine so_next _ _ ?_ ?_)
    | (refine so_bind _ _ ?_ ?_)
    | (refine so_pick _ _ ?_ ?_)
    | (refine so_send_it_off E _ _ hE ?_)
    | (refine so_normal_mode_catalog_top E _ _ hE ?_)
    | (refine so_normal_mode_catalog_ext1 E _ _ hE ?_)
    | (refine so_normal_mode_catalog_pgm E _ _ _ _ hE ?_)
    | (refine so_normal_mode_catalog_pgm_for E _ _ _ hE ?_)
    | (refine so_normal_mode_catalog_fcn E _ _ _ hE ?_)
    | (refine so_normal_mode_catalog_var E _ _ _ hE ?_)
    | (refine pred_ite (fun r : St => Sep r) ?_ ?_ <;> intro _)
    | (refine pred_ite (fun r : Flow => SepF r) ?_ ?_ <;> intro _)
    | (refine pred_ite (fun r : Pick => SepP r) ?_ ?_ <;> intro _)
    | (refine pred_elim (fun r : St => Sep r) ?_ ?_ <;> intros)
    | (refine pred_elim (fun r : Flow => SepF r) ?_ ?_ <;> intros)
    | (intro _)
    | assumption
    | (refine so_ret ?_)
    | (refine so_go ?_)
    | (refine so_pret ?_)
    | (refine so_pcmd ?_)
    | (refine so_if_menu _ _ _ ?_ ?_)
    | (refine so_set_repeating _ _ _ ?_)
    | (refine so_repeat_shifted _ _ ?_)
    | (refine so_call E hE _ _ ?_)
    | (refine so_mark _ _ ?_)
    | (refine so_set_pending _ _ ?_)
    | (refine so_upd_arg _ _ ?_)
    | (refine so_set_arg_str _ _ _ ?_)
    | (refine so_upd _ _ rfl ?_)
    | (refine so_upd_dec _ _ rfl ?_)
    | (refine so_upd_short _ _ rfl)
    | (refine so_upd_terminator _ ?_)
    | (refine so_upd_if _ _ _ (fun _ => rfl) ?_)
    | (refine so_incomplete_append _ _ ?_)
    | (refine so_upd_pc_to_new_line E _ ?_)
    | fail

theorem so_normal_mode_integ_params (E : Engine) (shift menukey : Int) (st : St) (hE : ∀ c s, separators_ok s → separators_ok (E.run c s))
    (hb : Sep st) :
    Sep (normal_mode_integ_params E shift menukey st) := by
  unfold normal_mode_integ_params
  repeat' first
    | (refine so_next _ _ ?_ ?_)
    | (refine so_bind _ _ ?_ ?_)
    | (refine so_pick _ _ ?_ ?_)
    | (refine so_view E _ _ _ hE ?_)
    | (refine so_store_menu_variable E _ _ hE ?_)
    | (refine pred_ite (fun r : St => Sep r) ?_ ?_ <;> intro _)
    | (refine pred_ite (fun r : Flow => SepF r) ?_ ?_ <;> intro _)
    | (refine pred_ite (fun r : Pick => SepP r) ?_ ?_ <;> intro _)
    | (refine pred_elim (fun r : St => Sep r) ?_ ?_ <;> intros)
    | (refine pred_elim (fun r : Flow => SepF r) ?_ ?_ <;> intros)
    | (intro _)
    | assumption
    | (refine so_ret ?_)
    | (refine so_go ?_)
    | (refine so_pret ?_)
    | (refine so_pcmd ?_)
    | (refine so_if_menu _ _ _ ?_ ?_)
    | (refine so_set_repeating _ _ _ ?_)
    | (refine so_repeat_shifted _ _ ?_)
    | (refine so_call E hE _ _ ?_)
    | (refine so_mark _ _ ?_)
    | (refine so_set_pending _ _ ?_)
    | (refine so_upd_arg _ _ ?_)
    | (refine so_set_arg_str _ _ _ ?_)
    | (refine so_upd _ _ rfl ?_)
    | (refine so_upd_dec _ _ rfl ?_)
    | (refine so_upd_short _ _ rfl)
    | (refine so_upd_terminator _ ?_)
    | (refine so_upd_if _ _ _ (fun _ => rfl) ?_)
    | (refine so_incomplete_append _ _ ?_)
    | (refine so_upd_pc_to_new_line E _ ?_)
    | fail

theorem so_normal_mode_menu_item (E : Engine) (shift menukey menu level : Int) (st : St) (hE : ∀ c s, separators_ok s → separators_ok (E.run c s))
    (hb : Sep st) :
    Sep (normal_mode_menu_item E shift menukey menu level st) := by
  unfold normal_mode_menu_item
  repeat' first
    | (refine so_next _ _ ?_ ?_)
    | (refine so_bind _ _ ?_ ?_)
    | (refine so_pick _ _ ?_ ?_)
    | (refine pred_ite (fun r : St => Sep r) ?_ ?_ <;> intro _)
    | (refine pred_ite (fun r : Flow => SepF r) ?_ ?_ <;> intro _)
    | (refine pred_ite (fun r : Pick => SepP r) ?_ ?_ <;> intro _)
    | (refine pred_elim (fun r : St => Sep r) ?_ ?_ <;> intros)
    | (refine pred_elim (fun r : Flow => SepF r) ?_ ?_ <;> intros)
    | (intro _)
    | assumption
    | (refine so_ret ?_)
    | (refine so_go ?_)
    | (refine so_pret ?_)
    | (refine so_pcmd ?_)
    | (refine so_if_menu _ _ _ ?_ ?_)
    | (refine so_set_repeating _ _ _ ?_)
    | (refine so_repeat_shifted _ _ ?_)
    | (refine so_call E hE _ _ ?_)
    | (refine so_mark _ _ ?_)
    | (refine so_set_pending _ _ ?_)
    | (refine so_upd_arg _ _ ?_)
    | (refine so_set_arg_str _ _ _ ?_)
    | (refine so_upd _ _ rfl ?_)
    | (refine so_upd_dec _ _ rfl ?_)
    | (refine so_upd_short _ _ rfl)
    | (refine so_upd_terminator _ ?_)
    | (refine so_upd_if _ _ _ (fun _ => rfl) ?_)
    | (refine so_incomplete_append _ _ ?_)
    | (refine so_upd_pc_to_new_line E _ ?_)
    | fail

theorem so_normal_mode_menu_exit (E : Engine) (menu level : Int) (st : St) (hE : ∀ c s, separators_ok s → separators_ok (E.run c s))
    (hb : Sep st) :
    Sep (normal_mode_menu_exit E menu level st) := by
  unfold normal_mode_menu_exit
  repeat' first
    | (refine so_next _ _ ?_ ?_)
    | (refine so_bind _ _ ?_ ?_)
    | (refine so_pick _ _ ?_ ?_)
    | (refine pred_ite (fun r : St => Sep r) ?_ ?_ <;> intro _)
    | (refine pred_ite (fun r : Flow => SepF r) ?_ ?_ <;> intro _)
    | (refine pred_ite (fun r : Pick => SepP r) ?_ ?_ <;> intro _)
    | (refine pred_elim (fun r : St => Sep r) ?_ ?_ <;> intros)
    | (refine pred_elim (fun r : Flow => SepF r) ?_ ?_ <;> intros)
    | (intro _)
    | assumption
    | (refine so_ret ?_)
    | (refine so_go ?_)
    | (refine so_pret ?_)
    | (refine so_pcmd ?_)
    | (refine so_if_menu _ _ _ ?_ ?_)
    | (refine so_set_repeating _ _ _ ?_)
    | (refine so_repeat_shifted _ _ ?_)
    | (refine so_call E hE _ _ ?_)
    | (refine so_mark _ _ ?_)
    | (refine so_set_pending _ _ ?_)
    | (refine so_upd_arg _ _ ?_)
    | (refine so_set_arg_str _ _ _ ?_)
    | (refine so_upd _ _ rfl ?_)
    | (refine so_upd_dec _ _ rfl ?_)
    | (refine so_upd_short _ _ rfl)
    | (refine so_upd_terminator _ ?_)
    | (refine so_upd_if _ _ _ (fun _ => rfl) ?_)
    | (refine so_incomplete_append _ _ ?_)
    | (refine so_upd_pc_to_new_line E _ ?_)
    | fail

theorem so_normal_mode_menu_updown (E : Engine) (key menu level : Int) (st : St) (hE : ∀ c s, separators_ok s → separators_ok (E.run c s))
    (hb : Sep st) :
    Sep (normal_mode_menu_updown E key menu level st) := by
  unfold normal_mode_menu_updown
  repeat' first
    | (refine so_next _ _ ?_ ?_)
    | (refine so_bind _ _ ?_ ?_)
    | (refine so_pick _ _ ?_ ?_)
    | (refine pred_ite (fun r : St => Sep r) ?_ ?_ <;> intro _)
    | (refine pred_ite (fun r : Flow => SepF r) ?_ ?_ <;> intro _)
    | (refine pred_ite (fun r : Pick => SepP r) ?_ ?_ <;> intro _)
    | (refine pred_elim (fun r : St => Sep r) ?_ ?_ <;> intros)
    | (refine pred_elim (fun r : Flow => SepF r) ?_ ?_ <;> intros)
    | (intro _)
    | assumption
    | (refine so_ret ?_)
    | (refine so_go ?_)
    | (refine so_pret ?_)
    | (refine so_pcmd ?_)
    | (refine so_if_menu _ _ _ ?_ ?_)
    | (refine so_set_repeating _ _ _ ?_)
    | (refine so_repeat_shifted _ _ ?_)
    | (refine so_call E hE _ _ ?_)
    | (refine so_mark _ _ ?_)
    | (refine so_set_pending _ _ ?_)
    | (refine so_upd_arg _ _ ?_)
    | (refine so_set_arg_str _ _ _ ?_)
    | (refine so_upd _ _ rfl ?_)
    | (refine so_upd_dec _ _ rfl ?_)
    | (refine so_upd_short _ _ rfl)
    | (refine so_upd_terminator _ ?_)
    | (refine so_upd_if _ _ _ (fun _ => rfl) ?_)
    | (refine so_incomplete_append _ _ ?_)
    | (refine so_upd_pc_to_new_line E _ ?_)
    | fail

theorem so_normal_mode_menu (E : Engine) (shift key : Int) (st : St) (hE : ∀ c s, separators_ok s → separators_ok (E.run c s))
    (hb : Sep st) :
    SepF (normal_mode_menu E shift key st) := by
  unfold normal_mode_menu
  repeat' first
    | (refine so_next _ _ ?_ ?_)
    | (refine so_bind _ _ ?_ ?_)
    | (refine so_pick _ _ ?_ ?_)
    | (refine so_normal_mode_varmenu E _ _ _ _ hE ?_)
    | (refine so_normal_mode_custom E _ _ _ _ _ hE ?_)
    | (refine so_normal_mode_catalog E _ _ _ hE ?_)
    | (refine so_normal_mode_integ_params E _ _ _ hE ?_)
    | (refine so_normal_mode_menu_item E _ _ _ _ _ hE ?_)
    | (refine so_normal_mode_menu_exit E _ _ _ hE ?_)
    | (refine so_normal_mode_menu_updown E _ _ _ _ hE ?_)
    | (refine pred_ite (fun r : St => Sep r) ?_ ?_ <;> intro _)
    | (refine pred_ite (fun r : Flow => SepF r) ?_ ?_ <;> intro _)
    | (refine pred_ite (fun r : Pick => SepP r) ?_ ?_ <;> intro _)
    | (refine pred_elim (fun r : St => Sep r) ?_ ?_ <;> intros)
    | (refine pred_elim (fun r : Flow => SepF r) ?_ ?_ <;> intros)
    | (intro _)
    | assumption
    | (refine so_ret ?_)
    | (refine so_go ?_)
    | (refine so_pret ?_)
    | (refine so_pcmd ?_)
    | (refine so_if_menu _ _ _ ?_ ?_)
    | (refine so_set_repeating _ _ _ ?_)
    | (refine so_repeat_shifted _ _ ?_)
    | (refine so_call E hE _ _ ?_)
    | (refine so_mark _ _ ?_)
    | (refine so_set_pending _ _ ?_)
    | (refine so_upd_arg _ _ ?_)
    | (refine so_set_arg_str _ _ _ ?_)
    | (refine so_upd _ _ rfl ?_)
    | (refine so_upd_dec _ _ rfl ?_)
    | (refine so_upd_short _ _ rfl)
    | (refine so_upd_terminator _ ?_)
    | (refine so_upd_if _ _ _ (fun _ => rfl) ?_)
    | (refine so_incomplete_append _ _ ?_)
    | (refine so_upd_pc_to_new_line E _ ?_)
    | fail

theorem so_normal_mode_unshifted (E : Engine) (key : Int) (st : St) (hE : ∀ c s, separators_ok s → separators_ok (E.run c s))
    (hb : Sep st) :
    SepP (normal_mode_unshifted E key st) := by
  unfold normal_mode_unshifted
  repeat' first
    | (refine so_next _ _ ?_ ?_)
    | (refine so_bind _ _ ?_ ?_)
    | (refine so_pick _ _ ?_ ?_)
    | (refine pred_ite (fun r : St => Sep r) ?_ ?_ <;> intro _)
    | (refine pred_ite (fun r : Flow => SepF r) ?_ ?_ <;> intro _)
    | (refine pred_ite (fun r : Pick => SepP r) ?_ ?_ <;> intro _)
    | (refine pred_elim (fun r : St => Sep r) ?_ ?_ <;> intros)
    | (refine pred_elim (fun r : Flow => SepF r) ?_ ?_ <;> intros)
    | (intro _)
    | assumption
    | (refine so_ret ?_)
    | (refine so_go ?_)
    | (refine so_pret ?_)
    | (refine so_pcmd ?_)
    | (refine so_if_menu _ _ _ ?_ ?_)
    | (refine so_set_repeating _ _ _ ?_)
    | (refine so_repeat_shifted _ _ ?_)
    | (refine so_call E hE _ _ ?_)
    | (refine so_mark _ _ ?_)
    | (refine so_set_pending _ _ ?_)
    | (refine so_upd_arg _ _ ?_)
    | (refine so_set_arg_str _ _ _ ?_)
    | (refine so_upd _ _ rfl ?_)
    | (refine so_upd_dec _ _ rfl ?_)
    | (refine so_upd_short _ _ rfl)
    | (refine so_upd_terminator _ ?_)
    | (refine so_upd_if _ _ _ (fun _ => rfl) ?_)
    | (refine so_incomplete_append _ _ ?_)
    | (refine so_upd_pc_to_new_line E _ ?_)
    | fail

theorem so_normal_mode_shifted (E : Engine) (key : Int) (st : St) (hE : ∀ c s, separators_ok s → separators_ok (E.run c s))
    (hb : Sep st) :
    SepP (normal_mode_shifted E key st) := by
  unfold normal_mode_shifted
  repeat' first
    | (refine so_next _ _ ?_ ?_)
    | (refine so_bind _ _ ?_ ?_)
    | (refine so_pick _ _ ?_ ?_)
    | (refine so_set_solve_integ E _ _ hE ?_)
    | (refine so_open_base_menu E _ _ hE ?_)
    | (refine pred_ite (fun r : St => Sep r) ?_ ?_ <;> intro _)
    | (refine pred_ite (fun r : Flow => SepF r) ?_ ?_ <;> intro _)
    | (refine pred_ite (fun r : Pick => SepP r) ?_ ?_ <;> intro _)
    | (refine pred_elim (fun r : St => Sep r) ?_ ?_ <;> intros)
    | (refine pred_elim (fun r : Flow => SepF r) ?_ ?_ <;> intros)
    | (intro _)
    | assumption
    | (refine so_ret ?_)
    | (refine so_go ?_)
    | (refine so_pret ?_)
    | (refine so_pcmd ?_)
    | (refine so_if_menu _ _ _ ?_ ?_)
    | (refine so_set_repeating _ _ _ ?_)
    | (refine so_repeat_shifted _ _ ?_)
    | (refine so_call E hE _ _ ?_)
    | (refine so_mark _ _ ?_)
    | (refine so_set_pending _ _ ?_)
    | (refine so_upd_arg _ _ ?_)
    | (refine so_set_arg_str _ _ _ ?_)
    | (refine so_upd _ _ rfl ?_)
    | (refine so_upd_dec _ _ rfl ?_)
    | (refine so_upd_short _ _ rfl)
    | (refine so_upd_terminator _ ?_)
    | (refine so_upd_if _ _ _ (fun _ => rfl) ?_)
    | (refine so_incomplete_append _ _ ?_)
    | (refine so_upd_pc_to_new_line E _ ?_)
    | fail

theorem so_normal_mode_plain (E : Engine) (shift key : Int) (st : St) (hE : ∀ c s, separators_ok s → separators_ok (E.run c s))
    (hb : Sep st) :
    Sep (normal_mode_plain E shift key st) := by
  unfold normal_mode_plain
  repeat' first
    | (refine so_next _ _ ?_ ?_)
    | (refine so_bind _ _ ?_ ?_)
    | (refine so_pick _ _ ?_ ?_)
    | (refine so_normal_mode_unshifted E _ _ hE ?_)
    | (refine so_normal_mode_shifted E _ _ hE ?_)
    | (refine pred_ite (fun r : St => Sep r) ?_ ?_ <;> intro _)
    | (refine pred_ite (fun r : Flow => SepF r) ?_ ?_ <;> intro _)
    | (refine pred_ite (fun r : Pick => SepP r) ?_ ?_ <;> intro _)
    | (refine pred_elim (fun r : St => Sep r) ?_ ?_ <;> intros)
    | (refine pred_elim (fun r : Flow => SepF r) ?_ ?_ <;> intros)
    | (intro _)
    | assumption
    | (refine so_ret ?_)
    | (refine so_go ?_)
    | (refine so_pret ?_)
    | (refine so_pcmd ?_)
    | (refine so_if_menu _ _ _ ?_ ?_)
    | (refine so_set_repeating _ _ _ ?_)
    | (refine so_repeat_shifted _ _ ?_)
    | (refine so_call E hE _ _ ?_)
    | (refine so_mark _ _ ?_)
    | (refine so_set_pending _ _ ?_)
    | (refine so_upd_arg _ _ ?_)
    | (refine so_set_arg_str _ _ _ ?_)
    | (refine so_upd _ _ rfl ?_)
    | (refine so_upd_dec _ _ rfl ?_)
    | (refine so_upd_short _ _ rfl)
    | (refine so_upd_terminator _ ?_)
    | (refine so_upd_if _ _ _ (fun _ => rfl) ?_)
    | (refine so_incomplete_append _ _ ?_)
    | (refine so_upd_pc_to_new_line E _ ?_)
    | fail

theorem so_normal_mode_prgm_bsp (E : Engine) (st : St) (hE : ∀ c s, separators_ok s → separators_ok (E.run c s))
    (hb : Sep st) :
    Sep (normal_mode_prgm_bsp E st) := by
  unfold normal_mode_prgm_bsp
  repeat' first
    | (refine so_next _ _ ?_ ?_)
    | (refine so_bind _ _ ?_ ?_)
    | (refine so_pick _ _ ?_ ?_)
    | (refine so_delete_current_line E _ _ hE ?_)
    | (refine pred_ite (fun r : St => Sep r) ?_ ?_ <;> intro _)
    | (refine pred_ite (fun r : Flow => SepF r) ?_ ?_ <;> intro _)
    | (refine pred_ite (fun r : Pick => SepP r) ?_ ?_ <;> intro _)
    | (refine pred_elim (fun r : St => Sep r) ?_ ?_ <;> intros)
    | (refine pred_elim (fun r : Flow => SepF r) ?_ ?_ <;> intros)
    | (intro _)
    | assumption
    | (refine so_ret ?_)
    | (refine so_go ?_)
    | (refine so_pret ?_)
    | (refine so_pcmd ?_)
    | (refine so_if_menu _ _ _ ?_ ?_)
    | (refine so_set_repeating _ _ _ ?_)
    | (refine so_repeat_shifted _ _ ?_)
    | (refine so_call E hE _ _ ?_)
    | (refine so_mark _ _ ?_)
    | (refine so_set_pending _ _ ?_)
    | (refine so_upd_arg _ _ ?_)
    | (refine so_set_arg_str _ _ _ ?_)
    | (refine so_upd _ _ rfl ?_)
    | (refine so_upd_dec _ _ rfl ?_)
    | (refine so_upd_short _ _ rfl)
    | (refine so_upd_terminator _ ?_)
    | (refine so_upd_if _ _ _ (fun _ => rfl) ?_)
    | (refine so_incomplete_append _ _ ?_)
    | (refine so_upd_pc_to_new_line E _ ?_)
    | fail

theorem so_keydown_normal_mode (E : Engine) (shift key : Int) (st : St) (hE : ∀ c s, separators_ok s → separators_ok (E.run c s))
    (hb : Sep st) :
    Sep (keydown_normal_mode E shift key st) := by
  unfold keydown_normal_mode
  repeat' first
    | (refine so_next _ _ ?_ ?_)
    | (refine so_bind _ _ ?_ ?_)
    | (refine so_pick _ _ ?_ ?_)
    | (refine so_normal_mode_number_key E _ _ _ hE ?_)
    | (refine so_normal_mode_menu E _ _ _ hE ?_)
    | (refine so_normal_mode_plain E _ _ _ hE ?_)
    | (refine so_normal_mode_prgm_bsp E _ hE ?_)
    | (refine pred_ite (fun r : St => Sep r) ?_ ?_ <;> intro _)
    | (refine pred_ite (fun r : Flow => SepF r) ?_ ?_ <;> intro _)
    | (refine pred_ite (fun r : Pick => SepP r) ?_ ?_ <;> intro _)
    | (refine pred_elim (fun r : St => Sep r) ?_ ?_ <;> intros)
    | (refine pred_elim (fun r : Flow => SepF r) ?_ ?_ <;> intros)
    | (intro _)
    | assumption
    | (refine so_ret ?_)
    | (refine so_go ?_)
    | (refine so_pret ?_)
    | (refine so_pcmd ?_)
    | (refine so_if_menu _ _ _ ?_ ?_)
    | (refine so_set_repeating _ _ _ ?_)
    | (refine so_repeat_shifted _ _ ?_)
    | (refine so_call E hE _ _ ?_)
    | (refine so_mark _ _ ?_)
    | (refine so_set_pending _ _ ?_)
    | (refine so_upd_arg _ _ ?_)
    | (refine so_set_arg_str _ _ _ ?_)
    | (refine so_upd _ _ rfl ?_)
    | (refine so_upd_dec _ _ rfl ?_)
    | (refine so_upd_short _ _ rfl)
    | (refine so_upd_terminator _ ?_)
    | (refine so_upd_if _ _ _ (fun _ => rfl) ?_)
    | (refine so_incomplete_append _ _ ?_)
    | (refine so_upd_pc_to_new_line E _ ?_)
    | fail

theorem so_keydown_dispatch (E : Engine) (shift key : Int) (st : St) (hE : ∀ c s, separators_ok s → separators_ok (E.run c s))
    (hb : Sep st) :
    Sep (keydown_dispatch E shift key st) := by
  unfold keydown_dispatch
  repeat' first
    | (refine so_next _ _ ?_ ?_)
    | (refine so_bind _ _ ?_ ?_)
    | (refine so_pick _ _ ?_ ?_)
    | (refine so_keydown_number_entry E _ _ _ hE ?_)
    | (refine so_keydown_command_entry E _ _ _ hE ?_)
    | (refine so_keydown_alpha_mode E _ _ _ hE ?_)
    | (refine so_keydown_normal_mode E _ _ _ hE ?_)
    | (refine pred_ite (fun r : St => Sep r) ?_ ?_ <;> intro _)
    | (refine pred_ite (fun r : Flow => SepF r) ?_ ?_ <;> intro _)
    | (refine pred_ite (fun r : Pick => SepP r) ?_ ?_ <;> intro _)
    | (refine pred_elim (fun r : St => Sep r) ?_ ?_ <;> intros)
    | (refine pred_elim (fun r : Flow => SepF r) ?_ ?_ <;> intros)
    | (intro _)
    | assumption
    | (refine so_ret ?_)
    | (refine so_go ?_)
    | (refine so_pret ?_)
    | (refine so_pcmd ?_)
    | (refine so_if_menu _ _ _ ?_ ?_)
    | (refine so_set_repeating _ _ _ ?_)
    | (refine so_repeat_shifted _ _ ?_)
    | (refine so_call E hE _ _ ?_)
    | (refine so_mark _ _ ?_)
    | (refine so_set_pending _ _ ?_)
    | (refine so_upd_arg _ _ ?_)
    | (refine so_set_arg_str _ _ _ ?_)
    | (refine so_upd _ _ rfl ?_)
    | (refine so_upd_dec _ _ rfl ?_)
    | (refine so_upd_short _ _ rfl)
    | (refine so_upd_terminator _ ?_)
    | (refine so_upd_if _ _ _ (fun _ => rfl) ?_)
    | (refine so_incomplete_append _ _ ?_)
    | (refine so_upd_pc_to_new_line E _ ?_)
    | fail

theorem so_store_number_line (E : Engine) (st : St) (hE : ∀ c s, separators_ok s → separators_ok (E.run c s))
    (hb : Sep st) :
    Sep (store_number_line E st) := by
  unfold store_number_line
  repeat' first
    | (refine so_next _ _ ?_ ?_)
    | (refine so_bind _ _ ?_ ?_)
    | (refine so_pick _ _ ?_ ?_)
    | (refine pred_ite (fun r : St => Sep r) ?_ ?_ <;> intro _)
    | (refine pred_ite (fun r : Flow => SepF r) ?_ ?_ <;> intro _)
    | (refine pred_ite (fun r : Pick => SepP r) ?_ ?_ <;> intro _)
    | (refine pred_elim (fun r : St => Sep r) ?_ ?_ <;> intros)
    | (refine pred_elim (fun r : Flow => SepF r) ?_ ?_ <;> intros)
    | (intro _)
    | assumption
    | (refine so_ret ?_)
    | (refine so_go ?_)
    | (refine so_pret ?_)
    | (refine so_pcmd ?_)
    | (refine so_if_menu _ _ _ ?_ ?_)
    | (refine so_set_repeating _ _ _ ?_)
    | (refine so_repeat_shifted _ _ ?_)
    | (refine so_call E hE _ _ ?_)
    | (refine so_mark _ _ ?_)
    | (refine so_set_pending _ _ ?_)
    | (refine so_upd_arg _ _ ?_)
    | (refine so_set_arg_str _ _ _ ?_)
    | (refine so_upd _ _ rfl ?_)
    | (refine so_upd_dec _ _ rfl ?_)
    | (refine so_upd_short _ _ rfl)
    | (refine so_upd_terminator _ ?_)
    | (refine so_upd_if _ _ _ (fun _ => rfl) ?_)
    | (refine so_incomplete_append _ _ ?_)
    | (refine so_upd_pc_to_new_line E _ ?_)
    | fail

theorem so_keydown_getkey (E : Engine) (shift key : Int) (st : St) (hE : ∀ c s, separators_ok s → separators_ok (E.run c s))
    (hb : Sep st) :
    Sep (keydown_getkey E shift key st) := by
  unfold keydown_getkey
  repeat' first
    | (refine so_next _ _ ?_ ?_)
    | (refine so_bind _ _ ?_ ?_)
    | (refine so_pick _ _ ?_ ?_)
    | (refine pred_ite (fun r : St => Sep r) ?_ ?_ <;> intro _)
    | (refine pred_ite (fun r : Flow => SepF r) ?_ ?_ <;> intro _)
    | (refine pred_ite (fun r : Pick => SepP r) ?_ ?_ <;> intro _)
    | (refine pred_elim (fun r : St => Sep r) ?_ ?_ <;> intros)
    | (refine pred_elim (fun r : Flow => SepF r) ?_ ?_ <;> intros)
    | (intro _)
    | assumption
    | (refine so_ret ?_)
    | (refine so_go ?_)
    | (refine so_pret ?_)
    | (refine so_pcmd ?_)
    | (refine so_if_menu _ _ _ ?_ ?_)
    | (refine so_set_repeating _ _ _ ?_)
    | (refine so_repeat_shifted _ _ ?_)
    | (refine so_call E hE _ _ ?_)
    | (refine so_mark _ _ ?_)
    | (refine so_set_pending _ _ ?_)
    | (refine so_upd_arg _ _ ?_)
    | (refine so_set_arg_str _ _ _ ?_)
    | (refine so_upd _ _ rfl ?_)
    | (refine so_upd_dec _ _ rfl ?_)
    | (refine so_upd_short _ _ rfl)
    | (refine so_upd_terminator _ ?_)
    | (refine so_upd_if _ _ _ (fun _ => rfl) ?_)
    | (refine so_incomplete_append _ _ ?_)
    | (refine so_upd_pc_to_new_line E _ ?_)
    | fail

theorem so_keydown_prgm_toggle (E : Engine) (st : St) (hE : ∀ c s, separators_ok s → separators_ok (E.run c s))
    (hb : Sep st) :
    Sep (keydown_prgm_toggle E st) := by
  unfold keydown_prgm_toggle
  repeat' first
    | (refine so_next _ _ ?_ ?_)
    | (refine so_bind _ _ ?_ ?_)
    | (refine so_pick _ _ ?_ ?_)
    | (refine so_store_number_line E _ hE ?_)
    | (refine pred_ite (fun r : St => Sep r) ?_ ?_ <;> intro _)
    | (refine pred_ite (fun r : Flow => SepF r) ?_ ?_ <;> intro _)
    | (refine pred_ite (fun r : Pick => SepP r) ?_ ?_ <;> intro _)
    | (refine pred_elim (fun r : St => Sep r) ?_ ?_ <;> intros)
    | (refine pred_elim (fun r : Flow => SepF r) ?_ ?_ <;> intros)
    | (intro _)
    | assumption
    | (refine so_ret ?_)
    | (refine so_go ?_)
    | (refine so_pret ?_)
    | (refine so_pcmd ?_)
    | (refine so_if_menu _ _ _ ?_ ?_)
    | (refine so_set_repeating _ _ _ ?_)
    | (refine so_repeat_shifted _ _ ?_)
    | (refine so_call E hE _ _ ?_)
    | (refine so_mark _ _ ?_)
    | (refine so_set_pending _ _ ?_)
    | (refine so_upd_arg _ _ ?_)
    | (refine so_set_arg_str _ _ _ ?_)
    | (refine so_upd _ _ rfl ?_)
    | (refine so_upd_dec _ _ rfl ?_)
    | (refine so_upd_short _ _ rfl)
    | (refine so_upd_terminator _ ?_)
    | (refine so_upd_if _ _ _ (fun _ => rfl) ?_)
    | (refine so_incomplete_append _ _ ?_)
    | (refine so_upd_pc_to_new_line E _ ?_)
    | fail

theorem so_end_number_entry (E : Engine) (st : St) (hE : ∀ c s, separators_ok s → separators_ok (E.run c s))
    (hb : Sep st) :
    Sep (end_number_entry E st) := by
  unfold end_number_entry
  repeat' first
    | (refine so_next _ _ ?_ ?_)
    | (refine so_bind _ _ ?_ ?_)
    | (refine so_pick _ _ ?_ ?_)
    | (refine so_store_number_line E _ hE ?_)
    | (refine pred_ite (fun r : St => Sep r) ?_ ?_ <;> intro _)
    | (refine pred_ite (fun r : Flow => SepF r) ?_ ?_ <;> intro _)
    | (refine pred_ite (fun r : Pick => SepP r) ?_ ?_ <;> intro _)
    | (refine pred_elim (fun r : St => Sep r) ?_ ?_ <;> intros)
    | (refine pred_elim (fun r : Flow => SepF r) ?_ ?_ <;> intros)
    | (intro _)
    | assumption
    | (refine so_ret ?_)
    | (refine so_go ?_)
    | (refine so_pret ?_)
    | (refine so_pcmd ?_)
    | (refine so_if_menu _ _ _ ?_ ?_)
    | (refine so_set_repeating _ _ _ ?_)
    | (refine so_repeat_shifted _ _ ?_)
    | (refine so_call E hE _ _ ?_)
    | (refine so_mark _ _ ?_)
    | (refine so_set_pending _ _ ?_)
    | (refine so_upd_arg _ _ ?_)
    | (refine so_set_arg_str _ _ _ ?_)
    | (refine so_upd _ _ rfl ?_)
    | (refine so_upd_dec _ _ rfl ?_)
    | (refine so_upd_short _ _ rfl)
    | (refine so_upd_terminator _ ?_)
    | (refine so_upd_if _ _ _ (fun _ => rfl) ?_)
    | (refine so_incomplete_append _ _ ?_)
    | (refine so_upd_pc_to_new_line E _ ?_)
    | fail

theorem so_keydown_leave_number_entry (E : Engine) (shift key : Int) (st : St) (hE : ∀ c s, separators_ok s → separators_ok (E.run c s))
    (hb : Sep st) :
    SepF (keydown_leave_number_entry E shift key st) := by
  unfold keydown_leave_number_entry
  repeat' first
    | (refine so_next _ _ ?_ ?_)
    | (refine so_bind _ _ ?_ ?_)
    | (refine so_pick _ _ ?_ ?_)
    | (refine so_end_number_entry E _ hE ?_)
    | (refine pred_ite (fun r : St => Sep r) ?_ ?_ <;> intro _)
    | (refine pred_ite (fun r : Flow => SepF r) ?_ ?_ <;> intro _)
    | (refine pred_ite (fun r : Pick => SepP r) ?_ ?_ <;> intro _)
    | (refine pred_elim (fun r : St => Sep r) ?_ ?_ <;> intros)
    | (refine pred_elim (fun r : Flow => SepF r) ?_ ?_ <;> intros)
    | (intro _)
    | assumption
    | (refine so_ret ?_)
    | (refine so_go ?_)
    | (refine so_pret ?_)
    | (refine so_pcmd ?_)
    | (refine so_if_menu _ _ _ ?_ ?_)
    | (refine so_set_repeating _ _ _ ?_)
    | (refine so_repeat_shifted _ _ ?_)
    | (refine so_call E hE _ _ ?_)
    | (refine so_mark _ _ ?_)
    | (refine so_set_pending _ _ ?_)
    | (refine so_upd_arg _ _ ?_)
    | (refine so_set_arg_str _ _ _ ?_)
    | (refine so_upd _ _ rfl ?_)
    | (refine so_upd_dec _ _ rfl ?_)
    | (refine so_upd_short _ _ rfl)
    | (refine so_upd_terminator _ ?_)
    | (refine so_upd_if _ _ _ (fun _ => rfl) ?_)
    | (refine so_incomplete_append _ _ ?_)
    | (refine so_upd_pc_to_new_line E _ ?_)
    | fail

theorem so_keydown_navigation (E : Engine) (shift key : Int) (st : St) (hE : ∀ c s, separators_ok s → separators_ok (E.run c s))
    (hb : Sep st) :
    Sep (keydown_navigation E shift key st) := by
  unfold keydown_navigation
  repeat' first
    | (refine so_next _ _ ?_ ?_)
    | (refine so_bind _ _ ?_ ?_)
    | (refine so_pick _ _ ?_ ?_)
    | (refine so_keydown_dispatch E _ _ _ hE ?_)
    | (refine pred_ite (fun r : St => Sep r) ?_ ?_ <;> intro _)
    | (refine pred_ite (fun r : Flow => SepF r) ?_ ?_ <;> intro _)
    | (refine pred_ite (fun r : Pick => SepP r) ?_ ?_ <;> intro _)
    | (refine pred_elim (fun r : St => Sep r) ?_ ?_ <;> intros)
    | (refine pred_elim (fun r : Flow => SepF r) ?_ ?_ <;> intros)
    | (intro _)
    | assumption
    | (refine so_ret ?_)
    | (refine so_go ?_)
    | (refine so_pret ?_)
    | (refine so_pcmd ?_)
    | (refine so_if_menu _ _ _ ?_ ?_)
    | (refine so_set_repeating _ _ _ ?_)
    | (refine so_repeat_shifted _ _ ?_)
    | (refine so_call E hE _ _ ?_)
    | (refine so_mark _ _ ?_)
    | (refine so_set_pending _ _ ?_)
    | (refine so_upd_arg _ _ ?_)
    | (refine so_set_arg_str _ _ _ ?_)
    | (refine so_upd _ _ rfl ?_)
    | (refine so_upd_dec _ _ rfl ?_)
    | (refine so_upd_short _ _ rfl)
    | (refine so_upd_terminator _ ?_)
    | (refine so_upd_if _ _ _ (fun _ => rfl) ?_)
    | (refine so_incomplete_append _ _ ?_)
    | (refine so_upd_pc_to_new_line E _ ?_)
    | fail

theorem so_keydown_main (E : Engine) (shift key : Int) (st : St) (hE : ∀ c s, separators_ok s → separators_ok (E.run c s))
    (hb : Sep st) :
    Sep (keydown_main E shift key st) := by
  unfold keydown_main
  repeat' first
    | (refine so_next _ _ ?_ ?_)
    | (refine so_bind _ _ ?_ ?_)
    | (refine so_pick _ _ ?_ ?_)
    | (refine so_keydown_number_entry E _ _ _ hE ?_)
    | (refine so_keydown_prgm_toggle E _ hE ?_)
    | (refine so_keydown_leave_number_entry E _ _ _ hE ?_)
    | (refine so_keydown_navigation E _ _ _ hE ?_)
    | (refine pred_ite (fun r : St => Sep r) ?_ ?_ <;> intro _)
    | (refine pred_ite (fun r : Flow => SepF r) ?_ ?_ <;> intro _)
    | (refine pred_ite (fun r : Pick => SepP r) ?_ ?_ <;> intro _)
    | (refine pred_elim (fun r : St => Sep r) ?_ ?_ <;> intros)
    | (refine pred_elim (fun r : Flow => SepF r) ?_ ?_ <;> intros)
    | (intro _)
    | assumption
    | (refine so_ret ?_)
    | (refine so_go ?_)
    | (refine so_pret ?_)
    | (refine so_pcmd ?_)
    | (refine so_if_menu _ _ _ ?_ ?_)
    | (refine so_set_repeating _ _ _ ?_)
    | (refine so_repeat_shifted _ _ ?_)
    | (refine so_call E hE _ _ ?_)
    | (refine so_mark _ _ ?_)
    | (refine so_set_pending _ _ ?_)
    | (refine so_upd_arg _ _ ?_)
    | (refine so_set_arg_str _ _ _ ?_)
    | (refine so_upd _ _ rfl ?_)
    | (refine so_upd_dec _ _ rfl ?_)
    | (refine so_upd_short _ _ rfl)
    | (refine so_upd_terminator _ ?_)
    | (refine so_upd_if _ _ _ (fun _ => rfl) ?_)
    | (refine so_incomplete_append _ _ ?_)
    | (refine so_upd_pc_to_new_line E _ ?_)
    | fail

theorem so_keydown (E : Engine) (shift key : Int) (st : St) (hE : ∀ c s, separators_ok s → separators_ok (E.run c s))
    (hb : Sep st) :
    Sep (keydown E shift key st) := by
  unfold keydown
  repeat' first
    | (refine so_next _ _ ?_ ?_)
    | (refine so_bind _ _ ?_ ?_)
    | (refine so_pick _ _ ?_ ?_)
    | (refine so_keydown_getkey E _ _ _ hE ?_)
    | (refine so_keydown_main E _ _ _ hE ?_)
    | (refine pred_ite (fun r : St => Sep r) ?_ ?_ <;> intro _)
    | (refine pred_ite (fun r : Flow => SepF r) ?_ ?_ <;> intro _)
    | (refine pred_ite (fun r : Pick => SepP r) ?_ ?_ <;> intro _)
    | (refine pred_elim (fun r : St => Sep r) ?_ ?_ <;> intros)
    | (refine pred_elim (fun r : Flow => SepF r) ?_ ?_ <;> intros)
    | (intro _)
    | assumption
    | (refine so_ret ?_)
    | (refine so_go ?_)
    | (refine so_pret ?_)
    | (refine so_pcmd ?_)
    | (refine so_if_menu _ _ _ ?_ ?_)
    | (refine so_set_repeating _ _ _ ?_)
    | (refine so_repeat_shifted _ _ ?_)
    | (refine so_call E hE _ _ ?_)
    | (refine so_mark _ _ ?_)
    | (refine so_set_pending _ _ ?_)
    | (refine so_upd_arg _ _ ?_)
    | (refine so_set_arg_str _ _ _ ?_)
    | (refine so_upd _ _ rfl ?_)
    | (refine so_upd_dec _ _ rfl ?_)
    | (refine so_upd_short _ _ rfl)
    | (refine so_upd_terminator _ ?_)
    | (refine so_upd_if _ _ _ (fun _ => rfl) ?_)
    | (refine so_incomplete_append _ _ ?_)
    | (refine so_upd_pc_to_new_line E _ ?_)
    | fail

end

/-- The text after `cmdline[cmdline_length++] = c;`. -/
theorem cmd_text_append (c : Nat) (s : State) (h0 : 0 ≤ s.cmdline_length) :
    cmd_text (cmdline_append c s) = cmd_text s ++ [c] :=
  atake_aset_succ s.cmdline s.cmdline_length c h0

/-- The characters of the text are the cells below `cmdline_length`. -/
theorem mem_cmd_text (s : State) (x : Nat) :
    x ∈ cmd_text s ↔ ∃ j : Nat, j < s.cmdline_length.toNat ∧ cmd_char s j = x := by
  unfold cmd_text atake
  rw [List.mem_map]
  constructor
  · rintro ⟨j, hj, h⟩
    exact ⟨j, List.mem_range.mp hj, h⟩
  · rintro ⟨j, hj, h⟩
    exact ⟨j, List.mem_range.mpr hj, h⟩

/-- A search over cells of which none has the property finds nothing. -/
theorem find_pos_eq_none (a : List Nat) (n : Int) (p : Nat → Bool)
    (h : ∀ j : Nat, j < n.toNat → p (aget a (j : Int)) = false) : find_pos a n p = -1 := by
  unfold find_pos
  have hf : (List.range n.toNat).find? (fun i : Nat => p (aget a (i : Int))) = none := by
    rw [List.find?_eq_none]
    intro j hj
    rw [h j (List.mem_range.mp hj)]
    decide
  rw [hf]

/-- The command line is empty or a lone `-` exactly when the decimal-point branch
takes its first case. -/
theorem dot_first_case (s : State) (h0 : 0 ≤ s.cmdline_length) :
    (s.cmdline_length = 0 ∨ (s.cmdline_length = 1 ∧ aget s.cmdline 0 = 45))
      ↔ (cmd_text s = [] ∨ cmd_text s = [45]) := by
  have hlen : (cmd_text s).length = s.cmdline_length.toNat := by
    unfold cmd_text atake
    rw [List.length_map, List.length_range]
  constructor
  · rintro (h | h)
    · left
      apply List.eq_nil_of_length_eq_zero
      rw [hlen, h]
      rfl
    · right
      have h1 : cmd_text s = atake s.cmdline (0 + 1) := by
        unfold cmd_text
        rw [h.1]
        rfl
      rw [h1, atake_succ _ _ le_rfl, h.2]
      rfl
  · rintro (h | h)
    · left
      rw [h] at hlen
      have h1 : s.cmdline_length.toNat = 0 := hlen.symm
      omega
    · right
      have h1 : s.cmdline_length.toNat = 1 := by rw [← hlen, h]; rfl
      have h2 : s.cmdline_length = 1 := by omega
      refine ⟨h2, ?_⟩
      have h3 : cmd_char s 0 ∈ cmd_text s := cmd_char_mem s 0 (by omega)
      rw [h, List.mem_singleton] at h3
      exact h3

/-- The decimal-point branch (lines 560-581) on a command line `buf`: when `buf`
has neither a decimal separator nor an exponent marker the separator is appended,
after a `0` when `buf` is empty or a lone `-`; otherwise the function returns with
the state as it was. -/
theorem number_entry_dot_spec (st : St) (h0 : 0 ≤ st.s.cmdline_length) :
    ((dot_char st.s ∉ cmd_text st.s ∧ 24 ∉ cmd_text st.s) →
        ∃ r : St, number_entry_dot st = Flow.go r
          ∧ cmd_text r.s = (if cmd_text st.s = [] ∨ cmd_text st.s = [45]
              then cmd_text st.s ++ [48, dot_char st.s] else cmd_text st.s ++ [dot_char st.s]))
      ∧ (¬ (dot_char st.s ∉ cmd_text st.s ∧ 24 ∉ cmd_text st.s) →
          number_entry_dot st = Flow.ret st) := by
  have hfirst := dot_first_case st.s h0
  by_cases hA : st.s.cmdline_length = 0 ∨ (st.s.cmdline_length = 1 ∧ aget st.s.cmdline 0 = 45)
  · have hbuf := hfirst.mp hA
    have hclean : dot_char st.s ∉ cmd_text st.s ∧ 24 ∉ cmd_text st.s := by
      rcases hbuf with h | h
      · rw [h]; exact ⟨List.not_mem_nil _, List.not_mem_nil _⟩
      · rw [h]
        refine ⟨?_, ?_⟩
        · rw [List.mem_singleton]; exact dot_char_ne_45 st.s
        · decide
    refine ⟨fun _ => ⟨_, if_pos hA, ?_⟩, fun h => absurd hclean h⟩
    rw [if_pos hbuf]
    show cmd_text (cmdline_append (dot_char st.s) (cmdline_append 48 st.s)) = _
    have h1 : 0 ≤ (cmdline_append 48 st.s).cmdline_length := by
      show 0 ≤ st.s.cmdline_length + 1
      omega
    rw [cmd_text_append _ _ h1, cmd_text_append _ _ h0, List.append_assoc]
    rfl
  · have hbuf : ¬ (cmd_text st.s = [] ∨ cmd_text st.s = [45]) := fun h => hA (hfirst.mpr h)
    refine ⟨fun hclean => ?_, fun hdirty => ?_⟩
    · have hf : find_pos st.s.cmdline st.s.cmdline_length
          (fun c => decide (c = dot_char st.s ∨ c = 24)) = -1 := by
        apply find_pos_eq_none
        intro j hj
        have hm := cmd_char_mem st.s j hj
        rw [decide_eq_false_iff_not]
        rintro (h | h)
        · exact hclean.1 (h ▸ hm)
        · exact hclean.2 (h ▸ hm)
      refine ⟨_, (if_neg hA).trans (if_pos hf), ?_⟩
      rw [if_neg hbuf]
      exact cmd_text_append _ _ h0
    · have hf : find_pos st.s.cmdline st.s.cmdline_length
          (fun c => decide (c = dot_char st.s ∨ c = 24)) ≠ -1 := by
        intro hf
        have hn := find_pos_none _ _ _ hf
        apply hdirty
        refine ⟨fun hm => ?_, fun hm => ?_⟩
        · obtain ⟨j, hj, hx⟩ := (mem_cmd_text st.s _).mp hm
          have h3 := hn j hj
          rw [decide_eq_false_iff_not] at h3
          exact h3 (Or.inl hx)
        · obtain ⟨j, hj, hx⟩ := (mem_cmd_text st.s _).mp hm
          have h3 := hn j hj
          rw [decide_eq_false_iff_not] at h3
          exact h3 (Or.inr hx)
      exact (if_neg hA).trans (if_neg hf)

/-- In base 10 the key `.` takes the decimal-point branch of
`keydown_number_entry`. -/
theorem keydown_number_entry_dot (E : Engine) (shift : Int) (st : St)
    (hbase : E.ask .get_base st.s = 10) :
    keydown_number_entry E shift KEY_DOT st
      = (number_entry_dot (st.mark .enter_number_entry)).next
          (fun x => draw_number E (store_entered_value E 10 x)) := by
  have hb1 : E.ask .get_base (st.mark .enter_number_entry).s = 10 := hbase
  unfold keydown_number_entry
  dsimp only
  rw [hb1]
  refine (if_neg (by decide)).trans ?_
  refine (if_neg (fun h => h.1 rfl)).trans ?_
  refine (if_neg (fun h => absurd h.1 (by decide))).trans ?_
  refine congrArg (fun f : Flow => f.next _) ?_
  refine (if_neg (by decide)).trans ?_
  refine (if_neg (by decide)).trans ?_
  refine (if_neg (by decide)).trans ?_
  exact if_pos rfl

/-- The well-formed command line is kept over a sequence of key events. -/
theorem separators_ok_press_keys (E : Engine)
    (hE : ∀ c s, separators_ok s → separators_ok (E.run c s))
    (keys : List (Int × Int)) (s : State) (h : separators_ok s) :
    separators_ok (press_keys E keys s) := by
  induction keys generalizing s with
  | nil => exact h
  | cons k ks ih => exact ih _ (so_keydown E k.1 k.2 (start s) hE ⟨h⟩).ok

/-- C18: in base-10 number entry the key `.` appends the decimal separator if and
only if the command line has neither a decimal separator nor an exponent marker
(character 24): then `keydown_number_entry` goes on from a state `r` whose
command line is the old one followed by the separator, or by `0` and the
separator when the old one is empty or a lone `-`; otherwise it returns with the
globals as they were. The property `separators_ok` (no two decimal separators, no
two exponent markers, no separator after an exponent marker) is kept by every
key event `keydown(shift, key)` and so over every sequence of key events, the
calls of the engine (the fixing of the separators among them) being assumed to
keep it. -/
theorem C18_decimal_separator (E : Engine) (shift key : Int) (keys : List (Int × Int))
    (st : St)
    (hE : ∀ c s, separators_ok s → separators_ok (E.run c s))
    (hbase : E.ask .get_base st.s = 10)
    (h0 : 0 ≤ st.s.cmdline_length)
    (hok : separators_ok st.s) :
    ((dot_char st.s ∉ cmd_text st.s ∧ 24 ∉ cmd_text st.s) →
        ∃ r : St, keydown_number_entry E shift KEY_DOT st
            = draw_number E (store_entered_value E 10 r)
          ∧ r.tr = st.tr ++ [.enter_number_entry]
          ∧ cmd_text r.s = (if cmd_text st.s = [] ∨ cmd_text st.s = [45]
              then cmd_text st.s ++ [48, dot_char st.s] else cmd_text st.s ++ [dot_char st.s]))
      ∧ (¬ (dot_char st.s ∉ cmd_text st.s ∧ 24 ∉ cmd_text st.s) →
          keydown_number_entry E shift KEY_DOT st = st.mark .enter_number_entry)
      ∧ separators_ok (keydown_number_entry E shift key st).s
      ∧ separators_ok (keydown E shift key (start st.s)).s
      ∧ separators_ok (press_keys E keys st.s) := by
  have hspec := number_entry_dot_spec (st.mark .enter_number_entry) h0
  have hdot := keydown_number_entry_dot E shift st hbase
  refine ⟨fun hclean => ?_, fun hdirty => ?_,
    (so_keydown_number_entry E shift key st hE ⟨hok⟩).ok,
    (so_keydown E shift key (start st.s) hE ⟨hok⟩).ok,
    separators_ok_press_keys E hE keys st.s hok⟩
  · obtain ⟨r, hr, htext⟩ := hspec.1 hclean
    refine ⟨r, ?_, ?_, htext⟩
    · rw [hdot, hr]
      rfl
    · revert hr
      unfold number_entry_dot
      dsimp only
      split_ifs <;> intro hr <;> cases hr <;> rfl
  · rw [hdot, hspec.2 hdirty]
    rfl

theorem C18_decimal_separator_witness :
    ((dot_char (start one_point_five_state).s ∉ cmd_text (start one_point_five_state).s
          ∧ 24 ∉ cmd_text (start one_point_five_state).s) →
        ∃ r : St, keydown_number_entry refEngine 0 KEY_DOT (start one_point_five_state)
            = draw_number refEngine (store_entered_value refEngine 10 r)
          ∧ r.tr = (start one_point_five_state).tr ++ [.enter_number_entry]
          ∧ cmd_text r.s = (if cmd_text (start one_point_five_state).s = []
                ∨ cmd_text (start one_point_five_state).s = [45]
              then cmd_text (start one_point_five_state).s
                ++ [48, dot_char (start one_point_five_state).s]
              else cmd_text (start one_point_five_state).s
                ++ [dot_char (start one_point_five_state).s]))
      ∧ (¬ (dot_char (start one_point_five_state).s ∉ cmd_text (start one_point_five_state).s
            ∧ 24 ∉ cmd_text (start one_point_five_state).s) →
          keydown_number_entry refEngine 0 KEY_DOT (start one_point_five_state)
            = (start one_point_five_state).mark .enter_number_entry)
      ∧ separators_ok (keydown_number_entry refEngine 0 KEY_E (start one_point_five_state)).s
      ∧ separators_ok (keydown refEngine 0 KEY_E (start (start one_point_five_state).s)).s
      ∧ separators_ok (press_keys refEngine [(0, KEY_E), (0, KEY_CHS), (0, KEY_DOT), (0, KEY_BSP)]
          (start one_point_five_state).s) :=
  C18_decimal_separator refEngine 0 KEY_E [(0, KEY_E), (0, KEY_CHS), (0, KEY_DOT), (0, KEY_BSP)]
    (start one_point_five_state)
    (fun c s h => by
      show separators_ok (ref_run c s)
      cases c <;> simp only [ref_run] <;>
        first
        | exact h
        | (split_ifs <;> first | exact h | exact separators_ok_of_view _ _ rfl h)
        | exact separators_ok_of_view _ _ rfl h)
    (by decide) (by decide) (by decide)

/-! ## C2 and C3: what keydown has done when it returns -/

@[simp] theorem sq_store_number_line (E : Engine) (st : St) :
    squeaked (store_number_line E st).tr = squeaked st.tr := by
  unfold store_number_line
  simp

theorem Ignored_store_number_line (E : Engine)
    (hpriv : ∀ c s, Call.is_private c = true → E.run c s = { s with ext := (E.run c s).ext })
    (st : St) : Ignored st.s (store_number_line E st).s := by
  have h1 : Ignored st.s { st.s with cmdline := aset st.s.cmdline st.s.cmdline_length 0 } := by
    simp [Ignored, kept, atake_aset_at_length]
  have h3 : ∀ s : State, Ignored s { s with prgm_highlight_row := 1 } := fun _ => rfl
  exact Ignored_trans h1
    (Ignored_trans (Ignored_private E hpriv (.store_command _ _ _ _) rfl _) (h3 _))

theorem outcome_keydown_prgm_toggle (E : Engine) (st : St) :
    Outcome E st (keydown_prgm_toggle E st) := by
  unfold keydown_prgm_toggle
  refine pred_ite (fun r : St => Outcome E st r) ?_ ?_ <;> intro _
  · exact Outcome_squeak E st
  · apply Outcome_loud <;> simp

@[simp] theorem sq_end_number_entry (E : Engine) (st : St) :
    squeaked (end_number_entry E st).tr = squeaked st.tr := by
  unfold end_number_entry
  dsimp only
  split_ifs <;> simp

theorem Ignored_end_number_entry (E : Engine)
    (hpriv : ∀ c s, Call.is_private c = true → E.run c s = { s with ext := (E.run c s).ext })
    (st : St) : Ignored st.s (end_number_entry E st).s := by
  have h0 : Ignored st.s (st.upd (fun s => { s with mode_number_entry := 0 })).s := rfl
  unfold end_number_entry
  dsimp only
  refine pred_ite (fun r : St => Ignored st.s r.s) (fun _ => ?_) (fun _ => ?_)
  · exact Ignored_trans h0 (Ignored_store_number_line E hpriv _)
  · refine pred_ite (fun r : St => Ignored st.s r.s) (fun _ => rfl) (fun _ => rfl)

/-- The statements that end number entry either return, or fall through with
the globals as they were apart from the variables blanked by `kept`. -/
theorem leave_number_entry_cases (E : Engine)
    (hpriv : ∀ c s, Call.is_private c = true → E.run c s = { s with ext := (E.run c s).ext })
    (shift key : Int) (st : St) :
    (∃ r, keydown_leave_number_entry E shift key st = .ret r ∧ Outcome E st r)
      ∨ (∃ x, keydown_leave_number_entry E shift key st = .go x
          ∧ Ignored st.s x.s ∧ squeaked x.tr = squeaked st.tr) := by
  unfold keydown_leave_number_entry
  dsimp only
  refine pred_ite (fun f : Flow =>
    (∃ r, f = .ret r ∧ Outcome E st r)
      ∨ (∃ x, f = .go x ∧ Ignored st.s x.s ∧ squeaked x.tr = squeaked st.tr))
    (fun _ => ?_) (fun _ => Or.inr ⟨st, rfl, rfl, rfl⟩)
  refine pred_ite (fun f : Flow =>
    (∃ r, f = .ret r ∧ Outcome E st r)
      ∨ (∃ x, f = .go x ∧ Ignored st.s x.s ∧ squeaked x.tr = squeaked st.tr))
    (fun _ => Or.inl ⟨st, rfl, Outcome_same E st⟩) (fun _ => ?_)
  refine pred_ite (fun f : Flow =>
    (∃ r, f = .ret r ∧ Outcome E st r)
      ∨ (∃ x, f = .go x ∧ Ignored st.s x.s ∧ squeaked x.tr = squeaked st.tr))
    (fun _ => Or.inl ⟨_, rfl, ?_⟩)
    (fun _ => Or.inr ⟨_, rfl, Ignored_end_number_entry E hpriv st, sq_end_number_entry E st⟩)
  exact Outcome_loud E st _ (by simp) (by simp)

theorem Verdict_squeak (E : Engine)
    (hpriv : ∀ c s, Call.is_private c = true → E.run c s = { s with ext := (E.run c s).ext })
    (s : State) (x : St) (hI : Ignored s x.s) : Verdict s (x.call E .squeak) :=
  ⟨fun _ => Or.inr (Ignored_trans hI (Ignored_private E hpriv .squeak rfl _)),
    Or.inr (Or.inr (Or.inl (by simp)))⟩

theorem Verdict_loud (s : State) (r : St) (hsq : squeaked r.tr = false)
    (hl : loud r.tr = true) : Verdict s r :=
  ⟨fun h => (by rw [hsq] at h; cases h), Or.inr (Or.inl hl)⟩

theorem Verdict_pending (s : State) (r : St) (hsq : squeaked r.tr = false)
    (hp : r.s.pending_command ≠ CMD_NONE) : Verdict s r :=
  ⟨fun h => (by rw [hsq] at h; cases h), Or.inl hp⟩

theorem Verdict_ignored (s : State) (r : St) (hsq : squeaked r.tr = false)
    (hI : Ignored s r.s) : Verdict s r :=
  ⟨fun h => (by rw [hsq] at h; cases h), Or.inr (Or.inr (Or.inr (Or.inl (Touched_of_Ignored hI))))⟩

/-- The assignments of the auto-repeat variables are blanked by `kept`. -/
theorem Ignored_repeat (c : Prop) [Decidable c] (shift key : Int) (x : St) :
    Ignored x.s (if c then
        x.upd (fun s => { s with repeating := 1, repeating_shift := shift, repeating_key := key })
      else x).s := by
  split_ifs
  · rfl
  · rfl

@[simp] theorem tr_ite_upd (c : Prop) [Decidable c] (f : State → State) (x : St) :
    (if c then x.upd f else x).tr = x.tr := by
  split_ifs <;> rfl

theorem verdict_keydown_navigation (E : Engine)
    (hpriv : ∀ c s, Call.is_private c = true → E.run c s = { s with ext := (E.run c s).ext })
    (hmenu : ∀ c s, Call.is_menu c = true → (E.run c s).pending_command = s.pending_command)
    (shift key : Int) (s : State) (x : St) (hI : Ignored s x.s) (hsq : squeaked x.tr = false) :
    Verdict s (keydown_navigation E shift key x) := by
  unfold keydown_navigation
  dsimp only
  refine pred_ite (fun r : St => Verdict s r) (fun _ => Verdict_squeak E hpriv s x hI)
    (fun _ => ?_)
  refine pred_ite (fun r : St => Verdict s r) (fun _ => ?_) (fun _ => ?_)
  · refine Verdict_loud s _ ?_ (by simp)
    split_ifs <;> simp [hsq]
  refine pred_ite (fun r : St => Verdict s r) (fun _ => ?_) (fun _ => ?_)
  · exact Verdict_loud s _ (by simp [hsq]) (by simp)
  refine pred_ite (fun r : St => Verdict s r) (fun _ => ?_) (fun _ => ?_)
  · refine Verdict_loud s _ ?_ (by simp)
    split_ifs <;> simp [hsq]
  · exact Verdict_pre (Ignored_trans hI (Ignored_repeat _ shift key x))
      (verdict_keydown_dispatch E hpriv hmenu shift key _ (by simp [hsq]))

theorem verdict_keydown_main (E : Engine)
    (hpriv : ∀ c s, Call.is_private c = true → E.run c s = { s with ext := (E.run c s).ext })
    (hmenu : ∀ c s, Call.is_menu c = true → (E.run c s).pending_command = s.pending_command)
    (shift key : Int) (s : State) (x : St) (hI : Ignored s x.s) (hsq : squeaked x.tr = false) :
    Verdict s (keydown_main E shift key x) := by
  have h2 : Ignored x.s (x.upd (fun s =>
      { s with flags := { s.flags with message := false, two_line_message := false } })).s := rfl
  unfold keydown_main
  dsimp only
  refine pred_ite (fun r : St => Verdict s r) (fun _ => ?_) (fun _ => ?_)
  · exact Verdict_pending s _ (by simp [hsq]) (by simp [set_pending])
  refine pred_ite (fun r : St => Verdict s r) (fun _ => ?_) (fun _ => ?_)
  · exact Verdict_pre hI (Verdict_of_Outcome E hpriv x _ hsq (outcome_keydown_prgm_toggle E x))
  refine pred_ite (fun r : St => Verdict s r) (fun _ => ?_) (fun _ => ?_)
  · exact Verdict_loud s _ (by simp [hsq]) (by simp)
  refine pred_ite (fun r : St => Verdict s r) (fun _ => ?_) (fun _ => ?_)
  · exact Verdict_pre (Ignored_trans hI h2)
      (Verdict_of_Outcome E hpriv (St.mark .enter_number_entry (x.upd (fun s =>
          { s with flags := { s.flags with message := false, two_line_message := false } })))
        _ (by simp [hsq])
        (outcome_keydown_number_entry E (-1) (-1) (x.upd (fun s =>
          { s with flags := { s.flags with message := false, two_line_message := false } }))))
  · rcases leave_number_entry_cases E hpriv shift key (x.upd (fun s =>
        { s with flags := { s.flags with message := false, two_line_message := false } }))
      with ⟨r, hr, ho⟩ | ⟨y, hy, hyI, hysq⟩
    · rw [hr]
      exact Verdict_pre (Ignored_trans hI h2) (Verdict_of_Outcome E hpriv _ r (by simp [hsq]) ho)
    · rw [hy]
      exact verdict_keydown_navigation E hpriv hmenu shift key s y
        (Ignored_trans (Ignored_trans hI h2) hyI) (hysq.trans (by simp [hsq]))

theorem verdict_keydown_getkey (E : Engine)
    (hpriv : ∀ c s, Call.is_private c = true → E.run c s = { s with ext := (E.run c s).ext })
    (shift key : Int) (s : State) (x : St) (hI : Ignored s x.s) (hsq : squeaked x.tr = false)
    (hg : s.mode_getkey = true) :
    Verdict s (keydown_getkey E shift key x) := by
  unfold keydown_getkey
  dsimp only
  refine pred_ite (fun r : St => Verdict s r) (fun _ => ?_) (fun _ => ?_)
  · refine ⟨fun _ => Or.inr ?_, Or.inr (Or.inl (by simp))⟩
    exact Ignored_trans hI (Ignored_trans (Ignored_private E hpriv .squeak rfl _)
      (Ignored_private E hpriv (.set_annunciators _ _ _ _ _ _) rfl _))
  refine pred_ite (fun r : St => Verdict s r) (fun _ => ?_) (fun hr => ?_)
  · refine Verdict_loud s _ ?_ (by simp)
    split_ifs <;> simp [hsq]
  · refine ⟨fun h => ?_, Or.inr (Or.inr (Or.inr (Or.inr (Or.inr (Or.inr
      ⟨hg, by simpa using hr⟩)))))⟩
    revert h
    split_ifs <;> simp [hsq]

theorem verdict_keydown (E : Engine)
    (hpriv : ∀ c s, Call.is_private c = true → E.run c s = { s with ext := (E.run c s).ext })
    (hmenu : ∀ c s, Call.is_menu c = true → (E.run c s).pending_command = s.pending_command)
    (shift key : Int) (s : State) :
    Verdict s (keydown E shift key (start s)) := by
  have hI : Ignored s (set_pending CMD_NONE ((start s).upd (fun s =>
      { s with flags := { s.flags with shift_state := shift } }))).s := rfl
  have hsq : squeaked (set_pending CMD_NONE ((start s).upd (fun s =>
      { s with flags := { s.flags with shift_state := shift } }))).tr = false := rfl
  unfold keydown
  dsimp only
  refine pred_ite (fun r : St => Verdict s r) (fun _ => Verdict_ignored s _ hsq hI) (fun _ => ?_)
  refine pred_ite (fun r : St => Verdict s r) (fun _ => Verdict_squeak E hpriv s _ hI)
    (fun _ => ?_)
  refine pred_ite (fun r : St => Verdict s r) (fun _ => ?_) (fun _ => ?_)
  · refine Verdict_pending s _ ?_ ?_
    · split_ifs <;> rfl
    · split_ifs <;> simp [set_pending]
  refine pred_ite (fun r : St => Verdict s r)
    (fun hg => verdict_keydown_getkey E hpriv shift key s _ hI hsq hg)
    (fun _ => verdict_keydown_main E hpriv hmenu shift key s _ hI hsq)

/-- A call that is private leaves the globals of the reference engine alone. -/
theorem ref_private (c : Call) (s : State) (h : Call.is_private c = true) :
    refEngine.run c s = { s with ext := (refEngine.run c s).ext } := by
  cases c <;> first | rfl | exact Bool.noConfusion h

/-- The calls that arrange the menus leave `pending_command` alone in the
reference engine. -/
theorem ref_menu (c : Call) (s : State) (h : Call.is_menu c = true) :
    (refEngine.run c s).pending_command = s.pending_command := by
  cases c <;> first
    | rfl
    | exact Bool.noConfusion h
    | (show (ref_run _ s).pending_command = s.pending_command
       simp only [ref_run]
       split_ifs <;> rfl)

/-- C2 fails on the code: in number entry in base 16 the key `.` is a recognized
key, and `keydown` returns without a pending command and without a call of a
primitive of the display, without handing the key over to the engine and without
a squeak: its only trace is the entry into `keydown_number_entry`, which returns
at once (lines 431-432). -/
theorem C2_counterexample :
    1 ≤ KEY_DOT ∧ KEY_DOT ≤ 37
      ∧ (keydown refEngine 0 KEY_DOT (start hex_entry_state)).s.pending_command = CMD_NONE
      ∧ displayed (keydown refEngine 0 KEY_DOT (start hex_entry_state)).tr = false
      ∧ loud (keydown refEngine 0 KEY_DOT (start hex_entry_state)).tr = false
      ∧ squeaked (keydown refEngine 0 KEY_DOT (start hex_entry_state)).tr = false
      ∧ (keydown refEngine 0 KEY_DOT (start hex_entry_state)).tr.length = 1 := by
  decide

/-- C2, amended: when `keydown` returns, for every state and every key event, it
has committed a command (`pending_command` is not `CMD_NONE`), or called a
primitive of the display or handed the key over to a routine of the engine, or
squeaked, or left the globals as they were apart from the variables blanked by
`kept_loosely` (the shift and message flags, `pending_command`, the variables
assigned when number entry ends, the auto-repeat variables, the private memory
of the engine, the command line and the argument of the pending command), or was
refused the BASE menu, or began number entry, or delivered the key to `GETKEY`
while the program goes on running. The calls `squeak`, `set_annunciators`,
`clear_all_rtns` and `store_command` are assumed to act on the private memory of
the engine only, and the calls that arrange the menus to leave `pending_command`
alone. -/
theorem C2_key_is_answered (E : Engine)
    (hpriv : ∀ c s, Call.is_private c = true → E.run c s = { s with ext := (E.run c s).ext })
    (hmenu : ∀ c s, Call.is_menu c = true → (E.run c s).pending_command = s.pending_command)
    (shift key : Int) (s : State) :
    (keydown E shift key (start s)).s.pending_command ≠ CMD_NONE
      ∨ loud (keydown E shift key (start s)).tr = true
      ∨ squeaked (keydown E shift key (start s)).tr = true
      ∨ Touched s (keydown E shift key (start s)).s
      ∨ refused_base_menu (keydown E shift key (start s))
      ∨ began_number_entry (keydown E shift key (start s)).tr = true
      ∨ (s.mode_getkey = true ∧ (keydown E shift key (start s)).s.mode_running = true) :=
  (verdict_keydown E hpriv hmenu shift key s).2

theorem C2_key_is_answered_witness :
    (keydown refEngine 0 KEY_DOT (start hex_entry_state)).s.pending_command ≠ CMD_NONE
      ∨ loud (keydown refEngine 0 KEY_DOT (start hex_entry_state)).tr = true
      ∨ squeaked (keydown refEngine 0 KEY_DOT (start hex_entry_state)).tr = true
      ∨ Touched hex_entry_state (keydown refEngine 0 KEY_DOT (start hex_entry_state)).s
      ∨ refused_base_menu (keydown refEngine 0 KEY_DOT (start hex_entry_state))
      ∨ began_number_entry (keydown refEngine 0 KEY_DOT (start hex_entry_state)).tr = true
      ∨ (hex_entry_state.mode_getkey = true
          ∧ (keydown refEngine 0 KEY_DOT (start hex_entry_state)).s.mode_running = true) :=
  C2_key_is_answered refEngine ref_private ref_menu 0 KEY_DOT hex_entry_state

/-- C3 fails on the code. In number entry with the CUSTOM menu shown, a menu key
without an assignment ends number entry and then squeaks: `mode_number_entry`
is 1 before the call and 0 on return. In ALPHA mode, the character that fills
the ALPHA register to 44 characters is appended and then the squeak is emitted
(lines 1919-1920): `reg_alpha_length` is 43 before the call and 44 on return. -/
theorem C3_counterexample :
    (squeaked (keydown refEngine 0 KEY_SIGMA (start custom_entry_state)).tr = true
        ∧ custom_entry_state.mode_number_entry = 1
        ∧ (keydown refEngine 0 KEY_SIGMA (start custom_entry_state)).s.mode_number_entry = 0)
      ∧ (squeaked (keydown refEngine 0 (1024 + 65) (start alpha_43_state)).tr = true
        ∧ alpha_43_state.reg_alpha_length = 43
        ∧ (keydown refEngine 0 (1024 + 65) (start alpha_43_state)).s.reg_alpha_length = 44) := by
  decide

/-- C3, amended: if `keydown` squeaks, for every state and every key event, then
either a character was appended to the ALPHA register during the call, or the
globals on return are the globals before the call apart from the variables
blanked by `kept`: the shift and message flags, `pending_command`, the variables
assigned when number entry ends (`mode_number_entry`, the cells of `cmdline`
from `cmdline_length` on, `prgm_highlight_row`, `deferred_print`), the
auto-repeat variables and the private memory of the engine. The assumptions on
the engine are those of C2. -/
theorem C3_squeak_keeps_state (E : Engine)
    (hpriv : ∀ c s, Call.is_private c = true → E.run c s = { s with ext := (E.run c s).ext })
    (hmenu : ∀ c s, Call.is_menu c = true → (E.run c s).pending_command = s.pending_command)
    (shift key : Int) (s : State)
    (hsq : squeaked (keydown E shift key (start s)).tr = true) :
    appended (keydown E shift key (start s)).tr = true
      ∨ Ignored s (keydown E shift key (start s)).s :=
  (verdict_keydown E hpriv hmenu shift key s).1 hsq

theorem C3_squeak_keeps_state_witness :
    squeaked (keydown refEngine 0 KEY_SIGMA (start custom_entry_state)).tr = true
      ∧ (appended (keydown refEngine 0 KEY_SIGMA (start custom_entry_state)).tr = true
          ∨ Ignored custom_entry_state
              (keydown refEngine 0 KEY_SIGMA (start custom_entry_state)).s) :=
  ⟨by decide,
    C3_squeak_keeps_state refEngine ref_private ref_menu 0 KEY_SIGMA custom_entry_state
      (by decide)⟩

end Free42
